import Mathlib

/-!
Verification of the pyScss expression engine (`scss/expression.py`,
`scss/rule.py`, `scss/functions/core.py`) against its natural-language
specification.

The embedding follows the Python source shallowly:

* Python machine floats are modelled as exact rationals (`ℚ`);
* fallible Python code (raising `SyntaxError`, `KeyError`, `TypeError`, ...)
  is modelled with `Except SassErr`;
* the mutable, reference-shared `VariableScope` chain of `scss/rule.py` is
  modelled with an explicit heap of dictionaries addressed by `Nat`
  references;
* `log.warn` diagnostics are threaded through evaluation as an explicit
  list of warning strings.

The value system (`scss/types.py`), the scanner engine (`scss/_native.py`),
the CSS definitions (`scss/cssdefs.py`) and the small utility module
(`scss/util.py`) belong to the repository but are not under `src/`; each
definition translated from them is modelled from the spec and marked
`Modelled from the spec:` in its doc comment.  Everything else is
translated directly from the source files under `src/`.
-/

/-- Error taxonomy of the engine (spec section 7); `SyntaxErr` corresponds to
Python's `SyntaxError` raised by the scanner/parser, `KeyErr` to `KeyError`
raised by failing namespace lookups, `TypeErr` to `TypeError` raised by
values, `ZeroDiv` to `ZeroDivisionError`, `NoMoreTok` to the scanner's
`NoMoreTokens`, and `OutOfFuel` is the embedding's recursion bound (never
reached for the concrete inputs below). -/
inductive SassErr where
  | SyntaxErr (msg : String)
  | KeyErr (key : String)
  | TypeErr (msg : String)
  | ZeroDiv
  | NoMoreTok
  | OutOfFuel
  deriving DecidableEq, Repr

/-- Fueled Euclidean algorithm; the fuel bound `a + b + 1` always
suffices, and a fueled definition (unlike well-founded recursion) reduces
inside the kernel. -/
def gcdFuel : Nat → Nat → Nat → Nat
  | 0, _, b => b
  | _ + 1, 0, b => b
  | fuel + 1, a + 1, b => gcdFuel fuel (b % (a + 1)) (a + 1)

/-- Greatest common divisor via `gcdFuel`. -/
def gcdQ (a b : Nat) : Nat := gcdFuel (a + b + 1) a b

/-- Modelled from the spec: exact rational magnitudes standing for the
Python machine floats of the value system (`scss/types.py` is not under
`src/`).  Stored in lowest terms with a positive denominator; all
operations construct through `mkQ`, so structural equality is rational
equality on every value the engine builds. -/
structure SassQ where
  num : Int
  den : Nat
  deriving DecidableEq, Repr

/-- Normalizing constructor: sign into the numerator, reduced to lowest
terms (a zero divisor never reaches this point — division checks first). -/
def mkQ (n d : Int) : SassQ :=
  if d = 0 then ⟨0, 1⟩
  else
    let s : Int := if d < 0 then -n else n
    let dd : Nat := d.natAbs
    let g : Nat := gcdQ s.natAbs dd
    ⟨s / (g : Int), dd / g⟩

instance (n : Nat) : OfNat SassQ n := ⟨⟨n, 1⟩⟩

/-- Natural number as a rational magnitude. -/
def SassQ.fromNat (n : Nat) : SassQ := ⟨n, 1⟩

/-- Rational addition. -/
def SassQ.add (x y : SassQ) : SassQ :=
  mkQ (x.num * y.den + y.num * x.den) (x.den * y.den)

/-- Rational subtraction. -/
def SassQ.sub (x y : SassQ) : SassQ :=
  mkQ (x.num * y.den - y.num * x.den) (x.den * y.den)

/-- Rational multiplication. -/
def SassQ.mul (x y : SassQ) : SassQ := mkQ (x.num * y.num) (x.den * y.den)

/-- Rational division (a zero divisor is rejected before this point). -/
def SassQ.divQ (x y : SassQ) : SassQ := mkQ (x.num * y.den) (x.den * y.num)

/-- Rational negation (normal forms are stable under negation). -/
def SassQ.negQ (x : SassQ) : SassQ := ⟨-x.num, x.den⟩

/-- Strict comparison by cross-multiplication. -/
def SassQ.blt (x y : SassQ) : Bool := x.num * y.den < y.num * x.den

/-- Non-strict comparison by cross-multiplication. -/
def SassQ.ble (x y : SassQ) : Bool := x.num * y.den ≤ y.num * x.den

/-- Is the magnitude zero (Python `b == 0` for the division guard). -/
def SassQ.isZero (x : SassQ) : Bool := x.num == 0

/-- Modelled from the spec: `String{text, quote_kind: none|single|double}`
(the value system `scss/types.py` is not under `src/`). -/
inductive QuoteKind where
  | NoQuotes
  | Single
  | Double
  deriving DecidableEq, Repr

/-- Modelled from the spec: the Sass runtime value variants of section 3
(`scss/types.py` is not under `src/`).  `Number` carries an exact rational
magnitude (modelling the Python float) together with ordered unit numerator
and denominator sequences; `Color` carries rgba channels (its origin kind is
rendering-only and not needed by any claim); `ListValue` carries items and
a comma/space separator flag. -/
inductive Value where
  | Number (magnitude : SassQ) (unitNumer unitDenom : List String)
  | Color (r g b a : SassQ)
  | String (text : String) (quotes : QuoteKind)
  | Boolean (b : Bool)
  | Null
  | ListValue (items : List Value) (comma : Bool)

mutual

/-- Modelled from the spec: structural equality of runtime values, standing
for Python `==` on the value classes of `scss/types.py` (not under `src/`). -/
def valueBeq : Value → Value → Bool
  | .Number a n1 d1, .Number b n2 d2 => a == b && n1 == n2 && d1 == d2
  | .Color r g b a, .Color r' g' b' a' => r == r' && g == g' && b == b' && a == a'
  | .String s q, .String s' q' => s == s' && q == q'
  | .Boolean x, .Boolean y => x == y
  | .Null, .Null => true
  | .ListValue xs c, .ListValue ys c' => c == c' && valueListBeq xs ys
  | _, _ => false

/-- Pointwise `valueBeq` on lists of values. -/
def valueListBeq : List Value → List Value → Bool
  | [], [] => true
  | x :: xs, y :: ys => valueBeq x y && valueListBeq xs ys
  | _, _ => false

end

/-- Modelled from the spec: boolean coercion of a value — `Null` and
boolean `false` are falsy; all other values, including empty lists and
zero, are truthy (spec section 4.3). -/
def truthy : Value → Bool
  | .Null => false
  | .Boolean b => b
  | _ => true

/-- One decimal digit character. -/
def digitChar : Nat → Char
  | 0 => '0'
  | 1 => '1'
  | 2 => '2'
  | 3 => '3'
  | 4 => '4'
  | 5 => '5'
  | 6 => '6'
  | 7 => '7'
  | 8 => '8'
  | _ => '9'

/-- Fueled digit expansion of a natural number (most significant first). -/
def natDigits : Nat → Nat → List Char
  | 0, _ => []
  | fuel + 1, n =>
      if n < 10 then [digitChar n]
      else natDigits fuel (n / 10) ++ [digitChar (n % 10)]

/-- Digits of a natural number, used by the decimal renderer. -/
def natToStr (n : Nat) : String := String.mk (natDigits (n + 1) n)

/-- Strip trailing `'0'` characters, used when rendering decimals. -/
def dropTrailingZeros (cs : List Char) : List Char :=
  (cs.reverse.dropWhile (· = '0')).reverse

/-- Modelled from the spec: render a nonnegative rational as CSS decimal
text with at most five fractional digits (rounded half-up) and trailing
zeros stripped (standing for the float formatting in `scss/types.py`, not
under `src/`; exact on every value appearing in the claims). -/
def renderQnn (q : SassQ) : String :=
  let n := q.num.toNat
  let intPart := n / q.den
  let rem := n % q.den
  let scaled := (rem * 100000 * 2 + q.den) / (2 * q.den)
  let digits : List Char := (natToStr scaled).data
  let padded : List Char := List.replicate (5 - digits.length) '0' ++ digits
  let kept : List Char := dropTrailingZeros padded
  if kept.isEmpty then natToStr intPart
  else natToStr intPart ++ "." ++ String.mk kept

/-- Render a rational magnitude, negative values with a leading minus. -/
def renderQ (q : SassQ) : String :=
  if q.num < 0 then "-" ++ renderQnn (SassQ.negQ q) else renderQnn q

/-- Hexadecimal digit for a value below 16. -/
def hexDigit (n : Nat) : Char :=
  if n < 10 then digitChar n
  else match n with
       | 10 => 'a'
       | 11 => 'b'
       | 12 => 'c'
       | 13 => 'd'
       | 14 => 'e'
       | _ => 'f' 

/-- Two-digit hexadecimal form of a color channel. -/
def hexByte (q : SassQ) : String :=
  let n := q.num.toNat / q.den
  String.mk [hexDigit (n / 16 % 16), hexDigit (n % 16)]

mutual

/-- Modelled from the spec: CSS rendering of a value (`render` in
`scss/types.py`, not under `src/`).  Numbers render magnitude followed by
their unit sequence, unquoted strings render their bare text, quoted
strings keep their quotes, colors render as hex, lists join their rendered
items with the separator. -/
def renderValue : Value → String
  | .Number q numer denom =>
      renderQ q ++ String.join numer ++
        (if denom.isEmpty then "" else "/" ++ String.join denom)
  | .Color r g b _ => "#" ++ hexByte r ++ hexByte g ++ hexByte b
  | .String s .NoQuotes => s
  | .String s .Single => "'" ++ s ++ "'"
  | .String s .Double => "\"" ++ s ++ "\""
  | .Boolean b => if b then "true" else "false"
  | .Null => ""
  | .ListValue items comma => renderValueList items (if comma then ", " else " ")

/-- Render list items joined by a separator. -/
def renderValueList : List Value → String → String
  | [], _ => ""
  | [v], _ => renderValue v
  | v :: vs, sep => renderValue v ++ sep ++ renderValueList vs sep

end

/-- The scalar operators appearing in `BinaryOp`/`UnaryOp` nodes
(`operator.add`, `operator.truediv`, `operator.neg`, ... in
`scss/expression.py`). -/
inductive SassOp where
  | add
  | sub
  | mul
  | div
  | lt
  | gt
  | le
  | ge
  | eq
  | ne
  | neg
  | pos
  deriving DecidableEq, Repr

/-- Modelled from the spec: unit-respecting addition/subtraction — adding
requires identical units or one unitless operand, the united operand's
units win (spec sections 4.3 and 8; `scss/types.py` is not under `src/`). -/
def addUnits (n1 d1 n2 d2 : List String) : Option (List String × List String) :=
  if n1 = n2 ∧ d1 = d2 then some (n1, d1)
  else if n1 = [] ∧ d1 = [] then some (n2, d2)
  else if n2 = [] ∧ d2 = [] then some (n1, d1)
  else none

/-- Modelled from the spec: the binary scalar operator dispatch of the
value system (spec section 4.3; `scss/types.py` is not under `src/`).
Number arithmetic follows unit algebra — multiplication and division
combine the unit numerator/denominator sequences; equality is structural;
unsupported type pairs raise `TypeError`. -/
def binaryApply : SassOp → Value → Value → Except SassErr Value
  | .add, .Number a n1 d1, .Number b n2 d2 =>
      match addUnits n1 d1 n2 d2 with
      | some (n, d) => .ok (.Number (a.add b) n d)
      | none => .error (.TypeErr "incompatible units")
  | .sub, .Number a n1 d1, .Number b n2 d2 =>
      match addUnits n1 d1 n2 d2 with
      | some (n, d) => .ok (.Number (a.sub b) n d)
      | none => .error (.TypeErr "incompatible units")
  | .mul, .Number a n1 d1, .Number b n2 d2 =>
      .ok (.Number (a.mul b) (n1 ++ n2) (d1 ++ d2))
  | .div, .Number a n1 d1, .Number b n2 d2 =>
      if b.isZero then .error .ZeroDiv
      else .ok (.Number (a.divQ b) (n1 ++ d2) (d1 ++ n2))
  | .lt, .Number a _ _, .Number b _ _ => .ok (.Boolean (a.blt b))
  | .gt, .Number a _ _, .Number b _ _ => .ok (.Boolean (b.blt a))
  | .le, .Number a _ _, .Number b _ _ => .ok (.Boolean (a.ble b))
  | .ge, .Number a _ _, .Number b _ _ => .ok (.Boolean (b.ble a))
  | .eq, l, r => .ok (.Boolean (valueBeq l r))
  | .ne, l, r => .ok (.Boolean (!valueBeq l r))
  | _, _, _ => .error (.TypeErr "unsupported operand types")

/-- Modelled from the spec: the unary operators `operator.neg` and
`operator.pos` on numbers (`scss/types.py` is not under `src/`). -/
def unaryApply : SassOp → Value → Except SassErr Value
  | .neg, .Number a n d => .ok (.Number (SassQ.negQ a) n d)
  | .pos, .Number a n d => .ok (.Number a n d)
  | _, _ => .error (.TypeErr "bad operand type for unary operator")

/-- Translated from `scss/rule.py` `normalize_var`: hyphens and
underscores in variable/function names are interchangeable, normalized by
replacing `_` with `-`. -/
def normalize_var (s : String) : String :=
  String.mk (s.data.map (fun c => if c = '_' then '-' else c))

theorem normalize_var_idem (s : String) :
    normalize_var (normalize_var s) = normalize_var s := by
  unfold normalize_var
  simp only [List.map_map]
  congr 1
  apply List.map_congr_left
  intro c _
  by_cases h : c = '_' <;> simp [h]

/-- Modelled from the spec: a representative subset of the fixed CSS
color-name keyword table (`COLOR_NAMES` lives in `scss/cssdefs.py`, not
under `src/`); only membership of ordinary identifiers matters to the
claims, none of which uses a color name. -/
def COLOR_NAMES : List (String × (SassQ × SassQ × SassQ)) :=
  [("red", (255, 0, 0)), ("green", (0, 128, 0)), ("blue", (0, 0, 255)),
   ("white", (255, 255, 255)), ("black", (0, 0, 0)), ("yellow", (255, 255, 0))]

/-- Translated from `scss/expression.py` `parse_bareword`: color names
become colors, `null`/`undefined` become `Null`, `true`/`false` become
booleans, anything else an unquoted string. -/
def parse_bareword (word : String) : Value :=
  match (COLOR_NAMES.find? (fun p => p.1 = word)).map (·.2) with
  | some (r, g, b) => .Color r g b 1
  | none =>
      if word = "null" ∨ word = "undefined" then .Null
      else if word = "true" then .Boolean true
      else if word = "false" then .Boolean false
      else .String word .NoQuotes

/-- Is the character an ASCII decimal digit. -/
def isDigitC (c : Char) : Bool := '0' ≤ c && c ≤ '9'

/-- Is the character an ASCII letter. -/
def isAlphaC (c : Char) : Bool := ('a' ≤ c && c ≤ 'z') || ('A' ≤ c && c ≤ 'Z')

/-- Python regex `\w` (ASCII): letter, digit or underscore. -/
def isWordC (c : Char) : Bool := isAlphaC c || isDigitC c || c = '_'

/-- Python regex class `[-\w]`. -/
def isDashWordC (c : Char) : Bool := c = '-' || isWordC c

/-- Is the character an ASCII hexadecimal digit. -/
def isHexC (c : Char) : Bool :=
  isDigitC c || ('a' ≤ c && c ≤ 'f') || ('A' ≤ c && c ≤ 'F')

/-- The scanner's ignored-whitespace class `[ \r\t\n]`. -/
def wsChar (c : Char) : Bool := c = ' ' || c = '\r' || c = '\t' || c = '\n'

/-- Python regex `\s` (ASCII). -/
def pyWsC (c : Char) : Bool :=
  c = ' ' || c = '\t' || c = '\n' || c = '\r' || c = '\x0b' || c = '\x0c'

/-- Identifier start class `[-a-zA-Z_]` of the `FNCT`/`ID` patterns. -/
def identStartC (c : Char) : Bool := c = '-' || isAlphaC c || c = '_'

/-- Identifier continuation class `[-a-zA-Z0-9_]`. -/
def identC (c : Char) : Bool := c = '-' || isAlphaC c || isDigitC c || c = '_'

/-- Length of the maximal prefix satisfying a predicate. -/
def maxRun (p : Char → Bool) : List Char → Nat
  | [] => 0
  | c :: cs => if p c then maxRun p cs + 1 else 0

/-- Numeric value of ASCII decimal digits. -/
def digitsToNat : List Char → Nat → Nat
  | [], acc => acc
  | c :: cs, acc => digitsToNat cs (acc * 10 + (c.toNat - '0'.toNat))

/-- Translated from `scss/expression.py` `atom` (`float(NUM)`): the text
matched by the `NUM` pattern `(?:\d+(?:\.\d*)?|\.\d+)` read as an exact
rational. -/
def parseNum (s : String) : SassQ :=
  let cs := s.data
  let intPart := cs.takeWhile (· ≠ '.')
  let fracPart := (cs.dropWhile (· ≠ '.')).drop 1
  (SassQ.fromNat (digitsToNat intPart 0)).add
    (if fracPart.isEmpty then ⟨0, 1⟩
     else mkQ (digitsToNat fracPart 0) ((10 : Int) ^ fracPart.length))

/-- Numeric value of ASCII hexadecimal digits. -/
def hexToNat : List Char → Nat → Nat
  | [], acc => acc
  | c :: cs, acc =>
      hexToNat cs (acc * 16 +
        (if isDigitC c then c.toNat - '0'.toNat
         else if 'a' ≤ c && c ≤ 'f' then c.toNat - 'a'.toNat + 10
         else c.toNat - 'A'.toNat + 10))

/-- Modelled from the spec: a hex `COLOR` token (`#rgb` or `#rrggbb`) read
into a color value with opaque alpha (`ColorValue(ParserValue(...))` lives
in `scss/types.py`, not under `src/`). -/
def parseHexColor (s : String) : Value :=
  let ds := s.data.drop 1
  if ds.length = 3 then
    match ds with
    | [r, g, b] =>
        .Color (SassQ.fromNat (hexToNat [r] 0 * 17)) (SassQ.fromNat (hexToNat [g] 0 * 17))
          (SassQ.fromNat (hexToNat [b] 0 * 17)) 1
    | _ => .Color 0 0 0 1
  else
    .Color (SassQ.fromNat (hexToNat (ds.take 2) 0)) (SassQ.fromNat (hexToNat ((ds.drop 2).take 2) 0))
      (SassQ.fromNat (hexToNat ((ds.drop 4).take 2) 0)) 1

/-- Lower-case an identifier (`UNITS.lower()` in `atom`). -/
def lowerStr (s : String) : String := String.mk (s.data.map Char.toLower)

/-- The AST node variants of `scss/expression.py` (classes `Parentheses`,
`UnaryOp`, `BinaryOp`, `AnyOp`, `AllOp`, `NotOp`, `CallOp`, `Literal`,
`Variable`, `ListLiteral`; `ArgspecLiteral` is inlined into `CallOp` as its
list of `(optional name, expression)` pairs). -/
inductive Expr where
  | Parentheses (contents : Expr)
  | UnaryOp (op : SassOp) (operand : Expr)
  | BinaryOp (op : SassOp) (left right : Expr)
  | AnyOp (operands : List Expr)
  | AllOp (operands : List Expr)
  | NotOp (operand : Expr)
  | CallOp (func_name : String) (argpairs : List (Option String × Expr))
  | Literal (value : Value)
  | Variable (name : String)
  | ListLiteral (items : List Expr) (comma : Bool)

/-- The `isinstance(..., Literal)` check used by `BinaryOp.evaluate` for
the division ambiguity rule. -/
def isLiteral : Expr → Bool
  | .Literal _ => true
  | _ => false

/-- A registered function callable: receives evaluated positional
arguments and keyword arguments (spec section 4.5). -/
def SassFn : Type := List Value → List (String × Value) → Except SassErr Value

/-- The evaluation context of a `Calculator`: its namespace's variable
table and `(name, arity-or-wildcard)`-keyed function table (flattened to
one chain link — the chained-scope structure itself is modelled separately
from `scss/rule.py` below), plus the `is_builtin_css_function` predicate.
The latter is modelled from the spec: the reserved built-in CSS function
name set lives in `scss/cssdefs.py`, not under `src/`, so it is a
parameter here. -/
structure SassCalc where
  vars : List (String × Value)
  functions : List ((String × Option Nat) × SassFn)
  is_builtin_css_function : String → Bool

/-- Translated from `scss/rule.py` `Namespace.variable`: normalize the
name, then look it up in the variable table. -/
def nsVariable (c : SassCalc) (name : String) : Option Value :=
  ((c.vars.find? (fun p => p.1 = normalize_var name))).map (·.2)

/-- Translated from `scss/rule.py` `Namespace.function` /
`Namespace._get_callable` restricted to the calculator's flattened
function table: with an explicit arity the exact `(name, arity)` key is
tried before the wildcard `(name, None)` key. -/
def function_lookup (c : SassCalc) (name : String) (arity : Nat) : Option SassFn :=
  let n := normalize_var name
  match (c.functions.find? (fun p => p.1 = (n, some arity))).map (·.2) with
  | some f => some f
  | none => (c.functions.find? (fun p => p.1 = (n, none))).map (·.2)

/-- Translated from `scss/expression.py` `CallOp.evaluate`: keyword
argument names drop the leading `$` and replace hyphens with underscores
(`var.lstrip('$').replace('-', '_')`). -/
def kwargName (s : String) : String :=
  String.mk ((s.data.dropWhile (· = '$')).map (fun c => if c = '-' then '_' else c))

/-- Translated from `scss/expression.py` `CallOp.evaluate`: one rendered
argument of the passthrough call string — positional arguments render
bare, named arguments render as `$name: value`. -/
def renderArg (p : Option String × Value) : String :=
  match p.1 with
  | none => renderValue p.2
  | some var => var ++ ": " ++ renderValue p.2

mutual

/-- Translated from `scss/expression.py`: the `evaluate` methods of the
AST classes.  The `divide` flag implements the division-ambiguity rule of
`BinaryOp.evaluate`; every arithmetic/logical/call node evaluates its
children with `divide=True`, while `ListLiteral` propagates its own flag.
Results carry the list of `log.warn` diagnostics emitted during
evaluation.  The raw-string re-evaluation branch of `Variable.evaluate`
does not arise here because the modelled store holds typed values only. -/
def evalE (c : SassCalc) : Expr → Bool → Except SassErr (Value × List String)
  | .Parentheses contents, _ => evalE c contents true
  | .UnaryOp op operand, _ => do
      let (v, w) ← evalE c operand true
      let r ← unaryApply op v
      .ok (r, w)
  | .BinaryOp op left right, divide => do
      let (l, wl) ← evalE c left true
      let (r, wr) ← evalE c right true
      if op = .div ∧ divide = false ∧ isLiteral left ∧ isLiteral right then
        .ok (.String (renderValue l ++ " / " ++ renderValue r) .NoQuotes, wl ++ wr)
      else do
        let v ← binaryApply op l r
        .ok (v, wl ++ wr)
  | .AnyOp ops, _ => do
      let (vs, w) ← evalES c true ops
      .ok (.Boolean (vs.any truthy), w)
  | .AllOp ops, _ => do
      let (vs, w) ← evalES c true ops
      .ok (.Boolean (vs.all truthy), w)
  | .NotOp operand, _ => do
      let (v, w) ← evalE c operand true
      .ok (.Boolean (!truthy v), w)
  | .CallOp func_name argpairs, _ => do
      let (pairs, w) ← evalArgs c argpairs
      match function_lookup c func_name argpairs.length with
      | some f => do
          let args := pairs.filterMap (fun p => if p.1.isNone then some p.2 else none)
          let kwargs := pairs.filterMap
            (fun p => match p.1 with
              | some k => some (kwargName k, p.2)
              | none => none)
          let v ← f args kwargs
          .ok (v, w)
      | none =>
          .ok (.String (func_name ++ "(" ++
                String.intercalate ", " (pairs.map renderArg) ++ ")") .NoQuotes,
               w ++ (if c.is_builtin_css_function func_name then []
                     else ["no such function"]))
  | .Literal v, _ => .ok (v, [])
  | .Variable name, _ =>
      match nsVariable c name with
      | none => .error (.KeyErr name)
      | some v => .ok (v, [])
  | .ListLiteral items comma, divide => do
      let (vs, w) ← evalES c divide items
      .ok (.ListValue vs comma, w)

/-- Evaluate a list of operand expressions in order with a given `divide`
flag, concatenating warnings; an error in any operand aborts the whole
list (used by `AnyOp`/`AllOp`/`ListLiteral`). -/
def evalES (c : SassCalc) (divide : Bool) :
    List Expr → Except SassErr (List Value × List String)
  | [] => .ok ([], [])
  | e :: es => do
      let (v, w) ← evalE c e divide
      let (vs, ws) ← evalES c divide es
      .ok (v :: vs, w ++ ws)

/-- Evaluate the `(optional name, expression)` argument pairs of a
`CallOp` in order, each with `divide=True`, keeping the name tags. -/
def evalArgs (c : SassCalc) :
    List (Option String × Expr) → Except SassErr (List (Option String × Value) × List String)
  | [] => .ok ([], [])
  | (var, e) :: rest => do
      let (v, w) ← evalE c e true
      let (vs, ws) ← evalArgs c rest
      .ok ((var, v) :: vs, w ++ ws)

end

/-- The token kinds of `SassExpressionScanner._patterns` in
`scss/expression.py` (`COLON` stands for the pattern named `":"`, `WS` for
the ignored whitespace pattern `[ \r\t\n]+`). -/
inductive Tok where
  | COLON
  | WS
  | COMMA
  | LPAR
  | RPAR
  | END
  | MUL
  | DIV
  | ADD
  | SUB
  | SIGN
  | AND
  | OR
  | NOT
  | NE
  | INV
  | EQ
  | LE
  | GE
  | LT
  | GT
  | STR
  | QSTR
  | UNITS
  | NUM
  | COLOR
  | VAR
  | FNCT
  | ID
  deriving DecidableEq, Repr

/-- Character of the input at an absolute position, if any. -/
def charAt (cs : List Char) (i : Nat) : Option Char := cs.get? i

/-- Does the input at position `pos` start with the literal characters. -/
def litAt (cs : List Char) (pos : Nat) (lit : List Char) : Bool :=
  ((cs.drop pos).take lit.length) == lit

/-- Negative lookahead helper: the character at `i` (if any) does not
satisfy `p`. -/
def noCharSat (cs : List Char) (i : Nat) (p : Char → Bool) : Bool :=
  match charAt cs i with
  | none => true
  | some c => !p c

/-- Negative lookbehind helper: the character before `pos` (if any) does
not satisfy `p`. -/
def noPrevSat (cs : List Char) (pos : Nat) (p : Char → Bool) : Bool :=
  match pos with
  | 0 => true
  | i + 1 => match charAt cs i with
      | none => true
      | some c => !p c

/-- Keyword pattern `(?<![-\w])kw(?![-\w])` of the `AND`/`OR`/`NOT`
tokens. -/
def kwMatch (cs : List Char) (pos : Nat) (kw : List Char) : Option Nat :=
  if noPrevSat cs pos isDashWordC ∧ litAt cs pos kw ∧
      noCharSat cs (pos + kw.length) isDashWordC then some kw.length else none

/-- One-character literal pattern. -/
def oneChar (cs : List Char) (pos : Nat) (p : Char → Bool) : Option Nat :=
  match charAt cs pos with
  | some c => if p c then some 1 else none
  | none => none

/-- Quoted-string pattern `'[^q]*'` for a quote character `q`. -/
def quotedMatch (cs : List Char) (pos : Nat) (q : Char) : Option Nat :=
  match charAt cs pos with
  | some c =>
      if c = q then
        let n := maxRun (· ≠ q) (cs.drop (pos + 1))
        if charAt cs (pos + 1 + n) = some q then some (n + 2) else none
      else none
  | none => none

/-- Translated from the regular expressions of
`SassExpressionScanner._patterns` in `scss/expression.py`: the length
matched by each token pattern at a given position (with Python regex
semantics: `$` also matches before a trailing newline, `\s` is the
six-character ASCII whitespace class, and the backtracking in the
`UNITS`/`COLOR`/`FNCT` patterns collapses to the maximal-run conditions
encoded here, since every shorter candidate run is followed by a character
of the run's own class and therefore fails the lookahead). -/
def matchTok (t : Tok) (cs : List Char) (pos : Nat) : Option Nat :=
  match t with
  | .COLON => oneChar cs pos (· = ':')
  | .WS =>
      let n := maxRun wsChar (cs.drop pos)
      if n = 0 then none else some n
  | .COMMA => oneChar cs pos (· = ',')
  | .LPAR => oneChar cs pos (fun c => c = '(' || c = '[')
  | .RPAR => oneChar cs pos (fun c => c = ')' || c = ']')
  | .END =>
      if pos = cs.length then some 0
      else if pos + 1 = cs.length ∧ charAt cs pos = some '\n' then some 0
      else none
  | .MUL => oneChar cs pos (· = '*')
  | .DIV => oneChar cs pos (· = '/')
  | .ADD => oneChar cs pos (· = '+')
  | .SUB =>
      if charAt cs pos = some '-' ∧
          (charAt cs (pos + 1)).elim false pyWsC then some 2 else none
  | .SIGN =>
      if charAt cs pos = some '-' ∧
          noCharSat cs (pos + 1) (fun c => isAlphaC c || c = '_') then some 1
      else none
  | .AND => kwMatch cs pos ['a', 'n', 'd']
  | .OR => kwMatch cs pos ['o', 'r']
  | .NOT => kwMatch cs pos ['n', 'o', 't']
  | .NE => if litAt cs pos ['!', '='] then some 2 else none
  | .INV => oneChar cs pos (· = '!')
  | .EQ => if litAt cs pos ['=', '='] then some 2 else none
  | .LE => if litAt cs pos ['<', '='] then some 2 else none
  | .GE => if litAt cs pos ['>', '='] then some 2 else none
  | .LT => oneChar cs pos (· = '<')
  | .GT => oneChar cs pos (· = '>')
  | .STR => quotedMatch cs pos '\''
  | .QSTR => quotedMatch cs pos '"'
  | .UNITS =>
      if noPrevSat cs pos pyWsC then
        let r := maxRun isAlphaC (cs.drop pos)
        if r ≠ 0 ∧ noCharSat cs (pos + r) isDashWordC then some r
        else if charAt cs pos = some '%' ∧ noCharSat cs (pos + 1) isDashWordC then
          some 1
        else none
      else none
  | .NUM =>
      match charAt cs pos with
      | some c =>
          if isDigitC c then
            let d := maxRun isDigitC (cs.drop pos)
            if charAt cs (pos + d) = some '.' then
              some (d + 1 + maxRun isDigitC (cs.drop (pos + d + 1)))
            else some d
          else if c = '.' then
            let f := maxRun isDigitC (cs.drop (pos + 1))
            if f = 0 then none else some (1 + f)
          else none
      | none => none
  | .COLOR =>
      if charAt cs pos = some '#' then
        let h := maxRun isHexC (cs.drop (pos + 1))
        if h = 6 ∨ h = 3 then some (h + 1) else none
      else none
  | .VAR =>
      if charAt cs pos = some '$' then
        let n := maxRun identC (cs.drop (pos + 1))
        if n = 0 then none else some (n + 1)
      else none
  | .FNCT =>
      match charAt cs pos with
      | some c =>
          if identStartC c then
            let n := maxRun identC (cs.drop pos)
            if charAt cs (pos + n) = some '(' then some n else none
          else none
      | none => none
  | .ID =>
      match charAt cs pos with
      | some c => if identStartC c then some (maxRun identC (cs.drop pos)) else none
      | none => none

/-- The fixed priority order of `SassExpressionScanner._patterns`. -/
def patternOrder : List Tok :=
  [.COLON, .WS, .COMMA, .LPAR, .RPAR, .END, .MUL, .DIV, .ADD, .SUB, .SIGN,
   .AND, .OR, .NOT, .NE, .INV, .EQ, .LE, .GE, .LT, .GT, .STR, .QSTR,
   .UNITS, .NUM, .COLOR, .VAR, .FNCT, .ID]

/-- Membership of a token kind in a restriction set. -/
def tokMem (t : Tok) : List Tok → Bool
  | [] => false
  | x :: xs => if x = t then true else tokMem t xs

/-- Modelled from the spec (section 4.1; the scanner engine
`scss/_native.py` is not under `src/`): try the patterns in priority order
at the current position; the first pattern that matches and whose kind is
in the allowed set wins, the ignored whitespace pattern being always
allowed. -/
def tryPatterns (restrict : List Tok) (cs : List Char) (pos : Nat) :
    List Tok → Option (Tok × Nat)
  | [] => none
  | t :: ts =>
      if t = .WS ∨ tokMem t restrict then
        match matchTok t cs pos with
        | some len => some (t, len)
        | none => tryPatterns restrict cs pos ts
      else tryPatterns restrict cs pos ts

/-- A scanned token: start position, end position, kind, matched text
(the `(start, end, type, text)` tuples consumed by `Parser._scan` and
`Parser._peek`). -/
structure SassToken where
  startPos : Nat
  endPos : Nat
  kind : Tok
  text : String
  deriving DecidableEq, Repr

/-- Evaluation-order helper: forces a `Nat` to weak head normal form
before passing it on; `forceNat n f = f n` by case analysis, so it does not
change any result. -/
def forceNat (n : Nat) (f : Nat → α) : α :=
  match n with
  | 0 => f 0
  | m + 1 => f (m + 1)

theorem forceNat_eq (n : Nat) (f : Nat → α) : forceNat n f = f n := by
  cases n <;> rfl

/-- Modelled from the spec (section 4.1; `scss/_native.py` is not under
`src/`): scan one token at `pos`, skipping ignored whitespace matches, and
fail with a `SyntaxError` when no allowed pattern matches. -/
def scanOne (restrict : List Tok) (cs : List Char) : Nat → Nat → Except SassErr SassToken
  | 0, _ => .error .OutOfFuel
  | fuel + 1, pos =>
      match tryPatterns restrict cs pos patternOrder with
      | none => .error (.SyntaxErr "Bad token found")
      | some (t, len) =>
          forceNat len fun len =>
          if t = .WS then scanOne restrict cs fuel (pos + len)
          else .ok ⟨pos, pos + len, t, String.mk ((cs.drop pos).take len)⟩

/-- The scanner state: the full input, the resume position, and the list
of already-scanned tokens (the lazily-grown token cache of the scanner
engine; modelled from the spec, section 4.1). -/
structure ScanState where
  chars : List Char
  pos : Nat
  tokens : List SassToken
  deriving Repr

/-- Initial scanner state for an input string (`Scanner.reset`). -/
def scanReset (s : String) : ScanState := ⟨s.data, 0, []⟩

/-- Modelled from the spec (section 4.1): return the `i`-th token,
scanning one more token under the given allowed set when `i` is one past
the cached end; a token already scanned is returned from the cache
regardless of the current allowed set. -/
def tokenAt (st : ScanState) (i : Nat) (restrict : List Tok) :
    Except SassErr (SassToken × ScanState) :=
  match st.tokens.get? i with
  | some t => .ok (t, st)
  | none =>
      if i = st.tokens.length then
        match scanOne restrict st.chars (st.chars.length + 1 - st.pos) st.pos with
        | .error e => .error e
        | .ok t =>
            forceNat t.startPos fun s0 =>
            forceNat t.endPos fun e0 =>
            .ok (⟨s0, e0, t.kind, t.text⟩, ⟨st.chars, e0, st.tokens ++ [⟨s0, e0, t.kind, t.text⟩]⟩)
      else .error .NoMoreTok

/-- Modelled from the spec (section 4.1, rewind support): discard the
cached tokens from index `i` on and resume scanning at the start of the
first discarded token. -/
def scanRewind (st : ScanState) (i : Nat) : ScanState :=
  match st.tokens.get? i with
  | some t => ⟨st.chars, t.startPos, st.tokens.take i⟩
  | none => st

/-- Translated from `scss/expression.py` `Parser`: the scanner plus the
current token index. -/
structure PState where
  scanSt : ScanState
  pos : Nat
  deriving Repr

/-- Initial parser state for an input (`Parser.reset`). -/
def pReset (s : String) : PState := ⟨scanReset s, 0⟩

/-- Translated from `Parser._peek`: the kind of the lookahead token under
an allowed set, or `none` when scanning it fails. -/
def pPeek (types : List Tok) (st : PState) : Option Tok × PState :=
  match tokenAt st.scanSt st.pos types with
  | .ok (t, s') => (some t.kind, ⟨s', st.pos⟩)
  | .error _ => (none, st)

/-- Translated from `Parser._scan`: demand a token of the given kind,
returning its text and advancing, or fail with a `SyntaxError`. -/
def pScan (t : Tok) (st : PState) : Except SassErr (String × PState) := do
  let (tok, s') ← tokenAt st.scanSt st.pos [t]
  if tok.kind = t then .ok (tok.text, ⟨s', st.pos + 1⟩)
  else .error (.SyntaxErr "Trying to find a token kind")

/-- Translated from `Parser._rewind` (with `n = 1`): step the token index
back and rewind the scanner to it. -/
def pRewind (st : PState) : PState :=
  let p := st.pos - 1
  ⟨scanRewind st.scanSt p, p⟩

/-- Restriction set `m_expr_chks` of `SassExpression`. -/
def m_expr_chks : List Tok := [.MUL, .DIV]

/-- Restriction set `comparison_rsts` of `SassExpression`. -/
def comparison_rsts : List Tok :=
  [.LPAR, .QSTR, .RPAR, .LE, .COLOR, .NE, .LT, .NUM, .COMMA, .GT, .END,
   .SIGN, .ADD, .FNCT, .STR, .VAR, .EQ, .ID, .AND, .GE, .NOT, .OR]

/-- Restriction set `u_expr_chks` of `SassExpression`. -/
def u_expr_chks : List Tok :=
  [.LPAR, .COLOR, .QSTR, .NUM, .FNCT, .STR, .VAR, .ID]

/-- Restriction set `m_expr_rsts` of `SassExpression`. -/
def m_expr_rsts : List Tok :=
  [.LPAR, .SUB, .QSTR, .RPAR, .MUL, .DIV, .LE, .COLOR, .NE, .LT, .NUM,
   .COMMA, .GT, .END, .SIGN, .GE, .FNCT, .STR, .VAR, .EQ, .ID, .AND, .ADD,
   .NOT, .OR]

/-- Restriction set `argspec_item_rsts_` of `SassExpression`. -/
def argspec_item_rsts_post : List Tok :=
  [.LPAR, .COLOR, .QSTR, .SIGN, .VAR, .ADD, .NUM, .COLON, .STR, .NOT, .ID,
   .FNCT]

/-- Restriction set `expr_lst_rsts` of `SassExpression`. -/
def expr_lst_rsts : List Tok := [.END, .COMMA, .RPAR]

/-- Restriction set `and_test_rsts` of `SassExpression`. -/
def and_test_rsts : List Tok :=
  [.AND, .LPAR, .END, .COLOR, .QSTR, .SIGN, .VAR, .ADD, .NUM, .COMMA,
   .FNCT, .STR, .NOT, .ID, .RPAR, .OR]

/-- Restriction set `atom_rsts` of `SassExpression`. -/
def atom_rsts : List Tok :=
  [.LPAR, .COLOR, .QSTR, .SIGN, .NOT, .ADD, .NUM, .FNCT, .STR, .VAR, .RPAR,
   .ID]

/-- Restriction set `u_expr_rsts` of `SassExpression`. -/
def u_expr_rsts : List Tok :=
  [.LPAR, .COLOR, .QSTR, .SIGN, .ADD, .NUM, .FNCT, .STR, .VAR, .ID]

/-- Restriction set `expr_rsts` of `SassExpression`. -/
def expr_rsts : List Tok :=
  [.LPAR, .END, .COLOR, .QSTR, .RPAR, .VAR, .ADD, .NUM, .COMMA, .FNCT,
   .STR, .NOT, .ID, .SIGN, .OR]

/-- Restriction set `argspec_item_rsts` of `SassExpression`. -/
def argspec_item_rsts : List Tok :=
  [.LPAR, .COLOR, .QSTR, .SIGN, .NOT, .ADD, .NUM, .FNCT, .STR, .VAR, .ID]

/-- Restriction set `argspec_rsts` of `SassExpression`. -/
def argspec_rsts : List Tok := [.COMMA, .RPAR]

/-- Restriction set `not_test_rsts` of `SassExpression`. -/
def not_test_rsts : List Tok :=
  [.LPAR, .COLOR, .QSTR, .SIGN, .VAR, .ADD, .NUM, .FNCT, .STR, .NOT, .ID]

/-- Restriction set `atom_rsts_` of `SassExpression`. -/
def atom_rsts_post : List Tok :=
  [.LPAR, .SUB, .QSTR, .RPAR, .VAR, .MUL, .DIV, .LE, .COLOR, .NE, .LT,
   .NUM, .COMMA, .GT, .END, .SIGN, .GE, .FNCT, .STR, .UNITS, .EQ, .ID,
   .AND, .ADD, .NOT, .OR]

/-- Restriction set `comparison_chks` of `SassExpression`. -/
def comparison_chks : List Tok := [.GT, .GE, .NE, .LT, .LE, .EQ]

/-- Restriction set `a_expr_chks` of `SassExpression`. -/
def a_expr_chks : List Tok := [.ADD, .SUB]

/-- Restriction set `a_expr_rsts` of `SassExpression`. -/
def a_expr_rsts : List Tok :=
  [.LPAR, .SUB, .QSTR, .RPAR, .LE, .COLOR, .NE, .LT, .NUM, .COMMA, .GT,
   .END, .SIGN, .GE, .FNCT, .STR, .VAR, .EQ, .ID, .AND, .ADD, .NOT, .OR]

/-- Restriction set `expr_slst_rsts` of `SassExpression`. -/
def expr_slst_rsts : List Tok :=
  [.LPAR, .END, .COLOR, .QSTR, .RPAR, .VAR, .ADD, .NUM, .COMMA, .FNCT,
   .STR, .NOT, .SIGN, .ID]

/-- Membership of an optional peeked kind in a restriction set (Python's
`self._peek(...) in some_set`; a failed peek, `None`, is in no set). -/
def peekIn (t : Option Tok) (s : List Tok) : Bool :=
  match t with
  | some tk => tokMem tk s
  | none => false

mutual

/-- Translated from `SassExpression.goal`. -/
def goalF : Nat → PState → Except SassErr (Expr × PState)
  | 0, _ => .error .OutOfFuel
  | fuel + 1, st => do
      let (v, st) ← exprLstF fuel st
      let (_, st) ← pScan .END st
      .ok (v, st)

/-- Translated from `SassExpression.expr`. -/
def exprF : Nat → PState → Except SassErr (Expr × PState)
  | 0, _ => .error .OutOfFuel
  | fuel + 1, st => do
      let (v, st) ← andTestF fuel st
      exprLoopF fuel v st

/-- The `while ... == 'OR'` loop of `SassExpression.expr`. -/
def exprLoopF : Nat → Expr → PState → Except SassErr (Expr × PState)
  | 0, _, _ => .error .OutOfFuel
  | fuel + 1, v, st =>
      let (t, st) := pPeek expr_rsts st
      if t = some .OR then do
        let (_, st) ← pScan .OR st
        let (a, st) ← andTestF fuel st
        exprLoopF fuel (.AnyOp [v, a]) st
      else .ok (v, st)

/-- Translated from `SassExpression.and_test`. -/
def andTestF : Nat → PState → Except SassErr (Expr × PState)
  | 0, _ => .error .OutOfFuel
  | fuel + 1, st => do
      let (v, st) ← notTestF fuel st
      andLoopF fuel v st

/-- The `while ... == 'AND'` loop of `SassExpression.and_test`. -/
def andLoopF : Nat → Expr → PState → Except SassErr (Expr × PState)
  | 0, _, _ => .error .OutOfFuel
  | fuel + 1, v, st =>
      let (t, st) := pPeek and_test_rsts st
      if t = some .AND then do
        let (_, st) ← pScan .AND st
        let (n, st) ← notTestF fuel st
        andLoopF fuel (.AllOp [v, n]) st
      else .ok (v, st)

/-- Translated from `SassExpression.not_test`. -/
def notTestF : Nat → PState → Except SassErr (Expr × PState)
  | 0, _ => .error .OutOfFuel
  | fuel + 1, st =>
      let (t, st) := pPeek not_test_rsts st
      if t ≠ some .NOT then comparisonF fuel st
      else do
        let (_, st) ← pScan .NOT st
        let (n, st) ← notTestF fuel st
        .ok (.NotOp n, st)

/-- Translated from `SassExpression.comparison`. -/
def comparisonF : Nat → PState → Except SassErr (Expr × PState)
  | 0, _ => .error .OutOfFuel
  | fuel + 1, st => do
      let (v, st) ← aExprF fuel st
      compLoopF fuel v st

/-- The comparison-operator loop of `SassExpression.comparison`. -/
def compLoopF : Nat → Expr → PState → Except SassErr (Expr × PState)
  | 0, _, _ => .error .OutOfFuel
  | fuel + 1, v, st =>
      let (t, st) := pPeek comparison_rsts st
      if peekIn t comparison_chks then
        let (t2, st) := pPeek comparison_chks st
        if t2 = some .LT then do
          let (_, st) ← pScan .LT st
          let (a, st) ← aExprF fuel st
          compLoopF fuel (.BinaryOp .lt v a) st
        else if t2 = some .GT then do
          let (_, st) ← pScan .GT st
          let (a, st) ← aExprF fuel st
          compLoopF fuel (.BinaryOp .gt v a) st
        else if t2 = some .LE then do
          let (_, st) ← pScan .LE st
          let (a, st) ← aExprF fuel st
          compLoopF fuel (.BinaryOp .le v a) st
        else if t2 = some .GE then do
          let (_, st) ← pScan .GE st
          let (a, st) ← aExprF fuel st
          compLoopF fuel (.BinaryOp .ge v a) st
        else if t2 = some .EQ then do
          let (_, st) ← pScan .EQ st
          let (a, st) ← aExprF fuel st
          compLoopF fuel (.BinaryOp .eq v a) st
        else do
          let (_, st) ← pScan .NE st
          let (a, st) ← aExprF fuel st
          compLoopF fuel (.BinaryOp .ne v a) st
      else .ok (v, st)

/-- Translated from `SassExpression.a_expr`. -/
def aExprF : Nat → PState → Except SassErr (Expr × PState)
  | 0, _ => .error .OutOfFuel
  | fuel + 1, st => do
      let (v, st) ← mExprF fuel st
      aLoopF fuel v st

/-- The `ADD`/`SUB` loop of `SassExpression.a_expr`. -/
def aLoopF : Nat → Expr → PState → Except SassErr (Expr × PState)
  | 0, _, _ => .error .OutOfFuel
  | fuel + 1, v, st =>
      let (t, st) := pPeek a_expr_rsts st
      if peekIn t a_expr_chks then
        let (t2, st) := pPeek a_expr_chks st
        if t2 = some .ADD then do
          let (_, st) ← pScan .ADD st
          let (m, st) ← mExprF fuel st
          aLoopF fuel (.BinaryOp .add v m) st
        else do
          let (_, st) ← pScan .SUB st
          let (m, st) ← mExprF fuel st
          aLoopF fuel (.BinaryOp .sub v m) st
      else .ok (v, st)

/-- Translated from `SassExpression.m_expr`. -/
def mExprF : Nat → PState → Except SassErr (Expr × PState)
  | 0, _ => .error .OutOfFuel
  | fuel + 1, st => do
      let (v, st) ← uExprF fuel st
      mLoopF fuel v st

/-- The `MUL`/`DIV` loop of `SassExpression.m_expr`. -/
def mLoopF : Nat → Expr → PState → Except SassErr (Expr × PState)
  | 0, _, _ => .error .OutOfFuel
  | fuel + 1, v, st =>
      let (t, st) := pPeek m_expr_rsts st
      if peekIn t m_expr_chks then
        let (t2, st) := pPeek m_expr_chks st
        if t2 = some .MUL then do
          let (_, st) ← pScan .MUL st
          let (u, st) ← uExprF fuel st
          mLoopF fuel (.BinaryOp .mul v u) st
        else do
          let (_, st) ← pScan .DIV st
          let (u, st) ← uExprF fuel st
          mLoopF fuel (.BinaryOp .div v u) st
      else .ok (v, st)

/-- Translated from `SassExpression.u_expr`. -/
def uExprF : Nat → PState → Except SassErr (Expr × PState)
  | 0, _ => .error .OutOfFuel
  | fuel + 1, st =>
      let (t, st) := pPeek u_expr_rsts st
      if t = some .SIGN then do
        let (_, st) ← pScan .SIGN st
        let (u, st) ← uExprF fuel st
        .ok (.UnaryOp .neg u, st)
      else if t = some .ADD then do
        let (_, st) ← pScan .ADD st
        let (u, st) ← uExprF fuel st
        .ok (.UnaryOp .pos u, st)
      else atomF fuel st

/-- Translated from `SassExpression.atom`. -/
def atomF : Nat → PState → Except SassErr (Expr × PState)
  | 0, _ => .error .OutOfFuel
  | fuel + 1, st =>
      let (t, st) := pPeek u_expr_chks st
      if t = some .LPAR then do
        let (_, st) ← pScan .LPAR st
        let (v, st) ← exprLstF fuel st
        let (_, st) ← pScan .RPAR st
        .ok (.Parentheses v, st)
      else if t = some .ID then do
        let (idText, st) ← pScan .ID st
        .ok (.Literal (parse_bareword idText), st)
      else if t = some .FNCT then do
        let (name, st) ← pScan .FNCT st
        let (_, st) ← pScan .LPAR st
        let (t2, st) := pPeek atom_rsts st
        if t2 ≠ some .RPAR then do
          let (args, st) ← argspecF fuel st
          let (_, st) ← pScan .RPAR st
          .ok (.CallOp name args, st)
        else do
          let (_, st) ← pScan .RPAR st
          .ok (.CallOp name [], st)
      else if t = some .NUM then do
        let (numText, st) ← pScan .NUM st
        let (t2, st) := pPeek atom_rsts_post st
        if t2 = some .UNITS then do
          let (u, st) ← pScan .UNITS st
          .ok (.Literal (.Number (parseNum numText) [lowerStr u] []), st)
        else .ok (.Literal (.Number (parseNum numText) [] []), st)
      else if t = some .STR then do
        let (s, st) ← pScan .STR st
        .ok (.Literal (.String (String.mk ((s.data.drop 1).dropLast)) .Single), st)
      else if t = some .QSTR then do
        let (s, st) ← pScan .QSTR st
        .ok (.Literal (.String (String.mk ((s.data.drop 1).dropLast)) .Double), st)
      else if t = some .COLOR then do
        let (s, st) ← pScan .COLOR st
        .ok (.Literal (parseHexColor s), st)
      else do
        let (v, st) ← pScan .VAR st
        .ok (.Variable v, st)

/-- Translated from `SassExpression.argspec`. -/
def argspecF : Nat → PState → Except SassErr (List (Option String × Expr) × PState)
  | 0, _ => .error .OutOfFuel
  | fuel + 1, st => do
      let (item, st) ← argspecItemF fuel st
      argspecLoopF fuel [item] st

/-- The `COMMA` loop of `SassExpression.argspec`. -/
def argspecLoopF :
    Nat → List (Option String × Expr) → PState →
      Except SassErr (List (Option String × Expr) × PState)
  | 0, _, _ => .error .OutOfFuel
  | fuel + 1, acc, st =>
      let (t, st) := pPeek argspec_rsts st
      if t = some .COMMA then do
        let (_, st) ← pScan .COMMA st
        let (item, st) ← argspecItemF fuel st
        argspecLoopF fuel (acc ++ [item]) st
      else .ok (acc, st)

/-- Translated from `SassExpression.argspec_item`: one token of
lookahead/rewind distinguishes a named argument `$var: expr` from a
positional expression starting with a variable. -/
def argspecItemF :
    Nat → PState → Except SassErr ((Option String × Expr) × PState)
  | 0, _ => .error .OutOfFuel
  | fuel + 1, st => do
      let (t, st) := pPeek argspec_item_rsts st
      if t = some .VAR then do
        let (varText, st) ← pScan .VAR st
        let (t2, st) := pPeek argspec_item_rsts_post st
        if t2 = some .COLON then do
          let (_, st) ← pScan .COLON st
          let (e, st) ← exprSlstF fuel st
          .ok ((some varText, e), st)
        else do
          let st := pRewind st
          let (e, st) ← exprSlstF fuel st
          .ok ((none, e), st)
      else do
        let (e, st) ← exprSlstF fuel st
        .ok ((none, e), st)

/-- Translated from `SassExpression.expr_lst`. -/
def exprLstF : Nat → PState → Except SassErr (Expr × PState)
  | 0, _ => .error .OutOfFuel
  | fuel + 1, st => do
      let (e, st) ← exprSlstF fuel st
      exprLstLoopF fuel [e] st

/-- The `COMMA` loop of `SassExpression.expr_lst`; a multi-element result
becomes a comma-separated `ListLiteral`, a single element collapses. -/
def exprLstLoopF : Nat → List Expr → PState → Except SassErr (Expr × PState)
  | 0, _, _ => .error .OutOfFuel
  | fuel + 1, acc, st =>
      let (t, st) := pPeek expr_lst_rsts st
      if t = some .COMMA then do
        let (_, st) ← pScan .COMMA st
        let (e, st) ← exprSlstF fuel st
        exprLstLoopF fuel (acc ++ [e]) st
      else
        match acc with
        | [e] => .ok (e, st)
        | _ => .ok (.ListLiteral acc true, st)

/-- Translated from `SassExpression.expr_slst`. -/
def exprSlstF : Nat → PState → Except SassErr (Expr × PState)
  | 0, _ => .error .OutOfFuel
  | fuel + 1, st => do
      let (e, st) ← exprF fuel st
      exprSlstLoopF fuel [e] st

/-- The juxtaposition loop of `SassExpression.expr_slst`; a multi-element
result becomes a space-separated `ListLiteral`, a single element
collapses. -/
def exprSlstLoopF : Nat → List Expr → PState → Except SassErr (Expr × PState)
  | 0, _, _ => .error .OutOfFuel
  | fuel + 1, acc, st =>
      let (t, st) := pPeek expr_slst_rsts st
      if peekIn t expr_lst_rsts then
        match acc with
        | [e] => .ok (e, st)
        | _ => .ok (.ListLiteral acc false, st)
      else do
        let (e, st) ← exprF fuel st
        exprSlstLoopF fuel (acc ++ [e]) st

end

/-- Parse one expression source text: `SassExpression(...).reset(expr)`
followed by `.goal()` (the parse step of
`Calculator.evaluate_expression`). -/
def parseExpr (fuel : Nat) (s : String) : Except SassErr Expr :=
  (goalF fuel (pReset s)).map (·.1)

/-- The process-wide expression cache `ast_cache` of `scss/expression.py`,
modelled as explicit state: a mapping from raw source text to parsed AST. -/
abbrev AstCache : Type := List (String × Expr)

/-- Cache lookup (`expr in ast_cache` / `ast_cache[expr]`). -/
def cacheLookup (cache : AstCache) (s : String) : Option Expr :=
  (cache.find? (fun p => p.1 = s)).map (·.2)

/-- Cache insertion (`ast_cache[expr] = ast`; only reached when the key is
absent). -/
def cacheInsert (cache : AstCache) (s : String) (ast : Expr) : AstCache :=
  cache ++ [(s, ast)]

/-- Translated from `scss/expression.py` `Calculator.evaluate_expression`
(the input here is always source text, so the non-string fast returns do
not arise): first try the whole text as a variable name; then evaluate the
cached AST if the text was parsed before; otherwise parse, swallowing the
`SyntaxError` (returning no result) unless `config.DEBUG` — `scss/config.py`
is not under `src/`, so the flag is a parameter — and on success cache the
AST and evaluate it.  Evaluation errors propagate in every branch.  The
result carries the warnings emitted during evaluation and the updated
cache. -/
def evaluate_expression (fuel : Nat) (debug : Bool) (c : SassCalc)
    (expr : String) (cache : AstCache) :
    Except SassErr (Option (Value × List String) × AstCache) :=
  match nsVariable c expr with
  | some v => .ok (some (v, []), cache)
  | none =>
      match cacheLookup cache expr with
      | some ast => do
          let r ← evalE c ast false
          .ok (some r, cache)
      | none =>
          match parseExpr fuel expr with
          | .error e => if debug then .error e else .ok (none, cache)
          | .ok ast => do
              let r ← evalE c ast false
              .ok (some r, cacheInsert cache expr ast)

/-- Translated from `scss/expression.py` `Calculator.parse_expression`:
parse through the cache, inserting on a miss. -/
def parse_expression (fuel : Nat) (expr : String) (cache : AstCache) :
    Except SassErr (Expr × AstCache) :=
  match cacheLookup cache expr with
  | some ast => .ok (ast, cache)
  | none => do
      let ast ← parseExpr fuel expr
      .ok (ast, cacheInsert cache expr ast)

/-- Modelled from the spec: `scss/util.py` `dequote` (not under `src/`) —
strip one layer of surrounding quotes from rendered text. -/
def dequote (s : String) : String :=
  let cs := s.data
  match cs with
  | c :: _ =>
      if (c = '\'' ∨ c = '"') ∧ cs.length ≥ 2 ∧ cs.getLast? = some c then
        String.mk (cs.drop 1).dropLast
      else s
  | [] => s

/-- Membership of a character in a character list (Python's `c in s`). -/
def charMem (c : Char) : List Char → Bool
  | [] => false
  | x :: xs => if x = c then true else charMem c xs

/-- Does the character list contain the two-character sequence `#{`
(Python's `'#{' in cont`). -/
def hasGlob : List Char → Bool
  | [] => false
  | ['#'] => false
  | '#' :: '{' :: _ => true
  | _ :: rest => hasGlob rest

/-- One match of the interpolation regex at the head of the character
list: an optional `#{` wrapper, a `$`, a `[-\w]+` name (and the closing
`}` when wrapped).  Returns the wrapped flag, the `$name` text and the
match length.  Modelled from the spec (the regex `_interpolate_re` lives
in `scss/cssdefs.py`, not under `src/`): group 1 is the `#{` wrapper used
as the dequote trigger, group 2 the `$name` looked up in the namespace. -/
def interpHead : List Char → Option (Bool × String × Nat)
  | '#' :: '{' :: '$' :: rest =>
      let n := maxRun isDashWordC rest
      if n ≠ 0 ∧ charAt rest n = some '}' then
        some (true, "$" ++ String.mk (rest.take n), n + 4)
      else none
  | '$' :: rest =>
      let n := maxRun isDashWordC rest
      if n ≠ 0 then some (false, "$" ++ String.mk (rest.take n), n + 1)
      else none
  | _ => none

/-- Translated from the inner `_av` substitution of
`Calculator.apply_vars`: walk the text left to right; at each
interpolation match look the `$name` up (a failed lookup raises `KeyError`
exactly as in the source, where `_av` does not catch it); a truthy value
substitutes its rendered (and, when `#{`-wrapped, dequoted) text, a falsy
value leaves the matched text in place. -/
def interpVars (c : SassCalc) : Nat → List Char → Except SassErr (List Char)
  | 0, _ => .error .OutOfFuel
  | _, [] => .ok []
  | fuel + 1, ch :: rest =>
      match interpHead (ch :: rest) with
      | some (wrapped, name, len) =>
          (match nsVariable c name with
           | none => .error (.KeyErr name)
           | some v => do
               let tl ← interpVars c fuel ((ch :: rest).drop len)
               if truthy v then
                 let r := renderValue v
                 let r := if wrapped then dequote r else r
                 .ok (r.data ++ tl)
               else
                 .ok ((ch :: rest).take len ++ tl))
      | none => do
          let tl ← interpVars c fuel rest
          .ok (ch :: tl)

mutual

/-- Translated from `scss/expression.py` `Calculator.do_glob_math`:
`#{...}`-interpolation.  Text without `#{` passes through unchanged;
otherwise each `#{expr}` span is substituted by `_calculate_expr` and the
result is never re-evaluated. -/
def do_glob_math (fuel : Nat) (debug : Bool) (c : SassCalc)
    (cont : String) (cache : AstCache) : Except SassErr (String × AstCache) :=
  match fuel with
  | 0 => .error .OutOfFuel
  | fuel + 1 =>
      if hasGlob cont.data then do
        let (cs, cache) ← globSub fuel debug c cont.data cache
        .ok (String.mk cs, cache)
      else .ok (cont, cache)

/-- The `_expr_glob_re.sub` loop of `do_glob_math`: find each `#{`,
take the (lazy) span up to the next `}`, substitute `_calculate_expr` of
the span, and continue after it; an unterminated `#{` is left as-is.
The regex `_expr_glob_re` lives in `scss/cssdefs.py` (not under `src/`)
and is modelled from the spec's description of `#{...}` spans. -/
def globSub (fuel : Nat) (debug : Bool) (c : SassCalc) (cs : List Char)
    (cache : AstCache) : Except SassErr (List Char × AstCache) :=
  match fuel with
  | 0 => .error .OutOfFuel
  | fuel + 1 =>
      match cs with
      | [] => .ok ([], cache)
      | '#' :: '{' :: rest =>
          let inner := rest.takeWhile (· ≠ '}')
          if inner.length = rest.length then .ok (cs, cache)
          else do
            let (rep, cache) ← calculate_expr fuel debug c (String.mk inner) cache
            let (tl, cache) ← globSub fuel debug c (rest.drop (inner.length + 1)) cache
            .ok (rep.data ++ tl, cache)
      | ch :: rest => do
          let (tl, cache) ← globSub fuel debug c rest cache
          .ok (ch :: tl, cache)

/-- Translated from `scss/expression.py` `Calculator._calculate_expr`: the
replacement for one `#{expr}` span — evaluate the span, falling back to
`apply_vars` when evaluation yields no result, otherwise the dequoted
rendered value. -/
def calculate_expr (fuel : Nat) (debug : Bool) (c : SassCalc)
    (base : String) (cache : AstCache) : Except SassErr (String × AstCache) :=
  match fuel with
  | 0 => .error .OutOfFuel
  | fuel + 1 => do
      let (r, cache) ← evaluate_expression fuel debug c base cache
      match r with
      | none => apply_vars fuel debug c base cache
      | some (v, _) => .ok (dequote (renderValue v), cache)

/-- Translated from `scss/expression.py` `Calculator.apply_vars`: when the
text contains `$`, first try the whole text as a variable name (a hit is
stringified — `str()` of a value is modelled as its CSS render), otherwise
substitute each `$variable` occurrence by regex; finally apply
`do_glob_math`. -/
def apply_vars (fuel : Nat) (debug : Bool) (c : SassCalc) (cont : String)
    (cache : AstCache) : Except SassErr (String × AstCache) :=
  match fuel with
  | 0 => .error .OutOfFuel
  | fuel + 1 => do
      let cont1 ←
        if charMem '$' cont.data then
          match nsVariable c cont with
          | some v => pure (renderValue v)
          | none => do
              let cs ← interpVars c (cont.data.length + 1) cont.data
              pure (String.mk cs)
        else pure cont
      do_glob_math fuel debug c cont1 cache

end

/-- The result of `Calculator.calculate`: either a typed value from a
successful parse-and-evaluate, or the raw-text fallback produced by
`apply_vars`. -/
inductive CalcOut where
  | value (v : Value)
  | text (s : String)

/-- Translated from `scss/expression.py` `Calculator.calculate`: apply
`#{...}`-interpolation, then parse-and-evaluate; when that yields no
result (a swallowed parse error), fall back to `apply_vars` over the
original raw text. -/
def calculate (fuel : Nat) (debug : Bool) (c : SassCalc) (base : String)
    (cache : AstCache) : Except SassErr (CalcOut × AstCache) :=
  match fuel with
  | 0 => .error .OutOfFuel
  | fuel + 1 => do
      let (s1, cache) ← do_glob_math fuel debug c base cache
      let (r, cache) ← evaluate_expression fuel debug c s1 cache
      match r with
      | some (v, _) => .ok (.value v, cache)
      | none => do
          let (t, cache) ← apply_vars fuel debug c base cache
          .ok (.text t, cache)

/-- A Python dictionary as an insertion-ordered association list (updates
keep the key's position, new keys append). -/
abbrev PyDict (K V : Type) := List (K × V)

/-- Python `key in d`. -/
def dictContains [DecidableEq K] (d : PyDict K V) (k : K) : Bool :=
  d.any (fun p => p.1 = k)

/-- Python `d[key]` as an option. -/
def dictGet [DecidableEq K] (d : PyDict K V) (k : K) : Option V :=
  (d.find? (fun p => p.1 = k)).map (·.2)

/-- Python `d[key] = value`: update in place, or append a new key. -/
def dictSet [DecidableEq K] (k : K) (v : V) : PyDict K V → PyDict K V
  | [] => [(k, v)]
  | (k', v') :: rest =>
      if k' = k then (k, v) :: rest else (k', v') :: dictSet k v rest

/-- The heap of shared dictionaries: `VariableScope` links alias Python
dict objects by reference, modelled as indices into this list. -/
abbrev Heap (K V : Type) := List (PyDict K V)

/-- Dereference a dictionary. -/
def heapGet (h : Heap K V) (r : Nat) : Option (PyDict K V) := h.get? r

/-- Replace the dictionary at a reference (in-place mutation of the shared
object). -/
def heapSet (h : Heap K V) (r : Nat) (d : PyDict K V) : Heap K V := h.set r d

/-- One link of a `VariableScope.maps` chain.  `dict` is a reference to a
shared dictionary (the ordinary case).  `gen` models the generator object
that `Namespace.derive_from` passes as a single map when deriving from two
or more parents: Python's `key in <generator>` iterates the generator and
compares the string key against the yielded `VariableScope` objects, which
is `False` for every yielded element, so such a link never contains any
key and never yields a value. -/
inductive ChainEntry where
  | dict (ref : Nat)
  | gen
  deriving DecidableEq, Repr

/-- Translated from `scss/rule.py` `VariableScope`: the ordered chain of
map links (`self.maps`). -/
structure VariableScope where
  maps : List ChainEntry
  deriving DecidableEq, Repr

/-- Translated from `scss/rule.py` `VariableScope.__init__`: prepend one
fresh empty dictionary (allocated at the end of the heap) to the given
links. -/
def scopeInit (ms : List ChainEntry) (h : Heap K V) : VariableScope × Heap K V :=
  (⟨.dict h.length :: ms⟩, h ++ [[]])

/-- Translated from `scss/rule.py` `VariableScope.new_child`:
`VariableScope(*self.maps)` — a fresh innermost link in front of the
parent's links, all shared by reference. -/
def new_child (s : VariableScope) (h : Heap K V) : VariableScope × Heap K V :=
  scopeInit s.maps h

/-- Translated from `scss/rule.py` `VariableScope.__getitem__`: return the
value from the first chain link containing the key, scanning
innermost-to-outermost; `none` models the final `raise KeyError`. -/
def scopeGetLoop [DecidableEq K] (h : Heap K V) (k : K) :
    List ChainEntry → Option V
  | [] => none
  | .dict r :: rest =>
      (match heapGet h r with
       | some d => if dictContains d k then dictGet d k else scopeGetLoop h k rest
       | none => scopeGetLoop h k rest)
  | .gen :: rest => scopeGetLoop h k rest

/-- `VariableScope.__getitem__` on a scope. -/
def scopeGet [DecidableEq K] (h : Heap K V) (s : VariableScope) (k : K) :
    Option V :=
  scopeGetLoop h k s.maps

/-- The chain walk of `VariableScope.__setitem__`: mutate the first link
that already contains the key, returning the updated heap, or `none` when
no link contains it. -/
def scopeSetLoop [DecidableEq K] (h : Heap K V) (k : K) (v : V) :
    List ChainEntry → Option (Heap K V)
  | [] => none
  | .dict r :: rest =>
      (match heapGet h r with
       | some d =>
           if dictContains d k then some (heapSet h r (dictSet k v d))
           else scopeSetLoop h k v rest
       | none => scopeSetLoop h k v rest)
  | .gen :: rest => scopeSetLoop h k v rest

/-- Translated from `scss/rule.py` `VariableScope.__setitem__`: update the
first chain link that already contains the key, otherwise create the key
in the innermost link `self.maps[0]`. -/
def scopeSet [DecidableEq K] (h : Heap K V) (s : VariableScope) (k : K)
    (v : V) : Heap K V :=
  match scopeSetLoop h k v s.maps with
  | some h' => h'
  | none =>
      match s.maps with
      | .dict r :: _ => heapSet h r (dictSet k v (heapGet h r |>.getD []))
      | _ => h

/-- Translated from `scss/rule.py` `Namespace.derive_from` (the
`len(others) >= 2` branch): `VariableScope(other._variables for other in
others)` passes the generator itself as the single chain map, so the
derived scope's links are one fresh dictionary followed by the generator
link. -/
def derive_from_multi (h : Heap K V) : VariableScope × Heap K V :=
  scopeInit [.gen] h

/-- Translated from `scss/rule.py` `Namespace._get_callable` over a
chained scope keyed by `(name, arity-or-None)`: normalize the name; with
an explicit arity try the exact `(name, arity)` key before falling back to
the wildcard `(name, None)` key; `none` models the `KeyError` of an
undefined function/mixin. -/
def get_callable (h : Heap (String × Option Nat) F)
    (chainmap : VariableScope) (name : String) (arity : Option Nat) :
    Option F :=
  let n := normalize_var name
  match arity with
  | some a =>
      (match scopeGet h chainmap (n, some a) with
       | some cb => some cb
       | none => scopeGet h chainmap (n, none))
  | none => scopeGet h chainmap (n, none)

/-- Translated from `scss/functions/core.py` `index`: scan the list items
in order, counting from 1. -/
def indexLoop (val : Value) : List Value → Nat → Value
  | [], _ => .Boolean false
  | x :: xs, i =>
      if valueBeq x val then .Number (SassQ.fromNat (i + 1)) [] []
      else indexLoop val xs (i + 1)

/-- Translated from `scss/functions/core.py` `index` (registered as
`index/2`): the 1-based position of the first item equal to `val`, or
boolean `false` when no item matches.  The list value's items stand for
`lst.value[i]` over `range(len(lst))`; equality is the modelled value
equality `valueBeq`. -/
def indexFn (lst : List Value) (val : Value) : Value :=
  indexLoop val lst 0

theorem exceptBind_ok (a : α) (f : α → Except SassErr β) :
    (Except.ok a >>= f) = f a := rfl

theorem exceptBind_error (e : SassErr) (f : α → Except SassErr β) :
    ((Except.error e : Except SassErr α) >>= f) = Except.error e := rfl

theorem exceptMap_ok (a : α) (f : α → β) :
    (Except.ok a : Except SassErr α).map f = .ok (f a) := rfl

theorem exceptMap_error (e : SassErr) (f : α → β) :
    (Except.error e : Except SassErr α).map f = .error e := rfl

theorem exceptPure (a : α) : (pure a : Except SassErr α) = .ok a := rfl

set_option maxRecDepth 8000
set_option maxHeartbeats 1000000

/-- Character data of the literal "12px/1.5". -/
theorem sdata0 : ("12px/1.5" : String).data = ['1', '2', 'p', 'x', '/', '1', '.', '5'] := rfl

/-- Character data of the literal "12". -/
theorem sdata1 : ("12" : String).data = ['1', '2'] := rfl

/-- Character data of the literal "px". -/
theorem sdata2 : ("px" : String).data = ['p', 'x'] := rfl

/-- Character data of the literal "1.5". -/
theorem sdata3 : ("1.5" : String).data = ['1', '.', '5'] := rfl

/-- Character data of the literal "(12px/1.5)". -/
theorem sdata4 : ("(12px/1.5)" : String).data = ['(', '1', '2', 'p', 'x', '/', '1', '.', '5', ')'] := rfl

/-- Character data of the literal "1 + 12px/1.5". -/
theorem sdata5 : ("1 + 12px/1.5" : String).data = ['1', ' ', '+', ' ', '1', '2', 'p', 'x', '/', '1', '.', '5'] := rfl

/-- Character data of the literal "1". -/
theorem sdata6 : ("1" : String).data = ['1'] := rfl

/-- Character data of the literal "1-2". -/
theorem sdata7 : ("1-2" : String).data = ['1', '-', '2'] := rfl

/-- Character data of the literal "2". -/
theorem sdata8 : ("2" : String).data = ['2'] := rfl

/-- Character data of the literal "1 - 2". -/
theorem sdata9 : ("1 - 2" : String).data = ['1', ' ', '-', ' ', '2'] := rfl

/-- Character data of the literal "-moz". -/
theorem sdata10 : ("-moz" : String).data = ['-', 'm', 'o', 'z'] := rfl

/-- Character data of the literal "$x + 1". -/
theorem sdata11 : ("$x + 1" : String).data = ['$', 'x', ' ', '+', ' ', '1'] := rfl

/-- Character data of the literal "$x !". -/
theorem sdata12 : ("$x !" : String).data = ['$', 'x', ' ', '!'] := rfl

/-- Character data of the literal "foo(1, 2)". -/
theorem sdata13 : ("foo(1, 2)" : String).data = ['f', 'o', 'o', '(', '1', ',', ' ', '2', ')'] := rfl
/-- Scanner fact for input "12px/1.5". -/
theorem tk_a_0 : tokenAt ⟨['1', '2', 'p', 'x', '/', '1', '.', '5'], 0, []⟩ 0 [Tok.LPAR, Tok.COLOR, Tok.QSTR, Tok.SIGN, Tok.VAR, Tok.ADD, Tok.NUM, Tok.FNCT, Tok.STR, Tok.NOT, Tok.ID] = .ok (⟨0, 2, Tok.NUM, "12"⟩, ⟨['1', '2', 'p', 'x', '/', '1', '.', '5'], 2, [⟨0, 2, Tok.NUM, "12"⟩]⟩) := rfl

/-- Scanner fact for input "12px/1.5". -/
theorem tk_a_1 : tokenAt ⟨['1', '2', 'p', 'x', '/', '1', '.', '5'], 2, [⟨0, 2, Tok.NUM, "12"⟩]⟩ 0 [Tok.LPAR, Tok.COLOR, Tok.QSTR, Tok.SIGN, Tok.ADD, Tok.NUM, Tok.FNCT, Tok.STR, Tok.VAR, Tok.ID] = .ok (⟨0, 2, Tok.NUM, "12"⟩, ⟨['1', '2', 'p', 'x', '/', '1', '.', '5'], 2, [⟨0, 2, Tok.NUM, "12"⟩]⟩) := rfl

/-- Scanner fact for input "12px/1.5". -/
theorem tk_a_2 : tokenAt ⟨['1', '2', 'p', 'x', '/', '1', '.', '5'], 2, [⟨0, 2, Tok.NUM, "12"⟩]⟩ 0 [Tok.LPAR, Tok.COLOR, Tok.QSTR, Tok.NUM, Tok.FNCT, Tok.STR, Tok.VAR, Tok.ID] = .ok (⟨0, 2, Tok.NUM, "12"⟩, ⟨['1', '2', 'p', 'x', '/', '1', '.', '5'], 2, [⟨0, 2, Tok.NUM, "12"⟩]⟩) := rfl

/-- Scanner fact for input "12px/1.5". -/
theorem tk_a_3 : tokenAt ⟨['1', '2', 'p', 'x', '/', '1', '.', '5'], 2, [⟨0, 2, Tok.NUM, "12"⟩]⟩ 0 [Tok.NUM] = .ok (⟨0, 2, Tok.NUM, "12"⟩, ⟨['1', '2', 'p', 'x', '/', '1', '.', '5'], 2, [⟨0, 2, Tok.NUM, "12"⟩]⟩) := rfl

/-- Scanner fact for input "12px/1.5". -/
theorem tk_a_4 : tokenAt ⟨['1', '2', 'p', 'x', '/', '1', '.', '5'], 2, [⟨0, 2, Tok.NUM, "12"⟩]⟩ 1 [Tok.LPAR, Tok.SUB, Tok.QSTR, Tok.RPAR, Tok.VAR, Tok.MUL, Tok.DIV, Tok.LE, Tok.COLOR, Tok.NE, Tok.LT, Tok.NUM, Tok.COMMA, Tok.GT, Tok.END, Tok.SIGN, Tok.GE, Tok.FNCT, Tok.STR, Tok.UNITS, Tok.EQ, Tok.ID, Tok.AND, Tok.ADD, Tok.NOT, Tok.OR] = .ok (⟨2, 4, Tok.UNITS, "px"⟩, ⟨['1', '2', 'p', 'x', '/', '1', '.', '5'], 4, [⟨0, 2, Tok.NUM, "12"⟩, ⟨2, 4, Tok.UNITS, "px"⟩]⟩) := rfl

/-- Scanner fact for input "12px/1.5". -/
theorem tk_a_5 : tokenAt ⟨['1', '2', 'p', 'x', '/', '1', '.', '5'], 4, [⟨0, 2, Tok.NUM, "12"⟩, ⟨2, 4, Tok.UNITS, "px"⟩]⟩ 1 [Tok.UNITS] = .ok (⟨2, 4, Tok.UNITS, "px"⟩, ⟨['1', '2', 'p', 'x', '/', '1', '.', '5'], 4, [⟨0, 2, Tok.NUM, "12"⟩, ⟨2, 4, Tok.UNITS, "px"⟩]⟩) := rfl

/-- Scanner fact for input "12px/1.5". -/
theorem tk_a_6 : tokenAt ⟨['1', '2', 'p', 'x', '/', '1', '.', '5'], 4, [⟨0, 2, Tok.NUM, "12"⟩, ⟨2, 4, Tok.UNITS, "px"⟩]⟩ 2 [Tok.LPAR, Tok.SUB, Tok.QSTR, Tok.RPAR, Tok.MUL, Tok.DIV, Tok.LE, Tok.COLOR, Tok.NE, Tok.LT, Tok.NUM, Tok.COMMA, Tok.GT, Tok.END, Tok.SIGN, Tok.GE, Tok.FNCT, Tok.STR, Tok.VAR, Tok.EQ, Tok.ID, Tok.AND, Tok.ADD, Tok.NOT, Tok.OR] = .ok (⟨4, 5, Tok.DIV, "/"⟩, ⟨['1', '2', 'p', 'x', '/', '1', '.', '5'], 5, [⟨0, 2, Tok.NUM, "12"⟩, ⟨2, 4, Tok.UNITS, "px"⟩, ⟨4, 5, Tok.DIV, "/"⟩]⟩) := rfl

/-- Scanner fact for input "12px/1.5". -/
theorem tk_a_7 : tokenAt ⟨['1', '2', 'p', 'x', '/', '1', '.', '5'], 5, [⟨0, 2, Tok.NUM, "12"⟩, ⟨2, 4, Tok.UNITS, "px"⟩, ⟨4, 5, Tok.DIV, "/"⟩]⟩ 2 [Tok.MUL, Tok.DIV] = .ok (⟨4, 5, Tok.DIV, "/"⟩, ⟨['1', '2', 'p', 'x', '/', '1', '.', '5'], 5, [⟨0, 2, Tok.NUM, "12"⟩, ⟨2, 4, Tok.UNITS, "px"⟩, ⟨4, 5, Tok.DIV, "/"⟩]⟩) := rfl

/-- Scanner fact for input "12px/1.5". -/
theorem tk_a_8 : tokenAt ⟨['1', '2', 'p', 'x', '/', '1', '.', '5'], 5, [⟨0, 2, Tok.NUM, "12"⟩, ⟨2, 4, Tok.UNITS, "px"⟩, ⟨4, 5, Tok.DIV, "/"⟩]⟩ 2 [Tok.DIV] = .ok (⟨4, 5, Tok.DIV, "/"⟩, ⟨['1', '2', 'p', 'x', '/', '1', '.', '5'], 5, [⟨0, 2, Tok.NUM, "12"⟩, ⟨2, 4, Tok.UNITS, "px"⟩, ⟨4, 5, Tok.DIV, "/"⟩]⟩) := rfl

/-- Scanner fact for input "12px/1.5". -/
theorem tk_a_9 : tokenAt ⟨['1', '2', 'p', 'x', '/', '1', '.', '5'], 5, [⟨0, 2, Tok.NUM, "12"⟩, ⟨2, 4, Tok.UNITS, "px"⟩, ⟨4, 5, Tok.DIV, "/"⟩]⟩ 3 [Tok.LPAR, Tok.COLOR, Tok.QSTR, Tok.SIGN, Tok.ADD, Tok.NUM, Tok.FNCT, Tok.STR, Tok.VAR, Tok.ID] = .ok (⟨5, 8, Tok.NUM, "1.5"⟩, ⟨['1', '2', 'p', 'x', '/', '1', '.', '5'], 8, [⟨0, 2, Tok.NUM, "12"⟩, ⟨2, 4, Tok.UNITS, "px"⟩, ⟨4, 5, Tok.DIV, "/"⟩, ⟨5, 8, Tok.NUM, "1.5"⟩]⟩) := rfl

/-- Scanner fact for input "12px/1.5". -/
theorem tk_a_10 : tokenAt ⟨['1', '2', 'p', 'x', '/', '1', '.', '5'], 8, [⟨0, 2, Tok.NUM, "12"⟩, ⟨2, 4, Tok.UNITS, "px"⟩, ⟨4, 5, Tok.DIV, "/"⟩, ⟨5, 8, Tok.NUM, "1.5"⟩]⟩ 3 [Tok.LPAR, Tok.COLOR, Tok.QSTR, Tok.NUM, Tok.FNCT, Tok.STR, Tok.VAR, Tok.ID] = .ok (⟨5, 8, Tok.NUM, "1.5"⟩, ⟨['1', '2', 'p', 'x', '/', '1', '.', '5'], 8, [⟨0, 2, Tok.NUM, "12"⟩, ⟨2, 4, Tok.UNITS, "px"⟩, ⟨4, 5, Tok.DIV, "/"⟩, ⟨5, 8, Tok.NUM, "1.5"⟩]⟩) := rfl

/-- Scanner fact for input "12px/1.5". -/
theorem tk_a_11 : tokenAt ⟨['1', '2', 'p', 'x', '/', '1', '.', '5'], 8, [⟨0, 2, Tok.NUM, "12"⟩, ⟨2, 4, Tok.UNITS, "px"⟩, ⟨4, 5, Tok.DIV, "/"⟩, ⟨5, 8, Tok.NUM, "1.5"⟩]⟩ 3 [Tok.NUM] = .ok (⟨5, 8, Tok.NUM, "1.5"⟩, ⟨['1', '2', 'p', 'x', '/', '1', '.', '5'], 8, [⟨0, 2, Tok.NUM, "12"⟩, ⟨2, 4, Tok.UNITS, "px"⟩, ⟨4, 5, Tok.DIV, "/"⟩, ⟨5, 8, Tok.NUM, "1.5"⟩]⟩) := rfl

/-- Scanner fact for input "12px/1.5". -/
theorem tk_a_12 : tokenAt ⟨['1', '2', 'p', 'x', '/', '1', '.', '5'], 8, [⟨0, 2, Tok.NUM, "12"⟩, ⟨2, 4, Tok.UNITS, "px"⟩, ⟨4, 5, Tok.DIV, "/"⟩, ⟨5, 8, Tok.NUM, "1.5"⟩]⟩ 4 [Tok.LPAR, Tok.SUB, Tok.QSTR, Tok.RPAR, Tok.VAR, Tok.MUL, Tok.DIV, Tok.LE, Tok.COLOR, Tok.NE, Tok.LT, Tok.NUM, Tok.COMMA, Tok.GT, Tok.END, Tok.SIGN, Tok.GE, Tok.FNCT, Tok.STR, Tok.UNITS, Tok.EQ, Tok.ID, Tok.AND, Tok.ADD, Tok.NOT, Tok.OR] = .ok (⟨8, 8, Tok.END, ""⟩, ⟨['1', '2', 'p', 'x', '/', '1', '.', '5'], 8, [⟨0, 2, Tok.NUM, "12"⟩, ⟨2, 4, Tok.UNITS, "px"⟩, ⟨4, 5, Tok.DIV, "/"⟩, ⟨5, 8, Tok.NUM, "1.5"⟩, ⟨8, 8, Tok.END, ""⟩]⟩) := rfl

/-- Scanner fact for input "12px/1.5". -/
theorem tk_a_13 : tokenAt ⟨['1', '2', 'p', 'x', '/', '1', '.', '5'], 8, [⟨0, 2, Tok.NUM, "12"⟩, ⟨2, 4, Tok.UNITS, "px"⟩, ⟨4, 5, Tok.DIV, "/"⟩, ⟨5, 8, Tok.NUM, "1.5"⟩, ⟨8, 8, Tok.END, ""⟩]⟩ 4 [Tok.LPAR, Tok.SUB, Tok.QSTR, Tok.RPAR, Tok.MUL, Tok.DIV, Tok.LE, Tok.COLOR, Tok.NE, Tok.LT, Tok.NUM, Tok.COMMA, Tok.GT, Tok.END, Tok.SIGN, Tok.GE, Tok.FNCT, Tok.STR, Tok.VAR, Tok.EQ, Tok.ID, Tok.AND, Tok.ADD, Tok.NOT, Tok.OR] = .ok (⟨8, 8, Tok.END, ""⟩, ⟨['1', '2', 'p', 'x', '/', '1', '.', '5'], 8, [⟨0, 2, Tok.NUM, "12"⟩, ⟨2, 4, Tok.UNITS, "px"⟩, ⟨4, 5, Tok.DIV, "/"⟩, ⟨5, 8, Tok.NUM, "1.5"⟩, ⟨8, 8, Tok.END, ""⟩]⟩) := rfl

/-- Scanner fact for input "12px/1.5". -/
theorem tk_a_14 : tokenAt ⟨['1', '2', 'p', 'x', '/', '1', '.', '5'], 8, [⟨0, 2, Tok.NUM, "12"⟩, ⟨2, 4, Tok.UNITS, "px"⟩, ⟨4, 5, Tok.DIV, "/"⟩, ⟨5, 8, Tok.NUM, "1.5"⟩, ⟨8, 8, Tok.END, ""⟩]⟩ 4 [Tok.LPAR, Tok.SUB, Tok.QSTR, Tok.RPAR, Tok.LE, Tok.COLOR, Tok.NE, Tok.LT, Tok.NUM, Tok.COMMA, Tok.GT, Tok.END, Tok.SIGN, Tok.GE, Tok.FNCT, Tok.STR, Tok.VAR, Tok.EQ, Tok.ID, Tok.AND, Tok.ADD, Tok.NOT, Tok.OR] = .ok (⟨8, 8, Tok.END, ""⟩, ⟨['1', '2', 'p', 'x', '/', '1', '.', '5'], 8, [⟨0, 2, Tok.NUM, "12"⟩, ⟨2, 4, Tok.UNITS, "px"⟩, ⟨4, 5, Tok.DIV, "/"⟩, ⟨5, 8, Tok.NUM, "1.5"⟩, ⟨8, 8, Tok.END, ""⟩]⟩) := rfl

/-- Scanner fact for input "12px/1.5". -/
theorem tk_a_15 : tokenAt ⟨['1', '2', 'p', 'x', '/', '1', '.', '5'], 8, [⟨0, 2, Tok.NUM, "12"⟩, ⟨2, 4, Tok.UNITS, "px"⟩, ⟨4, 5, Tok.DIV, "/"⟩, ⟨5, 8, Tok.NUM, "1.5"⟩, ⟨8, 8, Tok.END, ""⟩]⟩ 4 [Tok.LPAR, Tok.QSTR, Tok.RPAR, Tok.LE, Tok.COLOR, Tok.NE, Tok.LT, Tok.NUM, Tok.COMMA, Tok.GT, Tok.END, Tok.SIGN, Tok.ADD, Tok.FNCT, Tok.STR, Tok.VAR, Tok.EQ, Tok.ID, Tok.AND, Tok.GE, Tok.NOT, Tok.OR] = .ok (⟨8, 8, Tok.END, ""⟩, ⟨['1', '2', 'p', 'x', '/', '1', '.', '5'], 8, [⟨0, 2, Tok.NUM, "12"⟩, ⟨2, 4, Tok.UNITS, "px"⟩, ⟨4, 5, Tok.DIV, "/"⟩, ⟨5, 8, Tok.NUM, "1.5"⟩, ⟨8, 8, Tok.END, ""⟩]⟩) := rfl

/-- Scanner fact for input "12px/1.5". -/
theorem tk_a_16 : tokenAt ⟨['1', '2', 'p', 'x', '/', '1', '.', '5'], 8, [⟨0, 2, Tok.NUM, "12"⟩, ⟨2, 4, Tok.UNITS, "px"⟩, ⟨4, 5, Tok.DIV, "/"⟩, ⟨5, 8, Tok.NUM, "1.5"⟩, ⟨8, 8, Tok.END, ""⟩]⟩ 4 [Tok.AND, Tok.LPAR, Tok.END, Tok.COLOR, Tok.QSTR, Tok.SIGN, Tok.VAR, Tok.ADD, Tok.NUM, Tok.COMMA, Tok.FNCT, Tok.STR, Tok.NOT, Tok.ID, Tok.RPAR, Tok.OR] = .ok (⟨8, 8, Tok.END, ""⟩, ⟨['1', '2', 'p', 'x', '/', '1', '.', '5'], 8, [⟨0, 2, Tok.NUM, "12"⟩, ⟨2, 4, Tok.UNITS, "px"⟩, ⟨4, 5, Tok.DIV, "/"⟩, ⟨5, 8, Tok.NUM, "1.5"⟩, ⟨8, 8, Tok.END, ""⟩]⟩) := rfl

/-- Scanner fact for input "12px/1.5". -/
theorem tk_a_17 : tokenAt ⟨['1', '2', 'p', 'x', '/', '1', '.', '5'], 8, [⟨0, 2, Tok.NUM, "12"⟩, ⟨2, 4, Tok.UNITS, "px"⟩, ⟨4, 5, Tok.DIV, "/"⟩, ⟨5, 8, Tok.NUM, "1.5"⟩, ⟨8, 8, Tok.END, ""⟩]⟩ 4 [Tok.LPAR, Tok.END, Tok.COLOR, Tok.QSTR, Tok.RPAR, Tok.VAR, Tok.ADD, Tok.NUM, Tok.COMMA, Tok.FNCT, Tok.STR, Tok.NOT, Tok.ID, Tok.SIGN, Tok.OR] = .ok (⟨8, 8, Tok.END, ""⟩, ⟨['1', '2', 'p', 'x', '/', '1', '.', '5'], 8, [⟨0, 2, Tok.NUM, "12"⟩, ⟨2, 4, Tok.UNITS, "px"⟩, ⟨4, 5, Tok.DIV, "/"⟩, ⟨5, 8, Tok.NUM, "1.5"⟩, ⟨8, 8, Tok.END, ""⟩]⟩) := rfl

/-- Scanner fact for input "12px/1.5". -/
theorem tk_a_18 : tokenAt ⟨['1', '2', 'p', 'x', '/', '1', '.', '5'], 8, [⟨0, 2, Tok.NUM, "12"⟩, ⟨2, 4, Tok.UNITS, "px"⟩, ⟨4, 5, Tok.DIV, "/"⟩, ⟨5, 8, Tok.NUM, "1.5"⟩, ⟨8, 8, Tok.END, ""⟩]⟩ 4 [Tok.LPAR, Tok.END, Tok.COLOR, Tok.QSTR, Tok.RPAR, Tok.VAR, Tok.ADD, Tok.NUM, Tok.COMMA, Tok.FNCT, Tok.STR, Tok.NOT, Tok.SIGN, Tok.ID] = .ok (⟨8, 8, Tok.END, ""⟩, ⟨['1', '2', 'p', 'x', '/', '1', '.', '5'], 8, [⟨0, 2, Tok.NUM, "12"⟩, ⟨2, 4, Tok.UNITS, "px"⟩, ⟨4, 5, Tok.DIV, "/"⟩, ⟨5, 8, Tok.NUM, "1.5"⟩, ⟨8, 8, Tok.END, ""⟩]⟩) := rfl

/-- Scanner fact for input "12px/1.5". -/
theorem tk_a_19 : tokenAt ⟨['1', '2', 'p', 'x', '/', '1', '.', '5'], 8, [⟨0, 2, Tok.NUM, "12"⟩, ⟨2, 4, Tok.UNITS, "px"⟩, ⟨4, 5, Tok.DIV, "/"⟩, ⟨5, 8, Tok.NUM, "1.5"⟩, ⟨8, 8, Tok.END, ""⟩]⟩ 4 [Tok.END, Tok.COMMA, Tok.RPAR] = .ok (⟨8, 8, Tok.END, ""⟩, ⟨['1', '2', 'p', 'x', '/', '1', '.', '5'], 8, [⟨0, 2, Tok.NUM, "12"⟩, ⟨2, 4, Tok.UNITS, "px"⟩, ⟨4, 5, Tok.DIV, "/"⟩, ⟨5, 8, Tok.NUM, "1.5"⟩, ⟨8, 8, Tok.END, ""⟩]⟩) := rfl

/-- Scanner fact for input "12px/1.5". -/
theorem tk_a_20 : tokenAt ⟨['1', '2', 'p', 'x', '/', '1', '.', '5'], 8, [⟨0, 2, Tok.NUM, "12"⟩, ⟨2, 4, Tok.UNITS, "px"⟩, ⟨4, 5, Tok.DIV, "/"⟩, ⟨5, 8, Tok.NUM, "1.5"⟩, ⟨8, 8, Tok.END, ""⟩]⟩ 4 [Tok.END] = .ok (⟨8, 8, Tok.END, ""⟩, ⟨['1', '2', 'p', 'x', '/', '1', '.', '5'], 8, [⟨0, 2, Tok.NUM, "12"⟩, ⟨2, 4, Tok.UNITS, "px"⟩, ⟨4, 5, Tok.DIV, "/"⟩, ⟨5, 8, Tok.NUM, "1.5"⟩, ⟨8, 8, Tok.END, ""⟩]⟩) := rfl

/-- Parser step for input "12px/1.5". -/
theorem ps_a_0 : atomF 90 ⟨⟨['1', '2', 'p', 'x', '/', '1', '.', '5'], 2, [⟨0, 2, Tok.NUM, "12"⟩]⟩, 0⟩ = .ok ((.Literal (.Number ⟨12, 1⟩ ["px"] [])), ⟨⟨['1', '2', 'p', 'x', '/', '1', '.', '5'], 4, [⟨0, 2, Tok.NUM, "12"⟩, ⟨2, 4, Tok.UNITS, "px"⟩]⟩, 2⟩) := by
  rw [atomF]
  simp only [tk_a_2, tk_a_3, tk_a_4, tk_a_5, pPeek, pScan, pRewind, scanRewind, peekIn, tokMem, exceptBind_ok, exceptBind_error, exceptMap_ok, exceptMap_error, exceptPure, Option.some.injEq, reduceIte, reduceDIte, reduceCtorEq, Nat.reduceAdd, Nat.reduceSub, Nat.reduceEqDiff, decide_True, decide_False, decide_eq_true_eq, ne_eq, not_false_eq_true, not_true_eq_false, List.cons_append, List.nil_append, List.append_nil, or_self, or_false, false_or, and_self, and_true, true_and, u_expr_chks, u_expr_rsts, expr_rsts, expr_slst_rsts, expr_lst_rsts, and_test_rsts, not_test_rsts, comparison_rsts, comparison_chks, a_expr_rsts, a_expr_chks, m_expr_rsts, m_expr_chks, atom_rsts, atom_rsts_post, argspec_rsts, argspec_item_rsts, argspec_item_rsts_post, sdata0, sdata1, sdata2, sdata3, parse_bareword, COLOR_NAMES, parseNum, digitsToNat, lowerStr, parseHexColor, hexToNat, isDigitC, isAlphaC, SassQ.add, SassQ.fromNat, mkQ, gcdQ, gcdFuel, List.find?, List.map, List.take, List.drop, List.takeWhile, List.dropWhile, List.dropLast, List.isEmpty, List.length, Option.map, Char.reduceEq, Char.reduceBEq, Char.reduceLE, Char.reduceLT, Char.reduceToNat, Char.reduceToLower, String.reduceMk, String.reduceEq, String.reduceBEq, Nat.reduceMul, Nat.reduceDiv, Nat.reduceMod, Nat.reducePow, Nat.reduceLeDiff, Nat.reduceLT, Nat.reduceGT, Int.reduceAdd, Int.reduceSub, Int.reduceMul, Int.reduceNeg, Int.reduceDiv, Int.reduceLT, Int.reduceLE, Int.reduceEq, Int.reduceBEq, Int.reduceToNat, Int.reduceAbs, Int.reducePow, Int.reduceMod, Int.reduceOfNat, Nat.cast_ofNat, Nat.cast_one, Nat.cast_zero]

/-- Parser step for input "12px/1.5". -/
theorem ps_a_1 : uExprF 91 ⟨⟨['1', '2', 'p', 'x', '/', '1', '.', '5'], 2, [⟨0, 2, Tok.NUM, "12"⟩]⟩, 0⟩ = .ok ((.Literal (.Number ⟨12, 1⟩ ["px"] [])), ⟨⟨['1', '2', 'p', 'x', '/', '1', '.', '5'], 4, [⟨0, 2, Tok.NUM, "12"⟩, ⟨2, 4, Tok.UNITS, "px"⟩]⟩, 2⟩) := by
  rw [uExprF]
  simp only [ps_a_0, tk_a_1, pPeek, pScan, pRewind, scanRewind, peekIn, tokMem, exceptBind_ok, exceptBind_error, exceptMap_ok, exceptMap_error, exceptPure, Option.some.injEq, reduceIte, reduceDIte, reduceCtorEq, Nat.reduceAdd, Nat.reduceSub, Nat.reduceEqDiff, decide_True, decide_False, decide_eq_true_eq, ne_eq, not_false_eq_true, not_true_eq_false, List.cons_append, List.nil_append, List.append_nil, or_self, or_false, false_or, and_self, and_true, true_and, u_expr_chks, u_expr_rsts, expr_rsts, expr_slst_rsts, expr_lst_rsts, and_test_rsts, not_test_rsts, comparison_rsts, comparison_chks, a_expr_rsts, a_expr_chks, m_expr_rsts, m_expr_chks, atom_rsts, atom_rsts_post, argspec_rsts, argspec_item_rsts, argspec_item_rsts_post, ne_eq]

/-- Parser step for input "12px/1.5". -/
theorem ps_a_2 : atomF 89 ⟨⟨['1', '2', 'p', 'x', '/', '1', '.', '5'], 8, [⟨0, 2, Tok.NUM, "12"⟩, ⟨2, 4, Tok.UNITS, "px"⟩, ⟨4, 5, Tok.DIV, "/"⟩, ⟨5, 8, Tok.NUM, "1.5"⟩]⟩, 3⟩ = .ok ((.Literal (.Number ⟨3, 2⟩ [] [])), ⟨⟨['1', '2', 'p', 'x', '/', '1', '.', '5'], 8, [⟨0, 2, Tok.NUM, "12"⟩, ⟨2, 4, Tok.UNITS, "px"⟩, ⟨4, 5, Tok.DIV, "/"⟩, ⟨5, 8, Tok.NUM, "1.5"⟩, ⟨8, 8, Tok.END, ""⟩]⟩, 4⟩) := by
  rw [atomF]
  simp only [tk_a_10, tk_a_11, tk_a_12, pPeek, pScan, pRewind, scanRewind, peekIn, tokMem, exceptBind_ok, exceptBind_error, exceptMap_ok, exceptMap_error, exceptPure, Option.some.injEq, reduceIte, reduceDIte, reduceCtorEq, Nat.reduceAdd, Nat.reduceSub, Nat.reduceEqDiff, decide_True, decide_False, decide_eq_true_eq, ne_eq, not_false_eq_true, not_true_eq_false, List.cons_append, List.nil_append, List.append_nil, or_self, or_false, false_or, and_self, and_true, true_and, u_expr_chks, u_expr_rsts, expr_rsts, expr_slst_rsts, expr_lst_rsts, and_test_rsts, not_test_rsts, comparison_rsts, comparison_chks, a_expr_rsts, a_expr_chks, m_expr_rsts, m_expr_chks, atom_rsts, atom_rsts_post, argspec_rsts, argspec_item_rsts, argspec_item_rsts_post, sdata0, sdata1, sdata2, sdata3, parse_bareword, COLOR_NAMES, parseNum, digitsToNat, lowerStr, parseHexColor, hexToNat, isDigitC, isAlphaC, SassQ.add, SassQ.fromNat, mkQ, gcdQ, gcdFuel, List.find?, List.map, List.take, List.drop, List.takeWhile, List.dropWhile, List.dropLast, List.isEmpty, List.length, Option.map, Char.reduceEq, Char.reduceBEq, Char.reduceLE, Char.reduceLT, Char.reduceToNat, Char.reduceToLower, String.reduceMk, String.reduceEq, String.reduceBEq, Nat.reduceMul, Nat.reduceDiv, Nat.reduceMod, Nat.reducePow, Nat.reduceLeDiff, Nat.reduceLT, Nat.reduceGT, Int.reduceAdd, Int.reduceSub, Int.reduceMul, Int.reduceNeg, Int.reduceDiv, Int.reduceLT, Int.reduceLE, Int.reduceEq, Int.reduceBEq, Int.reduceToNat, Int.reduceAbs, Int.reducePow, Int.reduceMod, Int.reduceOfNat, Nat.cast_ofNat, Nat.cast_one, Nat.cast_zero]

/-- Parser step for input "12px/1.5". -/
theorem ps_a_3 : uExprF 90 ⟨⟨['1', '2', 'p', 'x', '/', '1', '.', '5'], 5, [⟨0, 2, Tok.NUM, "12"⟩, ⟨2, 4, Tok.UNITS, "px"⟩, ⟨4, 5, Tok.DIV, "/"⟩]⟩, 3⟩ = .ok ((.Literal (.Number ⟨3, 2⟩ [] [])), ⟨⟨['1', '2', 'p', 'x', '/', '1', '.', '5'], 8, [⟨0, 2, Tok.NUM, "12"⟩, ⟨2, 4, Tok.UNITS, "px"⟩, ⟨4, 5, Tok.DIV, "/"⟩, ⟨5, 8, Tok.NUM, "1.5"⟩, ⟨8, 8, Tok.END, ""⟩]⟩, 4⟩) := by
  rw [uExprF]
  simp only [ps_a_2, tk_a_9, pPeek, pScan, pRewind, scanRewind, peekIn, tokMem, exceptBind_ok, exceptBind_error, exceptMap_ok, exceptMap_error, exceptPure, Option.some.injEq, reduceIte, reduceDIte, reduceCtorEq, Nat.reduceAdd, Nat.reduceSub, Nat.reduceEqDiff, decide_True, decide_False, decide_eq_true_eq, ne_eq, not_false_eq_true, not_true_eq_false, List.cons_append, List.nil_append, List.append_nil, or_self, or_false, false_or, and_self, and_true, true_and, u_expr_chks, u_expr_rsts, expr_rsts, expr_slst_rsts, expr_lst_rsts, and_test_rsts, not_test_rsts, comparison_rsts, comparison_chks, a_expr_rsts, a_expr_chks, m_expr_rsts, m_expr_chks, atom_rsts, atom_rsts_post, argspec_rsts, argspec_item_rsts, argspec_item_rsts_post, ne_eq]

/-- Parser step for input "12px/1.5". -/
theorem ps_a_4 : mLoopF 90 (.BinaryOp .div (.Literal (.Number ⟨12, 1⟩ ["px"] [])) (.Literal (.Number ⟨3, 2⟩ [] []))) ⟨⟨['1', '2', 'p', 'x', '/', '1', '.', '5'], 8, [⟨0, 2, Tok.NUM, "12"⟩, ⟨2, 4, Tok.UNITS, "px"⟩, ⟨4, 5, Tok.DIV, "/"⟩, ⟨5, 8, Tok.NUM, "1.5"⟩, ⟨8, 8, Tok.END, ""⟩]⟩, 4⟩ = .ok ((.BinaryOp .div (.Literal (.Number ⟨12, 1⟩ ["px"] [])) (.Literal (.Number ⟨3, 2⟩ [] []))), ⟨⟨['1', '2', 'p', 'x', '/', '1', '.', '5'], 8, [⟨0, 2, Tok.NUM, "12"⟩, ⟨2, 4, Tok.UNITS, "px"⟩, ⟨4, 5, Tok.DIV, "/"⟩, ⟨5, 8, Tok.NUM, "1.5"⟩, ⟨8, 8, Tok.END, ""⟩]⟩, 4⟩) := by
  rw [mLoopF]
  simp only [tk_a_13, pPeek, pScan, pRewind, scanRewind, peekIn, tokMem, exceptBind_ok, exceptBind_error, exceptMap_ok, exceptMap_error, exceptPure, Option.some.injEq, reduceIte, reduceDIte, reduceCtorEq, Nat.reduceAdd, Nat.reduceSub, Nat.reduceEqDiff, decide_True, decide_False, decide_eq_true_eq, ne_eq, not_false_eq_true, not_true_eq_false, List.cons_append, List.nil_append, List.append_nil, or_self, or_false, false_or, and_self, and_true, true_and, u_expr_chks, u_expr_rsts, expr_rsts, expr_slst_rsts, expr_lst_rsts, and_test_rsts, not_test_rsts, comparison_rsts, comparison_chks, a_expr_rsts, a_expr_chks, m_expr_rsts, m_expr_chks, atom_rsts, atom_rsts_post, argspec_rsts, argspec_item_rsts, argspec_item_rsts_post, ne_eq]

/-- Parser step for input "12px/1.5". -/
theorem ps_a_5 : mLoopF 91 (.Literal (.Number ⟨12, 1⟩ ["px"] [])) ⟨⟨['1', '2', 'p', 'x', '/', '1', '.', '5'], 4, [⟨0, 2, Tok.NUM, "12"⟩, ⟨2, 4, Tok.UNITS, "px"⟩]⟩, 2⟩ = .ok ((.BinaryOp .div (.Literal (.Number ⟨12, 1⟩ ["px"] [])) (.Literal (.Number ⟨3, 2⟩ [] []))), ⟨⟨['1', '2', 'p', 'x', '/', '1', '.', '5'], 8, [⟨0, 2, Tok.NUM, "12"⟩, ⟨2, 4, Tok.UNITS, "px"⟩, ⟨4, 5, Tok.DIV, "/"⟩, ⟨5, 8, Tok.NUM, "1.5"⟩, ⟨8, 8, Tok.END, ""⟩]⟩, 4⟩) := by
  rw [mLoopF]
  simp only [ps_a_3, ps_a_4, tk_a_6, tk_a_7, tk_a_8, pPeek, pScan, pRewind, scanRewind, peekIn, tokMem, exceptBind_ok, exceptBind_error, exceptMap_ok, exceptMap_error, exceptPure, Option.some.injEq, reduceIte, reduceDIte, reduceCtorEq, Nat.reduceAdd, Nat.reduceSub, Nat.reduceEqDiff, decide_True, decide_False, decide_eq_true_eq, ne_eq, not_false_eq_true, not_true_eq_false, List.cons_append, List.nil_append, List.append_nil, or_self, or_false, false_or, and_self, and_true, true_and, u_expr_chks, u_expr_rsts, expr_rsts, expr_slst_rsts, expr_lst_rsts, and_test_rsts, not_test_rsts, comparison_rsts, comparison_chks, a_expr_rsts, a_expr_chks, m_expr_rsts, m_expr_chks, atom_rsts, atom_rsts_post, argspec_rsts, argspec_item_rsts, argspec_item_rsts_post, ne_eq]

/-- Parser step for input "12px/1.5". -/
theorem ps_a_6 : mExprF 92 ⟨⟨['1', '2', 'p', 'x', '/', '1', '.', '5'], 2, [⟨0, 2, Tok.NUM, "12"⟩]⟩, 0⟩ = .ok ((.BinaryOp .div (.Literal (.Number ⟨12, 1⟩ ["px"] [])) (.Literal (.Number ⟨3, 2⟩ [] []))), ⟨⟨['1', '2', 'p', 'x', '/', '1', '.', '5'], 8, [⟨0, 2, Tok.NUM, "12"⟩, ⟨2, 4, Tok.UNITS, "px"⟩, ⟨4, 5, Tok.DIV, "/"⟩, ⟨5, 8, Tok.NUM, "1.5"⟩, ⟨8, 8, Tok.END, ""⟩]⟩, 4⟩) := by
  rw [mExprF, ps_a_1]
  rw [exceptBind_ok]
  simp only [ps_a_5, pPeek, pScan, pRewind, scanRewind, peekIn, tokMem, exceptBind_ok, exceptBind_error, exceptMap_ok, exceptMap_error, exceptPure, Option.some.injEq, reduceIte, reduceDIte, reduceCtorEq, Nat.reduceAdd, Nat.reduceSub, Nat.reduceEqDiff, decide_True, decide_False, decide_eq_true_eq, ne_eq, not_false_eq_true, not_true_eq_false, List.cons_append, List.nil_append, List.append_nil, or_self, or_false, false_or, and_self, and_true, true_and, u_expr_chks, u_expr_rsts, expr_rsts, expr_slst_rsts, expr_lst_rsts, and_test_rsts, not_test_rsts, comparison_rsts, comparison_chks, a_expr_rsts, a_expr_chks, m_expr_rsts, m_expr_chks, atom_rsts, atom_rsts_post, argspec_rsts, argspec_item_rsts, argspec_item_rsts_post, ne_eq]

/-- Parser step for input "12px/1.5". -/
theorem ps_a_7 : aLoopF 92 (.BinaryOp .div (.Literal (.Number ⟨12, 1⟩ ["px"] [])) (.Literal (.Number ⟨3, 2⟩ [] []))) ⟨⟨['1', '2', 'p', 'x', '/', '1', '.', '5'], 8, [⟨0, 2, Tok.NUM, "12"⟩, ⟨2, 4, Tok.UNITS, "px"⟩, ⟨4, 5, Tok.DIV, "/"⟩, ⟨5, 8, Tok.NUM, "1.5"⟩, ⟨8, 8, Tok.END, ""⟩]⟩, 4⟩ = .ok ((.BinaryOp .div (.Literal (.Number ⟨12, 1⟩ ["px"] [])) (.Literal (.Number ⟨3, 2⟩ [] []))), ⟨⟨['1', '2', 'p', 'x', '/', '1', '.', '5'], 8, [⟨0, 2, Tok.NUM, "12"⟩, ⟨2, 4, Tok.UNITS, "px"⟩, ⟨4, 5, Tok.DIV, "/"⟩, ⟨5, 8, Tok.NUM, "1.5"⟩, ⟨8, 8, Tok.END, ""⟩]⟩, 4⟩) := by
  rw [aLoopF]
  simp only [tk_a_14, pPeek, pScan, pRewind, scanRewind, peekIn, tokMem, exceptBind_ok, exceptBind_error, exceptMap_ok, exceptMap_error, exceptPure, Option.some.injEq, reduceIte, reduceDIte, reduceCtorEq, Nat.reduceAdd, Nat.reduceSub, Nat.reduceEqDiff, decide_True, decide_False, decide_eq_true_eq, ne_eq, not_false_eq_true, not_true_eq_false, List.cons_append, List.nil_append, List.append_nil, or_self, or_false, false_or, and_self, and_true, true_and, u_expr_chks, u_expr_rsts, expr_rsts, expr_slst_rsts, expr_lst_rsts, and_test_rsts, not_test_rsts, comparison_rsts, comparison_chks, a_expr_rsts, a_expr_chks, m_expr_rsts, m_expr_chks, atom_rsts, atom_rsts_post, argspec_rsts, argspec_item_rsts, argspec_item_rsts_post, ne_eq]

/-- Parser step for input "12px/1.5". -/
theorem ps_a_8 : aExprF 93 ⟨⟨['1', '2', 'p', 'x', '/', '1', '.', '5'], 2, [⟨0, 2, Tok.NUM, "12"⟩]⟩, 0⟩ = .ok ((.BinaryOp .div (.Literal (.Number ⟨12, 1⟩ ["px"] [])) (.Literal (.Number ⟨3, 2⟩ [] []))), ⟨⟨['1', '2', 'p', 'x', '/', '1', '.', '5'], 8, [⟨0, 2, Tok.NUM, "12"⟩, ⟨2, 4, Tok.UNITS, "px"⟩, ⟨4, 5, Tok.DIV, "/"⟩, ⟨5, 8, Tok.NUM, "1.5"⟩, ⟨8, 8, Tok.END, ""⟩]⟩, 4⟩) := by
  rw [aExprF, ps_a_6]
  rw [exceptBind_ok]
  simp only [ps_a_7, pPeek, pScan, pRewind, scanRewind, peekIn, tokMem, exceptBind_ok, exceptBind_error, exceptMap_ok, exceptMap_error, exceptPure, Option.some.injEq, reduceIte, reduceDIte, reduceCtorEq, Nat.reduceAdd, Nat.reduceSub, Nat.reduceEqDiff, decide_True, decide_False, decide_eq_true_eq, ne_eq, not_false_eq_true, not_true_eq_false, List.cons_append, List.nil_append, List.append_nil, or_self, or_false, false_or, and_self, and_true, true_and, u_expr_chks, u_expr_rsts, expr_rsts, expr_slst_rsts, expr_lst_rsts, and_test_rsts, not_test_rsts, comparison_rsts, comparison_chks, a_expr_rsts, a_expr_chks, m_expr_rsts, m_expr_chks, atom_rsts, atom_rsts_post, argspec_rsts, argspec_item_rsts, argspec_item_rsts_post, ne_eq]

/-- Parser step for input "12px/1.5". -/
theorem ps_a_9 : compLoopF 93 (.BinaryOp .div (.Literal (.Number ⟨12, 1⟩ ["px"] [])) (.Literal (.Number ⟨3, 2⟩ [] []))) ⟨⟨['1', '2', 'p', 'x', '/', '1', '.', '5'], 8, [⟨0, 2, Tok.NUM, "12"⟩, ⟨2, 4, Tok.UNITS, "px"⟩, ⟨4, 5, Tok.DIV, "/"⟩, ⟨5, 8, Tok.NUM, "1.5"⟩, ⟨8, 8, Tok.END, ""⟩]⟩, 4⟩ = .ok ((.BinaryOp .div (.Literal (.Number ⟨12, 1⟩ ["px"] [])) (.Literal (.Number ⟨3, 2⟩ [] []))), ⟨⟨['1', '2', 'p', 'x', '/', '1', '.', '5'], 8, [⟨0, 2, Tok.NUM, "12"⟩, ⟨2, 4, Tok.UNITS, "px"⟩, ⟨4, 5, Tok.DIV, "/"⟩, ⟨5, 8, Tok.NUM, "1.5"⟩, ⟨8, 8, Tok.END, ""⟩]⟩, 4⟩) := by
  rw [compLoopF]
  simp only [tk_a_15, pPeek, pScan, pRewind, scanRewind, peekIn, tokMem, exceptBind_ok, exceptBind_error, exceptMap_ok, exceptMap_error, exceptPure, Option.some.injEq, reduceIte, reduceDIte, reduceCtorEq, Nat.reduceAdd, Nat.reduceSub, Nat.reduceEqDiff, decide_True, decide_False, decide_eq_true_eq, ne_eq, not_false_eq_true, not_true_eq_false, List.cons_append, List.nil_append, List.append_nil, or_self, or_false, false_or, and_self, and_true, true_and, u_expr_chks, u_expr_rsts, expr_rsts, expr_slst_rsts, expr_lst_rsts, and_test_rsts, not_test_rsts, comparison_rsts, comparison_chks, a_expr_rsts, a_expr_chks, m_expr_rsts, m_expr_chks, atom_rsts, atom_rsts_post, argspec_rsts, argspec_item_rsts, argspec_item_rsts_post, ne_eq]

/-- Parser step for input "12px/1.5". -/
theorem ps_a_10 : comparisonF 94 ⟨⟨['1', '2', 'p', 'x', '/', '1', '.', '5'], 2, [⟨0, 2, Tok.NUM, "12"⟩]⟩, 0⟩ = .ok ((.BinaryOp .div (.Literal (.Number ⟨12, 1⟩ ["px"] [])) (.Literal (.Number ⟨3, 2⟩ [] []))), ⟨⟨['1', '2', 'p', 'x', '/', '1', '.', '5'], 8, [⟨0, 2, Tok.NUM, "12"⟩, ⟨2, 4, Tok.UNITS, "px"⟩, ⟨4, 5, Tok.DIV, "/"⟩, ⟨5, 8, Tok.NUM, "1.5"⟩, ⟨8, 8, Tok.END, ""⟩]⟩, 4⟩) := by
  rw [comparisonF, ps_a_8]
  rw [exceptBind_ok]
  simp only [ps_a_9, pPeek, pScan, pRewind, scanRewind, peekIn, tokMem, exceptBind_ok, exceptBind_error, exceptMap_ok, exceptMap_error, exceptPure, Option.some.injEq, reduceIte, reduceDIte, reduceCtorEq, Nat.reduceAdd, Nat.reduceSub, Nat.reduceEqDiff, decide_True, decide_False, decide_eq_true_eq, ne_eq, not_false_eq_true, not_true_eq_false, List.cons_append, List.nil_append, List.append_nil, or_self, or_false, false_or, and_self, and_true, true_and, u_expr_chks, u_expr_rsts, expr_rsts, expr_slst_rsts, expr_lst_rsts, and_test_rsts, not_test_rsts, comparison_rsts, comparison_chks, a_expr_rsts, a_expr_chks, m_expr_rsts, m_expr_chks, atom_rsts, atom_rsts_post, argspec_rsts, argspec_item_rsts, argspec_item_rsts_post, ne_eq]

/-- Parser step for input "12px/1.5". -/
theorem ps_a_11 : notTestF 95 ⟨⟨['1', '2', 'p', 'x', '/', '1', '.', '5'], 0, []⟩, 0⟩ = .ok ((.BinaryOp .div (.Literal (.Number ⟨12, 1⟩ ["px"] [])) (.Literal (.Number ⟨3, 2⟩ [] []))), ⟨⟨['1', '2', 'p', 'x', '/', '1', '.', '5'], 8, [⟨0, 2, Tok.NUM, "12"⟩, ⟨2, 4, Tok.UNITS, "px"⟩, ⟨4, 5, Tok.DIV, "/"⟩, ⟨5, 8, Tok.NUM, "1.5"⟩, ⟨8, 8, Tok.END, ""⟩]⟩, 4⟩) := by
  rw [notTestF]
  simp only [ps_a_10, tk_a_0, pPeek, pScan, pRewind, scanRewind, peekIn, tokMem, exceptBind_ok, exceptBind_error, exceptMap_ok, exceptMap_error, exceptPure, Option.some.injEq, reduceIte, reduceDIte, reduceCtorEq, Nat.reduceAdd, Nat.reduceSub, Nat.reduceEqDiff, decide_True, decide_False, decide_eq_true_eq, ne_eq, not_false_eq_true, not_true_eq_false, List.cons_append, List.nil_append, List.append_nil, or_self, or_false, false_or, and_self, and_true, true_and, u_expr_chks, u_expr_rsts, expr_rsts, expr_slst_rsts, expr_lst_rsts, and_test_rsts, not_test_rsts, comparison_rsts, comparison_chks, a_expr_rsts, a_expr_chks, m_expr_rsts, m_expr_chks, atom_rsts, atom_rsts_post, argspec_rsts, argspec_item_rsts, argspec_item_rsts_post, ne_eq]

/-- Parser step for input "12px/1.5". -/
theorem ps_a_12 : andLoopF 95 (.BinaryOp .div (.Literal (.Number ⟨12, 1⟩ ["px"] [])) (.Literal (.Number ⟨3, 2⟩ [] []))) ⟨⟨['1', '2', 'p', 'x', '/', '1', '.', '5'], 8, [⟨0, 2, Tok.NUM, "12"⟩, ⟨2, 4, Tok.UNITS, "px"⟩, ⟨4, 5, Tok.DIV, "/"⟩, ⟨5, 8, Tok.NUM, "1.5"⟩, ⟨8, 8, Tok.END, ""⟩]⟩, 4⟩ = .ok ((.BinaryOp .div (.Literal (.Number ⟨12, 1⟩ ["px"] [])) (.Literal (.Number ⟨3, 2⟩ [] []))), ⟨⟨['1', '2', 'p', 'x', '/', '1', '.', '5'], 8, [⟨0, 2, Tok.NUM, "12"⟩, ⟨2, 4, Tok.UNITS, "px"⟩, ⟨4, 5, Tok.DIV, "/"⟩, ⟨5, 8, Tok.NUM, "1.5"⟩, ⟨8, 8, Tok.END, ""⟩]⟩, 4⟩) := by
  rw [andLoopF]
  simp only [tk_a_16, pPeek, pScan, pRewind, scanRewind, peekIn, tokMem, exceptBind_ok, exceptBind_error, exceptMap_ok, exceptMap_error, exceptPure, Option.some.injEq, reduceIte, reduceDIte, reduceCtorEq, Nat.reduceAdd, Nat.reduceSub, Nat.reduceEqDiff, decide_True, decide_False, decide_eq_true_eq, ne_eq, not_false_eq_true, not_true_eq_false, List.cons_append, List.nil_append, List.append_nil, or_self, or_false, false_or, and_self, and_true, true_and, u_expr_chks, u_expr_rsts, expr_rsts, expr_slst_rsts, expr_lst_rsts, and_test_rsts, not_test_rsts, comparison_rsts, comparison_chks, a_expr_rsts, a_expr_chks, m_expr_rsts, m_expr_chks, atom_rsts, atom_rsts_post, argspec_rsts, argspec_item_rsts, argspec_item_rsts_post, ne_eq]

/-- Parser step for input "12px/1.5". -/
theorem ps_a_13 : andTestF 96 ⟨⟨['1', '2', 'p', 'x', '/', '1', '.', '5'], 0, []⟩, 0⟩ = .ok ((.BinaryOp .div (.Literal (.Number ⟨12, 1⟩ ["px"] [])) (.Literal (.Number ⟨3, 2⟩ [] []))), ⟨⟨['1', '2', 'p', 'x', '/', '1', '.', '5'], 8, [⟨0, 2, Tok.NUM, "12"⟩, ⟨2, 4, Tok.UNITS, "px"⟩, ⟨4, 5, Tok.DIV, "/"⟩, ⟨5, 8, Tok.NUM, "1.5"⟩, ⟨8, 8, Tok.END, ""⟩]⟩, 4⟩) := by
  rw [andTestF, ps_a_11]
  rw [exceptBind_ok]
  simp only [ps_a_12, pPeek, pScan, pRewind, scanRewind, peekIn, tokMem, exceptBind_ok, exceptBind_error, exceptMap_ok, exceptMap_error, exceptPure, Option.some.injEq, reduceIte, reduceDIte, reduceCtorEq, Nat.reduceAdd, Nat.reduceSub, Nat.reduceEqDiff, decide_True, decide_False, decide_eq_true_eq, ne_eq, not_false_eq_true, not_true_eq_false, List.cons_append, List.nil_append, List.append_nil, or_self, or_false, false_or, and_self, and_true, true_and, u_expr_chks, u_expr_rsts, expr_rsts, expr_slst_rsts, expr_lst_rsts, and_test_rsts, not_test_rsts, comparison_rsts, comparison_chks, a_expr_rsts, a_expr_chks, m_expr_rsts, m_expr_chks, atom_rsts, atom_rsts_post, argspec_rsts, argspec_item_rsts, argspec_item_rsts_post, ne_eq]

/-- Parser step for input "12px/1.5". -/
theorem ps_a_14 : exprLoopF 96 (.BinaryOp .div (.Literal (.Number ⟨12, 1⟩ ["px"] [])) (.Literal (.Number ⟨3, 2⟩ [] []))) ⟨⟨['1', '2', 'p', 'x', '/', '1', '.', '5'], 8, [⟨0, 2, Tok.NUM, "12"⟩, ⟨2, 4, Tok.UNITS, "px"⟩, ⟨4, 5, Tok.DIV, "/"⟩, ⟨5, 8, Tok.NUM, "1.5"⟩, ⟨8, 8, Tok.END, ""⟩]⟩, 4⟩ = .ok ((.BinaryOp .div (.Literal (.Number ⟨12, 1⟩ ["px"] [])) (.Literal (.Number ⟨3, 2⟩ [] []))), ⟨⟨['1', '2', 'p', 'x', '/', '1', '.', '5'], 8, [⟨0, 2, Tok.NUM, "12"⟩, ⟨2, 4, Tok.UNITS, "px"⟩, ⟨4, 5, Tok.DIV, "/"⟩, ⟨5, 8, Tok.NUM, "1.5"⟩, ⟨8, 8, Tok.END, ""⟩]⟩, 4⟩) := by
  rw [exprLoopF]
  simp only [tk_a_17, pPeek, pScan, pRewind, scanRewind, peekIn, tokMem, exceptBind_ok, exceptBind_error, exceptMap_ok, exceptMap_error, exceptPure, Option.some.injEq, reduceIte, reduceDIte, reduceCtorEq, Nat.reduceAdd, Nat.reduceSub, Nat.reduceEqDiff, decide_True, decide_False, decide_eq_true_eq, ne_eq, not_false_eq_true, not_true_eq_false, List.cons_append, List.nil_append, List.append_nil, or_self, or_false, false_or, and_self, and_true, true_and, u_expr_chks, u_expr_rsts, expr_rsts, expr_slst_rsts, expr_lst_rsts, and_test_rsts, not_test_rsts, comparison_rsts, comparison_chks, a_expr_rsts, a_expr_chks, m_expr_rsts, m_expr_chks, atom_rsts, atom_rsts_post, argspec_rsts, argspec_item_rsts, argspec_item_rsts_post, ne_eq]

/-- Parser step for input "12px/1.5". -/
theorem ps_a_15 : exprF 97 ⟨⟨['1', '2', 'p', 'x', '/', '1', '.', '5'], 0, []⟩, 0⟩ = .ok ((.BinaryOp .div (.Literal (.Number ⟨12, 1⟩ ["px"] [])) (.Literal (.Number ⟨3, 2⟩ [] []))), ⟨⟨['1', '2', 'p', 'x', '/', '1', '.', '5'], 8, [⟨0, 2, Tok.NUM, "12"⟩, ⟨2, 4, Tok.UNITS, "px"⟩, ⟨4, 5, Tok.DIV, "/"⟩, ⟨5, 8, Tok.NUM, "1.5"⟩, ⟨8, 8, Tok.END, ""⟩]⟩, 4⟩) := by
  rw [exprF, ps_a_13]
  rw [exceptBind_ok]
  simp only [ps_a_14, pPeek, pScan, pRewind, scanRewind, peekIn, tokMem, exceptBind_ok, exceptBind_error, exceptMap_ok, exceptMap_error, exceptPure, Option.some.injEq, reduceIte, reduceDIte, reduceCtorEq, Nat.reduceAdd, Nat.reduceSub, Nat.reduceEqDiff, decide_True, decide_False, decide_eq_true_eq, ne_eq, not_false_eq_true, not_true_eq_false, List.cons_append, List.nil_append, List.append_nil, or_self, or_false, false_or, and_self, and_true, true_and, u_expr_chks, u_expr_rsts, expr_rsts, expr_slst_rsts, expr_lst_rsts, and_test_rsts, not_test_rsts, comparison_rsts, comparison_chks, a_expr_rsts, a_expr_chks, m_expr_rsts, m_expr_chks, atom_rsts, atom_rsts_post, argspec_rsts, argspec_item_rsts, argspec_item_rsts_post, ne_eq]

/-- Parser step for input "12px/1.5". -/
theorem ps_a_16 : exprSlstLoopF 97 [(.BinaryOp .div (.Literal (.Number ⟨12, 1⟩ ["px"] [])) (.Literal (.Number ⟨3, 2⟩ [] [])))] ⟨⟨['1', '2', 'p', 'x', '/', '1', '.', '5'], 8, [⟨0, 2, Tok.NUM, "12"⟩, ⟨2, 4, Tok.UNITS, "px"⟩, ⟨4, 5, Tok.DIV, "/"⟩, ⟨5, 8, Tok.NUM, "1.5"⟩, ⟨8, 8, Tok.END, ""⟩]⟩, 4⟩ = .ok ((.BinaryOp .div (.Literal (.Number ⟨12, 1⟩ ["px"] [])) (.Literal (.Number ⟨3, 2⟩ [] []))), ⟨⟨['1', '2', 'p', 'x', '/', '1', '.', '5'], 8, [⟨0, 2, Tok.NUM, "12"⟩, ⟨2, 4, Tok.UNITS, "px"⟩, ⟨4, 5, Tok.DIV, "/"⟩, ⟨5, 8, Tok.NUM, "1.5"⟩, ⟨8, 8, Tok.END, ""⟩]⟩, 4⟩) := by
  rw [exprSlstLoopF]
  simp only [tk_a_18, pPeek, pScan, pRewind, scanRewind, peekIn, tokMem, exceptBind_ok, exceptBind_error, exceptMap_ok, exceptMap_error, exceptPure, Option.some.injEq, reduceIte, reduceDIte, reduceCtorEq, Nat.reduceAdd, Nat.reduceSub, Nat.reduceEqDiff, decide_True, decide_False, decide_eq_true_eq, ne_eq, not_false_eq_true, not_true_eq_false, List.cons_append, List.nil_append, List.append_nil, or_self, or_false, false_or, and_self, and_true, true_and, u_expr_chks, u_expr_rsts, expr_rsts, expr_slst_rsts, expr_lst_rsts, and_test_rsts, not_test_rsts, comparison_rsts, comparison_chks, a_expr_rsts, a_expr_chks, m_expr_rsts, m_expr_chks, atom_rsts, atom_rsts_post, argspec_rsts, argspec_item_rsts, argspec_item_rsts_post, ne_eq]

/-- Parser step for input "12px/1.5". -/
theorem ps_a_17 : exprSlstF 98 ⟨⟨['1', '2', 'p', 'x', '/', '1', '.', '5'], 0, []⟩, 0⟩ = .ok ((.BinaryOp .div (.Literal (.Number ⟨12, 1⟩ ["px"] [])) (.Literal (.Number ⟨3, 2⟩ [] []))), ⟨⟨['1', '2', 'p', 'x', '/', '1', '.', '5'], 8, [⟨0, 2, Tok.NUM, "12"⟩, ⟨2, 4, Tok.UNITS, "px"⟩, ⟨4, 5, Tok.DIV, "/"⟩, ⟨5, 8, Tok.NUM, "1.5"⟩, ⟨8, 8, Tok.END, ""⟩]⟩, 4⟩) := by
  rw [exprSlstF, ps_a_15]
  rw [exceptBind_ok]
  simp only [ps_a_16, pPeek, pScan, pRewind, scanRewind, peekIn, tokMem, exceptBind_ok, exceptBind_error, exceptMap_ok, exceptMap_error, exceptPure, Option.some.injEq, reduceIte, reduceDIte, reduceCtorEq, Nat.reduceAdd, Nat.reduceSub, Nat.reduceEqDiff, decide_True, decide_False, decide_eq_true_eq, ne_eq, not_false_eq_true, not_true_eq_false, List.cons_append, List.nil_append, List.append_nil, or_self, or_false, false_or, and_self, and_true, true_and, u_expr_chks, u_expr_rsts, expr_rsts, expr_slst_rsts, expr_lst_rsts, and_test_rsts, not_test_rsts, comparison_rsts, comparison_chks, a_expr_rsts, a_expr_chks, m_expr_rsts, m_expr_chks, atom_rsts, atom_rsts_post, argspec_rsts, argspec_item_rsts, argspec_item_rsts_post, ne_eq]

/-- Parser step for input "12px/1.5". -/
theorem ps_a_18 : exprLstLoopF 98 [(.BinaryOp .div (.Literal (.Number ⟨12, 1⟩ ["px"] [])) (.Literal (.Number ⟨3, 2⟩ [] [])))] ⟨⟨['1', '2', 'p', 'x', '/', '1', '.', '5'], 8, [⟨0, 2, Tok.NUM, "12"⟩, ⟨2, 4, Tok.UNITS, "px"⟩, ⟨4, 5, Tok.DIV, "/"⟩, ⟨5, 8, Tok.NUM, "1.5"⟩, ⟨8, 8, Tok.END, ""⟩]⟩, 4⟩ = .ok ((.BinaryOp .div (.Literal (.Number ⟨12, 1⟩ ["px"] [])) (.Literal (.Number ⟨3, 2⟩ [] []))), ⟨⟨['1', '2', 'p', 'x', '/', '1', '.', '5'], 8, [⟨0, 2, Tok.NUM, "12"⟩, ⟨2, 4, Tok.UNITS, "px"⟩, ⟨4, 5, Tok.DIV, "/"⟩, ⟨5, 8, Tok.NUM, "1.5"⟩, ⟨8, 8, Tok.END, ""⟩]⟩, 4⟩) := by
  rw [exprLstLoopF]
  simp only [tk_a_19, pPeek, pScan, pRewind, scanRewind, peekIn, tokMem, exceptBind_ok, exceptBind_error, exceptMap_ok, exceptMap_error, exceptPure, Option.some.injEq, reduceIte, reduceDIte, reduceCtorEq, Nat.reduceAdd, Nat.reduceSub, Nat.reduceEqDiff, decide_True, decide_False, decide_eq_true_eq, ne_eq, not_false_eq_true, not_true_eq_false, List.cons_append, List.nil_append, List.append_nil, or_self, or_false, false_or, and_self, and_true, true_and, u_expr_chks, u_expr_rsts, expr_rsts, expr_slst_rsts, expr_lst_rsts, and_test_rsts, not_test_rsts, comparison_rsts, comparison_chks, a_expr_rsts, a_expr_chks, m_expr_rsts, m_expr_chks, atom_rsts, atom_rsts_post, argspec_rsts, argspec_item_rsts, argspec_item_rsts_post, ne_eq]

/-- Parser step for input "12px/1.5". -/
theorem ps_a_19 : exprLstF 99 ⟨⟨['1', '2', 'p', 'x', '/', '1', '.', '5'], 0, []⟩, 0⟩ = .ok ((.BinaryOp .div (.Literal (.Number ⟨12, 1⟩ ["px"] [])) (.Literal (.Number ⟨3, 2⟩ [] []))), ⟨⟨['1', '2', 'p', 'x', '/', '1', '.', '5'], 8, [⟨0, 2, Tok.NUM, "12"⟩, ⟨2, 4, Tok.UNITS, "px"⟩, ⟨4, 5, Tok.DIV, "/"⟩, ⟨5, 8, Tok.NUM, "1.5"⟩, ⟨8, 8, Tok.END, ""⟩]⟩, 4⟩) := by
  rw [exprLstF, ps_a_17]
  rw [exceptBind_ok]
  simp only [ps_a_18, pPeek, pScan, pRewind, scanRewind, peekIn, tokMem, exceptBind_ok, exceptBind_error, exceptMap_ok, exceptMap_error, exceptPure, Option.some.injEq, reduceIte, reduceDIte, reduceCtorEq, Nat.reduceAdd, Nat.reduceSub, Nat.reduceEqDiff, decide_True, decide_False, decide_eq_true_eq, ne_eq, not_false_eq_true, not_true_eq_false, List.cons_append, List.nil_append, List.append_nil, or_self, or_false, false_or, and_self, and_true, true_and, u_expr_chks, u_expr_rsts, expr_rsts, expr_slst_rsts, expr_lst_rsts, and_test_rsts, not_test_rsts, comparison_rsts, comparison_chks, a_expr_rsts, a_expr_chks, m_expr_rsts, m_expr_chks, atom_rsts, atom_rsts_post, argspec_rsts, argspec_item_rsts, argspec_item_rsts_post, ne_eq]

/-- Parser step for input "12px/1.5". -/
theorem ps_a_20 : goalF 100 ⟨⟨['1', '2', 'p', 'x', '/', '1', '.', '5'], 0, []⟩, 0⟩ = .ok ((.BinaryOp .div (.Literal (.Number ⟨12, 1⟩ ["px"] [])) (.Literal (.Number ⟨3, 2⟩ [] []))), ⟨⟨['1', '2', 'p', 'x', '/', '1', '.', '5'], 8, [⟨0, 2, Tok.NUM, "12"⟩, ⟨2, 4, Tok.UNITS, "px"⟩, ⟨4, 5, Tok.DIV, "/"⟩, ⟨5, 8, Tok.NUM, "1.5"⟩, ⟨8, 8, Tok.END, ""⟩]⟩, 5⟩) := by
  rw [goalF, ps_a_19]
  rw [exceptBind_ok]
  simp only [tk_a_20, pPeek, pScan, pRewind, scanRewind, peekIn, tokMem, exceptBind_ok, exceptBind_error, exceptMap_ok, exceptMap_error, exceptPure, Option.some.injEq, reduceIte, reduceDIte, reduceCtorEq, Nat.reduceAdd, Nat.reduceSub, Nat.reduceEqDiff, decide_True, decide_False, decide_eq_true_eq, ne_eq, not_false_eq_true, not_true_eq_false, List.cons_append, List.nil_append, List.append_nil, or_self, or_false, false_or, and_self, and_true, true_and, u_expr_chks, u_expr_rsts, expr_rsts, expr_slst_rsts, expr_lst_rsts, and_test_rsts, not_test_rsts, comparison_rsts, comparison_chks, a_expr_rsts, a_expr_chks, m_expr_rsts, m_expr_chks, atom_rsts, atom_rsts_post, argspec_rsts, argspec_item_rsts, argspec_item_rsts_post, ne_eq]

/-- Parse of the source text "12px/1.5". -/
theorem parse_a : parseExpr 100 "12px/1.5" = .ok (.BinaryOp .div (.Literal (.Number ⟨12, 1⟩ ["px"] [])) (.Literal (.Number ⟨3, 2⟩ [] []))) := by
  simp only [parseExpr, pReset, scanReset, sdata0, ps_a_20, exceptMap_ok]
/-- Scanner fact for input "(12px/1.5)". -/
theorem tk_b_0 : tokenAt ⟨['(', '1', '2', 'p', 'x', '/', '1', '.', '5', ')'], 0, []⟩ 0 [Tok.LPAR, Tok.COLOR, Tok.QSTR, Tok.SIGN, Tok.VAR, Tok.ADD, Tok.NUM, Tok.FNCT, Tok.STR, Tok.NOT, Tok.ID] = .ok (⟨0, 1, Tok.LPAR, "("⟩, ⟨['(', '1', '2', 'p', 'x', '/', '1', '.', '5', ')'], 1, [⟨0, 1, Tok.LPAR, "("⟩]⟩) := rfl

/-- Scanner fact for input "(12px/1.5)". -/
theorem tk_b_1 : tokenAt ⟨['(', '1', '2', 'p', 'x', '/', '1', '.', '5', ')'], 1, [⟨0, 1, Tok.LPAR, "("⟩]⟩ 0 [Tok.LPAR, Tok.COLOR, Tok.QSTR, Tok.SIGN, Tok.ADD, Tok.NUM, Tok.FNCT, Tok.STR, Tok.VAR, Tok.ID] = .ok (⟨0, 1, Tok.LPAR, "("⟩, ⟨['(', '1', '2', 'p', 'x', '/', '1', '.', '5', ')'], 1, [⟨0, 1, Tok.LPAR, "("⟩]⟩) := rfl

/-- Scanner fact for input "(12px/1.5)". -/
theorem tk_b_2 : tokenAt ⟨['(', '1', '2', 'p', 'x', '/', '1', '.', '5', ')'], 1, [⟨0, 1, Tok.LPAR, "("⟩]⟩ 0 [Tok.LPAR, Tok.COLOR, Tok.QSTR, Tok.NUM, Tok.FNCT, Tok.STR, Tok.VAR, Tok.ID] = .ok (⟨0, 1, Tok.LPAR, "("⟩, ⟨['(', '1', '2', 'p', 'x', '/', '1', '.', '5', ')'], 1, [⟨0, 1, Tok.LPAR, "("⟩]⟩) := rfl

/-- Scanner fact for input "(12px/1.5)". -/
theorem tk_b_3 : tokenAt ⟨['(', '1', '2', 'p', 'x', '/', '1', '.', '5', ')'], 1, [⟨0, 1, Tok.LPAR, "("⟩]⟩ 0 [Tok.LPAR] = .ok (⟨0, 1, Tok.LPAR, "("⟩, ⟨['(', '1', '2', 'p', 'x', '/', '1', '.', '5', ')'], 1, [⟨0, 1, Tok.LPAR, "("⟩]⟩) := rfl

/-- Scanner fact for input "(12px/1.5)". -/
theorem tk_b_4 : tokenAt ⟨['(', '1', '2', 'p', 'x', '/', '1', '.', '5', ')'], 1, [⟨0, 1, Tok.LPAR, "("⟩]⟩ 1 [Tok.LPAR, Tok.COLOR, Tok.QSTR, Tok.SIGN, Tok.VAR, Tok.ADD, Tok.NUM, Tok.FNCT, Tok.STR, Tok.NOT, Tok.ID] = .ok (⟨1, 3, Tok.NUM, "12"⟩, ⟨['(', '1', '2', 'p', 'x', '/', '1', '.', '5', ')'], 3, [⟨0, 1, Tok.LPAR, "("⟩, ⟨1, 3, Tok.NUM, "12"⟩]⟩) := rfl

/-- Scanner fact for input "(12px/1.5)". -/
theorem tk_b_5 : tokenAt ⟨['(', '1', '2', 'p', 'x', '/', '1', '.', '5', ')'], 3, [⟨0, 1, Tok.LPAR, "("⟩, ⟨1, 3, Tok.NUM, "12"⟩]⟩ 1 [Tok.LPAR, Tok.COLOR, Tok.QSTR, Tok.SIGN, Tok.ADD, Tok.NUM, Tok.FNCT, Tok.STR, Tok.VAR, Tok.ID] = .ok (⟨1, 3, Tok.NUM, "12"⟩, ⟨['(', '1', '2', 'p', 'x', '/', '1', '.', '5', ')'], 3, [⟨0, 1, Tok.LPAR, "("⟩, ⟨1, 3, Tok.NUM, "12"⟩]⟩) := rfl

/-- Scanner fact for input "(12px/1.5)". -/
theorem tk_b_6 : tokenAt ⟨['(', '1', '2', 'p', 'x', '/', '1', '.', '5', ')'], 3, [⟨0, 1, Tok.LPAR, "("⟩, ⟨1, 3, Tok.NUM, "12"⟩]⟩ 1 [Tok.LPAR, Tok.COLOR, Tok.QSTR, Tok.NUM, Tok.FNCT, Tok.STR, Tok.VAR, Tok.ID] = .ok (⟨1, 3, Tok.NUM, "12"⟩, ⟨['(', '1', '2', 'p', 'x', '/', '1', '.', '5', ')'], 3, [⟨0, 1, Tok.LPAR, "("⟩, ⟨1, 3, Tok.NUM, "12"⟩]⟩) := rfl

/-- Scanner fact for input "(12px/1.5)". -/
theorem tk_b_7 : tokenAt ⟨['(', '1', '2', 'p', 'x', '/', '1', '.', '5', ')'], 3, [⟨0, 1, Tok.LPAR, "("⟩, ⟨1, 3, Tok.NUM, "12"⟩]⟩ 1 [Tok.NUM] = .ok (⟨1, 3, Tok.NUM, "12"⟩, ⟨['(', '1', '2', 'p', 'x', '/', '1', '.', '5', ')'], 3, [⟨0, 1, Tok.LPAR, "("⟩, ⟨1, 3, Tok.NUM, "12"⟩]⟩) := rfl

/-- Scanner fact for input "(12px/1.5)". -/
theorem tk_b_8 : tokenAt ⟨['(', '1', '2', 'p', 'x', '/', '1', '.', '5', ')'], 3, [⟨0, 1, Tok.LPAR, "("⟩, ⟨1, 3, Tok.NUM, "12"⟩]⟩ 2 [Tok.LPAR, Tok.SUB, Tok.QSTR, Tok.RPAR, Tok.VAR, Tok.MUL, Tok.DIV, Tok.LE, Tok.COLOR, Tok.NE, Tok.LT, Tok.NUM, Tok.COMMA, Tok.GT, Tok.END, Tok.SIGN, Tok.GE, Tok.FNCT, Tok.STR, Tok.UNITS, Tok.EQ, Tok.ID, Tok.AND, Tok.ADD, Tok.NOT, Tok.OR] = .ok (⟨3, 5, Tok.UNITS, "px"⟩, ⟨['(', '1', '2', 'p', 'x', '/', '1', '.', '5', ')'], 5, [⟨0, 1, Tok.LPAR, "("⟩, ⟨1, 3, Tok.NUM, "12"⟩, ⟨3, 5, Tok.UNITS, "px"⟩]⟩) := rfl

/-- Scanner fact for input "(12px/1.5)". -/
theorem tk_b_9 : tokenAt ⟨['(', '1', '2', 'p', 'x', '/', '1', '.', '5', ')'], 5, [⟨0, 1, Tok.LPAR, "("⟩, ⟨1, 3, Tok.NUM, "12"⟩, ⟨3, 5, Tok.UNITS, "px"⟩]⟩ 2 [Tok.UNITS] = .ok (⟨3, 5, Tok.UNITS, "px"⟩, ⟨['(', '1', '2', 'p', 'x', '/', '1', '.', '5', ')'], 5, [⟨0, 1, Tok.LPAR, "("⟩, ⟨1, 3, Tok.NUM, "12"⟩, ⟨3, 5, Tok.UNITS, "px"⟩]⟩) := rfl

/-- Scanner fact for input "(12px/1.5)". -/
theorem tk_b_10 : tokenAt ⟨['(', '1', '2', 'p', 'x', '/', '1', '.', '5', ')'], 5, [⟨0, 1, Tok.LPAR, "("⟩, ⟨1, 3, Tok.NUM, "12"⟩, ⟨3, 5, Tok.UNITS, "px"⟩]⟩ 3 [Tok.LPAR, Tok.SUB, Tok.QSTR, Tok.RPAR, Tok.MUL, Tok.DIV, Tok.LE, Tok.COLOR, Tok.NE, Tok.LT, Tok.NUM, Tok.COMMA, Tok.GT, Tok.END, Tok.SIGN, Tok.GE, Tok.FNCT, Tok.STR, Tok.VAR, Tok.EQ, Tok.ID, Tok.AND, Tok.ADD, Tok.NOT, Tok.OR] = .ok (⟨5, 6, Tok.DIV, "/"⟩, ⟨['(', '1', '2', 'p', 'x', '/', '1', '.', '5', ')'], 6, [⟨0, 1, Tok.LPAR, "("⟩, ⟨1, 3, Tok.NUM, "12"⟩, ⟨3, 5, Tok.UNITS, "px"⟩, ⟨5, 6, Tok.DIV, "/"⟩]⟩) := rfl

/-- Scanner fact for input "(12px/1.5)". -/
theorem tk_b_11 : tokenAt ⟨['(', '1', '2', 'p', 'x', '/', '1', '.', '5', ')'], 6, [⟨0, 1, Tok.LPAR, "("⟩, ⟨1, 3, Tok.NUM, "12"⟩, ⟨3, 5, Tok.UNITS, "px"⟩, ⟨5, 6, Tok.DIV, "/"⟩]⟩ 3 [Tok.MUL, Tok.DIV] = .ok (⟨5, 6, Tok.DIV, "/"⟩, ⟨['(', '1', '2', 'p', 'x', '/', '1', '.', '5', ')'], 6, [⟨0, 1, Tok.LPAR, "("⟩, ⟨1, 3, Tok.NUM, "12"⟩, ⟨3, 5, Tok.UNITS, "px"⟩, ⟨5, 6, Tok.DIV, "/"⟩]⟩) := rfl

/-- Scanner fact for input "(12px/1.5)". -/
theorem tk_b_12 : tokenAt ⟨['(', '1', '2', 'p', 'x', '/', '1', '.', '5', ')'], 6, [⟨0, 1, Tok.LPAR, "("⟩, ⟨1, 3, Tok.NUM, "12"⟩, ⟨3, 5, Tok.UNITS, "px"⟩, ⟨5, 6, Tok.DIV, "/"⟩]⟩ 3 [Tok.DIV] = .ok (⟨5, 6, Tok.DIV, "/"⟩, ⟨['(', '1', '2', 'p', 'x', '/', '1', '.', '5', ')'], 6, [⟨0, 1, Tok.LPAR, "("⟩, ⟨1, 3, Tok.NUM, "12"⟩, ⟨3, 5, Tok.UNITS, "px"⟩, ⟨5, 6, Tok.DIV, "/"⟩]⟩) := rfl

/-- Scanner fact for input "(12px/1.5)". -/
theorem tk_b_13 : tokenAt ⟨['(', '1', '2', 'p', 'x', '/', '1', '.', '5', ')'], 6, [⟨0, 1, Tok.LPAR, "("⟩, ⟨1, 3, Tok.NUM, "12"⟩, ⟨3, 5, Tok.UNITS, "px"⟩, ⟨5, 6, Tok.DIV, "/"⟩]⟩ 4 [Tok.LPAR, Tok.COLOR, Tok.QSTR, Tok.SIGN, Tok.ADD, Tok.NUM, Tok.FNCT, Tok.STR, Tok.VAR, Tok.ID] = .ok (⟨6, 9, Tok.NUM, "1.5"⟩, ⟨['(', '1', '2', 'p', 'x', '/', '1', '.', '5', ')'], 9, [⟨0, 1, Tok.LPAR, "("⟩, ⟨1, 3, Tok.NUM, "12"⟩, ⟨3, 5, Tok.UNITS, "px"⟩, ⟨5, 6, Tok.DIV, "/"⟩, ⟨6, 9, Tok.NUM, "1.5"⟩]⟩) := rfl

/-- Scanner fact for input "(12px/1.5)". -/
theorem tk_b_14 : tokenAt ⟨['(', '1', '2', 'p', 'x', '/', '1', '.', '5', ')'], 9, [⟨0, 1, Tok.LPAR, "("⟩, ⟨1, 3, Tok.NUM, "12"⟩, ⟨3, 5, Tok.UNITS, "px"⟩, ⟨5, 6, Tok.DIV, "/"⟩, ⟨6, 9, Tok.NUM, "1.5"⟩]⟩ 4 [Tok.LPAR, Tok.COLOR, Tok.QSTR, Tok.NUM, Tok.FNCT, Tok.STR, Tok.VAR, Tok.ID] = .ok (⟨6, 9, Tok.NUM, "1.5"⟩, ⟨['(', '1', '2', 'p', 'x', '/', '1', '.', '5', ')'], 9, [⟨0, 1, Tok.LPAR, "("⟩, ⟨1, 3, Tok.NUM, "12"⟩, ⟨3, 5, Tok.UNITS, "px"⟩, ⟨5, 6, Tok.DIV, "/"⟩, ⟨6, 9, Tok.NUM, "1.5"⟩]⟩) := rfl

/-- Scanner fact for input "(12px/1.5)". -/
theorem tk_b_15 : tokenAt ⟨['(', '1', '2', 'p', 'x', '/', '1', '.', '5', ')'], 9, [⟨0, 1, Tok.LPAR, "("⟩, ⟨1, 3, Tok.NUM, "12"⟩, ⟨3, 5, Tok.UNITS, "px"⟩, ⟨5, 6, Tok.DIV, "/"⟩, ⟨6, 9, Tok.NUM, "1.5"⟩]⟩ 4 [Tok.NUM] = .ok (⟨6, 9, Tok.NUM, "1.5"⟩, ⟨['(', '1', '2', 'p', 'x', '/', '1', '.', '5', ')'], 9, [⟨0, 1, Tok.LPAR, "("⟩, ⟨1, 3, Tok.NUM, "12"⟩, ⟨3, 5, Tok.UNITS, "px"⟩, ⟨5, 6, Tok.DIV, "/"⟩, ⟨6, 9, Tok.NUM, "1.5"⟩]⟩) := rfl

/-- Scanner fact for input "(12px/1.5)". -/
theorem tk_b_16 : tokenAt ⟨['(', '1', '2', 'p', 'x', '/', '1', '.', '5', ')'], 9, [⟨0, 1, Tok.LPAR, "("⟩, ⟨1, 3, Tok.NUM, "12"⟩, ⟨3, 5, Tok.UNITS, "px"⟩, ⟨5, 6, Tok.DIV, "/"⟩, ⟨6, 9, Tok.NUM, "1.5"⟩]⟩ 5 [Tok.LPAR, Tok.SUB, Tok.QSTR, Tok.RPAR, Tok.VAR, Tok.MUL, Tok.DIV, Tok.LE, Tok.COLOR, Tok.NE, Tok.LT, Tok.NUM, Tok.COMMA, Tok.GT, Tok.END, Tok.SIGN, Tok.GE, Tok.FNCT, Tok.STR, Tok.UNITS, Tok.EQ, Tok.ID, Tok.AND, Tok.ADD, Tok.NOT, Tok.OR] = .ok (⟨9, 10, Tok.RPAR, ")"⟩, ⟨['(', '1', '2', 'p', 'x', '/', '1', '.', '5', ')'], 10, [⟨0, 1, Tok.LPAR, "("⟩, ⟨1, 3, Tok.NUM, "12"⟩, ⟨3, 5, Tok.UNITS, "px"⟩, ⟨5, 6, Tok.DIV, "/"⟩, ⟨6, 9, Tok.NUM, "1.5"⟩, ⟨9, 10, Tok.RPAR, ")"⟩]⟩) := rfl

/-- Scanner fact for input "(12px/1.5)". -/
theorem tk_b_17 : tokenAt ⟨['(', '1', '2', 'p', 'x', '/', '1', '.', '5', ')'], 10, [⟨0, 1, Tok.LPAR, "("⟩, ⟨1, 3, Tok.NUM, "12"⟩, ⟨3, 5, Tok.UNITS, "px"⟩, ⟨5, 6, Tok.DIV, "/"⟩, ⟨6, 9, Tok.NUM, "1.5"⟩, ⟨9, 10, Tok.RPAR, ")"⟩]⟩ 5 [Tok.LPAR, Tok.SUB, Tok.QSTR, Tok.RPAR, Tok.MUL, Tok.DIV, Tok.LE, Tok.COLOR, Tok.NE, Tok.LT, Tok.NUM, Tok.COMMA, Tok.GT, Tok.END, Tok.SIGN, Tok.GE, Tok.FNCT, Tok.STR, Tok.VAR, Tok.EQ, Tok.ID, Tok.AND, Tok.ADD, Tok.NOT, Tok.OR] = .ok (⟨9, 10, Tok.RPAR, ")"⟩, ⟨['(', '1', '2', 'p', 'x', '/', '1', '.', '5', ')'], 10, [⟨0, 1, Tok.LPAR, "("⟩, ⟨1, 3, Tok.NUM, "12"⟩, ⟨3, 5, Tok.UNITS, "px"⟩, ⟨5, 6, Tok.DIV, "/"⟩, ⟨6, 9, Tok.NUM, "1.5"⟩, ⟨9, 10, Tok.RPAR, ")"⟩]⟩) := rfl

/-- Scanner fact for input "(12px/1.5)". -/
theorem tk_b_18 : tokenAt ⟨['(', '1', '2', 'p', 'x', '/', '1', '.', '5', ')'], 10, [⟨0, 1, Tok.LPAR, "("⟩, ⟨1, 3, Tok.NUM, "12"⟩, ⟨3, 5, Tok.UNITS, "px"⟩, ⟨5, 6, Tok.DIV, "/"⟩, ⟨6, 9, Tok.NUM, "1.5"⟩, ⟨9, 10, Tok.RPAR, ")"⟩]⟩ 5 [Tok.LPAR, Tok.SUB, Tok.QSTR, Tok.RPAR, Tok.LE, Tok.COLOR, Tok.NE, Tok.LT, Tok.NUM, Tok.COMMA, Tok.GT, Tok.END, Tok.SIGN, Tok.GE, Tok.FNCT, Tok.STR, Tok.VAR, Tok.EQ, Tok.ID, Tok.AND, Tok.ADD, Tok.NOT, Tok.OR] = .ok (⟨9, 10, Tok.RPAR, ")"⟩, ⟨['(', '1', '2', 'p', 'x', '/', '1', '.', '5', ')'], 10, [⟨0, 1, Tok.LPAR, "("⟩, ⟨1, 3, Tok.NUM, "12"⟩, ⟨3, 5, Tok.UNITS, "px"⟩, ⟨5, 6, Tok.DIV, "/"⟩, ⟨6, 9, Tok.NUM, "1.5"⟩, ⟨9, 10, Tok.RPAR, ")"⟩]⟩) := rfl

/-- Scanner fact for input "(12px/1.5)". -/
theorem tk_b_19 : tokenAt ⟨['(', '1', '2', 'p', 'x', '/', '1', '.', '5', ')'], 10, [⟨0, 1, Tok.LPAR, "("⟩, ⟨1, 3, Tok.NUM, "12"⟩, ⟨3, 5, Tok.UNITS, "px"⟩, ⟨5, 6, Tok.DIV, "/"⟩, ⟨6, 9, Tok.NUM, "1.5"⟩, ⟨9, 10, Tok.RPAR, ")"⟩]⟩ 5 [Tok.LPAR, Tok.QSTR, Tok.RPAR, Tok.LE, Tok.COLOR, Tok.NE, Tok.LT, Tok.NUM, Tok.COMMA, Tok.GT, Tok.END, Tok.SIGN, Tok.ADD, Tok.FNCT, Tok.STR, Tok.VAR, Tok.EQ, Tok.ID, Tok.AND, Tok.GE, Tok.NOT, Tok.OR] = .ok (⟨9, 10, Tok.RPAR, ")"⟩, ⟨['(', '1', '2', 'p', 'x', '/', '1', '.', '5', ')'], 10, [⟨0, 1, Tok.LPAR, "("⟩, ⟨1, 3, Tok.NUM, "12"⟩, ⟨3, 5, Tok.UNITS, "px"⟩, ⟨5, 6, Tok.DIV, "/"⟩, ⟨6, 9, Tok.NUM, "1.5"⟩, ⟨9, 10, Tok.RPAR, ")"⟩]⟩) := rfl

/-- Scanner fact for input "(12px/1.5)". -/
theorem tk_b_20 : tokenAt ⟨['(', '1', '2', 'p', 'x', '/', '1', '.', '5', ')'], 10, [⟨0, 1, Tok.LPAR, "("⟩, ⟨1, 3, Tok.NUM, "12"⟩, ⟨3, 5, Tok.UNITS, "px"⟩, ⟨5, 6, Tok.DIV, "/"⟩, ⟨6, 9, Tok.NUM, "1.5"⟩, ⟨9, 10, Tok.RPAR, ")"⟩]⟩ 5 [Tok.AND, Tok.LPAR, Tok.END, Tok.COLOR, Tok.QSTR, Tok.SIGN, Tok.VAR, Tok.ADD, Tok.NUM, Tok.COMMA, Tok.FNCT, Tok.STR, Tok.NOT, Tok.ID, Tok.RPAR, Tok.OR] = .ok (⟨9, 10, Tok.RPAR, ")"⟩, ⟨['(', '1', '2', 'p', 'x', '/', '1', '.', '5', ')'], 10, [⟨0, 1, Tok.LPAR, "("⟩, ⟨1, 3, Tok.NUM, "12"⟩, ⟨3, 5, Tok.UNITS, "px"⟩, ⟨5, 6, Tok.DIV, "/"⟩, ⟨6, 9, Tok.NUM, "1.5"⟩, ⟨9, 10, Tok.RPAR, ")"⟩]⟩) := rfl

/-- Scanner fact for input "(12px/1.5)". -/
theorem tk_b_21 : tokenAt ⟨['(', '1', '2', 'p', 'x', '/', '1', '.', '5', ')'], 10, [⟨0, 1, Tok.LPAR, "("⟩, ⟨1, 3, Tok.NUM, "12"⟩, ⟨3, 5, Tok.UNITS, "px"⟩, ⟨5, 6, Tok.DIV, "/"⟩, ⟨6, 9, Tok.NUM, "1.5"⟩, ⟨9, 10, Tok.RPAR, ")"⟩]⟩ 5 [Tok.LPAR, Tok.END, Tok.COLOR, Tok.QSTR, Tok.RPAR, Tok.VAR, Tok.ADD, Tok.NUM, Tok.COMMA, Tok.FNCT, Tok.STR, Tok.NOT, Tok.ID, Tok.SIGN, Tok.OR] = .ok (⟨9, 10, Tok.RPAR, ")"⟩, ⟨['(', '1', '2', 'p', 'x', '/', '1', '.', '5', ')'], 10, [⟨0, 1, Tok.LPAR, "("⟩, ⟨1, 3, Tok.NUM, "12"⟩, ⟨3, 5, Tok.UNITS, "px"⟩, ⟨5, 6, Tok.DIV, "/"⟩, ⟨6, 9, Tok.NUM, "1.5"⟩, ⟨9, 10, Tok.RPAR, ")"⟩]⟩) := rfl

/-- Scanner fact for input "(12px/1.5)". -/
theorem tk_b_22 : tokenAt ⟨['(', '1', '2', 'p', 'x', '/', '1', '.', '5', ')'], 10, [⟨0, 1, Tok.LPAR, "("⟩, ⟨1, 3, Tok.NUM, "12"⟩, ⟨3, 5, Tok.UNITS, "px"⟩, ⟨5, 6, Tok.DIV, "/"⟩, ⟨6, 9, Tok.NUM, "1.5"⟩, ⟨9, 10, Tok.RPAR, ")"⟩]⟩ 5 [Tok.LPAR, Tok.END, Tok.COLOR, Tok.QSTR, Tok.RPAR, Tok.VAR, Tok.ADD, Tok.NUM, Tok.COMMA, Tok.FNCT, Tok.STR, Tok.NOT, Tok.SIGN, Tok.ID] = .ok (⟨9, 10, Tok.RPAR, ")"⟩, ⟨['(', '1', '2', 'p', 'x', '/', '1', '.', '5', ')'], 10, [⟨0, 1, Tok.LPAR, "("⟩, ⟨1, 3, Tok.NUM, "12"⟩, ⟨3, 5, Tok.UNITS, "px"⟩, ⟨5, 6, Tok.DIV, "/"⟩, ⟨6, 9, Tok.NUM, "1.5"⟩, ⟨9, 10, Tok.RPAR, ")"⟩]⟩) := rfl

/-- Scanner fact for input "(12px/1.5)". -/
theorem tk_b_23 : tokenAt ⟨['(', '1', '2', 'p', 'x', '/', '1', '.', '5', ')'], 10, [⟨0, 1, Tok.LPAR, "("⟩, ⟨1, 3, Tok.NUM, "12"⟩, ⟨3, 5, Tok.UNITS, "px"⟩, ⟨5, 6, Tok.DIV, "/"⟩, ⟨6, 9, Tok.NUM, "1.5"⟩, ⟨9, 10, Tok.RPAR, ")"⟩]⟩ 5 [Tok.END, Tok.COMMA, Tok.RPAR] = .ok (⟨9, 10, Tok.RPAR, ")"⟩, ⟨['(', '1', '2', 'p', 'x', '/', '1', '.', '5', ')'], 10, [⟨0, 1, Tok.LPAR, "("⟩, ⟨1, 3, Tok.NUM, "12"⟩, ⟨3, 5, Tok.UNITS, "px"⟩, ⟨5, 6, Tok.DIV, "/"⟩, ⟨6, 9, Tok.NUM, "1.5"⟩, ⟨9, 10, Tok.RPAR, ")"⟩]⟩) := rfl

/-- Scanner fact for input "(12px/1.5)". -/
theorem tk_b_24 : tokenAt ⟨['(', '1', '2', 'p', 'x', '/', '1', '.', '5', ')'], 10, [⟨0, 1, Tok.LPAR, "("⟩, ⟨1, 3, Tok.NUM, "12"⟩, ⟨3, 5, Tok.UNITS, "px"⟩, ⟨5, 6, Tok.DIV, "/"⟩, ⟨6, 9, Tok.NUM, "1.5"⟩, ⟨9, 10, Tok.RPAR, ")"⟩]⟩ 5 [Tok.RPAR] = .ok (⟨9, 10, Tok.RPAR, ")"⟩, ⟨['(', '1', '2', 'p', 'x', '/', '1', '.', '5', ')'], 10, [⟨0, 1, Tok.LPAR, "("⟩, ⟨1, 3, Tok.NUM, "12"⟩, ⟨3, 5, Tok.UNITS, "px"⟩, ⟨5, 6, Tok.DIV, "/"⟩, ⟨6, 9, Tok.NUM, "1.5"⟩, ⟨9, 10, Tok.RPAR, ")"⟩]⟩) := rfl

/-- Scanner fact for input "(12px/1.5)". -/
theorem tk_b_25 : tokenAt ⟨['(', '1', '2', 'p', 'x', '/', '1', '.', '5', ')'], 10, [⟨0, 1, Tok.LPAR, "("⟩, ⟨1, 3, Tok.NUM, "12"⟩, ⟨3, 5, Tok.UNITS, "px"⟩, ⟨5, 6, Tok.DIV, "/"⟩, ⟨6, 9, Tok.NUM, "1.5"⟩, ⟨9, 10, Tok.RPAR, ")"⟩]⟩ 6 [Tok.LPAR, Tok.SUB, Tok.QSTR, Tok.RPAR, Tok.MUL, Tok.DIV, Tok.LE, Tok.COLOR, Tok.NE, Tok.LT, Tok.NUM, Tok.COMMA, Tok.GT, Tok.END, Tok.SIGN, Tok.GE, Tok.FNCT, Tok.STR, Tok.VAR, Tok.EQ, Tok.ID, Tok.AND, Tok.ADD, Tok.NOT, Tok.OR] = .ok (⟨10, 10, Tok.END, ""⟩, ⟨['(', '1', '2', 'p', 'x', '/', '1', '.', '5', ')'], 10, [⟨0, 1, Tok.LPAR, "("⟩, ⟨1, 3, Tok.NUM, "12"⟩, ⟨3, 5, Tok.UNITS, "px"⟩, ⟨5, 6, Tok.DIV, "/"⟩, ⟨6, 9, Tok.NUM, "1.5"⟩, ⟨9, 10, Tok.RPAR, ")"⟩, ⟨10, 10, Tok.END, ""⟩]⟩) := rfl

/-- Scanner fact for input "(12px/1.5)". -/
theorem tk_b_26 : tokenAt ⟨['(', '1', '2', 'p', 'x', '/', '1', '.', '5', ')'], 10, [⟨0, 1, Tok.LPAR, "("⟩, ⟨1, 3, Tok.NUM, "12"⟩, ⟨3, 5, Tok.UNITS, "px"⟩, ⟨5, 6, Tok.DIV, "/"⟩, ⟨6, 9, Tok.NUM, "1.5"⟩, ⟨9, 10, Tok.RPAR, ")"⟩, ⟨10, 10, Tok.END, ""⟩]⟩ 6 [Tok.LPAR, Tok.SUB, Tok.QSTR, Tok.RPAR, Tok.LE, Tok.COLOR, Tok.NE, Tok.LT, Tok.NUM, Tok.COMMA, Tok.GT, Tok.END, Tok.SIGN, Tok.GE, Tok.FNCT, Tok.STR, Tok.VAR, Tok.EQ, Tok.ID, Tok.AND, Tok.ADD, Tok.NOT, Tok.OR] = .ok (⟨10, 10, Tok.END, ""⟩, ⟨['(', '1', '2', 'p', 'x', '/', '1', '.', '5', ')'], 10, [⟨0, 1, Tok.LPAR, "("⟩, ⟨1, 3, Tok.NUM, "12"⟩, ⟨3, 5, Tok.UNITS, "px"⟩, ⟨5, 6, Tok.DIV, "/"⟩, ⟨6, 9, Tok.NUM, "1.5"⟩, ⟨9, 10, Tok.RPAR, ")"⟩, ⟨10, 10, Tok.END, ""⟩]⟩) := rfl

/-- Scanner fact for input "(12px/1.5)". -/
theorem tk_b_27 : tokenAt ⟨['(', '1', '2', 'p', 'x', '/', '1', '.', '5', ')'], 10, [⟨0, 1, Tok.LPAR, "("⟩, ⟨1, 3, Tok.NUM, "12"⟩, ⟨3, 5, Tok.UNITS, "px"⟩, ⟨5, 6, Tok.DIV, "/"⟩, ⟨6, 9, Tok.NUM, "1.5"⟩, ⟨9, 10, Tok.RPAR, ")"⟩, ⟨10, 10, Tok.END, ""⟩]⟩ 6 [Tok.LPAR, Tok.QSTR, Tok.RPAR, Tok.LE, Tok.COLOR, Tok.NE, Tok.LT, Tok.NUM, Tok.COMMA, Tok.GT, Tok.END, Tok.SIGN, Tok.ADD, Tok.FNCT, Tok.STR, Tok.VAR, Tok.EQ, Tok.ID, Tok.AND, Tok.GE, Tok.NOT, Tok.OR] = .ok (⟨10, 10, Tok.END, ""⟩, ⟨['(', '1', '2', 'p', 'x', '/', '1', '.', '5', ')'], 10, [⟨0, 1, Tok.LPAR, "("⟩, ⟨1, 3, Tok.NUM, "12"⟩, ⟨3, 5, Tok.UNITS, "px"⟩, ⟨5, 6, Tok.DIV, "/"⟩, ⟨6, 9, Tok.NUM, "1.5"⟩, ⟨9, 10, Tok.RPAR, ")"⟩, ⟨10, 10, Tok.END, ""⟩]⟩) := rfl

/-- Scanner fact for input "(12px/1.5)". -/
theorem tk_b_28 : tokenAt ⟨['(', '1', '2', 'p', 'x', '/', '1', '.', '5', ')'], 10, [⟨0, 1, Tok.LPAR, "("⟩, ⟨1, 3, Tok.NUM, "12"⟩, ⟨3, 5, Tok.UNITS, "px"⟩, ⟨5, 6, Tok.DIV, "/"⟩, ⟨6, 9, Tok.NUM, "1.5"⟩, ⟨9, 10, Tok.RPAR, ")"⟩, ⟨10, 10, Tok.END, ""⟩]⟩ 6 [Tok.AND, Tok.LPAR, Tok.END, Tok.COLOR, Tok.QSTR, Tok.SIGN, Tok.VAR, Tok.ADD, Tok.NUM, Tok.COMMA, Tok.FNCT, Tok.STR, Tok.NOT, Tok.ID, Tok.RPAR, Tok.OR] = .ok (⟨10, 10, Tok.END, ""⟩, ⟨['(', '1', '2', 'p', 'x', '/', '1', '.', '5', ')'], 10, [⟨0, 1, Tok.LPAR, "("⟩, ⟨1, 3, Tok.NUM, "12"⟩, ⟨3, 5, Tok.UNITS, "px"⟩, ⟨5, 6, Tok.DIV, "/"⟩, ⟨6, 9, Tok.NUM, "1.5"⟩, ⟨9, 10, Tok.RPAR, ")"⟩, ⟨10, 10, Tok.END, ""⟩]⟩) := rfl

/-- Scanner fact for input "(12px/1.5)". -/
theorem tk_b_29 : tokenAt ⟨['(', '1', '2', 'p', 'x', '/', '1', '.', '5', ')'], 10, [⟨0, 1, Tok.LPAR, "("⟩, ⟨1, 3, Tok.NUM, "12"⟩, ⟨3, 5, Tok.UNITS, "px"⟩, ⟨5, 6, Tok.DIV, "/"⟩, ⟨6, 9, Tok.NUM, "1.5"⟩, ⟨9, 10, Tok.RPAR, ")"⟩, ⟨10, 10, Tok.END, ""⟩]⟩ 6 [Tok.LPAR, Tok.END, Tok.COLOR, Tok.QSTR, Tok.RPAR, Tok.VAR, Tok.ADD, Tok.NUM, Tok.COMMA, Tok.FNCT, Tok.STR, Tok.NOT, Tok.ID, Tok.SIGN, Tok.OR] = .ok (⟨10, 10, Tok.END, ""⟩, ⟨['(', '1', '2', 'p', 'x', '/', '1', '.', '5', ')'], 10, [⟨0, 1, Tok.LPAR, "("⟩, ⟨1, 3, Tok.NUM, "12"⟩, ⟨3, 5, Tok.UNITS, "px"⟩, ⟨5, 6, Tok.DIV, "/"⟩, ⟨6, 9, Tok.NUM, "1.5"⟩, ⟨9, 10, Tok.RPAR, ")"⟩, ⟨10, 10, Tok.END, ""⟩]⟩) := rfl

/-- Scanner fact for input "(12px/1.5)". -/
theorem tk_b_30 : tokenAt ⟨['(', '1', '2', 'p', 'x', '/', '1', '.', '5', ')'], 10, [⟨0, 1, Tok.LPAR, "("⟩, ⟨1, 3, Tok.NUM, "12"⟩, ⟨3, 5, Tok.UNITS, "px"⟩, ⟨5, 6, Tok.DIV, "/"⟩, ⟨6, 9, Tok.NUM, "1.5"⟩, ⟨9, 10, Tok.RPAR, ")"⟩, ⟨10, 10, Tok.END, ""⟩]⟩ 6 [Tok.LPAR, Tok.END, Tok.COLOR, Tok.QSTR, Tok.RPAR, Tok.VAR, Tok.ADD, Tok.NUM, Tok.COMMA, Tok.FNCT, Tok.STR, Tok.NOT, Tok.SIGN, Tok.ID] = .ok (⟨10, 10, Tok.END, ""⟩, ⟨['(', '1', '2', 'p', 'x', '/', '1', '.', '5', ')'], 10, [⟨0, 1, Tok.LPAR, "("⟩, ⟨1, 3, Tok.NUM, "12"⟩, ⟨3, 5, Tok.UNITS, "px"⟩, ⟨5, 6, Tok.DIV, "/"⟩, ⟨6, 9, Tok.NUM, "1.5"⟩, ⟨9, 10, Tok.RPAR, ")"⟩, ⟨10, 10, Tok.END, ""⟩]⟩) := rfl

/-- Scanner fact for input "(12px/1.5)". -/
theorem tk_b_31 : tokenAt ⟨['(', '1', '2', 'p', 'x', '/', '1', '.', '5', ')'], 10, [⟨0, 1, Tok.LPAR, "("⟩, ⟨1, 3, Tok.NUM, "12"⟩, ⟨3, 5, Tok.UNITS, "px"⟩, ⟨5, 6, Tok.DIV, "/"⟩, ⟨6, 9, Tok.NUM, "1.5"⟩, ⟨9, 10, Tok.RPAR, ")"⟩, ⟨10, 10, Tok.END, ""⟩]⟩ 6 [Tok.END, Tok.COMMA, Tok.RPAR] = .ok (⟨10, 10, Tok.END, ""⟩, ⟨['(', '1', '2', 'p', 'x', '/', '1', '.', '5', ')'], 10, [⟨0, 1, Tok.LPAR, "("⟩, ⟨1, 3, Tok.NUM, "12"⟩, ⟨3, 5, Tok.UNITS, "px"⟩, ⟨5, 6, Tok.DIV, "/"⟩, ⟨6, 9, Tok.NUM, "1.5"⟩, ⟨9, 10, Tok.RPAR, ")"⟩, ⟨10, 10, Tok.END, ""⟩]⟩) := rfl

/-- Scanner fact for input "(12px/1.5)". -/
theorem tk_b_32 : tokenAt ⟨['(', '1', '2', 'p', 'x', '/', '1', '.', '5', ')'], 10, [⟨0, 1, Tok.LPAR, "("⟩, ⟨1, 3, Tok.NUM, "12"⟩, ⟨3, 5, Tok.UNITS, "px"⟩, ⟨5, 6, Tok.DIV, "/"⟩, ⟨6, 9, Tok.NUM, "1.5"⟩, ⟨9, 10, Tok.RPAR, ")"⟩, ⟨10, 10, Tok.END, ""⟩]⟩ 6 [Tok.END] = .ok (⟨10, 10, Tok.END, ""⟩, ⟨['(', '1', '2', 'p', 'x', '/', '1', '.', '5', ')'], 10, [⟨0, 1, Tok.LPAR, "("⟩, ⟨1, 3, Tok.NUM, "12"⟩, ⟨3, 5, Tok.UNITS, "px"⟩, ⟨5, 6, Tok.DIV, "/"⟩, ⟨6, 9, Tok.NUM, "1.5"⟩, ⟨9, 10, Tok.RPAR, ")"⟩, ⟨10, 10, Tok.END, ""⟩]⟩) := rfl

/-- Parser step for input "(12px/1.5)". -/
theorem ps_b_0 : atomF 80 ⟨⟨['(', '1', '2', 'p', 'x', '/', '1', '.', '5', ')'], 3, [⟨0, 1, Tok.LPAR, "("⟩, ⟨1, 3, Tok.NUM, "12"⟩]⟩, 1⟩ = .ok ((.Literal (.Number ⟨12, 1⟩ ["px"] [])), ⟨⟨['(', '1', '2', 'p', 'x', '/', '1', '.', '5', ')'], 5, [⟨0, 1, Tok.LPAR, "("⟩, ⟨1, 3, Tok.NUM, "12"⟩, ⟨3, 5, Tok.UNITS, "px"⟩]⟩, 3⟩) := by
  rw [atomF]
  simp only [tk_b_6, tk_b_7, tk_b_8, tk_b_9, pPeek, pScan, pRewind, scanRewind, peekIn, tokMem, exceptBind_ok, exceptBind_error, exceptMap_ok, exceptMap_error, exceptPure, Option.some.injEq, reduceIte, reduceDIte, reduceCtorEq, Nat.reduceAdd, Nat.reduceSub, Nat.reduceEqDiff, decide_True, decide_False, decide_eq_true_eq, ne_eq, not_false_eq_true, not_true_eq_false, List.cons_append, List.nil_append, List.append_nil, or_self, or_false, false_or, and_self, and_true, true_and, u_expr_chks, u_expr_rsts, expr_rsts, expr_slst_rsts, expr_lst_rsts, and_test_rsts, not_test_rsts, comparison_rsts, comparison_chks, a_expr_rsts, a_expr_chks, m_expr_rsts, m_expr_chks, atom_rsts, atom_rsts_post, argspec_rsts, argspec_item_rsts, argspec_item_rsts_post, sdata0, sdata1, sdata2, sdata3, sdata4, parse_bareword, COLOR_NAMES, parseNum, digitsToNat, lowerStr, parseHexColor, hexToNat, isDigitC, isAlphaC, SassQ.add, SassQ.fromNat, mkQ, gcdQ, gcdFuel, List.find?, List.map, List.take, List.drop, List.takeWhile, List.dropWhile, List.dropLast, List.isEmpty, List.length, Option.map, Char.reduceEq, Char.reduceBEq, Char.reduceLE, Char.reduceLT, Char.reduceToNat, Char.reduceToLower, String.reduceMk, String.reduceEq, String.reduceBEq, Nat.reduceMul, Nat.reduceDiv, Nat.reduceMod, Nat.reducePow, Nat.reduceLeDiff, Nat.reduceLT, Nat.reduceGT, Int.reduceAdd, Int.reduceSub, Int.reduceMul, Int.reduceNeg, Int.reduceDiv, Int.reduceLT, Int.reduceLE, Int.reduceEq, Int.reduceBEq, Int.reduceToNat, Int.reduceAbs, Int.reducePow, Int.reduceMod, Int.reduceOfNat, Nat.cast_ofNat, Nat.cast_one, Nat.cast_zero]

/-- Parser step for input "(12px/1.5)". -/
theorem ps_b_1 : uExprF 81 ⟨⟨['(', '1', '2', 'p', 'x', '/', '1', '.', '5', ')'], 3, [⟨0, 1, Tok.LPAR, "("⟩, ⟨1, 3, Tok.NUM, "12"⟩]⟩, 1⟩ = .ok ((.Literal (.Number ⟨12, 1⟩ ["px"] [])), ⟨⟨['(', '1', '2', 'p', 'x', '/', '1', '.', '5', ')'], 5, [⟨0, 1, Tok.LPAR, "("⟩, ⟨1, 3, Tok.NUM, "12"⟩, ⟨3, 5, Tok.UNITS, "px"⟩]⟩, 3⟩) := by
  rw [uExprF]
  simp only [ps_b_0, tk_b_5, pPeek, pScan, pRewind, scanRewind, peekIn, tokMem, exceptBind_ok, exceptBind_error, exceptMap_ok, exceptMap_error, exceptPure, Option.some.injEq, reduceIte, reduceDIte, reduceCtorEq, Nat.reduceAdd, Nat.reduceSub, Nat.reduceEqDiff, decide_True, decide_False, decide_eq_true_eq, ne_eq, not_false_eq_true, not_true_eq_false, List.cons_append, List.nil_append, List.append_nil, or_self, or_false, false_or, and_self, and_true, true_and, u_expr_chks, u_expr_rsts, expr_rsts, expr_slst_rsts, expr_lst_rsts, and_test_rsts, not_test_rsts, comparison_rsts, comparison_chks, a_expr_rsts, a_expr_chks, m_expr_rsts, m_expr_chks, atom_rsts, atom_rsts_post, argspec_rsts, argspec_item_rsts, argspec_item_rsts_post, ne_eq]

/-- Parser step for input "(12px/1.5)". -/
theorem ps_b_2 : atomF 79 ⟨⟨['(', '1', '2', 'p', 'x', '/', '1', '.', '5', ')'], 9, [⟨0, 1, Tok.LPAR, "("⟩, ⟨1, 3, Tok.NUM, "12"⟩, ⟨3, 5, Tok.UNITS, "px"⟩, ⟨5, 6, Tok.DIV, "/"⟩, ⟨6, 9, Tok.NUM, "1.5"⟩]⟩, 4⟩ = .ok ((.Literal (.Number ⟨3, 2⟩ [] [])), ⟨⟨['(', '1', '2', 'p', 'x', '/', '1', '.', '5', ')'], 10, [⟨0, 1, Tok.LPAR, "("⟩, ⟨1, 3, Tok.NUM, "12"⟩, ⟨3, 5, Tok.UNITS, "px"⟩, ⟨5, 6, Tok.DIV, "/"⟩, ⟨6, 9, Tok.NUM, "1.5"⟩, ⟨9, 10, Tok.RPAR, ")"⟩]⟩, 5⟩) := by
  rw [atomF]
  simp only [tk_b_14, tk_b_15, tk_b_16, pPeek, pScan, pRewind, scanRewind, peekIn, tokMem, exceptBind_ok, exceptBind_error, exceptMap_ok, exceptMap_error, exceptPure, Option.some.injEq, reduceIte, reduceDIte, reduceCtorEq, Nat.reduceAdd, Nat.reduceSub, Nat.reduceEqDiff, decide_True, decide_False, decide_eq_true_eq, ne_eq, not_false_eq_true, not_true_eq_false, List.cons_append, List.nil_append, List.append_nil, or_self, or_false, false_or, and_self, and_true, true_and, u_expr_chks, u_expr_rsts, expr_rsts, expr_slst_rsts, expr_lst_rsts, and_test_rsts, not_test_rsts, comparison_rsts, comparison_chks, a_expr_rsts, a_expr_chks, m_expr_rsts, m_expr_chks, atom_rsts, atom_rsts_post, argspec_rsts, argspec_item_rsts, argspec_item_rsts_post, sdata0, sdata1, sdata2, sdata3, sdata4, parse_bareword, COLOR_NAMES, parseNum, digitsToNat, lowerStr, parseHexColor, hexToNat, isDigitC, isAlphaC, SassQ.add, SassQ.fromNat, mkQ, gcdQ, gcdFuel, List.find?, List.map, List.take, List.drop, List.takeWhile, List.dropWhile, List.dropLast, List.isEmpty, List.length, Option.map, Char.reduceEq, Char.reduceBEq, Char.reduceLE, Char.reduceLT, Char.reduceToNat, Char.reduceToLower, String.reduceMk, String.reduceEq, String.reduceBEq, Nat.reduceMul, Nat.reduceDiv, Nat.reduceMod, Nat.reducePow, Nat.reduceLeDiff, Nat.reduceLT, Nat.reduceGT, Int.reduceAdd, Int.reduceSub, Int.reduceMul, Int.reduceNeg, Int.reduceDiv, Int.reduceLT, Int.reduceLE, Int.reduceEq, Int.reduceBEq, Int.reduceToNat, Int.reduceAbs, Int.reducePow, Int.reduceMod, Int.reduceOfNat, Nat.cast_ofNat, Nat.cast_one, Nat.cast_zero]

/-- Parser step for input "(12px/1.5)". -/
theorem ps_b_3 : uExprF 80 ⟨⟨['(', '1', '2', 'p', 'x', '/', '1', '.', '5', ')'], 6, [⟨0, 1, Tok.LPAR, "("⟩, ⟨1, 3, Tok.NUM, "12"⟩, ⟨3, 5, Tok.UNITS, "px"⟩, ⟨5, 6, Tok.DIV, "/"⟩]⟩, 4⟩ = .ok ((.Literal (.Number ⟨3, 2⟩ [] [])), ⟨⟨['(', '1', '2', 'p', 'x', '/', '1', '.', '5', ')'], 10, [⟨0, 1, Tok.LPAR, "("⟩, ⟨1, 3, Tok.NUM, "12"⟩, ⟨3, 5, Tok.UNITS, "px"⟩, ⟨5, 6, Tok.DIV, "/"⟩, ⟨6, 9, Tok.NUM, "1.5"⟩, ⟨9, 10, Tok.RPAR, ")"⟩]⟩, 5⟩) := by
  rw [uExprF]
  simp only [ps_b_2, tk_b_13, pPeek, pScan, pRewind, scanRewind, peekIn, tokMem, exceptBind_ok, exceptBind_error, exceptMap_ok, exceptMap_error, exceptPure, Option.some.injEq, reduceIte, reduceDIte, reduceCtorEq, Nat.reduceAdd, Nat.reduceSub, Nat.reduceEqDiff, decide_True, decide_False, decide_eq_true_eq, ne_eq, not_false_eq_true, not_true_eq_false, List.cons_append, List.nil_append, List.append_nil, or_self, or_false, false_or, and_self, and_true, true_and, u_expr_chks, u_expr_rsts, expr_rsts, expr_slst_rsts, expr_lst_rsts, and_test_rsts, not_test_rsts, comparison_rsts, comparison_chks, a_expr_rsts, a_expr_chks, m_expr_rsts, m_expr_chks, atom_rsts, atom_rsts_post, argspec_rsts, argspec_item_rsts, argspec_item_rsts_post, ne_eq]

/-- Parser step for input "(12px/1.5)". -/
theorem ps_b_4 : mLoopF 80 (.BinaryOp .div (.Literal (.Number ⟨12, 1⟩ ["px"] [])) (.Literal (.Number ⟨3, 2⟩ [] []))) ⟨⟨['(', '1', '2', 'p', 'x', '/', '1', '.', '5', ')'], 10, [⟨0, 1, Tok.LPAR, "("⟩, ⟨1, 3, Tok.NUM, "12"⟩, ⟨3, 5, Tok.UNITS, "px"⟩, ⟨5, 6, Tok.DIV, "/"⟩, ⟨6, 9, Tok.NUM, "1.5"⟩, ⟨9, 10, Tok.RPAR, ")"⟩]⟩, 5⟩ = .ok ((.BinaryOp .div (.Literal (.Number ⟨12, 1⟩ ["px"] [])) (.Literal (.Number ⟨3, 2⟩ [] []))), ⟨⟨['(', '1', '2', 'p', 'x', '/', '1', '.', '5', ')'], 10, [⟨0, 1, Tok.LPAR, "("⟩, ⟨1, 3, Tok.NUM, "12"⟩, ⟨3, 5, Tok.UNITS, "px"⟩, ⟨5, 6, Tok.DIV, "/"⟩, ⟨6, 9, Tok.NUM, "1.5"⟩, ⟨9, 10, Tok.RPAR, ")"⟩]⟩, 5⟩) := by
  rw [mLoopF]
  simp only [tk_b_17, pPeek, pScan, pRewind, scanRewind, peekIn, tokMem, exceptBind_ok, exceptBind_error, exceptMap_ok, exceptMap_error, exceptPure, Option.some.injEq, reduceIte, reduceDIte, reduceCtorEq, Nat.reduceAdd, Nat.reduceSub, Nat.reduceEqDiff, decide_True, decide_False, decide_eq_true_eq, ne_eq, not_false_eq_true, not_true_eq_false, List.cons_append, List.nil_append, List.append_nil, or_self, or_false, false_or, and_self, and_true, true_and, u_expr_chks, u_expr_rsts, expr_rsts, expr_slst_rsts, expr_lst_rsts, and_test_rsts, not_test_rsts, comparison_rsts, comparison_chks, a_expr_rsts, a_expr_chks, m_expr_rsts, m_expr_chks, atom_rsts, atom_rsts_post, argspec_rsts, argspec_item_rsts, argspec_item_rsts_post, ne_eq]

/-- Parser step for input "(12px/1.5)". -/
theorem ps_b_5 : mLoopF 81 (.Literal (.Number ⟨12, 1⟩ ["px"] [])) ⟨⟨['(', '1', '2', 'p', 'x', '/', '1', '.', '5', ')'], 5, [⟨0, 1, Tok.LPAR, "("⟩, ⟨1, 3, Tok.NUM, "12"⟩, ⟨3, 5, Tok.UNITS, "px"⟩]⟩, 3⟩ = .ok ((.BinaryOp .div (.Literal (.Number ⟨12, 1⟩ ["px"] [])) (.Literal (.Number ⟨3, 2⟩ [] []))), ⟨⟨['(', '1', '2', 'p', 'x', '/', '1', '.', '5', ')'], 10, [⟨0, 1, Tok.LPAR, "("⟩, ⟨1, 3, Tok.NUM, "12"⟩, ⟨3, 5, Tok.UNITS, "px"⟩, ⟨5, 6, Tok.DIV, "/"⟩, ⟨6, 9, Tok.NUM, "1.5"⟩, ⟨9, 10, Tok.RPAR, ")"⟩]⟩, 5⟩) := by
  rw [mLoopF]
  simp only [ps_b_3, ps_b_4, tk_b_10, tk_b_11, tk_b_12, pPeek, pScan, pRewind, scanRewind, peekIn, tokMem, exceptBind_ok, exceptBind_error, exceptMap_ok, exceptMap_error, exceptPure, Option.some.injEq, reduceIte, reduceDIte, reduceCtorEq, Nat.reduceAdd, Nat.reduceSub, Nat.reduceEqDiff, decide_True, decide_False, decide_eq_true_eq, ne_eq, not_false_eq_true, not_true_eq_false, List.cons_append, List.nil_append, List.append_nil, or_self, or_false, false_or, and_self, and_true, true_and, u_expr_chks, u_expr_rsts, expr_rsts, expr_slst_rsts, expr_lst_rsts, and_test_rsts, not_test_rsts, comparison_rsts, comparison_chks, a_expr_rsts, a_expr_chks, m_expr_rsts, m_expr_chks, atom_rsts, atom_rsts_post, argspec_rsts, argspec_item_rsts, argspec_item_rsts_post, ne_eq]

/-- Parser step for input "(12px/1.5)". -/
theorem ps_b_6 : mExprF 82 ⟨⟨['(', '1', '2', 'p', 'x', '/', '1', '.', '5', ')'], 3, [⟨0, 1, Tok.LPAR, "("⟩, ⟨1, 3, Tok.NUM, "12"⟩]⟩, 1⟩ = .ok ((.BinaryOp .div (.Literal (.Number ⟨12, 1⟩ ["px"] [])) (.Literal (.Number ⟨3, 2⟩ [] []))), ⟨⟨['(', '1', '2', 'p', 'x', '/', '1', '.', '5', ')'], 10, [⟨0, 1, Tok.LPAR, "("⟩, ⟨1, 3, Tok.NUM, "12"⟩, ⟨3, 5, Tok.UNITS, "px"⟩, ⟨5, 6, Tok.DIV, "/"⟩, ⟨6, 9, Tok.NUM, "1.5"⟩, ⟨9, 10, Tok.RPAR, ")"⟩]⟩, 5⟩) := by
  rw [mExprF, ps_b_1]
  rw [exceptBind_ok]
  simp only [ps_b_5, pPeek, pScan, pRewind, scanRewind, peekIn, tokMem, exceptBind_ok, exceptBind_error, exceptMap_ok, exceptMap_error, exceptPure, Option.some.injEq, reduceIte, reduceDIte, reduceCtorEq, Nat.reduceAdd, Nat.reduceSub, Nat.reduceEqDiff, decide_True, decide_False, decide_eq_true_eq, ne_eq, not_false_eq_true, not_true_eq_false, List.cons_append, List.nil_append, List.append_nil, or_self, or_false, false_or, and_self, and_true, true_and, u_expr_chks, u_expr_rsts, expr_rsts, expr_slst_rsts, expr_lst_rsts, and_test_rsts, not_test_rsts, comparison_rsts, comparison_chks, a_expr_rsts, a_expr_chks, m_expr_rsts, m_expr_chks, atom_rsts, atom_rsts_post, argspec_rsts, argspec_item_rsts, argspec_item_rsts_post, ne_eq]

/-- Parser step for input "(12px/1.5)". -/
theorem ps_b_7 : aLoopF 82 (.BinaryOp .div (.Literal (.Number ⟨12, 1⟩ ["px"] [])) (.Literal (.Number ⟨3, 2⟩ [] []))) ⟨⟨['(', '1', '2', 'p', 'x', '/', '1', '.', '5', ')'], 10, [⟨0, 1, Tok.LPAR, "("⟩, ⟨1, 3, Tok.NUM, "12"⟩, ⟨3, 5, Tok.UNITS, "px"⟩, ⟨5, 6, Tok.DIV, "/"⟩, ⟨6, 9, Tok.NUM, "1.5"⟩, ⟨9, 10, Tok.RPAR, ")"⟩]⟩, 5⟩ = .ok ((.BinaryOp .div (.Literal (.Number ⟨12, 1⟩ ["px"] [])) (.Literal (.Number ⟨3, 2⟩ [] []))), ⟨⟨['(', '1', '2', 'p', 'x', '/', '1', '.', '5', ')'], 10, [⟨0, 1, Tok.LPAR, "("⟩, ⟨1, 3, Tok.NUM, "12"⟩, ⟨3, 5, Tok.UNITS, "px"⟩, ⟨5, 6, Tok.DIV, "/"⟩, ⟨6, 9, Tok.NUM, "1.5"⟩, ⟨9, 10, Tok.RPAR, ")"⟩]⟩, 5⟩) := by
  rw [aLoopF]
  simp only [tk_b_18, pPeek, pScan, pRewind, scanRewind, peekIn, tokMem, exceptBind_ok, exceptBind_error, exceptMap_ok, exceptMap_error, exceptPure, Option.some.injEq, reduceIte, reduceDIte, reduceCtorEq, Nat.reduceAdd, Nat.reduceSub, Nat.reduceEqDiff, decide_True, decide_False, decide_eq_true_eq, ne_eq, not_false_eq_true, not_true_eq_false, List.cons_append, List.nil_append, List.append_nil, or_self, or_false, false_or, and_self, and_true, true_and, u_expr_chks, u_expr_rsts, expr_rsts, expr_slst_rsts, expr_lst_rsts, and_test_rsts, not_test_rsts, comparison_rsts, comparison_chks, a_expr_rsts, a_expr_chks, m_expr_rsts, m_expr_chks, atom_rsts, atom_rsts_post, argspec_rsts, argspec_item_rsts, argspec_item_rsts_post, ne_eq]

/-- Parser step for input "(12px/1.5)". -/
theorem ps_b_8 : aExprF 83 ⟨⟨['(', '1', '2', 'p', 'x', '/', '1', '.', '5', ')'], 3, [⟨0, 1, Tok.LPAR, "("⟩, ⟨1, 3, Tok.NUM, "12"⟩]⟩, 1⟩ = .ok ((.BinaryOp .div (.Literal (.Number ⟨12, 1⟩ ["px"] [])) (.Literal (.Number ⟨3, 2⟩ [] []))), ⟨⟨['(', '1', '2', 'p', 'x', '/', '1', '.', '5', ')'], 10, [⟨0, 1, Tok.LPAR, "("⟩, ⟨1, 3, Tok.NUM, "12"⟩, ⟨3, 5, Tok.UNITS, "px"⟩, ⟨5, 6, Tok.DIV, "/"⟩, ⟨6, 9, Tok.NUM, "1.5"⟩, ⟨9, 10, Tok.RPAR, ")"⟩]⟩, 5⟩) := by
  rw [aExprF, ps_b_6]
  rw [exceptBind_ok]
  simp only [ps_b_7, pPeek, pScan, pRewind, scanRewind, peekIn, tokMem, exceptBind_ok, exceptBind_error, exceptMap_ok, exceptMap_error, exceptPure, Option.some.injEq, reduceIte, reduceDIte, reduceCtorEq, Nat.reduceAdd, Nat.reduceSub, Nat.reduceEqDiff, decide_True, decide_False, decide_eq_true_eq, ne_eq, not_false_eq_true, not_true_eq_false, List.cons_append, List.nil_append, List.append_nil, or_self, or_false, false_or, and_self, and_true, true_and, u_expr_chks, u_expr_rsts, expr_rsts, expr_slst_rsts, expr_lst_rsts, and_test_rsts, not_test_rsts, comparison_rsts, comparison_chks, a_expr_rsts, a_expr_chks, m_expr_rsts, m_expr_chks, atom_rsts, atom_rsts_post, argspec_rsts, argspec_item_rsts, argspec_item_rsts_post, ne_eq]

/-- Parser step for input "(12px/1.5)". -/
theorem ps_b_9 : compLoopF 83 (.BinaryOp .div (.Literal (.Number ⟨12, 1⟩ ["px"] [])) (.Literal (.Number ⟨3, 2⟩ [] []))) ⟨⟨['(', '1', '2', 'p', 'x', '/', '1', '.', '5', ')'], 10, [⟨0, 1, Tok.LPAR, "("⟩, ⟨1, 3, Tok.NUM, "12"⟩, ⟨3, 5, Tok.UNITS, "px"⟩, ⟨5, 6, Tok.DIV, "/"⟩, ⟨6, 9, Tok.NUM, "1.5"⟩, ⟨9, 10, Tok.RPAR, ")"⟩]⟩, 5⟩ = .ok ((.BinaryOp .div (.Literal (.Number ⟨12, 1⟩ ["px"] [])) (.Literal (.Number ⟨3, 2⟩ [] []))), ⟨⟨['(', '1', '2', 'p', 'x', '/', '1', '.', '5', ')'], 10, [⟨0, 1, Tok.LPAR, "("⟩, ⟨1, 3, Tok.NUM, "12"⟩, ⟨3, 5, Tok.UNITS, "px"⟩, ⟨5, 6, Tok.DIV, "/"⟩, ⟨6, 9, Tok.NUM, "1.5"⟩, ⟨9, 10, Tok.RPAR, ")"⟩]⟩, 5⟩) := by
  rw [compLoopF]
  simp only [tk_b_19, pPeek, pScan, pRewind, scanRewind, peekIn, tokMem, exceptBind_ok, exceptBind_error, exceptMap_ok, exceptMap_error, exceptPure, Option.some.injEq, reduceIte, reduceDIte, reduceCtorEq, Nat.reduceAdd, Nat.reduceSub, Nat.reduceEqDiff, decide_True, decide_False, decide_eq_true_eq, ne_eq, not_false_eq_true, not_true_eq_false, List.cons_append, List.nil_append, List.append_nil, or_self, or_false, false_or, and_self, and_true, true_and, u_expr_chks, u_expr_rsts, expr_rsts, expr_slst_rsts, expr_lst_rsts, and_test_rsts, not_test_rsts, comparison_rsts, comparison_chks, a_expr_rsts, a_expr_chks, m_expr_rsts, m_expr_chks, atom_rsts, atom_rsts_post, argspec_rsts, argspec_item_rsts, argspec_item_rsts_post, ne_eq]

/-- Parser step for input "(12px/1.5)". -/
theorem ps_b_10 : comparisonF 84 ⟨⟨['(', '1', '2', 'p', 'x', '/', '1', '.', '5', ')'], 3, [⟨0, 1, Tok.LPAR, "("⟩, ⟨1, 3, Tok.NUM, "12"⟩]⟩, 1⟩ = .ok ((.BinaryOp .div (.Literal (.Number ⟨12, 1⟩ ["px"] [])) (.Literal (.Number ⟨3, 2⟩ [] []))), ⟨⟨['(', '1', '2', 'p', 'x', '/', '1', '.', '5', ')'], 10, [⟨0, 1, Tok.LPAR, "("⟩, ⟨1, 3, Tok.NUM, "12"⟩, ⟨3, 5, Tok.UNITS, "px"⟩, ⟨5, 6, Tok.DIV, "/"⟩, ⟨6, 9, Tok.NUM, "1.5"⟩, ⟨9, 10, Tok.RPAR, ")"⟩]⟩, 5⟩) := by
  rw [comparisonF, ps_b_8]
  rw [exceptBind_ok]
  simp only [ps_b_9, pPeek, pScan, pRewind, scanRewind, peekIn, tokMem, exceptBind_ok, exceptBind_error, exceptMap_ok, exceptMap_error, exceptPure, Option.some.injEq, reduceIte, reduceDIte, reduceCtorEq, Nat.reduceAdd, Nat.reduceSub, Nat.reduceEqDiff, decide_True, decide_False, decide_eq_true_eq, ne_eq, not_false_eq_true, not_true_eq_false, List.cons_append, List.nil_append, List.append_nil, or_self, or_false, false_or, and_self, and_true, true_and, u_expr_chks, u_expr_rsts, expr_rsts, expr_slst_rsts, expr_lst_rsts, and_test_rsts, not_test_rsts, comparison_rsts, comparison_chks, a_expr_rsts, a_expr_chks, m_expr_rsts, m_expr_chks, atom_rsts, atom_rsts_post, argspec_rsts, argspec_item_rsts, argspec_item_rsts_post, ne_eq]

/-- Parser step for input "(12px/1.5)". -/
theorem ps_b_11 : notTestF 85 ⟨⟨['(', '1', '2', 'p', 'x', '/', '1', '.', '5', ')'], 1, [⟨0, 1, Tok.LPAR, "("⟩]⟩, 1⟩ = .ok ((.BinaryOp .div (.Literal (.Number ⟨12, 1⟩ ["px"] [])) (.Literal (.Number ⟨3, 2⟩ [] []))), ⟨⟨['(', '1', '2', 'p', 'x', '/', '1', '.', '5', ')'], 10, [⟨0, 1, Tok.LPAR, "("⟩, ⟨1, 3, Tok.NUM, "12"⟩, ⟨3, 5, Tok.UNITS, "px"⟩, ⟨5, 6, Tok.DIV, "/"⟩, ⟨6, 9, Tok.NUM, "1.5"⟩, ⟨9, 10, Tok.RPAR, ")"⟩]⟩, 5⟩) := by
  rw [notTestF]
  simp only [ps_b_10, tk_b_4, pPeek, pScan, pRewind, scanRewind, peekIn, tokMem, exceptBind_ok, exceptBind_error, exceptMap_ok, exceptMap_error, exceptPure, Option.some.injEq, reduceIte, reduceDIte, reduceCtorEq, Nat.reduceAdd, Nat.reduceSub, Nat.reduceEqDiff, decide_True, decide_False, decide_eq_true_eq, ne_eq, not_false_eq_true, not_true_eq_false, List.cons_append, List.nil_append, List.append_nil, or_self, or_false, false_or, and_self, and_true, true_and, u_expr_chks, u_expr_rsts, expr_rsts, expr_slst_rsts, expr_lst_rsts, and_test_rsts, not_test_rsts, comparison_rsts, comparison_chks, a_expr_rsts, a_expr_chks, m_expr_rsts, m_expr_chks, atom_rsts, atom_rsts_post, argspec_rsts, argspec_item_rsts, argspec_item_rsts_post, ne_eq]

/-- Parser step for input "(12px/1.5)". -/
theorem ps_b_12 : andLoopF 85 (.BinaryOp .div (.Literal (.Number ⟨12, 1⟩ ["px"] [])) (.Literal (.Number ⟨3, 2⟩ [] []))) ⟨⟨['(', '1', '2', 'p', 'x', '/', '1', '.', '5', ')'], 10, [⟨0, 1, Tok.LPAR, "("⟩, ⟨1, 3, Tok.NUM, "12"⟩, ⟨3, 5, Tok.UNITS, "px"⟩, ⟨5, 6, Tok.DIV, "/"⟩, ⟨6, 9, Tok.NUM, "1.5"⟩, ⟨9, 10, Tok.RPAR, ")"⟩]⟩, 5⟩ = .ok ((.BinaryOp .div (.Literal (.Number ⟨12, 1⟩ ["px"] [])) (.Literal (.Number ⟨3, 2⟩ [] []))), ⟨⟨['(', '1', '2', 'p', 'x', '/', '1', '.', '5', ')'], 10, [⟨0, 1, Tok.LPAR, "("⟩, ⟨1, 3, Tok.NUM, "12"⟩, ⟨3, 5, Tok.UNITS, "px"⟩, ⟨5, 6, Tok.DIV, "/"⟩, ⟨6, 9, Tok.NUM, "1.5"⟩, ⟨9, 10, Tok.RPAR, ")"⟩]⟩, 5⟩) := by
  rw [andLoopF]
  simp only [tk_b_20, pPeek, pScan, pRewind, scanRewind, peekIn, tokMem, exceptBind_ok, exceptBind_error, exceptMap_ok, exceptMap_error, exceptPure, Option.some.injEq, reduceIte, reduceDIte, reduceCtorEq, Nat.reduceAdd, Nat.reduceSub, Nat.reduceEqDiff, decide_True, decide_False, decide_eq_true_eq, ne_eq, not_false_eq_true, not_true_eq_false, List.cons_append, List.nil_append, List.append_nil, or_self, or_false, false_or, and_self, and_true, true_and, u_expr_chks, u_expr_rsts, expr_rsts, expr_slst_rsts, expr_lst_rsts, and_test_rsts, not_test_rsts, comparison_rsts, comparison_chks, a_expr_rsts, a_expr_chks, m_expr_rsts, m_expr_chks, atom_rsts, atom_rsts_post, argspec_rsts, argspec_item_rsts, argspec_item_rsts_post, ne_eq]

/-- Parser step for input "(12px/1.5)". -/
theorem ps_b_13 : andTestF 86 ⟨⟨['(', '1', '2', 'p', 'x', '/', '1', '.', '5', ')'], 1, [⟨0, 1, Tok.LPAR, "("⟩]⟩, 1⟩ = .ok ((.BinaryOp .div (.Literal (.Number ⟨12, 1⟩ ["px"] [])) (.Literal (.Number ⟨3, 2⟩ [] []))), ⟨⟨['(', '1', '2', 'p', 'x', '/', '1', '.', '5', ')'], 10, [⟨0, 1, Tok.LPAR, "("⟩, ⟨1, 3, Tok.NUM, "12"⟩, ⟨3, 5, Tok.UNITS, "px"⟩, ⟨5, 6, Tok.DIV, "/"⟩, ⟨6, 9, Tok.NUM, "1.5"⟩, ⟨9, 10, Tok.RPAR, ")"⟩]⟩, 5⟩) := by
  rw [andTestF, ps_b_11]
  rw [exceptBind_ok]
  simp only [ps_b_12, pPeek, pScan, pRewind, scanRewind, peekIn, tokMem, exceptBind_ok, exceptBind_error, exceptMap_ok, exceptMap_error, exceptPure, Option.some.injEq, reduceIte, reduceDIte, reduceCtorEq, Nat.reduceAdd, Nat.reduceSub, Nat.reduceEqDiff, decide_True, decide_False, decide_eq_true_eq, ne_eq, not_false_eq_true, not_true_eq_false, List.cons_append, List.nil_append, List.append_nil, or_self, or_false, false_or, and_self, and_true, true_and, u_expr_chks, u_expr_rsts, expr_rsts, expr_slst_rsts, expr_lst_rsts, and_test_rsts, not_test_rsts, comparison_rsts, comparison_chks, a_expr_rsts, a_expr_chks, m_expr_rsts, m_expr_chks, atom_rsts, atom_rsts_post, argspec_rsts, argspec_item_rsts, argspec_item_rsts_post, ne_eq]

/-- Parser step for input "(12px/1.5)". -/
theorem ps_b_14 : exprLoopF 86 (.BinaryOp .div (.Literal (.Number ⟨12, 1⟩ ["px"] [])) (.Literal (.Number ⟨3, 2⟩ [] []))) ⟨⟨['(', '1', '2', 'p', 'x', '/', '1', '.', '5', ')'], 10, [⟨0, 1, Tok.LPAR, "("⟩, ⟨1, 3, Tok.NUM, "12"⟩, ⟨3, 5, Tok.UNITS, "px"⟩, ⟨5, 6, Tok.DIV, "/"⟩, ⟨6, 9, Tok.NUM, "1.5"⟩, ⟨9, 10, Tok.RPAR, ")"⟩]⟩, 5⟩ = .ok ((.BinaryOp .div (.Literal (.Number ⟨12, 1⟩ ["px"] [])) (.Literal (.Number ⟨3, 2⟩ [] []))), ⟨⟨['(', '1', '2', 'p', 'x', '/', '1', '.', '5', ')'], 10, [⟨0, 1, Tok.LPAR, "("⟩, ⟨1, 3, Tok.NUM, "12"⟩, ⟨3, 5, Tok.UNITS, "px"⟩, ⟨5, 6, Tok.DIV, "/"⟩, ⟨6, 9, Tok.NUM, "1.5"⟩, ⟨9, 10, Tok.RPAR, ")"⟩]⟩, 5⟩) := by
  rw [exprLoopF]
  simp only [tk_b_21, pPeek, pScan, pRewind, scanRewind, peekIn, tokMem, exceptBind_ok, exceptBind_error, exceptMap_ok, exceptMap_error, exceptPure, Option.some.injEq, reduceIte, reduceDIte, reduceCtorEq, Nat.reduceAdd, Nat.reduceSub, Nat.reduceEqDiff, decide_True, decide_False, decide_eq_true_eq, ne_eq, not_false_eq_true, not_true_eq_false, List.cons_append, List.nil_append, List.append_nil, or_self, or_false, false_or, and_self, and_true, true_and, u_expr_chks, u_expr_rsts, expr_rsts, expr_slst_rsts, expr_lst_rsts, and_test_rsts, not_test_rsts, comparison_rsts, comparison_chks, a_expr_rsts, a_expr_chks, m_expr_rsts, m_expr_chks, atom_rsts, atom_rsts_post, argspec_rsts, argspec_item_rsts, argspec_item_rsts_post, ne_eq]

/-- Parser step for input "(12px/1.5)". -/
theorem ps_b_15 : exprF 87 ⟨⟨['(', '1', '2', 'p', 'x', '/', '1', '.', '5', ')'], 1, [⟨0, 1, Tok.LPAR, "("⟩]⟩, 1⟩ = .ok ((.BinaryOp .div (.Literal (.Number ⟨12, 1⟩ ["px"] [])) (.Literal (.Number ⟨3, 2⟩ [] []))), ⟨⟨['(', '1', '2', 'p', 'x', '/', '1', '.', '5', ')'], 10, [⟨0, 1, Tok.LPAR, "("⟩, ⟨1, 3, Tok.NUM, "12"⟩, ⟨3, 5, Tok.UNITS, "px"⟩, ⟨5, 6, Tok.DIV, "/"⟩, ⟨6, 9, Tok.NUM, "1.5"⟩, ⟨9, 10, Tok.RPAR, ")"⟩]⟩, 5⟩) := by
  rw [exprF, ps_b_13]
  rw [exceptBind_ok]
  simp only [ps_b_14, pPeek, pScan, pRewind, scanRewind, peekIn, tokMem, exceptBind_ok, exceptBind_error, exceptMap_ok, exceptMap_error, exceptPure, Option.some.injEq, reduceIte, reduceDIte, reduceCtorEq, Nat.reduceAdd, Nat.reduceSub, Nat.reduceEqDiff, decide_True, decide_False, decide_eq_true_eq, ne_eq, not_false_eq_true, not_true_eq_false, List.cons_append, List.nil_append, List.append_nil, or_self, or_false, false_or, and_self, and_true, true_and, u_expr_chks, u_expr_rsts, expr_rsts, expr_slst_rsts, expr_lst_rsts, and_test_rsts, not_test_rsts, comparison_rsts, comparison_chks, a_expr_rsts, a_expr_chks, m_expr_rsts, m_expr_chks, atom_rsts, atom_rsts_post, argspec_rsts, argspec_item_rsts, argspec_item_rsts_post, ne_eq]

/-- Parser step for input "(12px/1.5)". -/
theorem ps_b_16 : exprSlstLoopF 87 [(.BinaryOp .div (.Literal (.Number ⟨12, 1⟩ ["px"] [])) (.Literal (.Number ⟨3, 2⟩ [] [])))] ⟨⟨['(', '1', '2', 'p', 'x', '/', '1', '.', '5', ')'], 10, [⟨0, 1, Tok.LPAR, "("⟩, ⟨1, 3, Tok.NUM, "12"⟩, ⟨3, 5, Tok.UNITS, "px"⟩, ⟨5, 6, Tok.DIV, "/"⟩, ⟨6, 9, Tok.NUM, "1.5"⟩, ⟨9, 10, Tok.RPAR, ")"⟩]⟩, 5⟩ = .ok ((.BinaryOp .div (.Literal (.Number ⟨12, 1⟩ ["px"] [])) (.Literal (.Number ⟨3, 2⟩ [] []))), ⟨⟨['(', '1', '2', 'p', 'x', '/', '1', '.', '5', ')'], 10, [⟨0, 1, Tok.LPAR, "("⟩, ⟨1, 3, Tok.NUM, "12"⟩, ⟨3, 5, Tok.UNITS, "px"⟩, ⟨5, 6, Tok.DIV, "/"⟩, ⟨6, 9, Tok.NUM, "1.5"⟩, ⟨9, 10, Tok.RPAR, ")"⟩]⟩, 5⟩) := by
  rw [exprSlstLoopF]
  simp only [tk_b_22, pPeek, pScan, pRewind, scanRewind, peekIn, tokMem, exceptBind_ok, exceptBind_error, exceptMap_ok, exceptMap_error, exceptPure, Option.some.injEq, reduceIte, reduceDIte, reduceCtorEq, Nat.reduceAdd, Nat.reduceSub, Nat.reduceEqDiff, decide_True, decide_False, decide_eq_true_eq, ne_eq, not_false_eq_true, not_true_eq_false, List.cons_append, List.nil_append, List.append_nil, or_self, or_false, false_or, and_self, and_true, true_and, u_expr_chks, u_expr_rsts, expr_rsts, expr_slst_rsts, expr_lst_rsts, and_test_rsts, not_test_rsts, comparison_rsts, comparison_chks, a_expr_rsts, a_expr_chks, m_expr_rsts, m_expr_chks, atom_rsts, atom_rsts_post, argspec_rsts, argspec_item_rsts, argspec_item_rsts_post, ne_eq]

/-- Parser step for input "(12px/1.5)". -/
theorem ps_b_17 : exprSlstF 88 ⟨⟨['(', '1', '2', 'p', 'x', '/', '1', '.', '5', ')'], 1, [⟨0, 1, Tok.LPAR, "("⟩]⟩, 1⟩ = .ok ((.BinaryOp .div (.Literal (.Number ⟨12, 1⟩ ["px"] [])) (.Literal (.Number ⟨3, 2⟩ [] []))), ⟨⟨['(', '1', '2', 'p', 'x', '/', '1', '.', '5', ')'], 10, [⟨0, 1, Tok.LPAR, "("⟩, ⟨1, 3, Tok.NUM, "12"⟩, ⟨3, 5, Tok.UNITS, "px"⟩, ⟨5, 6, Tok.DIV, "/"⟩, ⟨6, 9, Tok.NUM, "1.5"⟩, ⟨9, 10, Tok.RPAR, ")"⟩]⟩, 5⟩) := by
  rw [exprSlstF, ps_b_15]
  rw [exceptBind_ok]
  simp only [ps_b_16, pPeek, pScan, pRewind, scanRewind, peekIn, tokMem, exceptBind_ok, exceptBind_error, exceptMap_ok, exceptMap_error, exceptPure, Option.some.injEq, reduceIte, reduceDIte, reduceCtorEq, Nat.reduceAdd, Nat.reduceSub, Nat.reduceEqDiff, decide_True, decide_False, decide_eq_true_eq, ne_eq, not_false_eq_true, not_true_eq_false, List.cons_append, List.nil_append, List.append_nil, or_self, or_false, false_or, and_self, and_true, true_and, u_expr_chks, u_expr_rsts, expr_rsts, expr_slst_rsts, expr_lst_rsts, and_test_rsts, not_test_rsts, comparison_rsts, comparison_chks, a_expr_rsts, a_expr_chks, m_expr_rsts, m_expr_chks, atom_rsts, atom_rsts_post, argspec_rsts, argspec_item_rsts, argspec_item_rsts_post, ne_eq]

/-- Parser step for input "(12px/1.5)". -/
theorem ps_b_18 : exprLstLoopF 88 [(.BinaryOp .div (.Literal (.Number ⟨12, 1⟩ ["px"] [])) (.Literal (.Number ⟨3, 2⟩ [] [])))] ⟨⟨['(', '1', '2', 'p', 'x', '/', '1', '.', '5', ')'], 10, [⟨0, 1, Tok.LPAR, "("⟩, ⟨1, 3, Tok.NUM, "12"⟩, ⟨3, 5, Tok.UNITS, "px"⟩, ⟨5, 6, Tok.DIV, "/"⟩, ⟨6, 9, Tok.NUM, "1.5"⟩, ⟨9, 10, Tok.RPAR, ")"⟩]⟩, 5⟩ = .ok ((.BinaryOp .div (.Literal (.Number ⟨12, 1⟩ ["px"] [])) (.Literal (.Number ⟨3, 2⟩ [] []))), ⟨⟨['(', '1', '2', 'p', 'x', '/', '1', '.', '5', ')'], 10, [⟨0, 1, Tok.LPAR, "("⟩, ⟨1, 3, Tok.NUM, "12"⟩, ⟨3, 5, Tok.UNITS, "px"⟩, ⟨5, 6, Tok.DIV, "/"⟩, ⟨6, 9, Tok.NUM, "1.5"⟩, ⟨9, 10, Tok.RPAR, ")"⟩]⟩, 5⟩) := by
  rw [exprLstLoopF]
  simp only [tk_b_23, pPeek, pScan, pRewind, scanRewind, peekIn, tokMem, exceptBind_ok, exceptBind_error, exceptMap_ok, exceptMap_error, exceptPure, Option.some.injEq, reduceIte, reduceDIte, reduceCtorEq, Nat.reduceAdd, Nat.reduceSub, Nat.reduceEqDiff, decide_True, decide_False, decide_eq_true_eq, ne_eq, not_false_eq_true, not_true_eq_false, List.cons_append, List.nil_append, List.append_nil, or_self, or_false, false_or, and_self, and_true, true_and, u_expr_chks, u_expr_rsts, expr_rsts, expr_slst_rsts, expr_lst_rsts, and_test_rsts, not_test_rsts, comparison_rsts, comparison_chks, a_expr_rsts, a_expr_chks, m_expr_rsts, m_expr_chks, atom_rsts, atom_rsts_post, argspec_rsts, argspec_item_rsts, argspec_item_rsts_post, ne_eq]

/-- Parser step for input "(12px/1.5)". -/
theorem ps_b_19 : exprLstF 89 ⟨⟨['(', '1', '2', 'p', 'x', '/', '1', '.', '5', ')'], 1, [⟨0, 1, Tok.LPAR, "("⟩]⟩, 1⟩ = .ok ((.BinaryOp .div (.Literal (.Number ⟨12, 1⟩ ["px"] [])) (.Literal (.Number ⟨3, 2⟩ [] []))), ⟨⟨['(', '1', '2', 'p', 'x', '/', '1', '.', '5', ')'], 10, [⟨0, 1, Tok.LPAR, "("⟩, ⟨1, 3, Tok.NUM, "12"⟩, ⟨3, 5, Tok.UNITS, "px"⟩, ⟨5, 6, Tok.DIV, "/"⟩, ⟨6, 9, Tok.NUM, "1.5"⟩, ⟨9, 10, Tok.RPAR, ")"⟩]⟩, 5⟩) := by
  rw [exprLstF, ps_b_17]
  rw [exceptBind_ok]
  simp only [ps_b_18, pPeek, pScan, pRewind, scanRewind, peekIn, tokMem, exceptBind_ok, exceptBind_error, exceptMap_ok, exceptMap_error, exceptPure, Option.some.injEq, reduceIte, reduceDIte, reduceCtorEq, Nat.reduceAdd, Nat.reduceSub, Nat.reduceEqDiff, decide_True, decide_False, decide_eq_true_eq, ne_eq, not_false_eq_true, not_true_eq_false, List.cons_append, List.nil_append, List.append_nil, or_self, or_false, false_or, and_self, and_true, true_and, u_expr_chks, u_expr_rsts, expr_rsts, expr_slst_rsts, expr_lst_rsts, and_test_rsts, not_test_rsts, comparison_rsts, comparison_chks, a_expr_rsts, a_expr_chks, m_expr_rsts, m_expr_chks, atom_rsts, atom_rsts_post, argspec_rsts, argspec_item_rsts, argspec_item_rsts_post, ne_eq]

/-- Parser step for input "(12px/1.5)". -/
theorem ps_b_20 : atomF 90 ⟨⟨['(', '1', '2', 'p', 'x', '/', '1', '.', '5', ')'], 1, [⟨0, 1, Tok.LPAR, "("⟩]⟩, 0⟩ = .ok ((.Parentheses (.BinaryOp .div (.Literal (.Number ⟨12, 1⟩ ["px"] [])) (.Literal (.Number ⟨3, 2⟩ [] [])))), ⟨⟨['(', '1', '2', 'p', 'x', '/', '1', '.', '5', ')'], 10, [⟨0, 1, Tok.LPAR, "("⟩, ⟨1, 3, Tok.NUM, "12"⟩, ⟨3, 5, Tok.UNITS, "px"⟩, ⟨5, 6, Tok.DIV, "/"⟩, ⟨6, 9, Tok.NUM, "1.5"⟩, ⟨9, 10, Tok.RPAR, ")"⟩]⟩, 6⟩) := by
  rw [atomF]
  simp only [ps_b_19, tk_b_2, tk_b_24, tk_b_3, pPeek, pScan, pRewind, scanRewind, peekIn, tokMem, exceptBind_ok, exceptBind_error, exceptMap_ok, exceptMap_error, exceptPure, Option.some.injEq, reduceIte, reduceDIte, reduceCtorEq, Nat.reduceAdd, Nat.reduceSub, Nat.reduceEqDiff, decide_True, decide_False, decide_eq_true_eq, ne_eq, not_false_eq_true, not_true_eq_false, List.cons_append, List.nil_append, List.append_nil, or_self, or_false, false_or, and_self, and_true, true_and, u_expr_chks, u_expr_rsts, expr_rsts, expr_slst_rsts, expr_lst_rsts, and_test_rsts, not_test_rsts, comparison_rsts, comparison_chks, a_expr_rsts, a_expr_chks, m_expr_rsts, m_expr_chks, atom_rsts, atom_rsts_post, argspec_rsts, argspec_item_rsts, argspec_item_rsts_post, sdata0, sdata1, sdata2, sdata3, sdata4, parse_bareword, COLOR_NAMES, parseNum, digitsToNat, lowerStr, parseHexColor, hexToNat, isDigitC, isAlphaC, SassQ.add, SassQ.fromNat, mkQ, gcdQ, gcdFuel, List.find?, List.map, List.take, List.drop, List.takeWhile, List.dropWhile, List.dropLast, List.isEmpty, List.length, Option.map, Char.reduceEq, Char.reduceBEq, Char.reduceLE, Char.reduceLT, Char.reduceToNat, Char.reduceToLower, String.reduceMk, String.reduceEq, String.reduceBEq, Nat.reduceMul, Nat.reduceDiv, Nat.reduceMod, Nat.reducePow, Nat.reduceLeDiff, Nat.reduceLT, Nat.reduceGT, Int.reduceAdd, Int.reduceSub, Int.reduceMul, Int.reduceNeg, Int.reduceDiv, Int.reduceLT, Int.reduceLE, Int.reduceEq, Int.reduceBEq, Int.reduceToNat, Int.reduceAbs, Int.reducePow, Int.reduceMod, Int.reduceOfNat, Nat.cast_ofNat, Nat.cast_one, Nat.cast_zero]

/-- Parser step for input "(12px/1.5)". -/
theorem ps_b_21 : uExprF 91 ⟨⟨['(', '1', '2', 'p', 'x', '/', '1', '.', '5', ')'], 1, [⟨0, 1, Tok.LPAR, "("⟩]⟩, 0⟩ = .ok ((.Parentheses (.BinaryOp .div (.Literal (.Number ⟨12, 1⟩ ["px"] [])) (.Literal (.Number ⟨3, 2⟩ [] [])))), ⟨⟨['(', '1', '2', 'p', 'x', '/', '1', '.', '5', ')'], 10, [⟨0, 1, Tok.LPAR, "("⟩, ⟨1, 3, Tok.NUM, "12"⟩, ⟨3, 5, Tok.UNITS, "px"⟩, ⟨5, 6, Tok.DIV, "/"⟩, ⟨6, 9, Tok.NUM, "1.5"⟩, ⟨9, 10, Tok.RPAR, ")"⟩]⟩, 6⟩) := by
  rw [uExprF]
  simp only [ps_b_20, tk_b_1, pPeek, pScan, pRewind, scanRewind, peekIn, tokMem, exceptBind_ok, exceptBind_error, exceptMap_ok, exceptMap_error, exceptPure, Option.some.injEq, reduceIte, reduceDIte, reduceCtorEq, Nat.reduceAdd, Nat.reduceSub, Nat.reduceEqDiff, decide_True, decide_False, decide_eq_true_eq, ne_eq, not_false_eq_true, not_true_eq_false, List.cons_append, List.nil_append, List.append_nil, or_self, or_false, false_or, and_self, and_true, true_and, u_expr_chks, u_expr_rsts, expr_rsts, expr_slst_rsts, expr_lst_rsts, and_test_rsts, not_test_rsts, comparison_rsts, comparison_chks, a_expr_rsts, a_expr_chks, m_expr_rsts, m_expr_chks, atom_rsts, atom_rsts_post, argspec_rsts, argspec_item_rsts, argspec_item_rsts_post, ne_eq]

/-- Parser step for input "(12px/1.5)". -/
theorem ps_b_22 : mLoopF 91 (.Parentheses (.BinaryOp .div (.Literal (.Number ⟨12, 1⟩ ["px"] [])) (.Literal (.Number ⟨3, 2⟩ [] [])))) ⟨⟨['(', '1', '2', 'p', 'x', '/', '1', '.', '5', ')'], 10, [⟨0, 1, Tok.LPAR, "("⟩, ⟨1, 3, Tok.NUM, "12"⟩, ⟨3, 5, Tok.UNITS, "px"⟩, ⟨5, 6, Tok.DIV, "/"⟩, ⟨6, 9, Tok.NUM, "1.5"⟩, ⟨9, 10, Tok.RPAR, ")"⟩]⟩, 6⟩ = .ok ((.Parentheses (.BinaryOp .div (.Literal (.Number ⟨12, 1⟩ ["px"] [])) (.Literal (.Number ⟨3, 2⟩ [] [])))), ⟨⟨['(', '1', '2', 'p', 'x', '/', '1', '.', '5', ')'], 10, [⟨0, 1, Tok.LPAR, "("⟩, ⟨1, 3, Tok.NUM, "12"⟩, ⟨3, 5, Tok.UNITS, "px"⟩, ⟨5, 6, Tok.DIV, "/"⟩, ⟨6, 9, Tok.NUM, "1.5"⟩, ⟨9, 10, Tok.RPAR, ")"⟩, ⟨10, 10, Tok.END, ""⟩]⟩, 6⟩) := by
  rw [mLoopF]
  simp only [tk_b_25, pPeek, pScan, pRewind, scanRewind, peekIn, tokMem, exceptBind_ok, exceptBind_error, exceptMap_ok, exceptMap_error, exceptPure, Option.some.injEq, reduceIte, reduceDIte, reduceCtorEq, Nat.reduceAdd, Nat.reduceSub, Nat.reduceEqDiff, decide_True, decide_False, decide_eq_true_eq, ne_eq, not_false_eq_true, not_true_eq_false, List.cons_append, List.nil_append, List.append_nil, or_self, or_false, false_or, and_self, and_true, true_and, u_expr_chks, u_expr_rsts, expr_rsts, expr_slst_rsts, expr_lst_rsts, and_test_rsts, not_test_rsts, comparison_rsts, comparison_chks, a_expr_rsts, a_expr_chks, m_expr_rsts, m_expr_chks, atom_rsts, atom_rsts_post, argspec_rsts, argspec_item_rsts, argspec_item_rsts_post, ne_eq]

/-- Parser step for input "(12px/1.5)". -/
theorem ps_b_23 : mExprF 92 ⟨⟨['(', '1', '2', 'p', 'x', '/', '1', '.', '5', ')'], 1, [⟨0, 1, Tok.LPAR, "("⟩]⟩, 0⟩ = .ok ((.Parentheses (.BinaryOp .div (.Literal (.Number ⟨12, 1⟩ ["px"] [])) (.Literal (.Number ⟨3, 2⟩ [] [])))), ⟨⟨['(', '1', '2', 'p', 'x', '/', '1', '.', '5', ')'], 10, [⟨0, 1, Tok.LPAR, "("⟩, ⟨1, 3, Tok.NUM, "12"⟩, ⟨3, 5, Tok.UNITS, "px"⟩, ⟨5, 6, Tok.DIV, "/"⟩, ⟨6, 9, Tok.NUM, "1.5"⟩, ⟨9, 10, Tok.RPAR, ")"⟩, ⟨10, 10, Tok.END, ""⟩]⟩, 6⟩) := by
  rw [mExprF, ps_b_21]
  rw [exceptBind_ok]
  simp only [ps_b_22, pPeek, pScan, pRewind, scanRewind, peekIn, tokMem, exceptBind_ok, exceptBind_error, exceptMap_ok, exceptMap_error, exceptPure, Option.some.injEq, reduceIte, reduceDIte, reduceCtorEq, Nat.reduceAdd, Nat.reduceSub, Nat.reduceEqDiff, decide_True, decide_False, decide_eq_true_eq, ne_eq, not_false_eq_true, not_true_eq_false, List.cons_append, List.nil_append, List.append_nil, or_self, or_false, false_or, and_self, and_true, true_and, u_expr_chks, u_expr_rsts, expr_rsts, expr_slst_rsts, expr_lst_rsts, and_test_rsts, not_test_rsts, comparison_rsts, comparison_chks, a_expr_rsts, a_expr_chks, m_expr_rsts, m_expr_chks, atom_rsts, atom_rsts_post, argspec_rsts, argspec_item_rsts, argspec_item_rsts_post, ne_eq]

/-- Parser step for input "(12px/1.5)". -/
theorem ps_b_24 : aLoopF 92 (.Parentheses (.BinaryOp .div (.Literal (.Number ⟨12, 1⟩ ["px"] [])) (.Literal (.Number ⟨3, 2⟩ [] [])))) ⟨⟨['(', '1', '2', 'p', 'x', '/', '1', '.', '5', ')'], 10, [⟨0, 1, Tok.LPAR, "("⟩, ⟨1, 3, Tok.NUM, "12"⟩, ⟨3, 5, Tok.UNITS, "px"⟩, ⟨5, 6, Tok.DIV, "/"⟩, ⟨6, 9, Tok.NUM, "1.5"⟩, ⟨9, 10, Tok.RPAR, ")"⟩, ⟨10, 10, Tok.END, ""⟩]⟩, 6⟩ = .ok ((.Parentheses (.BinaryOp .div (.Literal (.Number ⟨12, 1⟩ ["px"] [])) (.Literal (.Number ⟨3, 2⟩ [] [])))), ⟨⟨['(', '1', '2', 'p', 'x', '/', '1', '.', '5', ')'], 10, [⟨0, 1, Tok.LPAR, "("⟩, ⟨1, 3, Tok.NUM, "12"⟩, ⟨3, 5, Tok.UNITS, "px"⟩, ⟨5, 6, Tok.DIV, "/"⟩, ⟨6, 9, Tok.NUM, "1.5"⟩, ⟨9, 10, Tok.RPAR, ")"⟩, ⟨10, 10, Tok.END, ""⟩]⟩, 6⟩) := by
  rw [aLoopF]
  simp only [tk_b_26, pPeek, pScan, pRewind, scanRewind, peekIn, tokMem, exceptBind_ok, exceptBind_error, exceptMap_ok, exceptMap_error, exceptPure, Option.some.injEq, reduceIte, reduceDIte, reduceCtorEq, Nat.reduceAdd, Nat.reduceSub, Nat.reduceEqDiff, decide_True, decide_False, decide_eq_true_eq, ne_eq, not_false_eq_true, not_true_eq_false, List.cons_append, List.nil_append, List.append_nil, or_self, or_false, false_or, and_self, and_true, true_and, u_expr_chks, u_expr_rsts, expr_rsts, expr_slst_rsts, expr_lst_rsts, and_test_rsts, not_test_rsts, comparison_rsts, comparison_chks, a_expr_rsts, a_expr_chks, m_expr_rsts, m_expr_chks, atom_rsts, atom_rsts_post, argspec_rsts, argspec_item_rsts, argspec_item_rsts_post, ne_eq]

/-- Parser step for input "(12px/1.5)". -/
theorem ps_b_25 : aExprF 93 ⟨⟨['(', '1', '2', 'p', 'x', '/', '1', '.', '5', ')'], 1, [⟨0, 1, Tok.LPAR, "("⟩]⟩, 0⟩ = .ok ((.Parentheses (.BinaryOp .div (.Literal (.Number ⟨12, 1⟩ ["px"] [])) (.Literal (.Number ⟨3, 2⟩ [] [])))), ⟨⟨['(', '1', '2', 'p', 'x', '/', '1', '.', '5', ')'], 10, [⟨0, 1, Tok.LPAR, "("⟩, ⟨1, 3, Tok.NUM, "12"⟩, ⟨3, 5, Tok.UNITS, "px"⟩, ⟨5, 6, Tok.DIV, "/"⟩, ⟨6, 9, Tok.NUM, "1.5"⟩, ⟨9, 10, Tok.RPAR, ")"⟩, ⟨10, 10, Tok.END, ""⟩]⟩, 6⟩) := by
  rw [aExprF, ps_b_23]
  rw [exceptBind_ok]
  simp only [ps_b_24, pPeek, pScan, pRewind, scanRewind, peekIn, tokMem, exceptBind_ok, exceptBind_error, exceptMap_ok, exceptMap_error, exceptPure, Option.some.injEq, reduceIte, reduceDIte, reduceCtorEq, Nat.reduceAdd, Nat.reduceSub, Nat.reduceEqDiff, decide_True, decide_False, decide_eq_true_eq, ne_eq, not_false_eq_true, not_true_eq_false, List.cons_append, List.nil_append, List.append_nil, or_self, or_false, false_or, and_self, and_true, true_and, u_expr_chks, u_expr_rsts, expr_rsts, expr_slst_rsts, expr_lst_rsts, and_test_rsts, not_test_rsts, comparison_rsts, comparison_chks, a_expr_rsts, a_expr_chks, m_expr_rsts, m_expr_chks, atom_rsts, atom_rsts_post, argspec_rsts, argspec_item_rsts, argspec_item_rsts_post, ne_eq]

/-- Parser step for input "(12px/1.5)". -/
theorem ps_b_26 : compLoopF 93 (.Parentheses (.BinaryOp .div (.Literal (.Number ⟨12, 1⟩ ["px"] [])) (.Literal (.Number ⟨3, 2⟩ [] [])))) ⟨⟨['(', '1', '2', 'p', 'x', '/', '1', '.', '5', ')'], 10, [⟨0, 1, Tok.LPAR, "("⟩, ⟨1, 3, Tok.NUM, "12"⟩, ⟨3, 5, Tok.UNITS, "px"⟩, ⟨5, 6, Tok.DIV, "/"⟩, ⟨6, 9, Tok.NUM, "1.5"⟩, ⟨9, 10, Tok.RPAR, ")"⟩, ⟨10, 10, Tok.END, ""⟩]⟩, 6⟩ = .ok ((.Parentheses (.BinaryOp .div (.Literal (.Number ⟨12, 1⟩ ["px"] [])) (.Literal (.Number ⟨3, 2⟩ [] [])))), ⟨⟨['(', '1', '2', 'p', 'x', '/', '1', '.', '5', ')'], 10, [⟨0, 1, Tok.LPAR, "("⟩, ⟨1, 3, Tok.NUM, "12"⟩, ⟨3, 5, Tok.UNITS, "px"⟩, ⟨5, 6, Tok.DIV, "/"⟩, ⟨6, 9, Tok.NUM, "1.5"⟩, ⟨9, 10, Tok.RPAR, ")"⟩, ⟨10, 10, Tok.END, ""⟩]⟩, 6⟩) := by
  rw [compLoopF]
  simp only [tk_b_27, pPeek, pScan, pRewind, scanRewind, peekIn, tokMem, exceptBind_ok, exceptBind_error, exceptMap_ok, exceptMap_error, exceptPure, Option.some.injEq, reduceIte, reduceDIte, reduceCtorEq, Nat.reduceAdd, Nat.reduceSub, Nat.reduceEqDiff, decide_True, decide_False, decide_eq_true_eq, ne_eq, not_false_eq_true, not_true_eq_false, List.cons_append, List.nil_append, List.append_nil, or_self, or_false, false_or, and_self, and_true, true_and, u_expr_chks, u_expr_rsts, expr_rsts, expr_slst_rsts, expr_lst_rsts, and_test_rsts, not_test_rsts, comparison_rsts, comparison_chks, a_expr_rsts, a_expr_chks, m_expr_rsts, m_expr_chks, atom_rsts, atom_rsts_post, argspec_rsts, argspec_item_rsts, argspec_item_rsts_post, ne_eq]

/-- Parser step for input "(12px/1.5)". -/
theorem ps_b_27 : comparisonF 94 ⟨⟨['(', '1', '2', 'p', 'x', '/', '1', '.', '5', ')'], 1, [⟨0, 1, Tok.LPAR, "("⟩]⟩, 0⟩ = .ok ((.Parentheses (.BinaryOp .div (.Literal (.Number ⟨12, 1⟩ ["px"] [])) (.Literal (.Number ⟨3, 2⟩ [] [])))), ⟨⟨['(', '1', '2', 'p', 'x', '/', '1', '.', '5', ')'], 10, [⟨0, 1, Tok.LPAR, "("⟩, ⟨1, 3, Tok.NUM, "12"⟩, ⟨3, 5, Tok.UNITS, "px"⟩, ⟨5, 6, Tok.DIV, "/"⟩, ⟨6, 9, Tok.NUM, "1.5"⟩, ⟨9, 10, Tok.RPAR, ")"⟩, ⟨10, 10, Tok.END, ""⟩]⟩, 6⟩) := by
  rw [comparisonF, ps_b_25]
  rw [exceptBind_ok]
  simp only [ps_b_26, pPeek, pScan, pRewind, scanRewind, peekIn, tokMem, exceptBind_ok, exceptBind_error, exceptMap_ok, exceptMap_error, exceptPure, Option.some.injEq, reduceIte, reduceDIte, reduceCtorEq, Nat.reduceAdd, Nat.reduceSub, Nat.reduceEqDiff, decide_True, decide_False, decide_eq_true_eq, ne_eq, not_false_eq_true, not_true_eq_false, List.cons_append, List.nil_append, List.append_nil, or_self, or_false, false_or, and_self, and_true, true_and, u_expr_chks, u_expr_rsts, expr_rsts, expr_slst_rsts, expr_lst_rsts, and_test_rsts, not_test_rsts, comparison_rsts, comparison_chks, a_expr_rsts, a_expr_chks, m_expr_rsts, m_expr_chks, atom_rsts, atom_rsts_post, argspec_rsts, argspec_item_rsts, argspec_item_rsts_post, ne_eq]

/-- Parser step for input "(12px/1.5)". -/
theorem ps_b_28 : notTestF 95 ⟨⟨['(', '1', '2', 'p', 'x', '/', '1', '.', '5', ')'], 0, []⟩, 0⟩ = .ok ((.Parentheses (.BinaryOp .div (.Literal (.Number ⟨12, 1⟩ ["px"] [])) (.Literal (.Number ⟨3, 2⟩ [] [])))), ⟨⟨['(', '1', '2', 'p', 'x', '/', '1', '.', '5', ')'], 10, [⟨0, 1, Tok.LPAR, "("⟩, ⟨1, 3, Tok.NUM, "12"⟩, ⟨3, 5, Tok.UNITS, "px"⟩, ⟨5, 6, Tok.DIV, "/"⟩, ⟨6, 9, Tok.NUM, "1.5"⟩, ⟨9, 10, Tok.RPAR, ")"⟩, ⟨10, 10, Tok.END, ""⟩]⟩, 6⟩) := by
  rw [notTestF]
  simp only [ps_b_27, tk_b_0, pPeek, pScan, pRewind, scanRewind, peekIn, tokMem, exceptBind_ok, exceptBind_error, exceptMap_ok, exceptMap_error, exceptPure, Option.some.injEq, reduceIte, reduceDIte, reduceCtorEq, Nat.reduceAdd, Nat.reduceSub, Nat.reduceEqDiff, decide_True, decide_False, decide_eq_true_eq, ne_eq, not_false_eq_true, not_true_eq_false, List.cons_append, List.nil_append, List.append_nil, or_self, or_false, false_or, and_self, and_true, true_and, u_expr_chks, u_expr_rsts, expr_rsts, expr_slst_rsts, expr_lst_rsts, and_test_rsts, not_test_rsts, comparison_rsts, comparison_chks, a_expr_rsts, a_expr_chks, m_expr_rsts, m_expr_chks, atom_rsts, atom_rsts_post, argspec_rsts, argspec_item_rsts, argspec_item_rsts_post, ne_eq]

/-- Parser step for input "(12px/1.5)". -/
theorem ps_b_29 : andLoopF 95 (.Parentheses (.BinaryOp .div (.Literal (.Number ⟨12, 1⟩ ["px"] [])) (.Literal (.Number ⟨3, 2⟩ [] [])))) ⟨⟨['(', '1', '2', 'p', 'x', '/', '1', '.', '5', ')'], 10, [⟨0, 1, Tok.LPAR, "("⟩, ⟨1, 3, Tok.NUM, "12"⟩, ⟨3, 5, Tok.UNITS, "px"⟩, ⟨5, 6, Tok.DIV, "/"⟩, ⟨6, 9, Tok.NUM, "1.5"⟩, ⟨9, 10, Tok.RPAR, ")"⟩, ⟨10, 10, Tok.END, ""⟩]⟩, 6⟩ = .ok ((.Parentheses (.BinaryOp .div (.Literal (.Number ⟨12, 1⟩ ["px"] [])) (.Literal (.Number ⟨3, 2⟩ [] [])))), ⟨⟨['(', '1', '2', 'p', 'x', '/', '1', '.', '5', ')'], 10, [⟨0, 1, Tok.LPAR, "("⟩, ⟨1, 3, Tok.NUM, "12"⟩, ⟨3, 5, Tok.UNITS, "px"⟩, ⟨5, 6, Tok.DIV, "/"⟩, ⟨6, 9, Tok.NUM, "1.5"⟩, ⟨9, 10, Tok.RPAR, ")"⟩, ⟨10, 10, Tok.END, ""⟩]⟩, 6⟩) := by
  rw [andLoopF]
  simp only [tk_b_28, pPeek, pScan, pRewind, scanRewind, peekIn, tokMem, exceptBind_ok, exceptBind_error, exceptMap_ok, exceptMap_error, exceptPure, Option.some.injEq, reduceIte, reduceDIte, reduceCtorEq, Nat.reduceAdd, Nat.reduceSub, Nat.reduceEqDiff, decide_True, decide_False, decide_eq_true_eq, ne_eq, not_false_eq_true, not_true_eq_false, List.cons_append, List.nil_append, List.append_nil, or_self, or_false, false_or, and_self, and_true, true_and, u_expr_chks, u_expr_rsts, expr_rsts, expr_slst_rsts, expr_lst_rsts, and_test_rsts, not_test_rsts, comparison_rsts, comparison_chks, a_expr_rsts, a_expr_chks, m_expr_rsts, m_expr_chks, atom_rsts, atom_rsts_post, argspec_rsts, argspec_item_rsts, argspec_item_rsts_post, ne_eq]

/-- Parser step for input "(12px/1.5)". -/
theorem ps_b_30 : andTestF 96 ⟨⟨['(', '1', '2', 'p', 'x', '/', '1', '.', '5', ')'], 0, []⟩, 0⟩ = .ok ((.Parentheses (.BinaryOp .div (.Literal (.Number ⟨12, 1⟩ ["px"] [])) (.Literal (.Number ⟨3, 2⟩ [] [])))), ⟨⟨['(', '1', '2', 'p', 'x', '/', '1', '.', '5', ')'], 10, [⟨0, 1, Tok.LPAR, "("⟩, ⟨1, 3, Tok.NUM, "12"⟩, ⟨3, 5, Tok.UNITS, "px"⟩, ⟨5, 6, Tok.DIV, "/"⟩, ⟨6, 9, Tok.NUM, "1.5"⟩, ⟨9, 10, Tok.RPAR, ")"⟩, ⟨10, 10, Tok.END, ""⟩]⟩, 6⟩) := by
  rw [andTestF, ps_b_28]
  rw [exceptBind_ok]
  simp only [ps_b_29, pPeek, pScan, pRewind, scanRewind, peekIn, tokMem, exceptBind_ok, exceptBind_error, exceptMap_ok, exceptMap_error, exceptPure, Option.some.injEq, reduceIte, reduceDIte, reduceCtorEq, Nat.reduceAdd, Nat.reduceSub, Nat.reduceEqDiff, decide_True, decide_False, decide_eq_true_eq, ne_eq, not_false_eq_true, not_true_eq_false, List.cons_append, List.nil_append, List.append_nil, or_self, or_false, false_or, and_self, and_true, true_and, u_expr_chks, u_expr_rsts, expr_rsts, expr_slst_rsts, expr_lst_rsts, and_test_rsts, not_test_rsts, comparison_rsts, comparison_chks, a_expr_rsts, a_expr_chks, m_expr_rsts, m_expr_chks, atom_rsts, atom_rsts_post, argspec_rsts, argspec_item_rsts, argspec_item_rsts_post, ne_eq]

/-- Parser step for input "(12px/1.5)". -/
theorem ps_b_31 : exprLoopF 96 (.Parentheses (.BinaryOp .div (.Literal (.Number ⟨12, 1⟩ ["px"] [])) (.Literal (.Number ⟨3, 2⟩ [] [])))) ⟨⟨['(', '1', '2', 'p', 'x', '/', '1', '.', '5', ')'], 10, [⟨0, 1, Tok.LPAR, "("⟩, ⟨1, 3, Tok.NUM, "12"⟩, ⟨3, 5, Tok.UNITS, "px"⟩, ⟨5, 6, Tok.DIV, "/"⟩, ⟨6, 9, Tok.NUM, "1.5"⟩, ⟨9, 10, Tok.RPAR, ")"⟩, ⟨10, 10, Tok.END, ""⟩]⟩, 6⟩ = .ok ((.Parentheses (.BinaryOp .div (.Literal (.Number ⟨12, 1⟩ ["px"] [])) (.Literal (.Number ⟨3, 2⟩ [] [])))), ⟨⟨['(', '1', '2', 'p', 'x', '/', '1', '.', '5', ')'], 10, [⟨0, 1, Tok.LPAR, "("⟩, ⟨1, 3, Tok.NUM, "12"⟩, ⟨3, 5, Tok.UNITS, "px"⟩, ⟨5, 6, Tok.DIV, "/"⟩, ⟨6, 9, Tok.NUM, "1.5"⟩, ⟨9, 10, Tok.RPAR, ")"⟩, ⟨10, 10, Tok.END, ""⟩]⟩, 6⟩) := by
  rw [exprLoopF]
  simp only [tk_b_29, pPeek, pScan, pRewind, scanRewind, peekIn, tokMem, exceptBind_ok, exceptBind_error, exceptMap_ok, exceptMap_error, exceptPure, Option.some.injEq, reduceIte, reduceDIte, reduceCtorEq, Nat.reduceAdd, Nat.reduceSub, Nat.reduceEqDiff, decide_True, decide_False, decide_eq_true_eq, ne_eq, not_false_eq_true, not_true_eq_false, List.cons_append, List.nil_append, List.append_nil, or_self, or_false, false_or, and_self, and_true, true_and, u_expr_chks, u_expr_rsts, expr_rsts, expr_slst_rsts, expr_lst_rsts, and_test_rsts, not_test_rsts, comparison_rsts, comparison_chks, a_expr_rsts, a_expr_chks, m_expr_rsts, m_expr_chks, atom_rsts, atom_rsts_post, argspec_rsts, argspec_item_rsts, argspec_item_rsts_post, ne_eq]

/-- Parser step for input "(12px/1.5)". -/
theorem ps_b_32 : exprF 97 ⟨⟨['(', '1', '2', 'p', 'x', '/', '1', '.', '5', ')'], 0, []⟩, 0⟩ = .ok ((.Parentheses (.BinaryOp .div (.Literal (.Number ⟨12, 1⟩ ["px"] [])) (.Literal (.Number ⟨3, 2⟩ [] [])))), ⟨⟨['(', '1', '2', 'p', 'x', '/', '1', '.', '5', ')'], 10, [⟨0, 1, Tok.LPAR, "("⟩, ⟨1, 3, Tok.NUM, "12"⟩, ⟨3, 5, Tok.UNITS, "px"⟩, ⟨5, 6, Tok.DIV, "/"⟩, ⟨6, 9, Tok.NUM, "1.5"⟩, ⟨9, 10, Tok.RPAR, ")"⟩, ⟨10, 10, Tok.END, ""⟩]⟩, 6⟩) := by
  rw [exprF, ps_b_30]
  rw [exceptBind_ok]
  simp only [ps_b_31, pPeek, pScan, pRewind, scanRewind, peekIn, tokMem, exceptBind_ok, exceptBind_error, exceptMap_ok, exceptMap_error, exceptPure, Option.some.injEq, reduceIte, reduceDIte, reduceCtorEq, Nat.reduceAdd, Nat.reduceSub, Nat.reduceEqDiff, decide_True, decide_False, decide_eq_true_eq, ne_eq, not_false_eq_true, not_true_eq_false, List.cons_append, List.nil_append, List.append_nil, or_self, or_false, false_or, and_self, and_true, true_and, u_expr_chks, u_expr_rsts, expr_rsts, expr_slst_rsts, expr_lst_rsts, and_test_rsts, not_test_rsts, comparison_rsts, comparison_chks, a_expr_rsts, a_expr_chks, m_expr_rsts, m_expr_chks, atom_rsts, atom_rsts_post, argspec_rsts, argspec_item_rsts, argspec_item_rsts_post, ne_eq]

/-- Parser step for input "(12px/1.5)". -/
theorem ps_b_33 : exprSlstLoopF 97 [(.Parentheses (.BinaryOp .div (.Literal (.Number ⟨12, 1⟩ ["px"] [])) (.Literal (.Number ⟨3, 2⟩ [] []))))] ⟨⟨['(', '1', '2', 'p', 'x', '/', '1', '.', '5', ')'], 10, [⟨0, 1, Tok.LPAR, "("⟩, ⟨1, 3, Tok.NUM, "12"⟩, ⟨3, 5, Tok.UNITS, "px"⟩, ⟨5, 6, Tok.DIV, "/"⟩, ⟨6, 9, Tok.NUM, "1.5"⟩, ⟨9, 10, Tok.RPAR, ")"⟩, ⟨10, 10, Tok.END, ""⟩]⟩, 6⟩ = .ok ((.Parentheses (.BinaryOp .div (.Literal (.Number ⟨12, 1⟩ ["px"] [])) (.Literal (.Number ⟨3, 2⟩ [] [])))), ⟨⟨['(', '1', '2', 'p', 'x', '/', '1', '.', '5', ')'], 10, [⟨0, 1, Tok.LPAR, "("⟩, ⟨1, 3, Tok.NUM, "12"⟩, ⟨3, 5, Tok.UNITS, "px"⟩, ⟨5, 6, Tok.DIV, "/"⟩, ⟨6, 9, Tok.NUM, "1.5"⟩, ⟨9, 10, Tok.RPAR, ")"⟩, ⟨10, 10, Tok.END, ""⟩]⟩, 6⟩) := by
  rw [exprSlstLoopF]
  simp only [tk_b_30, pPeek, pScan, pRewind, scanRewind, peekIn, tokMem, exceptBind_ok, exceptBind_error, exceptMap_ok, exceptMap_error, exceptPure, Option.some.injEq, reduceIte, reduceDIte, reduceCtorEq, Nat.reduceAdd, Nat.reduceSub, Nat.reduceEqDiff, decide_True, decide_False, decide_eq_true_eq, ne_eq, not_false_eq_true, not_true_eq_false, List.cons_append, List.nil_append, List.append_nil, or_self, or_false, false_or, and_self, and_true, true_and, u_expr_chks, u_expr_rsts, expr_rsts, expr_slst_rsts, expr_lst_rsts, and_test_rsts, not_test_rsts, comparison_rsts, comparison_chks, a_expr_rsts, a_expr_chks, m_expr_rsts, m_expr_chks, atom_rsts, atom_rsts_post, argspec_rsts, argspec_item_rsts, argspec_item_rsts_post, ne_eq]

/-- Parser step for input "(12px/1.5)". -/
theorem ps_b_34 : exprSlstF 98 ⟨⟨['(', '1', '2', 'p', 'x', '/', '1', '.', '5', ')'], 0, []⟩, 0⟩ = .ok ((.Parentheses (.BinaryOp .div (.Literal (.Number ⟨12, 1⟩ ["px"] [])) (.Literal (.Number ⟨3, 2⟩ [] [])))), ⟨⟨['(', '1', '2', 'p', 'x', '/', '1', '.', '5', ')'], 10, [⟨0, 1, Tok.LPAR, "("⟩, ⟨1, 3, Tok.NUM, "12"⟩, ⟨3, 5, Tok.UNITS, "px"⟩, ⟨5, 6, Tok.DIV, "/"⟩, ⟨6, 9, Tok.NUM, "1.5"⟩, ⟨9, 10, Tok.RPAR, ")"⟩, ⟨10, 10, Tok.END, ""⟩]⟩, 6⟩) := by
  rw [exprSlstF, ps_b_32]
  rw [exceptBind_ok]
  simp only [ps_b_33, pPeek, pScan, pRewind, scanRewind, peekIn, tokMem, exceptBind_ok, exceptBind_error, exceptMap_ok, exceptMap_error, exceptPure, Option.some.injEq, reduceIte, reduceDIte, reduceCtorEq, Nat.reduceAdd, Nat.reduceSub, Nat.reduceEqDiff, decide_True, decide_False, decide_eq_true_eq, ne_eq, not_false_eq_true, not_true_eq_false, List.cons_append, List.nil_append, List.append_nil, or_self, or_false, false_or, and_self, and_true, true_and, u_expr_chks, u_expr_rsts, expr_rsts, expr_slst_rsts, expr_lst_rsts, and_test_rsts, not_test_rsts, comparison_rsts, comparison_chks, a_expr_rsts, a_expr_chks, m_expr_rsts, m_expr_chks, atom_rsts, atom_rsts_post, argspec_rsts, argspec_item_rsts, argspec_item_rsts_post, ne_eq]

/-- Parser step for input "(12px/1.5)". -/
theorem ps_b_35 : exprLstLoopF 98 [(.Parentheses (.BinaryOp .div (.Literal (.Number ⟨12, 1⟩ ["px"] [])) (.Literal (.Number ⟨3, 2⟩ [] []))))] ⟨⟨['(', '1', '2', 'p', 'x', '/', '1', '.', '5', ')'], 10, [⟨0, 1, Tok.LPAR, "("⟩, ⟨1, 3, Tok.NUM, "12"⟩, ⟨3, 5, Tok.UNITS, "px"⟩, ⟨5, 6, Tok.DIV, "/"⟩, ⟨6, 9, Tok.NUM, "1.5"⟩, ⟨9, 10, Tok.RPAR, ")"⟩, ⟨10, 10, Tok.END, ""⟩]⟩, 6⟩ = .ok ((.Parentheses (.BinaryOp .div (.Literal (.Number ⟨12, 1⟩ ["px"] [])) (.Literal (.Number ⟨3, 2⟩ [] [])))), ⟨⟨['(', '1', '2', 'p', 'x', '/', '1', '.', '5', ')'], 10, [⟨0, 1, Tok.LPAR, "("⟩, ⟨1, 3, Tok.NUM, "12"⟩, ⟨3, 5, Tok.UNITS, "px"⟩, ⟨5, 6, Tok.DIV, "/"⟩, ⟨6, 9, Tok.NUM, "1.5"⟩, ⟨9, 10, Tok.RPAR, ")"⟩, ⟨10, 10, Tok.END, ""⟩]⟩, 6⟩) := by
  rw [exprLstLoopF]
  simp only [tk_b_31, pPeek, pScan, pRewind, scanRewind, peekIn, tokMem, exceptBind_ok, exceptBind_error, exceptMap_ok, exceptMap_error, exceptPure, Option.some.injEq, reduceIte, reduceDIte, reduceCtorEq, Nat.reduceAdd, Nat.reduceSub, Nat.reduceEqDiff, decide_True, decide_False, decide_eq_true_eq, ne_eq, not_false_eq_true, not_true_eq_false, List.cons_append, List.nil_append, List.append_nil, or_self, or_false, false_or, and_self, and_true, true_and, u_expr_chks, u_expr_rsts, expr_rsts, expr_slst_rsts, expr_lst_rsts, and_test_rsts, not_test_rsts, comparison_rsts, comparison_chks, a_expr_rsts, a_expr_chks, m_expr_rsts, m_expr_chks, atom_rsts, atom_rsts_post, argspec_rsts, argspec_item_rsts, argspec_item_rsts_post, ne_eq]

/-- Parser step for input "(12px/1.5)". -/
theorem ps_b_36 : exprLstF 99 ⟨⟨['(', '1', '2', 'p', 'x', '/', '1', '.', '5', ')'], 0, []⟩, 0⟩ = .ok ((.Parentheses (.BinaryOp .div (.Literal (.Number ⟨12, 1⟩ ["px"] [])) (.Literal (.Number ⟨3, 2⟩ [] [])))), ⟨⟨['(', '1', '2', 'p', 'x', '/', '1', '.', '5', ')'], 10, [⟨0, 1, Tok.LPAR, "("⟩, ⟨1, 3, Tok.NUM, "12"⟩, ⟨3, 5, Tok.UNITS, "px"⟩, ⟨5, 6, Tok.DIV, "/"⟩, ⟨6, 9, Tok.NUM, "1.5"⟩, ⟨9, 10, Tok.RPAR, ")"⟩, ⟨10, 10, Tok.END, ""⟩]⟩, 6⟩) := by
  rw [exprLstF, ps_b_34]
  rw [exceptBind_ok]
  simp only [ps_b_35, pPeek, pScan, pRewind, scanRewind, peekIn, tokMem, exceptBind_ok, exceptBind_error, exceptMap_ok, exceptMap_error, exceptPure, Option.some.injEq, reduceIte, reduceDIte, reduceCtorEq, Nat.reduceAdd, Nat.reduceSub, Nat.reduceEqDiff, decide_True, decide_False, decide_eq_true_eq, ne_eq, not_false_eq_true, not_true_eq_false, List.cons_append, List.nil_append, List.append_nil, or_self, or_false, false_or, and_self, and_true, true_and, u_expr_chks, u_expr_rsts, expr_rsts, expr_slst_rsts, expr_lst_rsts, and_test_rsts, not_test_rsts, comparison_rsts, comparison_chks, a_expr_rsts, a_expr_chks, m_expr_rsts, m_expr_chks, atom_rsts, atom_rsts_post, argspec_rsts, argspec_item_rsts, argspec_item_rsts_post, ne_eq]

/-- Parser step for input "(12px/1.5)". -/
theorem ps_b_37 : goalF 100 ⟨⟨['(', '1', '2', 'p', 'x', '/', '1', '.', '5', ')'], 0, []⟩, 0⟩ = .ok ((.Parentheses (.BinaryOp .div (.Literal (.Number ⟨12, 1⟩ ["px"] [])) (.Literal (.Number ⟨3, 2⟩ [] [])))), ⟨⟨['(', '1', '2', 'p', 'x', '/', '1', '.', '5', ')'], 10, [⟨0, 1, Tok.LPAR, "("⟩, ⟨1, 3, Tok.NUM, "12"⟩, ⟨3, 5, Tok.UNITS, "px"⟩, ⟨5, 6, Tok.DIV, "/"⟩, ⟨6, 9, Tok.NUM, "1.5"⟩, ⟨9, 10, Tok.RPAR, ")"⟩, ⟨10, 10, Tok.END, ""⟩]⟩, 7⟩) := by
  rw [goalF, ps_b_36]
  rw [exceptBind_ok]
  simp only [tk_b_32, pPeek, pScan, pRewind, scanRewind, peekIn, tokMem, exceptBind_ok, exceptBind_error, exceptMap_ok, exceptMap_error, exceptPure, Option.some.injEq, reduceIte, reduceDIte, reduceCtorEq, Nat.reduceAdd, Nat.reduceSub, Nat.reduceEqDiff, decide_True, decide_False, decide_eq_true_eq, ne_eq, not_false_eq_true, not_true_eq_false, List.cons_append, List.nil_append, List.append_nil, or_self, or_false, false_or, and_self, and_true, true_and, u_expr_chks, u_expr_rsts, expr_rsts, expr_slst_rsts, expr_lst_rsts, and_test_rsts, not_test_rsts, comparison_rsts, comparison_chks, a_expr_rsts, a_expr_chks, m_expr_rsts, m_expr_chks, atom_rsts, atom_rsts_post, argspec_rsts, argspec_item_rsts, argspec_item_rsts_post, ne_eq]

/-- Parse of the source text "(12px/1.5)". -/
theorem parse_b : parseExpr 100 "(12px/1.5)" = .ok (.Parentheses (.BinaryOp .div (.Literal (.Number ⟨12, 1⟩ ["px"] [])) (.Literal (.Number ⟨3, 2⟩ [] [])))) := by
  simp only [parseExpr, pReset, scanReset, sdata4, ps_b_37, exceptMap_ok]
/-- Scanner fact for input "1 + 12px/1.5". -/
theorem tk_c_0 : tokenAt ⟨['1', ' ', '+', ' ', '1', '2', 'p', 'x', '/', '1', '.', '5'], 0, []⟩ 0 [Tok.LPAR, Tok.COLOR, Tok.QSTR, Tok.SIGN, Tok.VAR, Tok.ADD, Tok.NUM, Tok.FNCT, Tok.STR, Tok.NOT, Tok.ID] = .ok (⟨0, 1, Tok.NUM, "1"⟩, ⟨['1', ' ', '+', ' ', '1', '2', 'p', 'x', '/', '1', '.', '5'], 1, [⟨0, 1, Tok.NUM, "1"⟩]⟩) := rfl

/-- Scanner fact for input "1 + 12px/1.5". -/
theorem tk_c_1 : tokenAt ⟨['1', ' ', '+', ' ', '1', '2', 'p', 'x', '/', '1', '.', '5'], 1, [⟨0, 1, Tok.NUM, "1"⟩]⟩ 0 [Tok.LPAR, Tok.COLOR, Tok.QSTR, Tok.SIGN, Tok.ADD, Tok.NUM, Tok.FNCT, Tok.STR, Tok.VAR, Tok.ID] = .ok (⟨0, 1, Tok.NUM, "1"⟩, ⟨['1', ' ', '+', ' ', '1', '2', 'p', 'x', '/', '1', '.', '5'], 1, [⟨0, 1, Tok.NUM, "1"⟩]⟩) := rfl

/-- Scanner fact for input "1 + 12px/1.5". -/
theorem tk_c_2 : tokenAt ⟨['1', ' ', '+', ' ', '1', '2', 'p', 'x', '/', '1', '.', '5'], 1, [⟨0, 1, Tok.NUM, "1"⟩]⟩ 0 [Tok.LPAR, Tok.COLOR, Tok.QSTR, Tok.NUM, Tok.FNCT, Tok.STR, Tok.VAR, Tok.ID] = .ok (⟨0, 1, Tok.NUM, "1"⟩, ⟨['1', ' ', '+', ' ', '1', '2', 'p', 'x', '/', '1', '.', '5'], 1, [⟨0, 1, Tok.NUM, "1"⟩]⟩) := rfl

/-- Scanner fact for input "1 + 12px/1.5". -/
theorem tk_c_3 : tokenAt ⟨['1', ' ', '+', ' ', '1', '2', 'p', 'x', '/', '1', '.', '5'], 1, [⟨0, 1, Tok.NUM, "1"⟩]⟩ 0 [Tok.NUM] = .ok (⟨0, 1, Tok.NUM, "1"⟩, ⟨['1', ' ', '+', ' ', '1', '2', 'p', 'x', '/', '1', '.', '5'], 1, [⟨0, 1, Tok.NUM, "1"⟩]⟩) := rfl

/-- Scanner fact for input "1 + 12px/1.5". -/
theorem tk_c_4 : tokenAt ⟨['1', ' ', '+', ' ', '1', '2', 'p', 'x', '/', '1', '.', '5'], 1, [⟨0, 1, Tok.NUM, "1"⟩]⟩ 1 [Tok.LPAR, Tok.SUB, Tok.QSTR, Tok.RPAR, Tok.VAR, Tok.MUL, Tok.DIV, Tok.LE, Tok.COLOR, Tok.NE, Tok.LT, Tok.NUM, Tok.COMMA, Tok.GT, Tok.END, Tok.SIGN, Tok.GE, Tok.FNCT, Tok.STR, Tok.UNITS, Tok.EQ, Tok.ID, Tok.AND, Tok.ADD, Tok.NOT, Tok.OR] = .ok (⟨2, 3, Tok.ADD, "+"⟩, ⟨['1', ' ', '+', ' ', '1', '2', 'p', 'x', '/', '1', '.', '5'], 3, [⟨0, 1, Tok.NUM, "1"⟩, ⟨2, 3, Tok.ADD, "+"⟩]⟩) := rfl

/-- Scanner fact for input "1 + 12px/1.5". -/
theorem tk_c_5 : tokenAt ⟨['1', ' ', '+', ' ', '1', '2', 'p', 'x', '/', '1', '.', '5'], 3, [⟨0, 1, Tok.NUM, "1"⟩, ⟨2, 3, Tok.ADD, "+"⟩]⟩ 1 [Tok.LPAR, Tok.SUB, Tok.QSTR, Tok.RPAR, Tok.MUL, Tok.DIV, Tok.LE, Tok.COLOR, Tok.NE, Tok.LT, Tok.NUM, Tok.COMMA, Tok.GT, Tok.END, Tok.SIGN, Tok.GE, Tok.FNCT, Tok.STR, Tok.VAR, Tok.EQ, Tok.ID, Tok.AND, Tok.ADD, Tok.NOT, Tok.OR] = .ok (⟨2, 3, Tok.ADD, "+"⟩, ⟨['1', ' ', '+', ' ', '1', '2', 'p', 'x', '/', '1', '.', '5'], 3, [⟨0, 1, Tok.NUM, "1"⟩, ⟨2, 3, Tok.ADD, "+"⟩]⟩) := rfl

/-- Scanner fact for input "1 + 12px/1.5". -/
theorem tk_c_6 : tokenAt ⟨['1', ' ', '+', ' ', '1', '2', 'p', 'x', '/', '1', '.', '5'], 3, [⟨0, 1, Tok.NUM, "1"⟩, ⟨2, 3, Tok.ADD, "+"⟩]⟩ 1 [Tok.LPAR, Tok.SUB, Tok.QSTR, Tok.RPAR, Tok.LE, Tok.COLOR, Tok.NE, Tok.LT, Tok.NUM, Tok.COMMA, Tok.GT, Tok.END, Tok.SIGN, Tok.GE, Tok.FNCT, Tok.STR, Tok.VAR, Tok.EQ, Tok.ID, Tok.AND, Tok.ADD, Tok.NOT, Tok.OR] = .ok (⟨2, 3, Tok.ADD, "+"⟩, ⟨['1', ' ', '+', ' ', '1', '2', 'p', 'x', '/', '1', '.', '5'], 3, [⟨0, 1, Tok.NUM, "1"⟩, ⟨2, 3, Tok.ADD, "+"⟩]⟩) := rfl

/-- Scanner fact for input "1 + 12px/1.5". -/
theorem tk_c_7 : tokenAt ⟨['1', ' ', '+', ' ', '1', '2', 'p', 'x', '/', '1', '.', '5'], 3, [⟨0, 1, Tok.NUM, "1"⟩, ⟨2, 3, Tok.ADD, "+"⟩]⟩ 1 [Tok.ADD, Tok.SUB] = .ok (⟨2, 3, Tok.ADD, "+"⟩, ⟨['1', ' ', '+', ' ', '1', '2', 'p', 'x', '/', '1', '.', '5'], 3, [⟨0, 1, Tok.NUM, "1"⟩, ⟨2, 3, Tok.ADD, "+"⟩]⟩) := rfl

/-- Scanner fact for input "1 + 12px/1.5". -/
theorem tk_c_8 : tokenAt ⟨['1', ' ', '+', ' ', '1', '2', 'p', 'x', '/', '1', '.', '5'], 3, [⟨0, 1, Tok.NUM, "1"⟩, ⟨2, 3, Tok.ADD, "+"⟩]⟩ 1 [Tok.ADD] = .ok (⟨2, 3, Tok.ADD, "+"⟩, ⟨['1', ' ', '+', ' ', '1', '2', 'p', 'x', '/', '1', '.', '5'], 3, [⟨0, 1, Tok.NUM, "1"⟩, ⟨2, 3, Tok.ADD, "+"⟩]⟩) := rfl

/-- Scanner fact for input "1 + 12px/1.5". -/
theorem tk_c_9 : tokenAt ⟨['1', ' ', '+', ' ', '1', '2', 'p', 'x', '/', '1', '.', '5'], 3, [⟨0, 1, Tok.NUM, "1"⟩, ⟨2, 3, Tok.ADD, "+"⟩]⟩ 2 [Tok.LPAR, Tok.COLOR, Tok.QSTR, Tok.SIGN, Tok.ADD, Tok.NUM, Tok.FNCT, Tok.STR, Tok.VAR, Tok.ID] = .ok (⟨4, 6, Tok.NUM, "12"⟩, ⟨['1', ' ', '+', ' ', '1', '2', 'p', 'x', '/', '1', '.', '5'], 6, [⟨0, 1, Tok.NUM, "1"⟩, ⟨2, 3, Tok.ADD, "+"⟩, ⟨4, 6, Tok.NUM, "12"⟩]⟩) := rfl

/-- Scanner fact for input "1 + 12px/1.5". -/
theorem tk_c_10 : tokenAt ⟨['1', ' ', '+', ' ', '1', '2', 'p', 'x', '/', '1', '.', '5'], 6, [⟨0, 1, Tok.NUM, "1"⟩, ⟨2, 3, Tok.ADD, "+"⟩, ⟨4, 6, Tok.NUM, "12"⟩]⟩ 2 [Tok.LPAR, Tok.COLOR, Tok.QSTR, Tok.NUM, Tok.FNCT, Tok.STR, Tok.VAR, Tok.ID] = .ok (⟨4, 6, Tok.NUM, "12"⟩, ⟨['1', ' ', '+', ' ', '1', '2', 'p', 'x', '/', '1', '.', '5'], 6, [⟨0, 1, Tok.NUM, "1"⟩, ⟨2, 3, Tok.ADD, "+"⟩, ⟨4, 6, Tok.NUM, "12"⟩]⟩) := rfl

/-- Scanner fact for input "1 + 12px/1.5". -/
theorem tk_c_11 : tokenAt ⟨['1', ' ', '+', ' ', '1', '2', 'p', 'x', '/', '1', '.', '5'], 6, [⟨0, 1, Tok.NUM, "1"⟩, ⟨2, 3, Tok.ADD, "+"⟩, ⟨4, 6, Tok.NUM, "12"⟩]⟩ 2 [Tok.NUM] = .ok (⟨4, 6, Tok.NUM, "12"⟩, ⟨['1', ' ', '+', ' ', '1', '2', 'p', 'x', '/', '1', '.', '5'], 6, [⟨0, 1, Tok.NUM, "1"⟩, ⟨2, 3, Tok.ADD, "+"⟩, ⟨4, 6, Tok.NUM, "12"⟩]⟩) := rfl

/-- Scanner fact for input "1 + 12px/1.5". -/
theorem tk_c_12 : tokenAt ⟨['1', ' ', '+', ' ', '1', '2', 'p', 'x', '/', '1', '.', '5'], 6, [⟨0, 1, Tok.NUM, "1"⟩, ⟨2, 3, Tok.ADD, "+"⟩, ⟨4, 6, Tok.NUM, "12"⟩]⟩ 3 [Tok.LPAR, Tok.SUB, Tok.QSTR, Tok.RPAR, Tok.VAR, Tok.MUL, Tok.DIV, Tok.LE, Tok.COLOR, Tok.NE, Tok.LT, Tok.NUM, Tok.COMMA, Tok.GT, Tok.END, Tok.SIGN, Tok.GE, Tok.FNCT, Tok.STR, Tok.UNITS, Tok.EQ, Tok.ID, Tok.AND, Tok.ADD, Tok.NOT, Tok.OR] = .ok (⟨6, 8, Tok.UNITS, "px"⟩, ⟨['1', ' ', '+', ' ', '1', '2', 'p', 'x', '/', '1', '.', '5'], 8, [⟨0, 1, Tok.NUM, "1"⟩, ⟨2, 3, Tok.ADD, "+"⟩, ⟨4, 6, Tok.NUM, "12"⟩, ⟨6, 8, Tok.UNITS, "px"⟩]⟩) := rfl

/-- Scanner fact for input "1 + 12px/1.5". -/
theorem tk_c_13 : tokenAt ⟨['1', ' ', '+', ' ', '1', '2', 'p', 'x', '/', '1', '.', '5'], 8, [⟨0, 1, Tok.NUM, "1"⟩, ⟨2, 3, Tok.ADD, "+"⟩, ⟨4, 6, Tok.NUM, "12"⟩, ⟨6, 8, Tok.UNITS, "px"⟩]⟩ 3 [Tok.UNITS] = .ok (⟨6, 8, Tok.UNITS, "px"⟩, ⟨['1', ' ', '+', ' ', '1', '2', 'p', 'x', '/', '1', '.', '5'], 8, [⟨0, 1, Tok.NUM, "1"⟩, ⟨2, 3, Tok.ADD, "+"⟩, ⟨4, 6, Tok.NUM, "12"⟩, ⟨6, 8, Tok.UNITS, "px"⟩]⟩) := rfl

/-- Scanner fact for input "1 + 12px/1.5". -/
theorem tk_c_14 : tokenAt ⟨['1', ' ', '+', ' ', '1', '2', 'p', 'x', '/', '1', '.', '5'], 8, [⟨0, 1, Tok.NUM, "1"⟩, ⟨2, 3, Tok.ADD, "+"⟩, ⟨4, 6, Tok.NUM, "12"⟩, ⟨6, 8, Tok.UNITS, "px"⟩]⟩ 4 [Tok.LPAR, Tok.SUB, Tok.QSTR, Tok.RPAR, Tok.MUL, Tok.DIV, Tok.LE, Tok.COLOR, Tok.NE, Tok.LT, Tok.NUM, Tok.COMMA, Tok.GT, Tok.END, Tok.SIGN, Tok.GE, Tok.FNCT, Tok.STR, Tok.VAR, Tok.EQ, Tok.ID, Tok.AND, Tok.ADD, Tok.NOT, Tok.OR] = .ok (⟨8, 9, Tok.DIV, "/"⟩, ⟨['1', ' ', '+', ' ', '1', '2', 'p', 'x', '/', '1', '.', '5'], 9, [⟨0, 1, Tok.NUM, "1"⟩, ⟨2, 3, Tok.ADD, "+"⟩, ⟨4, 6, Tok.NUM, "12"⟩, ⟨6, 8, Tok.UNITS, "px"⟩, ⟨8, 9, Tok.DIV, "/"⟩]⟩) := rfl

/-- Scanner fact for input "1 + 12px/1.5". -/
theorem tk_c_15 : tokenAt ⟨['1', ' ', '+', ' ', '1', '2', 'p', 'x', '/', '1', '.', '5'], 9, [⟨0, 1, Tok.NUM, "1"⟩, ⟨2, 3, Tok.ADD, "+"⟩, ⟨4, 6, Tok.NUM, "12"⟩, ⟨6, 8, Tok.UNITS, "px"⟩, ⟨8, 9, Tok.DIV, "/"⟩]⟩ 4 [Tok.MUL, Tok.DIV] = .ok (⟨8, 9, Tok.DIV, "/"⟩, ⟨['1', ' ', '+', ' ', '1', '2', 'p', 'x', '/', '1', '.', '5'], 9, [⟨0, 1, Tok.NUM, "1"⟩, ⟨2, 3, Tok.ADD, "+"⟩, ⟨4, 6, Tok.NUM, "12"⟩, ⟨6, 8, Tok.UNITS, "px"⟩, ⟨8, 9, Tok.DIV, "/"⟩]⟩) := rfl

/-- Scanner fact for input "1 + 12px/1.5". -/
theorem tk_c_16 : tokenAt ⟨['1', ' ', '+', ' ', '1', '2', 'p', 'x', '/', '1', '.', '5'], 9, [⟨0, 1, Tok.NUM, "1"⟩, ⟨2, 3, Tok.ADD, "+"⟩, ⟨4, 6, Tok.NUM, "12"⟩, ⟨6, 8, Tok.UNITS, "px"⟩, ⟨8, 9, Tok.DIV, "/"⟩]⟩ 4 [Tok.DIV] = .ok (⟨8, 9, Tok.DIV, "/"⟩, ⟨['1', ' ', '+', ' ', '1', '2', 'p', 'x', '/', '1', '.', '5'], 9, [⟨0, 1, Tok.NUM, "1"⟩, ⟨2, 3, Tok.ADD, "+"⟩, ⟨4, 6, Tok.NUM, "12"⟩, ⟨6, 8, Tok.UNITS, "px"⟩, ⟨8, 9, Tok.DIV, "/"⟩]⟩) := rfl

/-- Scanner fact for input "1 + 12px/1.5". -/
theorem tk_c_17 : tokenAt ⟨['1', ' ', '+', ' ', '1', '2', 'p', 'x', '/', '1', '.', '5'], 9, [⟨0, 1, Tok.NUM, "1"⟩, ⟨2, 3, Tok.ADD, "+"⟩, ⟨4, 6, Tok.NUM, "12"⟩, ⟨6, 8, Tok.UNITS, "px"⟩, ⟨8, 9, Tok.DIV, "/"⟩]⟩ 5 [Tok.LPAR, Tok.COLOR, Tok.QSTR, Tok.SIGN, Tok.ADD, Tok.NUM, Tok.FNCT, Tok.STR, Tok.VAR, Tok.ID] = .ok (⟨9, 12, Tok.NUM, "1.5"⟩, ⟨['1', ' ', '+', ' ', '1', '2', 'p', 'x', '/', '1', '.', '5'], 12, [⟨0, 1, Tok.NUM, "1"⟩, ⟨2, 3, Tok.ADD, "+"⟩, ⟨4, 6, Tok.NUM, "12"⟩, ⟨6, 8, Tok.UNITS, "px"⟩, ⟨8, 9, Tok.DIV, "/"⟩, ⟨9, 12, Tok.NUM, "1.5"⟩]⟩) := rfl

/-- Scanner fact for input "1 + 12px/1.5". -/
theorem tk_c_18 : tokenAt ⟨['1', ' ', '+', ' ', '1', '2', 'p', 'x', '/', '1', '.', '5'], 12, [⟨0, 1, Tok.NUM, "1"⟩, ⟨2, 3, Tok.ADD, "+"⟩, ⟨4, 6, Tok.NUM, "12"⟩, ⟨6, 8, Tok.UNITS, "px"⟩, ⟨8, 9, Tok.DIV, "/"⟩, ⟨9, 12, Tok.NUM, "1.5"⟩]⟩ 5 [Tok.LPAR, Tok.COLOR, Tok.QSTR, Tok.NUM, Tok.FNCT, Tok.STR, Tok.VAR, Tok.ID] = .ok (⟨9, 12, Tok.NUM, "1.5"⟩, ⟨['1', ' ', '+', ' ', '1', '2', 'p', 'x', '/', '1', '.', '5'], 12, [⟨0, 1, Tok.NUM, "1"⟩, ⟨2, 3, Tok.ADD, "+"⟩, ⟨4, 6, Tok.NUM, "12"⟩, ⟨6, 8, Tok.UNITS, "px"⟩, ⟨8, 9, Tok.DIV, "/"⟩, ⟨9, 12, Tok.NUM, "1.5"⟩]⟩) := rfl

/-- Scanner fact for input "1 + 12px/1.5". -/
theorem tk_c_19 : tokenAt ⟨['1', ' ', '+', ' ', '1', '2', 'p', 'x', '/', '1', '.', '5'], 12, [⟨0, 1, Tok.NUM, "1"⟩, ⟨2, 3, Tok.ADD, "+"⟩, ⟨4, 6, Tok.NUM, "12"⟩, ⟨6, 8, Tok.UNITS, "px"⟩, ⟨8, 9, Tok.DIV, "/"⟩, ⟨9, 12, Tok.NUM, "1.5"⟩]⟩ 5 [Tok.NUM] = .ok (⟨9, 12, Tok.NUM, "1.5"⟩, ⟨['1', ' ', '+', ' ', '1', '2', 'p', 'x', '/', '1', '.', '5'], 12, [⟨0, 1, Tok.NUM, "1"⟩, ⟨2, 3, Tok.ADD, "+"⟩, ⟨4, 6, Tok.NUM, "12"⟩, ⟨6, 8, Tok.UNITS, "px"⟩, ⟨8, 9, Tok.DIV, "/"⟩, ⟨9, 12, Tok.NUM, "1.5"⟩]⟩) := rfl

/-- Scanner fact for input "1 + 12px/1.5". -/
theorem tk_c_20 : tokenAt ⟨['1', ' ', '+', ' ', '1', '2', 'p', 'x', '/', '1', '.', '5'], 12, [⟨0, 1, Tok.NUM, "1"⟩, ⟨2, 3, Tok.ADD, "+"⟩, ⟨4, 6, Tok.NUM, "12"⟩, ⟨6, 8, Tok.UNITS, "px"⟩, ⟨8, 9, Tok.DIV, "/"⟩, ⟨9, 12, Tok.NUM, "1.5"⟩]⟩ 6 [Tok.LPAR, Tok.SUB, Tok.QSTR, Tok.RPAR, Tok.VAR, Tok.MUL, Tok.DIV, Tok.LE, Tok.COLOR, Tok.NE, Tok.LT, Tok.NUM, Tok.COMMA, Tok.GT, Tok.END, Tok.SIGN, Tok.GE, Tok.FNCT, Tok.STR, Tok.UNITS, Tok.EQ, Tok.ID, Tok.AND, Tok.ADD, Tok.NOT, Tok.OR] = .ok (⟨12, 12, Tok.END, ""⟩, ⟨['1', ' ', '+', ' ', '1', '2', 'p', 'x', '/', '1', '.', '5'], 12, [⟨0, 1, Tok.NUM, "1"⟩, ⟨2, 3, Tok.ADD, "+"⟩, ⟨4, 6, Tok.NUM, "12"⟩, ⟨6, 8, Tok.UNITS, "px"⟩, ⟨8, 9, Tok.DIV, "/"⟩, ⟨9, 12, Tok.NUM, "1.5"⟩, ⟨12, 12, Tok.END, ""⟩]⟩) := rfl

/-- Scanner fact for input "1 + 12px/1.5". -/
theorem tk_c_21 : tokenAt ⟨['1', ' ', '+', ' ', '1', '2', 'p', 'x', '/', '1', '.', '5'], 12, [⟨0, 1, Tok.NUM, "1"⟩, ⟨2, 3, Tok.ADD, "+"⟩, ⟨4, 6, Tok.NUM, "12"⟩, ⟨6, 8, Tok.UNITS, "px"⟩, ⟨8, 9, Tok.DIV, "/"⟩, ⟨9, 12, Tok.NUM, "1.5"⟩, ⟨12, 12, Tok.END, ""⟩]⟩ 6 [Tok.LPAR, Tok.SUB, Tok.QSTR, Tok.RPAR, Tok.MUL, Tok.DIV, Tok.LE, Tok.COLOR, Tok.NE, Tok.LT, Tok.NUM, Tok.COMMA, Tok.GT, Tok.END, Tok.SIGN, Tok.GE, Tok.FNCT, Tok.STR, Tok.VAR, Tok.EQ, Tok.ID, Tok.AND, Tok.ADD, Tok.NOT, Tok.OR] = .ok (⟨12, 12, Tok.END, ""⟩, ⟨['1', ' ', '+', ' ', '1', '2', 'p', 'x', '/', '1', '.', '5'], 12, [⟨0, 1, Tok.NUM, "1"⟩, ⟨2, 3, Tok.ADD, "+"⟩, ⟨4, 6, Tok.NUM, "12"⟩, ⟨6, 8, Tok.UNITS, "px"⟩, ⟨8, 9, Tok.DIV, "/"⟩, ⟨9, 12, Tok.NUM, "1.5"⟩, ⟨12, 12, Tok.END, ""⟩]⟩) := rfl

/-- Scanner fact for input "1 + 12px/1.5". -/
theorem tk_c_22 : tokenAt ⟨['1', ' ', '+', ' ', '1', '2', 'p', 'x', '/', '1', '.', '5'], 12, [⟨0, 1, Tok.NUM, "1"⟩, ⟨2, 3, Tok.ADD, "+"⟩, ⟨4, 6, Tok.NUM, "12"⟩, ⟨6, 8, Tok.UNITS, "px"⟩, ⟨8, 9, Tok.DIV, "/"⟩, ⟨9, 12, Tok.NUM, "1.5"⟩, ⟨12, 12, Tok.END, ""⟩]⟩ 6 [Tok.LPAR, Tok.SUB, Tok.QSTR, Tok.RPAR, Tok.LE, Tok.COLOR, Tok.NE, Tok.LT, Tok.NUM, Tok.COMMA, Tok.GT, Tok.END, Tok.SIGN, Tok.GE, Tok.FNCT, Tok.STR, Tok.VAR, Tok.EQ, Tok.ID, Tok.AND, Tok.ADD, Tok.NOT, Tok.OR] = .ok (⟨12, 12, Tok.END, ""⟩, ⟨['1', ' ', '+', ' ', '1', '2', 'p', 'x', '/', '1', '.', '5'], 12, [⟨0, 1, Tok.NUM, "1"⟩, ⟨2, 3, Tok.ADD, "+"⟩, ⟨4, 6, Tok.NUM, "12"⟩, ⟨6, 8, Tok.UNITS, "px"⟩, ⟨8, 9, Tok.DIV, "/"⟩, ⟨9, 12, Tok.NUM, "1.5"⟩, ⟨12, 12, Tok.END, ""⟩]⟩) := rfl

/-- Scanner fact for input "1 + 12px/1.5". -/
theorem tk_c_23 : tokenAt ⟨['1', ' ', '+', ' ', '1', '2', 'p', 'x', '/', '1', '.', '5'], 12, [⟨0, 1, Tok.NUM, "1"⟩, ⟨2, 3, Tok.ADD, "+"⟩, ⟨4, 6, Tok.NUM, "12"⟩, ⟨6, 8, Tok.UNITS, "px"⟩, ⟨8, 9, Tok.DIV, "/"⟩, ⟨9, 12, Tok.NUM, "1.5"⟩, ⟨12, 12, Tok.END, ""⟩]⟩ 6 [Tok.LPAR, Tok.QSTR, Tok.RPAR, Tok.LE, Tok.COLOR, Tok.NE, Tok.LT, Tok.NUM, Tok.COMMA, Tok.GT, Tok.END, Tok.SIGN, Tok.ADD, Tok.FNCT, Tok.STR, Tok.VAR, Tok.EQ, Tok.ID, Tok.AND, Tok.GE, Tok.NOT, Tok.OR] = .ok (⟨12, 12, Tok.END, ""⟩, ⟨['1', ' ', '+', ' ', '1', '2', 'p', 'x', '/', '1', '.', '5'], 12, [⟨0, 1, Tok.NUM, "1"⟩, ⟨2, 3, Tok.ADD, "+"⟩, ⟨4, 6, Tok.NUM, "12"⟩, ⟨6, 8, Tok.UNITS, "px"⟩, ⟨8, 9, Tok.DIV, "/"⟩, ⟨9, 12, Tok.NUM, "1.5"⟩, ⟨12, 12, Tok.END, ""⟩]⟩) := rfl

/-- Scanner fact for input "1 + 12px/1.5". -/
theorem tk_c_24 : tokenAt ⟨['1', ' ', '+', ' ', '1', '2', 'p', 'x', '/', '1', '.', '5'], 12, [⟨0, 1, Tok.NUM, "1"⟩, ⟨2, 3, Tok.ADD, "+"⟩, ⟨4, 6, Tok.NUM, "12"⟩, ⟨6, 8, Tok.UNITS, "px"⟩, ⟨8, 9, Tok.DIV, "/"⟩, ⟨9, 12, Tok.NUM, "1.5"⟩, ⟨12, 12, Tok.END, ""⟩]⟩ 6 [Tok.AND, Tok.LPAR, Tok.END, Tok.COLOR, Tok.QSTR, Tok.SIGN, Tok.VAR, Tok.ADD, Tok.NUM, Tok.COMMA, Tok.FNCT, Tok.STR, Tok.NOT, Tok.ID, Tok.RPAR, Tok.OR] = .ok (⟨12, 12, Tok.END, ""⟩, ⟨['1', ' ', '+', ' ', '1', '2', 'p', 'x', '/', '1', '.', '5'], 12, [⟨0, 1, Tok.NUM, "1"⟩, ⟨2, 3, Tok.ADD, "+"⟩, ⟨4, 6, Tok.NUM, "12"⟩, ⟨6, 8, Tok.UNITS, "px"⟩, ⟨8, 9, Tok.DIV, "/"⟩, ⟨9, 12, Tok.NUM, "1.5"⟩, ⟨12, 12, Tok.END, ""⟩]⟩) := rfl

/-- Scanner fact for input "1 + 12px/1.5". -/
theorem tk_c_25 : tokenAt ⟨['1', ' ', '+', ' ', '1', '2', 'p', 'x', '/', '1', '.', '5'], 12, [⟨0, 1, Tok.NUM, "1"⟩, ⟨2, 3, Tok.ADD, "+"⟩, ⟨4, 6, Tok.NUM, "12"⟩, ⟨6, 8, Tok.UNITS, "px"⟩, ⟨8, 9, Tok.DIV, "/"⟩, ⟨9, 12, Tok.NUM, "1.5"⟩, ⟨12, 12, Tok.END, ""⟩]⟩ 6 [Tok.LPAR, Tok.END, Tok.COLOR, Tok.QSTR, Tok.RPAR, Tok.VAR, Tok.ADD, Tok.NUM, Tok.COMMA, Tok.FNCT, Tok.STR, Tok.NOT, Tok.ID, Tok.SIGN, Tok.OR] = .ok (⟨12, 12, Tok.END, ""⟩, ⟨['1', ' ', '+', ' ', '1', '2', 'p', 'x', '/', '1', '.', '5'], 12, [⟨0, 1, Tok.NUM, "1"⟩, ⟨2, 3, Tok.ADD, "+"⟩, ⟨4, 6, Tok.NUM, "12"⟩, ⟨6, 8, Tok.UNITS, "px"⟩, ⟨8, 9, Tok.DIV, "/"⟩, ⟨9, 12, Tok.NUM, "1.5"⟩, ⟨12, 12, Tok.END, ""⟩]⟩) := rfl

/-- Scanner fact for input "1 + 12px/1.5". -/
theorem tk_c_26 : tokenAt ⟨['1', ' ', '+', ' ', '1', '2', 'p', 'x', '/', '1', '.', '5'], 12, [⟨0, 1, Tok.NUM, "1"⟩, ⟨2, 3, Tok.ADD, "+"⟩, ⟨4, 6, Tok.NUM, "12"⟩, ⟨6, 8, Tok.UNITS, "px"⟩, ⟨8, 9, Tok.DIV, "/"⟩, ⟨9, 12, Tok.NUM, "1.5"⟩, ⟨12, 12, Tok.END, ""⟩]⟩ 6 [Tok.LPAR, Tok.END, Tok.COLOR, Tok.QSTR, Tok.RPAR, Tok.VAR, Tok.ADD, Tok.NUM, Tok.COMMA, Tok.FNCT, Tok.STR, Tok.NOT, Tok.SIGN, Tok.ID] = .ok (⟨12, 12, Tok.END, ""⟩, ⟨['1', ' ', '+', ' ', '1', '2', 'p', 'x', '/', '1', '.', '5'], 12, [⟨0, 1, Tok.NUM, "1"⟩, ⟨2, 3, Tok.ADD, "+"⟩, ⟨4, 6, Tok.NUM, "12"⟩, ⟨6, 8, Tok.UNITS, "px"⟩, ⟨8, 9, Tok.DIV, "/"⟩, ⟨9, 12, Tok.NUM, "1.5"⟩, ⟨12, 12, Tok.END, ""⟩]⟩) := rfl

/-- Scanner fact for input "1 + 12px/1.5". -/
theorem tk_c_27 : tokenAt ⟨['1', ' ', '+', ' ', '1', '2', 'p', 'x', '/', '1', '.', '5'], 12, [⟨0, 1, Tok.NUM, "1"⟩, ⟨2, 3, Tok.ADD, "+"⟩, ⟨4, 6, Tok.NUM, "12"⟩, ⟨6, 8, Tok.UNITS, "px"⟩, ⟨8, 9, Tok.DIV, "/"⟩, ⟨9, 12, Tok.NUM, "1.5"⟩, ⟨12, 12, Tok.END, ""⟩]⟩ 6 [Tok.END, Tok.COMMA, Tok.RPAR] = .ok (⟨12, 12, Tok.END, ""⟩, ⟨['1', ' ', '+', ' ', '1', '2', 'p', 'x', '/', '1', '.', '5'], 12, [⟨0, 1, Tok.NUM, "1"⟩, ⟨2, 3, Tok.ADD, "+"⟩, ⟨4, 6, Tok.NUM, "12"⟩, ⟨6, 8, Tok.UNITS, "px"⟩, ⟨8, 9, Tok.DIV, "/"⟩, ⟨9, 12, Tok.NUM, "1.5"⟩, ⟨12, 12, Tok.END, ""⟩]⟩) := rfl

/-- Scanner fact for input "1 + 12px/1.5". -/
theorem tk_c_28 : tokenAt ⟨['1', ' ', '+', ' ', '1', '2', 'p', 'x', '/', '1', '.', '5'], 12, [⟨0, 1, Tok.NUM, "1"⟩, ⟨2, 3, Tok.ADD, "+"⟩, ⟨4, 6, Tok.NUM, "12"⟩, ⟨6, 8, Tok.UNITS, "px"⟩, ⟨8, 9, Tok.DIV, "/"⟩, ⟨9, 12, Tok.NUM, "1.5"⟩, ⟨12, 12, Tok.END, ""⟩]⟩ 6 [Tok.END] = .ok (⟨12, 12, Tok.END, ""⟩, ⟨['1', ' ', '+', ' ', '1', '2', 'p', 'x', '/', '1', '.', '5'], 12, [⟨0, 1, Tok.NUM, "1"⟩, ⟨2, 3, Tok.ADD, "+"⟩, ⟨4, 6, Tok.NUM, "12"⟩, ⟨6, 8, Tok.UNITS, "px"⟩, ⟨8, 9, Tok.DIV, "/"⟩, ⟨9, 12, Tok.NUM, "1.5"⟩, ⟨12, 12, Tok.END, ""⟩]⟩) := rfl

/-- Parser step for input "1 + 12px/1.5". -/
theorem ps_c_0 : atomF 90 ⟨⟨['1', ' ', '+', ' ', '1', '2', 'p', 'x', '/', '1', '.', '5'], 1, [⟨0, 1, Tok.NUM, "1"⟩]⟩, 0⟩ = .ok ((.Literal (.Number ⟨1, 1⟩ [] [])), ⟨⟨['1', ' ', '+', ' ', '1', '2', 'p', 'x', '/', '1', '.', '5'], 3, [⟨0, 1, Tok.NUM, "1"⟩, ⟨2, 3, Tok.ADD, "+"⟩]⟩, 1⟩) := by
  rw [atomF]
  simp only [tk_c_2, tk_c_3, tk_c_4, pPeek, pScan, pRewind, scanRewind, peekIn, tokMem, exceptBind_ok, exceptBind_error, exceptMap_ok, exceptMap_error, exceptPure, Option.some.injEq, reduceIte, reduceDIte, reduceCtorEq, Nat.reduceAdd, Nat.reduceSub, Nat.reduceEqDiff, decide_True, decide_False, decide_eq_true_eq, ne_eq, not_false_eq_true, not_true_eq_false, List.cons_append, List.nil_append, List.append_nil, or_self, or_false, false_or, and_self, and_true, true_and, u_expr_chks, u_expr_rsts, expr_rsts, expr_slst_rsts, expr_lst_rsts, and_test_rsts, not_test_rsts, comparison_rsts, comparison_chks, a_expr_rsts, a_expr_chks, m_expr_rsts, m_expr_chks, atom_rsts, atom_rsts_post, argspec_rsts, argspec_item_rsts, argspec_item_rsts_post, sdata0, sdata1, sdata2, sdata3, sdata4, sdata5, sdata6, parse_bareword, COLOR_NAMES, parseNum, digitsToNat, lowerStr, parseHexColor, hexToNat, isDigitC, isAlphaC, SassQ.add, SassQ.fromNat, mkQ, gcdQ, gcdFuel, List.find?, List.map, List.take, List.drop, List.takeWhile, List.dropWhile, List.dropLast, List.isEmpty, List.length, Option.map, Char.reduceEq, Char.reduceBEq, Char.reduceLE, Char.reduceLT, Char.reduceToNat, Char.reduceToLower, String.reduceMk, String.reduceEq, String.reduceBEq, Nat.reduceMul, Nat.reduceDiv, Nat.reduceMod, Nat.reducePow, Nat.reduceLeDiff, Nat.reduceLT, Nat.reduceGT, Int.reduceAdd, Int.reduceSub, Int.reduceMul, Int.reduceNeg, Int.reduceDiv, Int.reduceLT, Int.reduceLE, Int.reduceEq, Int.reduceBEq, Int.reduceToNat, Int.reduceAbs, Int.reducePow, Int.reduceMod, Int.reduceOfNat, Nat.cast_ofNat, Nat.cast_one, Nat.cast_zero]

/-- Parser step for input "1 + 12px/1.5". -/
theorem ps_c_1 : uExprF 91 ⟨⟨['1', ' ', '+', ' ', '1', '2', 'p', 'x', '/', '1', '.', '5'], 1, [⟨0, 1, Tok.NUM, "1"⟩]⟩, 0⟩ = .ok ((.Literal (.Number ⟨1, 1⟩ [] [])), ⟨⟨['1', ' ', '+', ' ', '1', '2', 'p', 'x', '/', '1', '.', '5'], 3, [⟨0, 1, Tok.NUM, "1"⟩, ⟨2, 3, Tok.ADD, "+"⟩]⟩, 1⟩) := by
  rw [uExprF]
  simp only [ps_c_0, tk_c_1, pPeek, pScan, pRewind, scanRewind, peekIn, tokMem, exceptBind_ok, exceptBind_error, exceptMap_ok, exceptMap_error, exceptPure, Option.some.injEq, reduceIte, reduceDIte, reduceCtorEq, Nat.reduceAdd, Nat.reduceSub, Nat.reduceEqDiff, decide_True, decide_False, decide_eq_true_eq, ne_eq, not_false_eq_true, not_true_eq_false, List.cons_append, List.nil_append, List.append_nil, or_self, or_false, false_or, and_self, and_true, true_and, u_expr_chks, u_expr_rsts, expr_rsts, expr_slst_rsts, expr_lst_rsts, and_test_rsts, not_test_rsts, comparison_rsts, comparison_chks, a_expr_rsts, a_expr_chks, m_expr_rsts, m_expr_chks, atom_rsts, atom_rsts_post, argspec_rsts, argspec_item_rsts, argspec_item_rsts_post, ne_eq]

/-- Parser step for input "1 + 12px/1.5". -/
theorem ps_c_2 : mLoopF 91 (.Literal (.Number ⟨1, 1⟩ [] [])) ⟨⟨['1', ' ', '+', ' ', '1', '2', 'p', 'x', '/', '1', '.', '5'], 3, [⟨0, 1, Tok.NUM, "1"⟩, ⟨2, 3, Tok.ADD, "+"⟩]⟩, 1⟩ = .ok ((.Literal (.Number ⟨1, 1⟩ [] [])), ⟨⟨['1', ' ', '+', ' ', '1', '2', 'p', 'x', '/', '1', '.', '5'], 3, [⟨0, 1, Tok.NUM, "1"⟩, ⟨2, 3, Tok.ADD, "+"⟩]⟩, 1⟩) := by
  rw [mLoopF]
  simp only [tk_c_5, pPeek, pScan, pRewind, scanRewind, peekIn, tokMem, exceptBind_ok, exceptBind_error, exceptMap_ok, exceptMap_error, exceptPure, Option.some.injEq, reduceIte, reduceDIte, reduceCtorEq, Nat.reduceAdd, Nat.reduceSub, Nat.reduceEqDiff, decide_True, decide_False, decide_eq_true_eq, ne_eq, not_false_eq_true, not_true_eq_false, List.cons_append, List.nil_append, List.append_nil, or_self, or_false, false_or, and_self, and_true, true_and, u_expr_chks, u_expr_rsts, expr_rsts, expr_slst_rsts, expr_lst_rsts, and_test_rsts, not_test_rsts, comparison_rsts, comparison_chks, a_expr_rsts, a_expr_chks, m_expr_rsts, m_expr_chks, atom_rsts, atom_rsts_post, argspec_rsts, argspec_item_rsts, argspec_item_rsts_post, ne_eq]

/-- Parser step for input "1 + 12px/1.5". -/
theorem ps_c_3 : mExprF 92 ⟨⟨['1', ' ', '+', ' ', '1', '2', 'p', 'x', '/', '1', '.', '5'], 1, [⟨0, 1, Tok.NUM, "1"⟩]⟩, 0⟩ = .ok ((.Literal (.Number ⟨1, 1⟩ [] [])), ⟨⟨['1', ' ', '+', ' ', '1', '2', 'p', 'x', '/', '1', '.', '5'], 3, [⟨0, 1, Tok.NUM, "1"⟩, ⟨2, 3, Tok.ADD, "+"⟩]⟩, 1⟩) := by
  rw [mExprF, ps_c_1]
  rw [exceptBind_ok]
  simp only [ps_c_2, pPeek, pScan, pRewind, scanRewind, peekIn, tokMem, exceptBind_ok, exceptBind_error, exceptMap_ok, exceptMap_error, exceptPure, Option.some.injEq, reduceIte, reduceDIte, reduceCtorEq, Nat.reduceAdd, Nat.reduceSub, Nat.reduceEqDiff, decide_True, decide_False, decide_eq_true_eq, ne_eq, not_false_eq_true, not_true_eq_false, List.cons_append, List.nil_append, List.append_nil, or_self, or_false, false_or, and_self, and_true, true_and, u_expr_chks, u_expr_rsts, expr_rsts, expr_slst_rsts, expr_lst_rsts, and_test_rsts, not_test_rsts, comparison_rsts, comparison_chks, a_expr_rsts, a_expr_chks, m_expr_rsts, m_expr_chks, atom_rsts, atom_rsts_post, argspec_rsts, argspec_item_rsts, argspec_item_rsts_post, ne_eq]

/-- Parser step for input "1 + 12px/1.5". -/
theorem ps_c_4 : atomF 89 ⟨⟨['1', ' ', '+', ' ', '1', '2', 'p', 'x', '/', '1', '.', '5'], 6, [⟨0, 1, Tok.NUM, "1"⟩, ⟨2, 3, Tok.ADD, "+"⟩, ⟨4, 6, Tok.NUM, "12"⟩]⟩, 2⟩ = .ok ((.Literal (.Number ⟨12, 1⟩ ["px"] [])), ⟨⟨['1', ' ', '+', ' ', '1', '2', 'p', 'x', '/', '1', '.', '5'], 8, [⟨0, 1, Tok.NUM, "1"⟩, ⟨2, 3, Tok.ADD, "+"⟩, ⟨4, 6, Tok.NUM, "12"⟩, ⟨6, 8, Tok.UNITS, "px"⟩]⟩, 4⟩) := by
  rw [atomF]
  simp only [tk_c_10, tk_c_11, tk_c_12, tk_c_13, pPeek, pScan, pRewind, scanRewind, peekIn, tokMem, exceptBind_ok, exceptBind_error, exceptMap_ok, exceptMap_error, exceptPure, Option.some.injEq, reduceIte, reduceDIte, reduceCtorEq, Nat.reduceAdd, Nat.reduceSub, Nat.reduceEqDiff, decide_True, decide_False, decide_eq_true_eq, ne_eq, not_false_eq_true, not_true_eq_false, List.cons_append, List.nil_append, List.append_nil, or_self, or_false, false_or, and_self, and_true, true_and, u_expr_chks, u_expr_rsts, expr_rsts, expr_slst_rsts, expr_lst_rsts, and_test_rsts, not_test_rsts, comparison_rsts, comparison_chks, a_expr_rsts, a_expr_chks, m_expr_rsts, m_expr_chks, atom_rsts, atom_rsts_post, argspec_rsts, argspec_item_rsts, argspec_item_rsts_post, sdata0, sdata1, sdata2, sdata3, sdata4, sdata5, sdata6, parse_bareword, COLOR_NAMES, parseNum, digitsToNat, lowerStr, parseHexColor, hexToNat, isDigitC, isAlphaC, SassQ.add, SassQ.fromNat, mkQ, gcdQ, gcdFuel, List.find?, List.map, List.take, List.drop, List.takeWhile, List.dropWhile, List.dropLast, List.isEmpty, List.length, Option.map, Char.reduceEq, Char.reduceBEq, Char.reduceLE, Char.reduceLT, Char.reduceToNat, Char.reduceToLower, String.reduceMk, String.reduceEq, String.reduceBEq, Nat.reduceMul, Nat.reduceDiv, Nat.reduceMod, Nat.reducePow, Nat.reduceLeDiff, Nat.reduceLT, Nat.reduceGT, Int.reduceAdd, Int.reduceSub, Int.reduceMul, Int.reduceNeg, Int.reduceDiv, Int.reduceLT, Int.reduceLE, Int.reduceEq, Int.reduceBEq, Int.reduceToNat, Int.reduceAbs, Int.reducePow, Int.reduceMod, Int.reduceOfNat, Nat.cast_ofNat, Nat.cast_one, Nat.cast_zero]

/-- Parser step for input "1 + 12px/1.5". -/
theorem ps_c_5 : uExprF 90 ⟨⟨['1', ' ', '+', ' ', '1', '2', 'p', 'x', '/', '1', '.', '5'], 3, [⟨0, 1, Tok.NUM, "1"⟩, ⟨2, 3, Tok.ADD, "+"⟩]⟩, 2⟩ = .ok ((.Literal (.Number ⟨12, 1⟩ ["px"] [])), ⟨⟨['1', ' ', '+', ' ', '1', '2', 'p', 'x', '/', '1', '.', '5'], 8, [⟨0, 1, Tok.NUM, "1"⟩, ⟨2, 3, Tok.ADD, "+"⟩, ⟨4, 6, Tok.NUM, "12"⟩, ⟨6, 8, Tok.UNITS, "px"⟩]⟩, 4⟩) := by
  rw [uExprF]
  simp only [ps_c_4, tk_c_9, pPeek, pScan, pRewind, scanRewind, peekIn, tokMem, exceptBind_ok, exceptBind_error, exceptMap_ok, exceptMap_error, exceptPure, Option.some.injEq, reduceIte, reduceDIte, reduceCtorEq, Nat.reduceAdd, Nat.reduceSub, Nat.reduceEqDiff, decide_True, decide_False, decide_eq_true_eq, ne_eq, not_false_eq_true, not_true_eq_false, List.cons_append, List.nil_append, List.append_nil, or_self, or_false, false_or, and_self, and_true, true_and, u_expr_chks, u_expr_rsts, expr_rsts, expr_slst_rsts, expr_lst_rsts, and_test_rsts, not_test_rsts, comparison_rsts, comparison_chks, a_expr_rsts, a_expr_chks, m_expr_rsts, m_expr_chks, atom_rsts, atom_rsts_post, argspec_rsts, argspec_item_rsts, argspec_item_rsts_post, ne_eq]

/-- Parser step for input "1 + 12px/1.5". -/
theorem ps_c_6 : atomF 88 ⟨⟨['1', ' ', '+', ' ', '1', '2', 'p', 'x', '/', '1', '.', '5'], 12, [⟨0, 1, Tok.NUM, "1"⟩, ⟨2, 3, Tok.ADD, "+"⟩, ⟨4, 6, Tok.NUM, "12"⟩, ⟨6, 8, Tok.UNITS, "px"⟩, ⟨8, 9, Tok.DIV, "/"⟩, ⟨9, 12, Tok.NUM, "1.5"⟩]⟩, 5⟩ = .ok ((.Literal (.Number ⟨3, 2⟩ [] [])), ⟨⟨['1', ' ', '+', ' ', '1', '2', 'p', 'x', '/', '1', '.', '5'], 12, [⟨0, 1, Tok.NUM, "1"⟩, ⟨2, 3, Tok.ADD, "+"⟩, ⟨4, 6, Tok.NUM, "12"⟩, ⟨6, 8, Tok.UNITS, "px"⟩, ⟨8, 9, Tok.DIV, "/"⟩, ⟨9, 12, Tok.NUM, "1.5"⟩, ⟨12, 12, Tok.END, ""⟩]⟩, 6⟩) := by
  rw [atomF]
  simp only [tk_c_18, tk_c_19, tk_c_20, pPeek, pScan, pRewind, scanRewind, peekIn, tokMem, exceptBind_ok, exceptBind_error, exceptMap_ok, exceptMap_error, exceptPure, Option.some.injEq, reduceIte, reduceDIte, reduceCtorEq, Nat.reduceAdd, Nat.reduceSub, Nat.reduceEqDiff, decide_True, decide_False, decide_eq_true_eq, ne_eq, not_false_eq_true, not_true_eq_false, List.cons_append, List.nil_append, List.append_nil, or_self, or_false, false_or, and_self, and_true, true_and, u_expr_chks, u_expr_rsts, expr_rsts, expr_slst_rsts, expr_lst_rsts, and_test_rsts, not_test_rsts, comparison_rsts, comparison_chks, a_expr_rsts, a_expr_chks, m_expr_rsts, m_expr_chks, atom_rsts, atom_rsts_post, argspec_rsts, argspec_item_rsts, argspec_item_rsts_post, sdata0, sdata1, sdata2, sdata3, sdata4, sdata5, sdata6, parse_bareword, COLOR_NAMES, parseNum, digitsToNat, lowerStr, parseHexColor, hexToNat, isDigitC, isAlphaC, SassQ.add, SassQ.fromNat, mkQ, gcdQ, gcdFuel, List.find?, List.map, List.take, List.drop, List.takeWhile, List.dropWhile, List.dropLast, List.isEmpty, List.length, Option.map, Char.reduceEq, Char.reduceBEq, Char.reduceLE, Char.reduceLT, Char.reduceToNat, Char.reduceToLower, String.reduceMk, String.reduceEq, String.reduceBEq, Nat.reduceMul, Nat.reduceDiv, Nat.reduceMod, Nat.reducePow, Nat.reduceLeDiff, Nat.reduceLT, Nat.reduceGT, Int.reduceAdd, Int.reduceSub, Int.reduceMul, Int.reduceNeg, Int.reduceDiv, Int.reduceLT, Int.reduceLE, Int.reduceEq, Int.reduceBEq, Int.reduceToNat, Int.reduceAbs, Int.reducePow, Int.reduceMod, Int.reduceOfNat, Nat.cast_ofNat, Nat.cast_one, Nat.cast_zero]

/-- Parser step for input "1 + 12px/1.5". -/
theorem ps_c_7 : uExprF 89 ⟨⟨['1', ' ', '+', ' ', '1', '2', 'p', 'x', '/', '1', '.', '5'], 9, [⟨0, 1, Tok.NUM, "1"⟩, ⟨2, 3, Tok.ADD, "+"⟩, ⟨4, 6, Tok.NUM, "12"⟩, ⟨6, 8, Tok.UNITS, "px"⟩, ⟨8, 9, Tok.DIV, "/"⟩]⟩, 5⟩ = .ok ((.Literal (.Number ⟨3, 2⟩ [] [])), ⟨⟨['1', ' ', '+', ' ', '1', '2', 'p', 'x', '/', '1', '.', '5'], 12, [⟨0, 1, Tok.NUM, "1"⟩, ⟨2, 3, Tok.ADD, "+"⟩, ⟨4, 6, Tok.NUM, "12"⟩, ⟨6, 8, Tok.UNITS, "px"⟩, ⟨8, 9, Tok.DIV, "/"⟩, ⟨9, 12, Tok.NUM, "1.5"⟩, ⟨12, 12, Tok.END, ""⟩]⟩, 6⟩) := by
  rw [uExprF]
  simp only [ps_c_6, tk_c_17, pPeek, pScan, pRewind, scanRewind, peekIn, tokMem, exceptBind_ok, exceptBind_error, exceptMap_ok, exceptMap_error, exceptPure, Option.some.injEq, reduceIte, reduceDIte, reduceCtorEq, Nat.reduceAdd, Nat.reduceSub, Nat.reduceEqDiff, decide_True, decide_False, decide_eq_true_eq, ne_eq, not_false_eq_true, not_true_eq_false, List.cons_append, List.nil_append, List.append_nil, or_self, or_false, false_or, and_self, and_true, true_and, u_expr_chks, u_expr_rsts, expr_rsts, expr_slst_rsts, expr_lst_rsts, and_test_rsts, not_test_rsts, comparison_rsts, comparison_chks, a_expr_rsts, a_expr_chks, m_expr_rsts, m_expr_chks, atom_rsts, atom_rsts_post, argspec_rsts, argspec_item_rsts, argspec_item_rsts_post, ne_eq]

/-- Parser step for input "1 + 12px/1.5". -/
theorem ps_c_8 : mLoopF 89 (.BinaryOp .div (.Literal (.Number ⟨12, 1⟩ ["px"] [])) (.Literal (.Number ⟨3, 2⟩ [] []))) ⟨⟨['1', ' ', '+', ' ', '1', '2', 'p', 'x', '/', '1', '.', '5'], 12, [⟨0, 1, Tok.NUM, "1"⟩, ⟨2, 3, Tok.ADD, "+"⟩, ⟨4, 6, Tok.NUM, "12"⟩, ⟨6, 8, Tok.UNITS, "px"⟩, ⟨8, 9, Tok.DIV, "/"⟩, ⟨9, 12, Tok.NUM, "1.5"⟩, ⟨12, 12, Tok.END, ""⟩]⟩, 6⟩ = .ok ((.BinaryOp .div (.Literal (.Number ⟨12, 1⟩ ["px"] [])) (.Literal (.Number ⟨3, 2⟩ [] []))), ⟨⟨['1', ' ', '+', ' ', '1', '2', 'p', 'x', '/', '1', '.', '5'], 12, [⟨0, 1, Tok.NUM, "1"⟩, ⟨2, 3, Tok.ADD, "+"⟩, ⟨4, 6, Tok.NUM, "12"⟩, ⟨6, 8, Tok.UNITS, "px"⟩, ⟨8, 9, Tok.DIV, "/"⟩, ⟨9, 12, Tok.NUM, "1.5"⟩, ⟨12, 12, Tok.END, ""⟩]⟩, 6⟩) := by
  rw [mLoopF]
  simp only [tk_c_21, pPeek, pScan, pRewind, scanRewind, peekIn, tokMem, exceptBind_ok, exceptBind_error, exceptMap_ok, exceptMap_error, exceptPure, Option.some.injEq, reduceIte, reduceDIte, reduceCtorEq, Nat.reduceAdd, Nat.reduceSub, Nat.reduceEqDiff, decide_True, decide_False, decide_eq_true_eq, ne_eq, not_false_eq_true, not_true_eq_false, List.cons_append, List.nil_append, List.append_nil, or_self, or_false, false_or, and_self, and_true, true_and, u_expr_chks, u_expr_rsts, expr_rsts, expr_slst_rsts, expr_lst_rsts, and_test_rsts, not_test_rsts, comparison_rsts, comparison_chks, a_expr_rsts, a_expr_chks, m_expr_rsts, m_expr_chks, atom_rsts, atom_rsts_post, argspec_rsts, argspec_item_rsts, argspec_item_rsts_post, ne_eq]

/-- Parser step for input "1 + 12px/1.5". -/
theorem ps_c_9 : mLoopF 90 (.Literal (.Number ⟨12, 1⟩ ["px"] [])) ⟨⟨['1', ' ', '+', ' ', '1', '2', 'p', 'x', '/', '1', '.', '5'], 8, [⟨0, 1, Tok.NUM, "1"⟩, ⟨2, 3, Tok.ADD, "+"⟩, ⟨4, 6, Tok.NUM, "12"⟩, ⟨6, 8, Tok.UNITS, "px"⟩]⟩, 4⟩ = .ok ((.BinaryOp .div (.Literal (.Number ⟨12, 1⟩ ["px"] [])) (.Literal (.Number ⟨3, 2⟩ [] []))), ⟨⟨['1', ' ', '+', ' ', '1', '2', 'p', 'x', '/', '1', '.', '5'], 12, [⟨0, 1, Tok.NUM, "1"⟩, ⟨2, 3, Tok.ADD, "+"⟩, ⟨4, 6, Tok.NUM, "12"⟩, ⟨6, 8, Tok.UNITS, "px"⟩, ⟨8, 9, Tok.DIV, "/"⟩, ⟨9, 12, Tok.NUM, "1.5"⟩, ⟨12, 12, Tok.END, ""⟩]⟩, 6⟩) := by
  rw [mLoopF]
  simp only [ps_c_7, ps_c_8, tk_c_14, tk_c_15, tk_c_16, pPeek, pScan, pRewind, scanRewind, peekIn, tokMem, exceptBind_ok, exceptBind_error, exceptMap_ok, exceptMap_error, exceptPure, Option.some.injEq, reduceIte, reduceDIte, reduceCtorEq, Nat.reduceAdd, Nat.reduceSub, Nat.reduceEqDiff, decide_True, decide_False, decide_eq_true_eq, ne_eq, not_false_eq_true, not_true_eq_false, List.cons_append, List.nil_append, List.append_nil, or_self, or_false, false_or, and_self, and_true, true_and, u_expr_chks, u_expr_rsts, expr_rsts, expr_slst_rsts, expr_lst_rsts, and_test_rsts, not_test_rsts, comparison_rsts, comparison_chks, a_expr_rsts, a_expr_chks, m_expr_rsts, m_expr_chks, atom_rsts, atom_rsts_post, argspec_rsts, argspec_item_rsts, argspec_item_rsts_post, ne_eq]

/-- Parser step for input "1 + 12px/1.5". -/
theorem ps_c_10 : mExprF 91 ⟨⟨['1', ' ', '+', ' ', '1', '2', 'p', 'x', '/', '1', '.', '5'], 3, [⟨0, 1, Tok.NUM, "1"⟩, ⟨2, 3, Tok.ADD, "+"⟩]⟩, 2⟩ = .ok ((.BinaryOp .div (.Literal (.Number ⟨12, 1⟩ ["px"] [])) (.Literal (.Number ⟨3, 2⟩ [] []))), ⟨⟨['1', ' ', '+', ' ', '1', '2', 'p', 'x', '/', '1', '.', '5'], 12, [⟨0, 1, Tok.NUM, "1"⟩, ⟨2, 3, Tok.ADD, "+"⟩, ⟨4, 6, Tok.NUM, "12"⟩, ⟨6, 8, Tok.UNITS, "px"⟩, ⟨8, 9, Tok.DIV, "/"⟩, ⟨9, 12, Tok.NUM, "1.5"⟩, ⟨12, 12, Tok.END, ""⟩]⟩, 6⟩) := by
  rw [mExprF, ps_c_5]
  rw [exceptBind_ok]
  simp only [ps_c_9, pPeek, pScan, pRewind, scanRewind, peekIn, tokMem, exceptBind_ok, exceptBind_error, exceptMap_ok, exceptMap_error, exceptPure, Option.some.injEq, reduceIte, reduceDIte, reduceCtorEq, Nat.reduceAdd, Nat.reduceSub, Nat.reduceEqDiff, decide_True, decide_False, decide_eq_true_eq, ne_eq, not_false_eq_true, not_true_eq_false, List.cons_append, List.nil_append, List.append_nil, or_self, or_false, false_or, and_self, and_true, true_and, u_expr_chks, u_expr_rsts, expr_rsts, expr_slst_rsts, expr_lst_rsts, and_test_rsts, not_test_rsts, comparison_rsts, comparison_chks, a_expr_rsts, a_expr_chks, m_expr_rsts, m_expr_chks, atom_rsts, atom_rsts_post, argspec_rsts, argspec_item_rsts, argspec_item_rsts_post, ne_eq]

/-- Parser step for input "1 + 12px/1.5". -/
theorem ps_c_11 : aLoopF 91 (.BinaryOp .add (.Literal (.Number ⟨1, 1⟩ [] [])) (.BinaryOp .div (.Literal (.Number ⟨12, 1⟩ ["px"] [])) (.Literal (.Number ⟨3, 2⟩ [] [])))) ⟨⟨['1', ' ', '+', ' ', '1', '2', 'p', 'x', '/', '1', '.', '5'], 12, [⟨0, 1, Tok.NUM, "1"⟩, ⟨2, 3, Tok.ADD, "+"⟩, ⟨4, 6, Tok.NUM, "12"⟩, ⟨6, 8, Tok.UNITS, "px"⟩, ⟨8, 9, Tok.DIV, "/"⟩, ⟨9, 12, Tok.NUM, "1.5"⟩, ⟨12, 12, Tok.END, ""⟩]⟩, 6⟩ = .ok ((.BinaryOp .add (.Literal (.Number ⟨1, 1⟩ [] [])) (.BinaryOp .div (.Literal (.Number ⟨12, 1⟩ ["px"] [])) (.Literal (.Number ⟨3, 2⟩ [] [])))), ⟨⟨['1', ' ', '+', ' ', '1', '2', 'p', 'x', '/', '1', '.', '5'], 12, [⟨0, 1, Tok.NUM, "1"⟩, ⟨2, 3, Tok.ADD, "+"⟩, ⟨4, 6, Tok.NUM, "12"⟩, ⟨6, 8, Tok.UNITS, "px"⟩, ⟨8, 9, Tok.DIV, "/"⟩, ⟨9, 12, Tok.NUM, "1.5"⟩, ⟨12, 12, Tok.END, ""⟩]⟩, 6⟩) := by
  rw [aLoopF]
  simp only [tk_c_22, pPeek, pScan, pRewind, scanRewind, peekIn, tokMem, exceptBind_ok, exceptBind_error, exceptMap_ok, exceptMap_error, exceptPure, Option.some.injEq, reduceIte, reduceDIte, reduceCtorEq, Nat.reduceAdd, Nat.reduceSub, Nat.reduceEqDiff, decide_True, decide_False, decide_eq_true_eq, ne_eq, not_false_eq_true, not_true_eq_false, List.cons_append, List.nil_append, List.append_nil, or_self, or_false, false_or, and_self, and_true, true_and, u_expr_chks, u_expr_rsts, expr_rsts, expr_slst_rsts, expr_lst_rsts, and_test_rsts, not_test_rsts, comparison_rsts, comparison_chks, a_expr_rsts, a_expr_chks, m_expr_rsts, m_expr_chks, atom_rsts, atom_rsts_post, argspec_rsts, argspec_item_rsts, argspec_item_rsts_post, ne_eq]

/-- Parser step for input "1 + 12px/1.5". -/
theorem ps_c_12 : aLoopF 92 (.Literal (.Number ⟨1, 1⟩ [] [])) ⟨⟨['1', ' ', '+', ' ', '1', '2', 'p', 'x', '/', '1', '.', '5'], 3, [⟨0, 1, Tok.NUM, "1"⟩, ⟨2, 3, Tok.ADD, "+"⟩]⟩, 1⟩ = .ok ((.BinaryOp .add (.Literal (.Number ⟨1, 1⟩ [] [])) (.BinaryOp .div (.Literal (.Number ⟨12, 1⟩ ["px"] [])) (.Literal (.Number ⟨3, 2⟩ [] [])))), ⟨⟨['1', ' ', '+', ' ', '1', '2', 'p', 'x', '/', '1', '.', '5'], 12, [⟨0, 1, Tok.NUM, "1"⟩, ⟨2, 3, Tok.ADD, "+"⟩, ⟨4, 6, Tok.NUM, "12"⟩, ⟨6, 8, Tok.UNITS, "px"⟩, ⟨8, 9, Tok.DIV, "/"⟩, ⟨9, 12, Tok.NUM, "1.5"⟩, ⟨12, 12, Tok.END, ""⟩]⟩, 6⟩) := by
  rw [aLoopF]
  simp only [ps_c_10, ps_c_11, tk_c_6, tk_c_7, tk_c_8, pPeek, pScan, pRewind, scanRewind, peekIn, tokMem, exceptBind_ok, exceptBind_error, exceptMap_ok, exceptMap_error, exceptPure, Option.some.injEq, reduceIte, reduceDIte, reduceCtorEq, Nat.reduceAdd, Nat.reduceSub, Nat.reduceEqDiff, decide_True, decide_False, decide_eq_true_eq, ne_eq, not_false_eq_true, not_true_eq_false, List.cons_append, List.nil_append, List.append_nil, or_self, or_false, false_or, and_self, and_true, true_and, u_expr_chks, u_expr_rsts, expr_rsts, expr_slst_rsts, expr_lst_rsts, and_test_rsts, not_test_rsts, comparison_rsts, comparison_chks, a_expr_rsts, a_expr_chks, m_expr_rsts, m_expr_chks, atom_rsts, atom_rsts_post, argspec_rsts, argspec_item_rsts, argspec_item_rsts_post, ne_eq]

/-- Parser step for input "1 + 12px/1.5". -/
theorem ps_c_13 : aExprF 93 ⟨⟨['1', ' ', '+', ' ', '1', '2', 'p', 'x', '/', '1', '.', '5'], 1, [⟨0, 1, Tok.NUM, "1"⟩]⟩, 0⟩ = .ok ((.BinaryOp .add (.Literal (.Number ⟨1, 1⟩ [] [])) (.BinaryOp .div (.Literal (.Number ⟨12, 1⟩ ["px"] [])) (.Literal (.Number ⟨3, 2⟩ [] [])))), ⟨⟨['1', ' ', '+', ' ', '1', '2', 'p', 'x', '/', '1', '.', '5'], 12, [⟨0, 1, Tok.NUM, "1"⟩, ⟨2, 3, Tok.ADD, "+"⟩, ⟨4, 6, Tok.NUM, "12"⟩, ⟨6, 8, Tok.UNITS, "px"⟩, ⟨8, 9, Tok.DIV, "/"⟩, ⟨9, 12, Tok.NUM, "1.5"⟩, ⟨12, 12, Tok.END, ""⟩]⟩, 6⟩) := by
  rw [aExprF, ps_c_3]
  rw [exceptBind_ok]
  simp only [ps_c_12, pPeek, pScan, pRewind, scanRewind, peekIn, tokMem, exceptBind_ok, exceptBind_error, exceptMap_ok, exceptMap_error, exceptPure, Option.some.injEq, reduceIte, reduceDIte, reduceCtorEq, Nat.reduceAdd, Nat.reduceSub, Nat.reduceEqDiff, decide_True, decide_False, decide_eq_true_eq, ne_eq, not_false_eq_true, not_true_eq_false, List.cons_append, List.nil_append, List.append_nil, or_self, or_false, false_or, and_self, and_true, true_and, u_expr_chks, u_expr_rsts, expr_rsts, expr_slst_rsts, expr_lst_rsts, and_test_rsts, not_test_rsts, comparison_rsts, comparison_chks, a_expr_rsts, a_expr_chks, m_expr_rsts, m_expr_chks, atom_rsts, atom_rsts_post, argspec_rsts, argspec_item_rsts, argspec_item_rsts_post, ne_eq]

/-- Parser step for input "1 + 12px/1.5". -/
theorem ps_c_14 : compLoopF 93 (.BinaryOp .add (.Literal (.Number ⟨1, 1⟩ [] [])) (.BinaryOp .div (.Literal (.Number ⟨12, 1⟩ ["px"] [])) (.Literal (.Number ⟨3, 2⟩ [] [])))) ⟨⟨['1', ' ', '+', ' ', '1', '2', 'p', 'x', '/', '1', '.', '5'], 12, [⟨0, 1, Tok.NUM, "1"⟩, ⟨2, 3, Tok.ADD, "+"⟩, ⟨4, 6, Tok.NUM, "12"⟩, ⟨6, 8, Tok.UNITS, "px"⟩, ⟨8, 9, Tok.DIV, "/"⟩, ⟨9, 12, Tok.NUM, "1.5"⟩, ⟨12, 12, Tok.END, ""⟩]⟩, 6⟩ = .ok ((.BinaryOp .add (.Literal (.Number ⟨1, 1⟩ [] [])) (.BinaryOp .div (.Literal (.Number ⟨12, 1⟩ ["px"] [])) (.Literal (.Number ⟨3, 2⟩ [] [])))), ⟨⟨['1', ' ', '+', ' ', '1', '2', 'p', 'x', '/', '1', '.', '5'], 12, [⟨0, 1, Tok.NUM, "1"⟩, ⟨2, 3, Tok.ADD, "+"⟩, ⟨4, 6, Tok.NUM, "12"⟩, ⟨6, 8, Tok.UNITS, "px"⟩, ⟨8, 9, Tok.DIV, "/"⟩, ⟨9, 12, Tok.NUM, "1.5"⟩, ⟨12, 12, Tok.END, ""⟩]⟩, 6⟩) := by
  rw [compLoopF]
  simp only [tk_c_23, pPeek, pScan, pRewind, scanRewind, peekIn, tokMem, exceptBind_ok, exceptBind_error, exceptMap_ok, exceptMap_error, exceptPure, Option.some.injEq, reduceIte, reduceDIte, reduceCtorEq, Nat.reduceAdd, Nat.reduceSub, Nat.reduceEqDiff, decide_True, decide_False, decide_eq_true_eq, ne_eq, not_false_eq_true, not_true_eq_false, List.cons_append, List.nil_append, List.append_nil, or_self, or_false, false_or, and_self, and_true, true_and, u_expr_chks, u_expr_rsts, expr_rsts, expr_slst_rsts, expr_lst_rsts, and_test_rsts, not_test_rsts, comparison_rsts, comparison_chks, a_expr_rsts, a_expr_chks, m_expr_rsts, m_expr_chks, atom_rsts, atom_rsts_post, argspec_rsts, argspec_item_rsts, argspec_item_rsts_post, ne_eq]

/-- Parser step for input "1 + 12px/1.5". -/
theorem ps_c_15 : comparisonF 94 ⟨⟨['1', ' ', '+', ' ', '1', '2', 'p', 'x', '/', '1', '.', '5'], 1, [⟨0, 1, Tok.NUM, "1"⟩]⟩, 0⟩ = .ok ((.BinaryOp .add (.Literal (.Number ⟨1, 1⟩ [] [])) (.BinaryOp .div (.Literal (.Number ⟨12, 1⟩ ["px"] [])) (.Literal (.Number ⟨3, 2⟩ [] [])))), ⟨⟨['1', ' ', '+', ' ', '1', '2', 'p', 'x', '/', '1', '.', '5'], 12, [⟨0, 1, Tok.NUM, "1"⟩, ⟨2, 3, Tok.ADD, "+"⟩, ⟨4, 6, Tok.NUM, "12"⟩, ⟨6, 8, Tok.UNITS, "px"⟩, ⟨8, 9, Tok.DIV, "/"⟩, ⟨9, 12, Tok.NUM, "1.5"⟩, ⟨12, 12, Tok.END, ""⟩]⟩, 6⟩) := by
  rw [comparisonF, ps_c_13]
  rw [exceptBind_ok]
  simp only [ps_c_14, pPeek, pScan, pRewind, scanRewind, peekIn, tokMem, exceptBind_ok, exceptBind_error, exceptMap_ok, exceptMap_error, exceptPure, Option.some.injEq, reduceIte, reduceDIte, reduceCtorEq, Nat.reduceAdd, Nat.reduceSub, Nat.reduceEqDiff, decide_True, decide_False, decide_eq_true_eq, ne_eq, not_false_eq_true, not_true_eq_false, List.cons_append, List.nil_append, List.append_nil, or_self, or_false, false_or, and_self, and_true, true_and, u_expr_chks, u_expr_rsts, expr_rsts, expr_slst_rsts, expr_lst_rsts, and_test_rsts, not_test_rsts, comparison_rsts, comparison_chks, a_expr_rsts, a_expr_chks, m_expr_rsts, m_expr_chks, atom_rsts, atom_rsts_post, argspec_rsts, argspec_item_rsts, argspec_item_rsts_post, ne_eq]

/-- Parser step for input "1 + 12px/1.5". -/
theorem ps_c_16 : notTestF 95 ⟨⟨['1', ' ', '+', ' ', '1', '2', 'p', 'x', '/', '1', '.', '5'], 0, []⟩, 0⟩ = .ok ((.BinaryOp .add (.Literal (.Number ⟨1, 1⟩ [] [])) (.BinaryOp .div (.Literal (.Number ⟨12, 1⟩ ["px"] [])) (.Literal (.Number ⟨3, 2⟩ [] [])))), ⟨⟨['1', ' ', '+', ' ', '1', '2', 'p', 'x', '/', '1', '.', '5'], 12, [⟨0, 1, Tok.NUM, "1"⟩, ⟨2, 3, Tok.ADD, "+"⟩, ⟨4, 6, Tok.NUM, "12"⟩, ⟨6, 8, Tok.UNITS, "px"⟩, ⟨8, 9, Tok.DIV, "/"⟩, ⟨9, 12, Tok.NUM, "1.5"⟩, ⟨12, 12, Tok.END, ""⟩]⟩, 6⟩) := by
  rw [notTestF]
  simp only [ps_c_15, tk_c_0, pPeek, pScan, pRewind, scanRewind, peekIn, tokMem, exceptBind_ok, exceptBind_error, exceptMap_ok, exceptMap_error, exceptPure, Option.some.injEq, reduceIte, reduceDIte, reduceCtorEq, Nat.reduceAdd, Nat.reduceSub, Nat.reduceEqDiff, decide_True, decide_False, decide_eq_true_eq, ne_eq, not_false_eq_true, not_true_eq_false, List.cons_append, List.nil_append, List.append_nil, or_self, or_false, false_or, and_self, and_true, true_and, u_expr_chks, u_expr_rsts, expr_rsts, expr_slst_rsts, expr_lst_rsts, and_test_rsts, not_test_rsts, comparison_rsts, comparison_chks, a_expr_rsts, a_expr_chks, m_expr_rsts, m_expr_chks, atom_rsts, atom_rsts_post, argspec_rsts, argspec_item_rsts, argspec_item_rsts_post, ne_eq]

/-- Parser step for input "1 + 12px/1.5". -/
theorem ps_c_17 : andLoopF 95 (.BinaryOp .add (.Literal (.Number ⟨1, 1⟩ [] [])) (.BinaryOp .div (.Literal (.Number ⟨12, 1⟩ ["px"] [])) (.Literal (.Number ⟨3, 2⟩ [] [])))) ⟨⟨['1', ' ', '+', ' ', '1', '2', 'p', 'x', '/', '1', '.', '5'], 12, [⟨0, 1, Tok.NUM, "1"⟩, ⟨2, 3, Tok.ADD, "+"⟩, ⟨4, 6, Tok.NUM, "12"⟩, ⟨6, 8, Tok.UNITS, "px"⟩, ⟨8, 9, Tok.DIV, "/"⟩, ⟨9, 12, Tok.NUM, "1.5"⟩, ⟨12, 12, Tok.END, ""⟩]⟩, 6⟩ = .ok ((.BinaryOp .add (.Literal (.Number ⟨1, 1⟩ [] [])) (.BinaryOp .div (.Literal (.Number ⟨12, 1⟩ ["px"] [])) (.Literal (.Number ⟨3, 2⟩ [] [])))), ⟨⟨['1', ' ', '+', ' ', '1', '2', 'p', 'x', '/', '1', '.', '5'], 12, [⟨0, 1, Tok.NUM, "1"⟩, ⟨2, 3, Tok.ADD, "+"⟩, ⟨4, 6, Tok.NUM, "12"⟩, ⟨6, 8, Tok.UNITS, "px"⟩, ⟨8, 9, Tok.DIV, "/"⟩, ⟨9, 12, Tok.NUM, "1.5"⟩, ⟨12, 12, Tok.END, ""⟩]⟩, 6⟩) := by
  rw [andLoopF]
  simp only [tk_c_24, pPeek, pScan, pRewind, scanRewind, peekIn, tokMem, exceptBind_ok, exceptBind_error, exceptMap_ok, exceptMap_error, exceptPure, Option.some.injEq, reduceIte, reduceDIte, reduceCtorEq, Nat.reduceAdd, Nat.reduceSub, Nat.reduceEqDiff, decide_True, decide_False, decide_eq_true_eq, ne_eq, not_false_eq_true, not_true_eq_false, List.cons_append, List.nil_append, List.append_nil, or_self, or_false, false_or, and_self, and_true, true_and, u_expr_chks, u_expr_rsts, expr_rsts, expr_slst_rsts, expr_lst_rsts, and_test_rsts, not_test_rsts, comparison_rsts, comparison_chks, a_expr_rsts, a_expr_chks, m_expr_rsts, m_expr_chks, atom_rsts, atom_rsts_post, argspec_rsts, argspec_item_rsts, argspec_item_rsts_post, ne_eq]

/-- Parser step for input "1 + 12px/1.5". -/
theorem ps_c_18 : andTestF 96 ⟨⟨['1', ' ', '+', ' ', '1', '2', 'p', 'x', '/', '1', '.', '5'], 0, []⟩, 0⟩ = .ok ((.BinaryOp .add (.Literal (.Number ⟨1, 1⟩ [] [])) (.BinaryOp .div (.Literal (.Number ⟨12, 1⟩ ["px"] [])) (.Literal (.Number ⟨3, 2⟩ [] [])))), ⟨⟨['1', ' ', '+', ' ', '1', '2', 'p', 'x', '/', '1', '.', '5'], 12, [⟨0, 1, Tok.NUM, "1"⟩, ⟨2, 3, Tok.ADD, "+"⟩, ⟨4, 6, Tok.NUM, "12"⟩, ⟨6, 8, Tok.UNITS, "px"⟩, ⟨8, 9, Tok.DIV, "/"⟩, ⟨9, 12, Tok.NUM, "1.5"⟩, ⟨12, 12, Tok.END, ""⟩]⟩, 6⟩) := by
  rw [andTestF, ps_c_16]
  rw [exceptBind_ok]
  simp only [ps_c_17, pPeek, pScan, pRewind, scanRewind, peekIn, tokMem, exceptBind_ok, exceptBind_error, exceptMap_ok, exceptMap_error, exceptPure, Option.some.injEq, reduceIte, reduceDIte, reduceCtorEq, Nat.reduceAdd, Nat.reduceSub, Nat.reduceEqDiff, decide_True, decide_False, decide_eq_true_eq, ne_eq, not_false_eq_true, not_true_eq_false, List.cons_append, List.nil_append, List.append_nil, or_self, or_false, false_or, and_self, and_true, true_and, u_expr_chks, u_expr_rsts, expr_rsts, expr_slst_rsts, expr_lst_rsts, and_test_rsts, not_test_rsts, comparison_rsts, comparison_chks, a_expr_rsts, a_expr_chks, m_expr_rsts, m_expr_chks, atom_rsts, atom_rsts_post, argspec_rsts, argspec_item_rsts, argspec_item_rsts_post, ne_eq]

/-- Parser step for input "1 + 12px/1.5". -/
theorem ps_c_19 : exprLoopF 96 (.BinaryOp .add (.Literal (.Number ⟨1, 1⟩ [] [])) (.BinaryOp .div (.Literal (.Number ⟨12, 1⟩ ["px"] [])) (.Literal (.Number ⟨3, 2⟩ [] [])))) ⟨⟨['1', ' ', '+', ' ', '1', '2', 'p', 'x', '/', '1', '.', '5'], 12, [⟨0, 1, Tok.NUM, "1"⟩, ⟨2, 3, Tok.ADD, "+"⟩, ⟨4, 6, Tok.NUM, "12"⟩, ⟨6, 8, Tok.UNITS, "px"⟩, ⟨8, 9, Tok.DIV, "/"⟩, ⟨9, 12, Tok.NUM, "1.5"⟩, ⟨12, 12, Tok.END, ""⟩]⟩, 6⟩ = .ok ((.BinaryOp .add (.Literal (.Number ⟨1, 1⟩ [] [])) (.BinaryOp .div (.Literal (.Number ⟨12, 1⟩ ["px"] [])) (.Literal (.Number ⟨3, 2⟩ [] [])))), ⟨⟨['1', ' ', '+', ' ', '1', '2', 'p', 'x', '/', '1', '.', '5'], 12, [⟨0, 1, Tok.NUM, "1"⟩, ⟨2, 3, Tok.ADD, "+"⟩, ⟨4, 6, Tok.NUM, "12"⟩, ⟨6, 8, Tok.UNITS, "px"⟩, ⟨8, 9, Tok.DIV, "/"⟩, ⟨9, 12, Tok.NUM, "1.5"⟩, ⟨12, 12, Tok.END, ""⟩]⟩, 6⟩) := by
  rw [exprLoopF]
  simp only [tk_c_25, pPeek, pScan, pRewind, scanRewind, peekIn, tokMem, exceptBind_ok, exceptBind_error, exceptMap_ok, exceptMap_error, exceptPure, Option.some.injEq, reduceIte, reduceDIte, reduceCtorEq, Nat.reduceAdd, Nat.reduceSub, Nat.reduceEqDiff, decide_True, decide_False, decide_eq_true_eq, ne_eq, not_false_eq_true, not_true_eq_false, List.cons_append, List.nil_append, List.append_nil, or_self, or_false, false_or, and_self, and_true, true_and, u_expr_chks, u_expr_rsts, expr_rsts, expr_slst_rsts, expr_lst_rsts, and_test_rsts, not_test_rsts, comparison_rsts, comparison_chks, a_expr_rsts, a_expr_chks, m_expr_rsts, m_expr_chks, atom_rsts, atom_rsts_post, argspec_rsts, argspec_item_rsts, argspec_item_rsts_post, ne_eq]

/-- Parser step for input "1 + 12px/1.5". -/
theorem ps_c_20 : exprF 97 ⟨⟨['1', ' ', '+', ' ', '1', '2', 'p', 'x', '/', '1', '.', '5'], 0, []⟩, 0⟩ = .ok ((.BinaryOp .add (.Literal (.Number ⟨1, 1⟩ [] [])) (.BinaryOp .div (.Literal (.Number ⟨12, 1⟩ ["px"] [])) (.Literal (.Number ⟨3, 2⟩ [] [])))), ⟨⟨['1', ' ', '+', ' ', '1', '2', 'p', 'x', '/', '1', '.', '5'], 12, [⟨0, 1, Tok.NUM, "1"⟩, ⟨2, 3, Tok.ADD, "+"⟩, ⟨4, 6, Tok.NUM, "12"⟩, ⟨6, 8, Tok.UNITS, "px"⟩, ⟨8, 9, Tok.DIV, "/"⟩, ⟨9, 12, Tok.NUM, "1.5"⟩, ⟨12, 12, Tok.END, ""⟩]⟩, 6⟩) := by
  rw [exprF, ps_c_18]
  rw [exceptBind_ok]
  simp only [ps_c_19, pPeek, pScan, pRewind, scanRewind, peekIn, tokMem, exceptBind_ok, exceptBind_error, exceptMap_ok, exceptMap_error, exceptPure, Option.some.injEq, reduceIte, reduceDIte, reduceCtorEq, Nat.reduceAdd, Nat.reduceSub, Nat.reduceEqDiff, decide_True, decide_False, decide_eq_true_eq, ne_eq, not_false_eq_true, not_true_eq_false, List.cons_append, List.nil_append, List.append_nil, or_self, or_false, false_or, and_self, and_true, true_and, u_expr_chks, u_expr_rsts, expr_rsts, expr_slst_rsts, expr_lst_rsts, and_test_rsts, not_test_rsts, comparison_rsts, comparison_chks, a_expr_rsts, a_expr_chks, m_expr_rsts, m_expr_chks, atom_rsts, atom_rsts_post, argspec_rsts, argspec_item_rsts, argspec_item_rsts_post, ne_eq]

/-- Parser step for input "1 + 12px/1.5". -/
theorem ps_c_21 : exprSlstLoopF 97 [(.BinaryOp .add (.Literal (.Number ⟨1, 1⟩ [] [])) (.BinaryOp .div (.Literal (.Number ⟨12, 1⟩ ["px"] [])) (.Literal (.Number ⟨3, 2⟩ [] []))))] ⟨⟨['1', ' ', '+', ' ', '1', '2', 'p', 'x', '/', '1', '.', '5'], 12, [⟨0, 1, Tok.NUM, "1"⟩, ⟨2, 3, Tok.ADD, "+"⟩, ⟨4, 6, Tok.NUM, "12"⟩, ⟨6, 8, Tok.UNITS, "px"⟩, ⟨8, 9, Tok.DIV, "/"⟩, ⟨9, 12, Tok.NUM, "1.5"⟩, ⟨12, 12, Tok.END, ""⟩]⟩, 6⟩ = .ok ((.BinaryOp .add (.Literal (.Number ⟨1, 1⟩ [] [])) (.BinaryOp .div (.Literal (.Number ⟨12, 1⟩ ["px"] [])) (.Literal (.Number ⟨3, 2⟩ [] [])))), ⟨⟨['1', ' ', '+', ' ', '1', '2', 'p', 'x', '/', '1', '.', '5'], 12, [⟨0, 1, Tok.NUM, "1"⟩, ⟨2, 3, Tok.ADD, "+"⟩, ⟨4, 6, Tok.NUM, "12"⟩, ⟨6, 8, Tok.UNITS, "px"⟩, ⟨8, 9, Tok.DIV, "/"⟩, ⟨9, 12, Tok.NUM, "1.5"⟩, ⟨12, 12, Tok.END, ""⟩]⟩, 6⟩) := by
  rw [exprSlstLoopF]
  simp only [tk_c_26, pPeek, pScan, pRewind, scanRewind, peekIn, tokMem, exceptBind_ok, exceptBind_error, exceptMap_ok, exceptMap_error, exceptPure, Option.some.injEq, reduceIte, reduceDIte, reduceCtorEq, Nat.reduceAdd, Nat.reduceSub, Nat.reduceEqDiff, decide_True, decide_False, decide_eq_true_eq, ne_eq, not_false_eq_true, not_true_eq_false, List.cons_append, List.nil_append, List.append_nil, or_self, or_false, false_or, and_self, and_true, true_and, u_expr_chks, u_expr_rsts, expr_rsts, expr_slst_rsts, expr_lst_rsts, and_test_rsts, not_test_rsts, comparison_rsts, comparison_chks, a_expr_rsts, a_expr_chks, m_expr_rsts, m_expr_chks, atom_rsts, atom_rsts_post, argspec_rsts, argspec_item_rsts, argspec_item_rsts_post, ne_eq]

/-- Parser step for input "1 + 12px/1.5". -/
theorem ps_c_22 : exprSlstF 98 ⟨⟨['1', ' ', '+', ' ', '1', '2', 'p', 'x', '/', '1', '.', '5'], 0, []⟩, 0⟩ = .ok ((.BinaryOp .add (.Literal (.Number ⟨1, 1⟩ [] [])) (.BinaryOp .div (.Literal (.Number ⟨12, 1⟩ ["px"] [])) (.Literal (.Number ⟨3, 2⟩ [] [])))), ⟨⟨['1', ' ', '+', ' ', '1', '2', 'p', 'x', '/', '1', '.', '5'], 12, [⟨0, 1, Tok.NUM, "1"⟩, ⟨2, 3, Tok.ADD, "+"⟩, ⟨4, 6, Tok.NUM, "12"⟩, ⟨6, 8, Tok.UNITS, "px"⟩, ⟨8, 9, Tok.DIV, "/"⟩, ⟨9, 12, Tok.NUM, "1.5"⟩, ⟨12, 12, Tok.END, ""⟩]⟩, 6⟩) := by
  rw [exprSlstF, ps_c_20]
  rw [exceptBind_ok]
  simp only [ps_c_21, pPeek, pScan, pRewind, scanRewind, peekIn, tokMem, exceptBind_ok, exceptBind_error, exceptMap_ok, exceptMap_error, exceptPure, Option.some.injEq, reduceIte, reduceDIte, reduceCtorEq, Nat.reduceAdd, Nat.reduceSub, Nat.reduceEqDiff, decide_True, decide_False, decide_eq_true_eq, ne_eq, not_false_eq_true, not_true_eq_false, List.cons_append, List.nil_append, List.append_nil, or_self, or_false, false_or, and_self, and_true, true_and, u_expr_chks, u_expr_rsts, expr_rsts, expr_slst_rsts, expr_lst_rsts, and_test_rsts, not_test_rsts, comparison_rsts, comparison_chks, a_expr_rsts, a_expr_chks, m_expr_rsts, m_expr_chks, atom_rsts, atom_rsts_post, argspec_rsts, argspec_item_rsts, argspec_item_rsts_post, ne_eq]

/-- Parser step for input "1 + 12px/1.5". -/
theorem ps_c_23 : exprLstLoopF 98 [(.BinaryOp .add (.Literal (.Number ⟨1, 1⟩ [] [])) (.BinaryOp .div (.Literal (.Number ⟨12, 1⟩ ["px"] [])) (.Literal (.Number ⟨3, 2⟩ [] []))))] ⟨⟨['1', ' ', '+', ' ', '1', '2', 'p', 'x', '/', '1', '.', '5'], 12, [⟨0, 1, Tok.NUM, "1"⟩, ⟨2, 3, Tok.ADD, "+"⟩, ⟨4, 6, Tok.NUM, "12"⟩, ⟨6, 8, Tok.UNITS, "px"⟩, ⟨8, 9, Tok.DIV, "/"⟩, ⟨9, 12, Tok.NUM, "1.5"⟩, ⟨12, 12, Tok.END, ""⟩]⟩, 6⟩ = .ok ((.BinaryOp .add (.Literal (.Number ⟨1, 1⟩ [] [])) (.BinaryOp .div (.Literal (.Number ⟨12, 1⟩ ["px"] [])) (.Literal (.Number ⟨3, 2⟩ [] [])))), ⟨⟨['1', ' ', '+', ' ', '1', '2', 'p', 'x', '/', '1', '.', '5'], 12, [⟨0, 1, Tok.NUM, "1"⟩, ⟨2, 3, Tok.ADD, "+"⟩, ⟨4, 6, Tok.NUM, "12"⟩, ⟨6, 8, Tok.UNITS, "px"⟩, ⟨8, 9, Tok.DIV, "/"⟩, ⟨9, 12, Tok.NUM, "1.5"⟩, ⟨12, 12, Tok.END, ""⟩]⟩, 6⟩) := by
  rw [exprLstLoopF]
  simp only [tk_c_27, pPeek, pScan, pRewind, scanRewind, peekIn, tokMem, exceptBind_ok, exceptBind_error, exceptMap_ok, exceptMap_error, exceptPure, Option.some.injEq, reduceIte, reduceDIte, reduceCtorEq, Nat.reduceAdd, Nat.reduceSub, Nat.reduceEqDiff, decide_True, decide_False, decide_eq_true_eq, ne_eq, not_false_eq_true, not_true_eq_false, List.cons_append, List.nil_append, List.append_nil, or_self, or_false, false_or, and_self, and_true, true_and, u_expr_chks, u_expr_rsts, expr_rsts, expr_slst_rsts, expr_lst_rsts, and_test_rsts, not_test_rsts, comparison_rsts, comparison_chks, a_expr_rsts, a_expr_chks, m_expr_rsts, m_expr_chks, atom_rsts, atom_rsts_post, argspec_rsts, argspec_item_rsts, argspec_item_rsts_post, ne_eq]

/-- Parser step for input "1 + 12px/1.5". -/
theorem ps_c_24 : exprLstF 99 ⟨⟨['1', ' ', '+', ' ', '1', '2', 'p', 'x', '/', '1', '.', '5'], 0, []⟩, 0⟩ = .ok ((.BinaryOp .add (.Literal (.Number ⟨1, 1⟩ [] [])) (.BinaryOp .div (.Literal (.Number ⟨12, 1⟩ ["px"] [])) (.Literal (.Number ⟨3, 2⟩ [] [])))), ⟨⟨['1', ' ', '+', ' ', '1', '2', 'p', 'x', '/', '1', '.', '5'], 12, [⟨0, 1, Tok.NUM, "1"⟩, ⟨2, 3, Tok.ADD, "+"⟩, ⟨4, 6, Tok.NUM, "12"⟩, ⟨6, 8, Tok.UNITS, "px"⟩, ⟨8, 9, Tok.DIV, "/"⟩, ⟨9, 12, Tok.NUM, "1.5"⟩, ⟨12, 12, Tok.END, ""⟩]⟩, 6⟩) := by
  rw [exprLstF, ps_c_22]
  rw [exceptBind_ok]
  simp only [ps_c_23, pPeek, pScan, pRewind, scanRewind, peekIn, tokMem, exceptBind_ok, exceptBind_error, exceptMap_ok, exceptMap_error, exceptPure, Option.some.injEq, reduceIte, reduceDIte, reduceCtorEq, Nat.reduceAdd, Nat.reduceSub, Nat.reduceEqDiff, decide_True, decide_False, decide_eq_true_eq, ne_eq, not_false_eq_true, not_true_eq_false, List.cons_append, List.nil_append, List.append_nil, or_self, or_false, false_or, and_self, and_true, true_and, u_expr_chks, u_expr_rsts, expr_rsts, expr_slst_rsts, expr_lst_rsts, and_test_rsts, not_test_rsts, comparison_rsts, comparison_chks, a_expr_rsts, a_expr_chks, m_expr_rsts, m_expr_chks, atom_rsts, atom_rsts_post, argspec_rsts, argspec_item_rsts, argspec_item_rsts_post, ne_eq]

/-- Parser step for input "1 + 12px/1.5". -/
theorem ps_c_25 : goalF 100 ⟨⟨['1', ' ', '+', ' ', '1', '2', 'p', 'x', '/', '1', '.', '5'], 0, []⟩, 0⟩ = .ok ((.BinaryOp .add (.Literal (.Number ⟨1, 1⟩ [] [])) (.BinaryOp .div (.Literal (.Number ⟨12, 1⟩ ["px"] [])) (.Literal (.Number ⟨3, 2⟩ [] [])))), ⟨⟨['1', ' ', '+', ' ', '1', '2', 'p', 'x', '/', '1', '.', '5'], 12, [⟨0, 1, Tok.NUM, "1"⟩, ⟨2, 3, Tok.ADD, "+"⟩, ⟨4, 6, Tok.NUM, "12"⟩, ⟨6, 8, Tok.UNITS, "px"⟩, ⟨8, 9, Tok.DIV, "/"⟩, ⟨9, 12, Tok.NUM, "1.5"⟩, ⟨12, 12, Tok.END, ""⟩]⟩, 7⟩) := by
  rw [goalF, ps_c_24]
  rw [exceptBind_ok]
  simp only [tk_c_28, pPeek, pScan, pRewind, scanRewind, peekIn, tokMem, exceptBind_ok, exceptBind_error, exceptMap_ok, exceptMap_error, exceptPure, Option.some.injEq, reduceIte, reduceDIte, reduceCtorEq, Nat.reduceAdd, Nat.reduceSub, Nat.reduceEqDiff, decide_True, decide_False, decide_eq_true_eq, ne_eq, not_false_eq_true, not_true_eq_false, List.cons_append, List.nil_append, List.append_nil, or_self, or_false, false_or, and_self, and_true, true_and, u_expr_chks, u_expr_rsts, expr_rsts, expr_slst_rsts, expr_lst_rsts, and_test_rsts, not_test_rsts, comparison_rsts, comparison_chks, a_expr_rsts, a_expr_chks, m_expr_rsts, m_expr_chks, atom_rsts, atom_rsts_post, argspec_rsts, argspec_item_rsts, argspec_item_rsts_post, ne_eq]

/-- Parse of the source text "1 + 12px/1.5". -/
theorem parse_c : parseExpr 100 "1 + 12px/1.5" = .ok (.BinaryOp .add (.Literal (.Number ⟨1, 1⟩ [] [])) (.BinaryOp .div (.Literal (.Number ⟨12, 1⟩ ["px"] [])) (.Literal (.Number ⟨3, 2⟩ [] [])))) := by
  simp only [parseExpr, pReset, scanReset, sdata5, ps_c_25, exceptMap_ok]
/-- Scanner fact for input "1-2". -/
theorem tk_d_0 : tokenAt ⟨['1', '-', '2'], 0, []⟩ 0 [Tok.LPAR, Tok.COLOR, Tok.QSTR, Tok.SIGN, Tok.VAR, Tok.ADD, Tok.NUM, Tok.FNCT, Tok.STR, Tok.NOT, Tok.ID] = .ok (⟨0, 1, Tok.NUM, "1"⟩, ⟨['1', '-', '2'], 1, [⟨0, 1, Tok.NUM, "1"⟩]⟩) := rfl

/-- Scanner fact for input "1-2". -/
theorem tk_d_1 : tokenAt ⟨['1', '-', '2'], 1, [⟨0, 1, Tok.NUM, "1"⟩]⟩ 0 [Tok.LPAR, Tok.COLOR, Tok.QSTR, Tok.SIGN, Tok.ADD, Tok.NUM, Tok.FNCT, Tok.STR, Tok.VAR, Tok.ID] = .ok (⟨0, 1, Tok.NUM, "1"⟩, ⟨['1', '-', '2'], 1, [⟨0, 1, Tok.NUM, "1"⟩]⟩) := rfl

/-- Scanner fact for input "1-2". -/
theorem tk_d_2 : tokenAt ⟨['1', '-', '2'], 1, [⟨0, 1, Tok.NUM, "1"⟩]⟩ 0 [Tok.LPAR, Tok.COLOR, Tok.QSTR, Tok.NUM, Tok.FNCT, Tok.STR, Tok.VAR, Tok.ID] = .ok (⟨0, 1, Tok.NUM, "1"⟩, ⟨['1', '-', '2'], 1, [⟨0, 1, Tok.NUM, "1"⟩]⟩) := rfl

/-- Scanner fact for input "1-2". -/
theorem tk_d_3 : tokenAt ⟨['1', '-', '2'], 1, [⟨0, 1, Tok.NUM, "1"⟩]⟩ 0 [Tok.NUM] = .ok (⟨0, 1, Tok.NUM, "1"⟩, ⟨['1', '-', '2'], 1, [⟨0, 1, Tok.NUM, "1"⟩]⟩) := rfl

/-- Scanner fact for input "1-2". -/
theorem tk_d_4 : tokenAt ⟨['1', '-', '2'], 1, [⟨0, 1, Tok.NUM, "1"⟩]⟩ 1 [Tok.LPAR, Tok.SUB, Tok.QSTR, Tok.RPAR, Tok.VAR, Tok.MUL, Tok.DIV, Tok.LE, Tok.COLOR, Tok.NE, Tok.LT, Tok.NUM, Tok.COMMA, Tok.GT, Tok.END, Tok.SIGN, Tok.GE, Tok.FNCT, Tok.STR, Tok.UNITS, Tok.EQ, Tok.ID, Tok.AND, Tok.ADD, Tok.NOT, Tok.OR] = .ok (⟨1, 2, Tok.SIGN, "-"⟩, ⟨['1', '-', '2'], 2, [⟨0, 1, Tok.NUM, "1"⟩, ⟨1, 2, Tok.SIGN, "-"⟩]⟩) := rfl

/-- Scanner fact for input "1-2". -/
theorem tk_d_5 : tokenAt ⟨['1', '-', '2'], 2, [⟨0, 1, Tok.NUM, "1"⟩, ⟨1, 2, Tok.SIGN, "-"⟩]⟩ 1 [Tok.LPAR, Tok.SUB, Tok.QSTR, Tok.RPAR, Tok.MUL, Tok.DIV, Tok.LE, Tok.COLOR, Tok.NE, Tok.LT, Tok.NUM, Tok.COMMA, Tok.GT, Tok.END, Tok.SIGN, Tok.GE, Tok.FNCT, Tok.STR, Tok.VAR, Tok.EQ, Tok.ID, Tok.AND, Tok.ADD, Tok.NOT, Tok.OR] = .ok (⟨1, 2, Tok.SIGN, "-"⟩, ⟨['1', '-', '2'], 2, [⟨0, 1, Tok.NUM, "1"⟩, ⟨1, 2, Tok.SIGN, "-"⟩]⟩) := rfl

/-- Scanner fact for input "1-2". -/
theorem tk_d_6 : tokenAt ⟨['1', '-', '2'], 2, [⟨0, 1, Tok.NUM, "1"⟩, ⟨1, 2, Tok.SIGN, "-"⟩]⟩ 1 [Tok.LPAR, Tok.SUB, Tok.QSTR, Tok.RPAR, Tok.LE, Tok.COLOR, Tok.NE, Tok.LT, Tok.NUM, Tok.COMMA, Tok.GT, Tok.END, Tok.SIGN, Tok.GE, Tok.FNCT, Tok.STR, Tok.VAR, Tok.EQ, Tok.ID, Tok.AND, Tok.ADD, Tok.NOT, Tok.OR] = .ok (⟨1, 2, Tok.SIGN, "-"⟩, ⟨['1', '-', '2'], 2, [⟨0, 1, Tok.NUM, "1"⟩, ⟨1, 2, Tok.SIGN, "-"⟩]⟩) := rfl

/-- Scanner fact for input "1-2". -/
theorem tk_d_7 : tokenAt ⟨['1', '-', '2'], 2, [⟨0, 1, Tok.NUM, "1"⟩, ⟨1, 2, Tok.SIGN, "-"⟩]⟩ 1 [Tok.LPAR, Tok.QSTR, Tok.RPAR, Tok.LE, Tok.COLOR, Tok.NE, Tok.LT, Tok.NUM, Tok.COMMA, Tok.GT, Tok.END, Tok.SIGN, Tok.ADD, Tok.FNCT, Tok.STR, Tok.VAR, Tok.EQ, Tok.ID, Tok.AND, Tok.GE, Tok.NOT, Tok.OR] = .ok (⟨1, 2, Tok.SIGN, "-"⟩, ⟨['1', '-', '2'], 2, [⟨0, 1, Tok.NUM, "1"⟩, ⟨1, 2, Tok.SIGN, "-"⟩]⟩) := rfl

/-- Scanner fact for input "1-2". -/
theorem tk_d_8 : tokenAt ⟨['1', '-', '2'], 2, [⟨0, 1, Tok.NUM, "1"⟩, ⟨1, 2, Tok.SIGN, "-"⟩]⟩ 1 [Tok.AND, Tok.LPAR, Tok.END, Tok.COLOR, Tok.QSTR, Tok.SIGN, Tok.VAR, Tok.ADD, Tok.NUM, Tok.COMMA, Tok.FNCT, Tok.STR, Tok.NOT, Tok.ID, Tok.RPAR, Tok.OR] = .ok (⟨1, 2, Tok.SIGN, "-"⟩, ⟨['1', '-', '2'], 2, [⟨0, 1, Tok.NUM, "1"⟩, ⟨1, 2, Tok.SIGN, "-"⟩]⟩) := rfl

/-- Scanner fact for input "1-2". -/
theorem tk_d_9 : tokenAt ⟨['1', '-', '2'], 2, [⟨0, 1, Tok.NUM, "1"⟩, ⟨1, 2, Tok.SIGN, "-"⟩]⟩ 1 [Tok.LPAR, Tok.END, Tok.COLOR, Tok.QSTR, Tok.RPAR, Tok.VAR, Tok.ADD, Tok.NUM, Tok.COMMA, Tok.FNCT, Tok.STR, Tok.NOT, Tok.ID, Tok.SIGN, Tok.OR] = .ok (⟨1, 2, Tok.SIGN, "-"⟩, ⟨['1', '-', '2'], 2, [⟨0, 1, Tok.NUM, "1"⟩, ⟨1, 2, Tok.SIGN, "-"⟩]⟩) := rfl

/-- Scanner fact for input "1-2". -/
theorem tk_d_10 : tokenAt ⟨['1', '-', '2'], 2, [⟨0, 1, Tok.NUM, "1"⟩, ⟨1, 2, Tok.SIGN, "-"⟩]⟩ 1 [Tok.LPAR, Tok.END, Tok.COLOR, Tok.QSTR, Tok.RPAR, Tok.VAR, Tok.ADD, Tok.NUM, Tok.COMMA, Tok.FNCT, Tok.STR, Tok.NOT, Tok.SIGN, Tok.ID] = .ok (⟨1, 2, Tok.SIGN, "-"⟩, ⟨['1', '-', '2'], 2, [⟨0, 1, Tok.NUM, "1"⟩, ⟨1, 2, Tok.SIGN, "-"⟩]⟩) := rfl

/-- Scanner fact for input "1-2". -/
theorem tk_d_11 : tokenAt ⟨['1', '-', '2'], 2, [⟨0, 1, Tok.NUM, "1"⟩, ⟨1, 2, Tok.SIGN, "-"⟩]⟩ 1 [Tok.LPAR, Tok.COLOR, Tok.QSTR, Tok.SIGN, Tok.VAR, Tok.ADD, Tok.NUM, Tok.FNCT, Tok.STR, Tok.NOT, Tok.ID] = .ok (⟨1, 2, Tok.SIGN, "-"⟩, ⟨['1', '-', '2'], 2, [⟨0, 1, Tok.NUM, "1"⟩, ⟨1, 2, Tok.SIGN, "-"⟩]⟩) := rfl

/-- Scanner fact for input "1-2". -/
theorem tk_d_12 : tokenAt ⟨['1', '-', '2'], 2, [⟨0, 1, Tok.NUM, "1"⟩, ⟨1, 2, Tok.SIGN, "-"⟩]⟩ 1 [Tok.LPAR, Tok.COLOR, Tok.QSTR, Tok.SIGN, Tok.ADD, Tok.NUM, Tok.FNCT, Tok.STR, Tok.VAR, Tok.ID] = .ok (⟨1, 2, Tok.SIGN, "-"⟩, ⟨['1', '-', '2'], 2, [⟨0, 1, Tok.NUM, "1"⟩, ⟨1, 2, Tok.SIGN, "-"⟩]⟩) := rfl

/-- Scanner fact for input "1-2". -/
theorem tk_d_13 : tokenAt ⟨['1', '-', '2'], 2, [⟨0, 1, Tok.NUM, "1"⟩, ⟨1, 2, Tok.SIGN, "-"⟩]⟩ 1 [Tok.SIGN] = .ok (⟨1, 2, Tok.SIGN, "-"⟩, ⟨['1', '-', '2'], 2, [⟨0, 1, Tok.NUM, "1"⟩, ⟨1, 2, Tok.SIGN, "-"⟩]⟩) := rfl

/-- Scanner fact for input "1-2". -/
theorem tk_d_14 : tokenAt ⟨['1', '-', '2'], 2, [⟨0, 1, Tok.NUM, "1"⟩, ⟨1, 2, Tok.SIGN, "-"⟩]⟩ 2 [Tok.LPAR, Tok.COLOR, Tok.QSTR, Tok.SIGN, Tok.ADD, Tok.NUM, Tok.FNCT, Tok.STR, Tok.VAR, Tok.ID] = .ok (⟨2, 3, Tok.NUM, "2"⟩, ⟨['1', '-', '2'], 3, [⟨0, 1, Tok.NUM, "1"⟩, ⟨1, 2, Tok.SIGN, "-"⟩, ⟨2, 3, Tok.NUM, "2"⟩]⟩) := rfl

/-- Scanner fact for input "1-2". -/
theorem tk_d_15 : tokenAt ⟨['1', '-', '2'], 3, [⟨0, 1, Tok.NUM, "1"⟩, ⟨1, 2, Tok.SIGN, "-"⟩, ⟨2, 3, Tok.NUM, "2"⟩]⟩ 2 [Tok.LPAR, Tok.COLOR, Tok.QSTR, Tok.NUM, Tok.FNCT, Tok.STR, Tok.VAR, Tok.ID] = .ok (⟨2, 3, Tok.NUM, "2"⟩, ⟨['1', '-', '2'], 3, [⟨0, 1, Tok.NUM, "1"⟩, ⟨1, 2, Tok.SIGN, "-"⟩, ⟨2, 3, Tok.NUM, "2"⟩]⟩) := rfl

/-- Scanner fact for input "1-2". -/
theorem tk_d_16 : tokenAt ⟨['1', '-', '2'], 3, [⟨0, 1, Tok.NUM, "1"⟩, ⟨1, 2, Tok.SIGN, "-"⟩, ⟨2, 3, Tok.NUM, "2"⟩]⟩ 2 [Tok.NUM] = .ok (⟨2, 3, Tok.NUM, "2"⟩, ⟨['1', '-', '2'], 3, [⟨0, 1, Tok.NUM, "1"⟩, ⟨1, 2, Tok.SIGN, "-"⟩, ⟨2, 3, Tok.NUM, "2"⟩]⟩) := rfl

/-- Scanner fact for input "1-2". -/
theorem tk_d_17 : tokenAt ⟨['1', '-', '2'], 3, [⟨0, 1, Tok.NUM, "1"⟩, ⟨1, 2, Tok.SIGN, "-"⟩, ⟨2, 3, Tok.NUM, "2"⟩]⟩ 3 [Tok.LPAR, Tok.SUB, Tok.QSTR, Tok.RPAR, Tok.VAR, Tok.MUL, Tok.DIV, Tok.LE, Tok.COLOR, Tok.NE, Tok.LT, Tok.NUM, Tok.COMMA, Tok.GT, Tok.END, Tok.SIGN, Tok.GE, Tok.FNCT, Tok.STR, Tok.UNITS, Tok.EQ, Tok.ID, Tok.AND, Tok.ADD, Tok.NOT, Tok.OR] = .ok (⟨3, 3, Tok.END, ""⟩, ⟨['1', '-', '2'], 3, [⟨0, 1, Tok.NUM, "1"⟩, ⟨1, 2, Tok.SIGN, "-"⟩, ⟨2, 3, Tok.NUM, "2"⟩, ⟨3, 3, Tok.END, ""⟩]⟩) := rfl

/-- Scanner fact for input "1-2". -/
theorem tk_d_18 : tokenAt ⟨['1', '-', '2'], 3, [⟨0, 1, Tok.NUM, "1"⟩, ⟨1, 2, Tok.SIGN, "-"⟩, ⟨2, 3, Tok.NUM, "2"⟩, ⟨3, 3, Tok.END, ""⟩]⟩ 3 [Tok.LPAR, Tok.SUB, Tok.QSTR, Tok.RPAR, Tok.MUL, Tok.DIV, Tok.LE, Tok.COLOR, Tok.NE, Tok.LT, Tok.NUM, Tok.COMMA, Tok.GT, Tok.END, Tok.SIGN, Tok.GE, Tok.FNCT, Tok.STR, Tok.VAR, Tok.EQ, Tok.ID, Tok.AND, Tok.ADD, Tok.NOT, Tok.OR] = .ok (⟨3, 3, Tok.END, ""⟩, ⟨['1', '-', '2'], 3, [⟨0, 1, Tok.NUM, "1"⟩, ⟨1, 2, Tok.SIGN, "-"⟩, ⟨2, 3, Tok.NUM, "2"⟩, ⟨3, 3, Tok.END, ""⟩]⟩) := rfl

/-- Scanner fact for input "1-2". -/
theorem tk_d_19 : tokenAt ⟨['1', '-', '2'], 3, [⟨0, 1, Tok.NUM, "1"⟩, ⟨1, 2, Tok.SIGN, "-"⟩, ⟨2, 3, Tok.NUM, "2"⟩, ⟨3, 3, Tok.END, ""⟩]⟩ 3 [Tok.LPAR, Tok.SUB, Tok.QSTR, Tok.RPAR, Tok.LE, Tok.COLOR, Tok.NE, Tok.LT, Tok.NUM, Tok.COMMA, Tok.GT, Tok.END, Tok.SIGN, Tok.GE, Tok.FNCT, Tok.STR, Tok.VAR, Tok.EQ, Tok.ID, Tok.AND, Tok.ADD, Tok.NOT, Tok.OR] = .ok (⟨3, 3, Tok.END, ""⟩, ⟨['1', '-', '2'], 3, [⟨0, 1, Tok.NUM, "1"⟩, ⟨1, 2, Tok.SIGN, "-"⟩, ⟨2, 3, Tok.NUM, "2"⟩, ⟨3, 3, Tok.END, ""⟩]⟩) := rfl

/-- Scanner fact for input "1-2". -/
theorem tk_d_20 : tokenAt ⟨['1', '-', '2'], 3, [⟨0, 1, Tok.NUM, "1"⟩, ⟨1, 2, Tok.SIGN, "-"⟩, ⟨2, 3, Tok.NUM, "2"⟩, ⟨3, 3, Tok.END, ""⟩]⟩ 3 [Tok.LPAR, Tok.QSTR, Tok.RPAR, Tok.LE, Tok.COLOR, Tok.NE, Tok.LT, Tok.NUM, Tok.COMMA, Tok.GT, Tok.END, Tok.SIGN, Tok.ADD, Tok.FNCT, Tok.STR, Tok.VAR, Tok.EQ, Tok.ID, Tok.AND, Tok.GE, Tok.NOT, Tok.OR] = .ok (⟨3, 3, Tok.END, ""⟩, ⟨['1', '-', '2'], 3, [⟨0, 1, Tok.NUM, "1"⟩, ⟨1, 2, Tok.SIGN, "-"⟩, ⟨2, 3, Tok.NUM, "2"⟩, ⟨3, 3, Tok.END, ""⟩]⟩) := rfl

/-- Scanner fact for input "1-2". -/
theorem tk_d_21 : tokenAt ⟨['1', '-', '2'], 3, [⟨0, 1, Tok.NUM, "1"⟩, ⟨1, 2, Tok.SIGN, "-"⟩, ⟨2, 3, Tok.NUM, "2"⟩, ⟨3, 3, Tok.END, ""⟩]⟩ 3 [Tok.AND, Tok.LPAR, Tok.END, Tok.COLOR, Tok.QSTR, Tok.SIGN, Tok.VAR, Tok.ADD, Tok.NUM, Tok.COMMA, Tok.FNCT, Tok.STR, Tok.NOT, Tok.ID, Tok.RPAR, Tok.OR] = .ok (⟨3, 3, Tok.END, ""⟩, ⟨['1', '-', '2'], 3, [⟨0, 1, Tok.NUM, "1"⟩, ⟨1, 2, Tok.SIGN, "-"⟩, ⟨2, 3, Tok.NUM, "2"⟩, ⟨3, 3, Tok.END, ""⟩]⟩) := rfl

/-- Scanner fact for input "1-2". -/
theorem tk_d_22 : tokenAt ⟨['1', '-', '2'], 3, [⟨0, 1, Tok.NUM, "1"⟩, ⟨1, 2, Tok.SIGN, "-"⟩, ⟨2, 3, Tok.NUM, "2"⟩, ⟨3, 3, Tok.END, ""⟩]⟩ 3 [Tok.LPAR, Tok.END, Tok.COLOR, Tok.QSTR, Tok.RPAR, Tok.VAR, Tok.ADD, Tok.NUM, Tok.COMMA, Tok.FNCT, Tok.STR, Tok.NOT, Tok.ID, Tok.SIGN, Tok.OR] = .ok (⟨3, 3, Tok.END, ""⟩, ⟨['1', '-', '2'], 3, [⟨0, 1, Tok.NUM, "1"⟩, ⟨1, 2, Tok.SIGN, "-"⟩, ⟨2, 3, Tok.NUM, "2"⟩, ⟨3, 3, Tok.END, ""⟩]⟩) := rfl

/-- Scanner fact for input "1-2". -/
theorem tk_d_23 : tokenAt ⟨['1', '-', '2'], 3, [⟨0, 1, Tok.NUM, "1"⟩, ⟨1, 2, Tok.SIGN, "-"⟩, ⟨2, 3, Tok.NUM, "2"⟩, ⟨3, 3, Tok.END, ""⟩]⟩ 3 [Tok.LPAR, Tok.END, Tok.COLOR, Tok.QSTR, Tok.RPAR, Tok.VAR, Tok.ADD, Tok.NUM, Tok.COMMA, Tok.FNCT, Tok.STR, Tok.NOT, Tok.SIGN, Tok.ID] = .ok (⟨3, 3, Tok.END, ""⟩, ⟨['1', '-', '2'], 3, [⟨0, 1, Tok.NUM, "1"⟩, ⟨1, 2, Tok.SIGN, "-"⟩, ⟨2, 3, Tok.NUM, "2"⟩, ⟨3, 3, Tok.END, ""⟩]⟩) := rfl

/-- Scanner fact for input "1-2". -/
theorem tk_d_24 : tokenAt ⟨['1', '-', '2'], 3, [⟨0, 1, Tok.NUM, "1"⟩, ⟨1, 2, Tok.SIGN, "-"⟩, ⟨2, 3, Tok.NUM, "2"⟩, ⟨3, 3, Tok.END, ""⟩]⟩ 3 [Tok.END, Tok.COMMA, Tok.RPAR] = .ok (⟨3, 3, Tok.END, ""⟩, ⟨['1', '-', '2'], 3, [⟨0, 1, Tok.NUM, "1"⟩, ⟨1, 2, Tok.SIGN, "-"⟩, ⟨2, 3, Tok.NUM, "2"⟩, ⟨3, 3, Tok.END, ""⟩]⟩) := rfl

/-- Scanner fact for input "1-2". -/
theorem tk_d_25 : tokenAt ⟨['1', '-', '2'], 3, [⟨0, 1, Tok.NUM, "1"⟩, ⟨1, 2, Tok.SIGN, "-"⟩, ⟨2, 3, Tok.NUM, "2"⟩, ⟨3, 3, Tok.END, ""⟩]⟩ 3 [Tok.END] = .ok (⟨3, 3, Tok.END, ""⟩, ⟨['1', '-', '2'], 3, [⟨0, 1, Tok.NUM, "1"⟩, ⟨1, 2, Tok.SIGN, "-"⟩, ⟨2, 3, Tok.NUM, "2"⟩, ⟨3, 3, Tok.END, ""⟩]⟩) := rfl

/-- Parser step for input "1-2". -/
theorem ps_d_0 : atomF 90 ⟨⟨['1', '-', '2'], 1, [⟨0, 1, Tok.NUM, "1"⟩]⟩, 0⟩ = .ok ((.Literal (.Number ⟨1, 1⟩ [] [])), ⟨⟨['1', '-', '2'], 2, [⟨0, 1, Tok.NUM, "1"⟩, ⟨1, 2, Tok.SIGN, "-"⟩]⟩, 1⟩) := by
  rw [atomF]
  simp only [tk_d_2, tk_d_3, tk_d_4, pPeek, pScan, pRewind, scanRewind, peekIn, tokMem, exceptBind_ok, exceptBind_error, exceptMap_ok, exceptMap_error, exceptPure, Option.some.injEq, reduceIte, reduceDIte, reduceCtorEq, Nat.reduceAdd, Nat.reduceSub, Nat.reduceEqDiff, decide_True, decide_False, decide_eq_true_eq, ne_eq, not_false_eq_true, not_true_eq_false, List.cons_append, List.nil_append, List.append_nil, or_self, or_false, false_or, and_self, and_true, true_and, u_expr_chks, u_expr_rsts, expr_rsts, expr_slst_rsts, expr_lst_rsts, and_test_rsts, not_test_rsts, comparison_rsts, comparison_chks, a_expr_rsts, a_expr_chks, m_expr_rsts, m_expr_chks, atom_rsts, atom_rsts_post, argspec_rsts, argspec_item_rsts, argspec_item_rsts_post, sdata0, sdata1, sdata2, sdata3, sdata4, sdata5, sdata6, sdata7, sdata8, parse_bareword, COLOR_NAMES, parseNum, digitsToNat, lowerStr, parseHexColor, hexToNat, isDigitC, isAlphaC, SassQ.add, SassQ.fromNat, mkQ, gcdQ, gcdFuel, List.find?, List.map, List.take, List.drop, List.takeWhile, List.dropWhile, List.dropLast, List.isEmpty, List.length, Option.map, Char.reduceEq, Char.reduceBEq, Char.reduceLE, Char.reduceLT, Char.reduceToNat, Char.reduceToLower, String.reduceMk, String.reduceEq, String.reduceBEq, Nat.reduceMul, Nat.reduceDiv, Nat.reduceMod, Nat.reducePow, Nat.reduceLeDiff, Nat.reduceLT, Nat.reduceGT, Int.reduceAdd, Int.reduceSub, Int.reduceMul, Int.reduceNeg, Int.reduceDiv, Int.reduceLT, Int.reduceLE, Int.reduceEq, Int.reduceBEq, Int.reduceToNat, Int.reduceAbs, Int.reducePow, Int.reduceMod, Int.reduceOfNat, Nat.cast_ofNat, Nat.cast_one, Nat.cast_zero]

/-- Parser step for input "1-2". -/
theorem ps_d_1 : uExprF 91 ⟨⟨['1', '-', '2'], 1, [⟨0, 1, Tok.NUM, "1"⟩]⟩, 0⟩ = .ok ((.Literal (.Number ⟨1, 1⟩ [] [])), ⟨⟨['1', '-', '2'], 2, [⟨0, 1, Tok.NUM, "1"⟩, ⟨1, 2, Tok.SIGN, "-"⟩]⟩, 1⟩) := by
  rw [uExprF]
  simp only [ps_d_0, tk_d_1, pPeek, pScan, pRewind, scanRewind, peekIn, tokMem, exceptBind_ok, exceptBind_error, exceptMap_ok, exceptMap_error, exceptPure, Option.some.injEq, reduceIte, reduceDIte, reduceCtorEq, Nat.reduceAdd, Nat.reduceSub, Nat.reduceEqDiff, decide_True, decide_False, decide_eq_true_eq, ne_eq, not_false_eq_true, not_true_eq_false, List.cons_append, List.nil_append, List.append_nil, or_self, or_false, false_or, and_self, and_true, true_and, u_expr_chks, u_expr_rsts, expr_rsts, expr_slst_rsts, expr_lst_rsts, and_test_rsts, not_test_rsts, comparison_rsts, comparison_chks, a_expr_rsts, a_expr_chks, m_expr_rsts, m_expr_chks, atom_rsts, atom_rsts_post, argspec_rsts, argspec_item_rsts, argspec_item_rsts_post, ne_eq]

/-- Parser step for input "1-2". -/
theorem ps_d_2 : mLoopF 91 (.Literal (.Number ⟨1, 1⟩ [] [])) ⟨⟨['1', '-', '2'], 2, [⟨0, 1, Tok.NUM, "1"⟩, ⟨1, 2, Tok.SIGN, "-"⟩]⟩, 1⟩ = .ok ((.Literal (.Number ⟨1, 1⟩ [] [])), ⟨⟨['1', '-', '2'], 2, [⟨0, 1, Tok.NUM, "1"⟩, ⟨1, 2, Tok.SIGN, "-"⟩]⟩, 1⟩) := by
  rw [mLoopF]
  simp only [tk_d_5, pPeek, pScan, pRewind, scanRewind, peekIn, tokMem, exceptBind_ok, exceptBind_error, exceptMap_ok, exceptMap_error, exceptPure, Option.some.injEq, reduceIte, reduceDIte, reduceCtorEq, Nat.reduceAdd, Nat.reduceSub, Nat.reduceEqDiff, decide_True, decide_False, decide_eq_true_eq, ne_eq, not_false_eq_true, not_true_eq_false, List.cons_append, List.nil_append, List.append_nil, or_self, or_false, false_or, and_self, and_true, true_and, u_expr_chks, u_expr_rsts, expr_rsts, expr_slst_rsts, expr_lst_rsts, and_test_rsts, not_test_rsts, comparison_rsts, comparison_chks, a_expr_rsts, a_expr_chks, m_expr_rsts, m_expr_chks, atom_rsts, atom_rsts_post, argspec_rsts, argspec_item_rsts, argspec_item_rsts_post, ne_eq]

/-- Parser step for input "1-2". -/
theorem ps_d_3 : mExprF 92 ⟨⟨['1', '-', '2'], 1, [⟨0, 1, Tok.NUM, "1"⟩]⟩, 0⟩ = .ok ((.Literal (.Number ⟨1, 1⟩ [] [])), ⟨⟨['1', '-', '2'], 2, [⟨0, 1, Tok.NUM, "1"⟩, ⟨1, 2, Tok.SIGN, "-"⟩]⟩, 1⟩) := by
  rw [mExprF, ps_d_1]
  rw [exceptBind_ok]
  simp only [ps_d_2, pPeek, pScan, pRewind, scanRewind, peekIn, tokMem, exceptBind_ok, exceptBind_error, exceptMap_ok, exceptMap_error, exceptPure, Option.some.injEq, reduceIte, reduceDIte, reduceCtorEq, Nat.reduceAdd, Nat.reduceSub, Nat.reduceEqDiff, decide_True, decide_False, decide_eq_true_eq, ne_eq, not_false_eq_true, not_true_eq_false, List.cons_append, List.nil_append, List.append_nil, or_self, or_false, false_or, and_self, and_true, true_and, u_expr_chks, u_expr_rsts, expr_rsts, expr_slst_rsts, expr_lst_rsts, and_test_rsts, not_test_rsts, comparison_rsts, comparison_chks, a_expr_rsts, a_expr_chks, m_expr_rsts, m_expr_chks, atom_rsts, atom_rsts_post, argspec_rsts, argspec_item_rsts, argspec_item_rsts_post, ne_eq]

/-- Parser step for input "1-2". -/
theorem ps_d_4 : aLoopF 92 (.Literal (.Number ⟨1, 1⟩ [] [])) ⟨⟨['1', '-', '2'], 2, [⟨0, 1, Tok.NUM, "1"⟩, ⟨1, 2, Tok.SIGN, "-"⟩]⟩, 1⟩ = .ok ((.Literal (.Number ⟨1, 1⟩ [] [])), ⟨⟨['1', '-', '2'], 2, [⟨0, 1, Tok.NUM, "1"⟩, ⟨1, 2, Tok.SIGN, "-"⟩]⟩, 1⟩) := by
  rw [aLoopF]
  simp only [tk_d_6, pPeek, pScan, pRewind, scanRewind, peekIn, tokMem, exceptBind_ok, exceptBind_error, exceptMap_ok, exceptMap_error, exceptPure, Option.some.injEq, reduceIte, reduceDIte, reduceCtorEq, Nat.reduceAdd, Nat.reduceSub, Nat.reduceEqDiff, decide_True, decide_False, decide_eq_true_eq, ne_eq, not_false_eq_true, not_true_eq_false, List.cons_append, List.nil_append, List.append_nil, or_self, or_false, false_or, and_self, and_true, true_and, u_expr_chks, u_expr_rsts, expr_rsts, expr_slst_rsts, expr_lst_rsts, and_test_rsts, not_test_rsts, comparison_rsts, comparison_chks, a_expr_rsts, a_expr_chks, m_expr_rsts, m_expr_chks, atom_rsts, atom_rsts_post, argspec_rsts, argspec_item_rsts, argspec_item_rsts_post, ne_eq]

/-- Parser step for input "1-2". -/
theorem ps_d_5 : aExprF 93 ⟨⟨['1', '-', '2'], 1, [⟨0, 1, Tok.NUM, "1"⟩]⟩, 0⟩ = .ok ((.Literal (.Number ⟨1, 1⟩ [] [])), ⟨⟨['1', '-', '2'], 2, [⟨0, 1, Tok.NUM, "1"⟩, ⟨1, 2, Tok.SIGN, "-"⟩]⟩, 1⟩) := by
  rw [aExprF, ps_d_3]
  rw [exceptBind_ok]
  simp only [ps_d_4, pPeek, pScan, pRewind, scanRewind, peekIn, tokMem, exceptBind_ok, exceptBind_error, exceptMap_ok, exceptMap_error, exceptPure, Option.some.injEq, reduceIte, reduceDIte, reduceCtorEq, Nat.reduceAdd, Nat.reduceSub, Nat.reduceEqDiff, decide_True, decide_False, decide_eq_true_eq, ne_eq, not_false_eq_true, not_true_eq_false, List.cons_append, List.nil_append, List.append_nil, or_self, or_false, false_or, and_self, and_true, true_and, u_expr_chks, u_expr_rsts, expr_rsts, expr_slst_rsts, expr_lst_rsts, and_test_rsts, not_test_rsts, comparison_rsts, comparison_chks, a_expr_rsts, a_expr_chks, m_expr_rsts, m_expr_chks, atom_rsts, atom_rsts_post, argspec_rsts, argspec_item_rsts, argspec_item_rsts_post, ne_eq]

/-- Parser step for input "1-2". -/
theorem ps_d_6 : compLoopF 93 (.Literal (.Number ⟨1, 1⟩ [] [])) ⟨⟨['1', '-', '2'], 2, [⟨0, 1, Tok.NUM, "1"⟩, ⟨1, 2, Tok.SIGN, "-"⟩]⟩, 1⟩ = .ok ((.Literal (.Number ⟨1, 1⟩ [] [])), ⟨⟨['1', '-', '2'], 2, [⟨0, 1, Tok.NUM, "1"⟩, ⟨1, 2, Tok.SIGN, "-"⟩]⟩, 1⟩) := by
  rw [compLoopF]
  simp only [tk_d_7, pPeek, pScan, pRewind, scanRewind, peekIn, tokMem, exceptBind_ok, exceptBind_error, exceptMap_ok, exceptMap_error, exceptPure, Option.some.injEq, reduceIte, reduceDIte, reduceCtorEq, Nat.reduceAdd, Nat.reduceSub, Nat.reduceEqDiff, decide_True, decide_False, decide_eq_true_eq, ne_eq, not_false_eq_true, not_true_eq_false, List.cons_append, List.nil_append, List.append_nil, or_self, or_false, false_or, and_self, and_true, true_and, u_expr_chks, u_expr_rsts, expr_rsts, expr_slst_rsts, expr_lst_rsts, and_test_rsts, not_test_rsts, comparison_rsts, comparison_chks, a_expr_rsts, a_expr_chks, m_expr_rsts, m_expr_chks, atom_rsts, atom_rsts_post, argspec_rsts, argspec_item_rsts, argspec_item_rsts_post, ne_eq]

/-- Parser step for input "1-2". -/
theorem ps_d_7 : comparisonF 94 ⟨⟨['1', '-', '2'], 1, [⟨0, 1, Tok.NUM, "1"⟩]⟩, 0⟩ = .ok ((.Literal (.Number ⟨1, 1⟩ [] [])), ⟨⟨['1', '-', '2'], 2, [⟨0, 1, Tok.NUM, "1"⟩, ⟨1, 2, Tok.SIGN, "-"⟩]⟩, 1⟩) := by
  rw [comparisonF, ps_d_5]
  rw [exceptBind_ok]
  simp only [ps_d_6, pPeek, pScan, pRewind, scanRewind, peekIn, tokMem, exceptBind_ok, exceptBind_error, exceptMap_ok, exceptMap_error, exceptPure, Option.some.injEq, reduceIte, reduceDIte, reduceCtorEq, Nat.reduceAdd, Nat.reduceSub, Nat.reduceEqDiff, decide_True, decide_False, decide_eq_true_eq, ne_eq, not_false_eq_true, not_true_eq_false, List.cons_append, List.nil_append, List.append_nil, or_self, or_false, false_or, and_self, and_true, true_and, u_expr_chks, u_expr_rsts, expr_rsts, expr_slst_rsts, expr_lst_rsts, and_test_rsts, not_test_rsts, comparison_rsts, comparison_chks, a_expr_rsts, a_expr_chks, m_expr_rsts, m_expr_chks, atom_rsts, atom_rsts_post, argspec_rsts, argspec_item_rsts, argspec_item_rsts_post, ne_eq]

/-- Parser step for input "1-2". -/
theorem ps_d_8 : notTestF 95 ⟨⟨['1', '-', '2'], 0, []⟩, 0⟩ = .ok ((.Literal (.Number ⟨1, 1⟩ [] [])), ⟨⟨['1', '-', '2'], 2, [⟨0, 1, Tok.NUM, "1"⟩, ⟨1, 2, Tok.SIGN, "-"⟩]⟩, 1⟩) := by
  rw [notTestF]
  simp only [ps_d_7, tk_d_0, pPeek, pScan, pRewind, scanRewind, peekIn, tokMem, exceptBind_ok, exceptBind_error, exceptMap_ok, exceptMap_error, exceptPure, Option.some.injEq, reduceIte, reduceDIte, reduceCtorEq, Nat.reduceAdd, Nat.reduceSub, Nat.reduceEqDiff, decide_True, decide_False, decide_eq_true_eq, ne_eq, not_false_eq_true, not_true_eq_false, List.cons_append, List.nil_append, List.append_nil, or_self, or_false, false_or, and_self, and_true, true_and, u_expr_chks, u_expr_rsts, expr_rsts, expr_slst_rsts, expr_lst_rsts, and_test_rsts, not_test_rsts, comparison_rsts, comparison_chks, a_expr_rsts, a_expr_chks, m_expr_rsts, m_expr_chks, atom_rsts, atom_rsts_post, argspec_rsts, argspec_item_rsts, argspec_item_rsts_post, ne_eq]

/-- Parser step for input "1-2". -/
theorem ps_d_9 : andLoopF 95 (.Literal (.Number ⟨1, 1⟩ [] [])) ⟨⟨['1', '-', '2'], 2, [⟨0, 1, Tok.NUM, "1"⟩, ⟨1, 2, Tok.SIGN, "-"⟩]⟩, 1⟩ = .ok ((.Literal (.Number ⟨1, 1⟩ [] [])), ⟨⟨['1', '-', '2'], 2, [⟨0, 1, Tok.NUM, "1"⟩, ⟨1, 2, Tok.SIGN, "-"⟩]⟩, 1⟩) := by
  rw [andLoopF]
  simp only [tk_d_8, pPeek, pScan, pRewind, scanRewind, peekIn, tokMem, exceptBind_ok, exceptBind_error, exceptMap_ok, exceptMap_error, exceptPure, Option.some.injEq, reduceIte, reduceDIte, reduceCtorEq, Nat.reduceAdd, Nat.reduceSub, Nat.reduceEqDiff, decide_True, decide_False, decide_eq_true_eq, ne_eq, not_false_eq_true, not_true_eq_false, List.cons_append, List.nil_append, List.append_nil, or_self, or_false, false_or, and_self, and_true, true_and, u_expr_chks, u_expr_rsts, expr_rsts, expr_slst_rsts, expr_lst_rsts, and_test_rsts, not_test_rsts, comparison_rsts, comparison_chks, a_expr_rsts, a_expr_chks, m_expr_rsts, m_expr_chks, atom_rsts, atom_rsts_post, argspec_rsts, argspec_item_rsts, argspec_item_rsts_post, ne_eq]

/-- Parser step for input "1-2". -/
theorem ps_d_10 : andTestF 96 ⟨⟨['1', '-', '2'], 0, []⟩, 0⟩ = .ok ((.Literal (.Number ⟨1, 1⟩ [] [])), ⟨⟨['1', '-', '2'], 2, [⟨0, 1, Tok.NUM, "1"⟩, ⟨1, 2, Tok.SIGN, "-"⟩]⟩, 1⟩) := by
  rw [andTestF, ps_d_8]
  rw [exceptBind_ok]
  simp only [ps_d_9, pPeek, pScan, pRewind, scanRewind, peekIn, tokMem, exceptBind_ok, exceptBind_error, exceptMap_ok, exceptMap_error, exceptPure, Option.some.injEq, reduceIte, reduceDIte, reduceCtorEq, Nat.reduceAdd, Nat.reduceSub, Nat.reduceEqDiff, decide_True, decide_False, decide_eq_true_eq, ne_eq, not_false_eq_true, not_true_eq_false, List.cons_append, List.nil_append, List.append_nil, or_self, or_false, false_or, and_self, and_true, true_and, u_expr_chks, u_expr_rsts, expr_rsts, expr_slst_rsts, expr_lst_rsts, and_test_rsts, not_test_rsts, comparison_rsts, comparison_chks, a_expr_rsts, a_expr_chks, m_expr_rsts, m_expr_chks, atom_rsts, atom_rsts_post, argspec_rsts, argspec_item_rsts, argspec_item_rsts_post, ne_eq]

/-- Parser step for input "1-2". -/
theorem ps_d_11 : exprLoopF 96 (.Literal (.Number ⟨1, 1⟩ [] [])) ⟨⟨['1', '-', '2'], 2, [⟨0, 1, Tok.NUM, "1"⟩, ⟨1, 2, Tok.SIGN, "-"⟩]⟩, 1⟩ = .ok ((.Literal (.Number ⟨1, 1⟩ [] [])), ⟨⟨['1', '-', '2'], 2, [⟨0, 1, Tok.NUM, "1"⟩, ⟨1, 2, Tok.SIGN, "-"⟩]⟩, 1⟩) := by
  rw [exprLoopF]
  simp only [tk_d_9, pPeek, pScan, pRewind, scanRewind, peekIn, tokMem, exceptBind_ok, exceptBind_error, exceptMap_ok, exceptMap_error, exceptPure, Option.some.injEq, reduceIte, reduceDIte, reduceCtorEq, Nat.reduceAdd, Nat.reduceSub, Nat.reduceEqDiff, decide_True, decide_False, decide_eq_true_eq, ne_eq, not_false_eq_true, not_true_eq_false, List.cons_append, List.nil_append, List.append_nil, or_self, or_false, false_or, and_self, and_true, true_and, u_expr_chks, u_expr_rsts, expr_rsts, expr_slst_rsts, expr_lst_rsts, and_test_rsts, not_test_rsts, comparison_rsts, comparison_chks, a_expr_rsts, a_expr_chks, m_expr_rsts, m_expr_chks, atom_rsts, atom_rsts_post, argspec_rsts, argspec_item_rsts, argspec_item_rsts_post, ne_eq]

/-- Parser step for input "1-2". -/
theorem ps_d_12 : exprF 97 ⟨⟨['1', '-', '2'], 0, []⟩, 0⟩ = .ok ((.Literal (.Number ⟨1, 1⟩ [] [])), ⟨⟨['1', '-', '2'], 2, [⟨0, 1, Tok.NUM, "1"⟩, ⟨1, 2, Tok.SIGN, "-"⟩]⟩, 1⟩) := by
  rw [exprF, ps_d_10]
  rw [exceptBind_ok]
  simp only [ps_d_11, pPeek, pScan, pRewind, scanRewind, peekIn, tokMem, exceptBind_ok, exceptBind_error, exceptMap_ok, exceptMap_error, exceptPure, Option.some.injEq, reduceIte, reduceDIte, reduceCtorEq, Nat.reduceAdd, Nat.reduceSub, Nat.reduceEqDiff, decide_True, decide_False, decide_eq_true_eq, ne_eq, not_false_eq_true, not_true_eq_false, List.cons_append, List.nil_append, List.append_nil, or_self, or_false, false_or, and_self, and_true, true_and, u_expr_chks, u_expr_rsts, expr_rsts, expr_slst_rsts, expr_lst_rsts, and_test_rsts, not_test_rsts, comparison_rsts, comparison_chks, a_expr_rsts, a_expr_chks, m_expr_rsts, m_expr_chks, atom_rsts, atom_rsts_post, argspec_rsts, argspec_item_rsts, argspec_item_rsts_post, ne_eq]

/-- Parser step for input "1-2". -/
theorem ps_d_13 : atomF 88 ⟨⟨['1', '-', '2'], 3, [⟨0, 1, Tok.NUM, "1"⟩, ⟨1, 2, Tok.SIGN, "-"⟩, ⟨2, 3, Tok.NUM, "2"⟩]⟩, 2⟩ = .ok ((.Literal (.Number ⟨2, 1⟩ [] [])), ⟨⟨['1', '-', '2'], 3, [⟨0, 1, Tok.NUM, "1"⟩, ⟨1, 2, Tok.SIGN, "-"⟩, ⟨2, 3, Tok.NUM, "2"⟩, ⟨3, 3, Tok.END, ""⟩]⟩, 3⟩) := by
  rw [atomF]
  simp only [tk_d_15, tk_d_16, tk_d_17, pPeek, pScan, pRewind, scanRewind, peekIn, tokMem, exceptBind_ok, exceptBind_error, exceptMap_ok, exceptMap_error, exceptPure, Option.some.injEq, reduceIte, reduceDIte, reduceCtorEq, Nat.reduceAdd, Nat.reduceSub, Nat.reduceEqDiff, decide_True, decide_False, decide_eq_true_eq, ne_eq, not_false_eq_true, not_true_eq_false, List.cons_append, List.nil_append, List.append_nil, or_self, or_false, false_or, and_self, and_true, true_and, u_expr_chks, u_expr_rsts, expr_rsts, expr_slst_rsts, expr_lst_rsts, and_test_rsts, not_test_rsts, comparison_rsts, comparison_chks, a_expr_rsts, a_expr_chks, m_expr_rsts, m_expr_chks, atom_rsts, atom_rsts_post, argspec_rsts, argspec_item_rsts, argspec_item_rsts_post, sdata0, sdata1, sdata2, sdata3, sdata4, sdata5, sdata6, sdata7, sdata8, parse_bareword, COLOR_NAMES, parseNum, digitsToNat, lowerStr, parseHexColor, hexToNat, isDigitC, isAlphaC, SassQ.add, SassQ.fromNat, mkQ, gcdQ, gcdFuel, List.find?, List.map, List.take, List.drop, List.takeWhile, List.dropWhile, List.dropLast, List.isEmpty, List.length, Option.map, Char.reduceEq, Char.reduceBEq, Char.reduceLE, Char.reduceLT, Char.reduceToNat, Char.reduceToLower, String.reduceMk, String.reduceEq, String.reduceBEq, Nat.reduceMul, Nat.reduceDiv, Nat.reduceMod, Nat.reducePow, Nat.reduceLeDiff, Nat.reduceLT, Nat.reduceGT, Int.reduceAdd, Int.reduceSub, Int.reduceMul, Int.reduceNeg, Int.reduceDiv, Int.reduceLT, Int.reduceLE, Int.reduceEq, Int.reduceBEq, Int.reduceToNat, Int.reduceAbs, Int.reducePow, Int.reduceMod, Int.reduceOfNat, Nat.cast_ofNat, Nat.cast_one, Nat.cast_zero]

/-- Parser step for input "1-2". -/
theorem ps_d_14 : uExprF 89 ⟨⟨['1', '-', '2'], 2, [⟨0, 1, Tok.NUM, "1"⟩, ⟨1, 2, Tok.SIGN, "-"⟩]⟩, 2⟩ = .ok ((.Literal (.Number ⟨2, 1⟩ [] [])), ⟨⟨['1', '-', '2'], 3, [⟨0, 1, Tok.NUM, "1"⟩, ⟨1, 2, Tok.SIGN, "-"⟩, ⟨2, 3, Tok.NUM, "2"⟩, ⟨3, 3, Tok.END, ""⟩]⟩, 3⟩) := by
  rw [uExprF]
  simp only [ps_d_13, tk_d_14, pPeek, pScan, pRewind, scanRewind, peekIn, tokMem, exceptBind_ok, exceptBind_error, exceptMap_ok, exceptMap_error, exceptPure, Option.some.injEq, reduceIte, reduceDIte, reduceCtorEq, Nat.reduceAdd, Nat.reduceSub, Nat.reduceEqDiff, decide_True, decide_False, decide_eq_true_eq, ne_eq, not_false_eq_true, not_true_eq_false, List.cons_append, List.nil_append, List.append_nil, or_self, or_false, false_or, and_self, and_true, true_and, u_expr_chks, u_expr_rsts, expr_rsts, expr_slst_rsts, expr_lst_rsts, and_test_rsts, not_test_rsts, comparison_rsts, comparison_chks, a_expr_rsts, a_expr_chks, m_expr_rsts, m_expr_chks, atom_rsts, atom_rsts_post, argspec_rsts, argspec_item_rsts, argspec_item_rsts_post, ne_eq]

/-- Parser step for input "1-2". -/
theorem ps_d_15 : uExprF 90 ⟨⟨['1', '-', '2'], 2, [⟨0, 1, Tok.NUM, "1"⟩, ⟨1, 2, Tok.SIGN, "-"⟩]⟩, 1⟩ = .ok ((.UnaryOp .neg (.Literal (.Number ⟨2, 1⟩ [] []))), ⟨⟨['1', '-', '2'], 3, [⟨0, 1, Tok.NUM, "1"⟩, ⟨1, 2, Tok.SIGN, "-"⟩, ⟨2, 3, Tok.NUM, "2"⟩, ⟨3, 3, Tok.END, ""⟩]⟩, 3⟩) := by
  rw [uExprF]
  simp only [ps_d_14, tk_d_12, tk_d_13, pPeek, pScan, pRewind, scanRewind, peekIn, tokMem, exceptBind_ok, exceptBind_error, exceptMap_ok, exceptMap_error, exceptPure, Option.some.injEq, reduceIte, reduceDIte, reduceCtorEq, Nat.reduceAdd, Nat.reduceSub, Nat.reduceEqDiff, decide_True, decide_False, decide_eq_true_eq, ne_eq, not_false_eq_true, not_true_eq_false, List.cons_append, List.nil_append, List.append_nil, or_self, or_false, false_or, and_self, and_true, true_and, u_expr_chks, u_expr_rsts, expr_rsts, expr_slst_rsts, expr_lst_rsts, and_test_rsts, not_test_rsts, comparison_rsts, comparison_chks, a_expr_rsts, a_expr_chks, m_expr_rsts, m_expr_chks, atom_rsts, atom_rsts_post, argspec_rsts, argspec_item_rsts, argspec_item_rsts_post, ne_eq]

/-- Parser step for input "1-2". -/
theorem ps_d_16 : mLoopF 90 (.UnaryOp .neg (.Literal (.Number ⟨2, 1⟩ [] []))) ⟨⟨['1', '-', '2'], 3, [⟨0, 1, Tok.NUM, "1"⟩, ⟨1, 2, Tok.SIGN, "-"⟩, ⟨2, 3, Tok.NUM, "2"⟩, ⟨3, 3, Tok.END, ""⟩]⟩, 3⟩ = .ok ((.UnaryOp .neg (.Literal (.Number ⟨2, 1⟩ [] []))), ⟨⟨['1', '-', '2'], 3, [⟨0, 1, Tok.NUM, "1"⟩, ⟨1, 2, Tok.SIGN, "-"⟩, ⟨2, 3, Tok.NUM, "2"⟩, ⟨3, 3, Tok.END, ""⟩]⟩, 3⟩) := by
  rw [mLoopF]
  simp only [tk_d_18, pPeek, pScan, pRewind, scanRewind, peekIn, tokMem, exceptBind_ok, exceptBind_error, exceptMap_ok, exceptMap_error, exceptPure, Option.some.injEq, reduceIte, reduceDIte, reduceCtorEq, Nat.reduceAdd, Nat.reduceSub, Nat.reduceEqDiff, decide_True, decide_False, decide_eq_true_eq, ne_eq, not_false_eq_true, not_true_eq_false, List.cons_append, List.nil_append, List.append_nil, or_self, or_false, false_or, and_self, and_true, true_and, u_expr_chks, u_expr_rsts, expr_rsts, expr_slst_rsts, expr_lst_rsts, and_test_rsts, not_test_rsts, comparison_rsts, comparison_chks, a_expr_rsts, a_expr_chks, m_expr_rsts, m_expr_chks, atom_rsts, atom_rsts_post, argspec_rsts, argspec_item_rsts, argspec_item_rsts_post, ne_eq]

/-- Parser step for input "1-2". -/
theorem ps_d_17 : mExprF 91 ⟨⟨['1', '-', '2'], 2, [⟨0, 1, Tok.NUM, "1"⟩, ⟨1, 2, Tok.SIGN, "-"⟩]⟩, 1⟩ = .ok ((.UnaryOp .neg (.Literal (.Number ⟨2, 1⟩ [] []))), ⟨⟨['1', '-', '2'], 3, [⟨0, 1, Tok.NUM, "1"⟩, ⟨1, 2, Tok.SIGN, "-"⟩, ⟨2, 3, Tok.NUM, "2"⟩, ⟨3, 3, Tok.END, ""⟩]⟩, 3⟩) := by
  rw [mExprF, ps_d_15]
  rw [exceptBind_ok]
  simp only [ps_d_16, pPeek, pScan, pRewind, scanRewind, peekIn, tokMem, exceptBind_ok, exceptBind_error, exceptMap_ok, exceptMap_error, exceptPure, Option.some.injEq, reduceIte, reduceDIte, reduceCtorEq, Nat.reduceAdd, Nat.reduceSub, Nat.reduceEqDiff, decide_True, decide_False, decide_eq_true_eq, ne_eq, not_false_eq_true, not_true_eq_false, List.cons_append, List.nil_append, List.append_nil, or_self, or_false, false_or, and_self, and_true, true_and, u_expr_chks, u_expr_rsts, expr_rsts, expr_slst_rsts, expr_lst_rsts, and_test_rsts, not_test_rsts, comparison_rsts, comparison_chks, a_expr_rsts, a_expr_chks, m_expr_rsts, m_expr_chks, atom_rsts, atom_rsts_post, argspec_rsts, argspec_item_rsts, argspec_item_rsts_post, ne_eq]

/-- Parser step for input "1-2". -/
theorem ps_d_18 : aLoopF 91 (.UnaryOp .neg (.Literal (.Number ⟨2, 1⟩ [] []))) ⟨⟨['1', '-', '2'], 3, [⟨0, 1, Tok.NUM, "1"⟩, ⟨1, 2, Tok.SIGN, "-"⟩, ⟨2, 3, Tok.NUM, "2"⟩, ⟨3, 3, Tok.END, ""⟩]⟩, 3⟩ = .ok ((.UnaryOp .neg (.Literal (.Number ⟨2, 1⟩ [] []))), ⟨⟨['1', '-', '2'], 3, [⟨0, 1, Tok.NUM, "1"⟩, ⟨1, 2, Tok.SIGN, "-"⟩, ⟨2, 3, Tok.NUM, "2"⟩, ⟨3, 3, Tok.END, ""⟩]⟩, 3⟩) := by
  rw [aLoopF]
  simp only [tk_d_19, pPeek, pScan, pRewind, scanRewind, peekIn, tokMem, exceptBind_ok, exceptBind_error, exceptMap_ok, exceptMap_error, exceptPure, Option.some.injEq, reduceIte, reduceDIte, reduceCtorEq, Nat.reduceAdd, Nat.reduceSub, Nat.reduceEqDiff, decide_True, decide_False, decide_eq_true_eq, ne_eq, not_false_eq_true, not_true_eq_false, List.cons_append, List.nil_append, List.append_nil, or_self, or_false, false_or, and_self, and_true, true_and, u_expr_chks, u_expr_rsts, expr_rsts, expr_slst_rsts, expr_lst_rsts, and_test_rsts, not_test_rsts, comparison_rsts, comparison_chks, a_expr_rsts, a_expr_chks, m_expr_rsts, m_expr_chks, atom_rsts, atom_rsts_post, argspec_rsts, argspec_item_rsts, argspec_item_rsts_post, ne_eq]

/-- Parser step for input "1-2". -/
theorem ps_d_19 : aExprF 92 ⟨⟨['1', '-', '2'], 2, [⟨0, 1, Tok.NUM, "1"⟩, ⟨1, 2, Tok.SIGN, "-"⟩]⟩, 1⟩ = .ok ((.UnaryOp .neg (.Literal (.Number ⟨2, 1⟩ [] []))), ⟨⟨['1', '-', '2'], 3, [⟨0, 1, Tok.NUM, "1"⟩, ⟨1, 2, Tok.SIGN, "-"⟩, ⟨2, 3, Tok.NUM, "2"⟩, ⟨3, 3, Tok.END, ""⟩]⟩, 3⟩) := by
  rw [aExprF, ps_d_17]
  rw [exceptBind_ok]
  simp only [ps_d_18, pPeek, pScan, pRewind, scanRewind, peekIn, tokMem, exceptBind_ok, exceptBind_error, exceptMap_ok, exceptMap_error, exceptPure, Option.some.injEq, reduceIte, reduceDIte, reduceCtorEq, Nat.reduceAdd, Nat.reduceSub, Nat.reduceEqDiff, decide_True, decide_False, decide_eq_true_eq, ne_eq, not_false_eq_true, not_true_eq_false, List.cons_append, List.nil_append, List.append_nil, or_self, or_false, false_or, and_self, and_true, true_and, u_expr_chks, u_expr_rsts, expr_rsts, expr_slst_rsts, expr_lst_rsts, and_test_rsts, not_test_rsts, comparison_rsts, comparison_chks, a_expr_rsts, a_expr_chks, m_expr_rsts, m_expr_chks, atom_rsts, atom_rsts_post, argspec_rsts, argspec_item_rsts, argspec_item_rsts_post, ne_eq]

/-- Parser step for input "1-2". -/
theorem ps_d_20 : compLoopF 92 (.UnaryOp .neg (.Literal (.Number ⟨2, 1⟩ [] []))) ⟨⟨['1', '-', '2'], 3, [⟨0, 1, Tok.NUM, "1"⟩, ⟨1, 2, Tok.SIGN, "-"⟩, ⟨2, 3, Tok.NUM, "2"⟩, ⟨3, 3, Tok.END, ""⟩]⟩, 3⟩ = .ok ((.UnaryOp .neg (.Literal (.Number ⟨2, 1⟩ [] []))), ⟨⟨['1', '-', '2'], 3, [⟨0, 1, Tok.NUM, "1"⟩, ⟨1, 2, Tok.SIGN, "-"⟩, ⟨2, 3, Tok.NUM, "2"⟩, ⟨3, 3, Tok.END, ""⟩]⟩, 3⟩) := by
  rw [compLoopF]
  simp only [tk_d_20, pPeek, pScan, pRewind, scanRewind, peekIn, tokMem, exceptBind_ok, exceptBind_error, exceptMap_ok, exceptMap_error, exceptPure, Option.some.injEq, reduceIte, reduceDIte, reduceCtorEq, Nat.reduceAdd, Nat.reduceSub, Nat.reduceEqDiff, decide_True, decide_False, decide_eq_true_eq, ne_eq, not_false_eq_true, not_true_eq_false, List.cons_append, List.nil_append, List.append_nil, or_self, or_false, false_or, and_self, and_true, true_and, u_expr_chks, u_expr_rsts, expr_rsts, expr_slst_rsts, expr_lst_rsts, and_test_rsts, not_test_rsts, comparison_rsts, comparison_chks, a_expr_rsts, a_expr_chks, m_expr_rsts, m_expr_chks, atom_rsts, atom_rsts_post, argspec_rsts, argspec_item_rsts, argspec_item_rsts_post, ne_eq]

/-- Parser step for input "1-2". -/
theorem ps_d_21 : comparisonF 93 ⟨⟨['1', '-', '2'], 2, [⟨0, 1, Tok.NUM, "1"⟩, ⟨1, 2, Tok.SIGN, "-"⟩]⟩, 1⟩ = .ok ((.UnaryOp .neg (.Literal (.Number ⟨2, 1⟩ [] []))), ⟨⟨['1', '-', '2'], 3, [⟨0, 1, Tok.NUM, "1"⟩, ⟨1, 2, Tok.SIGN, "-"⟩, ⟨2, 3, Tok.NUM, "2"⟩, ⟨3, 3, Tok.END, ""⟩]⟩, 3⟩) := by
  rw [comparisonF, ps_d_19]
  rw [exceptBind_ok]
  simp only [ps_d_20, pPeek, pScan, pRewind, scanRewind, peekIn, tokMem, exceptBind_ok, exceptBind_error, exceptMap_ok, exceptMap_error, exceptPure, Option.some.injEq, reduceIte, reduceDIte, reduceCtorEq, Nat.reduceAdd, Nat.reduceSub, Nat.reduceEqDiff, decide_True, decide_False, decide_eq_true_eq, ne_eq, not_false_eq_true, not_true_eq_false, List.cons_append, List.nil_append, List.append_nil, or_self, or_false, false_or, and_self, and_true, true_and, u_expr_chks, u_expr_rsts, expr_rsts, expr_slst_rsts, expr_lst_rsts, and_test_rsts, not_test_rsts, comparison_rsts, comparison_chks, a_expr_rsts, a_expr_chks, m_expr_rsts, m_expr_chks, atom_rsts, atom_rsts_post, argspec_rsts, argspec_item_rsts, argspec_item_rsts_post, ne_eq]

/-- Parser step for input "1-2". -/
theorem ps_d_22 : notTestF 94 ⟨⟨['1', '-', '2'], 2, [⟨0, 1, Tok.NUM, "1"⟩, ⟨1, 2, Tok.SIGN, "-"⟩]⟩, 1⟩ = .ok ((.UnaryOp .neg (.Literal (.Number ⟨2, 1⟩ [] []))), ⟨⟨['1', '-', '2'], 3, [⟨0, 1, Tok.NUM, "1"⟩, ⟨1, 2, Tok.SIGN, "-"⟩, ⟨2, 3, Tok.NUM, "2"⟩, ⟨3, 3, Tok.END, ""⟩]⟩, 3⟩) := by
  rw [notTestF]
  simp only [ps_d_21, tk_d_11, pPeek, pScan, pRewind, scanRewind, peekIn, tokMem, exceptBind_ok, exceptBind_error, exceptMap_ok, exceptMap_error, exceptPure, Option.some.injEq, reduceIte, reduceDIte, reduceCtorEq, Nat.reduceAdd, Nat.reduceSub, Nat.reduceEqDiff, decide_True, decide_False, decide_eq_true_eq, ne_eq, not_false_eq_true, not_true_eq_false, List.cons_append, List.nil_append, List.append_nil, or_self, or_false, false_or, and_self, and_true, true_and, u_expr_chks, u_expr_rsts, expr_rsts, expr_slst_rsts, expr_lst_rsts, and_test_rsts, not_test_rsts, comparison_rsts, comparison_chks, a_expr_rsts, a_expr_chks, m_expr_rsts, m_expr_chks, atom_rsts, atom_rsts_post, argspec_rsts, argspec_item_rsts, argspec_item_rsts_post, ne_eq]

/-- Parser step for input "1-2". -/
theorem ps_d_23 : andLoopF 94 (.UnaryOp .neg (.Literal (.Number ⟨2, 1⟩ [] []))) ⟨⟨['1', '-', '2'], 3, [⟨0, 1, Tok.NUM, "1"⟩, ⟨1, 2, Tok.SIGN, "-"⟩, ⟨2, 3, Tok.NUM, "2"⟩, ⟨3, 3, Tok.END, ""⟩]⟩, 3⟩ = .ok ((.UnaryOp .neg (.Literal (.Number ⟨2, 1⟩ [] []))), ⟨⟨['1', '-', '2'], 3, [⟨0, 1, Tok.NUM, "1"⟩, ⟨1, 2, Tok.SIGN, "-"⟩, ⟨2, 3, Tok.NUM, "2"⟩, ⟨3, 3, Tok.END, ""⟩]⟩, 3⟩) := by
  rw [andLoopF]
  simp only [tk_d_21, pPeek, pScan, pRewind, scanRewind, peekIn, tokMem, exceptBind_ok, exceptBind_error, exceptMap_ok, exceptMap_error, exceptPure, Option.some.injEq, reduceIte, reduceDIte, reduceCtorEq, Nat.reduceAdd, Nat.reduceSub, Nat.reduceEqDiff, decide_True, decide_False, decide_eq_true_eq, ne_eq, not_false_eq_true, not_true_eq_false, List.cons_append, List.nil_append, List.append_nil, or_self, or_false, false_or, and_self, and_true, true_and, u_expr_chks, u_expr_rsts, expr_rsts, expr_slst_rsts, expr_lst_rsts, and_test_rsts, not_test_rsts, comparison_rsts, comparison_chks, a_expr_rsts, a_expr_chks, m_expr_rsts, m_expr_chks, atom_rsts, atom_rsts_post, argspec_rsts, argspec_item_rsts, argspec_item_rsts_post, ne_eq]

/-- Parser step for input "1-2". -/
theorem ps_d_24 : andTestF 95 ⟨⟨['1', '-', '2'], 2, [⟨0, 1, Tok.NUM, "1"⟩, ⟨1, 2, Tok.SIGN, "-"⟩]⟩, 1⟩ = .ok ((.UnaryOp .neg (.Literal (.Number ⟨2, 1⟩ [] []))), ⟨⟨['1', '-', '2'], 3, [⟨0, 1, Tok.NUM, "1"⟩, ⟨1, 2, Tok.SIGN, "-"⟩, ⟨2, 3, Tok.NUM, "2"⟩, ⟨3, 3, Tok.END, ""⟩]⟩, 3⟩) := by
  rw [andTestF, ps_d_22]
  rw [exceptBind_ok]
  simp only [ps_d_23, pPeek, pScan, pRewind, scanRewind, peekIn, tokMem, exceptBind_ok, exceptBind_error, exceptMap_ok, exceptMap_error, exceptPure, Option.some.injEq, reduceIte, reduceDIte, reduceCtorEq, Nat.reduceAdd, Nat.reduceSub, Nat.reduceEqDiff, decide_True, decide_False, decide_eq_true_eq, ne_eq, not_false_eq_true, not_true_eq_false, List.cons_append, List.nil_append, List.append_nil, or_self, or_false, false_or, and_self, and_true, true_and, u_expr_chks, u_expr_rsts, expr_rsts, expr_slst_rsts, expr_lst_rsts, and_test_rsts, not_test_rsts, comparison_rsts, comparison_chks, a_expr_rsts, a_expr_chks, m_expr_rsts, m_expr_chks, atom_rsts, atom_rsts_post, argspec_rsts, argspec_item_rsts, argspec_item_rsts_post, ne_eq]

/-- Parser step for input "1-2". -/
theorem ps_d_25 : exprLoopF 95 (.UnaryOp .neg (.Literal (.Number ⟨2, 1⟩ [] []))) ⟨⟨['1', '-', '2'], 3, [⟨0, 1, Tok.NUM, "1"⟩, ⟨1, 2, Tok.SIGN, "-"⟩, ⟨2, 3, Tok.NUM, "2"⟩, ⟨3, 3, Tok.END, ""⟩]⟩, 3⟩ = .ok ((.UnaryOp .neg (.Literal (.Number ⟨2, 1⟩ [] []))), ⟨⟨['1', '-', '2'], 3, [⟨0, 1, Tok.NUM, "1"⟩, ⟨1, 2, Tok.SIGN, "-"⟩, ⟨2, 3, Tok.NUM, "2"⟩, ⟨3, 3, Tok.END, ""⟩]⟩, 3⟩) := by
  rw [exprLoopF]
  simp only [tk_d_22, pPeek, pScan, pRewind, scanRewind, peekIn, tokMem, exceptBind_ok, exceptBind_error, exceptMap_ok, exceptMap_error, exceptPure, Option.some.injEq, reduceIte, reduceDIte, reduceCtorEq, Nat.reduceAdd, Nat.reduceSub, Nat.reduceEqDiff, decide_True, decide_False, decide_eq_true_eq, ne_eq, not_false_eq_true, not_true_eq_false, List.cons_append, List.nil_append, List.append_nil, or_self, or_false, false_or, and_self, and_true, true_and, u_expr_chks, u_expr_rsts, expr_rsts, expr_slst_rsts, expr_lst_rsts, and_test_rsts, not_test_rsts, comparison_rsts, comparison_chks, a_expr_rsts, a_expr_chks, m_expr_rsts, m_expr_chks, atom_rsts, atom_rsts_post, argspec_rsts, argspec_item_rsts, argspec_item_rsts_post, ne_eq]

/-- Parser step for input "1-2". -/
theorem ps_d_26 : exprF 96 ⟨⟨['1', '-', '2'], 2, [⟨0, 1, Tok.NUM, "1"⟩, ⟨1, 2, Tok.SIGN, "-"⟩]⟩, 1⟩ = .ok ((.UnaryOp .neg (.Literal (.Number ⟨2, 1⟩ [] []))), ⟨⟨['1', '-', '2'], 3, [⟨0, 1, Tok.NUM, "1"⟩, ⟨1, 2, Tok.SIGN, "-"⟩, ⟨2, 3, Tok.NUM, "2"⟩, ⟨3, 3, Tok.END, ""⟩]⟩, 3⟩) := by
  rw [exprF, ps_d_24]
  rw [exceptBind_ok]
  simp only [ps_d_25, pPeek, pScan, pRewind, scanRewind, peekIn, tokMem, exceptBind_ok, exceptBind_error, exceptMap_ok, exceptMap_error, exceptPure, Option.some.injEq, reduceIte, reduceDIte, reduceCtorEq, Nat.reduceAdd, Nat.reduceSub, Nat.reduceEqDiff, decide_True, decide_False, decide_eq_true_eq, ne_eq, not_false_eq_true, not_true_eq_false, List.cons_append, List.nil_append, List.append_nil, or_self, or_false, false_or, and_self, and_true, true_and, u_expr_chks, u_expr_rsts, expr_rsts, expr_slst_rsts, expr_lst_rsts, and_test_rsts, not_test_rsts, comparison_rsts, comparison_chks, a_expr_rsts, a_expr_chks, m_expr_rsts, m_expr_chks, atom_rsts, atom_rsts_post, argspec_rsts, argspec_item_rsts, argspec_item_rsts_post, ne_eq]

/-- Parser step for input "1-2". -/
theorem ps_d_27 : exprSlstLoopF 96 [(.Literal (.Number ⟨1, 1⟩ [] [])), (.UnaryOp .neg (.Literal (.Number ⟨2, 1⟩ [] [])))] ⟨⟨['1', '-', '2'], 3, [⟨0, 1, Tok.NUM, "1"⟩, ⟨1, 2, Tok.SIGN, "-"⟩, ⟨2, 3, Tok.NUM, "2"⟩, ⟨3, 3, Tok.END, ""⟩]⟩, 3⟩ = .ok ((.ListLiteral [(.Literal (.Number ⟨1, 1⟩ [] [])), (.UnaryOp .neg (.Literal (.Number ⟨2, 1⟩ [] [])))] false), ⟨⟨['1', '-', '2'], 3, [⟨0, 1, Tok.NUM, "1"⟩, ⟨1, 2, Tok.SIGN, "-"⟩, ⟨2, 3, Tok.NUM, "2"⟩, ⟨3, 3, Tok.END, ""⟩]⟩, 3⟩) := by
  rw [exprSlstLoopF]
  simp only [tk_d_23, pPeek, pScan, pRewind, scanRewind, peekIn, tokMem, exceptBind_ok, exceptBind_error, exceptMap_ok, exceptMap_error, exceptPure, Option.some.injEq, reduceIte, reduceDIte, reduceCtorEq, Nat.reduceAdd, Nat.reduceSub, Nat.reduceEqDiff, decide_True, decide_False, decide_eq_true_eq, ne_eq, not_false_eq_true, not_true_eq_false, List.cons_append, List.nil_append, List.append_nil, or_self, or_false, false_or, and_self, and_true, true_and, u_expr_chks, u_expr_rsts, expr_rsts, expr_slst_rsts, expr_lst_rsts, and_test_rsts, not_test_rsts, comparison_rsts, comparison_chks, a_expr_rsts, a_expr_chks, m_expr_rsts, m_expr_chks, atom_rsts, atom_rsts_post, argspec_rsts, argspec_item_rsts, argspec_item_rsts_post, ne_eq]

/-- Parser step for input "1-2". -/
theorem ps_d_28 : exprSlstLoopF 97 [(.Literal (.Number ⟨1, 1⟩ [] []))] ⟨⟨['1', '-', '2'], 2, [⟨0, 1, Tok.NUM, "1"⟩, ⟨1, 2, Tok.SIGN, "-"⟩]⟩, 1⟩ = .ok ((.ListLiteral [(.Literal (.Number ⟨1, 1⟩ [] [])), (.UnaryOp .neg (.Literal (.Number ⟨2, 1⟩ [] [])))] false), ⟨⟨['1', '-', '2'], 3, [⟨0, 1, Tok.NUM, "1"⟩, ⟨1, 2, Tok.SIGN, "-"⟩, ⟨2, 3, Tok.NUM, "2"⟩, ⟨3, 3, Tok.END, ""⟩]⟩, 3⟩) := by
  rw [exprSlstLoopF]
  simp only [ps_d_26, ps_d_27, tk_d_10, pPeek, pScan, pRewind, scanRewind, peekIn, tokMem, exceptBind_ok, exceptBind_error, exceptMap_ok, exceptMap_error, exceptPure, Option.some.injEq, reduceIte, reduceDIte, reduceCtorEq, Nat.reduceAdd, Nat.reduceSub, Nat.reduceEqDiff, decide_True, decide_False, decide_eq_true_eq, ne_eq, not_false_eq_true, not_true_eq_false, List.cons_append, List.nil_append, List.append_nil, or_self, or_false, false_or, and_self, and_true, true_and, u_expr_chks, u_expr_rsts, expr_rsts, expr_slst_rsts, expr_lst_rsts, and_test_rsts, not_test_rsts, comparison_rsts, comparison_chks, a_expr_rsts, a_expr_chks, m_expr_rsts, m_expr_chks, atom_rsts, atom_rsts_post, argspec_rsts, argspec_item_rsts, argspec_item_rsts_post, ne_eq]

/-- Parser step for input "1-2". -/
theorem ps_d_29 : exprSlstF 98 ⟨⟨['1', '-', '2'], 0, []⟩, 0⟩ = .ok ((.ListLiteral [(.Literal (.Number ⟨1, 1⟩ [] [])), (.UnaryOp .neg (.Literal (.Number ⟨2, 1⟩ [] [])))] false), ⟨⟨['1', '-', '2'], 3, [⟨0, 1, Tok.NUM, "1"⟩, ⟨1, 2, Tok.SIGN, "-"⟩, ⟨2, 3, Tok.NUM, "2"⟩, ⟨3, 3, Tok.END, ""⟩]⟩, 3⟩) := by
  rw [exprSlstF, ps_d_12]
  rw [exceptBind_ok]
  simp only [ps_d_28, pPeek, pScan, pRewind, scanRewind, peekIn, tokMem, exceptBind_ok, exceptBind_error, exceptMap_ok, exceptMap_error, exceptPure, Option.some.injEq, reduceIte, reduceDIte, reduceCtorEq, Nat.reduceAdd, Nat.reduceSub, Nat.reduceEqDiff, decide_True, decide_False, decide_eq_true_eq, ne_eq, not_false_eq_true, not_true_eq_false, List.cons_append, List.nil_append, List.append_nil, or_self, or_false, false_or, and_self, and_true, true_and, u_expr_chks, u_expr_rsts, expr_rsts, expr_slst_rsts, expr_lst_rsts, and_test_rsts, not_test_rsts, comparison_rsts, comparison_chks, a_expr_rsts, a_expr_chks, m_expr_rsts, m_expr_chks, atom_rsts, atom_rsts_post, argspec_rsts, argspec_item_rsts, argspec_item_rsts_post, ne_eq]

/-- Parser step for input "1-2". -/
theorem ps_d_30 : exprLstLoopF 98 [(.ListLiteral [(.Literal (.Number ⟨1, 1⟩ [] [])), (.UnaryOp .neg (.Literal (.Number ⟨2, 1⟩ [] [])))] false)] ⟨⟨['1', '-', '2'], 3, [⟨0, 1, Tok.NUM, "1"⟩, ⟨1, 2, Tok.SIGN, "-"⟩, ⟨2, 3, Tok.NUM, "2"⟩, ⟨3, 3, Tok.END, ""⟩]⟩, 3⟩ = .ok ((.ListLiteral [(.Literal (.Number ⟨1, 1⟩ [] [])), (.UnaryOp .neg (.Literal (.Number ⟨2, 1⟩ [] [])))] false), ⟨⟨['1', '-', '2'], 3, [⟨0, 1, Tok.NUM, "1"⟩, ⟨1, 2, Tok.SIGN, "-"⟩, ⟨2, 3, Tok.NUM, "2"⟩, ⟨3, 3, Tok.END, ""⟩]⟩, 3⟩) := by
  rw [exprLstLoopF]
  simp only [tk_d_24, pPeek, pScan, pRewind, scanRewind, peekIn, tokMem, exceptBind_ok, exceptBind_error, exceptMap_ok, exceptMap_error, exceptPure, Option.some.injEq, reduceIte, reduceDIte, reduceCtorEq, Nat.reduceAdd, Nat.reduceSub, Nat.reduceEqDiff, decide_True, decide_False, decide_eq_true_eq, ne_eq, not_false_eq_true, not_true_eq_false, List.cons_append, List.nil_append, List.append_nil, or_self, or_false, false_or, and_self, and_true, true_and, u_expr_chks, u_expr_rsts, expr_rsts, expr_slst_rsts, expr_lst_rsts, and_test_rsts, not_test_rsts, comparison_rsts, comparison_chks, a_expr_rsts, a_expr_chks, m_expr_rsts, m_expr_chks, atom_rsts, atom_rsts_post, argspec_rsts, argspec_item_rsts, argspec_item_rsts_post, ne_eq]

/-- Parser step for input "1-2". -/
theorem ps_d_31 : exprLstF 99 ⟨⟨['1', '-', '2'], 0, []⟩, 0⟩ = .ok ((.ListLiteral [(.Literal (.Number ⟨1, 1⟩ [] [])), (.UnaryOp .neg (.Literal (.Number ⟨2, 1⟩ [] [])))] false), ⟨⟨['1', '-', '2'], 3, [⟨0, 1, Tok.NUM, "1"⟩, ⟨1, 2, Tok.SIGN, "-"⟩, ⟨2, 3, Tok.NUM, "2"⟩, ⟨3, 3, Tok.END, ""⟩]⟩, 3⟩) := by
  rw [exprLstF, ps_d_29]
  rw [exceptBind_ok]
  simp only [ps_d_30, pPeek, pScan, pRewind, scanRewind, peekIn, tokMem, exceptBind_ok, exceptBind_error, exceptMap_ok, exceptMap_error, exceptPure, Option.some.injEq, reduceIte, reduceDIte, reduceCtorEq, Nat.reduceAdd, Nat.reduceSub, Nat.reduceEqDiff, decide_True, decide_False, decide_eq_true_eq, ne_eq, not_false_eq_true, not_true_eq_false, List.cons_append, List.nil_append, List.append_nil, or_self, or_false, false_or, and_self, and_true, true_and, u_expr_chks, u_expr_rsts, expr_rsts, expr_slst_rsts, expr_lst_rsts, and_test_rsts, not_test_rsts, comparison_rsts, comparison_chks, a_expr_rsts, a_expr_chks, m_expr_rsts, m_expr_chks, atom_rsts, atom_rsts_post, argspec_rsts, argspec_item_rsts, argspec_item_rsts_post, ne_eq]

/-- Parser step for input "1-2". -/
theorem ps_d_32 : goalF 100 ⟨⟨['1', '-', '2'], 0, []⟩, 0⟩ = .ok ((.ListLiteral [(.Literal (.Number ⟨1, 1⟩ [] [])), (.UnaryOp .neg (.Literal (.Number ⟨2, 1⟩ [] [])))] false), ⟨⟨['1', '-', '2'], 3, [⟨0, 1, Tok.NUM, "1"⟩, ⟨1, 2, Tok.SIGN, "-"⟩, ⟨2, 3, Tok.NUM, "2"⟩, ⟨3, 3, Tok.END, ""⟩]⟩, 4⟩) := by
  rw [goalF, ps_d_31]
  rw [exceptBind_ok]
  simp only [tk_d_25, pPeek, pScan, pRewind, scanRewind, peekIn, tokMem, exceptBind_ok, exceptBind_error, exceptMap_ok, exceptMap_error, exceptPure, Option.some.injEq, reduceIte, reduceDIte, reduceCtorEq, Nat.reduceAdd, Nat.reduceSub, Nat.reduceEqDiff, decide_True, decide_False, decide_eq_true_eq, ne_eq, not_false_eq_true, not_true_eq_false, List.cons_append, List.nil_append, List.append_nil, or_self, or_false, false_or, and_self, and_true, true_and, u_expr_chks, u_expr_rsts, expr_rsts, expr_slst_rsts, expr_lst_rsts, and_test_rsts, not_test_rsts, comparison_rsts, comparison_chks, a_expr_rsts, a_expr_chks, m_expr_rsts, m_expr_chks, atom_rsts, atom_rsts_post, argspec_rsts, argspec_item_rsts, argspec_item_rsts_post, ne_eq]

/-- Parse of the source text "1-2". -/
theorem parse_d : parseExpr 100 "1-2" = .ok (.ListLiteral [(.Literal (.Number ⟨1, 1⟩ [] [])), (.UnaryOp .neg (.Literal (.Number ⟨2, 1⟩ [] [])))] false) := by
  simp only [parseExpr, pReset, scanReset, sdata7, ps_d_32, exceptMap_ok]
/-- Scanner fact for input "1 - 2". -/
theorem tk_e_0 : tokenAt ⟨['1', ' ', '-', ' ', '2'], 0, []⟩ 0 [Tok.LPAR, Tok.COLOR, Tok.QSTR, Tok.SIGN, Tok.VAR, Tok.ADD, Tok.NUM, Tok.FNCT, Tok.STR, Tok.NOT, Tok.ID] = .ok (⟨0, 1, Tok.NUM, "1"⟩, ⟨['1', ' ', '-', ' ', '2'], 1, [⟨0, 1, Tok.NUM, "1"⟩]⟩) := rfl

/-- Scanner fact for input "1 - 2". -/
theorem tk_e_1 : tokenAt ⟨['1', ' ', '-', ' ', '2'], 1, [⟨0, 1, Tok.NUM, "1"⟩]⟩ 0 [Tok.LPAR, Tok.COLOR, Tok.QSTR, Tok.SIGN, Tok.ADD, Tok.NUM, Tok.FNCT, Tok.STR, Tok.VAR, Tok.ID] = .ok (⟨0, 1, Tok.NUM, "1"⟩, ⟨['1', ' ', '-', ' ', '2'], 1, [⟨0, 1, Tok.NUM, "1"⟩]⟩) := rfl

/-- Scanner fact for input "1 - 2". -/
theorem tk_e_2 : tokenAt ⟨['1', ' ', '-', ' ', '2'], 1, [⟨0, 1, Tok.NUM, "1"⟩]⟩ 0 [Tok.LPAR, Tok.COLOR, Tok.QSTR, Tok.NUM, Tok.FNCT, Tok.STR, Tok.VAR, Tok.ID] = .ok (⟨0, 1, Tok.NUM, "1"⟩, ⟨['1', ' ', '-', ' ', '2'], 1, [⟨0, 1, Tok.NUM, "1"⟩]⟩) := rfl

/-- Scanner fact for input "1 - 2". -/
theorem tk_e_3 : tokenAt ⟨['1', ' ', '-', ' ', '2'], 1, [⟨0, 1, Tok.NUM, "1"⟩]⟩ 0 [Tok.NUM] = .ok (⟨0, 1, Tok.NUM, "1"⟩, ⟨['1', ' ', '-', ' ', '2'], 1, [⟨0, 1, Tok.NUM, "1"⟩]⟩) := rfl

/-- Scanner fact for input "1 - 2". -/
theorem tk_e_4 : tokenAt ⟨['1', ' ', '-', ' ', '2'], 1, [⟨0, 1, Tok.NUM, "1"⟩]⟩ 1 [Tok.LPAR, Tok.SUB, Tok.QSTR, Tok.RPAR, Tok.VAR, Tok.MUL, Tok.DIV, Tok.LE, Tok.COLOR, Tok.NE, Tok.LT, Tok.NUM, Tok.COMMA, Tok.GT, Tok.END, Tok.SIGN, Tok.GE, Tok.FNCT, Tok.STR, Tok.UNITS, Tok.EQ, Tok.ID, Tok.AND, Tok.ADD, Tok.NOT, Tok.OR] = .ok (⟨2, 4, Tok.SUB, "- "⟩, ⟨['1', ' ', '-', ' ', '2'], 4, [⟨0, 1, Tok.NUM, "1"⟩, ⟨2, 4, Tok.SUB, "- "⟩]⟩) := rfl

/-- Scanner fact for input "1 - 2". -/
theorem tk_e_5 : tokenAt ⟨['1', ' ', '-', ' ', '2'], 4, [⟨0, 1, Tok.NUM, "1"⟩, ⟨2, 4, Tok.SUB, "- "⟩]⟩ 1 [Tok.LPAR, Tok.SUB, Tok.QSTR, Tok.RPAR, Tok.MUL, Tok.DIV, Tok.LE, Tok.COLOR, Tok.NE, Tok.LT, Tok.NUM, Tok.COMMA, Tok.GT, Tok.END, Tok.SIGN, Tok.GE, Tok.FNCT, Tok.STR, Tok.VAR, Tok.EQ, Tok.ID, Tok.AND, Tok.ADD, Tok.NOT, Tok.OR] = .ok (⟨2, 4, Tok.SUB, "- "⟩, ⟨['1', ' ', '-', ' ', '2'], 4, [⟨0, 1, Tok.NUM, "1"⟩, ⟨2, 4, Tok.SUB, "- "⟩]⟩) := rfl

/-- Scanner fact for input "1 - 2". -/
theorem tk_e_6 : tokenAt ⟨['1', ' ', '-', ' ', '2'], 4, [⟨0, 1, Tok.NUM, "1"⟩, ⟨2, 4, Tok.SUB, "- "⟩]⟩ 1 [Tok.LPAR, Tok.SUB, Tok.QSTR, Tok.RPAR, Tok.LE, Tok.COLOR, Tok.NE, Tok.LT, Tok.NUM, Tok.COMMA, Tok.GT, Tok.END, Tok.SIGN, Tok.GE, Tok.FNCT, Tok.STR, Tok.VAR, Tok.EQ, Tok.ID, Tok.AND, Tok.ADD, Tok.NOT, Tok.OR] = .ok (⟨2, 4, Tok.SUB, "- "⟩, ⟨['1', ' ', '-', ' ', '2'], 4, [⟨0, 1, Tok.NUM, "1"⟩, ⟨2, 4, Tok.SUB, "- "⟩]⟩) := rfl

/-- Scanner fact for input "1 - 2". -/
theorem tk_e_7 : tokenAt ⟨['1', ' ', '-', ' ', '2'], 4, [⟨0, 1, Tok.NUM, "1"⟩, ⟨2, 4, Tok.SUB, "- "⟩]⟩ 1 [Tok.ADD, Tok.SUB] = .ok (⟨2, 4, Tok.SUB, "- "⟩, ⟨['1', ' ', '-', ' ', '2'], 4, [⟨0, 1, Tok.NUM, "1"⟩, ⟨2, 4, Tok.SUB, "- "⟩]⟩) := rfl

/-- Scanner fact for input "1 - 2". -/
theorem tk_e_8 : tokenAt ⟨['1', ' ', '-', ' ', '2'], 4, [⟨0, 1, Tok.NUM, "1"⟩, ⟨2, 4, Tok.SUB, "- "⟩]⟩ 1 [Tok.SUB] = .ok (⟨2, 4, Tok.SUB, "- "⟩, ⟨['1', ' ', '-', ' ', '2'], 4, [⟨0, 1, Tok.NUM, "1"⟩, ⟨2, 4, Tok.SUB, "- "⟩]⟩) := rfl

/-- Scanner fact for input "1 - 2". -/
theorem tk_e_9 : tokenAt ⟨['1', ' ', '-', ' ', '2'], 4, [⟨0, 1, Tok.NUM, "1"⟩, ⟨2, 4, Tok.SUB, "- "⟩]⟩ 2 [Tok.LPAR, Tok.COLOR, Tok.QSTR, Tok.SIGN, Tok.ADD, Tok.NUM, Tok.FNCT, Tok.STR, Tok.VAR, Tok.ID] = .ok (⟨4, 5, Tok.NUM, "2"⟩, ⟨['1', ' ', '-', ' ', '2'], 5, [⟨0, 1, Tok.NUM, "1"⟩, ⟨2, 4, Tok.SUB, "- "⟩, ⟨4, 5, Tok.NUM, "2"⟩]⟩) := rfl

/-- Scanner fact for input "1 - 2". -/
theorem tk_e_10 : tokenAt ⟨['1', ' ', '-', ' ', '2'], 5, [⟨0, 1, Tok.NUM, "1"⟩, ⟨2, 4, Tok.SUB, "- "⟩, ⟨4, 5, Tok.NUM, "2"⟩]⟩ 2 [Tok.LPAR, Tok.COLOR, Tok.QSTR, Tok.NUM, Tok.FNCT, Tok.STR, Tok.VAR, Tok.ID] = .ok (⟨4, 5, Tok.NUM, "2"⟩, ⟨['1', ' ', '-', ' ', '2'], 5, [⟨0, 1, Tok.NUM, "1"⟩, ⟨2, 4, Tok.SUB, "- "⟩, ⟨4, 5, Tok.NUM, "2"⟩]⟩) := rfl

/-- Scanner fact for input "1 - 2". -/
theorem tk_e_11 : tokenAt ⟨['1', ' ', '-', ' ', '2'], 5, [⟨0, 1, Tok.NUM, "1"⟩, ⟨2, 4, Tok.SUB, "- "⟩, ⟨4, 5, Tok.NUM, "2"⟩]⟩ 2 [Tok.NUM] = .ok (⟨4, 5, Tok.NUM, "2"⟩, ⟨['1', ' ', '-', ' ', '2'], 5, [⟨0, 1, Tok.NUM, "1"⟩, ⟨2, 4, Tok.SUB, "- "⟩, ⟨4, 5, Tok.NUM, "2"⟩]⟩) := rfl

/-- Scanner fact for input "1 - 2". -/
theorem tk_e_12 : tokenAt ⟨['1', ' ', '-', ' ', '2'], 5, [⟨0, 1, Tok.NUM, "1"⟩, ⟨2, 4, Tok.SUB, "- "⟩, ⟨4, 5, Tok.NUM, "2"⟩]⟩ 3 [Tok.LPAR, Tok.SUB, Tok.QSTR, Tok.RPAR, Tok.VAR, Tok.MUL, Tok.DIV, Tok.LE, Tok.COLOR, Tok.NE, Tok.LT, Tok.NUM, Tok.COMMA, Tok.GT, Tok.END, Tok.SIGN, Tok.GE, Tok.FNCT, Tok.STR, Tok.UNITS, Tok.EQ, Tok.ID, Tok.AND, Tok.ADD, Tok.NOT, Tok.OR] = .ok (⟨5, 5, Tok.END, ""⟩, ⟨['1', ' ', '-', ' ', '2'], 5, [⟨0, 1, Tok.NUM, "1"⟩, ⟨2, 4, Tok.SUB, "- "⟩, ⟨4, 5, Tok.NUM, "2"⟩, ⟨5, 5, Tok.END, ""⟩]⟩) := rfl

/-- Scanner fact for input "1 - 2". -/
theorem tk_e_13 : tokenAt ⟨['1', ' ', '-', ' ', '2'], 5, [⟨0, 1, Tok.NUM, "1"⟩, ⟨2, 4, Tok.SUB, "- "⟩, ⟨4, 5, Tok.NUM, "2"⟩, ⟨5, 5, Tok.END, ""⟩]⟩ 3 [Tok.LPAR, Tok.SUB, Tok.QSTR, Tok.RPAR, Tok.MUL, Tok.DIV, Tok.LE, Tok.COLOR, Tok.NE, Tok.LT, Tok.NUM, Tok.COMMA, Tok.GT, Tok.END, Tok.SIGN, Tok.GE, Tok.FNCT, Tok.STR, Tok.VAR, Tok.EQ, Tok.ID, Tok.AND, Tok.ADD, Tok.NOT, Tok.OR] = .ok (⟨5, 5, Tok.END, ""⟩, ⟨['1', ' ', '-', ' ', '2'], 5, [⟨0, 1, Tok.NUM, "1"⟩, ⟨2, 4, Tok.SUB, "- "⟩, ⟨4, 5, Tok.NUM, "2"⟩, ⟨5, 5, Tok.END, ""⟩]⟩) := rfl

/-- Scanner fact for input "1 - 2". -/
theorem tk_e_14 : tokenAt ⟨['1', ' ', '-', ' ', '2'], 5, [⟨0, 1, Tok.NUM, "1"⟩, ⟨2, 4, Tok.SUB, "- "⟩, ⟨4, 5, Tok.NUM, "2"⟩, ⟨5, 5, Tok.END, ""⟩]⟩ 3 [Tok.LPAR, Tok.SUB, Tok.QSTR, Tok.RPAR, Tok.LE, Tok.COLOR, Tok.NE, Tok.LT, Tok.NUM, Tok.COMMA, Tok.GT, Tok.END, Tok.SIGN, Tok.GE, Tok.FNCT, Tok.STR, Tok.VAR, Tok.EQ, Tok.ID, Tok.AND, Tok.ADD, Tok.NOT, Tok.OR] = .ok (⟨5, 5, Tok.END, ""⟩, ⟨['1', ' ', '-', ' ', '2'], 5, [⟨0, 1, Tok.NUM, "1"⟩, ⟨2, 4, Tok.SUB, "- "⟩, ⟨4, 5, Tok.NUM, "2"⟩, ⟨5, 5, Tok.END, ""⟩]⟩) := rfl

/-- Scanner fact for input "1 - 2". -/
theorem tk_e_15 : tokenAt ⟨['1', ' ', '-', ' ', '2'], 5, [⟨0, 1, Tok.NUM, "1"⟩, ⟨2, 4, Tok.SUB, "- "⟩, ⟨4, 5, Tok.NUM, "2"⟩, ⟨5, 5, Tok.END, ""⟩]⟩ 3 [Tok.LPAR, Tok.QSTR, Tok.RPAR, Tok.LE, Tok.COLOR, Tok.NE, Tok.LT, Tok.NUM, Tok.COMMA, Tok.GT, Tok.END, Tok.SIGN, Tok.ADD, Tok.FNCT, Tok.STR, Tok.VAR, Tok.EQ, Tok.ID, Tok.AND, Tok.GE, Tok.NOT, Tok.OR] = .ok (⟨5, 5, Tok.END, ""⟩, ⟨['1', ' ', '-', ' ', '2'], 5, [⟨0, 1, Tok.NUM, "1"⟩, ⟨2, 4, Tok.SUB, "- "⟩, ⟨4, 5, Tok.NUM, "2"⟩, ⟨5, 5, Tok.END, ""⟩]⟩) := rfl

/-- Scanner fact for input "1 - 2". -/
theorem tk_e_16 : tokenAt ⟨['1', ' ', '-', ' ', '2'], 5, [⟨0, 1, Tok.NUM, "1"⟩, ⟨2, 4, Tok.SUB, "- "⟩, ⟨4, 5, Tok.NUM, "2"⟩, ⟨5, 5, Tok.END, ""⟩]⟩ 3 [Tok.AND, Tok.LPAR, Tok.END, Tok.COLOR, Tok.QSTR, Tok.SIGN, Tok.VAR, Tok.ADD, Tok.NUM, Tok.COMMA, Tok.FNCT, Tok.STR, Tok.NOT, Tok.ID, Tok.RPAR, Tok.OR] = .ok (⟨5, 5, Tok.END, ""⟩, ⟨['1', ' ', '-', ' ', '2'], 5, [⟨0, 1, Tok.NUM, "1"⟩, ⟨2, 4, Tok.SUB, "- "⟩, ⟨4, 5, Tok.NUM, "2"⟩, ⟨5, 5, Tok.END, ""⟩]⟩) := rfl

/-- Scanner fact for input "1 - 2". -/
theorem tk_e_17 : tokenAt ⟨['1', ' ', '-', ' ', '2'], 5, [⟨0, 1, Tok.NUM, "1"⟩, ⟨2, 4, Tok.SUB, "- "⟩, ⟨4, 5, Tok.NUM, "2"⟩, ⟨5, 5, Tok.END, ""⟩]⟩ 3 [Tok.LPAR, Tok.END, Tok.COLOR, Tok.QSTR, Tok.RPAR, Tok.VAR, Tok.ADD, Tok.NUM, Tok.COMMA, Tok.FNCT, Tok.STR, Tok.NOT, Tok.ID, Tok.SIGN, Tok.OR] = .ok (⟨5, 5, Tok.END, ""⟩, ⟨['1', ' ', '-', ' ', '2'], 5, [⟨0, 1, Tok.NUM, "1"⟩, ⟨2, 4, Tok.SUB, "- "⟩, ⟨4, 5, Tok.NUM, "2"⟩, ⟨5, 5, Tok.END, ""⟩]⟩) := rfl

/-- Scanner fact for input "1 - 2". -/
theorem tk_e_18 : tokenAt ⟨['1', ' ', '-', ' ', '2'], 5, [⟨0, 1, Tok.NUM, "1"⟩, ⟨2, 4, Tok.SUB, "- "⟩, ⟨4, 5, Tok.NUM, "2"⟩, ⟨5, 5, Tok.END, ""⟩]⟩ 3 [Tok.LPAR, Tok.END, Tok.COLOR, Tok.QSTR, Tok.RPAR, Tok.VAR, Tok.ADD, Tok.NUM, Tok.COMMA, Tok.FNCT, Tok.STR, Tok.NOT, Tok.SIGN, Tok.ID] = .ok (⟨5, 5, Tok.END, ""⟩, ⟨['1', ' ', '-', ' ', '2'], 5, [⟨0, 1, Tok.NUM, "1"⟩, ⟨2, 4, Tok.SUB, "- "⟩, ⟨4, 5, Tok.NUM, "2"⟩, ⟨5, 5, Tok.END, ""⟩]⟩) := rfl

/-- Scanner fact for input "1 - 2". -/
theorem tk_e_19 : tokenAt ⟨['1', ' ', '-', ' ', '2'], 5, [⟨0, 1, Tok.NUM, "1"⟩, ⟨2, 4, Tok.SUB, "- "⟩, ⟨4, 5, Tok.NUM, "2"⟩, ⟨5, 5, Tok.END, ""⟩]⟩ 3 [Tok.END, Tok.COMMA, Tok.RPAR] = .ok (⟨5, 5, Tok.END, ""⟩, ⟨['1', ' ', '-', ' ', '2'], 5, [⟨0, 1, Tok.NUM, "1"⟩, ⟨2, 4, Tok.SUB, "- "⟩, ⟨4, 5, Tok.NUM, "2"⟩, ⟨5, 5, Tok.END, ""⟩]⟩) := rfl

/-- Scanner fact for input "1 - 2". -/
theorem tk_e_20 : tokenAt ⟨['1', ' ', '-', ' ', '2'], 5, [⟨0, 1, Tok.NUM, "1"⟩, ⟨2, 4, Tok.SUB, "- "⟩, ⟨4, 5, Tok.NUM, "2"⟩, ⟨5, 5, Tok.END, ""⟩]⟩ 3 [Tok.END] = .ok (⟨5, 5, Tok.END, ""⟩, ⟨['1', ' ', '-', ' ', '2'], 5, [⟨0, 1, Tok.NUM, "1"⟩, ⟨2, 4, Tok.SUB, "- "⟩, ⟨4, 5, Tok.NUM, "2"⟩, ⟨5, 5, Tok.END, ""⟩]⟩) := rfl

/-- Parser step for input "1 - 2". -/
theorem ps_e_0 : atomF 90 ⟨⟨['1', ' ', '-', ' ', '2'], 1, [⟨0, 1, Tok.NUM, "1"⟩]⟩, 0⟩ = .ok ((.Literal (.Number ⟨1, 1⟩ [] [])), ⟨⟨['1', ' ', '-', ' ', '2'], 4, [⟨0, 1, Tok.NUM, "1"⟩, ⟨2, 4, Tok.SUB, "- "⟩]⟩, 1⟩) := by
  rw [atomF]
  simp only [tk_e_2, tk_e_3, tk_e_4, pPeek, pScan, pRewind, scanRewind, peekIn, tokMem, exceptBind_ok, exceptBind_error, exceptMap_ok, exceptMap_error, exceptPure, Option.some.injEq, reduceIte, reduceDIte, reduceCtorEq, Nat.reduceAdd, Nat.reduceSub, Nat.reduceEqDiff, decide_True, decide_False, decide_eq_true_eq, ne_eq, not_false_eq_true, not_true_eq_false, List.cons_append, List.nil_append, List.append_nil, or_self, or_false, false_or, and_self, and_true, true_and, u_expr_chks, u_expr_rsts, expr_rsts, expr_slst_rsts, expr_lst_rsts, and_test_rsts, not_test_rsts, comparison_rsts, comparison_chks, a_expr_rsts, a_expr_chks, m_expr_rsts, m_expr_chks, atom_rsts, atom_rsts_post, argspec_rsts, argspec_item_rsts, argspec_item_rsts_post, sdata0, sdata1, sdata2, sdata3, sdata4, sdata5, sdata6, sdata7, sdata8, sdata9, parse_bareword, COLOR_NAMES, parseNum, digitsToNat, lowerStr, parseHexColor, hexToNat, isDigitC, isAlphaC, SassQ.add, SassQ.fromNat, mkQ, gcdQ, gcdFuel, List.find?, List.map, List.take, List.drop, List.takeWhile, List.dropWhile, List.dropLast, List.isEmpty, List.length, Option.map, Char.reduceEq, Char.reduceBEq, Char.reduceLE, Char.reduceLT, Char.reduceToNat, Char.reduceToLower, String.reduceMk, String.reduceEq, String.reduceBEq, Nat.reduceMul, Nat.reduceDiv, Nat.reduceMod, Nat.reducePow, Nat.reduceLeDiff, Nat.reduceLT, Nat.reduceGT, Int.reduceAdd, Int.reduceSub, Int.reduceMul, Int.reduceNeg, Int.reduceDiv, Int.reduceLT, Int.reduceLE, Int.reduceEq, Int.reduceBEq, Int.reduceToNat, Int.reduceAbs, Int.reducePow, Int.reduceMod, Int.reduceOfNat, Nat.cast_ofNat, Nat.cast_one, Nat.cast_zero]

/-- Parser step for input "1 - 2". -/
theorem ps_e_1 : uExprF 91 ⟨⟨['1', ' ', '-', ' ', '2'], 1, [⟨0, 1, Tok.NUM, "1"⟩]⟩, 0⟩ = .ok ((.Literal (.Number ⟨1, 1⟩ [] [])), ⟨⟨['1', ' ', '-', ' ', '2'], 4, [⟨0, 1, Tok.NUM, "1"⟩, ⟨2, 4, Tok.SUB, "- "⟩]⟩, 1⟩) := by
  rw [uExprF]
  simp only [ps_e_0, tk_e_1, pPeek, pScan, pRewind, scanRewind, peekIn, tokMem, exceptBind_ok, exceptBind_error, exceptMap_ok, exceptMap_error, exceptPure, Option.some.injEq, reduceIte, reduceDIte, reduceCtorEq, Nat.reduceAdd, Nat.reduceSub, Nat.reduceEqDiff, decide_True, decide_False, decide_eq_true_eq, ne_eq, not_false_eq_true, not_true_eq_false, List.cons_append, List.nil_append, List.append_nil, or_self, or_false, false_or, and_self, and_true, true_and, u_expr_chks, u_expr_rsts, expr_rsts, expr_slst_rsts, expr_lst_rsts, and_test_rsts, not_test_rsts, comparison_rsts, comparison_chks, a_expr_rsts, a_expr_chks, m_expr_rsts, m_expr_chks, atom_rsts, atom_rsts_post, argspec_rsts, argspec_item_rsts, argspec_item_rsts_post, ne_eq]

/-- Parser step for input "1 - 2". -/
theorem ps_e_2 : mLoopF 91 (.Literal (.Number ⟨1, 1⟩ [] [])) ⟨⟨['1', ' ', '-', ' ', '2'], 4, [⟨0, 1, Tok.NUM, "1"⟩, ⟨2, 4, Tok.SUB, "- "⟩]⟩, 1⟩ = .ok ((.Literal (.Number ⟨1, 1⟩ [] [])), ⟨⟨['1', ' ', '-', ' ', '2'], 4, [⟨0, 1, Tok.NUM, "1"⟩, ⟨2, 4, Tok.SUB, "- "⟩]⟩, 1⟩) := by
  rw [mLoopF]
  simp only [tk_e_5, pPeek, pScan, pRewind, scanRewind, peekIn, tokMem, exceptBind_ok, exceptBind_error, exceptMap_ok, exceptMap_error, exceptPure, Option.some.injEq, reduceIte, reduceDIte, reduceCtorEq, Nat.reduceAdd, Nat.reduceSub, Nat.reduceEqDiff, decide_True, decide_False, decide_eq_true_eq, ne_eq, not_false_eq_true, not_true_eq_false, List.cons_append, List.nil_append, List.append_nil, or_self, or_false, false_or, and_self, and_true, true_and, u_expr_chks, u_expr_rsts, expr_rsts, expr_slst_rsts, expr_lst_rsts, and_test_rsts, not_test_rsts, comparison_rsts, comparison_chks, a_expr_rsts, a_expr_chks, m_expr_rsts, m_expr_chks, atom_rsts, atom_rsts_post, argspec_rsts, argspec_item_rsts, argspec_item_rsts_post, ne_eq]

/-- Parser step for input "1 - 2". -/
theorem ps_e_3 : mExprF 92 ⟨⟨['1', ' ', '-', ' ', '2'], 1, [⟨0, 1, Tok.NUM, "1"⟩]⟩, 0⟩ = .ok ((.Literal (.Number ⟨1, 1⟩ [] [])), ⟨⟨['1', ' ', '-', ' ', '2'], 4, [⟨0, 1, Tok.NUM, "1"⟩, ⟨2, 4, Tok.SUB, "- "⟩]⟩, 1⟩) := by
  rw [mExprF, ps_e_1]
  rw [exceptBind_ok]
  simp only [ps_e_2, pPeek, pScan, pRewind, scanRewind, peekIn, tokMem, exceptBind_ok, exceptBind_error, exceptMap_ok, exceptMap_error, exceptPure, Option.some.injEq, reduceIte, reduceDIte, reduceCtorEq, Nat.reduceAdd, Nat.reduceSub, Nat.reduceEqDiff, decide_True, decide_False, decide_eq_true_eq, ne_eq, not_false_eq_true, not_true_eq_false, List.cons_append, List.nil_append, List.append_nil, or_self, or_false, false_or, and_self, and_true, true_and, u_expr_chks, u_expr_rsts, expr_rsts, expr_slst_rsts, expr_lst_rsts, and_test_rsts, not_test_rsts, comparison_rsts, comparison_chks, a_expr_rsts, a_expr_chks, m_expr_rsts, m_expr_chks, atom_rsts, atom_rsts_post, argspec_rsts, argspec_item_rsts, argspec_item_rsts_post, ne_eq]

/-- Parser step for input "1 - 2". -/
theorem ps_e_4 : atomF 89 ⟨⟨['1', ' ', '-', ' ', '2'], 5, [⟨0, 1, Tok.NUM, "1"⟩, ⟨2, 4, Tok.SUB, "- "⟩, ⟨4, 5, Tok.NUM, "2"⟩]⟩, 2⟩ = .ok ((.Literal (.Number ⟨2, 1⟩ [] [])), ⟨⟨['1', ' ', '-', ' ', '2'], 5, [⟨0, 1, Tok.NUM, "1"⟩, ⟨2, 4, Tok.SUB, "- "⟩, ⟨4, 5, Tok.NUM, "2"⟩, ⟨5, 5, Tok.END, ""⟩]⟩, 3⟩) := by
  rw [atomF]
  simp only [tk_e_10, tk_e_11, tk_e_12, pPeek, pScan, pRewind, scanRewind, peekIn, tokMem, exceptBind_ok, exceptBind_error, exceptMap_ok, exceptMap_error, exceptPure, Option.some.injEq, reduceIte, reduceDIte, reduceCtorEq, Nat.reduceAdd, Nat.reduceSub, Nat.reduceEqDiff, decide_True, decide_False, decide_eq_true_eq, ne_eq, not_false_eq_true, not_true_eq_false, List.cons_append, List.nil_append, List.append_nil, or_self, or_false, false_or, and_self, and_true, true_and, u_expr_chks, u_expr_rsts, expr_rsts, expr_slst_rsts, expr_lst_rsts, and_test_rsts, not_test_rsts, comparison_rsts, comparison_chks, a_expr_rsts, a_expr_chks, m_expr_rsts, m_expr_chks, atom_rsts, atom_rsts_post, argspec_rsts, argspec_item_rsts, argspec_item_rsts_post, sdata0, sdata1, sdata2, sdata3, sdata4, sdata5, sdata6, sdata7, sdata8, sdata9, parse_bareword, COLOR_NAMES, parseNum, digitsToNat, lowerStr, parseHexColor, hexToNat, isDigitC, isAlphaC, SassQ.add, SassQ.fromNat, mkQ, gcdQ, gcdFuel, List.find?, List.map, List.take, List.drop, List.takeWhile, List.dropWhile, List.dropLast, List.isEmpty, List.length, Option.map, Char.reduceEq, Char.reduceBEq, Char.reduceLE, Char.reduceLT, Char.reduceToNat, Char.reduceToLower, String.reduceMk, String.reduceEq, String.reduceBEq, Nat.reduceMul, Nat.reduceDiv, Nat.reduceMod, Nat.reducePow, Nat.reduceLeDiff, Nat.reduceLT, Nat.reduceGT, Int.reduceAdd, Int.reduceSub, Int.reduceMul, Int.reduceNeg, Int.reduceDiv, Int.reduceLT, Int.reduceLE, Int.reduceEq, Int.reduceBEq, Int.reduceToNat, Int.reduceAbs, Int.reducePow, Int.reduceMod, Int.reduceOfNat, Nat.cast_ofNat, Nat.cast_one, Nat.cast_zero]

/-- Parser step for input "1 - 2". -/
theorem ps_e_5 : uExprF 90 ⟨⟨['1', ' ', '-', ' ', '2'], 4, [⟨0, 1, Tok.NUM, "1"⟩, ⟨2, 4, Tok.SUB, "- "⟩]⟩, 2⟩ = .ok ((.Literal (.Number ⟨2, 1⟩ [] [])), ⟨⟨['1', ' ', '-', ' ', '2'], 5, [⟨0, 1, Tok.NUM, "1"⟩, ⟨2, 4, Tok.SUB, "- "⟩, ⟨4, 5, Tok.NUM, "2"⟩, ⟨5, 5, Tok.END, ""⟩]⟩, 3⟩) := by
  rw [uExprF]
  simp only [ps_e_4, tk_e_9, pPeek, pScan, pRewind, scanRewind, peekIn, tokMem, exceptBind_ok, exceptBind_error, exceptMap_ok, exceptMap_error, exceptPure, Option.some.injEq, reduceIte, reduceDIte, reduceCtorEq, Nat.reduceAdd, Nat.reduceSub, Nat.reduceEqDiff, decide_True, decide_False, decide_eq_true_eq, ne_eq, not_false_eq_true, not_true_eq_false, List.cons_append, List.nil_append, List.append_nil, or_self, or_false, false_or, and_self, and_true, true_and, u_expr_chks, u_expr_rsts, expr_rsts, expr_slst_rsts, expr_lst_rsts, and_test_rsts, not_test_rsts, comparison_rsts, comparison_chks, a_expr_rsts, a_expr_chks, m_expr_rsts, m_expr_chks, atom_rsts, atom_rsts_post, argspec_rsts, argspec_item_rsts, argspec_item_rsts_post, ne_eq]

/-- Parser step for input "1 - 2". -/
theorem ps_e_6 : mLoopF 90 (.Literal (.Number ⟨2, 1⟩ [] [])) ⟨⟨['1', ' ', '-', ' ', '2'], 5, [⟨0, 1, Tok.NUM, "1"⟩, ⟨2, 4, Tok.SUB, "- "⟩, ⟨4, 5, Tok.NUM, "2"⟩, ⟨5, 5, Tok.END, ""⟩]⟩, 3⟩ = .ok ((.Literal (.Number ⟨2, 1⟩ [] [])), ⟨⟨['1', ' ', '-', ' ', '2'], 5, [⟨0, 1, Tok.NUM, "1"⟩, ⟨2, 4, Tok.SUB, "- "⟩, ⟨4, 5, Tok.NUM, "2"⟩, ⟨5, 5, Tok.END, ""⟩]⟩, 3⟩) := by
  rw [mLoopF]
  simp only [tk_e_13, pPeek, pScan, pRewind, scanRewind, peekIn, tokMem, exceptBind_ok, exceptBind_error, exceptMap_ok, exceptMap_error, exceptPure, Option.some.injEq, reduceIte, reduceDIte, reduceCtorEq, Nat.reduceAdd, Nat.reduceSub, Nat.reduceEqDiff, decide_True, decide_False, decide_eq_true_eq, ne_eq, not_false_eq_true, not_true_eq_false, List.cons_append, List.nil_append, List.append_nil, or_self, or_false, false_or, and_self, and_true, true_and, u_expr_chks, u_expr_rsts, expr_rsts, expr_slst_rsts, expr_lst_rsts, and_test_rsts, not_test_rsts, comparison_rsts, comparison_chks, a_expr_rsts, a_expr_chks, m_expr_rsts, m_expr_chks, atom_rsts, atom_rsts_post, argspec_rsts, argspec_item_rsts, argspec_item_rsts_post, ne_eq]

/-- Parser step for input "1 - 2". -/
theorem ps_e_7 : mExprF 91 ⟨⟨['1', ' ', '-', ' ', '2'], 4, [⟨0, 1, Tok.NUM, "1"⟩, ⟨2, 4, Tok.SUB, "- "⟩]⟩, 2⟩ = .ok ((.Literal (.Number ⟨2, 1⟩ [] [])), ⟨⟨['1', ' ', '-', ' ', '2'], 5, [⟨0, 1, Tok.NUM, "1"⟩, ⟨2, 4, Tok.SUB, "- "⟩, ⟨4, 5, Tok.NUM, "2"⟩, ⟨5, 5, Tok.END, ""⟩]⟩, 3⟩) := by
  rw [mExprF, ps_e_5]
  rw [exceptBind_ok]
  simp only [ps_e_6, pPeek, pScan, pRewind, scanRewind, peekIn, tokMem, exceptBind_ok, exceptBind_error, exceptMap_ok, exceptMap_error, exceptPure, Option.some.injEq, reduceIte, reduceDIte, reduceCtorEq, Nat.reduceAdd, Nat.reduceSub, Nat.reduceEqDiff, decide_True, decide_False, decide_eq_true_eq, ne_eq, not_false_eq_true, not_true_eq_false, List.cons_append, List.nil_append, List.append_nil, or_self, or_false, false_or, and_self, and_true, true_and, u_expr_chks, u_expr_rsts, expr_rsts, expr_slst_rsts, expr_lst_rsts, and_test_rsts, not_test_rsts, comparison_rsts, comparison_chks, a_expr_rsts, a_expr_chks, m_expr_rsts, m_expr_chks, atom_rsts, atom_rsts_post, argspec_rsts, argspec_item_rsts, argspec_item_rsts_post, ne_eq]

/-- Parser step for input "1 - 2". -/
theorem ps_e_8 : aLoopF 91 (.BinaryOp .sub (.Literal (.Number ⟨1, 1⟩ [] [])) (.Literal (.Number ⟨2, 1⟩ [] []))) ⟨⟨['1', ' ', '-', ' ', '2'], 5, [⟨0, 1, Tok.NUM, "1"⟩, ⟨2, 4, Tok.SUB, "- "⟩, ⟨4, 5, Tok.NUM, "2"⟩, ⟨5, 5, Tok.END, ""⟩]⟩, 3⟩ = .ok ((.BinaryOp .sub (.Literal (.Number ⟨1, 1⟩ [] [])) (.Literal (.Number ⟨2, 1⟩ [] []))), ⟨⟨['1', ' ', '-', ' ', '2'], 5, [⟨0, 1, Tok.NUM, "1"⟩, ⟨2, 4, Tok.SUB, "- "⟩, ⟨4, 5, Tok.NUM, "2"⟩, ⟨5, 5, Tok.END, ""⟩]⟩, 3⟩) := by
  rw [aLoopF]
  simp only [tk_e_14, pPeek, pScan, pRewind, scanRewind, peekIn, tokMem, exceptBind_ok, exceptBind_error, exceptMap_ok, exceptMap_error, exceptPure, Option.some.injEq, reduceIte, reduceDIte, reduceCtorEq, Nat.reduceAdd, Nat.reduceSub, Nat.reduceEqDiff, decide_True, decide_False, decide_eq_true_eq, ne_eq, not_false_eq_true, not_true_eq_false, List.cons_append, List.nil_append, List.append_nil, or_self, or_false, false_or, and_self, and_true, true_and, u_expr_chks, u_expr_rsts, expr_rsts, expr_slst_rsts, expr_lst_rsts, and_test_rsts, not_test_rsts, comparison_rsts, comparison_chks, a_expr_rsts, a_expr_chks, m_expr_rsts, m_expr_chks, atom_rsts, atom_rsts_post, argspec_rsts, argspec_item_rsts, argspec_item_rsts_post, ne_eq]

/-- Parser step for input "1 - 2". -/
theorem ps_e_9 : aLoopF 92 (.Literal (.Number ⟨1, 1⟩ [] [])) ⟨⟨['1', ' ', '-', ' ', '2'], 4, [⟨0, 1, Tok.NUM, "1"⟩, ⟨2, 4, Tok.SUB, "- "⟩]⟩, 1⟩ = .ok ((.BinaryOp .sub (.Literal (.Number ⟨1, 1⟩ [] [])) (.Literal (.Number ⟨2, 1⟩ [] []))), ⟨⟨['1', ' ', '-', ' ', '2'], 5, [⟨0, 1, Tok.NUM, "1"⟩, ⟨2, 4, Tok.SUB, "- "⟩, ⟨4, 5, Tok.NUM, "2"⟩, ⟨5, 5, Tok.END, ""⟩]⟩, 3⟩) := by
  rw [aLoopF]
  simp only [ps_e_7, ps_e_8, tk_e_6, tk_e_7, tk_e_8, pPeek, pScan, pRewind, scanRewind, peekIn, tokMem, exceptBind_ok, exceptBind_error, exceptMap_ok, exceptMap_error, exceptPure, Option.some.injEq, reduceIte, reduceDIte, reduceCtorEq, Nat.reduceAdd, Nat.reduceSub, Nat.reduceEqDiff, decide_True, decide_False, decide_eq_true_eq, ne_eq, not_false_eq_true, not_true_eq_false, List.cons_append, List.nil_append, List.append_nil, or_self, or_false, false_or, and_self, and_true, true_and, u_expr_chks, u_expr_rsts, expr_rsts, expr_slst_rsts, expr_lst_rsts, and_test_rsts, not_test_rsts, comparison_rsts, comparison_chks, a_expr_rsts, a_expr_chks, m_expr_rsts, m_expr_chks, atom_rsts, atom_rsts_post, argspec_rsts, argspec_item_rsts, argspec_item_rsts_post, ne_eq]

/-- Parser step for input "1 - 2". -/
theorem ps_e_10 : aExprF 93 ⟨⟨['1', ' ', '-', ' ', '2'], 1, [⟨0, 1, Tok.NUM, "1"⟩]⟩, 0⟩ = .ok ((.BinaryOp .sub (.Literal (.Number ⟨1, 1⟩ [] [])) (.Literal (.Number ⟨2, 1⟩ [] []))), ⟨⟨['1', ' ', '-', ' ', '2'], 5, [⟨0, 1, Tok.NUM, "1"⟩, ⟨2, 4, Tok.SUB, "- "⟩, ⟨4, 5, Tok.NUM, "2"⟩, ⟨5, 5, Tok.END, ""⟩]⟩, 3⟩) := by
  rw [aExprF, ps_e_3]
  rw [exceptBind_ok]
  simp only [ps_e_9, pPeek, pScan, pRewind, scanRewind, peekIn, tokMem, exceptBind_ok, exceptBind_error, exceptMap_ok, exceptMap_error, exceptPure, Option.some.injEq, reduceIte, reduceDIte, reduceCtorEq, Nat.reduceAdd, Nat.reduceSub, Nat.reduceEqDiff, decide_True, decide_False, decide_eq_true_eq, ne_eq, not_false_eq_true, not_true_eq_false, List.cons_append, List.nil_append, List.append_nil, or_self, or_false, false_or, and_self, and_true, true_and, u_expr_chks, u_expr_rsts, expr_rsts, expr_slst_rsts, expr_lst_rsts, and_test_rsts, not_test_rsts, comparison_rsts, comparison_chks, a_expr_rsts, a_expr_chks, m_expr_rsts, m_expr_chks, atom_rsts, atom_rsts_post, argspec_rsts, argspec_item_rsts, argspec_item_rsts_post, ne_eq]

/-- Parser step for input "1 - 2". -/
theorem ps_e_11 : compLoopF 93 (.BinaryOp .sub (.Literal (.Number ⟨1, 1⟩ [] [])) (.Literal (.Number ⟨2, 1⟩ [] []))) ⟨⟨['1', ' ', '-', ' ', '2'], 5, [⟨0, 1, Tok.NUM, "1"⟩, ⟨2, 4, Tok.SUB, "- "⟩, ⟨4, 5, Tok.NUM, "2"⟩, ⟨5, 5, Tok.END, ""⟩]⟩, 3⟩ = .ok ((.BinaryOp .sub (.Literal (.Number ⟨1, 1⟩ [] [])) (.Literal (.Number ⟨2, 1⟩ [] []))), ⟨⟨['1', ' ', '-', ' ', '2'], 5, [⟨0, 1, Tok.NUM, "1"⟩, ⟨2, 4, Tok.SUB, "- "⟩, ⟨4, 5, Tok.NUM, "2"⟩, ⟨5, 5, Tok.END, ""⟩]⟩, 3⟩) := by
  rw [compLoopF]
  simp only [tk_e_15, pPeek, pScan, pRewind, scanRewind, peekIn, tokMem, exceptBind_ok, exceptBind_error, exceptMap_ok, exceptMap_error, exceptPure, Option.some.injEq, reduceIte, reduceDIte, reduceCtorEq, Nat.reduceAdd, Nat.reduceSub, Nat.reduceEqDiff, decide_True, decide_False, decide_eq_true_eq, ne_eq, not_false_eq_true, not_true_eq_false, List.cons_append, List.nil_append, List.append_nil, or_self, or_false, false_or, and_self, and_true, true_and, u_expr_chks, u_expr_rsts, expr_rsts, expr_slst_rsts, expr_lst_rsts, and_test_rsts, not_test_rsts, comparison_rsts, comparison_chks, a_expr_rsts, a_expr_chks, m_expr_rsts, m_expr_chks, atom_rsts, atom_rsts_post, argspec_rsts, argspec_item_rsts, argspec_item_rsts_post, ne_eq]

/-- Parser step for input "1 - 2". -/
theorem ps_e_12 : comparisonF 94 ⟨⟨['1', ' ', '-', ' ', '2'], 1, [⟨0, 1, Tok.NUM, "1"⟩]⟩, 0⟩ = .ok ((.BinaryOp .sub (.Literal (.Number ⟨1, 1⟩ [] [])) (.Literal (.Number ⟨2, 1⟩ [] []))), ⟨⟨['1', ' ', '-', ' ', '2'], 5, [⟨0, 1, Tok.NUM, "1"⟩, ⟨2, 4, Tok.SUB, "- "⟩, ⟨4, 5, Tok.NUM, "2"⟩, ⟨5, 5, Tok.END, ""⟩]⟩, 3⟩) := by
  rw [comparisonF, ps_e_10]
  rw [exceptBind_ok]
  simp only [ps_e_11, pPeek, pScan, pRewind, scanRewind, peekIn, tokMem, exceptBind_ok, exceptBind_error, exceptMap_ok, exceptMap_error, exceptPure, Option.some.injEq, reduceIte, reduceDIte, reduceCtorEq, Nat.reduceAdd, Nat.reduceSub, Nat.reduceEqDiff, decide_True, decide_False, decide_eq_true_eq, ne_eq, not_false_eq_true, not_true_eq_false, List.cons_append, List.nil_append, List.append_nil, or_self, or_false, false_or, and_self, and_true, true_and, u_expr_chks, u_expr_rsts, expr_rsts, expr_slst_rsts, expr_lst_rsts, and_test_rsts, not_test_rsts, comparison_rsts, comparison_chks, a_expr_rsts, a_expr_chks, m_expr_rsts, m_expr_chks, atom_rsts, atom_rsts_post, argspec_rsts, argspec_item_rsts, argspec_item_rsts_post, ne_eq]

/-- Parser step for input "1 - 2". -/
theorem ps_e_13 : notTestF 95 ⟨⟨['1', ' ', '-', ' ', '2'], 0, []⟩, 0⟩ = .ok ((.BinaryOp .sub (.Literal (.Number ⟨1, 1⟩ [] [])) (.Literal (.Number ⟨2, 1⟩ [] []))), ⟨⟨['1', ' ', '-', ' ', '2'], 5, [⟨0, 1, Tok.NUM, "1"⟩, ⟨2, 4, Tok.SUB, "- "⟩, ⟨4, 5, Tok.NUM, "2"⟩, ⟨5, 5, Tok.END, ""⟩]⟩, 3⟩) := by
  rw [notTestF]
  simp only [ps_e_12, tk_e_0, pPeek, pScan, pRewind, scanRewind, peekIn, tokMem, exceptBind_ok, exceptBind_error, exceptMap_ok, exceptMap_error, exceptPure, Option.some.injEq, reduceIte, reduceDIte, reduceCtorEq, Nat.reduceAdd, Nat.reduceSub, Nat.reduceEqDiff, decide_True, decide_False, decide_eq_true_eq, ne_eq, not_false_eq_true, not_true_eq_false, List.cons_append, List.nil_append, List.append_nil, or_self, or_false, false_or, and_self, and_true, true_and, u_expr_chks, u_expr_rsts, expr_rsts, expr_slst_rsts, expr_lst_rsts, and_test_rsts, not_test_rsts, comparison_rsts, comparison_chks, a_expr_rsts, a_expr_chks, m_expr_rsts, m_expr_chks, atom_rsts, atom_rsts_post, argspec_rsts, argspec_item_rsts, argspec_item_rsts_post, ne_eq]

/-- Parser step for input "1 - 2". -/
theorem ps_e_14 : andLoopF 95 (.BinaryOp .sub (.Literal (.Number ⟨1, 1⟩ [] [])) (.Literal (.Number ⟨2, 1⟩ [] []))) ⟨⟨['1', ' ', '-', ' ', '2'], 5, [⟨0, 1, Tok.NUM, "1"⟩, ⟨2, 4, Tok.SUB, "- "⟩, ⟨4, 5, Tok.NUM, "2"⟩, ⟨5, 5, Tok.END, ""⟩]⟩, 3⟩ = .ok ((.BinaryOp .sub (.Literal (.Number ⟨1, 1⟩ [] [])) (.Literal (.Number ⟨2, 1⟩ [] []))), ⟨⟨['1', ' ', '-', ' ', '2'], 5, [⟨0, 1, Tok.NUM, "1"⟩, ⟨2, 4, Tok.SUB, "- "⟩, ⟨4, 5, Tok.NUM, "2"⟩, ⟨5, 5, Tok.END, ""⟩]⟩, 3⟩) := by
  rw [andLoopF]
  simp only [tk_e_16, pPeek, pScan, pRewind, scanRewind, peekIn, tokMem, exceptBind_ok, exceptBind_error, exceptMap_ok, exceptMap_error, exceptPure, Option.some.injEq, reduceIte, reduceDIte, reduceCtorEq, Nat.reduceAdd, Nat.reduceSub, Nat.reduceEqDiff, decide_True, decide_False, decide_eq_true_eq, ne_eq, not_false_eq_true, not_true_eq_false, List.cons_append, List.nil_append, List.append_nil, or_self, or_false, false_or, and_self, and_true, true_and, u_expr_chks, u_expr_rsts, expr_rsts, expr_slst_rsts, expr_lst_rsts, and_test_rsts, not_test_rsts, comparison_rsts, comparison_chks, a_expr_rsts, a_expr_chks, m_expr_rsts, m_expr_chks, atom_rsts, atom_rsts_post, argspec_rsts, argspec_item_rsts, argspec_item_rsts_post, ne_eq]

/-- Parser step for input "1 - 2". -/
theorem ps_e_15 : andTestF 96 ⟨⟨['1', ' ', '-', ' ', '2'], 0, []⟩, 0⟩ = .ok ((.BinaryOp .sub (.Literal (.Number ⟨1, 1⟩ [] [])) (.Literal (.Number ⟨2, 1⟩ [] []))), ⟨⟨['1', ' ', '-', ' ', '2'], 5, [⟨0, 1, Tok.NUM, "1"⟩, ⟨2, 4, Tok.SUB, "- "⟩, ⟨4, 5, Tok.NUM, "2"⟩, ⟨5, 5, Tok.END, ""⟩]⟩, 3⟩) := by
  rw [andTestF, ps_e_13]
  rw [exceptBind_ok]
  simp only [ps_e_14, pPeek, pScan, pRewind, scanRewind, peekIn, tokMem, exceptBind_ok, exceptBind_error, exceptMap_ok, exceptMap_error, exceptPure, Option.some.injEq, reduceIte, reduceDIte, reduceCtorEq, Nat.reduceAdd, Nat.reduceSub, Nat.reduceEqDiff, decide_True, decide_False, decide_eq_true_eq, ne_eq, not_false_eq_true, not_true_eq_false, List.cons_append, List.nil_append, List.append_nil, or_self, or_false, false_or, and_self, and_true, true_and, u_expr_chks, u_expr_rsts, expr_rsts, expr_slst_rsts, expr_lst_rsts, and_test_rsts, not_test_rsts, comparison_rsts, comparison_chks, a_expr_rsts, a_expr_chks, m_expr_rsts, m_expr_chks, atom_rsts, atom_rsts_post, argspec_rsts, argspec_item_rsts, argspec_item_rsts_post, ne_eq]

/-- Parser step for input "1 - 2". -/
theorem ps_e_16 : exprLoopF 96 (.BinaryOp .sub (.Literal (.Number ⟨1, 1⟩ [] [])) (.Literal (.Number ⟨2, 1⟩ [] []))) ⟨⟨['1', ' ', '-', ' ', '2'], 5, [⟨0, 1, Tok.NUM, "1"⟩, ⟨2, 4, Tok.SUB, "- "⟩, ⟨4, 5, Tok.NUM, "2"⟩, ⟨5, 5, Tok.END, ""⟩]⟩, 3⟩ = .ok ((.BinaryOp .sub (.Literal (.Number ⟨1, 1⟩ [] [])) (.Literal (.Number ⟨2, 1⟩ [] []))), ⟨⟨['1', ' ', '-', ' ', '2'], 5, [⟨0, 1, Tok.NUM, "1"⟩, ⟨2, 4, Tok.SUB, "- "⟩, ⟨4, 5, Tok.NUM, "2"⟩, ⟨5, 5, Tok.END, ""⟩]⟩, 3⟩) := by
  rw [exprLoopF]
  simp only [tk_e_17, pPeek, pScan, pRewind, scanRewind, peekIn, tokMem, exceptBind_ok, exceptBind_error, exceptMap_ok, exceptMap_error, exceptPure, Option.some.injEq, reduceIte, reduceDIte, reduceCtorEq, Nat.reduceAdd, Nat.reduceSub, Nat.reduceEqDiff, decide_True, decide_False, decide_eq_true_eq, ne_eq, not_false_eq_true, not_true_eq_false, List.cons_append, List.nil_append, List.append_nil, or_self, or_false, false_or, and_self, and_true, true_and, u_expr_chks, u_expr_rsts, expr_rsts, expr_slst_rsts, expr_lst_rsts, and_test_rsts, not_test_rsts, comparison_rsts, comparison_chks, a_expr_rsts, a_expr_chks, m_expr_rsts, m_expr_chks, atom_rsts, atom_rsts_post, argspec_rsts, argspec_item_rsts, argspec_item_rsts_post, ne_eq]

/-- Parser step for input "1 - 2". -/
theorem ps_e_17 : exprF 97 ⟨⟨['1', ' ', '-', ' ', '2'], 0, []⟩, 0⟩ = .ok ((.BinaryOp .sub (.Literal (.Number ⟨1, 1⟩ [] [])) (.Literal (.Number ⟨2, 1⟩ [] []))), ⟨⟨['1', ' ', '-', ' ', '2'], 5, [⟨0, 1, Tok.NUM, "1"⟩, ⟨2, 4, Tok.SUB, "- "⟩, ⟨4, 5, Tok.NUM, "2"⟩, ⟨5, 5, Tok.END, ""⟩]⟩, 3⟩) := by
  rw [exprF, ps_e_15]
  rw [exceptBind_ok]
  simp only [ps_e_16, pPeek, pScan, pRewind, scanRewind, peekIn, tokMem, exceptBind_ok, exceptBind_error, exceptMap_ok, exceptMap_error, exceptPure, Option.some.injEq, reduceIte, reduceDIte, reduceCtorEq, Nat.reduceAdd, Nat.reduceSub, Nat.reduceEqDiff, decide_True, decide_False, decide_eq_true_eq, ne_eq, not_false_eq_true, not_true_eq_false, List.cons_append, List.nil_append, List.append_nil, or_self, or_false, false_or, and_self, and_true, true_and, u_expr_chks, u_expr_rsts, expr_rsts, expr_slst_rsts, expr_lst_rsts, and_test_rsts, not_test_rsts, comparison_rsts, comparison_chks, a_expr_rsts, a_expr_chks, m_expr_rsts, m_expr_chks, atom_rsts, atom_rsts_post, argspec_rsts, argspec_item_rsts, argspec_item_rsts_post, ne_eq]

/-- Parser step for input "1 - 2". -/
theorem ps_e_18 : exprSlstLoopF 97 [(.BinaryOp .sub (.Literal (.Number ⟨1, 1⟩ [] [])) (.Literal (.Number ⟨2, 1⟩ [] [])))] ⟨⟨['1', ' ', '-', ' ', '2'], 5, [⟨0, 1, Tok.NUM, "1"⟩, ⟨2, 4, Tok.SUB, "- "⟩, ⟨4, 5, Tok.NUM, "2"⟩, ⟨5, 5, Tok.END, ""⟩]⟩, 3⟩ = .ok ((.BinaryOp .sub (.Literal (.Number ⟨1, 1⟩ [] [])) (.Literal (.Number ⟨2, 1⟩ [] []))), ⟨⟨['1', ' ', '-', ' ', '2'], 5, [⟨0, 1, Tok.NUM, "1"⟩, ⟨2, 4, Tok.SUB, "- "⟩, ⟨4, 5, Tok.NUM, "2"⟩, ⟨5, 5, Tok.END, ""⟩]⟩, 3⟩) := by
  rw [exprSlstLoopF]
  simp only [tk_e_18, pPeek, pScan, pRewind, scanRewind, peekIn, tokMem, exceptBind_ok, exceptBind_error, exceptMap_ok, exceptMap_error, exceptPure, Option.some.injEq, reduceIte, reduceDIte, reduceCtorEq, Nat.reduceAdd, Nat.reduceSub, Nat.reduceEqDiff, decide_True, decide_False, decide_eq_true_eq, ne_eq, not_false_eq_true, not_true_eq_false, List.cons_append, List.nil_append, List.append_nil, or_self, or_false, false_or, and_self, and_true, true_and, u_expr_chks, u_expr_rsts, expr_rsts, expr_slst_rsts, expr_lst_rsts, and_test_rsts, not_test_rsts, comparison_rsts, comparison_chks, a_expr_rsts, a_expr_chks, m_expr_rsts, m_expr_chks, atom_rsts, atom_rsts_post, argspec_rsts, argspec_item_rsts, argspec_item_rsts_post, ne_eq]

/-- Parser step for input "1 - 2". -/
theorem ps_e_19 : exprSlstF 98 ⟨⟨['1', ' ', '-', ' ', '2'], 0, []⟩, 0⟩ = .ok ((.BinaryOp .sub (.Literal (.Number ⟨1, 1⟩ [] [])) (.Literal (.Number ⟨2, 1⟩ [] []))), ⟨⟨['1', ' ', '-', ' ', '2'], 5, [⟨0, 1, Tok.NUM, "1"⟩, ⟨2, 4, Tok.SUB, "- "⟩, ⟨4, 5, Tok.NUM, "2"⟩, ⟨5, 5, Tok.END, ""⟩]⟩, 3⟩) := by
  rw [exprSlstF, ps_e_17]
  rw [exceptBind_ok]
  simp only [ps_e_18, pPeek, pScan, pRewind, scanRewind, peekIn, tokMem, exceptBind_ok, exceptBind_error, exceptMap_ok, exceptMap_error, exceptPure, Option.some.injEq, reduceIte, reduceDIte, reduceCtorEq, Nat.reduceAdd, Nat.reduceSub, Nat.reduceEqDiff, decide_True, decide_False, decide_eq_true_eq, ne_eq, not_false_eq_true, not_true_eq_false, List.cons_append, List.nil_append, List.append_nil, or_self, or_false, false_or, and_self, and_true, true_and, u_expr_chks, u_expr_rsts, expr_rsts, expr_slst_rsts, expr_lst_rsts, and_test_rsts, not_test_rsts, comparison_rsts, comparison_chks, a_expr_rsts, a_expr_chks, m_expr_rsts, m_expr_chks, atom_rsts, atom_rsts_post, argspec_rsts, argspec_item_rsts, argspec_item_rsts_post, ne_eq]

/-- Parser step for input "1 - 2". -/
theorem ps_e_20 : exprLstLoopF 98 [(.BinaryOp .sub (.Literal (.Number ⟨1, 1⟩ [] [])) (.Literal (.Number ⟨2, 1⟩ [] [])))] ⟨⟨['1', ' ', '-', ' ', '2'], 5, [⟨0, 1, Tok.NUM, "1"⟩, ⟨2, 4, Tok.SUB, "- "⟩, ⟨4, 5, Tok.NUM, "2"⟩, ⟨5, 5, Tok.END, ""⟩]⟩, 3⟩ = .ok ((.BinaryOp .sub (.Literal (.Number ⟨1, 1⟩ [] [])) (.Literal (.Number ⟨2, 1⟩ [] []))), ⟨⟨['1', ' ', '-', ' ', '2'], 5, [⟨0, 1, Tok.NUM, "1"⟩, ⟨2, 4, Tok.SUB, "- "⟩, ⟨4, 5, Tok.NUM, "2"⟩, ⟨5, 5, Tok.END, ""⟩]⟩, 3⟩) := by
  rw [exprLstLoopF]
  simp only [tk_e_19, pPeek, pScan, pRewind, scanRewind, peekIn, tokMem, exceptBind_ok, exceptBind_error, exceptMap_ok, exceptMap_error, exceptPure, Option.some.injEq, reduceIte, reduceDIte, reduceCtorEq, Nat.reduceAdd, Nat.reduceSub, Nat.reduceEqDiff, decide_True, decide_False, decide_eq_true_eq, ne_eq, not_false_eq_true, not_true_eq_false, List.cons_append, List.nil_append, List.append_nil, or_self, or_false, false_or, and_self, and_true, true_and, u_expr_chks, u_expr_rsts, expr_rsts, expr_slst_rsts, expr_lst_rsts, and_test_rsts, not_test_rsts, comparison_rsts, comparison_chks, a_expr_rsts, a_expr_chks, m_expr_rsts, m_expr_chks, atom_rsts, atom_rsts_post, argspec_rsts, argspec_item_rsts, argspec_item_rsts_post, ne_eq]

/-- Parser step for input "1 - 2". -/
theorem ps_e_21 : exprLstF 99 ⟨⟨['1', ' ', '-', ' ', '2'], 0, []⟩, 0⟩ = .ok ((.BinaryOp .sub (.Literal (.Number ⟨1, 1⟩ [] [])) (.Literal (.Number ⟨2, 1⟩ [] []))), ⟨⟨['1', ' ', '-', ' ', '2'], 5, [⟨0, 1, Tok.NUM, "1"⟩, ⟨2, 4, Tok.SUB, "- "⟩, ⟨4, 5, Tok.NUM, "2"⟩, ⟨5, 5, Tok.END, ""⟩]⟩, 3⟩) := by
  rw [exprLstF, ps_e_19]
  rw [exceptBind_ok]
  simp only [ps_e_20, pPeek, pScan, pRewind, scanRewind, peekIn, tokMem, exceptBind_ok, exceptBind_error, exceptMap_ok, exceptMap_error, exceptPure, Option.some.injEq, reduceIte, reduceDIte, reduceCtorEq, Nat.reduceAdd, Nat.reduceSub, Nat.reduceEqDiff, decide_True, decide_False, decide_eq_true_eq, ne_eq, not_false_eq_true, not_true_eq_false, List.cons_append, List.nil_append, List.append_nil, or_self, or_false, false_or, and_self, and_true, true_and, u_expr_chks, u_expr_rsts, expr_rsts, expr_slst_rsts, expr_lst_rsts, and_test_rsts, not_test_rsts, comparison_rsts, comparison_chks, a_expr_rsts, a_expr_chks, m_expr_rsts, m_expr_chks, atom_rsts, atom_rsts_post, argspec_rsts, argspec_item_rsts, argspec_item_rsts_post, ne_eq]

/-- Parser step for input "1 - 2". -/
theorem ps_e_22 : goalF 100 ⟨⟨['1', ' ', '-', ' ', '2'], 0, []⟩, 0⟩ = .ok ((.BinaryOp .sub (.Literal (.Number ⟨1, 1⟩ [] [])) (.Literal (.Number ⟨2, 1⟩ [] []))), ⟨⟨['1', ' ', '-', ' ', '2'], 5, [⟨0, 1, Tok.NUM, "1"⟩, ⟨2, 4, Tok.SUB, "- "⟩, ⟨4, 5, Tok.NUM, "2"⟩, ⟨5, 5, Tok.END, ""⟩]⟩, 4⟩) := by
  rw [goalF, ps_e_21]
  rw [exceptBind_ok]
  simp only [tk_e_20, pPeek, pScan, pRewind, scanRewind, peekIn, tokMem, exceptBind_ok, exceptBind_error, exceptMap_ok, exceptMap_error, exceptPure, Option.some.injEq, reduceIte, reduceDIte, reduceCtorEq, Nat.reduceAdd, Nat.reduceSub, Nat.reduceEqDiff, decide_True, decide_False, decide_eq_true_eq, ne_eq, not_false_eq_true, not_true_eq_false, List.cons_append, List.nil_append, List.append_nil, or_self, or_false, false_or, and_self, and_true, true_and, u_expr_chks, u_expr_rsts, expr_rsts, expr_slst_rsts, expr_lst_rsts, and_test_rsts, not_test_rsts, comparison_rsts, comparison_chks, a_expr_rsts, a_expr_chks, m_expr_rsts, m_expr_chks, atom_rsts, atom_rsts_post, argspec_rsts, argspec_item_rsts, argspec_item_rsts_post, ne_eq]

/-- Parse of the source text "1 - 2". -/
theorem parse_e : parseExpr 100 "1 - 2" = .ok (.BinaryOp .sub (.Literal (.Number ⟨1, 1⟩ [] [])) (.Literal (.Number ⟨2, 1⟩ [] []))) := by
  simp only [parseExpr, pReset, scanReset, sdata9, ps_e_22, exceptMap_ok]
/-- Scanner fact for input "-moz". -/
theorem tk_f_0 : tokenAt ⟨['-', 'm', 'o', 'z'], 0, []⟩ 0 [Tok.LPAR, Tok.COLOR, Tok.QSTR, Tok.SIGN, Tok.VAR, Tok.ADD, Tok.NUM, Tok.FNCT, Tok.STR, Tok.NOT, Tok.ID] = .ok (⟨0, 4, Tok.ID, "-moz"⟩, ⟨['-', 'm', 'o', 'z'], 4, [⟨0, 4, Tok.ID, "-moz"⟩]⟩) := rfl

/-- Scanner fact for input "-moz". -/
theorem tk_f_1 : tokenAt ⟨['-', 'm', 'o', 'z'], 4, [⟨0, 4, Tok.ID, "-moz"⟩]⟩ 0 [Tok.LPAR, Tok.COLOR, Tok.QSTR, Tok.SIGN, Tok.ADD, Tok.NUM, Tok.FNCT, Tok.STR, Tok.VAR, Tok.ID] = .ok (⟨0, 4, Tok.ID, "-moz"⟩, ⟨['-', 'm', 'o', 'z'], 4, [⟨0, 4, Tok.ID, "-moz"⟩]⟩) := rfl

/-- Scanner fact for input "-moz". -/
theorem tk_f_2 : tokenAt ⟨['-', 'm', 'o', 'z'], 4, [⟨0, 4, Tok.ID, "-moz"⟩]⟩ 0 [Tok.LPAR, Tok.COLOR, Tok.QSTR, Tok.NUM, Tok.FNCT, Tok.STR, Tok.VAR, Tok.ID] = .ok (⟨0, 4, Tok.ID, "-moz"⟩, ⟨['-', 'm', 'o', 'z'], 4, [⟨0, 4, Tok.ID, "-moz"⟩]⟩) := rfl

/-- Scanner fact for input "-moz". -/
theorem tk_f_3 : tokenAt ⟨['-', 'm', 'o', 'z'], 4, [⟨0, 4, Tok.ID, "-moz"⟩]⟩ 0 [Tok.ID] = .ok (⟨0, 4, Tok.ID, "-moz"⟩, ⟨['-', 'm', 'o', 'z'], 4, [⟨0, 4, Tok.ID, "-moz"⟩]⟩) := rfl

/-- Scanner fact for input "-moz". -/
theorem tk_f_4 : tokenAt ⟨['-', 'm', 'o', 'z'], 4, [⟨0, 4, Tok.ID, "-moz"⟩]⟩ 1 [Tok.LPAR, Tok.SUB, Tok.QSTR, Tok.RPAR, Tok.MUL, Tok.DIV, Tok.LE, Tok.COLOR, Tok.NE, Tok.LT, Tok.NUM, Tok.COMMA, Tok.GT, Tok.END, Tok.SIGN, Tok.GE, Tok.FNCT, Tok.STR, Tok.VAR, Tok.EQ, Tok.ID, Tok.AND, Tok.ADD, Tok.NOT, Tok.OR] = .ok (⟨4, 4, Tok.END, ""⟩, ⟨['-', 'm', 'o', 'z'], 4, [⟨0, 4, Tok.ID, "-moz"⟩, ⟨4, 4, Tok.END, ""⟩]⟩) := rfl

/-- Scanner fact for input "-moz". -/
theorem tk_f_5 : tokenAt ⟨['-', 'm', 'o', 'z'], 4, [⟨0, 4, Tok.ID, "-moz"⟩, ⟨4, 4, Tok.END, ""⟩]⟩ 1 [Tok.LPAR, Tok.SUB, Tok.QSTR, Tok.RPAR, Tok.LE, Tok.COLOR, Tok.NE, Tok.LT, Tok.NUM, Tok.COMMA, Tok.GT, Tok.END, Tok.SIGN, Tok.GE, Tok.FNCT, Tok.STR, Tok.VAR, Tok.EQ, Tok.ID, Tok.AND, Tok.ADD, Tok.NOT, Tok.OR] = .ok (⟨4, 4, Tok.END, ""⟩, ⟨['-', 'm', 'o', 'z'], 4, [⟨0, 4, Tok.ID, "-moz"⟩, ⟨4, 4, Tok.END, ""⟩]⟩) := rfl

/-- Scanner fact for input "-moz". -/
theorem tk_f_6 : tokenAt ⟨['-', 'm', 'o', 'z'], 4, [⟨0, 4, Tok.ID, "-moz"⟩, ⟨4, 4, Tok.END, ""⟩]⟩ 1 [Tok.LPAR, Tok.QSTR, Tok.RPAR, Tok.LE, Tok.COLOR, Tok.NE, Tok.LT, Tok.NUM, Tok.COMMA, Tok.GT, Tok.END, Tok.SIGN, Tok.ADD, Tok.FNCT, Tok.STR, Tok.VAR, Tok.EQ, Tok.ID, Tok.AND, Tok.GE, Tok.NOT, Tok.OR] = .ok (⟨4, 4, Tok.END, ""⟩, ⟨['-', 'm', 'o', 'z'], 4, [⟨0, 4, Tok.ID, "-moz"⟩, ⟨4, 4, Tok.END, ""⟩]⟩) := rfl

/-- Scanner fact for input "-moz". -/
theorem tk_f_7 : tokenAt ⟨['-', 'm', 'o', 'z'], 4, [⟨0, 4, Tok.ID, "-moz"⟩, ⟨4, 4, Tok.END, ""⟩]⟩ 1 [Tok.AND, Tok.LPAR, Tok.END, Tok.COLOR, Tok.QSTR, Tok.SIGN, Tok.VAR, Tok.ADD, Tok.NUM, Tok.COMMA, Tok.FNCT, Tok.STR, Tok.NOT, Tok.ID, Tok.RPAR, Tok.OR] = .ok (⟨4, 4, Tok.END, ""⟩, ⟨['-', 'm', 'o', 'z'], 4, [⟨0, 4, Tok.ID, "-moz"⟩, ⟨4, 4, Tok.END, ""⟩]⟩) := rfl

/-- Scanner fact for input "-moz". -/
theorem tk_f_8 : tokenAt ⟨['-', 'm', 'o', 'z'], 4, [⟨0, 4, Tok.ID, "-moz"⟩, ⟨4, 4, Tok.END, ""⟩]⟩ 1 [Tok.LPAR, Tok.END, Tok.COLOR, Tok.QSTR, Tok.RPAR, Tok.VAR, Tok.ADD, Tok.NUM, Tok.COMMA, Tok.FNCT, Tok.STR, Tok.NOT, Tok.ID, Tok.SIGN, Tok.OR] = .ok (⟨4, 4, Tok.END, ""⟩, ⟨['-', 'm', 'o', 'z'], 4, [⟨0, 4, Tok.ID, "-moz"⟩, ⟨4, 4, Tok.END, ""⟩]⟩) := rfl

/-- Scanner fact for input "-moz". -/
theorem tk_f_9 : tokenAt ⟨['-', 'm', 'o', 'z'], 4, [⟨0, 4, Tok.ID, "-moz"⟩, ⟨4, 4, Tok.END, ""⟩]⟩ 1 [Tok.LPAR, Tok.END, Tok.COLOR, Tok.QSTR, Tok.RPAR, Tok.VAR, Tok.ADD, Tok.NUM, Tok.COMMA, Tok.FNCT, Tok.STR, Tok.NOT, Tok.SIGN, Tok.ID] = .ok (⟨4, 4, Tok.END, ""⟩, ⟨['-', 'm', 'o', 'z'], 4, [⟨0, 4, Tok.ID, "-moz"⟩, ⟨4, 4, Tok.END, ""⟩]⟩) := rfl

/-- Scanner fact for input "-moz". -/
theorem tk_f_10 : tokenAt ⟨['-', 'm', 'o', 'z'], 4, [⟨0, 4, Tok.ID, "-moz"⟩, ⟨4, 4, Tok.END, ""⟩]⟩ 1 [Tok.END, Tok.COMMA, Tok.RPAR] = .ok (⟨4, 4, Tok.END, ""⟩, ⟨['-', 'm', 'o', 'z'], 4, [⟨0, 4, Tok.ID, "-moz"⟩, ⟨4, 4, Tok.END, ""⟩]⟩) := rfl

/-- Scanner fact for input "-moz". -/
theorem tk_f_11 : tokenAt ⟨['-', 'm', 'o', 'z'], 4, [⟨0, 4, Tok.ID, "-moz"⟩, ⟨4, 4, Tok.END, ""⟩]⟩ 1 [Tok.END] = .ok (⟨4, 4, Tok.END, ""⟩, ⟨['-', 'm', 'o', 'z'], 4, [⟨0, 4, Tok.ID, "-moz"⟩, ⟨4, 4, Tok.END, ""⟩]⟩) := rfl

/-- Parser step for input "-moz". -/
theorem ps_f_0 : atomF 90 ⟨⟨['-', 'm', 'o', 'z'], 4, [⟨0, 4, Tok.ID, "-moz"⟩]⟩, 0⟩ = .ok ((.Literal (.String "-moz" .NoQuotes)), ⟨⟨['-', 'm', 'o', 'z'], 4, [⟨0, 4, Tok.ID, "-moz"⟩]⟩, 1⟩) := by
  rw [atomF]
  simp only [tk_f_2, tk_f_3, pPeek, pScan, pRewind, scanRewind, peekIn, tokMem, exceptBind_ok, exceptBind_error, exceptMap_ok, exceptMap_error, exceptPure, Option.some.injEq, reduceIte, reduceDIte, reduceCtorEq, Nat.reduceAdd, Nat.reduceSub, Nat.reduceEqDiff, decide_True, decide_False, decide_eq_true_eq, ne_eq, not_false_eq_true, not_true_eq_false, List.cons_append, List.nil_append, List.append_nil, or_self, or_false, false_or, and_self, and_true, true_and, u_expr_chks, u_expr_rsts, expr_rsts, expr_slst_rsts, expr_lst_rsts, and_test_rsts, not_test_rsts, comparison_rsts, comparison_chks, a_expr_rsts, a_expr_chks, m_expr_rsts, m_expr_chks, atom_rsts, atom_rsts_post, argspec_rsts, argspec_item_rsts, argspec_item_rsts_post, sdata0, sdata1, sdata2, sdata3, sdata4, sdata5, sdata6, sdata7, sdata8, sdata9, sdata10, parse_bareword, COLOR_NAMES, parseNum, digitsToNat, lowerStr, parseHexColor, hexToNat, isDigitC, isAlphaC, SassQ.add, SassQ.fromNat, mkQ, gcdQ, gcdFuel, List.find?, List.map, List.take, List.drop, List.takeWhile, List.dropWhile, List.dropLast, List.isEmpty, List.length, Option.map, Char.reduceEq, Char.reduceBEq, Char.reduceLE, Char.reduceLT, Char.reduceToNat, Char.reduceToLower, String.reduceMk, String.reduceEq, String.reduceBEq, Nat.reduceMul, Nat.reduceDiv, Nat.reduceMod, Nat.reducePow, Nat.reduceLeDiff, Nat.reduceLT, Nat.reduceGT, Int.reduceAdd, Int.reduceSub, Int.reduceMul, Int.reduceNeg, Int.reduceDiv, Int.reduceLT, Int.reduceLE, Int.reduceEq, Int.reduceBEq, Int.reduceToNat, Int.reduceAbs, Int.reducePow, Int.reduceMod, Int.reduceOfNat, Nat.cast_ofNat, Nat.cast_one, Nat.cast_zero]

/-- Parser step for input "-moz". -/
theorem ps_f_1 : uExprF 91 ⟨⟨['-', 'm', 'o', 'z'], 4, [⟨0, 4, Tok.ID, "-moz"⟩]⟩, 0⟩ = .ok ((.Literal (.String "-moz" .NoQuotes)), ⟨⟨['-', 'm', 'o', 'z'], 4, [⟨0, 4, Tok.ID, "-moz"⟩]⟩, 1⟩) := by
  rw [uExprF]
  simp only [ps_f_0, tk_f_1, pPeek, pScan, pRewind, scanRewind, peekIn, tokMem, exceptBind_ok, exceptBind_error, exceptMap_ok, exceptMap_error, exceptPure, Option.some.injEq, reduceIte, reduceDIte, reduceCtorEq, Nat.reduceAdd, Nat.reduceSub, Nat.reduceEqDiff, decide_True, decide_False, decide_eq_true_eq, ne_eq, not_false_eq_true, not_true_eq_false, List.cons_append, List.nil_append, List.append_nil, or_self, or_false, false_or, and_self, and_true, true_and, u_expr_chks, u_expr_rsts, expr_rsts, expr_slst_rsts, expr_lst_rsts, and_test_rsts, not_test_rsts, comparison_rsts, comparison_chks, a_expr_rsts, a_expr_chks, m_expr_rsts, m_expr_chks, atom_rsts, atom_rsts_post, argspec_rsts, argspec_item_rsts, argspec_item_rsts_post, ne_eq]

/-- Parser step for input "-moz". -/
theorem ps_f_2 : mLoopF 91 (.Literal (.String "-moz" .NoQuotes)) ⟨⟨['-', 'm', 'o', 'z'], 4, [⟨0, 4, Tok.ID, "-moz"⟩]⟩, 1⟩ = .ok ((.Literal (.String "-moz" .NoQuotes)), ⟨⟨['-', 'm', 'o', 'z'], 4, [⟨0, 4, Tok.ID, "-moz"⟩, ⟨4, 4, Tok.END, ""⟩]⟩, 1⟩) := by
  rw [mLoopF]
  simp only [tk_f_4, pPeek, pScan, pRewind, scanRewind, peekIn, tokMem, exceptBind_ok, exceptBind_error, exceptMap_ok, exceptMap_error, exceptPure, Option.some.injEq, reduceIte, reduceDIte, reduceCtorEq, Nat.reduceAdd, Nat.reduceSub, Nat.reduceEqDiff, decide_True, decide_False, decide_eq_true_eq, ne_eq, not_false_eq_true, not_true_eq_false, List.cons_append, List.nil_append, List.append_nil, or_self, or_false, false_or, and_self, and_true, true_and, u_expr_chks, u_expr_rsts, expr_rsts, expr_slst_rsts, expr_lst_rsts, and_test_rsts, not_test_rsts, comparison_rsts, comparison_chks, a_expr_rsts, a_expr_chks, m_expr_rsts, m_expr_chks, atom_rsts, atom_rsts_post, argspec_rsts, argspec_item_rsts, argspec_item_rsts_post, ne_eq]

/-- Parser step for input "-moz". -/
theorem ps_f_3 : mExprF 92 ⟨⟨['-', 'm', 'o', 'z'], 4, [⟨0, 4, Tok.ID, "-moz"⟩]⟩, 0⟩ = .ok ((.Literal (.String "-moz" .NoQuotes)), ⟨⟨['-', 'm', 'o', 'z'], 4, [⟨0, 4, Tok.ID, "-moz"⟩, ⟨4, 4, Tok.END, ""⟩]⟩, 1⟩) := by
  rw [mExprF, ps_f_1]
  rw [exceptBind_ok]
  simp only [ps_f_2, pPeek, pScan, pRewind, scanRewind, peekIn, tokMem, exceptBind_ok, exceptBind_error, exceptMap_ok, exceptMap_error, exceptPure, Option.some.injEq, reduceIte, reduceDIte, reduceCtorEq, Nat.reduceAdd, Nat.reduceSub, Nat.reduceEqDiff, decide_True, decide_False, decide_eq_true_eq, ne_eq, not_false_eq_true, not_true_eq_false, List.cons_append, List.nil_append, List.append_nil, or_self, or_false, false_or, and_self, and_true, true_and, u_expr_chks, u_expr_rsts, expr_rsts, expr_slst_rsts, expr_lst_rsts, and_test_rsts, not_test_rsts, comparison_rsts, comparison_chks, a_expr_rsts, a_expr_chks, m_expr_rsts, m_expr_chks, atom_rsts, atom_rsts_post, argspec_rsts, argspec_item_rsts, argspec_item_rsts_post, ne_eq]

/-- Parser step for input "-moz". -/
theorem ps_f_4 : aLoopF 92 (.Literal (.String "-moz" .NoQuotes)) ⟨⟨['-', 'm', 'o', 'z'], 4, [⟨0, 4, Tok.ID, "-moz"⟩, ⟨4, 4, Tok.END, ""⟩]⟩, 1⟩ = .ok ((.Literal (.String "-moz" .NoQuotes)), ⟨⟨['-', 'm', 'o', 'z'], 4, [⟨0, 4, Tok.ID, "-moz"⟩, ⟨4, 4, Tok.END, ""⟩]⟩, 1⟩) := by
  rw [aLoopF]
  simp only [tk_f_5, pPeek, pScan, pRewind, scanRewind, peekIn, tokMem, exceptBind_ok, exceptBind_error, exceptMap_ok, exceptMap_error, exceptPure, Option.some.injEq, reduceIte, reduceDIte, reduceCtorEq, Nat.reduceAdd, Nat.reduceSub, Nat.reduceEqDiff, decide_True, decide_False, decide_eq_true_eq, ne_eq, not_false_eq_true, not_true_eq_false, List.cons_append, List.nil_append, List.append_nil, or_self, or_false, false_or, and_self, and_true, true_and, u_expr_chks, u_expr_rsts, expr_rsts, expr_slst_rsts, expr_lst_rsts, and_test_rsts, not_test_rsts, comparison_rsts, comparison_chks, a_expr_rsts, a_expr_chks, m_expr_rsts, m_expr_chks, atom_rsts, atom_rsts_post, argspec_rsts, argspec_item_rsts, argspec_item_rsts_post, ne_eq]

/-- Parser step for input "-moz". -/
theorem ps_f_5 : aExprF 93 ⟨⟨['-', 'm', 'o', 'z'], 4, [⟨0, 4, Tok.ID, "-moz"⟩]⟩, 0⟩ = .ok ((.Literal (.String "-moz" .NoQuotes)), ⟨⟨['-', 'm', 'o', 'z'], 4, [⟨0, 4, Tok.ID, "-moz"⟩, ⟨4, 4, Tok.END, ""⟩]⟩, 1⟩) := by
  rw [aExprF, ps_f_3]
  rw [exceptBind_ok]
  simp only [ps_f_4, pPeek, pScan, pRewind, scanRewind, peekIn, tokMem, exceptBind_ok, exceptBind_error, exceptMap_ok, exceptMap_error, exceptPure, Option.some.injEq, reduceIte, reduceDIte, reduceCtorEq, Nat.reduceAdd, Nat.reduceSub, Nat.reduceEqDiff, decide_True, decide_False, decide_eq_true_eq, ne_eq, not_false_eq_true, not_true_eq_false, List.cons_append, List.nil_append, List.append_nil, or_self, or_false, false_or, and_self, and_true, true_and, u_expr_chks, u_expr_rsts, expr_rsts, expr_slst_rsts, expr_lst_rsts, and_test_rsts, not_test_rsts, comparison_rsts, comparison_chks, a_expr_rsts, a_expr_chks, m_expr_rsts, m_expr_chks, atom_rsts, atom_rsts_post, argspec_rsts, argspec_item_rsts, argspec_item_rsts_post, ne_eq]

/-- Parser step for input "-moz". -/
theorem ps_f_6 : compLoopF 93 (.Literal (.String "-moz" .NoQuotes)) ⟨⟨['-', 'm', 'o', 'z'], 4, [⟨0, 4, Tok.ID, "-moz"⟩, ⟨4, 4, Tok.END, ""⟩]⟩, 1⟩ = .ok ((.Literal (.String "-moz" .NoQuotes)), ⟨⟨['-', 'm', 'o', 'z'], 4, [⟨0, 4, Tok.ID, "-moz"⟩, ⟨4, 4, Tok.END, ""⟩]⟩, 1⟩) := by
  rw [compLoopF]
  simp only [tk_f_6, pPeek, pScan, pRewind, scanRewind, peekIn, tokMem, exceptBind_ok, exceptBind_error, exceptMap_ok, exceptMap_error, exceptPure, Option.some.injEq, reduceIte, reduceDIte, reduceCtorEq, Nat.reduceAdd, Nat.reduceSub, Nat.reduceEqDiff, decide_True, decide_False, decide_eq_true_eq, ne_eq, not_false_eq_true, not_true_eq_false, List.cons_append, List.nil_append, List.append_nil, or_self, or_false, false_or, and_self, and_true, true_and, u_expr_chks, u_expr_rsts, expr_rsts, expr_slst_rsts, expr_lst_rsts, and_test_rsts, not_test_rsts, comparison_rsts, comparison_chks, a_expr_rsts, a_expr_chks, m_expr_rsts, m_expr_chks, atom_rsts, atom_rsts_post, argspec_rsts, argspec_item_rsts, argspec_item_rsts_post, ne_eq]

/-- Parser step for input "-moz". -/
theorem ps_f_7 : comparisonF 94 ⟨⟨['-', 'm', 'o', 'z'], 4, [⟨0, 4, Tok.ID, "-moz"⟩]⟩, 0⟩ = .ok ((.Literal (.String "-moz" .NoQuotes)), ⟨⟨['-', 'm', 'o', 'z'], 4, [⟨0, 4, Tok.ID, "-moz"⟩, ⟨4, 4, Tok.END, ""⟩]⟩, 1⟩) := by
  rw [comparisonF, ps_f_5]
  rw [exceptBind_ok]
  simp only [ps_f_6, pPeek, pScan, pRewind, scanRewind, peekIn, tokMem, exceptBind_ok, exceptBind_error, exceptMap_ok, exceptMap_error, exceptPure, Option.some.injEq, reduceIte, reduceDIte, reduceCtorEq, Nat.reduceAdd, Nat.reduceSub, Nat.reduceEqDiff, decide_True, decide_False, decide_eq_true_eq, ne_eq, not_false_eq_true, not_true_eq_false, List.cons_append, List.nil_append, List.append_nil, or_self, or_false, false_or, and_self, and_true, true_and, u_expr_chks, u_expr_rsts, expr_rsts, expr_slst_rsts, expr_lst_rsts, and_test_rsts, not_test_rsts, comparison_rsts, comparison_chks, a_expr_rsts, a_expr_chks, m_expr_rsts, m_expr_chks, atom_rsts, atom_rsts_post, argspec_rsts, argspec_item_rsts, argspec_item_rsts_post, ne_eq]

/-- Parser step for input "-moz". -/
theorem ps_f_8 : notTestF 95 ⟨⟨['-', 'm', 'o', 'z'], 0, []⟩, 0⟩ = .ok ((.Literal (.String "-moz" .NoQuotes)), ⟨⟨['-', 'm', 'o', 'z'], 4, [⟨0, 4, Tok.ID, "-moz"⟩, ⟨4, 4, Tok.END, ""⟩]⟩, 1⟩) := by
  rw [notTestF]
  simp only [ps_f_7, tk_f_0, pPeek, pScan, pRewind, scanRewind, peekIn, tokMem, exceptBind_ok, exceptBind_error, exceptMap_ok, exceptMap_error, exceptPure, Option.some.injEq, reduceIte, reduceDIte, reduceCtorEq, Nat.reduceAdd, Nat.reduceSub, Nat.reduceEqDiff, decide_True, decide_False, decide_eq_true_eq, ne_eq, not_false_eq_true, not_true_eq_false, List.cons_append, List.nil_append, List.append_nil, or_self, or_false, false_or, and_self, and_true, true_and, u_expr_chks, u_expr_rsts, expr_rsts, expr_slst_rsts, expr_lst_rsts, and_test_rsts, not_test_rsts, comparison_rsts, comparison_chks, a_expr_rsts, a_expr_chks, m_expr_rsts, m_expr_chks, atom_rsts, atom_rsts_post, argspec_rsts, argspec_item_rsts, argspec_item_rsts_post, ne_eq]

/-- Parser step for input "-moz". -/
theorem ps_f_9 : andLoopF 95 (.Literal (.String "-moz" .NoQuotes)) ⟨⟨['-', 'm', 'o', 'z'], 4, [⟨0, 4, Tok.ID, "-moz"⟩, ⟨4, 4, Tok.END, ""⟩]⟩, 1⟩ = .ok ((.Literal (.String "-moz" .NoQuotes)), ⟨⟨['-', 'm', 'o', 'z'], 4, [⟨0, 4, Tok.ID, "-moz"⟩, ⟨4, 4, Tok.END, ""⟩]⟩, 1⟩) := by
  rw [andLoopF]
  simp only [tk_f_7, pPeek, pScan, pRewind, scanRewind, peekIn, tokMem, exceptBind_ok, exceptBind_error, exceptMap_ok, exceptMap_error, exceptPure, Option.some.injEq, reduceIte, reduceDIte, reduceCtorEq, Nat.reduceAdd, Nat.reduceSub, Nat.reduceEqDiff, decide_True, decide_False, decide_eq_true_eq, ne_eq, not_false_eq_true, not_true_eq_false, List.cons_append, List.nil_append, List.append_nil, or_self, or_false, false_or, and_self, and_true, true_and, u_expr_chks, u_expr_rsts, expr_rsts, expr_slst_rsts, expr_lst_rsts, and_test_rsts, not_test_rsts, comparison_rsts, comparison_chks, a_expr_rsts, a_expr_chks, m_expr_rsts, m_expr_chks, atom_rsts, atom_rsts_post, argspec_rsts, argspec_item_rsts, argspec_item_rsts_post, ne_eq]

/-- Parser step for input "-moz". -/
theorem ps_f_10 : andTestF 96 ⟨⟨['-', 'm', 'o', 'z'], 0, []⟩, 0⟩ = .ok ((.Literal (.String "-moz" .NoQuotes)), ⟨⟨['-', 'm', 'o', 'z'], 4, [⟨0, 4, Tok.ID, "-moz"⟩, ⟨4, 4, Tok.END, ""⟩]⟩, 1⟩) := by
  rw [andTestF, ps_f_8]
  rw [exceptBind_ok]
  simp only [ps_f_9, pPeek, pScan, pRewind, scanRewind, peekIn, tokMem, exceptBind_ok, exceptBind_error, exceptMap_ok, exceptMap_error, exceptPure, Option.some.injEq, reduceIte, reduceDIte, reduceCtorEq, Nat.reduceAdd, Nat.reduceSub, Nat.reduceEqDiff, decide_True, decide_False, decide_eq_true_eq, ne_eq, not_false_eq_true, not_true_eq_false, List.cons_append, List.nil_append, List.append_nil, or_self, or_false, false_or, and_self, and_true, true_and, u_expr_chks, u_expr_rsts, expr_rsts, expr_slst_rsts, expr_lst_rsts, and_test_rsts, not_test_rsts, comparison_rsts, comparison_chks, a_expr_rsts, a_expr_chks, m_expr_rsts, m_expr_chks, atom_rsts, atom_rsts_post, argspec_rsts, argspec_item_rsts, argspec_item_rsts_post, ne_eq]

/-- Parser step for input "-moz". -/
theorem ps_f_11 : exprLoopF 96 (.Literal (.String "-moz" .NoQuotes)) ⟨⟨['-', 'm', 'o', 'z'], 4, [⟨0, 4, Tok.ID, "-moz"⟩, ⟨4, 4, Tok.END, ""⟩]⟩, 1⟩ = .ok ((.Literal (.String "-moz" .NoQuotes)), ⟨⟨['-', 'm', 'o', 'z'], 4, [⟨0, 4, Tok.ID, "-moz"⟩, ⟨4, 4, Tok.END, ""⟩]⟩, 1⟩) := by
  rw [exprLoopF]
  simp only [tk_f_8, pPeek, pScan, pRewind, scanRewind, peekIn, tokMem, exceptBind_ok, exceptBind_error, exceptMap_ok, exceptMap_error, exceptPure, Option.some.injEq, reduceIte, reduceDIte, reduceCtorEq, Nat.reduceAdd, Nat.reduceSub, Nat.reduceEqDiff, decide_True, decide_False, decide_eq_true_eq, ne_eq, not_false_eq_true, not_true_eq_false, List.cons_append, List.nil_append, List.append_nil, or_self, or_false, false_or, and_self, and_true, true_and, u_expr_chks, u_expr_rsts, expr_rsts, expr_slst_rsts, expr_lst_rsts, and_test_rsts, not_test_rsts, comparison_rsts, comparison_chks, a_expr_rsts, a_expr_chks, m_expr_rsts, m_expr_chks, atom_rsts, atom_rsts_post, argspec_rsts, argspec_item_rsts, argspec_item_rsts_post, ne_eq]

/-- Parser step for input "-moz". -/
theorem ps_f_12 : exprF 97 ⟨⟨['-', 'm', 'o', 'z'], 0, []⟩, 0⟩ = .ok ((.Literal (.String "-moz" .NoQuotes)), ⟨⟨['-', 'm', 'o', 'z'], 4, [⟨0, 4, Tok.ID, "-moz"⟩, ⟨4, 4, Tok.END, ""⟩]⟩, 1⟩) := by
  rw [exprF, ps_f_10]
  rw [exceptBind_ok]
  simp only [ps_f_11, pPeek, pScan, pRewind, scanRewind, peekIn, tokMem, exceptBind_ok, exceptBind_error, exceptMap_ok, exceptMap_error, exceptPure, Option.some.injEq, reduceIte, reduceDIte, reduceCtorEq, Nat.reduceAdd, Nat.reduceSub, Nat.reduceEqDiff, decide_True, decide_False, decide_eq_true_eq, ne_eq, not_false_eq_true, not_true_eq_false, List.cons_append, List.nil_append, List.append_nil, or_self, or_false, false_or, and_self, and_true, true_and, u_expr_chks, u_expr_rsts, expr_rsts, expr_slst_rsts, expr_lst_rsts, and_test_rsts, not_test_rsts, comparison_rsts, comparison_chks, a_expr_rsts, a_expr_chks, m_expr_rsts, m_expr_chks, atom_rsts, atom_rsts_post, argspec_rsts, argspec_item_rsts, argspec_item_rsts_post, ne_eq]

/-- Parser step for input "-moz". -/
theorem ps_f_13 : exprSlstLoopF 97 [(.Literal (.String "-moz" .NoQuotes))] ⟨⟨['-', 'm', 'o', 'z'], 4, [⟨0, 4, Tok.ID, "-moz"⟩, ⟨4, 4, Tok.END, ""⟩]⟩, 1⟩ = .ok ((.Literal (.String "-moz" .NoQuotes)), ⟨⟨['-', 'm', 'o', 'z'], 4, [⟨0, 4, Tok.ID, "-moz"⟩, ⟨4, 4, Tok.END, ""⟩]⟩, 1⟩) := by
  rw [exprSlstLoopF]
  simp only [tk_f_9, pPeek, pScan, pRewind, scanRewind, peekIn, tokMem, exceptBind_ok, exceptBind_error, exceptMap_ok, exceptMap_error, exceptPure, Option.some.injEq, reduceIte, reduceDIte, reduceCtorEq, Nat.reduceAdd, Nat.reduceSub, Nat.reduceEqDiff, decide_True, decide_False, decide_eq_true_eq, ne_eq, not_false_eq_true, not_true_eq_false, List.cons_append, List.nil_append, List.append_nil, or_self, or_false, false_or, and_self, and_true, true_and, u_expr_chks, u_expr_rsts, expr_rsts, expr_slst_rsts, expr_lst_rsts, and_test_rsts, not_test_rsts, comparison_rsts, comparison_chks, a_expr_rsts, a_expr_chks, m_expr_rsts, m_expr_chks, atom_rsts, atom_rsts_post, argspec_rsts, argspec_item_rsts, argspec_item_rsts_post, ne_eq]

/-- Parser step for input "-moz". -/
theorem ps_f_14 : exprSlstF 98 ⟨⟨['-', 'm', 'o', 'z'], 0, []⟩, 0⟩ = .ok ((.Literal (.String "-moz" .NoQuotes)), ⟨⟨['-', 'm', 'o', 'z'], 4, [⟨0, 4, Tok.ID, "-moz"⟩, ⟨4, 4, Tok.END, ""⟩]⟩, 1⟩) := by
  rw [exprSlstF, ps_f_12]
  rw [exceptBind_ok]
  simp only [ps_f_13, pPeek, pScan, pRewind, scanRewind, peekIn, tokMem, exceptBind_ok, exceptBind_error, exceptMap_ok, exceptMap_error, exceptPure, Option.some.injEq, reduceIte, reduceDIte, reduceCtorEq, Nat.reduceAdd, Nat.reduceSub, Nat.reduceEqDiff, decide_True, decide_False, decide_eq_true_eq, ne_eq, not_false_eq_true, not_true_eq_false, List.cons_append, List.nil_append, List.append_nil, or_self, or_false, false_or, and_self, and_true, true_and, u_expr_chks, u_expr_rsts, expr_rsts, expr_slst_rsts, expr_lst_rsts, and_test_rsts, not_test_rsts, comparison_rsts, comparison_chks, a_expr_rsts, a_expr_chks, m_expr_rsts, m_expr_chks, atom_rsts, atom_rsts_post, argspec_rsts, argspec_item_rsts, argspec_item_rsts_post, ne_eq]

/-- Parser step for input "-moz". -/
theorem ps_f_15 : exprLstLoopF 98 [(.Literal (.String "-moz" .NoQuotes))] ⟨⟨['-', 'm', 'o', 'z'], 4, [⟨0, 4, Tok.ID, "-moz"⟩, ⟨4, 4, Tok.END, ""⟩]⟩, 1⟩ = .ok ((.Literal (.String "-moz" .NoQuotes)), ⟨⟨['-', 'm', 'o', 'z'], 4, [⟨0, 4, Tok.ID, "-moz"⟩, ⟨4, 4, Tok.END, ""⟩]⟩, 1⟩) := by
  rw [exprLstLoopF]
  simp only [tk_f_10, pPeek, pScan, pRewind, scanRewind, peekIn, tokMem, exceptBind_ok, exceptBind_error, exceptMap_ok, exceptMap_error, exceptPure, Option.some.injEq, reduceIte, reduceDIte, reduceCtorEq, Nat.reduceAdd, Nat.reduceSub, Nat.reduceEqDiff, decide_True, decide_False, decide_eq_true_eq, ne_eq, not_false_eq_true, not_true_eq_false, List.cons_append, List.nil_append, List.append_nil, or_self, or_false, false_or, and_self, and_true, true_and, u_expr_chks, u_expr_rsts, expr_rsts, expr_slst_rsts, expr_lst_rsts, and_test_rsts, not_test_rsts, comparison_rsts, comparison_chks, a_expr_rsts, a_expr_chks, m_expr_rsts, m_expr_chks, atom_rsts, atom_rsts_post, argspec_rsts, argspec_item_rsts, argspec_item_rsts_post, ne_eq]

/-- Parser step for input "-moz". -/
theorem ps_f_16 : exprLstF 99 ⟨⟨['-', 'm', 'o', 'z'], 0, []⟩, 0⟩ = .ok ((.Literal (.String "-moz" .NoQuotes)), ⟨⟨['-', 'm', 'o', 'z'], 4, [⟨0, 4, Tok.ID, "-moz"⟩, ⟨4, 4, Tok.END, ""⟩]⟩, 1⟩) := by
  rw [exprLstF, ps_f_14]
  rw [exceptBind_ok]
  simp only [ps_f_15, pPeek, pScan, pRewind, scanRewind, peekIn, tokMem, exceptBind_ok, exceptBind_error, exceptMap_ok, exceptMap_error, exceptPure, Option.some.injEq, reduceIte, reduceDIte, reduceCtorEq, Nat.reduceAdd, Nat.reduceSub, Nat.reduceEqDiff, decide_True, decide_False, decide_eq_true_eq, ne_eq, not_false_eq_true, not_true_eq_false, List.cons_append, List.nil_append, List.append_nil, or_self, or_false, false_or, and_self, and_true, true_and, u_expr_chks, u_expr_rsts, expr_rsts, expr_slst_rsts, expr_lst_rsts, and_test_rsts, not_test_rsts, comparison_rsts, comparison_chks, a_expr_rsts, a_expr_chks, m_expr_rsts, m_expr_chks, atom_rsts, atom_rsts_post, argspec_rsts, argspec_item_rsts, argspec_item_rsts_post, ne_eq]

/-- Parser step for input "-moz". -/
theorem ps_f_17 : goalF 100 ⟨⟨['-', 'm', 'o', 'z'], 0, []⟩, 0⟩ = .ok ((.Literal (.String "-moz" .NoQuotes)), ⟨⟨['-', 'm', 'o', 'z'], 4, [⟨0, 4, Tok.ID, "-moz"⟩, ⟨4, 4, Tok.END, ""⟩]⟩, 2⟩) := by
  rw [goalF, ps_f_16]
  rw [exceptBind_ok]
  simp only [tk_f_11, pPeek, pScan, pRewind, scanRewind, peekIn, tokMem, exceptBind_ok, exceptBind_error, exceptMap_ok, exceptMap_error, exceptPure, Option.some.injEq, reduceIte, reduceDIte, reduceCtorEq, Nat.reduceAdd, Nat.reduceSub, Nat.reduceEqDiff, decide_True, decide_False, decide_eq_true_eq, ne_eq, not_false_eq_true, not_true_eq_false, List.cons_append, List.nil_append, List.append_nil, or_self, or_false, false_or, and_self, and_true, true_and, u_expr_chks, u_expr_rsts, expr_rsts, expr_slst_rsts, expr_lst_rsts, and_test_rsts, not_test_rsts, comparison_rsts, comparison_chks, a_expr_rsts, a_expr_chks, m_expr_rsts, m_expr_chks, atom_rsts, atom_rsts_post, argspec_rsts, argspec_item_rsts, argspec_item_rsts_post, ne_eq]

/-- Parse of the source text "-moz". -/
theorem parse_f : parseExpr 100 "-moz" = .ok (.Literal (.String "-moz" .NoQuotes)) := by
  simp only [parseExpr, pReset, scanReset, sdata10, ps_f_17, exceptMap_ok]
/-- Scanner fact for input "$x + 1". -/
theorem tk_g_0 : tokenAt ⟨['$', 'x', ' ', '+', ' ', '1'], 0, []⟩ 0 [Tok.LPAR, Tok.COLOR, Tok.QSTR, Tok.SIGN, Tok.VAR, Tok.ADD, Tok.NUM, Tok.FNCT, Tok.STR, Tok.NOT, Tok.ID] = .ok (⟨0, 2, Tok.VAR, "$x"⟩, ⟨['$', 'x', ' ', '+', ' ', '1'], 2, [⟨0, 2, Tok.VAR, "$x"⟩]⟩) := rfl

/-- Scanner fact for input "$x + 1". -/
theorem tk_g_1 : tokenAt ⟨['$', 'x', ' ', '+', ' ', '1'], 2, [⟨0, 2, Tok.VAR, "$x"⟩]⟩ 0 [Tok.LPAR, Tok.COLOR, Tok.QSTR, Tok.SIGN, Tok.ADD, Tok.NUM, Tok.FNCT, Tok.STR, Tok.VAR, Tok.ID] = .ok (⟨0, 2, Tok.VAR, "$x"⟩, ⟨['$', 'x', ' ', '+', ' ', '1'], 2, [⟨0, 2, Tok.VAR, "$x"⟩]⟩) := rfl

/-- Scanner fact for input "$x + 1". -/
theorem tk_g_2 : tokenAt ⟨['$', 'x', ' ', '+', ' ', '1'], 2, [⟨0, 2, Tok.VAR, "$x"⟩]⟩ 0 [Tok.LPAR, Tok.COLOR, Tok.QSTR, Tok.NUM, Tok.FNCT, Tok.STR, Tok.VAR, Tok.ID] = .ok (⟨0, 2, Tok.VAR, "$x"⟩, ⟨['$', 'x', ' ', '+', ' ', '1'], 2, [⟨0, 2, Tok.VAR, "$x"⟩]⟩) := rfl

/-- Scanner fact for input "$x + 1". -/
theorem tk_g_3 : tokenAt ⟨['$', 'x', ' ', '+', ' ', '1'], 2, [⟨0, 2, Tok.VAR, "$x"⟩]⟩ 0 [Tok.VAR] = .ok (⟨0, 2, Tok.VAR, "$x"⟩, ⟨['$', 'x', ' ', '+', ' ', '1'], 2, [⟨0, 2, Tok.VAR, "$x"⟩]⟩) := rfl

/-- Scanner fact for input "$x + 1". -/
theorem tk_g_4 : tokenAt ⟨['$', 'x', ' ', '+', ' ', '1'], 2, [⟨0, 2, Tok.VAR, "$x"⟩]⟩ 1 [Tok.LPAR, Tok.SUB, Tok.QSTR, Tok.RPAR, Tok.MUL, Tok.DIV, Tok.LE, Tok.COLOR, Tok.NE, Tok.LT, Tok.NUM, Tok.COMMA, Tok.GT, Tok.END, Tok.SIGN, Tok.GE, Tok.FNCT, Tok.STR, Tok.VAR, Tok.EQ, Tok.ID, Tok.AND, Tok.ADD, Tok.NOT, Tok.OR] = .ok (⟨3, 4, Tok.ADD, "+"⟩, ⟨['$', 'x', ' ', '+', ' ', '1'], 4, [⟨0, 2, Tok.VAR, "$x"⟩, ⟨3, 4, Tok.ADD, "+"⟩]⟩) := rfl

/-- Scanner fact for input "$x + 1". -/
theorem tk_g_5 : tokenAt ⟨['$', 'x', ' ', '+', ' ', '1'], 4, [⟨0, 2, Tok.VAR, "$x"⟩, ⟨3, 4, Tok.ADD, "+"⟩]⟩ 1 [Tok.LPAR, Tok.SUB, Tok.QSTR, Tok.RPAR, Tok.LE, Tok.COLOR, Tok.NE, Tok.LT, Tok.NUM, Tok.COMMA, Tok.GT, Tok.END, Tok.SIGN, Tok.GE, Tok.FNCT, Tok.STR, Tok.VAR, Tok.EQ, Tok.ID, Tok.AND, Tok.ADD, Tok.NOT, Tok.OR] = .ok (⟨3, 4, Tok.ADD, "+"⟩, ⟨['$', 'x', ' ', '+', ' ', '1'], 4, [⟨0, 2, Tok.VAR, "$x"⟩, ⟨3, 4, Tok.ADD, "+"⟩]⟩) := rfl

/-- Scanner fact for input "$x + 1". -/
theorem tk_g_6 : tokenAt ⟨['$', 'x', ' ', '+', ' ', '1'], 4, [⟨0, 2, Tok.VAR, "$x"⟩, ⟨3, 4, Tok.ADD, "+"⟩]⟩ 1 [Tok.ADD, Tok.SUB] = .ok (⟨3, 4, Tok.ADD, "+"⟩, ⟨['$', 'x', ' ', '+', ' ', '1'], 4, [⟨0, 2, Tok.VAR, "$x"⟩, ⟨3, 4, Tok.ADD, "+"⟩]⟩) := rfl

/-- Scanner fact for input "$x + 1". -/
theorem tk_g_7 : tokenAt ⟨['$', 'x', ' ', '+', ' ', '1'], 4, [⟨0, 2, Tok.VAR, "$x"⟩, ⟨3, 4, Tok.ADD, "+"⟩]⟩ 1 [Tok.ADD] = .ok (⟨3, 4, Tok.ADD, "+"⟩, ⟨['$', 'x', ' ', '+', ' ', '1'], 4, [⟨0, 2, Tok.VAR, "$x"⟩, ⟨3, 4, Tok.ADD, "+"⟩]⟩) := rfl

/-- Scanner fact for input "$x + 1". -/
theorem tk_g_8 : tokenAt ⟨['$', 'x', ' ', '+', ' ', '1'], 4, [⟨0, 2, Tok.VAR, "$x"⟩, ⟨3, 4, Tok.ADD, "+"⟩]⟩ 2 [Tok.LPAR, Tok.COLOR, Tok.QSTR, Tok.SIGN, Tok.ADD, Tok.NUM, Tok.FNCT, Tok.STR, Tok.VAR, Tok.ID] = .ok (⟨5, 6, Tok.NUM, "1"⟩, ⟨['$', 'x', ' ', '+', ' ', '1'], 6, [⟨0, 2, Tok.VAR, "$x"⟩, ⟨3, 4, Tok.ADD, "+"⟩, ⟨5, 6, Tok.NUM, "1"⟩]⟩) := rfl

/-- Scanner fact for input "$x + 1". -/
theorem tk_g_9 : tokenAt ⟨['$', 'x', ' ', '+', ' ', '1'], 6, [⟨0, 2, Tok.VAR, "$x"⟩, ⟨3, 4, Tok.ADD, "+"⟩, ⟨5, 6, Tok.NUM, "1"⟩]⟩ 2 [Tok.LPAR, Tok.COLOR, Tok.QSTR, Tok.NUM, Tok.FNCT, Tok.STR, Tok.VAR, Tok.ID] = .ok (⟨5, 6, Tok.NUM, "1"⟩, ⟨['$', 'x', ' ', '+', ' ', '1'], 6, [⟨0, 2, Tok.VAR, "$x"⟩, ⟨3, 4, Tok.ADD, "+"⟩, ⟨5, 6, Tok.NUM, "1"⟩]⟩) := rfl

/-- Scanner fact for input "$x + 1". -/
theorem tk_g_10 : tokenAt ⟨['$', 'x', ' ', '+', ' ', '1'], 6, [⟨0, 2, Tok.VAR, "$x"⟩, ⟨3, 4, Tok.ADD, "+"⟩, ⟨5, 6, Tok.NUM, "1"⟩]⟩ 2 [Tok.NUM] = .ok (⟨5, 6, Tok.NUM, "1"⟩, ⟨['$', 'x', ' ', '+', ' ', '1'], 6, [⟨0, 2, Tok.VAR, "$x"⟩, ⟨3, 4, Tok.ADD, "+"⟩, ⟨5, 6, Tok.NUM, "1"⟩]⟩) := rfl

/-- Scanner fact for input "$x + 1". -/
theorem tk_g_11 : tokenAt ⟨['$', 'x', ' ', '+', ' ', '1'], 6, [⟨0, 2, Tok.VAR, "$x"⟩, ⟨3, 4, Tok.ADD, "+"⟩, ⟨5, 6, Tok.NUM, "1"⟩]⟩ 3 [Tok.LPAR, Tok.SUB, Tok.QSTR, Tok.RPAR, Tok.VAR, Tok.MUL, Tok.DIV, Tok.LE, Tok.COLOR, Tok.NE, Tok.LT, Tok.NUM, Tok.COMMA, Tok.GT, Tok.END, Tok.SIGN, Tok.GE, Tok.FNCT, Tok.STR, Tok.UNITS, Tok.EQ, Tok.ID, Tok.AND, Tok.ADD, Tok.NOT, Tok.OR] = .ok (⟨6, 6, Tok.END, ""⟩, ⟨['$', 'x', ' ', '+', ' ', '1'], 6, [⟨0, 2, Tok.VAR, "$x"⟩, ⟨3, 4, Tok.ADD, "+"⟩, ⟨5, 6, Tok.NUM, "1"⟩, ⟨6, 6, Tok.END, ""⟩]⟩) := rfl

/-- Scanner fact for input "$x + 1". -/
theorem tk_g_12 : tokenAt ⟨['$', 'x', ' ', '+', ' ', '1'], 6, [⟨0, 2, Tok.VAR, "$x"⟩, ⟨3, 4, Tok.ADD, "+"⟩, ⟨5, 6, Tok.NUM, "1"⟩, ⟨6, 6, Tok.END, ""⟩]⟩ 3 [Tok.LPAR, Tok.SUB, Tok.QSTR, Tok.RPAR, Tok.MUL, Tok.DIV, Tok.LE, Tok.COLOR, Tok.NE, Tok.LT, Tok.NUM, Tok.COMMA, Tok.GT, Tok.END, Tok.SIGN, Tok.GE, Tok.FNCT, Tok.STR, Tok.VAR, Tok.EQ, Tok.ID, Tok.AND, Tok.ADD, Tok.NOT, Tok.OR] = .ok (⟨6, 6, Tok.END, ""⟩, ⟨['$', 'x', ' ', '+', ' ', '1'], 6, [⟨0, 2, Tok.VAR, "$x"⟩, ⟨3, 4, Tok.ADD, "+"⟩, ⟨5, 6, Tok.NUM, "1"⟩, ⟨6, 6, Tok.END, ""⟩]⟩) := rfl

/-- Scanner fact for input "$x + 1". -/
theorem tk_g_13 : tokenAt ⟨['$', 'x', ' ', '+', ' ', '1'], 6, [⟨0, 2, Tok.VAR, "$x"⟩, ⟨3, 4, Tok.ADD, "+"⟩, ⟨5, 6, Tok.NUM, "1"⟩, ⟨6, 6, Tok.END, ""⟩]⟩ 3 [Tok.LPAR, Tok.SUB, Tok.QSTR, Tok.RPAR, Tok.LE, Tok.COLOR, Tok.NE, Tok.LT, Tok.NUM, Tok.COMMA, Tok.GT, Tok.END, Tok.SIGN, Tok.GE, Tok.FNCT, Tok.STR, Tok.VAR, Tok.EQ, Tok.ID, Tok.AND, Tok.ADD, Tok.NOT, Tok.OR] = .ok (⟨6, 6, Tok.END, ""⟩, ⟨['$', 'x', ' ', '+', ' ', '1'], 6, [⟨0, 2, Tok.VAR, "$x"⟩, ⟨3, 4, Tok.ADD, "+"⟩, ⟨5, 6, Tok.NUM, "1"⟩, ⟨6, 6, Tok.END, ""⟩]⟩) := rfl

/-- Scanner fact for input "$x + 1". -/
theorem tk_g_14 : tokenAt ⟨['$', 'x', ' ', '+', ' ', '1'], 6, [⟨0, 2, Tok.VAR, "$x"⟩, ⟨3, 4, Tok.ADD, "+"⟩, ⟨5, 6, Tok.NUM, "1"⟩, ⟨6, 6, Tok.END, ""⟩]⟩ 3 [Tok.LPAR, Tok.QSTR, Tok.RPAR, Tok.LE, Tok.COLOR, Tok.NE, Tok.LT, Tok.NUM, Tok.COMMA, Tok.GT, Tok.END, Tok.SIGN, Tok.ADD, Tok.FNCT, Tok.STR, Tok.VAR, Tok.EQ, Tok.ID, Tok.AND, Tok.GE, Tok.NOT, Tok.OR] = .ok (⟨6, 6, Tok.END, ""⟩, ⟨['$', 'x', ' ', '+', ' ', '1'], 6, [⟨0, 2, Tok.VAR, "$x"⟩, ⟨3, 4, Tok.ADD, "+"⟩, ⟨5, 6, Tok.NUM, "1"⟩, ⟨6, 6, Tok.END, ""⟩]⟩) := rfl

/-- Scanner fact for input "$x + 1". -/
theorem tk_g_15 : tokenAt ⟨['$', 'x', ' ', '+', ' ', '1'], 6, [⟨0, 2, Tok.VAR, "$x"⟩, ⟨3, 4, Tok.ADD, "+"⟩, ⟨5, 6, Tok.NUM, "1"⟩, ⟨6, 6, Tok.END, ""⟩]⟩ 3 [Tok.AND, Tok.LPAR, Tok.END, Tok.COLOR, Tok.QSTR, Tok.SIGN, Tok.VAR, Tok.ADD, Tok.NUM, Tok.COMMA, Tok.FNCT, Tok.STR, Tok.NOT, Tok.ID, Tok.RPAR, Tok.OR] = .ok (⟨6, 6, Tok.END, ""⟩, ⟨['$', 'x', ' ', '+', ' ', '1'], 6, [⟨0, 2, Tok.VAR, "$x"⟩, ⟨3, 4, Tok.ADD, "+"⟩, ⟨5, 6, Tok.NUM, "1"⟩, ⟨6, 6, Tok.END, ""⟩]⟩) := rfl

/-- Scanner fact for input "$x + 1". -/
theorem tk_g_16 : tokenAt ⟨['$', 'x', ' ', '+', ' ', '1'], 6, [⟨0, 2, Tok.VAR, "$x"⟩, ⟨3, 4, Tok.ADD, "+"⟩, ⟨5, 6, Tok.NUM, "1"⟩, ⟨6, 6, Tok.END, ""⟩]⟩ 3 [Tok.LPAR, Tok.END, Tok.COLOR, Tok.QSTR, Tok.RPAR, Tok.VAR, Tok.ADD, Tok.NUM, Tok.COMMA, Tok.FNCT, Tok.STR, Tok.NOT, Tok.ID, Tok.SIGN, Tok.OR] = .ok (⟨6, 6, Tok.END, ""⟩, ⟨['$', 'x', ' ', '+', ' ', '1'], 6, [⟨0, 2, Tok.VAR, "$x"⟩, ⟨3, 4, Tok.ADD, "+"⟩, ⟨5, 6, Tok.NUM, "1"⟩, ⟨6, 6, Tok.END, ""⟩]⟩) := rfl

/-- Scanner fact for input "$x + 1". -/
theorem tk_g_17 : tokenAt ⟨['$', 'x', ' ', '+', ' ', '1'], 6, [⟨0, 2, Tok.VAR, "$x"⟩, ⟨3, 4, Tok.ADD, "+"⟩, ⟨5, 6, Tok.NUM, "1"⟩, ⟨6, 6, Tok.END, ""⟩]⟩ 3 [Tok.LPAR, Tok.END, Tok.COLOR, Tok.QSTR, Tok.RPAR, Tok.VAR, Tok.ADD, Tok.NUM, Tok.COMMA, Tok.FNCT, Tok.STR, Tok.NOT, Tok.SIGN, Tok.ID] = .ok (⟨6, 6, Tok.END, ""⟩, ⟨['$', 'x', ' ', '+', ' ', '1'], 6, [⟨0, 2, Tok.VAR, "$x"⟩, ⟨3, 4, Tok.ADD, "+"⟩, ⟨5, 6, Tok.NUM, "1"⟩, ⟨6, 6, Tok.END, ""⟩]⟩) := rfl

/-- Scanner fact for input "$x + 1". -/
theorem tk_g_18 : tokenAt ⟨['$', 'x', ' ', '+', ' ', '1'], 6, [⟨0, 2, Tok.VAR, "$x"⟩, ⟨3, 4, Tok.ADD, "+"⟩, ⟨5, 6, Tok.NUM, "1"⟩, ⟨6, 6, Tok.END, ""⟩]⟩ 3 [Tok.END, Tok.COMMA, Tok.RPAR] = .ok (⟨6, 6, Tok.END, ""⟩, ⟨['$', 'x', ' ', '+', ' ', '1'], 6, [⟨0, 2, Tok.VAR, "$x"⟩, ⟨3, 4, Tok.ADD, "+"⟩, ⟨5, 6, Tok.NUM, "1"⟩, ⟨6, 6, Tok.END, ""⟩]⟩) := rfl

/-- Scanner fact for input "$x + 1". -/
theorem tk_g_19 : tokenAt ⟨['$', 'x', ' ', '+', ' ', '1'], 6, [⟨0, 2, Tok.VAR, "$x"⟩, ⟨3, 4, Tok.ADD, "+"⟩, ⟨5, 6, Tok.NUM, "1"⟩, ⟨6, 6, Tok.END, ""⟩]⟩ 3 [Tok.END] = .ok (⟨6, 6, Tok.END, ""⟩, ⟨['$', 'x', ' ', '+', ' ', '1'], 6, [⟨0, 2, Tok.VAR, "$x"⟩, ⟨3, 4, Tok.ADD, "+"⟩, ⟨5, 6, Tok.NUM, "1"⟩, ⟨6, 6, Tok.END, ""⟩]⟩) := rfl

/-- Parser step for input "$x + 1". -/
theorem ps_g_0 : atomF 90 ⟨⟨['$', 'x', ' ', '+', ' ', '1'], 2, [⟨0, 2, Tok.VAR, "$x"⟩]⟩, 0⟩ = .ok ((.Variable "$x"), ⟨⟨['$', 'x', ' ', '+', ' ', '1'], 2, [⟨0, 2, Tok.VAR, "$x"⟩]⟩, 1⟩) := by
  rw [atomF]
  simp only [tk_g_2, tk_g_3, pPeek, pScan, pRewind, scanRewind, peekIn, tokMem, exceptBind_ok, exceptBind_error, exceptMap_ok, exceptMap_error, exceptPure, Option.some.injEq, reduceIte, reduceDIte, reduceCtorEq, Nat.reduceAdd, Nat.reduceSub, Nat.reduceEqDiff, decide_True, decide_False, decide_eq_true_eq, ne_eq, not_false_eq_true, not_true_eq_false, List.cons_append, List.nil_append, List.append_nil, or_self, or_false, false_or, and_self, and_true, true_and, u_expr_chks, u_expr_rsts, expr_rsts, expr_slst_rsts, expr_lst_rsts, and_test_rsts, not_test_rsts, comparison_rsts, comparison_chks, a_expr_rsts, a_expr_chks, m_expr_rsts, m_expr_chks, atom_rsts, atom_rsts_post, argspec_rsts, argspec_item_rsts, argspec_item_rsts_post, sdata0, sdata1, sdata2, sdata3, sdata4, sdata5, sdata6, sdata7, sdata8, sdata9, sdata10, sdata11, parse_bareword, COLOR_NAMES, parseNum, digitsToNat, lowerStr, parseHexColor, hexToNat, isDigitC, isAlphaC, SassQ.add, SassQ.fromNat, mkQ, gcdQ, gcdFuel, List.find?, List.map, List.take, List.drop, List.takeWhile, List.dropWhile, List.dropLast, List.isEmpty, List.length, Option.map, Char.reduceEq, Char.reduceBEq, Char.reduceLE, Char.reduceLT, Char.reduceToNat, Char.reduceToLower, String.reduceMk, String.reduceEq, String.reduceBEq, Nat.reduceMul, Nat.reduceDiv, Nat.reduceMod, Nat.reducePow, Nat.reduceLeDiff, Nat.reduceLT, Nat.reduceGT, Int.reduceAdd, Int.reduceSub, Int.reduceMul, Int.reduceNeg, Int.reduceDiv, Int.reduceLT, Int.reduceLE, Int.reduceEq, Int.reduceBEq, Int.reduceToNat, Int.reduceAbs, Int.reducePow, Int.reduceMod, Int.reduceOfNat, Nat.cast_ofNat, Nat.cast_one, Nat.cast_zero]

/-- Parser step for input "$x + 1". -/
theorem ps_g_1 : uExprF 91 ⟨⟨['$', 'x', ' ', '+', ' ', '1'], 2, [⟨0, 2, Tok.VAR, "$x"⟩]⟩, 0⟩ = .ok ((.Variable "$x"), ⟨⟨['$', 'x', ' ', '+', ' ', '1'], 2, [⟨0, 2, Tok.VAR, "$x"⟩]⟩, 1⟩) := by
  rw [uExprF]
  simp only [ps_g_0, tk_g_1, pPeek, pScan, pRewind, scanRewind, peekIn, tokMem, exceptBind_ok, exceptBind_error, exceptMap_ok, exceptMap_error, exceptPure, Option.some.injEq, reduceIte, reduceDIte, reduceCtorEq, Nat.reduceAdd, Nat.reduceSub, Nat.reduceEqDiff, decide_True, decide_False, decide_eq_true_eq, ne_eq, not_false_eq_true, not_true_eq_false, List.cons_append, List.nil_append, List.append_nil, or_self, or_false, false_or, and_self, and_true, true_and, u_expr_chks, u_expr_rsts, expr_rsts, expr_slst_rsts, expr_lst_rsts, and_test_rsts, not_test_rsts, comparison_rsts, comparison_chks, a_expr_rsts, a_expr_chks, m_expr_rsts, m_expr_chks, atom_rsts, atom_rsts_post, argspec_rsts, argspec_item_rsts, argspec_item_rsts_post, ne_eq]

/-- Parser step for input "$x + 1". -/
theorem ps_g_2 : mLoopF 91 (.Variable "$x") ⟨⟨['$', 'x', ' ', '+', ' ', '1'], 2, [⟨0, 2, Tok.VAR, "$x"⟩]⟩, 1⟩ = .ok ((.Variable "$x"), ⟨⟨['$', 'x', ' ', '+', ' ', '1'], 4, [⟨0, 2, Tok.VAR, "$x"⟩, ⟨3, 4, Tok.ADD, "+"⟩]⟩, 1⟩) := by
  rw [mLoopF]
  simp only [tk_g_4, pPeek, pScan, pRewind, scanRewind, peekIn, tokMem, exceptBind_ok, exceptBind_error, exceptMap_ok, exceptMap_error, exceptPure, Option.some.injEq, reduceIte, reduceDIte, reduceCtorEq, Nat.reduceAdd, Nat.reduceSub, Nat.reduceEqDiff, decide_True, decide_False, decide_eq_true_eq, ne_eq, not_false_eq_true, not_true_eq_false, List.cons_append, List.nil_append, List.append_nil, or_self, or_false, false_or, and_self, and_true, true_and, u_expr_chks, u_expr_rsts, expr_rsts, expr_slst_rsts, expr_lst_rsts, and_test_rsts, not_test_rsts, comparison_rsts, comparison_chks, a_expr_rsts, a_expr_chks, m_expr_rsts, m_expr_chks, atom_rsts, atom_rsts_post, argspec_rsts, argspec_item_rsts, argspec_item_rsts_post, ne_eq]

/-- Parser step for input "$x + 1". -/
theorem ps_g_3 : mExprF 92 ⟨⟨['$', 'x', ' ', '+', ' ', '1'], 2, [⟨0, 2, Tok.VAR, "$x"⟩]⟩, 0⟩ = .ok ((.Variable "$x"), ⟨⟨['$', 'x', ' ', '+', ' ', '1'], 4, [⟨0, 2, Tok.VAR, "$x"⟩, ⟨3, 4, Tok.ADD, "+"⟩]⟩, 1⟩) := by
  rw [mExprF, ps_g_1]
  rw [exceptBind_ok]
  simp only [ps_g_2, pPeek, pScan, pRewind, scanRewind, peekIn, tokMem, exceptBind_ok, exceptBind_error, exceptMap_ok, exceptMap_error, exceptPure, Option.some.injEq, reduceIte, reduceDIte, reduceCtorEq, Nat.reduceAdd, Nat.reduceSub, Nat.reduceEqDiff, decide_True, decide_False, decide_eq_true_eq, ne_eq, not_false_eq_true, not_true_eq_false, List.cons_append, List.nil_append, List.append_nil, or_self, or_false, false_or, and_self, and_true, true_and, u_expr_chks, u_expr_rsts, expr_rsts, expr_slst_rsts, expr_lst_rsts, and_test_rsts, not_test_rsts, comparison_rsts, comparison_chks, a_expr_rsts, a_expr_chks, m_expr_rsts, m_expr_chks, atom_rsts, atom_rsts_post, argspec_rsts, argspec_item_rsts, argspec_item_rsts_post, ne_eq]

/-- Parser step for input "$x + 1". -/
theorem ps_g_4 : atomF 89 ⟨⟨['$', 'x', ' ', '+', ' ', '1'], 6, [⟨0, 2, Tok.VAR, "$x"⟩, ⟨3, 4, Tok.ADD, "+"⟩, ⟨5, 6, Tok.NUM, "1"⟩]⟩, 2⟩ = .ok ((.Literal (.Number ⟨1, 1⟩ [] [])), ⟨⟨['$', 'x', ' ', '+', ' ', '1'], 6, [⟨0, 2, Tok.VAR, "$x"⟩, ⟨3, 4, Tok.ADD, "+"⟩, ⟨5, 6, Tok.NUM, "1"⟩, ⟨6, 6, Tok.END, ""⟩]⟩, 3⟩) := by
  rw [atomF]
  simp only [tk_g_10, tk_g_11, tk_g_9, pPeek, pScan, pRewind, scanRewind, peekIn, tokMem, exceptBind_ok, exceptBind_error, exceptMap_ok, exceptMap_error, exceptPure, Option.some.injEq, reduceIte, reduceDIte, reduceCtorEq, Nat.reduceAdd, Nat.reduceSub, Nat.reduceEqDiff, decide_True, decide_False, decide_eq_true_eq, ne_eq, not_false_eq_true, not_true_eq_false, List.cons_append, List.nil_append, List.append_nil, or_self, or_false, false_or, and_self, and_true, true_and, u_expr_chks, u_expr_rsts, expr_rsts, expr_slst_rsts, expr_lst_rsts, and_test_rsts, not_test_rsts, comparison_rsts, comparison_chks, a_expr_rsts, a_expr_chks, m_expr_rsts, m_expr_chks, atom_rsts, atom_rsts_post, argspec_rsts, argspec_item_rsts, argspec_item_rsts_post, sdata0, sdata1, sdata2, sdata3, sdata4, sdata5, sdata6, sdata7, sdata8, sdata9, sdata10, sdata11, parse_bareword, COLOR_NAMES, parseNum, digitsToNat, lowerStr, parseHexColor, hexToNat, isDigitC, isAlphaC, SassQ.add, SassQ.fromNat, mkQ, gcdQ, gcdFuel, List.find?, List.map, List.take, List.drop, List.takeWhile, List.dropWhile, List.dropLast, List.isEmpty, List.length, Option.map, Char.reduceEq, Char.reduceBEq, Char.reduceLE, Char.reduceLT, Char.reduceToNat, Char.reduceToLower, String.reduceMk, String.reduceEq, String.reduceBEq, Nat.reduceMul, Nat.reduceDiv, Nat.reduceMod, Nat.reducePow, Nat.reduceLeDiff, Nat.reduceLT, Nat.reduceGT, Int.reduceAdd, Int.reduceSub, Int.reduceMul, Int.reduceNeg, Int.reduceDiv, Int.reduceLT, Int.reduceLE, Int.reduceEq, Int.reduceBEq, Int.reduceToNat, Int.reduceAbs, Int.reducePow, Int.reduceMod, Int.reduceOfNat, Nat.cast_ofNat, Nat.cast_one, Nat.cast_zero]

/-- Parser step for input "$x + 1". -/
theorem ps_g_5 : uExprF 90 ⟨⟨['$', 'x', ' ', '+', ' ', '1'], 4, [⟨0, 2, Tok.VAR, "$x"⟩, ⟨3, 4, Tok.ADD, "+"⟩]⟩, 2⟩ = .ok ((.Literal (.Number ⟨1, 1⟩ [] [])), ⟨⟨['$', 'x', ' ', '+', ' ', '1'], 6, [⟨0, 2, Tok.VAR, "$x"⟩, ⟨3, 4, Tok.ADD, "+"⟩, ⟨5, 6, Tok.NUM, "1"⟩, ⟨6, 6, Tok.END, ""⟩]⟩, 3⟩) := by
  rw [uExprF]
  simp only [ps_g_4, tk_g_8, pPeek, pScan, pRewind, scanRewind, peekIn, tokMem, exceptBind_ok, exceptBind_error, exceptMap_ok, exceptMap_error, exceptPure, Option.some.injEq, reduceIte, reduceDIte, reduceCtorEq, Nat.reduceAdd, Nat.reduceSub, Nat.reduceEqDiff, decide_True, decide_False, decide_eq_true_eq, ne_eq, not_false_eq_true, not_true_eq_false, List.cons_append, List.nil_append, List.append_nil, or_self, or_false, false_or, and_self, and_true, true_and, u_expr_chks, u_expr_rsts, expr_rsts, expr_slst_rsts, expr_lst_rsts, and_test_rsts, not_test_rsts, comparison_rsts, comparison_chks, a_expr_rsts, a_expr_chks, m_expr_rsts, m_expr_chks, atom_rsts, atom_rsts_post, argspec_rsts, argspec_item_rsts, argspec_item_rsts_post, ne_eq]

/-- Parser step for input "$x + 1". -/
theorem ps_g_6 : mLoopF 90 (.Literal (.Number ⟨1, 1⟩ [] [])) ⟨⟨['$', 'x', ' ', '+', ' ', '1'], 6, [⟨0, 2, Tok.VAR, "$x"⟩, ⟨3, 4, Tok.ADD, "+"⟩, ⟨5, 6, Tok.NUM, "1"⟩, ⟨6, 6, Tok.END, ""⟩]⟩, 3⟩ = .ok ((.Literal (.Number ⟨1, 1⟩ [] [])), ⟨⟨['$', 'x', ' ', '+', ' ', '1'], 6, [⟨0, 2, Tok.VAR, "$x"⟩, ⟨3, 4, Tok.ADD, "+"⟩, ⟨5, 6, Tok.NUM, "1"⟩, ⟨6, 6, Tok.END, ""⟩]⟩, 3⟩) := by
  rw [mLoopF]
  simp only [tk_g_12, pPeek, pScan, pRewind, scanRewind, peekIn, tokMem, exceptBind_ok, exceptBind_error, exceptMap_ok, exceptMap_error, exceptPure, Option.some.injEq, reduceIte, reduceDIte, reduceCtorEq, Nat.reduceAdd, Nat.reduceSub, Nat.reduceEqDiff, decide_True, decide_False, decide_eq_true_eq, ne_eq, not_false_eq_true, not_true_eq_false, List.cons_append, List.nil_append, List.append_nil, or_self, or_false, false_or, and_self, and_true, true_and, u_expr_chks, u_expr_rsts, expr_rsts, expr_slst_rsts, expr_lst_rsts, and_test_rsts, not_test_rsts, comparison_rsts, comparison_chks, a_expr_rsts, a_expr_chks, m_expr_rsts, m_expr_chks, atom_rsts, atom_rsts_post, argspec_rsts, argspec_item_rsts, argspec_item_rsts_post, ne_eq]

/-- Parser step for input "$x + 1". -/
theorem ps_g_7 : mExprF 91 ⟨⟨['$', 'x', ' ', '+', ' ', '1'], 4, [⟨0, 2, Tok.VAR, "$x"⟩, ⟨3, 4, Tok.ADD, "+"⟩]⟩, 2⟩ = .ok ((.Literal (.Number ⟨1, 1⟩ [] [])), ⟨⟨['$', 'x', ' ', '+', ' ', '1'], 6, [⟨0, 2, Tok.VAR, "$x"⟩, ⟨3, 4, Tok.ADD, "+"⟩, ⟨5, 6, Tok.NUM, "1"⟩, ⟨6, 6, Tok.END, ""⟩]⟩, 3⟩) := by
  rw [mExprF, ps_g_5]
  rw [exceptBind_ok]
  simp only [ps_g_6, pPeek, pScan, pRewind, scanRewind, peekIn, tokMem, exceptBind_ok, exceptBind_error, exceptMap_ok, exceptMap_error, exceptPure, Option.some.injEq, reduceIte, reduceDIte, reduceCtorEq, Nat.reduceAdd, Nat.reduceSub, Nat.reduceEqDiff, decide_True, decide_False, decide_eq_true_eq, ne_eq, not_false_eq_true, not_true_eq_false, List.cons_append, List.nil_append, List.append_nil, or_self, or_false, false_or, and_self, and_true, true_and, u_expr_chks, u_expr_rsts, expr_rsts, expr_slst_rsts, expr_lst_rsts, and_test_rsts, not_test_rsts, comparison_rsts, comparison_chks, a_expr_rsts, a_expr_chks, m_expr_rsts, m_expr_chks, atom_rsts, atom_rsts_post, argspec_rsts, argspec_item_rsts, argspec_item_rsts_post, ne_eq]

/-- Parser step for input "$x + 1". -/
theorem ps_g_8 : aLoopF 91 (.BinaryOp .add (.Variable "$x") (.Literal (.Number ⟨1, 1⟩ [] []))) ⟨⟨['$', 'x', ' ', '+', ' ', '1'], 6, [⟨0, 2, Tok.VAR, "$x"⟩, ⟨3, 4, Tok.ADD, "+"⟩, ⟨5, 6, Tok.NUM, "1"⟩, ⟨6, 6, Tok.END, ""⟩]⟩, 3⟩ = .ok ((.BinaryOp .add (.Variable "$x") (.Literal (.Number ⟨1, 1⟩ [] []))), ⟨⟨['$', 'x', ' ', '+', ' ', '1'], 6, [⟨0, 2, Tok.VAR, "$x"⟩, ⟨3, 4, Tok.ADD, "+"⟩, ⟨5, 6, Tok.NUM, "1"⟩, ⟨6, 6, Tok.END, ""⟩]⟩, 3⟩) := by
  rw [aLoopF]
  simp only [tk_g_13, pPeek, pScan, pRewind, scanRewind, peekIn, tokMem, exceptBind_ok, exceptBind_error, exceptMap_ok, exceptMap_error, exceptPure, Option.some.injEq, reduceIte, reduceDIte, reduceCtorEq, Nat.reduceAdd, Nat.reduceSub, Nat.reduceEqDiff, decide_True, decide_False, decide_eq_true_eq, ne_eq, not_false_eq_true, not_true_eq_false, List.cons_append, List.nil_append, List.append_nil, or_self, or_false, false_or, and_self, and_true, true_and, u_expr_chks, u_expr_rsts, expr_rsts, expr_slst_rsts, expr_lst_rsts, and_test_rsts, not_test_rsts, comparison_rsts, comparison_chks, a_expr_rsts, a_expr_chks, m_expr_rsts, m_expr_chks, atom_rsts, atom_rsts_post, argspec_rsts, argspec_item_rsts, argspec_item_rsts_post, ne_eq]

/-- Parser step for input "$x + 1". -/
theorem ps_g_9 : aLoopF 92 (.Variable "$x") ⟨⟨['$', 'x', ' ', '+', ' ', '1'], 4, [⟨0, 2, Tok.VAR, "$x"⟩, ⟨3, 4, Tok.ADD, "+"⟩]⟩, 1⟩ = .ok ((.BinaryOp .add (.Variable "$x") (.Literal (.Number ⟨1, 1⟩ [] []))), ⟨⟨['$', 'x', ' ', '+', ' ', '1'], 6, [⟨0, 2, Tok.VAR, "$x"⟩, ⟨3, 4, Tok.ADD, "+"⟩, ⟨5, 6, Tok.NUM, "1"⟩, ⟨6, 6, Tok.END, ""⟩]⟩, 3⟩) := by
  rw [aLoopF]
  simp only [ps_g_7, ps_g_8, tk_g_5, tk_g_6, tk_g_7, pPeek, pScan, pRewind, scanRewind, peekIn, tokMem, exceptBind_ok, exceptBind_error, exceptMap_ok, exceptMap_error, exceptPure, Option.some.injEq, reduceIte, reduceDIte, reduceCtorEq, Nat.reduceAdd, Nat.reduceSub, Nat.reduceEqDiff, decide_True, decide_False, decide_eq_true_eq, ne_eq, not_false_eq_true, not_true_eq_false, List.cons_append, List.nil_append, List.append_nil, or_self, or_false, false_or, and_self, and_true, true_and, u_expr_chks, u_expr_rsts, expr_rsts, expr_slst_rsts, expr_lst_rsts, and_test_rsts, not_test_rsts, comparison_rsts, comparison_chks, a_expr_rsts, a_expr_chks, m_expr_rsts, m_expr_chks, atom_rsts, atom_rsts_post, argspec_rsts, argspec_item_rsts, argspec_item_rsts_post, ne_eq]

/-- Parser step for input "$x + 1". -/
theorem ps_g_10 : aExprF 93 ⟨⟨['$', 'x', ' ', '+', ' ', '1'], 2, [⟨0, 2, Tok.VAR, "$x"⟩]⟩, 0⟩ = .ok ((.BinaryOp .add (.Variable "$x") (.Literal (.Number ⟨1, 1⟩ [] []))), ⟨⟨['$', 'x', ' ', '+', ' ', '1'], 6, [⟨0, 2, Tok.VAR, "$x"⟩, ⟨3, 4, Tok.ADD, "+"⟩, ⟨5, 6, Tok.NUM, "1"⟩, ⟨6, 6, Tok.END, ""⟩]⟩, 3⟩) := by
  rw [aExprF, ps_g_3]
  rw [exceptBind_ok]
  simp only [ps_g_9, pPeek, pScan, pRewind, scanRewind, peekIn, tokMem, exceptBind_ok, exceptBind_error, exceptMap_ok, exceptMap_error, exceptPure, Option.some.injEq, reduceIte, reduceDIte, reduceCtorEq, Nat.reduceAdd, Nat.reduceSub, Nat.reduceEqDiff, decide_True, decide_False, decide_eq_true_eq, ne_eq, not_false_eq_true, not_true_eq_false, List.cons_append, List.nil_append, List.append_nil, or_self, or_false, false_or, and_self, and_true, true_and, u_expr_chks, u_expr_rsts, expr_rsts, expr_slst_rsts, expr_lst_rsts, and_test_rsts, not_test_rsts, comparison_rsts, comparison_chks, a_expr_rsts, a_expr_chks, m_expr_rsts, m_expr_chks, atom_rsts, atom_rsts_post, argspec_rsts, argspec_item_rsts, argspec_item_rsts_post, ne_eq]

/-- Parser step for input "$x + 1". -/
theorem ps_g_11 : compLoopF 93 (.BinaryOp .add (.Variable "$x") (.Literal (.Number ⟨1, 1⟩ [] []))) ⟨⟨['$', 'x', ' ', '+', ' ', '1'], 6, [⟨0, 2, Tok.VAR, "$x"⟩, ⟨3, 4, Tok.ADD, "+"⟩, ⟨5, 6, Tok.NUM, "1"⟩, ⟨6, 6, Tok.END, ""⟩]⟩, 3⟩ = .ok ((.BinaryOp .add (.Variable "$x") (.Literal (.Number ⟨1, 1⟩ [] []))), ⟨⟨['$', 'x', ' ', '+', ' ', '1'], 6, [⟨0, 2, Tok.VAR, "$x"⟩, ⟨3, 4, Tok.ADD, "+"⟩, ⟨5, 6, Tok.NUM, "1"⟩, ⟨6, 6, Tok.END, ""⟩]⟩, 3⟩) := by
  rw [compLoopF]
  simp only [tk_g_14, pPeek, pScan, pRewind, scanRewind, peekIn, tokMem, exceptBind_ok, exceptBind_error, exceptMap_ok, exceptMap_error, exceptPure, Option.some.injEq, reduceIte, reduceDIte, reduceCtorEq, Nat.reduceAdd, Nat.reduceSub, Nat.reduceEqDiff, decide_True, decide_False, decide_eq_true_eq, ne_eq, not_false_eq_true, not_true_eq_false, List.cons_append, List.nil_append, List.append_nil, or_self, or_false, false_or, and_self, and_true, true_and, u_expr_chks, u_expr_rsts, expr_rsts, expr_slst_rsts, expr_lst_rsts, and_test_rsts, not_test_rsts, comparison_rsts, comparison_chks, a_expr_rsts, a_expr_chks, m_expr_rsts, m_expr_chks, atom_rsts, atom_rsts_post, argspec_rsts, argspec_item_rsts, argspec_item_rsts_post, ne_eq]

/-- Parser step for input "$x + 1". -/
theorem ps_g_12 : comparisonF 94 ⟨⟨['$', 'x', ' ', '+', ' ', '1'], 2, [⟨0, 2, Tok.VAR, "$x"⟩]⟩, 0⟩ = .ok ((.BinaryOp .add (.Variable "$x") (.Literal (.Number ⟨1, 1⟩ [] []))), ⟨⟨['$', 'x', ' ', '+', ' ', '1'], 6, [⟨0, 2, Tok.VAR, "$x"⟩, ⟨3, 4, Tok.ADD, "+"⟩, ⟨5, 6, Tok.NUM, "1"⟩, ⟨6, 6, Tok.END, ""⟩]⟩, 3⟩) := by
  rw [comparisonF, ps_g_10]
  rw [exceptBind_ok]
  simp only [ps_g_11, pPeek, pScan, pRewind, scanRewind, peekIn, tokMem, exceptBind_ok, exceptBind_error, exceptMap_ok, exceptMap_error, exceptPure, Option.some.injEq, reduceIte, reduceDIte, reduceCtorEq, Nat.reduceAdd, Nat.reduceSub, Nat.reduceEqDiff, decide_True, decide_False, decide_eq_true_eq, ne_eq, not_false_eq_true, not_true_eq_false, List.cons_append, List.nil_append, List.append_nil, or_self, or_false, false_or, and_self, and_true, true_and, u_expr_chks, u_expr_rsts, expr_rsts, expr_slst_rsts, expr_lst_rsts, and_test_rsts, not_test_rsts, comparison_rsts, comparison_chks, a_expr_rsts, a_expr_chks, m_expr_rsts, m_expr_chks, atom_rsts, atom_rsts_post, argspec_rsts, argspec_item_rsts, argspec_item_rsts_post, ne_eq]

/-- Parser step for input "$x + 1". -/
theorem ps_g_13 : notTestF 95 ⟨⟨['$', 'x', ' ', '+', ' ', '1'], 0, []⟩, 0⟩ = .ok ((.BinaryOp .add (.Variable "$x") (.Literal (.Number ⟨1, 1⟩ [] []))), ⟨⟨['$', 'x', ' ', '+', ' ', '1'], 6, [⟨0, 2, Tok.VAR, "$x"⟩, ⟨3, 4, Tok.ADD, "+"⟩, ⟨5, 6, Tok.NUM, "1"⟩, ⟨6, 6, Tok.END, ""⟩]⟩, 3⟩) := by
  rw [notTestF]
  simp only [ps_g_12, tk_g_0, pPeek, pScan, pRewind, scanRewind, peekIn, tokMem, exceptBind_ok, exceptBind_error, exceptMap_ok, exceptMap_error, exceptPure, Option.some.injEq, reduceIte, reduceDIte, reduceCtorEq, Nat.reduceAdd, Nat.reduceSub, Nat.reduceEqDiff, decide_True, decide_False, decide_eq_true_eq, ne_eq, not_false_eq_true, not_true_eq_false, List.cons_append, List.nil_append, List.append_nil, or_self, or_false, false_or, and_self, and_true, true_and, u_expr_chks, u_expr_rsts, expr_rsts, expr_slst_rsts, expr_lst_rsts, and_test_rsts, not_test_rsts, comparison_rsts, comparison_chks, a_expr_rsts, a_expr_chks, m_expr_rsts, m_expr_chks, atom_rsts, atom_rsts_post, argspec_rsts, argspec_item_rsts, argspec_item_rsts_post, ne_eq]

/-- Parser step for input "$x + 1". -/
theorem ps_g_14 : andLoopF 95 (.BinaryOp .add (.Variable "$x") (.Literal (.Number ⟨1, 1⟩ [] []))) ⟨⟨['$', 'x', ' ', '+', ' ', '1'], 6, [⟨0, 2, Tok.VAR, "$x"⟩, ⟨3, 4, Tok.ADD, "+"⟩, ⟨5, 6, Tok.NUM, "1"⟩, ⟨6, 6, Tok.END, ""⟩]⟩, 3⟩ = .ok ((.BinaryOp .add (.Variable "$x") (.Literal (.Number ⟨1, 1⟩ [] []))), ⟨⟨['$', 'x', ' ', '+', ' ', '1'], 6, [⟨0, 2, Tok.VAR, "$x"⟩, ⟨3, 4, Tok.ADD, "+"⟩, ⟨5, 6, Tok.NUM, "1"⟩, ⟨6, 6, Tok.END, ""⟩]⟩, 3⟩) := by
  rw [andLoopF]
  simp only [tk_g_15, pPeek, pScan, pRewind, scanRewind, peekIn, tokMem, exceptBind_ok, exceptBind_error, exceptMap_ok, exceptMap_error, exceptPure, Option.some.injEq, reduceIte, reduceDIte, reduceCtorEq, Nat.reduceAdd, Nat.reduceSub, Nat.reduceEqDiff, decide_True, decide_False, decide_eq_true_eq, ne_eq, not_false_eq_true, not_true_eq_false, List.cons_append, List.nil_append, List.append_nil, or_self, or_false, false_or, and_self, and_true, true_and, u_expr_chks, u_expr_rsts, expr_rsts, expr_slst_rsts, expr_lst_rsts, and_test_rsts, not_test_rsts, comparison_rsts, comparison_chks, a_expr_rsts, a_expr_chks, m_expr_rsts, m_expr_chks, atom_rsts, atom_rsts_post, argspec_rsts, argspec_item_rsts, argspec_item_rsts_post, ne_eq]

/-- Parser step for input "$x + 1". -/
theorem ps_g_15 : andTestF 96 ⟨⟨['$', 'x', ' ', '+', ' ', '1'], 0, []⟩, 0⟩ = .ok ((.BinaryOp .add (.Variable "$x") (.Literal (.Number ⟨1, 1⟩ [] []))), ⟨⟨['$', 'x', ' ', '+', ' ', '1'], 6, [⟨0, 2, Tok.VAR, "$x"⟩, ⟨3, 4, Tok.ADD, "+"⟩, ⟨5, 6, Tok.NUM, "1"⟩, ⟨6, 6, Tok.END, ""⟩]⟩, 3⟩) := by
  rw [andTestF, ps_g_13]
  rw [exceptBind_ok]
  simp only [ps_g_14, pPeek, pScan, pRewind, scanRewind, peekIn, tokMem, exceptBind_ok, exceptBind_error, exceptMap_ok, exceptMap_error, exceptPure, Option.some.injEq, reduceIte, reduceDIte, reduceCtorEq, Nat.reduceAdd, Nat.reduceSub, Nat.reduceEqDiff, decide_True, decide_False, decide_eq_true_eq, ne_eq, not_false_eq_true, not_true_eq_false, List.cons_append, List.nil_append, List.append_nil, or_self, or_false, false_or, and_self, and_true, true_and, u_expr_chks, u_expr_rsts, expr_rsts, expr_slst_rsts, expr_lst_rsts, and_test_rsts, not_test_rsts, comparison_rsts, comparison_chks, a_expr_rsts, a_expr_chks, m_expr_rsts, m_expr_chks, atom_rsts, atom_rsts_post, argspec_rsts, argspec_item_rsts, argspec_item_rsts_post, ne_eq]

/-- Parser step for input "$x + 1". -/
theorem ps_g_16 : exprLoopF 96 (.BinaryOp .add (.Variable "$x") (.Literal (.Number ⟨1, 1⟩ [] []))) ⟨⟨['$', 'x', ' ', '+', ' ', '1'], 6, [⟨0, 2, Tok.VAR, "$x"⟩, ⟨3, 4, Tok.ADD, "+"⟩, ⟨5, 6, Tok.NUM, "1"⟩, ⟨6, 6, Tok.END, ""⟩]⟩, 3⟩ = .ok ((.BinaryOp .add (.Variable "$x") (.Literal (.Number ⟨1, 1⟩ [] []))), ⟨⟨['$', 'x', ' ', '+', ' ', '1'], 6, [⟨0, 2, Tok.VAR, "$x"⟩, ⟨3, 4, Tok.ADD, "+"⟩, ⟨5, 6, Tok.NUM, "1"⟩, ⟨6, 6, Tok.END, ""⟩]⟩, 3⟩) := by
  rw [exprLoopF]
  simp only [tk_g_16, pPeek, pScan, pRewind, scanRewind, peekIn, tokMem, exceptBind_ok, exceptBind_error, exceptMap_ok, exceptMap_error, exceptPure, Option.some.injEq, reduceIte, reduceDIte, reduceCtorEq, Nat.reduceAdd, Nat.reduceSub, Nat.reduceEqDiff, decide_True, decide_False, decide_eq_true_eq, ne_eq, not_false_eq_true, not_true_eq_false, List.cons_append, List.nil_append, List.append_nil, or_self, or_false, false_or, and_self, and_true, true_and, u_expr_chks, u_expr_rsts, expr_rsts, expr_slst_rsts, expr_lst_rsts, and_test_rsts, not_test_rsts, comparison_rsts, comparison_chks, a_expr_rsts, a_expr_chks, m_expr_rsts, m_expr_chks, atom_rsts, atom_rsts_post, argspec_rsts, argspec_item_rsts, argspec_item_rsts_post, ne_eq]

/-- Parser step for input "$x + 1". -/
theorem ps_g_17 : exprF 97 ⟨⟨['$', 'x', ' ', '+', ' ', '1'], 0, []⟩, 0⟩ = .ok ((.BinaryOp .add (.Variable "$x") (.Literal (.Number ⟨1, 1⟩ [] []))), ⟨⟨['$', 'x', ' ', '+', ' ', '1'], 6, [⟨0, 2, Tok.VAR, "$x"⟩, ⟨3, 4, Tok.ADD, "+"⟩, ⟨5, 6, Tok.NUM, "1"⟩, ⟨6, 6, Tok.END, ""⟩]⟩, 3⟩) := by
  rw [exprF, ps_g_15]
  rw [exceptBind_ok]
  simp only [ps_g_16, pPeek, pScan, pRewind, scanRewind, peekIn, tokMem, exceptBind_ok, exceptBind_error, exceptMap_ok, exceptMap_error, exceptPure, Option.some.injEq, reduceIte, reduceDIte, reduceCtorEq, Nat.reduceAdd, Nat.reduceSub, Nat.reduceEqDiff, decide_True, decide_False, decide_eq_true_eq, ne_eq, not_false_eq_true, not_true_eq_false, List.cons_append, List.nil_append, List.append_nil, or_self, or_false, false_or, and_self, and_true, true_and, u_expr_chks, u_expr_rsts, expr_rsts, expr_slst_rsts, expr_lst_rsts, and_test_rsts, not_test_rsts, comparison_rsts, comparison_chks, a_expr_rsts, a_expr_chks, m_expr_rsts, m_expr_chks, atom_rsts, atom_rsts_post, argspec_rsts, argspec_item_rsts, argspec_item_rsts_post, ne_eq]

/-- Parser step for input "$x + 1". -/
theorem ps_g_18 : exprSlstLoopF 97 [(.BinaryOp .add (.Variable "$x") (.Literal (.Number ⟨1, 1⟩ [] [])))] ⟨⟨['$', 'x', ' ', '+', ' ', '1'], 6, [⟨0, 2, Tok.VAR, "$x"⟩, ⟨3, 4, Tok.ADD, "+"⟩, ⟨5, 6, Tok.NUM, "1"⟩, ⟨6, 6, Tok.END, ""⟩]⟩, 3⟩ = .ok ((.BinaryOp .add (.Variable "$x") (.Literal (.Number ⟨1, 1⟩ [] []))), ⟨⟨['$', 'x', ' ', '+', ' ', '1'], 6, [⟨0, 2, Tok.VAR, "$x"⟩, ⟨3, 4, Tok.ADD, "+"⟩, ⟨5, 6, Tok.NUM, "1"⟩, ⟨6, 6, Tok.END, ""⟩]⟩, 3⟩) := by
  rw [exprSlstLoopF]
  simp only [tk_g_17, pPeek, pScan, pRewind, scanRewind, peekIn, tokMem, exceptBind_ok, exceptBind_error, exceptMap_ok, exceptMap_error, exceptPure, Option.some.injEq, reduceIte, reduceDIte, reduceCtorEq, Nat.reduceAdd, Nat.reduceSub, Nat.reduceEqDiff, decide_True, decide_False, decide_eq_true_eq, ne_eq, not_false_eq_true, not_true_eq_false, List.cons_append, List.nil_append, List.append_nil, or_self, or_false, false_or, and_self, and_true, true_and, u_expr_chks, u_expr_rsts, expr_rsts, expr_slst_rsts, expr_lst_rsts, and_test_rsts, not_test_rsts, comparison_rsts, comparison_chks, a_expr_rsts, a_expr_chks, m_expr_rsts, m_expr_chks, atom_rsts, atom_rsts_post, argspec_rsts, argspec_item_rsts, argspec_item_rsts_post, ne_eq]

/-- Parser step for input "$x + 1". -/
theorem ps_g_19 : exprSlstF 98 ⟨⟨['$', 'x', ' ', '+', ' ', '1'], 0, []⟩, 0⟩ = .ok ((.BinaryOp .add (.Variable "$x") (.Literal (.Number ⟨1, 1⟩ [] []))), ⟨⟨['$', 'x', ' ', '+', ' ', '1'], 6, [⟨0, 2, Tok.VAR, "$x"⟩, ⟨3, 4, Tok.ADD, "+"⟩, ⟨5, 6, Tok.NUM, "1"⟩, ⟨6, 6, Tok.END, ""⟩]⟩, 3⟩) := by
  rw [exprSlstF, ps_g_17]
  rw [exceptBind_ok]
  simp only [ps_g_18, pPeek, pScan, pRewind, scanRewind, peekIn, tokMem, exceptBind_ok, exceptBind_error, exceptMap_ok, exceptMap_error, exceptPure, Option.some.injEq, reduceIte, reduceDIte, reduceCtorEq, Nat.reduceAdd, Nat.reduceSub, Nat.reduceEqDiff, decide_True, decide_False, decide_eq_true_eq, ne_eq, not_false_eq_true, not_true_eq_false, List.cons_append, List.nil_append, List.append_nil, or_self, or_false, false_or, and_self, and_true, true_and, u_expr_chks, u_expr_rsts, expr_rsts, expr_slst_rsts, expr_lst_rsts, and_test_rsts, not_test_rsts, comparison_rsts, comparison_chks, a_expr_rsts, a_expr_chks, m_expr_rsts, m_expr_chks, atom_rsts, atom_rsts_post, argspec_rsts, argspec_item_rsts, argspec_item_rsts_post, ne_eq]

/-- Parser step for input "$x + 1". -/
theorem ps_g_20 : exprLstLoopF 98 [(.BinaryOp .add (.Variable "$x") (.Literal (.Number ⟨1, 1⟩ [] [])))] ⟨⟨['$', 'x', ' ', '+', ' ', '1'], 6, [⟨0, 2, Tok.VAR, "$x"⟩, ⟨3, 4, Tok.ADD, "+"⟩, ⟨5, 6, Tok.NUM, "1"⟩, ⟨6, 6, Tok.END, ""⟩]⟩, 3⟩ = .ok ((.BinaryOp .add (.Variable "$x") (.Literal (.Number ⟨1, 1⟩ [] []))), ⟨⟨['$', 'x', ' ', '+', ' ', '1'], 6, [⟨0, 2, Tok.VAR, "$x"⟩, ⟨3, 4, Tok.ADD, "+"⟩, ⟨5, 6, Tok.NUM, "1"⟩, ⟨6, 6, Tok.END, ""⟩]⟩, 3⟩) := by
  rw [exprLstLoopF]
  simp only [tk_g_18, pPeek, pScan, pRewind, scanRewind, peekIn, tokMem, exceptBind_ok, exceptBind_error, exceptMap_ok, exceptMap_error, exceptPure, Option.some.injEq, reduceIte, reduceDIte, reduceCtorEq, Nat.reduceAdd, Nat.reduceSub, Nat.reduceEqDiff, decide_True, decide_False, decide_eq_true_eq, ne_eq, not_false_eq_true, not_true_eq_false, List.cons_append, List.nil_append, List.append_nil, or_self, or_false, false_or, and_self, and_true, true_and, u_expr_chks, u_expr_rsts, expr_rsts, expr_slst_rsts, expr_lst_rsts, and_test_rsts, not_test_rsts, comparison_rsts, comparison_chks, a_expr_rsts, a_expr_chks, m_expr_rsts, m_expr_chks, atom_rsts, atom_rsts_post, argspec_rsts, argspec_item_rsts, argspec_item_rsts_post, ne_eq]

/-- Parser step for input "$x + 1". -/
theorem ps_g_21 : exprLstF 99 ⟨⟨['$', 'x', ' ', '+', ' ', '1'], 0, []⟩, 0⟩ = .ok ((.BinaryOp .add (.Variable "$x") (.Literal (.Number ⟨1, 1⟩ [] []))), ⟨⟨['$', 'x', ' ', '+', ' ', '1'], 6, [⟨0, 2, Tok.VAR, "$x"⟩, ⟨3, 4, Tok.ADD, "+"⟩, ⟨5, 6, Tok.NUM, "1"⟩, ⟨6, 6, Tok.END, ""⟩]⟩, 3⟩) := by
  rw [exprLstF, ps_g_19]
  rw [exceptBind_ok]
  simp only [ps_g_20, pPeek, pScan, pRewind, scanRewind, peekIn, tokMem, exceptBind_ok, exceptBind_error, exceptMap_ok, exceptMap_error, exceptPure, Option.some.injEq, reduceIte, reduceDIte, reduceCtorEq, Nat.reduceAdd, Nat.reduceSub, Nat.reduceEqDiff, decide_True, decide_False, decide_eq_true_eq, ne_eq, not_false_eq_true, not_true_eq_false, List.cons_append, List.nil_append, List.append_nil, or_self, or_false, false_or, and_self, and_true, true_and, u_expr_chks, u_expr_rsts, expr_rsts, expr_slst_rsts, expr_lst_rsts, and_test_rsts, not_test_rsts, comparison_rsts, comparison_chks, a_expr_rsts, a_expr_chks, m_expr_rsts, m_expr_chks, atom_rsts, atom_rsts_post, argspec_rsts, argspec_item_rsts, argspec_item_rsts_post, ne_eq]

/-- Parser step for input "$x + 1". -/
theorem ps_g_22 : goalF 100 ⟨⟨['$', 'x', ' ', '+', ' ', '1'], 0, []⟩, 0⟩ = .ok ((.BinaryOp .add (.Variable "$x") (.Literal (.Number ⟨1, 1⟩ [] []))), ⟨⟨['$', 'x', ' ', '+', ' ', '1'], 6, [⟨0, 2, Tok.VAR, "$x"⟩, ⟨3, 4, Tok.ADD, "+"⟩, ⟨5, 6, Tok.NUM, "1"⟩, ⟨6, 6, Tok.END, ""⟩]⟩, 4⟩) := by
  rw [goalF, ps_g_21]
  rw [exceptBind_ok]
  simp only [tk_g_19, pPeek, pScan, pRewind, scanRewind, peekIn, tokMem, exceptBind_ok, exceptBind_error, exceptMap_ok, exceptMap_error, exceptPure, Option.some.injEq, reduceIte, reduceDIte, reduceCtorEq, Nat.reduceAdd, Nat.reduceSub, Nat.reduceEqDiff, decide_True, decide_False, decide_eq_true_eq, ne_eq, not_false_eq_true, not_true_eq_false, List.cons_append, List.nil_append, List.append_nil, or_self, or_false, false_or, and_self, and_true, true_and, u_expr_chks, u_expr_rsts, expr_rsts, expr_slst_rsts, expr_lst_rsts, and_test_rsts, not_test_rsts, comparison_rsts, comparison_chks, a_expr_rsts, a_expr_chks, m_expr_rsts, m_expr_chks, atom_rsts, atom_rsts_post, argspec_rsts, argspec_item_rsts, argspec_item_rsts_post, ne_eq]

/-- Parse of the source text "$x + 1". -/
theorem parse_g : parseExpr 100 "$x + 1" = .ok (.BinaryOp .add (.Variable "$x") (.Literal (.Number ⟨1, 1⟩ [] []))) := by
  simp only [parseExpr, pReset, scanReset, sdata11, ps_g_22, exceptMap_ok]
/-- Scanner fact for input "$x !". -/
theorem tk_h_0 : tokenAt ⟨['$', 'x', ' ', '!'], 0, []⟩ 0 [Tok.LPAR, Tok.COLOR, Tok.QSTR, Tok.SIGN, Tok.VAR, Tok.ADD, Tok.NUM, Tok.FNCT, Tok.STR, Tok.NOT, Tok.ID] = .ok (⟨0, 2, Tok.VAR, "$x"⟩, ⟨['$', 'x', ' ', '!'], 2, [⟨0, 2, Tok.VAR, "$x"⟩]⟩) := rfl

/-- Scanner fact for input "$x !". -/
theorem tk_h_1 : tokenAt ⟨['$', 'x', ' ', '!'], 2, [⟨0, 2, Tok.VAR, "$x"⟩]⟩ 0 [Tok.LPAR, Tok.COLOR, Tok.QSTR, Tok.SIGN, Tok.ADD, Tok.NUM, Tok.FNCT, Tok.STR, Tok.VAR, Tok.ID] = .ok (⟨0, 2, Tok.VAR, "$x"⟩, ⟨['$', 'x', ' ', '!'], 2, [⟨0, 2, Tok.VAR, "$x"⟩]⟩) := rfl

/-- Scanner fact for input "$x !". -/
theorem tk_h_2 : tokenAt ⟨['$', 'x', ' ', '!'], 2, [⟨0, 2, Tok.VAR, "$x"⟩]⟩ 0 [Tok.LPAR, Tok.COLOR, Tok.QSTR, Tok.NUM, Tok.FNCT, Tok.STR, Tok.VAR, Tok.ID] = .ok (⟨0, 2, Tok.VAR, "$x"⟩, ⟨['$', 'x', ' ', '!'], 2, [⟨0, 2, Tok.VAR, "$x"⟩]⟩) := rfl

/-- Scanner fact for input "$x !". -/
theorem tk_h_3 : tokenAt ⟨['$', 'x', ' ', '!'], 2, [⟨0, 2, Tok.VAR, "$x"⟩]⟩ 0 [Tok.VAR] = .ok (⟨0, 2, Tok.VAR, "$x"⟩, ⟨['$', 'x', ' ', '!'], 2, [⟨0, 2, Tok.VAR, "$x"⟩]⟩) := rfl

/-- Scanner fact for input "$x !". -/
theorem tk_h_4 : tokenAt ⟨['$', 'x', ' ', '!'], 2, [⟨0, 2, Tok.VAR, "$x"⟩]⟩ 1 [Tok.LPAR, Tok.SUB, Tok.QSTR, Tok.RPAR, Tok.MUL, Tok.DIV, Tok.LE, Tok.COLOR, Tok.NE, Tok.LT, Tok.NUM, Tok.COMMA, Tok.GT, Tok.END, Tok.SIGN, Tok.GE, Tok.FNCT, Tok.STR, Tok.VAR, Tok.EQ, Tok.ID, Tok.AND, Tok.ADD, Tok.NOT, Tok.OR] = .error (.SyntaxErr "Bad token found") := rfl

/-- Scanner fact for input "$x !". -/
theorem tk_h_5 : tokenAt ⟨['$', 'x', ' ', '!'], 2, [⟨0, 2, Tok.VAR, "$x"⟩]⟩ 1 [Tok.LPAR, Tok.SUB, Tok.QSTR, Tok.RPAR, Tok.LE, Tok.COLOR, Tok.NE, Tok.LT, Tok.NUM, Tok.COMMA, Tok.GT, Tok.END, Tok.SIGN, Tok.GE, Tok.FNCT, Tok.STR, Tok.VAR, Tok.EQ, Tok.ID, Tok.AND, Tok.ADD, Tok.NOT, Tok.OR] = .error (.SyntaxErr "Bad token found") := rfl

/-- Scanner fact for input "$x !". -/
theorem tk_h_6 : tokenAt ⟨['$', 'x', ' ', '!'], 2, [⟨0, 2, Tok.VAR, "$x"⟩]⟩ 1 [Tok.LPAR, Tok.QSTR, Tok.RPAR, Tok.LE, Tok.COLOR, Tok.NE, Tok.LT, Tok.NUM, Tok.COMMA, Tok.GT, Tok.END, Tok.SIGN, Tok.ADD, Tok.FNCT, Tok.STR, Tok.VAR, Tok.EQ, Tok.ID, Tok.AND, Tok.GE, Tok.NOT, Tok.OR] = .error (.SyntaxErr "Bad token found") := rfl

/-- Scanner fact for input "$x !". -/
theorem tk_h_7 : tokenAt ⟨['$', 'x', ' ', '!'], 2, [⟨0, 2, Tok.VAR, "$x"⟩]⟩ 1 [Tok.AND, Tok.LPAR, Tok.END, Tok.COLOR, Tok.QSTR, Tok.SIGN, Tok.VAR, Tok.ADD, Tok.NUM, Tok.COMMA, Tok.FNCT, Tok.STR, Tok.NOT, Tok.ID, Tok.RPAR, Tok.OR] = .error (.SyntaxErr "Bad token found") := rfl

/-- Scanner fact for input "$x !". -/
theorem tk_h_8 : tokenAt ⟨['$', 'x', ' ', '!'], 2, [⟨0, 2, Tok.VAR, "$x"⟩]⟩ 1 [Tok.LPAR, Tok.END, Tok.COLOR, Tok.QSTR, Tok.RPAR, Tok.VAR, Tok.ADD, Tok.NUM, Tok.COMMA, Tok.FNCT, Tok.STR, Tok.NOT, Tok.ID, Tok.SIGN, Tok.OR] = .error (.SyntaxErr "Bad token found") := rfl

/-- Scanner fact for input "$x !". -/
theorem tk_h_9 : tokenAt ⟨['$', 'x', ' ', '!'], 2, [⟨0, 2, Tok.VAR, "$x"⟩]⟩ 1 [Tok.LPAR, Tok.END, Tok.COLOR, Tok.QSTR, Tok.RPAR, Tok.VAR, Tok.ADD, Tok.NUM, Tok.COMMA, Tok.FNCT, Tok.STR, Tok.NOT, Tok.SIGN, Tok.ID] = .error (.SyntaxErr "Bad token found") := rfl

/-- Scanner fact for input "$x !". -/
theorem tk_h_10 : tokenAt ⟨['$', 'x', ' ', '!'], 2, [⟨0, 2, Tok.VAR, "$x"⟩]⟩ 1 [Tok.LPAR, Tok.COLOR, Tok.QSTR, Tok.SIGN, Tok.VAR, Tok.ADD, Tok.NUM, Tok.FNCT, Tok.STR, Tok.NOT, Tok.ID] = .error (.SyntaxErr "Bad token found") := rfl

/-- Scanner fact for input "$x !". -/
theorem tk_h_11 : tokenAt ⟨['$', 'x', ' ', '!'], 2, [⟨0, 2, Tok.VAR, "$x"⟩]⟩ 1 [Tok.LPAR, Tok.COLOR, Tok.QSTR, Tok.SIGN, Tok.ADD, Tok.NUM, Tok.FNCT, Tok.STR, Tok.VAR, Tok.ID] = .error (.SyntaxErr "Bad token found") := rfl

/-- Scanner fact for input "$x !". -/
theorem tk_h_12 : tokenAt ⟨['$', 'x', ' ', '!'], 2, [⟨0, 2, Tok.VAR, "$x"⟩]⟩ 1 [Tok.LPAR, Tok.COLOR, Tok.QSTR, Tok.NUM, Tok.FNCT, Tok.STR, Tok.VAR, Tok.ID] = .error (.SyntaxErr "Bad token found") := rfl

/-- Scanner fact for input "$x !". -/
theorem tk_h_13 : tokenAt ⟨['$', 'x', ' ', '!'], 2, [⟨0, 2, Tok.VAR, "$x"⟩]⟩ 1 [Tok.VAR] = .error (.SyntaxErr "Bad token found") := rfl

/-- Parser step for input "$x !". -/
theorem ps_h_0 : atomF 90 ⟨⟨['$', 'x', ' ', '!'], 2, [⟨0, 2, Tok.VAR, "$x"⟩]⟩, 0⟩ = .ok ((.Variable "$x"), ⟨⟨['$', 'x', ' ', '!'], 2, [⟨0, 2, Tok.VAR, "$x"⟩]⟩, 1⟩) := by
  rw [atomF]
  simp only [tk_h_2, tk_h_3, pPeek, pScan, pRewind, scanRewind, peekIn, tokMem, exceptBind_ok, exceptBind_error, exceptMap_ok, exceptMap_error, exceptPure, Option.some.injEq, reduceIte, reduceDIte, reduceCtorEq, Nat.reduceAdd, Nat.reduceSub, Nat.reduceEqDiff, decide_True, decide_False, decide_eq_true_eq, ne_eq, not_false_eq_true, not_true_eq_false, List.cons_append, List.nil_append, List.append_nil, or_self, or_false, false_or, and_self, and_true, true_and, u_expr_chks, u_expr_rsts, expr_rsts, expr_slst_rsts, expr_lst_rsts, and_test_rsts, not_test_rsts, comparison_rsts, comparison_chks, a_expr_rsts, a_expr_chks, m_expr_rsts, m_expr_chks, atom_rsts, atom_rsts_post, argspec_rsts, argspec_item_rsts, argspec_item_rsts_post, sdata0, sdata1, sdata2, sdata3, sdata4, sdata5, sdata6, sdata7, sdata8, sdata9, sdata10, sdata11, sdata12, parse_bareword, COLOR_NAMES, parseNum, digitsToNat, lowerStr, parseHexColor, hexToNat, isDigitC, isAlphaC, SassQ.add, SassQ.fromNat, mkQ, gcdQ, gcdFuel, List.find?, List.map, List.take, List.drop, List.takeWhile, List.dropWhile, List.dropLast, List.isEmpty, List.length, Option.map, Char.reduceEq, Char.reduceBEq, Char.reduceLE, Char.reduceLT, Char.reduceToNat, Char.reduceToLower, String.reduceMk, String.reduceEq, String.reduceBEq, Nat.reduceMul, Nat.reduceDiv, Nat.reduceMod, Nat.reducePow, Nat.reduceLeDiff, Nat.reduceLT, Nat.reduceGT, Int.reduceAdd, Int.reduceSub, Int.reduceMul, Int.reduceNeg, Int.reduceDiv, Int.reduceLT, Int.reduceLE, Int.reduceEq, Int.reduceBEq, Int.reduceToNat, Int.reduceAbs, Int.reducePow, Int.reduceMod, Int.reduceOfNat, Nat.cast_ofNat, Nat.cast_one, Nat.cast_zero]

/-- Parser step for input "$x !". -/
theorem ps_h_1 : uExprF 91 ⟨⟨['$', 'x', ' ', '!'], 2, [⟨0, 2, Tok.VAR, "$x"⟩]⟩, 0⟩ = .ok ((.Variable "$x"), ⟨⟨['$', 'x', ' ', '!'], 2, [⟨0, 2, Tok.VAR, "$x"⟩]⟩, 1⟩) := by
  rw [uExprF]
  simp only [ps_h_0, tk_h_1, pPeek, pScan, pRewind, scanRewind, peekIn, tokMem, exceptBind_ok, exceptBind_error, exceptMap_ok, exceptMap_error, exceptPure, Option.some.injEq, reduceIte, reduceDIte, reduceCtorEq, Nat.reduceAdd, Nat.reduceSub, Nat.reduceEqDiff, decide_True, decide_False, decide_eq_true_eq, ne_eq, not_false_eq_true, not_true_eq_false, List.cons_append, List.nil_append, List.append_nil, or_self, or_false, false_or, and_self, and_true, true_and, u_expr_chks, u_expr_rsts, expr_rsts, expr_slst_rsts, expr_lst_rsts, and_test_rsts, not_test_rsts, comparison_rsts, comparison_chks, a_expr_rsts, a_expr_chks, m_expr_rsts, m_expr_chks, atom_rsts, atom_rsts_post, argspec_rsts, argspec_item_rsts, argspec_item_rsts_post, ne_eq]

/-- Parser step for input "$x !". -/
theorem ps_h_2 : mLoopF 91 (.Variable "$x") ⟨⟨['$', 'x', ' ', '!'], 2, [⟨0, 2, Tok.VAR, "$x"⟩]⟩, 1⟩ = .ok ((.Variable "$x"), ⟨⟨['$', 'x', ' ', '!'], 2, [⟨0, 2, Tok.VAR, "$x"⟩]⟩, 1⟩) := by
  rw [mLoopF]
  simp only [tk_h_4, pPeek, pScan, pRewind, scanRewind, peekIn, tokMem, exceptBind_ok, exceptBind_error, exceptMap_ok, exceptMap_error, exceptPure, Option.some.injEq, reduceIte, reduceDIte, reduceCtorEq, Nat.reduceAdd, Nat.reduceSub, Nat.reduceEqDiff, decide_True, decide_False, decide_eq_true_eq, ne_eq, not_false_eq_true, not_true_eq_false, List.cons_append, List.nil_append, List.append_nil, or_self, or_false, false_or, and_self, and_true, true_and, u_expr_chks, u_expr_rsts, expr_rsts, expr_slst_rsts, expr_lst_rsts, and_test_rsts, not_test_rsts, comparison_rsts, comparison_chks, a_expr_rsts, a_expr_chks, m_expr_rsts, m_expr_chks, atom_rsts, atom_rsts_post, argspec_rsts, argspec_item_rsts, argspec_item_rsts_post, ne_eq]

/-- Parser step for input "$x !". -/
theorem ps_h_3 : mExprF 92 ⟨⟨['$', 'x', ' ', '!'], 2, [⟨0, 2, Tok.VAR, "$x"⟩]⟩, 0⟩ = .ok ((.Variable "$x"), ⟨⟨['$', 'x', ' ', '!'], 2, [⟨0, 2, Tok.VAR, "$x"⟩]⟩, 1⟩) := by
  rw [mExprF, ps_h_1]
  rw [exceptBind_ok]
  simp only [ps_h_2, pPeek, pScan, pRewind, scanRewind, peekIn, tokMem, exceptBind_ok, exceptBind_error, exceptMap_ok, exceptMap_error, exceptPure, Option.some.injEq, reduceIte, reduceDIte, reduceCtorEq, Nat.reduceAdd, Nat.reduceSub, Nat.reduceEqDiff, decide_True, decide_False, decide_eq_true_eq, ne_eq, not_false_eq_true, not_true_eq_false, List.cons_append, List.nil_append, List.append_nil, or_self, or_false, false_or, and_self, and_true, true_and, u_expr_chks, u_expr_rsts, expr_rsts, expr_slst_rsts, expr_lst_rsts, and_test_rsts, not_test_rsts, comparison_rsts, comparison_chks, a_expr_rsts, a_expr_chks, m_expr_rsts, m_expr_chks, atom_rsts, atom_rsts_post, argspec_rsts, argspec_item_rsts, argspec_item_rsts_post, ne_eq]

/-- Parser step for input "$x !". -/
theorem ps_h_4 : aLoopF 92 (.Variable "$x") ⟨⟨['$', 'x', ' ', '!'], 2, [⟨0, 2, Tok.VAR, "$x"⟩]⟩, 1⟩ = .ok ((.Variable "$x"), ⟨⟨['$', 'x', ' ', '!'], 2, [⟨0, 2, Tok.VAR, "$x"⟩]⟩, 1⟩) := by
  rw [aLoopF]
  simp only [tk_h_5, pPeek, pScan, pRewind, scanRewind, peekIn, tokMem, exceptBind_ok, exceptBind_error, exceptMap_ok, exceptMap_error, exceptPure, Option.some.injEq, reduceIte, reduceDIte, reduceCtorEq, Nat.reduceAdd, Nat.reduceSub, Nat.reduceEqDiff, decide_True, decide_False, decide_eq_true_eq, ne_eq, not_false_eq_true, not_true_eq_false, List.cons_append, List.nil_append, List.append_nil, or_self, or_false, false_or, and_self, and_true, true_and, u_expr_chks, u_expr_rsts, expr_rsts, expr_slst_rsts, expr_lst_rsts, and_test_rsts, not_test_rsts, comparison_rsts, comparison_chks, a_expr_rsts, a_expr_chks, m_expr_rsts, m_expr_chks, atom_rsts, atom_rsts_post, argspec_rsts, argspec_item_rsts, argspec_item_rsts_post, ne_eq]

/-- Parser step for input "$x !". -/
theorem ps_h_5 : aExprF 93 ⟨⟨['$', 'x', ' ', '!'], 2, [⟨0, 2, Tok.VAR, "$x"⟩]⟩, 0⟩ = .ok ((.Variable "$x"), ⟨⟨['$', 'x', ' ', '!'], 2, [⟨0, 2, Tok.VAR, "$x"⟩]⟩, 1⟩) := by
  rw [aExprF, ps_h_3]
  rw [exceptBind_ok]
  simp only [ps_h_4, pPeek, pScan, pRewind, scanRewind, peekIn, tokMem, exceptBind_ok, exceptBind_error, exceptMap_ok, exceptMap_error, exceptPure, Option.some.injEq, reduceIte, reduceDIte, reduceCtorEq, Nat.reduceAdd, Nat.reduceSub, Nat.reduceEqDiff, decide_True, decide_False, decide_eq_true_eq, ne_eq, not_false_eq_true, not_true_eq_false, List.cons_append, List.nil_append, List.append_nil, or_self, or_false, false_or, and_self, and_true, true_and, u_expr_chks, u_expr_rsts, expr_rsts, expr_slst_rsts, expr_lst_rsts, and_test_rsts, not_test_rsts, comparison_rsts, comparison_chks, a_expr_rsts, a_expr_chks, m_expr_rsts, m_expr_chks, atom_rsts, atom_rsts_post, argspec_rsts, argspec_item_rsts, argspec_item_rsts_post, ne_eq]

/-- Parser step for input "$x !". -/
theorem ps_h_6 : compLoopF 93 (.Variable "$x") ⟨⟨['$', 'x', ' ', '!'], 2, [⟨0, 2, Tok.VAR, "$x"⟩]⟩, 1⟩ = .ok ((.Variable "$x"), ⟨⟨['$', 'x', ' ', '!'], 2, [⟨0, 2, Tok.VAR, "$x"⟩]⟩, 1⟩) := by
  rw [compLoopF]
  simp only [tk_h_6, pPeek, pScan, pRewind, scanRewind, peekIn, tokMem, exceptBind_ok, exceptBind_error, exceptMap_ok, exceptMap_error, exceptPure, Option.some.injEq, reduceIte, reduceDIte, reduceCtorEq, Nat.reduceAdd, Nat.reduceSub, Nat.reduceEqDiff, decide_True, decide_False, decide_eq_true_eq, ne_eq, not_false_eq_true, not_true_eq_false, List.cons_append, List.nil_append, List.append_nil, or_self, or_false, false_or, and_self, and_true, true_and, u_expr_chks, u_expr_rsts, expr_rsts, expr_slst_rsts, expr_lst_rsts, and_test_rsts, not_test_rsts, comparison_rsts, comparison_chks, a_expr_rsts, a_expr_chks, m_expr_rsts, m_expr_chks, atom_rsts, atom_rsts_post, argspec_rsts, argspec_item_rsts, argspec_item_rsts_post, ne_eq]

/-- Parser step for input "$x !". -/
theorem ps_h_7 : comparisonF 94 ⟨⟨['$', 'x', ' ', '!'], 2, [⟨0, 2, Tok.VAR, "$x"⟩]⟩, 0⟩ = .ok ((.Variable "$x"), ⟨⟨['$', 'x', ' ', '!'], 2, [⟨0, 2, Tok.VAR, "$x"⟩]⟩, 1⟩) := by
  rw [comparisonF, ps_h_5]
  rw [exceptBind_ok]
  simp only [ps_h_6, pPeek, pScan, pRewind, scanRewind, peekIn, tokMem, exceptBind_ok, exceptBind_error, exceptMap_ok, exceptMap_error, exceptPure, Option.some.injEq, reduceIte, reduceDIte, reduceCtorEq, Nat.reduceAdd, Nat.reduceSub, Nat.reduceEqDiff, decide_True, decide_False, decide_eq_true_eq, ne_eq, not_false_eq_true, not_true_eq_false, List.cons_append, List.nil_append, List.append_nil, or_self, or_false, false_or, and_self, and_true, true_and, u_expr_chks, u_expr_rsts, expr_rsts, expr_slst_rsts, expr_lst_rsts, and_test_rsts, not_test_rsts, comparison_rsts, comparison_chks, a_expr_rsts, a_expr_chks, m_expr_rsts, m_expr_chks, atom_rsts, atom_rsts_post, argspec_rsts, argspec_item_rsts, argspec_item_rsts_post, ne_eq]

/-- Parser step for input "$x !". -/
theorem ps_h_8 : notTestF 95 ⟨⟨['$', 'x', ' ', '!'], 0, []⟩, 0⟩ = .ok ((.Variable "$x"), ⟨⟨['$', 'x', ' ', '!'], 2, [⟨0, 2, Tok.VAR, "$x"⟩]⟩, 1⟩) := by
  rw [notTestF]
  simp only [ps_h_7, tk_h_0, pPeek, pScan, pRewind, scanRewind, peekIn, tokMem, exceptBind_ok, exceptBind_error, exceptMap_ok, exceptMap_error, exceptPure, Option.some.injEq, reduceIte, reduceDIte, reduceCtorEq, Nat.reduceAdd, Nat.reduceSub, Nat.reduceEqDiff, decide_True, decide_False, decide_eq_true_eq, ne_eq, not_false_eq_true, not_true_eq_false, List.cons_append, List.nil_append, List.append_nil, or_self, or_false, false_or, and_self, and_true, true_and, u_expr_chks, u_expr_rsts, expr_rsts, expr_slst_rsts, expr_lst_rsts, and_test_rsts, not_test_rsts, comparison_rsts, comparison_chks, a_expr_rsts, a_expr_chks, m_expr_rsts, m_expr_chks, atom_rsts, atom_rsts_post, argspec_rsts, argspec_item_rsts, argspec_item_rsts_post, ne_eq]

/-- Parser step for input "$x !". -/
theorem ps_h_9 : andLoopF 95 (.Variable "$x") ⟨⟨['$', 'x', ' ', '!'], 2, [⟨0, 2, Tok.VAR, "$x"⟩]⟩, 1⟩ = .ok ((.Variable "$x"), ⟨⟨['$', 'x', ' ', '!'], 2, [⟨0, 2, Tok.VAR, "$x"⟩]⟩, 1⟩) := by
  rw [andLoopF]
  simp only [tk_h_7, pPeek, pScan, pRewind, scanRewind, peekIn, tokMem, exceptBind_ok, exceptBind_error, exceptMap_ok, exceptMap_error, exceptPure, Option.some.injEq, reduceIte, reduceDIte, reduceCtorEq, Nat.reduceAdd, Nat.reduceSub, Nat.reduceEqDiff, decide_True, decide_False, decide_eq_true_eq, ne_eq, not_false_eq_true, not_true_eq_false, List.cons_append, List.nil_append, List.append_nil, or_self, or_false, false_or, and_self, and_true, true_and, u_expr_chks, u_expr_rsts, expr_rsts, expr_slst_rsts, expr_lst_rsts, and_test_rsts, not_test_rsts, comparison_rsts, comparison_chks, a_expr_rsts, a_expr_chks, m_expr_rsts, m_expr_chks, atom_rsts, atom_rsts_post, argspec_rsts, argspec_item_rsts, argspec_item_rsts_post, ne_eq]

/-- Parser step for input "$x !". -/
theorem ps_h_10 : andTestF 96 ⟨⟨['$', 'x', ' ', '!'], 0, []⟩, 0⟩ = .ok ((.Variable "$x"), ⟨⟨['$', 'x', ' ', '!'], 2, [⟨0, 2, Tok.VAR, "$x"⟩]⟩, 1⟩) := by
  rw [andTestF, ps_h_8]
  rw [exceptBind_ok]
  simp only [ps_h_9, pPeek, pScan, pRewind, scanRewind, peekIn, tokMem, exceptBind_ok, exceptBind_error, exceptMap_ok, exceptMap_error, exceptPure, Option.some.injEq, reduceIte, reduceDIte, reduceCtorEq, Nat.reduceAdd, Nat.reduceSub, Nat.reduceEqDiff, decide_True, decide_False, decide_eq_true_eq, ne_eq, not_false_eq_true, not_true_eq_false, List.cons_append, List.nil_append, List.append_nil, or_self, or_false, false_or, and_self, and_true, true_and, u_expr_chks, u_expr_rsts, expr_rsts, expr_slst_rsts, expr_lst_rsts, and_test_rsts, not_test_rsts, comparison_rsts, comparison_chks, a_expr_rsts, a_expr_chks, m_expr_rsts, m_expr_chks, atom_rsts, atom_rsts_post, argspec_rsts, argspec_item_rsts, argspec_item_rsts_post, ne_eq]

/-- Parser step for input "$x !". -/
theorem ps_h_11 : exprLoopF 96 (.Variable "$x") ⟨⟨['$', 'x', ' ', '!'], 2, [⟨0, 2, Tok.VAR, "$x"⟩]⟩, 1⟩ = .ok ((.Variable "$x"), ⟨⟨['$', 'x', ' ', '!'], 2, [⟨0, 2, Tok.VAR, "$x"⟩]⟩, 1⟩) := by
  rw [exprLoopF]
  simp only [tk_h_8, pPeek, pScan, pRewind, scanRewind, peekIn, tokMem, exceptBind_ok, exceptBind_error, exceptMap_ok, exceptMap_error, exceptPure, Option.some.injEq, reduceIte, reduceDIte, reduceCtorEq, Nat.reduceAdd, Nat.reduceSub, Nat.reduceEqDiff, decide_True, decide_False, decide_eq_true_eq, ne_eq, not_false_eq_true, not_true_eq_false, List.cons_append, List.nil_append, List.append_nil, or_self, or_false, false_or, and_self, and_true, true_and, u_expr_chks, u_expr_rsts, expr_rsts, expr_slst_rsts, expr_lst_rsts, and_test_rsts, not_test_rsts, comparison_rsts, comparison_chks, a_expr_rsts, a_expr_chks, m_expr_rsts, m_expr_chks, atom_rsts, atom_rsts_post, argspec_rsts, argspec_item_rsts, argspec_item_rsts_post, ne_eq]

/-- Parser step for input "$x !". -/
theorem ps_h_12 : exprF 97 ⟨⟨['$', 'x', ' ', '!'], 0, []⟩, 0⟩ = .ok ((.Variable "$x"), ⟨⟨['$', 'x', ' ', '!'], 2, [⟨0, 2, Tok.VAR, "$x"⟩]⟩, 1⟩) := by
  rw [exprF, ps_h_10]
  rw [exceptBind_ok]
  simp only [ps_h_11, pPeek, pScan, pRewind, scanRewind, peekIn, tokMem, exceptBind_ok, exceptBind_error, exceptMap_ok, exceptMap_error, exceptPure, Option.some.injEq, reduceIte, reduceDIte, reduceCtorEq, Nat.reduceAdd, Nat.reduceSub, Nat.reduceEqDiff, decide_True, decide_False, decide_eq_true_eq, ne_eq, not_false_eq_true, not_true_eq_false, List.cons_append, List.nil_append, List.append_nil, or_self, or_false, false_or, and_self, and_true, true_and, u_expr_chks, u_expr_rsts, expr_rsts, expr_slst_rsts, expr_lst_rsts, and_test_rsts, not_test_rsts, comparison_rsts, comparison_chks, a_expr_rsts, a_expr_chks, m_expr_rsts, m_expr_chks, atom_rsts, atom_rsts_post, argspec_rsts, argspec_item_rsts, argspec_item_rsts_post, ne_eq]

/-- Parser step for input "$x !". -/
theorem ps_h_13 : atomF 89 ⟨⟨['$', 'x', ' ', '!'], 2, [⟨0, 2, Tok.VAR, "$x"⟩]⟩, 1⟩ = .error (.SyntaxErr "Bad token found") := by
  rw [atomF]
  simp only [tk_h_12, tk_h_13, pPeek, pScan, pRewind, scanRewind, peekIn, tokMem, exceptBind_ok, exceptBind_error, exceptMap_ok, exceptMap_error, exceptPure, Option.some.injEq, reduceIte, reduceDIte, reduceCtorEq, Nat.reduceAdd, Nat.reduceSub, Nat.reduceEqDiff, decide_True, decide_False, decide_eq_true_eq, ne_eq, not_false_eq_true, not_true_eq_false, List.cons_append, List.nil_append, List.append_nil, or_self, or_false, false_or, and_self, and_true, true_and, u_expr_chks, u_expr_rsts, expr_rsts, expr_slst_rsts, expr_lst_rsts, and_test_rsts, not_test_rsts, comparison_rsts, comparison_chks, a_expr_rsts, a_expr_chks, m_expr_rsts, m_expr_chks, atom_rsts, atom_rsts_post, argspec_rsts, argspec_item_rsts, argspec_item_rsts_post, sdata0, sdata1, sdata2, sdata3, sdata4, sdata5, sdata6, sdata7, sdata8, sdata9, sdata10, sdata11, sdata12, parse_bareword, COLOR_NAMES, parseNum, digitsToNat, lowerStr, parseHexColor, hexToNat, isDigitC, isAlphaC, SassQ.add, SassQ.fromNat, mkQ, gcdQ, gcdFuel, List.find?, List.map, List.take, List.drop, List.takeWhile, List.dropWhile, List.dropLast, List.isEmpty, List.length, Option.map, Char.reduceEq, Char.reduceBEq, Char.reduceLE, Char.reduceLT, Char.reduceToNat, Char.reduceToLower, String.reduceMk, String.reduceEq, String.reduceBEq, Nat.reduceMul, Nat.reduceDiv, Nat.reduceMod, Nat.reducePow, Nat.reduceLeDiff, Nat.reduceLT, Nat.reduceGT, Int.reduceAdd, Int.reduceSub, Int.reduceMul, Int.reduceNeg, Int.reduceDiv, Int.reduceLT, Int.reduceLE, Int.reduceEq, Int.reduceBEq, Int.reduceToNat, Int.reduceAbs, Int.reducePow, Int.reduceMod, Int.reduceOfNat, Nat.cast_ofNat, Nat.cast_one, Nat.cast_zero]

/-- Parser step for input "$x !". -/
theorem ps_h_14 : uExprF 90 ⟨⟨['$', 'x', ' ', '!'], 2, [⟨0, 2, Tok.VAR, "$x"⟩]⟩, 1⟩ = .error (.SyntaxErr "Bad token found") := by
  rw [uExprF]
  simp only [ps_h_13, tk_h_11, pPeek, pScan, pRewind, scanRewind, peekIn, tokMem, exceptBind_ok, exceptBind_error, exceptMap_ok, exceptMap_error, exceptPure, Option.some.injEq, reduceIte, reduceDIte, reduceCtorEq, Nat.reduceAdd, Nat.reduceSub, Nat.reduceEqDiff, decide_True, decide_False, decide_eq_true_eq, ne_eq, not_false_eq_true, not_true_eq_false, List.cons_append, List.nil_append, List.append_nil, or_self, or_false, false_or, and_self, and_true, true_and, u_expr_chks, u_expr_rsts, expr_rsts, expr_slst_rsts, expr_lst_rsts, and_test_rsts, not_test_rsts, comparison_rsts, comparison_chks, a_expr_rsts, a_expr_chks, m_expr_rsts, m_expr_chks, atom_rsts, atom_rsts_post, argspec_rsts, argspec_item_rsts, argspec_item_rsts_post, ne_eq]

/-- Parser step for input "$x !". -/
theorem ps_h_15 : mExprF 91 ⟨⟨['$', 'x', ' ', '!'], 2, [⟨0, 2, Tok.VAR, "$x"⟩]⟩, 1⟩ = .error (.SyntaxErr "Bad token found") := by
  rw [mExprF, ps_h_14]
  rw [exceptBind_error]

/-- Parser step for input "$x !". -/
theorem ps_h_16 : aExprF 92 ⟨⟨['$', 'x', ' ', '!'], 2, [⟨0, 2, Tok.VAR, "$x"⟩]⟩, 1⟩ = .error (.SyntaxErr "Bad token found") := by
  rw [aExprF, ps_h_15]
  rw [exceptBind_error]

/-- Parser step for input "$x !". -/
theorem ps_h_17 : comparisonF 93 ⟨⟨['$', 'x', ' ', '!'], 2, [⟨0, 2, Tok.VAR, "$x"⟩]⟩, 1⟩ = .error (.SyntaxErr "Bad token found") := by
  rw [comparisonF, ps_h_16]
  rw [exceptBind_error]

/-- Parser step for input "$x !". -/
theorem ps_h_18 : notTestF 94 ⟨⟨['$', 'x', ' ', '!'], 2, [⟨0, 2, Tok.VAR, "$x"⟩]⟩, 1⟩ = .error (.SyntaxErr "Bad token found") := by
  rw [notTestF]
  simp only [ps_h_17, tk_h_10, pPeek, pScan, pRewind, scanRewind, peekIn, tokMem, exceptBind_ok, exceptBind_error, exceptMap_ok, exceptMap_error, exceptPure, Option.some.injEq, reduceIte, reduceDIte, reduceCtorEq, Nat.reduceAdd, Nat.reduceSub, Nat.reduceEqDiff, decide_True, decide_False, decide_eq_true_eq, ne_eq, not_false_eq_true, not_true_eq_false, List.cons_append, List.nil_append, List.append_nil, or_self, or_false, false_or, and_self, and_true, true_and, u_expr_chks, u_expr_rsts, expr_rsts, expr_slst_rsts, expr_lst_rsts, and_test_rsts, not_test_rsts, comparison_rsts, comparison_chks, a_expr_rsts, a_expr_chks, m_expr_rsts, m_expr_chks, atom_rsts, atom_rsts_post, argspec_rsts, argspec_item_rsts, argspec_item_rsts_post, ne_eq]

/-- Parser step for input "$x !". -/
theorem ps_h_19 : andTestF 95 ⟨⟨['$', 'x', ' ', '!'], 2, [⟨0, 2, Tok.VAR, "$x"⟩]⟩, 1⟩ = .error (.SyntaxErr "Bad token found") := by
  rw [andTestF, ps_h_18]
  rw [exceptBind_error]

/-- Parser step for input "$x !". -/
theorem ps_h_20 : exprF 96 ⟨⟨['$', 'x', ' ', '!'], 2, [⟨0, 2, Tok.VAR, "$x"⟩]⟩, 1⟩ = .error (.SyntaxErr "Bad token found") := by
  rw [exprF, ps_h_19]
  rw [exceptBind_error]

/-- Parser step for input "$x !". -/
theorem ps_h_21 : exprSlstLoopF 97 [(.Variable "$x")] ⟨⟨['$', 'x', ' ', '!'], 2, [⟨0, 2, Tok.VAR, "$x"⟩]⟩, 1⟩ = .error (.SyntaxErr "Bad token found") := by
  rw [exprSlstLoopF]
  simp only [ps_h_20, tk_h_9, pPeek, pScan, pRewind, scanRewind, peekIn, tokMem, exceptBind_ok, exceptBind_error, exceptMap_ok, exceptMap_error, exceptPure, Option.some.injEq, reduceIte, reduceDIte, reduceCtorEq, Nat.reduceAdd, Nat.reduceSub, Nat.reduceEqDiff, decide_True, decide_False, decide_eq_true_eq, ne_eq, not_false_eq_true, not_true_eq_false, List.cons_append, List.nil_append, List.append_nil, or_self, or_false, false_or, and_self, and_true, true_and, u_expr_chks, u_expr_rsts, expr_rsts, expr_slst_rsts, expr_lst_rsts, and_test_rsts, not_test_rsts, comparison_rsts, comparison_chks, a_expr_rsts, a_expr_chks, m_expr_rsts, m_expr_chks, atom_rsts, atom_rsts_post, argspec_rsts, argspec_item_rsts, argspec_item_rsts_post, ne_eq]

/-- Parser step for input "$x !". -/
theorem ps_h_22 : exprSlstF 98 ⟨⟨['$', 'x', ' ', '!'], 0, []⟩, 0⟩ = .error (.SyntaxErr "Bad token found") := by
  rw [exprSlstF, ps_h_12]
  rw [exceptBind_ok]
  simp only [ps_h_21, pPeek, pScan, pRewind, scanRewind, peekIn, tokMem, exceptBind_ok, exceptBind_error, exceptMap_ok, exceptMap_error, exceptPure, Option.some.injEq, reduceIte, reduceDIte, reduceCtorEq, Nat.reduceAdd, Nat.reduceSub, Nat.reduceEqDiff, decide_True, decide_False, decide_eq_true_eq, ne_eq, not_false_eq_true, not_true_eq_false, List.cons_append, List.nil_append, List.append_nil, or_self, or_false, false_or, and_self, and_true, true_and, u_expr_chks, u_expr_rsts, expr_rsts, expr_slst_rsts, expr_lst_rsts, and_test_rsts, not_test_rsts, comparison_rsts, comparison_chks, a_expr_rsts, a_expr_chks, m_expr_rsts, m_expr_chks, atom_rsts, atom_rsts_post, argspec_rsts, argspec_item_rsts, argspec_item_rsts_post, ne_eq]

/-- Parser step for input "$x !". -/
theorem ps_h_23 : exprLstF 99 ⟨⟨['$', 'x', ' ', '!'], 0, []⟩, 0⟩ = .error (.SyntaxErr "Bad token found") := by
  rw [exprLstF, ps_h_22]
  rw [exceptBind_error]

/-- Parser step for input "$x !". -/
theorem ps_h_24 : goalF 100 ⟨⟨['$', 'x', ' ', '!'], 0, []⟩, 0⟩ = .error (.SyntaxErr "Bad token found") := by
  rw [goalF, ps_h_23]
  rw [exceptBind_error]

/-- Parse of the source text "$x !". -/
theorem parse_h : parseExpr 100 "$x !" = .error (.SyntaxErr "Bad token found") := by
  simp only [parseExpr, pReset, scanReset, sdata12, ps_h_24, exceptMap_error]
/-- Scanner fact for input "foo(1, 2)". -/
theorem tk_i_0 : tokenAt ⟨['f', 'o', 'o', '(', '1', ',', ' ', '2', ')'], 0, []⟩ 0 [Tok.LPAR, Tok.COLOR, Tok.QSTR, Tok.SIGN, Tok.VAR, Tok.ADD, Tok.NUM, Tok.FNCT, Tok.STR, Tok.NOT, Tok.ID] = .ok (⟨0, 3, Tok.FNCT, "foo"⟩, ⟨['f', 'o', 'o', '(', '1', ',', ' ', '2', ')'], 3, [⟨0, 3, Tok.FNCT, "foo"⟩]⟩) := rfl

/-- Scanner fact for input "foo(1, 2)". -/
theorem tk_i_1 : tokenAt ⟨['f', 'o', 'o', '(', '1', ',', ' ', '2', ')'], 3, [⟨0, 3, Tok.FNCT, "foo"⟩]⟩ 0 [Tok.LPAR, Tok.COLOR, Tok.QSTR, Tok.SIGN, Tok.ADD, Tok.NUM, Tok.FNCT, Tok.STR, Tok.VAR, Tok.ID] = .ok (⟨0, 3, Tok.FNCT, "foo"⟩, ⟨['f', 'o', 'o', '(', '1', ',', ' ', '2', ')'], 3, [⟨0, 3, Tok.FNCT, "foo"⟩]⟩) := rfl

/-- Scanner fact for input "foo(1, 2)". -/
theorem tk_i_2 : tokenAt ⟨['f', 'o', 'o', '(', '1', ',', ' ', '2', ')'], 3, [⟨0, 3, Tok.FNCT, "foo"⟩]⟩ 0 [Tok.LPAR, Tok.COLOR, Tok.QSTR, Tok.NUM, Tok.FNCT, Tok.STR, Tok.VAR, Tok.ID] = .ok (⟨0, 3, Tok.FNCT, "foo"⟩, ⟨['f', 'o', 'o', '(', '1', ',', ' ', '2', ')'], 3, [⟨0, 3, Tok.FNCT, "foo"⟩]⟩) := rfl

/-- Scanner fact for input "foo(1, 2)". -/
theorem tk_i_3 : tokenAt ⟨['f', 'o', 'o', '(', '1', ',', ' ', '2', ')'], 3, [⟨0, 3, Tok.FNCT, "foo"⟩]⟩ 0 [Tok.FNCT] = .ok (⟨0, 3, Tok.FNCT, "foo"⟩, ⟨['f', 'o', 'o', '(', '1', ',', ' ', '2', ')'], 3, [⟨0, 3, Tok.FNCT, "foo"⟩]⟩) := rfl

/-- Scanner fact for input "foo(1, 2)". -/
theorem tk_i_4 : tokenAt ⟨['f', 'o', 'o', '(', '1', ',', ' ', '2', ')'], 3, [⟨0, 3, Tok.FNCT, "foo"⟩]⟩ 1 [Tok.LPAR] = .ok (⟨3, 4, Tok.LPAR, "("⟩, ⟨['f', 'o', 'o', '(', '1', ',', ' ', '2', ')'], 4, [⟨0, 3, Tok.FNCT, "foo"⟩, ⟨3, 4, Tok.LPAR, "("⟩]⟩) := rfl

/-- Scanner fact for input "foo(1, 2)". -/
theorem tk_i_5 : tokenAt ⟨['f', 'o', 'o', '(', '1', ',', ' ', '2', ')'], 4, [⟨0, 3, Tok.FNCT, "foo"⟩, ⟨3, 4, Tok.LPAR, "("⟩]⟩ 2 [Tok.LPAR, Tok.COLOR, Tok.QSTR, Tok.SIGN, Tok.NOT, Tok.ADD, Tok.NUM, Tok.FNCT, Tok.STR, Tok.VAR, Tok.RPAR, Tok.ID] = .ok (⟨4, 5, Tok.NUM, "1"⟩, ⟨['f', 'o', 'o', '(', '1', ',', ' ', '2', ')'], 5, [⟨0, 3, Tok.FNCT, "foo"⟩, ⟨3, 4, Tok.LPAR, "("⟩, ⟨4, 5, Tok.NUM, "1"⟩]⟩) := rfl

/-- Scanner fact for input "foo(1, 2)". -/
theorem tk_i_6 : tokenAt ⟨['f', 'o', 'o', '(', '1', ',', ' ', '2', ')'], 5, [⟨0, 3, Tok.FNCT, "foo"⟩, ⟨3, 4, Tok.LPAR, "("⟩, ⟨4, 5, Tok.NUM, "1"⟩]⟩ 2 [Tok.LPAR, Tok.COLOR, Tok.QSTR, Tok.SIGN, Tok.NOT, Tok.ADD, Tok.NUM, Tok.FNCT, Tok.STR, Tok.VAR, Tok.ID] = .ok (⟨4, 5, Tok.NUM, "1"⟩, ⟨['f', 'o', 'o', '(', '1', ',', ' ', '2', ')'], 5, [⟨0, 3, Tok.FNCT, "foo"⟩, ⟨3, 4, Tok.LPAR, "("⟩, ⟨4, 5, Tok.NUM, "1"⟩]⟩) := rfl

/-- Scanner fact for input "foo(1, 2)". -/
theorem tk_i_7 : tokenAt ⟨['f', 'o', 'o', '(', '1', ',', ' ', '2', ')'], 5, [⟨0, 3, Tok.FNCT, "foo"⟩, ⟨3, 4, Tok.LPAR, "("⟩, ⟨4, 5, Tok.NUM, "1"⟩]⟩ 2 [Tok.LPAR, Tok.COLOR, Tok.QSTR, Tok.SIGN, Tok.VAR, Tok.ADD, Tok.NUM, Tok.FNCT, Tok.STR, Tok.NOT, Tok.ID] = .ok (⟨4, 5, Tok.NUM, "1"⟩, ⟨['f', 'o', 'o', '(', '1', ',', ' ', '2', ')'], 5, [⟨0, 3, Tok.FNCT, "foo"⟩, ⟨3, 4, Tok.LPAR, "("⟩, ⟨4, 5, Tok.NUM, "1"⟩]⟩) := rfl

/-- Scanner fact for input "foo(1, 2)". -/
theorem tk_i_8 : tokenAt ⟨['f', 'o', 'o', '(', '1', ',', ' ', '2', ')'], 5, [⟨0, 3, Tok.FNCT, "foo"⟩, ⟨3, 4, Tok.LPAR, "("⟩, ⟨4, 5, Tok.NUM, "1"⟩]⟩ 2 [Tok.LPAR, Tok.COLOR, Tok.QSTR, Tok.SIGN, Tok.ADD, Tok.NUM, Tok.FNCT, Tok.STR, Tok.VAR, Tok.ID] = .ok (⟨4, 5, Tok.NUM, "1"⟩, ⟨['f', 'o', 'o', '(', '1', ',', ' ', '2', ')'], 5, [⟨0, 3, Tok.FNCT, "foo"⟩, ⟨3, 4, Tok.LPAR, "("⟩, ⟨4, 5, Tok.NUM, "1"⟩]⟩) := rfl

/-- Scanner fact for input "foo(1, 2)". -/
theorem tk_i_9 : tokenAt ⟨['f', 'o', 'o', '(', '1', ',', ' ', '2', ')'], 5, [⟨0, 3, Tok.FNCT, "foo"⟩, ⟨3, 4, Tok.LPAR, "("⟩, ⟨4, 5, Tok.NUM, "1"⟩]⟩ 2 [Tok.LPAR, Tok.COLOR, Tok.QSTR, Tok.NUM, Tok.FNCT, Tok.STR, Tok.VAR, Tok.ID] = .ok (⟨4, 5, Tok.NUM, "1"⟩, ⟨['f', 'o', 'o', '(', '1', ',', ' ', '2', ')'], 5, [⟨0, 3, Tok.FNCT, "foo"⟩, ⟨3, 4, Tok.LPAR, "("⟩, ⟨4, 5, Tok.NUM, "1"⟩]⟩) := rfl

/-- Scanner fact for input "foo(1, 2)". -/
theorem tk_i_10 : tokenAt ⟨['f', 'o', 'o', '(', '1', ',', ' ', '2', ')'], 5, [⟨0, 3, Tok.FNCT, "foo"⟩, ⟨3, 4, Tok.LPAR, "("⟩, ⟨4, 5, Tok.NUM, "1"⟩]⟩ 2 [Tok.NUM] = .ok (⟨4, 5, Tok.NUM, "1"⟩, ⟨['f', 'o', 'o', '(', '1', ',', ' ', '2', ')'], 5, [⟨0, 3, Tok.FNCT, "foo"⟩, ⟨3, 4, Tok.LPAR, "("⟩, ⟨4, 5, Tok.NUM, "1"⟩]⟩) := rfl

/-- Scanner fact for input "foo(1, 2)". -/
theorem tk_i_11 : tokenAt ⟨['f', 'o', 'o', '(', '1', ',', ' ', '2', ')'], 5, [⟨0, 3, Tok.FNCT, "foo"⟩, ⟨3, 4, Tok.LPAR, "("⟩, ⟨4, 5, Tok.NUM, "1"⟩]⟩ 3 [Tok.LPAR, Tok.SUB, Tok.QSTR, Tok.RPAR, Tok.VAR, Tok.MUL, Tok.DIV, Tok.LE, Tok.COLOR, Tok.NE, Tok.LT, Tok.NUM, Tok.COMMA, Tok.GT, Tok.END, Tok.SIGN, Tok.GE, Tok.FNCT, Tok.STR, Tok.UNITS, Tok.EQ, Tok.ID, Tok.AND, Tok.ADD, Tok.NOT, Tok.OR] = .ok (⟨5, 6, Tok.COMMA, ","⟩, ⟨['f', 'o', 'o', '(', '1', ',', ' ', '2', ')'], 6, [⟨0, 3, Tok.FNCT, "foo"⟩, ⟨3, 4, Tok.LPAR, "("⟩, ⟨4, 5, Tok.NUM, "1"⟩, ⟨5, 6, Tok.COMMA, ","⟩]⟩) := rfl

/-- Scanner fact for input "foo(1, 2)". -/
theorem tk_i_12 : tokenAt ⟨['f', 'o', 'o', '(', '1', ',', ' ', '2', ')'], 6, [⟨0, 3, Tok.FNCT, "foo"⟩, ⟨3, 4, Tok.LPAR, "("⟩, ⟨4, 5, Tok.NUM, "1"⟩, ⟨5, 6, Tok.COMMA, ","⟩]⟩ 3 [Tok.LPAR, Tok.SUB, Tok.QSTR, Tok.RPAR, Tok.MUL, Tok.DIV, Tok.LE, Tok.COLOR, Tok.NE, Tok.LT, Tok.NUM, Tok.COMMA, Tok.GT, Tok.END, Tok.SIGN, Tok.GE, Tok.FNCT, Tok.STR, Tok.VAR, Tok.EQ, Tok.ID, Tok.AND, Tok.ADD, Tok.NOT, Tok.OR] = .ok (⟨5, 6, Tok.COMMA, ","⟩, ⟨['f', 'o', 'o', '(', '1', ',', ' ', '2', ')'], 6, [⟨0, 3, Tok.FNCT, "foo"⟩, ⟨3, 4, Tok.LPAR, "("⟩, ⟨4, 5, Tok.NUM, "1"⟩, ⟨5, 6, Tok.COMMA, ","⟩]⟩) := rfl

/-- Scanner fact for input "foo(1, 2)". -/
theorem tk_i_13 : tokenAt ⟨['f', 'o', 'o', '(', '1', ',', ' ', '2', ')'], 6, [⟨0, 3, Tok.FNCT, "foo"⟩, ⟨3, 4, Tok.LPAR, "("⟩, ⟨4, 5, Tok.NUM, "1"⟩, ⟨5, 6, Tok.COMMA, ","⟩]⟩ 3 [Tok.LPAR, Tok.SUB, Tok.QSTR, Tok.RPAR, Tok.LE, Tok.COLOR, Tok.NE, Tok.LT, Tok.NUM, Tok.COMMA, Tok.GT, Tok.END, Tok.SIGN, Tok.GE, Tok.FNCT, Tok.STR, Tok.VAR, Tok.EQ, Tok.ID, Tok.AND, Tok.ADD, Tok.NOT, Tok.OR] = .ok (⟨5, 6, Tok.COMMA, ","⟩, ⟨['f', 'o', 'o', '(', '1', ',', ' ', '2', ')'], 6, [⟨0, 3, Tok.FNCT, "foo"⟩, ⟨3, 4, Tok.LPAR, "("⟩, ⟨4, 5, Tok.NUM, "1"⟩, ⟨5, 6, Tok.COMMA, ","⟩]⟩) := rfl

/-- Scanner fact for input "foo(1, 2)". -/
theorem tk_i_14 : tokenAt ⟨['f', 'o', 'o', '(', '1', ',', ' ', '2', ')'], 6, [⟨0, 3, Tok.FNCT, "foo"⟩, ⟨3, 4, Tok.LPAR, "("⟩, ⟨4, 5, Tok.NUM, "1"⟩, ⟨5, 6, Tok.COMMA, ","⟩]⟩ 3 [Tok.LPAR, Tok.QSTR, Tok.RPAR, Tok.LE, Tok.COLOR, Tok.NE, Tok.LT, Tok.NUM, Tok.COMMA, Tok.GT, Tok.END, Tok.SIGN, Tok.ADD, Tok.FNCT, Tok.STR, Tok.VAR, Tok.EQ, Tok.ID, Tok.AND, Tok.GE, Tok.NOT, Tok.OR] = .ok (⟨5, 6, Tok.COMMA, ","⟩, ⟨['f', 'o', 'o', '(', '1', ',', ' ', '2', ')'], 6, [⟨0, 3, Tok.FNCT, "foo"⟩, ⟨3, 4, Tok.LPAR, "("⟩, ⟨4, 5, Tok.NUM, "1"⟩, ⟨5, 6, Tok.COMMA, ","⟩]⟩) := rfl

/-- Scanner fact for input "foo(1, 2)". -/
theorem tk_i_15 : tokenAt ⟨['f', 'o', 'o', '(', '1', ',', ' ', '2', ')'], 6, [⟨0, 3, Tok.FNCT, "foo"⟩, ⟨3, 4, Tok.LPAR, "("⟩, ⟨4, 5, Tok.NUM, "1"⟩, ⟨5, 6, Tok.COMMA, ","⟩]⟩ 3 [Tok.AND, Tok.LPAR, Tok.END, Tok.COLOR, Tok.QSTR, Tok.SIGN, Tok.VAR, Tok.ADD, Tok.NUM, Tok.COMMA, Tok.FNCT, Tok.STR, Tok.NOT, Tok.ID, Tok.RPAR, Tok.OR] = .ok (⟨5, 6, Tok.COMMA, ","⟩, ⟨['f', 'o', 'o', '(', '1', ',', ' ', '2', ')'], 6, [⟨0, 3, Tok.FNCT, "foo"⟩, ⟨3, 4, Tok.LPAR, "("⟩, ⟨4, 5, Tok.NUM, "1"⟩, ⟨5, 6, Tok.COMMA, ","⟩]⟩) := rfl

/-- Scanner fact for input "foo(1, 2)". -/
theorem tk_i_16 : tokenAt ⟨['f', 'o', 'o', '(', '1', ',', ' ', '2', ')'], 6, [⟨0, 3, Tok.FNCT, "foo"⟩, ⟨3, 4, Tok.LPAR, "("⟩, ⟨4, 5, Tok.NUM, "1"⟩, ⟨5, 6, Tok.COMMA, ","⟩]⟩ 3 [Tok.LPAR, Tok.END, Tok.COLOR, Tok.QSTR, Tok.RPAR, Tok.VAR, Tok.ADD, Tok.NUM, Tok.COMMA, Tok.FNCT, Tok.STR, Tok.NOT, Tok.ID, Tok.SIGN, Tok.OR] = .ok (⟨5, 6, Tok.COMMA, ","⟩, ⟨['f', 'o', 'o', '(', '1', ',', ' ', '2', ')'], 6, [⟨0, 3, Tok.FNCT, "foo"⟩, ⟨3, 4, Tok.LPAR, "("⟩, ⟨4, 5, Tok.NUM, "1"⟩, ⟨5, 6, Tok.COMMA, ","⟩]⟩) := rfl

/-- Scanner fact for input "foo(1, 2)". -/
theorem tk_i_17 : tokenAt ⟨['f', 'o', 'o', '(', '1', ',', ' ', '2', ')'], 6, [⟨0, 3, Tok.FNCT, "foo"⟩, ⟨3, 4, Tok.LPAR, "("⟩, ⟨4, 5, Tok.NUM, "1"⟩, ⟨5, 6, Tok.COMMA, ","⟩]⟩ 3 [Tok.LPAR, Tok.END, Tok.COLOR, Tok.QSTR, Tok.RPAR, Tok.VAR, Tok.ADD, Tok.NUM, Tok.COMMA, Tok.FNCT, Tok.STR, Tok.NOT, Tok.SIGN, Tok.ID] = .ok (⟨5, 6, Tok.COMMA, ","⟩, ⟨['f', 'o', 'o', '(', '1', ',', ' ', '2', ')'], 6, [⟨0, 3, Tok.FNCT, "foo"⟩, ⟨3, 4, Tok.LPAR, "("⟩, ⟨4, 5, Tok.NUM, "1"⟩, ⟨5, 6, Tok.COMMA, ","⟩]⟩) := rfl

/-- Scanner fact for input "foo(1, 2)". -/
theorem tk_i_18 : tokenAt ⟨['f', 'o', 'o', '(', '1', ',', ' ', '2', ')'], 6, [⟨0, 3, Tok.FNCT, "foo"⟩, ⟨3, 4, Tok.LPAR, "("⟩, ⟨4, 5, Tok.NUM, "1"⟩, ⟨5, 6, Tok.COMMA, ","⟩]⟩ 3 [Tok.COMMA, Tok.RPAR] = .ok (⟨5, 6, Tok.COMMA, ","⟩, ⟨['f', 'o', 'o', '(', '1', ',', ' ', '2', ')'], 6, [⟨0, 3, Tok.FNCT, "foo"⟩, ⟨3, 4, Tok.LPAR, "("⟩, ⟨4, 5, Tok.NUM, "1"⟩, ⟨5, 6, Tok.COMMA, ","⟩]⟩) := rfl

/-- Scanner fact for input "foo(1, 2)". -/
theorem tk_i_19 : tokenAt ⟨['f', 'o', 'o', '(', '1', ',', ' ', '2', ')'], 6, [⟨0, 3, Tok.FNCT, "foo"⟩, ⟨3, 4, Tok.LPAR, "("⟩, ⟨4, 5, Tok.NUM, "1"⟩, ⟨5, 6, Tok.COMMA, ","⟩]⟩ 3 [Tok.COMMA] = .ok (⟨5, 6, Tok.COMMA, ","⟩, ⟨['f', 'o', 'o', '(', '1', ',', ' ', '2', ')'], 6, [⟨0, 3, Tok.FNCT, "foo"⟩, ⟨3, 4, Tok.LPAR, "("⟩, ⟨4, 5, Tok.NUM, "1"⟩, ⟨5, 6, Tok.COMMA, ","⟩]⟩) := rfl

/-- Scanner fact for input "foo(1, 2)". -/
theorem tk_i_20 : tokenAt ⟨['f', 'o', 'o', '(', '1', ',', ' ', '2', ')'], 6, [⟨0, 3, Tok.FNCT, "foo"⟩, ⟨3, 4, Tok.LPAR, "("⟩, ⟨4, 5, Tok.NUM, "1"⟩, ⟨5, 6, Tok.COMMA, ","⟩]⟩ 4 [Tok.LPAR, Tok.COLOR, Tok.QSTR, Tok.SIGN, Tok.NOT, Tok.ADD, Tok.NUM, Tok.FNCT, Tok.STR, Tok.VAR, Tok.ID] = .ok (⟨7, 8, Tok.NUM, "2"⟩, ⟨['f', 'o', 'o', '(', '1', ',', ' ', '2', ')'], 8, [⟨0, 3, Tok.FNCT, "foo"⟩, ⟨3, 4, Tok.LPAR, "("⟩, ⟨4, 5, Tok.NUM, "1"⟩, ⟨5, 6, Tok.COMMA, ","⟩, ⟨7, 8, Tok.NUM, "2"⟩]⟩) := rfl

/-- Scanner fact for input "foo(1, 2)". -/
theorem tk_i_21 : tokenAt ⟨['f', 'o', 'o', '(', '1', ',', ' ', '2', ')'], 8, [⟨0, 3, Tok.FNCT, "foo"⟩, ⟨3, 4, Tok.LPAR, "("⟩, ⟨4, 5, Tok.NUM, "1"⟩, ⟨5, 6, Tok.COMMA, ","⟩, ⟨7, 8, Tok.NUM, "2"⟩]⟩ 4 [Tok.LPAR, Tok.COLOR, Tok.QSTR, Tok.SIGN, Tok.VAR, Tok.ADD, Tok.NUM, Tok.FNCT, Tok.STR, Tok.NOT, Tok.ID] = .ok (⟨7, 8, Tok.NUM, "2"⟩, ⟨['f', 'o', 'o', '(', '1', ',', ' ', '2', ')'], 8, [⟨0, 3, Tok.FNCT, "foo"⟩, ⟨3, 4, Tok.LPAR, "("⟩, ⟨4, 5, Tok.NUM, "1"⟩, ⟨5, 6, Tok.COMMA, ","⟩, ⟨7, 8, Tok.NUM, "2"⟩]⟩) := rfl

/-- Scanner fact for input "foo(1, 2)". -/
theorem tk_i_22 : tokenAt ⟨['f', 'o', 'o', '(', '1', ',', ' ', '2', ')'], 8, [⟨0, 3, Tok.FNCT, "foo"⟩, ⟨3, 4, Tok.LPAR, "("⟩, ⟨4, 5, Tok.NUM, "1"⟩, ⟨5, 6, Tok.COMMA, ","⟩, ⟨7, 8, Tok.NUM, "2"⟩]⟩ 4 [Tok.LPAR, Tok.COLOR, Tok.QSTR, Tok.SIGN, Tok.ADD, Tok.NUM, Tok.FNCT, Tok.STR, Tok.VAR, Tok.ID] = .ok (⟨7, 8, Tok.NUM, "2"⟩, ⟨['f', 'o', 'o', '(', '1', ',', ' ', '2', ')'], 8, [⟨0, 3, Tok.FNCT, "foo"⟩, ⟨3, 4, Tok.LPAR, "("⟩, ⟨4, 5, Tok.NUM, "1"⟩, ⟨5, 6, Tok.COMMA, ","⟩, ⟨7, 8, Tok.NUM, "2"⟩]⟩) := rfl

/-- Scanner fact for input "foo(1, 2)". -/
theorem tk_i_23 : tokenAt ⟨['f', 'o', 'o', '(', '1', ',', ' ', '2', ')'], 8, [⟨0, 3, Tok.FNCT, "foo"⟩, ⟨3, 4, Tok.LPAR, "("⟩, ⟨4, 5, Tok.NUM, "1"⟩, ⟨5, 6, Tok.COMMA, ","⟩, ⟨7, 8, Tok.NUM, "2"⟩]⟩ 4 [Tok.LPAR, Tok.COLOR, Tok.QSTR, Tok.NUM, Tok.FNCT, Tok.STR, Tok.VAR, Tok.ID] = .ok (⟨7, 8, Tok.NUM, "2"⟩, ⟨['f', 'o', 'o', '(', '1', ',', ' ', '2', ')'], 8, [⟨0, 3, Tok.FNCT, "foo"⟩, ⟨3, 4, Tok.LPAR, "("⟩, ⟨4, 5, Tok.NUM, "1"⟩, ⟨5, 6, Tok.COMMA, ","⟩, ⟨7, 8, Tok.NUM, "2"⟩]⟩) := rfl

/-- Scanner fact for input "foo(1, 2)". -/
theorem tk_i_24 : tokenAt ⟨['f', 'o', 'o', '(', '1', ',', ' ', '2', ')'], 8, [⟨0, 3, Tok.FNCT, "foo"⟩, ⟨3, 4, Tok.LPAR, "("⟩, ⟨4, 5, Tok.NUM, "1"⟩, ⟨5, 6, Tok.COMMA, ","⟩, ⟨7, 8, Tok.NUM, "2"⟩]⟩ 4 [Tok.NUM] = .ok (⟨7, 8, Tok.NUM, "2"⟩, ⟨['f', 'o', 'o', '(', '1', ',', ' ', '2', ')'], 8, [⟨0, 3, Tok.FNCT, "foo"⟩, ⟨3, 4, Tok.LPAR, "("⟩, ⟨4, 5, Tok.NUM, "1"⟩, ⟨5, 6, Tok.COMMA, ","⟩, ⟨7, 8, Tok.NUM, "2"⟩]⟩) := rfl

/-- Scanner fact for input "foo(1, 2)". -/
theorem tk_i_25 : tokenAt ⟨['f', 'o', 'o', '(', '1', ',', ' ', '2', ')'], 8, [⟨0, 3, Tok.FNCT, "foo"⟩, ⟨3, 4, Tok.LPAR, "("⟩, ⟨4, 5, Tok.NUM, "1"⟩, ⟨5, 6, Tok.COMMA, ","⟩, ⟨7, 8, Tok.NUM, "2"⟩]⟩ 5 [Tok.LPAR, Tok.SUB, Tok.QSTR, Tok.RPAR, Tok.VAR, Tok.MUL, Tok.DIV, Tok.LE, Tok.COLOR, Tok.NE, Tok.LT, Tok.NUM, Tok.COMMA, Tok.GT, Tok.END, Tok.SIGN, Tok.GE, Tok.FNCT, Tok.STR, Tok.UNITS, Tok.EQ, Tok.ID, Tok.AND, Tok.ADD, Tok.NOT, Tok.OR] = .ok (⟨8, 9, Tok.RPAR, ")"⟩, ⟨['f', 'o', 'o', '(', '1', ',', ' ', '2', ')'], 9, [⟨0, 3, Tok.FNCT, "foo"⟩, ⟨3, 4, Tok.LPAR, "("⟩, ⟨4, 5, Tok.NUM, "1"⟩, ⟨5, 6, Tok.COMMA, ","⟩, ⟨7, 8, Tok.NUM, "2"⟩, ⟨8, 9, Tok.RPAR, ")"⟩]⟩) := rfl

/-- Scanner fact for input "foo(1, 2)". -/
theorem tk_i_26 : tokenAt ⟨['f', 'o', 'o', '(', '1', ',', ' ', '2', ')'], 9, [⟨0, 3, Tok.FNCT, "foo"⟩, ⟨3, 4, Tok.LPAR, "("⟩, ⟨4, 5, Tok.NUM, "1"⟩, ⟨5, 6, Tok.COMMA, ","⟩, ⟨7, 8, Tok.NUM, "2"⟩, ⟨8, 9, Tok.RPAR, ")"⟩]⟩ 5 [Tok.LPAR, Tok.SUB, Tok.QSTR, Tok.RPAR, Tok.MUL, Tok.DIV, Tok.LE, Tok.COLOR, Tok.NE, Tok.LT, Tok.NUM, Tok.COMMA, Tok.GT, Tok.END, Tok.SIGN, Tok.GE, Tok.FNCT, Tok.STR, Tok.VAR, Tok.EQ, Tok.ID, Tok.AND, Tok.ADD, Tok.NOT, Tok.OR] = .ok (⟨8, 9, Tok.RPAR, ")"⟩, ⟨['f', 'o', 'o', '(', '1', ',', ' ', '2', ')'], 9, [⟨0, 3, Tok.FNCT, "foo"⟩, ⟨3, 4, Tok.LPAR, "("⟩, ⟨4, 5, Tok.NUM, "1"⟩, ⟨5, 6, Tok.COMMA, ","⟩, ⟨7, 8, Tok.NUM, "2"⟩, ⟨8, 9, Tok.RPAR, ")"⟩]⟩) := rfl

/-- Scanner fact for input "foo(1, 2)". -/
theorem tk_i_27 : tokenAt ⟨['f', 'o', 'o', '(', '1', ',', ' ', '2', ')'], 9, [⟨0, 3, Tok.FNCT, "foo"⟩, ⟨3, 4, Tok.LPAR, "("⟩, ⟨4, 5, Tok.NUM, "1"⟩, ⟨5, 6, Tok.COMMA, ","⟩, ⟨7, 8, Tok.NUM, "2"⟩, ⟨8, 9, Tok.RPAR, ")"⟩]⟩ 5 [Tok.LPAR, Tok.SUB, Tok.QSTR, Tok.RPAR, Tok.LE, Tok.COLOR, Tok.NE, Tok.LT, Tok.NUM, Tok.COMMA, Tok.GT, Tok.END, Tok.SIGN, Tok.GE, Tok.FNCT, Tok.STR, Tok.VAR, Tok.EQ, Tok.ID, Tok.AND, Tok.ADD, Tok.NOT, Tok.OR] = .ok (⟨8, 9, Tok.RPAR, ")"⟩, ⟨['f', 'o', 'o', '(', '1', ',', ' ', '2', ')'], 9, [⟨0, 3, Tok.FNCT, "foo"⟩, ⟨3, 4, Tok.LPAR, "("⟩, ⟨4, 5, Tok.NUM, "1"⟩, ⟨5, 6, Tok.COMMA, ","⟩, ⟨7, 8, Tok.NUM, "2"⟩, ⟨8, 9, Tok.RPAR, ")"⟩]⟩) := rfl

/-- Scanner fact for input "foo(1, 2)". -/
theorem tk_i_28 : tokenAt ⟨['f', 'o', 'o', '(', '1', ',', ' ', '2', ')'], 9, [⟨0, 3, Tok.FNCT, "foo"⟩, ⟨3, 4, Tok.LPAR, "("⟩, ⟨4, 5, Tok.NUM, "1"⟩, ⟨5, 6, Tok.COMMA, ","⟩, ⟨7, 8, Tok.NUM, "2"⟩, ⟨8, 9, Tok.RPAR, ")"⟩]⟩ 5 [Tok.LPAR, Tok.QSTR, Tok.RPAR, Tok.LE, Tok.COLOR, Tok.NE, Tok.LT, Tok.NUM, Tok.COMMA, Tok.GT, Tok.END, Tok.SIGN, Tok.ADD, Tok.FNCT, Tok.STR, Tok.VAR, Tok.EQ, Tok.ID, Tok.AND, Tok.GE, Tok.NOT, Tok.OR] = .ok (⟨8, 9, Tok.RPAR, ")"⟩, ⟨['f', 'o', 'o', '(', '1', ',', ' ', '2', ')'], 9, [⟨0, 3, Tok.FNCT, "foo"⟩, ⟨3, 4, Tok.LPAR, "("⟩, ⟨4, 5, Tok.NUM, "1"⟩, ⟨5, 6, Tok.COMMA, ","⟩, ⟨7, 8, Tok.NUM, "2"⟩, ⟨8, 9, Tok.RPAR, ")"⟩]⟩) := rfl

/-- Scanner fact for input "foo(1, 2)". -/
theorem tk_i_29 : tokenAt ⟨['f', 'o', 'o', '(', '1', ',', ' ', '2', ')'], 9, [⟨0, 3, Tok.FNCT, "foo"⟩, ⟨3, 4, Tok.LPAR, "("⟩, ⟨4, 5, Tok.NUM, "1"⟩, ⟨5, 6, Tok.COMMA, ","⟩, ⟨7, 8, Tok.NUM, "2"⟩, ⟨8, 9, Tok.RPAR, ")"⟩]⟩ 5 [Tok.AND, Tok.LPAR, Tok.END, Tok.COLOR, Tok.QSTR, Tok.SIGN, Tok.VAR, Tok.ADD, Tok.NUM, Tok.COMMA, Tok.FNCT, Tok.STR, Tok.NOT, Tok.ID, Tok.RPAR, Tok.OR] = .ok (⟨8, 9, Tok.RPAR, ")"⟩, ⟨['f', 'o', 'o', '(', '1', ',', ' ', '2', ')'], 9, [⟨0, 3, Tok.FNCT, "foo"⟩, ⟨3, 4, Tok.LPAR, "("⟩, ⟨4, 5, Tok.NUM, "1"⟩, ⟨5, 6, Tok.COMMA, ","⟩, ⟨7, 8, Tok.NUM, "2"⟩, ⟨8, 9, Tok.RPAR, ")"⟩]⟩) := rfl

/-- Scanner fact for input "foo(1, 2)". -/
theorem tk_i_30 : tokenAt ⟨['f', 'o', 'o', '(', '1', ',', ' ', '2', ')'], 9, [⟨0, 3, Tok.FNCT, "foo"⟩, ⟨3, 4, Tok.LPAR, "("⟩, ⟨4, 5, Tok.NUM, "1"⟩, ⟨5, 6, Tok.COMMA, ","⟩, ⟨7, 8, Tok.NUM, "2"⟩, ⟨8, 9, Tok.RPAR, ")"⟩]⟩ 5 [Tok.LPAR, Tok.END, Tok.COLOR, Tok.QSTR, Tok.RPAR, Tok.VAR, Tok.ADD, Tok.NUM, Tok.COMMA, Tok.FNCT, Tok.STR, Tok.NOT, Tok.ID, Tok.SIGN, Tok.OR] = .ok (⟨8, 9, Tok.RPAR, ")"⟩, ⟨['f', 'o', 'o', '(', '1', ',', ' ', '2', ')'], 9, [⟨0, 3, Tok.FNCT, "foo"⟩, ⟨3, 4, Tok.LPAR, "("⟩, ⟨4, 5, Tok.NUM, "1"⟩, ⟨5, 6, Tok.COMMA, ","⟩, ⟨7, 8, Tok.NUM, "2"⟩, ⟨8, 9, Tok.RPAR, ")"⟩]⟩) := rfl

/-- Scanner fact for input "foo(1, 2)". -/
theorem tk_i_31 : tokenAt ⟨['f', 'o', 'o', '(', '1', ',', ' ', '2', ')'], 9, [⟨0, 3, Tok.FNCT, "foo"⟩, ⟨3, 4, Tok.LPAR, "("⟩, ⟨4, 5, Tok.NUM, "1"⟩, ⟨5, 6, Tok.COMMA, ","⟩, ⟨7, 8, Tok.NUM, "2"⟩, ⟨8, 9, Tok.RPAR, ")"⟩]⟩ 5 [Tok.LPAR, Tok.END, Tok.COLOR, Tok.QSTR, Tok.RPAR, Tok.VAR, Tok.ADD, Tok.NUM, Tok.COMMA, Tok.FNCT, Tok.STR, Tok.NOT, Tok.SIGN, Tok.ID] = .ok (⟨8, 9, Tok.RPAR, ")"⟩, ⟨['f', 'o', 'o', '(', '1', ',', ' ', '2', ')'], 9, [⟨0, 3, Tok.FNCT, "foo"⟩, ⟨3, 4, Tok.LPAR, "("⟩, ⟨4, 5, Tok.NUM, "1"⟩, ⟨5, 6, Tok.COMMA, ","⟩, ⟨7, 8, Tok.NUM, "2"⟩, ⟨8, 9, Tok.RPAR, ")"⟩]⟩) := rfl

/-- Scanner fact for input "foo(1, 2)". -/
theorem tk_i_32 : tokenAt ⟨['f', 'o', 'o', '(', '1', ',', ' ', '2', ')'], 9, [⟨0, 3, Tok.FNCT, "foo"⟩, ⟨3, 4, Tok.LPAR, "("⟩, ⟨4, 5, Tok.NUM, "1"⟩, ⟨5, 6, Tok.COMMA, ","⟩, ⟨7, 8, Tok.NUM, "2"⟩, ⟨8, 9, Tok.RPAR, ")"⟩]⟩ 5 [Tok.COMMA, Tok.RPAR] = .ok (⟨8, 9, Tok.RPAR, ")"⟩, ⟨['f', 'o', 'o', '(', '1', ',', ' ', '2', ')'], 9, [⟨0, 3, Tok.FNCT, "foo"⟩, ⟨3, 4, Tok.LPAR, "("⟩, ⟨4, 5, Tok.NUM, "1"⟩, ⟨5, 6, Tok.COMMA, ","⟩, ⟨7, 8, Tok.NUM, "2"⟩, ⟨8, 9, Tok.RPAR, ")"⟩]⟩) := rfl

/-- Scanner fact for input "foo(1, 2)". -/
theorem tk_i_33 : tokenAt ⟨['f', 'o', 'o', '(', '1', ',', ' ', '2', ')'], 9, [⟨0, 3, Tok.FNCT, "foo"⟩, ⟨3, 4, Tok.LPAR, "("⟩, ⟨4, 5, Tok.NUM, "1"⟩, ⟨5, 6, Tok.COMMA, ","⟩, ⟨7, 8, Tok.NUM, "2"⟩, ⟨8, 9, Tok.RPAR, ")"⟩]⟩ 5 [Tok.RPAR] = .ok (⟨8, 9, Tok.RPAR, ")"⟩, ⟨['f', 'o', 'o', '(', '1', ',', ' ', '2', ')'], 9, [⟨0, 3, Tok.FNCT, "foo"⟩, ⟨3, 4, Tok.LPAR, "("⟩, ⟨4, 5, Tok.NUM, "1"⟩, ⟨5, 6, Tok.COMMA, ","⟩, ⟨7, 8, Tok.NUM, "2"⟩, ⟨8, 9, Tok.RPAR, ")"⟩]⟩) := rfl

/-- Scanner fact for input "foo(1, 2)". -/
theorem tk_i_34 : tokenAt ⟨['f', 'o', 'o', '(', '1', ',', ' ', '2', ')'], 9, [⟨0, 3, Tok.FNCT, "foo"⟩, ⟨3, 4, Tok.LPAR, "("⟩, ⟨4, 5, Tok.NUM, "1"⟩, ⟨5, 6, Tok.COMMA, ","⟩, ⟨7, 8, Tok.NUM, "2"⟩, ⟨8, 9, Tok.RPAR, ")"⟩]⟩ 6 [Tok.LPAR, Tok.SUB, Tok.QSTR, Tok.RPAR, Tok.MUL, Tok.DIV, Tok.LE, Tok.COLOR, Tok.NE, Tok.LT, Tok.NUM, Tok.COMMA, Tok.GT, Tok.END, Tok.SIGN, Tok.GE, Tok.FNCT, Tok.STR, Tok.VAR, Tok.EQ, Tok.ID, Tok.AND, Tok.ADD, Tok.NOT, Tok.OR] = .ok (⟨9, 9, Tok.END, ""⟩, ⟨['f', 'o', 'o', '(', '1', ',', ' ', '2', ')'], 9, [⟨0, 3, Tok.FNCT, "foo"⟩, ⟨3, 4, Tok.LPAR, "("⟩, ⟨4, 5, Tok.NUM, "1"⟩, ⟨5, 6, Tok.COMMA, ","⟩, ⟨7, 8, Tok.NUM, "2"⟩, ⟨8, 9, Tok.RPAR, ")"⟩, ⟨9, 9, Tok.END, ""⟩]⟩) := rfl

/-- Scanner fact for input "foo(1, 2)". -/
theorem tk_i_35 : tokenAt ⟨['f', 'o', 'o', '(', '1', ',', ' ', '2', ')'], 9, [⟨0, 3, Tok.FNCT, "foo"⟩, ⟨3, 4, Tok.LPAR, "("⟩, ⟨4, 5, Tok.NUM, "1"⟩, ⟨5, 6, Tok.COMMA, ","⟩, ⟨7, 8, Tok.NUM, "2"⟩, ⟨8, 9, Tok.RPAR, ")"⟩, ⟨9, 9, Tok.END, ""⟩]⟩ 6 [Tok.LPAR, Tok.SUB, Tok.QSTR, Tok.RPAR, Tok.LE, Tok.COLOR, Tok.NE, Tok.LT, Tok.NUM, Tok.COMMA, Tok.GT, Tok.END, Tok.SIGN, Tok.GE, Tok.FNCT, Tok.STR, Tok.VAR, Tok.EQ, Tok.ID, Tok.AND, Tok.ADD, Tok.NOT, Tok.OR] = .ok (⟨9, 9, Tok.END, ""⟩, ⟨['f', 'o', 'o', '(', '1', ',', ' ', '2', ')'], 9, [⟨0, 3, Tok.FNCT, "foo"⟩, ⟨3, 4, Tok.LPAR, "("⟩, ⟨4, 5, Tok.NUM, "1"⟩, ⟨5, 6, Tok.COMMA, ","⟩, ⟨7, 8, Tok.NUM, "2"⟩, ⟨8, 9, Tok.RPAR, ")"⟩, ⟨9, 9, Tok.END, ""⟩]⟩) := rfl

/-- Scanner fact for input "foo(1, 2)". -/
theorem tk_i_36 : tokenAt ⟨['f', 'o', 'o', '(', '1', ',', ' ', '2', ')'], 9, [⟨0, 3, Tok.FNCT, "foo"⟩, ⟨3, 4, Tok.LPAR, "("⟩, ⟨4, 5, Tok.NUM, "1"⟩, ⟨5, 6, Tok.COMMA, ","⟩, ⟨7, 8, Tok.NUM, "2"⟩, ⟨8, 9, Tok.RPAR, ")"⟩, ⟨9, 9, Tok.END, ""⟩]⟩ 6 [Tok.LPAR, Tok.QSTR, Tok.RPAR, Tok.LE, Tok.COLOR, Tok.NE, Tok.LT, Tok.NUM, Tok.COMMA, Tok.GT, Tok.END, Tok.SIGN, Tok.ADD, Tok.FNCT, Tok.STR, Tok.VAR, Tok.EQ, Tok.ID, Tok.AND, Tok.GE, Tok.NOT, Tok.OR] = .ok (⟨9, 9, Tok.END, ""⟩, ⟨['f', 'o', 'o', '(', '1', ',', ' ', '2', ')'], 9, [⟨0, 3, Tok.FNCT, "foo"⟩, ⟨3, 4, Tok.LPAR, "("⟩, ⟨4, 5, Tok.NUM, "1"⟩, ⟨5, 6, Tok.COMMA, ","⟩, ⟨7, 8, Tok.NUM, "2"⟩, ⟨8, 9, Tok.RPAR, ")"⟩, ⟨9, 9, Tok.END, ""⟩]⟩) := rfl

/-- Scanner fact for input "foo(1, 2)". -/
theorem tk_i_37 : tokenAt ⟨['f', 'o', 'o', '(', '1', ',', ' ', '2', ')'], 9, [⟨0, 3, Tok.FNCT, "foo"⟩, ⟨3, 4, Tok.LPAR, "("⟩, ⟨4, 5, Tok.NUM, "1"⟩, ⟨5, 6, Tok.COMMA, ","⟩, ⟨7, 8, Tok.NUM, "2"⟩, ⟨8, 9, Tok.RPAR, ")"⟩, ⟨9, 9, Tok.END, ""⟩]⟩ 6 [Tok.AND, Tok.LPAR, Tok.END, Tok.COLOR, Tok.QSTR, Tok.SIGN, Tok.VAR, Tok.ADD, Tok.NUM, Tok.COMMA, Tok.FNCT, Tok.STR, Tok.NOT, Tok.ID, Tok.RPAR, Tok.OR] = .ok (⟨9, 9, Tok.END, ""⟩, ⟨['f', 'o', 'o', '(', '1', ',', ' ', '2', ')'], 9, [⟨0, 3, Tok.FNCT, "foo"⟩, ⟨3, 4, Tok.LPAR, "("⟩, ⟨4, 5, Tok.NUM, "1"⟩, ⟨5, 6, Tok.COMMA, ","⟩, ⟨7, 8, Tok.NUM, "2"⟩, ⟨8, 9, Tok.RPAR, ")"⟩, ⟨9, 9, Tok.END, ""⟩]⟩) := rfl

/-- Scanner fact for input "foo(1, 2)". -/
theorem tk_i_38 : tokenAt ⟨['f', 'o', 'o', '(', '1', ',', ' ', '2', ')'], 9, [⟨0, 3, Tok.FNCT, "foo"⟩, ⟨3, 4, Tok.LPAR, "("⟩, ⟨4, 5, Tok.NUM, "1"⟩, ⟨5, 6, Tok.COMMA, ","⟩, ⟨7, 8, Tok.NUM, "2"⟩, ⟨8, 9, Tok.RPAR, ")"⟩, ⟨9, 9, Tok.END, ""⟩]⟩ 6 [Tok.LPAR, Tok.END, Tok.COLOR, Tok.QSTR, Tok.RPAR, Tok.VAR, Tok.ADD, Tok.NUM, Tok.COMMA, Tok.FNCT, Tok.STR, Tok.NOT, Tok.ID, Tok.SIGN, Tok.OR] = .ok (⟨9, 9, Tok.END, ""⟩, ⟨['f', 'o', 'o', '(', '1', ',', ' ', '2', ')'], 9, [⟨0, 3, Tok.FNCT, "foo"⟩, ⟨3, 4, Tok.LPAR, "("⟩, ⟨4, 5, Tok.NUM, "1"⟩, ⟨5, 6, Tok.COMMA, ","⟩, ⟨7, 8, Tok.NUM, "2"⟩, ⟨8, 9, Tok.RPAR, ")"⟩, ⟨9, 9, Tok.END, ""⟩]⟩) := rfl

/-- Scanner fact for input "foo(1, 2)". -/
theorem tk_i_39 : tokenAt ⟨['f', 'o', 'o', '(', '1', ',', ' ', '2', ')'], 9, [⟨0, 3, Tok.FNCT, "foo"⟩, ⟨3, 4, Tok.LPAR, "("⟩, ⟨4, 5, Tok.NUM, "1"⟩, ⟨5, 6, Tok.COMMA, ","⟩, ⟨7, 8, Tok.NUM, "2"⟩, ⟨8, 9, Tok.RPAR, ")"⟩, ⟨9, 9, Tok.END, ""⟩]⟩ 6 [Tok.LPAR, Tok.END, Tok.COLOR, Tok.QSTR, Tok.RPAR, Tok.VAR, Tok.ADD, Tok.NUM, Tok.COMMA, Tok.FNCT, Tok.STR, Tok.NOT, Tok.SIGN, Tok.ID] = .ok (⟨9, 9, Tok.END, ""⟩, ⟨['f', 'o', 'o', '(', '1', ',', ' ', '2', ')'], 9, [⟨0, 3, Tok.FNCT, "foo"⟩, ⟨3, 4, Tok.LPAR, "("⟩, ⟨4, 5, Tok.NUM, "1"⟩, ⟨5, 6, Tok.COMMA, ","⟩, ⟨7, 8, Tok.NUM, "2"⟩, ⟨8, 9, Tok.RPAR, ")"⟩, ⟨9, 9, Tok.END, ""⟩]⟩) := rfl

/-- Scanner fact for input "foo(1, 2)". -/
theorem tk_i_40 : tokenAt ⟨['f', 'o', 'o', '(', '1', ',', ' ', '2', ')'], 9, [⟨0, 3, Tok.FNCT, "foo"⟩, ⟨3, 4, Tok.LPAR, "("⟩, ⟨4, 5, Tok.NUM, "1"⟩, ⟨5, 6, Tok.COMMA, ","⟩, ⟨7, 8, Tok.NUM, "2"⟩, ⟨8, 9, Tok.RPAR, ")"⟩, ⟨9, 9, Tok.END, ""⟩]⟩ 6 [Tok.END, Tok.COMMA, Tok.RPAR] = .ok (⟨9, 9, Tok.END, ""⟩, ⟨['f', 'o', 'o', '(', '1', ',', ' ', '2', ')'], 9, [⟨0, 3, Tok.FNCT, "foo"⟩, ⟨3, 4, Tok.LPAR, "("⟩, ⟨4, 5, Tok.NUM, "1"⟩, ⟨5, 6, Tok.COMMA, ","⟩, ⟨7, 8, Tok.NUM, "2"⟩, ⟨8, 9, Tok.RPAR, ")"⟩, ⟨9, 9, Tok.END, ""⟩]⟩) := rfl

/-- Scanner fact for input "foo(1, 2)". -/
theorem tk_i_41 : tokenAt ⟨['f', 'o', 'o', '(', '1', ',', ' ', '2', ')'], 9, [⟨0, 3, Tok.FNCT, "foo"⟩, ⟨3, 4, Tok.LPAR, "("⟩, ⟨4, 5, Tok.NUM, "1"⟩, ⟨5, 6, Tok.COMMA, ","⟩, ⟨7, 8, Tok.NUM, "2"⟩, ⟨8, 9, Tok.RPAR, ")"⟩, ⟨9, 9, Tok.END, ""⟩]⟩ 6 [Tok.END] = .ok (⟨9, 9, Tok.END, ""⟩, ⟨['f', 'o', 'o', '(', '1', ',', ' ', '2', ')'], 9, [⟨0, 3, Tok.FNCT, "foo"⟩, ⟨3, 4, Tok.LPAR, "("⟩, ⟨4, 5, Tok.NUM, "1"⟩, ⟨5, 6, Tok.COMMA, ","⟩, ⟨7, 8, Tok.NUM, "2"⟩, ⟨8, 9, Tok.RPAR, ")"⟩, ⟨9, 9, Tok.END, ""⟩]⟩) := rfl

/-- Parser step for input "foo(1, 2)". -/
theorem ps_i_0 : atomF 79 ⟨⟨['f', 'o', 'o', '(', '1', ',', ' ', '2', ')'], 5, [⟨0, 3, Tok.FNCT, "foo"⟩, ⟨3, 4, Tok.LPAR, "("⟩, ⟨4, 5, Tok.NUM, "1"⟩]⟩, 2⟩ = .ok ((.Literal (.Number ⟨1, 1⟩ [] [])), ⟨⟨['f', 'o', 'o', '(', '1', ',', ' ', '2', ')'], 6, [⟨0, 3, Tok.FNCT, "foo"⟩, ⟨3, 4, Tok.LPAR, "("⟩, ⟨4, 5, Tok.NUM, "1"⟩, ⟨5, 6, Tok.COMMA, ","⟩]⟩, 3⟩) := by
  rw [atomF]
  simp only [tk_i_10, tk_i_11, tk_i_9, pPeek, pScan, pRewind, scanRewind, peekIn, tokMem, exceptBind_ok, exceptBind_error, exceptMap_ok, exceptMap_error, exceptPure, Option.some.injEq, reduceIte, reduceDIte, reduceCtorEq, Nat.reduceAdd, Nat.reduceSub, Nat.reduceEqDiff, decide_True, decide_False, decide_eq_true_eq, ne_eq, not_false_eq_true, not_true_eq_false, List.cons_append, List.nil_append, List.append_nil, or_self, or_false, false_or, and_self, and_true, true_and, u_expr_chks, u_expr_rsts, expr_rsts, expr_slst_rsts, expr_lst_rsts, and_test_rsts, not_test_rsts, comparison_rsts, comparison_chks, a_expr_rsts, a_expr_chks, m_expr_rsts, m_expr_chks, atom_rsts, atom_rsts_post, argspec_rsts, argspec_item_rsts, argspec_item_rsts_post, sdata0, sdata1, sdata2, sdata3, sdata4, sdata5, sdata6, sdata7, sdata8, sdata9, sdata10, sdata11, sdata12, sdata13, parse_bareword, COLOR_NAMES, parseNum, digitsToNat, lowerStr, parseHexColor, hexToNat, isDigitC, isAlphaC, SassQ.add, SassQ.fromNat, mkQ, gcdQ, gcdFuel, List.find?, List.map, List.take, List.drop, List.takeWhile, List.dropWhile, List.dropLast, List.isEmpty, List.length, Option.map, Char.reduceEq, Char.reduceBEq, Char.reduceLE, Char.reduceLT, Char.reduceToNat, Char.reduceToLower, String.reduceMk, String.reduceEq, String.reduceBEq, Nat.reduceMul, Nat.reduceDiv, Nat.reduceMod, Nat.reducePow, Nat.reduceLeDiff, Nat.reduceLT, Nat.reduceGT, Int.reduceAdd, Int.reduceSub, Int.reduceMul, Int.reduceNeg, Int.reduceDiv, Int.reduceLT, Int.reduceLE, Int.reduceEq, Int.reduceBEq, Int.reduceToNat, Int.reduceAbs, Int.reducePow, Int.reduceMod, Int.reduceOfNat, Nat.cast_ofNat, Nat.cast_one, Nat.cast_zero]

/-- Parser step for input "foo(1, 2)". -/
theorem ps_i_1 : uExprF 80 ⟨⟨['f', 'o', 'o', '(', '1', ',', ' ', '2', ')'], 5, [⟨0, 3, Tok.FNCT, "foo"⟩, ⟨3, 4, Tok.LPAR, "("⟩, ⟨4, 5, Tok.NUM, "1"⟩]⟩, 2⟩ = .ok ((.Literal (.Number ⟨1, 1⟩ [] [])), ⟨⟨['f', 'o', 'o', '(', '1', ',', ' ', '2', ')'], 6, [⟨0, 3, Tok.FNCT, "foo"⟩, ⟨3, 4, Tok.LPAR, "("⟩, ⟨4, 5, Tok.NUM, "1"⟩, ⟨5, 6, Tok.COMMA, ","⟩]⟩, 3⟩) := by
  rw [uExprF]
  simp only [ps_i_0, tk_i_8, pPeek, pScan, pRewind, scanRewind, peekIn, tokMem, exceptBind_ok, exceptBind_error, exceptMap_ok, exceptMap_error, exceptPure, Option.some.injEq, reduceIte, reduceDIte, reduceCtorEq, Nat.reduceAdd, Nat.reduceSub, Nat.reduceEqDiff, decide_True, decide_False, decide_eq_true_eq, ne_eq, not_false_eq_true, not_true_eq_false, List.cons_append, List.nil_append, List.append_nil, or_self, or_false, false_or, and_self, and_true, true_and, u_expr_chks, u_expr_rsts, expr_rsts, expr_slst_rsts, expr_lst_rsts, and_test_rsts, not_test_rsts, comparison_rsts, comparison_chks, a_expr_rsts, a_expr_chks, m_expr_rsts, m_expr_chks, atom_rsts, atom_rsts_post, argspec_rsts, argspec_item_rsts, argspec_item_rsts_post, ne_eq]

/-- Parser step for input "foo(1, 2)". -/
theorem ps_i_2 : mLoopF 80 (.Literal (.Number ⟨1, 1⟩ [] [])) ⟨⟨['f', 'o', 'o', '(', '1', ',', ' ', '2', ')'], 6, [⟨0, 3, Tok.FNCT, "foo"⟩, ⟨3, 4, Tok.LPAR, "("⟩, ⟨4, 5, Tok.NUM, "1"⟩, ⟨5, 6, Tok.COMMA, ","⟩]⟩, 3⟩ = .ok ((.Literal (.Number ⟨1, 1⟩ [] [])), ⟨⟨['f', 'o', 'o', '(', '1', ',', ' ', '2', ')'], 6, [⟨0, 3, Tok.FNCT, "foo"⟩, ⟨3, 4, Tok.LPAR, "("⟩, ⟨4, 5, Tok.NUM, "1"⟩, ⟨5, 6, Tok.COMMA, ","⟩]⟩, 3⟩) := by
  rw [mLoopF]
  simp only [tk_i_12, pPeek, pScan, pRewind, scanRewind, peekIn, tokMem, exceptBind_ok, exceptBind_error, exceptMap_ok, exceptMap_error, exceptPure, Option.some.injEq, reduceIte, reduceDIte, reduceCtorEq, Nat.reduceAdd, Nat.reduceSub, Nat.reduceEqDiff, decide_True, decide_False, decide_eq_true_eq, ne_eq, not_false_eq_true, not_true_eq_false, List.cons_append, List.nil_append, List.append_nil, or_self, or_false, false_or, and_self, and_true, true_and, u_expr_chks, u_expr_rsts, expr_rsts, expr_slst_rsts, expr_lst_rsts, and_test_rsts, not_test_rsts, comparison_rsts, comparison_chks, a_expr_rsts, a_expr_chks, m_expr_rsts, m_expr_chks, atom_rsts, atom_rsts_post, argspec_rsts, argspec_item_rsts, argspec_item_rsts_post, ne_eq]

/-- Parser step for input "foo(1, 2)". -/
theorem ps_i_3 : mExprF 81 ⟨⟨['f', 'o', 'o', '(', '1', ',', ' ', '2', ')'], 5, [⟨0, 3, Tok.FNCT, "foo"⟩, ⟨3, 4, Tok.LPAR, "("⟩, ⟨4, 5, Tok.NUM, "1"⟩]⟩, 2⟩ = .ok ((.Literal (.Number ⟨1, 1⟩ [] [])), ⟨⟨['f', 'o', 'o', '(', '1', ',', ' ', '2', ')'], 6, [⟨0, 3, Tok.FNCT, "foo"⟩, ⟨3, 4, Tok.LPAR, "("⟩, ⟨4, 5, Tok.NUM, "1"⟩, ⟨5, 6, Tok.COMMA, ","⟩]⟩, 3⟩) := by
  rw [mExprF, ps_i_1]
  rw [exceptBind_ok]
  simp only [ps_i_2, pPeek, pScan, pRewind, scanRewind, peekIn, tokMem, exceptBind_ok, exceptBind_error, exceptMap_ok, exceptMap_error, exceptPure, Option.some.injEq, reduceIte, reduceDIte, reduceCtorEq, Nat.reduceAdd, Nat.reduceSub, Nat.reduceEqDiff, decide_True, decide_False, decide_eq_true_eq, ne_eq, not_false_eq_true, not_true_eq_false, List.cons_append, List.nil_append, List.append_nil, or_self, or_false, false_or, and_self, and_true, true_and, u_expr_chks, u_expr_rsts, expr_rsts, expr_slst_rsts, expr_lst_rsts, and_test_rsts, not_test_rsts, comparison_rsts, comparison_chks, a_expr_rsts, a_expr_chks, m_expr_rsts, m_expr_chks, atom_rsts, atom_rsts_post, argspec_rsts, argspec_item_rsts, argspec_item_rsts_post, ne_eq]

/-- Parser step for input "foo(1, 2)". -/
theorem ps_i_4 : aLoopF 81 (.Literal (.Number ⟨1, 1⟩ [] [])) ⟨⟨['f', 'o', 'o', '(', '1', ',', ' ', '2', ')'], 6, [⟨0, 3, Tok.FNCT, "foo"⟩, ⟨3, 4, Tok.LPAR, "("⟩, ⟨4, 5, Tok.NUM, "1"⟩, ⟨5, 6, Tok.COMMA, ","⟩]⟩, 3⟩ = .ok ((.Literal (.Number ⟨1, 1⟩ [] [])), ⟨⟨['f', 'o', 'o', '(', '1', ',', ' ', '2', ')'], 6, [⟨0, 3, Tok.FNCT, "foo"⟩, ⟨3, 4, Tok.LPAR, "("⟩, ⟨4, 5, Tok.NUM, "1"⟩, ⟨5, 6, Tok.COMMA, ","⟩]⟩, 3⟩) := by
  rw [aLoopF]
  simp only [tk_i_13, pPeek, pScan, pRewind, scanRewind, peekIn, tokMem, exceptBind_ok, exceptBind_error, exceptMap_ok, exceptMap_error, exceptPure, Option.some.injEq, reduceIte, reduceDIte, reduceCtorEq, Nat.reduceAdd, Nat.reduceSub, Nat.reduceEqDiff, decide_True, decide_False, decide_eq_true_eq, ne_eq, not_false_eq_true, not_true_eq_false, List.cons_append, List.nil_append, List.append_nil, or_self, or_false, false_or, and_self, and_true, true_and, u_expr_chks, u_expr_rsts, expr_rsts, expr_slst_rsts, expr_lst_rsts, and_test_rsts, not_test_rsts, comparison_rsts, comparison_chks, a_expr_rsts, a_expr_chks, m_expr_rsts, m_expr_chks, atom_rsts, atom_rsts_post, argspec_rsts, argspec_item_rsts, argspec_item_rsts_post, ne_eq]

/-- Parser step for input "foo(1, 2)". -/
theorem ps_i_5 : aExprF 82 ⟨⟨['f', 'o', 'o', '(', '1', ',', ' ', '2', ')'], 5, [⟨0, 3, Tok.FNCT, "foo"⟩, ⟨3, 4, Tok.LPAR, "("⟩, ⟨4, 5, Tok.NUM, "1"⟩]⟩, 2⟩ = .ok ((.Literal (.Number ⟨1, 1⟩ [] [])), ⟨⟨['f', 'o', 'o', '(', '1', ',', ' ', '2', ')'], 6, [⟨0, 3, Tok.FNCT, "foo"⟩, ⟨3, 4, Tok.LPAR, "("⟩, ⟨4, 5, Tok.NUM, "1"⟩, ⟨5, 6, Tok.COMMA, ","⟩]⟩, 3⟩) := by
  rw [aExprF, ps_i_3]
  rw [exceptBind_ok]
  simp only [ps_i_4, pPeek, pScan, pRewind, scanRewind, peekIn, tokMem, exceptBind_ok, exceptBind_error, exceptMap_ok, exceptMap_error, exceptPure, Option.some.injEq, reduceIte, reduceDIte, reduceCtorEq, Nat.reduceAdd, Nat.reduceSub, Nat.reduceEqDiff, decide_True, decide_False, decide_eq_true_eq, ne_eq, not_false_eq_true, not_true_eq_false, List.cons_append, List.nil_append, List.append_nil, or_self, or_false, false_or, and_self, and_true, true_and, u_expr_chks, u_expr_rsts, expr_rsts, expr_slst_rsts, expr_lst_rsts, and_test_rsts, not_test_rsts, comparison_rsts, comparison_chks, a_expr_rsts, a_expr_chks, m_expr_rsts, m_expr_chks, atom_rsts, atom_rsts_post, argspec_rsts, argspec_item_rsts, argspec_item_rsts_post, ne_eq]

/-- Parser step for input "foo(1, 2)". -/
theorem ps_i_6 : compLoopF 82 (.Literal (.Number ⟨1, 1⟩ [] [])) ⟨⟨['f', 'o', 'o', '(', '1', ',', ' ', '2', ')'], 6, [⟨0, 3, Tok.FNCT, "foo"⟩, ⟨3, 4, Tok.LPAR, "("⟩, ⟨4, 5, Tok.NUM, "1"⟩, ⟨5, 6, Tok.COMMA, ","⟩]⟩, 3⟩ = .ok ((.Literal (.Number ⟨1, 1⟩ [] [])), ⟨⟨['f', 'o', 'o', '(', '1', ',', ' ', '2', ')'], 6, [⟨0, 3, Tok.FNCT, "foo"⟩, ⟨3, 4, Tok.LPAR, "("⟩, ⟨4, 5, Tok.NUM, "1"⟩, ⟨5, 6, Tok.COMMA, ","⟩]⟩, 3⟩) := by
  rw [compLoopF]
  simp only [tk_i_14, pPeek, pScan, pRewind, scanRewind, peekIn, tokMem, exceptBind_ok, exceptBind_error, exceptMap_ok, exceptMap_error, exceptPure, Option.some.injEq, reduceIte, reduceDIte, reduceCtorEq, Nat.reduceAdd, Nat.reduceSub, Nat.reduceEqDiff, decide_True, decide_False, decide_eq_true_eq, ne_eq, not_false_eq_true, not_true_eq_false, List.cons_append, List.nil_append, List.append_nil, or_self, or_false, false_or, and_self, and_true, true_and, u_expr_chks, u_expr_rsts, expr_rsts, expr_slst_rsts, expr_lst_rsts, and_test_rsts, not_test_rsts, comparison_rsts, comparison_chks, a_expr_rsts, a_expr_chks, m_expr_rsts, m_expr_chks, atom_rsts, atom_rsts_post, argspec_rsts, argspec_item_rsts, argspec_item_rsts_post, ne_eq]

/-- Parser step for input "foo(1, 2)". -/
theorem ps_i_7 : comparisonF 83 ⟨⟨['f', 'o', 'o', '(', '1', ',', ' ', '2', ')'], 5, [⟨0, 3, Tok.FNCT, "foo"⟩, ⟨3, 4, Tok.LPAR, "("⟩, ⟨4, 5, Tok.NUM, "1"⟩]⟩, 2⟩ = .ok ((.Literal (.Number ⟨1, 1⟩ [] [])), ⟨⟨['f', 'o', 'o', '(', '1', ',', ' ', '2', ')'], 6, [⟨0, 3, Tok.FNCT, "foo"⟩, ⟨3, 4, Tok.LPAR, "("⟩, ⟨4, 5, Tok.NUM, "1"⟩, ⟨5, 6, Tok.COMMA, ","⟩]⟩, 3⟩) := by
  rw [comparisonF, ps_i_5]
  rw [exceptBind_ok]
  simp only [ps_i_6, pPeek, pScan, pRewind, scanRewind, peekIn, tokMem, exceptBind_ok, exceptBind_error, exceptMap_ok, exceptMap_error, exceptPure, Option.some.injEq, reduceIte, reduceDIte, reduceCtorEq, Nat.reduceAdd, Nat.reduceSub, Nat.reduceEqDiff, decide_True, decide_False, decide_eq_true_eq, ne_eq, not_false_eq_true, not_true_eq_false, List.cons_append, List.nil_append, List.append_nil, or_self, or_false, false_or, and_self, and_true, true_and, u_expr_chks, u_expr_rsts, expr_rsts, expr_slst_rsts, expr_lst_rsts, and_test_rsts, not_test_rsts, comparison_rsts, comparison_chks, a_expr_rsts, a_expr_chks, m_expr_rsts, m_expr_chks, atom_rsts, atom_rsts_post, argspec_rsts, argspec_item_rsts, argspec_item_rsts_post, ne_eq]

/-- Parser step for input "foo(1, 2)". -/
theorem ps_i_8 : notTestF 84 ⟨⟨['f', 'o', 'o', '(', '1', ',', ' ', '2', ')'], 5, [⟨0, 3, Tok.FNCT, "foo"⟩, ⟨3, 4, Tok.LPAR, "("⟩, ⟨4, 5, Tok.NUM, "1"⟩]⟩, 2⟩ = .ok ((.Literal (.Number ⟨1, 1⟩ [] [])), ⟨⟨['f', 'o', 'o', '(', '1', ',', ' ', '2', ')'], 6, [⟨0, 3, Tok.FNCT, "foo"⟩, ⟨3, 4, Tok.LPAR, "("⟩, ⟨4, 5, Tok.NUM, "1"⟩, ⟨5, 6, Tok.COMMA, ","⟩]⟩, 3⟩) := by
  rw [notTestF]
  simp only [ps_i_7, tk_i_7, pPeek, pScan, pRewind, scanRewind, peekIn, tokMem, exceptBind_ok, exceptBind_error, exceptMap_ok, exceptMap_error, exceptPure, Option.some.injEq, reduceIte, reduceDIte, reduceCtorEq, Nat.reduceAdd, Nat.reduceSub, Nat.reduceEqDiff, decide_True, decide_False, decide_eq_true_eq, ne_eq, not_false_eq_true, not_true_eq_false, List.cons_append, List.nil_append, List.append_nil, or_self, or_false, false_or, and_self, and_true, true_and, u_expr_chks, u_expr_rsts, expr_rsts, expr_slst_rsts, expr_lst_rsts, and_test_rsts, not_test_rsts, comparison_rsts, comparison_chks, a_expr_rsts, a_expr_chks, m_expr_rsts, m_expr_chks, atom_rsts, atom_rsts_post, argspec_rsts, argspec_item_rsts, argspec_item_rsts_post, ne_eq]

/-- Parser step for input "foo(1, 2)". -/
theorem ps_i_9 : andLoopF 84 (.Literal (.Number ⟨1, 1⟩ [] [])) ⟨⟨['f', 'o', 'o', '(', '1', ',', ' ', '2', ')'], 6, [⟨0, 3, Tok.FNCT, "foo"⟩, ⟨3, 4, Tok.LPAR, "("⟩, ⟨4, 5, Tok.NUM, "1"⟩, ⟨5, 6, Tok.COMMA, ","⟩]⟩, 3⟩ = .ok ((.Literal (.Number ⟨1, 1⟩ [] [])), ⟨⟨['f', 'o', 'o', '(', '1', ',', ' ', '2', ')'], 6, [⟨0, 3, Tok.FNCT, "foo"⟩, ⟨3, 4, Tok.LPAR, "("⟩, ⟨4, 5, Tok.NUM, "1"⟩, ⟨5, 6, Tok.COMMA, ","⟩]⟩, 3⟩) := by
  rw [andLoopF]
  simp only [tk_i_15, pPeek, pScan, pRewind, scanRewind, peekIn, tokMem, exceptBind_ok, exceptBind_error, exceptMap_ok, exceptMap_error, exceptPure, Option.some.injEq, reduceIte, reduceDIte, reduceCtorEq, Nat.reduceAdd, Nat.reduceSub, Nat.reduceEqDiff, decide_True, decide_False, decide_eq_true_eq, ne_eq, not_false_eq_true, not_true_eq_false, List.cons_append, List.nil_append, List.append_nil, or_self, or_false, false_or, and_self, and_true, true_and, u_expr_chks, u_expr_rsts, expr_rsts, expr_slst_rsts, expr_lst_rsts, and_test_rsts, not_test_rsts, comparison_rsts, comparison_chks, a_expr_rsts, a_expr_chks, m_expr_rsts, m_expr_chks, atom_rsts, atom_rsts_post, argspec_rsts, argspec_item_rsts, argspec_item_rsts_post, ne_eq]

/-- Parser step for input "foo(1, 2)". -/
theorem ps_i_10 : andTestF 85 ⟨⟨['f', 'o', 'o', '(', '1', ',', ' ', '2', ')'], 5, [⟨0, 3, Tok.FNCT, "foo"⟩, ⟨3, 4, Tok.LPAR, "("⟩, ⟨4, 5, Tok.NUM, "1"⟩]⟩, 2⟩ = .ok ((.Literal (.Number ⟨1, 1⟩ [] [])), ⟨⟨['f', 'o', 'o', '(', '1', ',', ' ', '2', ')'], 6, [⟨0, 3, Tok.FNCT, "foo"⟩, ⟨3, 4, Tok.LPAR, "("⟩, ⟨4, 5, Tok.NUM, "1"⟩, ⟨5, 6, Tok.COMMA, ","⟩]⟩, 3⟩) := by
  rw [andTestF, ps_i_8]
  rw [exceptBind_ok]
  simp only [ps_i_9, pPeek, pScan, pRewind, scanRewind, peekIn, tokMem, exceptBind_ok, exceptBind_error, exceptMap_ok, exceptMap_error, exceptPure, Option.some.injEq, reduceIte, reduceDIte, reduceCtorEq, Nat.reduceAdd, Nat.reduceSub, Nat.reduceEqDiff, decide_True, decide_False, decide_eq_true_eq, ne_eq, not_false_eq_true, not_true_eq_false, List.cons_append, List.nil_append, List.append_nil, or_self, or_false, false_or, and_self, and_true, true_and, u_expr_chks, u_expr_rsts, expr_rsts, expr_slst_rsts, expr_lst_rsts, and_test_rsts, not_test_rsts, comparison_rsts, comparison_chks, a_expr_rsts, a_expr_chks, m_expr_rsts, m_expr_chks, atom_rsts, atom_rsts_post, argspec_rsts, argspec_item_rsts, argspec_item_rsts_post, ne_eq]

/-- Parser step for input "foo(1, 2)". -/
theorem ps_i_11 : exprLoopF 85 (.Literal (.Number ⟨1, 1⟩ [] [])) ⟨⟨['f', 'o', 'o', '(', '1', ',', ' ', '2', ')'], 6, [⟨0, 3, Tok.FNCT, "foo"⟩, ⟨3, 4, Tok.LPAR, "("⟩, ⟨4, 5, Tok.NUM, "1"⟩, ⟨5, 6, Tok.COMMA, ","⟩]⟩, 3⟩ = .ok ((.Literal (.Number ⟨1, 1⟩ [] [])), ⟨⟨['f', 'o', 'o', '(', '1', ',', ' ', '2', ')'], 6, [⟨0, 3, Tok.FNCT, "foo"⟩, ⟨3, 4, Tok.LPAR, "("⟩, ⟨4, 5, Tok.NUM, "1"⟩, ⟨5, 6, Tok.COMMA, ","⟩]⟩, 3⟩) := by
  rw [exprLoopF]
  simp only [tk_i_16, pPeek, pScan, pRewind, scanRewind, peekIn, tokMem, exceptBind_ok, exceptBind_error, exceptMap_ok, exceptMap_error, exceptPure, Option.some.injEq, reduceIte, reduceDIte, reduceCtorEq, Nat.reduceAdd, Nat.reduceSub, Nat.reduceEqDiff, decide_True, decide_False, decide_eq_true_eq, ne_eq, not_false_eq_true, not_true_eq_false, List.cons_append, List.nil_append, List.append_nil, or_self, or_false, false_or, and_self, and_true, true_and, u_expr_chks, u_expr_rsts, expr_rsts, expr_slst_rsts, expr_lst_rsts, and_test_rsts, not_test_rsts, comparison_rsts, comparison_chks, a_expr_rsts, a_expr_chks, m_expr_rsts, m_expr_chks, atom_rsts, atom_rsts_post, argspec_rsts, argspec_item_rsts, argspec_item_rsts_post, ne_eq]

/-- Parser step for input "foo(1, 2)". -/
theorem ps_i_12 : exprF 86 ⟨⟨['f', 'o', 'o', '(', '1', ',', ' ', '2', ')'], 5, [⟨0, 3, Tok.FNCT, "foo"⟩, ⟨3, 4, Tok.LPAR, "("⟩, ⟨4, 5, Tok.NUM, "1"⟩]⟩, 2⟩ = .ok ((.Literal (.Number ⟨1, 1⟩ [] [])), ⟨⟨['f', 'o', 'o', '(', '1', ',', ' ', '2', ')'], 6, [⟨0, 3, Tok.FNCT, "foo"⟩, ⟨3, 4, Tok.LPAR, "("⟩, ⟨4, 5, Tok.NUM, "1"⟩, ⟨5, 6, Tok.COMMA, ","⟩]⟩, 3⟩) := by
  rw [exprF, ps_i_10]
  rw [exceptBind_ok]
  simp only [ps_i_11, pPeek, pScan, pRewind, scanRewind, peekIn, tokMem, exceptBind_ok, exceptBind_error, exceptMap_ok, exceptMap_error, exceptPure, Option.some.injEq, reduceIte, reduceDIte, reduceCtorEq, Nat.reduceAdd, Nat.reduceSub, Nat.reduceEqDiff, decide_True, decide_False, decide_eq_true_eq, ne_eq, not_false_eq_true, not_true_eq_false, List.cons_append, List.nil_append, List.append_nil, or_self, or_false, false_or, and_self, and_true, true_and, u_expr_chks, u_expr_rsts, expr_rsts, expr_slst_rsts, expr_lst_rsts, and_test_rsts, not_test_rsts, comparison_rsts, comparison_chks, a_expr_rsts, a_expr_chks, m_expr_rsts, m_expr_chks, atom_rsts, atom_rsts_post, argspec_rsts, argspec_item_rsts, argspec_item_rsts_post, ne_eq]

/-- Parser step for input "foo(1, 2)". -/
theorem ps_i_13 : exprSlstLoopF 86 [(.Literal (.Number ⟨1, 1⟩ [] []))] ⟨⟨['f', 'o', 'o', '(', '1', ',', ' ', '2', ')'], 6, [⟨0, 3, Tok.FNCT, "foo"⟩, ⟨3, 4, Tok.LPAR, "("⟩, ⟨4, 5, Tok.NUM, "1"⟩, ⟨5, 6, Tok.COMMA, ","⟩]⟩, 3⟩ = .ok ((.Literal (.Number ⟨1, 1⟩ [] [])), ⟨⟨['f', 'o', 'o', '(', '1', ',', ' ', '2', ')'], 6, [⟨0, 3, Tok.FNCT, "foo"⟩, ⟨3, 4, Tok.LPAR, "("⟩, ⟨4, 5, Tok.NUM, "1"⟩, ⟨5, 6, Tok.COMMA, ","⟩]⟩, 3⟩) := by
  rw [exprSlstLoopF]
  simp only [tk_i_17, pPeek, pScan, pRewind, scanRewind, peekIn, tokMem, exceptBind_ok, exceptBind_error, exceptMap_ok, exceptMap_error, exceptPure, Option.some.injEq, reduceIte, reduceDIte, reduceCtorEq, Nat.reduceAdd, Nat.reduceSub, Nat.reduceEqDiff, decide_True, decide_False, decide_eq_true_eq, ne_eq, not_false_eq_true, not_true_eq_false, List.cons_append, List.nil_append, List.append_nil, or_self, or_false, false_or, and_self, and_true, true_and, u_expr_chks, u_expr_rsts, expr_rsts, expr_slst_rsts, expr_lst_rsts, and_test_rsts, not_test_rsts, comparison_rsts, comparison_chks, a_expr_rsts, a_expr_chks, m_expr_rsts, m_expr_chks, atom_rsts, atom_rsts_post, argspec_rsts, argspec_item_rsts, argspec_item_rsts_post, ne_eq]

/-- Parser step for input "foo(1, 2)". -/
theorem ps_i_14 : exprSlstF 87 ⟨⟨['f', 'o', 'o', '(', '1', ',', ' ', '2', ')'], 5, [⟨0, 3, Tok.FNCT, "foo"⟩, ⟨3, 4, Tok.LPAR, "("⟩, ⟨4, 5, Tok.NUM, "1"⟩]⟩, 2⟩ = .ok ((.Literal (.Number ⟨1, 1⟩ [] [])), ⟨⟨['f', 'o', 'o', '(', '1', ',', ' ', '2', ')'], 6, [⟨0, 3, Tok.FNCT, "foo"⟩, ⟨3, 4, Tok.LPAR, "("⟩, ⟨4, 5, Tok.NUM, "1"⟩, ⟨5, 6, Tok.COMMA, ","⟩]⟩, 3⟩) := by
  rw [exprSlstF, ps_i_12]
  rw [exceptBind_ok]
  simp only [ps_i_13, pPeek, pScan, pRewind, scanRewind, peekIn, tokMem, exceptBind_ok, exceptBind_error, exceptMap_ok, exceptMap_error, exceptPure, Option.some.injEq, reduceIte, reduceDIte, reduceCtorEq, Nat.reduceAdd, Nat.reduceSub, Nat.reduceEqDiff, decide_True, decide_False, decide_eq_true_eq, ne_eq, not_false_eq_true, not_true_eq_false, List.cons_append, List.nil_append, List.append_nil, or_self, or_false, false_or, and_self, and_true, true_and, u_expr_chks, u_expr_rsts, expr_rsts, expr_slst_rsts, expr_lst_rsts, and_test_rsts, not_test_rsts, comparison_rsts, comparison_chks, a_expr_rsts, a_expr_chks, m_expr_rsts, m_expr_chks, atom_rsts, atom_rsts_post, argspec_rsts, argspec_item_rsts, argspec_item_rsts_post, ne_eq]

/-- Parser step for input "foo(1, 2)". -/
theorem ps_i_15 : argspecItemF 88 ⟨⟨['f', 'o', 'o', '(', '1', ',', ' ', '2', ')'], 5, [⟨0, 3, Tok.FNCT, "foo"⟩, ⟨3, 4, Tok.LPAR, "("⟩, ⟨4, 5, Tok.NUM, "1"⟩]⟩, 2⟩ = .ok ((none, (.Literal (.Number ⟨1, 1⟩ [] []))), ⟨⟨['f', 'o', 'o', '(', '1', ',', ' ', '2', ')'], 6, [⟨0, 3, Tok.FNCT, "foo"⟩, ⟨3, 4, Tok.LPAR, "("⟩, ⟨4, 5, Tok.NUM, "1"⟩, ⟨5, 6, Tok.COMMA, ","⟩]⟩, 3⟩) := by
  rw [argspecItemF]
  simp only [ps_i_14, tk_i_6, pPeek, pScan, pRewind, scanRewind, peekIn, tokMem, exceptBind_ok, exceptBind_error, exceptMap_ok, exceptMap_error, exceptPure, Option.some.injEq, reduceIte, reduceDIte, reduceCtorEq, Nat.reduceAdd, Nat.reduceSub, Nat.reduceEqDiff, decide_True, decide_False, decide_eq_true_eq, ne_eq, not_false_eq_true, not_true_eq_false, List.cons_append, List.nil_append, List.append_nil, or_self, or_false, false_or, and_self, and_true, true_and, u_expr_chks, u_expr_rsts, expr_rsts, expr_slst_rsts, expr_lst_rsts, and_test_rsts, not_test_rsts, comparison_rsts, comparison_chks, a_expr_rsts, a_expr_chks, m_expr_rsts, m_expr_chks, atom_rsts, atom_rsts_post, argspec_rsts, argspec_item_rsts, argspec_item_rsts_post, ne_eq]

/-- Parser step for input "foo(1, 2)". -/
theorem ps_i_16 : atomF 78 ⟨⟨['f', 'o', 'o', '(', '1', ',', ' ', '2', ')'], 8, [⟨0, 3, Tok.FNCT, "foo"⟩, ⟨3, 4, Tok.LPAR, "("⟩, ⟨4, 5, Tok.NUM, "1"⟩, ⟨5, 6, Tok.COMMA, ","⟩, ⟨7, 8, Tok.NUM, "2"⟩]⟩, 4⟩ = .ok ((.Literal (.Number ⟨2, 1⟩ [] [])), ⟨⟨['f', 'o', 'o', '(', '1', ',', ' ', '2', ')'], 9, [⟨0, 3, Tok.FNCT, "foo"⟩, ⟨3, 4, Tok.LPAR, "("⟩, ⟨4, 5, Tok.NUM, "1"⟩, ⟨5, 6, Tok.COMMA, ","⟩, ⟨7, 8, Tok.NUM, "2"⟩, ⟨8, 9, Tok.RPAR, ")"⟩]⟩, 5⟩) := by
  rw [atomF]
  simp only [tk_i_23, tk_i_24, tk_i_25, pPeek, pScan, pRewind, scanRewind, peekIn, tokMem, exceptBind_ok, exceptBind_error, exceptMap_ok, exceptMap_error, exceptPure, Option.some.injEq, reduceIte, reduceDIte, reduceCtorEq, Nat.reduceAdd, Nat.reduceSub, Nat.reduceEqDiff, decide_True, decide_False, decide_eq_true_eq, ne_eq, not_false_eq_true, not_true_eq_false, List.cons_append, List.nil_append, List.append_nil, or_self, or_false, false_or, and_self, and_true, true_and, u_expr_chks, u_expr_rsts, expr_rsts, expr_slst_rsts, expr_lst_rsts, and_test_rsts, not_test_rsts, comparison_rsts, comparison_chks, a_expr_rsts, a_expr_chks, m_expr_rsts, m_expr_chks, atom_rsts, atom_rsts_post, argspec_rsts, argspec_item_rsts, argspec_item_rsts_post, sdata0, sdata1, sdata2, sdata3, sdata4, sdata5, sdata6, sdata7, sdata8, sdata9, sdata10, sdata11, sdata12, sdata13, parse_bareword, COLOR_NAMES, parseNum, digitsToNat, lowerStr, parseHexColor, hexToNat, isDigitC, isAlphaC, SassQ.add, SassQ.fromNat, mkQ, gcdQ, gcdFuel, List.find?, List.map, List.take, List.drop, List.takeWhile, List.dropWhile, List.dropLast, List.isEmpty, List.length, Option.map, Char.reduceEq, Char.reduceBEq, Char.reduceLE, Char.reduceLT, Char.reduceToNat, Char.reduceToLower, String.reduceMk, String.reduceEq, String.reduceBEq, Nat.reduceMul, Nat.reduceDiv, Nat.reduceMod, Nat.reducePow, Nat.reduceLeDiff, Nat.reduceLT, Nat.reduceGT, Int.reduceAdd, Int.reduceSub, Int.reduceMul, Int.reduceNeg, Int.reduceDiv, Int.reduceLT, Int.reduceLE, Int.reduceEq, Int.reduceBEq, Int.reduceToNat, Int.reduceAbs, Int.reducePow, Int.reduceMod, Int.reduceOfNat, Nat.cast_ofNat, Nat.cast_one, Nat.cast_zero]

/-- Parser step for input "foo(1, 2)". -/
theorem ps_i_17 : uExprF 79 ⟨⟨['f', 'o', 'o', '(', '1', ',', ' ', '2', ')'], 8, [⟨0, 3, Tok.FNCT, "foo"⟩, ⟨3, 4, Tok.LPAR, "("⟩, ⟨4, 5, Tok.NUM, "1"⟩, ⟨5, 6, Tok.COMMA, ","⟩, ⟨7, 8, Tok.NUM, "2"⟩]⟩, 4⟩ = .ok ((.Literal (.Number ⟨2, 1⟩ [] [])), ⟨⟨['f', 'o', 'o', '(', '1', ',', ' ', '2', ')'], 9, [⟨0, 3, Tok.FNCT, "foo"⟩, ⟨3, 4, Tok.LPAR, "("⟩, ⟨4, 5, Tok.NUM, "1"⟩, ⟨5, 6, Tok.COMMA, ","⟩, ⟨7, 8, Tok.NUM, "2"⟩, ⟨8, 9, Tok.RPAR, ")"⟩]⟩, 5⟩) := by
  rw [uExprF]
  simp only [ps_i_16, tk_i_22, pPeek, pScan, pRewind, scanRewind, peekIn, tokMem, exceptBind_ok, exceptBind_error, exceptMap_ok, exceptMap_error, exceptPure, Option.some.injEq, reduceIte, reduceDIte, reduceCtorEq, Nat.reduceAdd, Nat.reduceSub, Nat.reduceEqDiff, decide_True, decide_False, decide_eq_true_eq, ne_eq, not_false_eq_true, not_true_eq_false, List.cons_append, List.nil_append, List.append_nil, or_self, or_false, false_or, and_self, and_true, true_and, u_expr_chks, u_expr_rsts, expr_rsts, expr_slst_rsts, expr_lst_rsts, and_test_rsts, not_test_rsts, comparison_rsts, comparison_chks, a_expr_rsts, a_expr_chks, m_expr_rsts, m_expr_chks, atom_rsts, atom_rsts_post, argspec_rsts, argspec_item_rsts, argspec_item_rsts_post, ne_eq]

/-- Parser step for input "foo(1, 2)". -/
theorem ps_i_18 : mLoopF 79 (.Literal (.Number ⟨2, 1⟩ [] [])) ⟨⟨['f', 'o', 'o', '(', '1', ',', ' ', '2', ')'], 9, [⟨0, 3, Tok.FNCT, "foo"⟩, ⟨3, 4, Tok.LPAR, "("⟩, ⟨4, 5, Tok.NUM, "1"⟩, ⟨5, 6, Tok.COMMA, ","⟩, ⟨7, 8, Tok.NUM, "2"⟩, ⟨8, 9, Tok.RPAR, ")"⟩]⟩, 5⟩ = .ok ((.Literal (.Number ⟨2, 1⟩ [] [])), ⟨⟨['f', 'o', 'o', '(', '1', ',', ' ', '2', ')'], 9, [⟨0, 3, Tok.FNCT, "foo"⟩, ⟨3, 4, Tok.LPAR, "("⟩, ⟨4, 5, Tok.NUM, "1"⟩, ⟨5, 6, Tok.COMMA, ","⟩, ⟨7, 8, Tok.NUM, "2"⟩, ⟨8, 9, Tok.RPAR, ")"⟩]⟩, 5⟩) := by
  rw [mLoopF]
  simp only [tk_i_26, pPeek, pScan, pRewind, scanRewind, peekIn, tokMem, exceptBind_ok, exceptBind_error, exceptMap_ok, exceptMap_error, exceptPure, Option.some.injEq, reduceIte, reduceDIte, reduceCtorEq, Nat.reduceAdd, Nat.reduceSub, Nat.reduceEqDiff, decide_True, decide_False, decide_eq_true_eq, ne_eq, not_false_eq_true, not_true_eq_false, List.cons_append, List.nil_append, List.append_nil, or_self, or_false, false_or, and_self, and_true, true_and, u_expr_chks, u_expr_rsts, expr_rsts, expr_slst_rsts, expr_lst_rsts, and_test_rsts, not_test_rsts, comparison_rsts, comparison_chks, a_expr_rsts, a_expr_chks, m_expr_rsts, m_expr_chks, atom_rsts, atom_rsts_post, argspec_rsts, argspec_item_rsts, argspec_item_rsts_post, ne_eq]

/-- Parser step for input "foo(1, 2)". -/
theorem ps_i_19 : mExprF 80 ⟨⟨['f', 'o', 'o', '(', '1', ',', ' ', '2', ')'], 8, [⟨0, 3, Tok.FNCT, "foo"⟩, ⟨3, 4, Tok.LPAR, "("⟩, ⟨4, 5, Tok.NUM, "1"⟩, ⟨5, 6, Tok.COMMA, ","⟩, ⟨7, 8, Tok.NUM, "2"⟩]⟩, 4⟩ = .ok ((.Literal (.Number ⟨2, 1⟩ [] [])), ⟨⟨['f', 'o', 'o', '(', '1', ',', ' ', '2', ')'], 9, [⟨0, 3, Tok.FNCT, "foo"⟩, ⟨3, 4, Tok.LPAR, "("⟩, ⟨4, 5, Tok.NUM, "1"⟩, ⟨5, 6, Tok.COMMA, ","⟩, ⟨7, 8, Tok.NUM, "2"⟩, ⟨8, 9, Tok.RPAR, ")"⟩]⟩, 5⟩) := by
  rw [mExprF, ps_i_17]
  rw [exceptBind_ok]
  simp only [ps_i_18, pPeek, pScan, pRewind, scanRewind, peekIn, tokMem, exceptBind_ok, exceptBind_error, exceptMap_ok, exceptMap_error, exceptPure, Option.some.injEq, reduceIte, reduceDIte, reduceCtorEq, Nat.reduceAdd, Nat.reduceSub, Nat.reduceEqDiff, decide_True, decide_False, decide_eq_true_eq, ne_eq, not_false_eq_true, not_true_eq_false, List.cons_append, List.nil_append, List.append_nil, or_self, or_false, false_or, and_self, and_true, true_and, u_expr_chks, u_expr_rsts, expr_rsts, expr_slst_rsts, expr_lst_rsts, and_test_rsts, not_test_rsts, comparison_rsts, comparison_chks, a_expr_rsts, a_expr_chks, m_expr_rsts, m_expr_chks, atom_rsts, atom_rsts_post, argspec_rsts, argspec_item_rsts, argspec_item_rsts_post, ne_eq]

/-- Parser step for input "foo(1, 2)". -/
theorem ps_i_20 : aLoopF 80 (.Literal (.Number ⟨2, 1⟩ [] [])) ⟨⟨['f', 'o', 'o', '(', '1', ',', ' ', '2', ')'], 9, [⟨0, 3, Tok.FNCT, "foo"⟩, ⟨3, 4, Tok.LPAR, "("⟩, ⟨4, 5, Tok.NUM, "1"⟩, ⟨5, 6, Tok.COMMA, ","⟩, ⟨7, 8, Tok.NUM, "2"⟩, ⟨8, 9, Tok.RPAR, ")"⟩]⟩, 5⟩ = .ok ((.Literal (.Number ⟨2, 1⟩ [] [])), ⟨⟨['f', 'o', 'o', '(', '1', ',', ' ', '2', ')'], 9, [⟨0, 3, Tok.FNCT, "foo"⟩, ⟨3, 4, Tok.LPAR, "("⟩, ⟨4, 5, Tok.NUM, "1"⟩, ⟨5, 6, Tok.COMMA, ","⟩, ⟨7, 8, Tok.NUM, "2"⟩, ⟨8, 9, Tok.RPAR, ")"⟩]⟩, 5⟩) := by
  rw [aLoopF]
  simp only [tk_i_27, pPeek, pScan, pRewind, scanRewind, peekIn, tokMem, exceptBind_ok, exceptBind_error, exceptMap_ok, exceptMap_error, exceptPure, Option.some.injEq, reduceIte, reduceDIte, reduceCtorEq, Nat.reduceAdd, Nat.reduceSub, Nat.reduceEqDiff, decide_True, decide_False, decide_eq_true_eq, ne_eq, not_false_eq_true, not_true_eq_false, List.cons_append, List.nil_append, List.append_nil, or_self, or_false, false_or, and_self, and_true, true_and, u_expr_chks, u_expr_rsts, expr_rsts, expr_slst_rsts, expr_lst_rsts, and_test_rsts, not_test_rsts, comparison_rsts, comparison_chks, a_expr_rsts, a_expr_chks, m_expr_rsts, m_expr_chks, atom_rsts, atom_rsts_post, argspec_rsts, argspec_item_rsts, argspec_item_rsts_post, ne_eq]

/-- Parser step for input "foo(1, 2)". -/
theorem ps_i_21 : aExprF 81 ⟨⟨['f', 'o', 'o', '(', '1', ',', ' ', '2', ')'], 8, [⟨0, 3, Tok.FNCT, "foo"⟩, ⟨3, 4, Tok.LPAR, "("⟩, ⟨4, 5, Tok.NUM, "1"⟩, ⟨5, 6, Tok.COMMA, ","⟩, ⟨7, 8, Tok.NUM, "2"⟩]⟩, 4⟩ = .ok ((.Literal (.Number ⟨2, 1⟩ [] [])), ⟨⟨['f', 'o', 'o', '(', '1', ',', ' ', '2', ')'], 9, [⟨0, 3, Tok.FNCT, "foo"⟩, ⟨3, 4, Tok.LPAR, "("⟩, ⟨4, 5, Tok.NUM, "1"⟩, ⟨5, 6, Tok.COMMA, ","⟩, ⟨7, 8, Tok.NUM, "2"⟩, ⟨8, 9, Tok.RPAR, ")"⟩]⟩, 5⟩) := by
  rw [aExprF, ps_i_19]
  rw [exceptBind_ok]
  simp only [ps_i_20, pPeek, pScan, pRewind, scanRewind, peekIn, tokMem, exceptBind_ok, exceptBind_error, exceptMap_ok, exceptMap_error, exceptPure, Option.some.injEq, reduceIte, reduceDIte, reduceCtorEq, Nat.reduceAdd, Nat.reduceSub, Nat.reduceEqDiff, decide_True, decide_False, decide_eq_true_eq, ne_eq, not_false_eq_true, not_true_eq_false, List.cons_append, List.nil_append, List.append_nil, or_self, or_false, false_or, and_self, and_true, true_and, u_expr_chks, u_expr_rsts, expr_rsts, expr_slst_rsts, expr_lst_rsts, and_test_rsts, not_test_rsts, comparison_rsts, comparison_chks, a_expr_rsts, a_expr_chks, m_expr_rsts, m_expr_chks, atom_rsts, atom_rsts_post, argspec_rsts, argspec_item_rsts, argspec_item_rsts_post, ne_eq]

/-- Parser step for input "foo(1, 2)". -/
theorem ps_i_22 : compLoopF 81 (.Literal (.Number ⟨2, 1⟩ [] [])) ⟨⟨['f', 'o', 'o', '(', '1', ',', ' ', '2', ')'], 9, [⟨0, 3, Tok.FNCT, "foo"⟩, ⟨3, 4, Tok.LPAR, "("⟩, ⟨4, 5, Tok.NUM, "1"⟩, ⟨5, 6, Tok.COMMA, ","⟩, ⟨7, 8, Tok.NUM, "2"⟩, ⟨8, 9, Tok.RPAR, ")"⟩]⟩, 5⟩ = .ok ((.Literal (.Number ⟨2, 1⟩ [] [])), ⟨⟨['f', 'o', 'o', '(', '1', ',', ' ', '2', ')'], 9, [⟨0, 3, Tok.FNCT, "foo"⟩, ⟨3, 4, Tok.LPAR, "("⟩, ⟨4, 5, Tok.NUM, "1"⟩, ⟨5, 6, Tok.COMMA, ","⟩, ⟨7, 8, Tok.NUM, "2"⟩, ⟨8, 9, Tok.RPAR, ")"⟩]⟩, 5⟩) := by
  rw [compLoopF]
  simp only [tk_i_28, pPeek, pScan, pRewind, scanRewind, peekIn, tokMem, exceptBind_ok, exceptBind_error, exceptMap_ok, exceptMap_error, exceptPure, Option.some.injEq, reduceIte, reduceDIte, reduceCtorEq, Nat.reduceAdd, Nat.reduceSub, Nat.reduceEqDiff, decide_True, decide_False, decide_eq_true_eq, ne_eq, not_false_eq_true, not_true_eq_false, List.cons_append, List.nil_append, List.append_nil, or_self, or_false, false_or, and_self, and_true, true_and, u_expr_chks, u_expr_rsts, expr_rsts, expr_slst_rsts, expr_lst_rsts, and_test_rsts, not_test_rsts, comparison_rsts, comparison_chks, a_expr_rsts, a_expr_chks, m_expr_rsts, m_expr_chks, atom_rsts, atom_rsts_post, argspec_rsts, argspec_item_rsts, argspec_item_rsts_post, ne_eq]

/-- Parser step for input "foo(1, 2)". -/
theorem ps_i_23 : comparisonF 82 ⟨⟨['f', 'o', 'o', '(', '1', ',', ' ', '2', ')'], 8, [⟨0, 3, Tok.FNCT, "foo"⟩, ⟨3, 4, Tok.LPAR, "("⟩, ⟨4, 5, Tok.NUM, "1"⟩, ⟨5, 6, Tok.COMMA, ","⟩, ⟨7, 8, Tok.NUM, "2"⟩]⟩, 4⟩ = .ok ((.Literal (.Number ⟨2, 1⟩ [] [])), ⟨⟨['f', 'o', 'o', '(', '1', ',', ' ', '2', ')'], 9, [⟨0, 3, Tok.FNCT, "foo"⟩, ⟨3, 4, Tok.LPAR, "("⟩, ⟨4, 5, Tok.NUM, "1"⟩, ⟨5, 6, Tok.COMMA, ","⟩, ⟨7, 8, Tok.NUM, "2"⟩, ⟨8, 9, Tok.RPAR, ")"⟩]⟩, 5⟩) := by
  rw [comparisonF, ps_i_21]
  rw [exceptBind_ok]
  simp only [ps_i_22, pPeek, pScan, pRewind, scanRewind, peekIn, tokMem, exceptBind_ok, exceptBind_error, exceptMap_ok, exceptMap_error, exceptPure, Option.some.injEq, reduceIte, reduceDIte, reduceCtorEq, Nat.reduceAdd, Nat.reduceSub, Nat.reduceEqDiff, decide_True, decide_False, decide_eq_true_eq, ne_eq, not_false_eq_true, not_true_eq_false, List.cons_append, List.nil_append, List.append_nil, or_self, or_false, false_or, and_self, and_true, true_and, u_expr_chks, u_expr_rsts, expr_rsts, expr_slst_rsts, expr_lst_rsts, and_test_rsts, not_test_rsts, comparison_rsts, comparison_chks, a_expr_rsts, a_expr_chks, m_expr_rsts, m_expr_chks, atom_rsts, atom_rsts_post, argspec_rsts, argspec_item_rsts, argspec_item_rsts_post, ne_eq]

/-- Parser step for input "foo(1, 2)". -/
theorem ps_i_24 : notTestF 83 ⟨⟨['f', 'o', 'o', '(', '1', ',', ' ', '2', ')'], 8, [⟨0, 3, Tok.FNCT, "foo"⟩, ⟨3, 4, Tok.LPAR, "("⟩, ⟨4, 5, Tok.NUM, "1"⟩, ⟨5, 6, Tok.COMMA, ","⟩, ⟨7, 8, Tok.NUM, "2"⟩]⟩, 4⟩ = .ok ((.Literal (.Number ⟨2, 1⟩ [] [])), ⟨⟨['f', 'o', 'o', '(', '1', ',', ' ', '2', ')'], 9, [⟨0, 3, Tok.FNCT, "foo"⟩, ⟨3, 4, Tok.LPAR, "("⟩, ⟨4, 5, Tok.NUM, "1"⟩, ⟨5, 6, Tok.COMMA, ","⟩, ⟨7, 8, Tok.NUM, "2"⟩, ⟨8, 9, Tok.RPAR, ")"⟩]⟩, 5⟩) := by
  rw [notTestF]
  simp only [ps_i_23, tk_i_21, pPeek, pScan, pRewind, scanRewind, peekIn, tokMem, exceptBind_ok, exceptBind_error, exceptMap_ok, exceptMap_error, exceptPure, Option.some.injEq, reduceIte, reduceDIte, reduceCtorEq, Nat.reduceAdd, Nat.reduceSub, Nat.reduceEqDiff, decide_True, decide_False, decide_eq_true_eq, ne_eq, not_false_eq_true, not_true_eq_false, List.cons_append, List.nil_append, List.append_nil, or_self, or_false, false_or, and_self, and_true, true_and, u_expr_chks, u_expr_rsts, expr_rsts, expr_slst_rsts, expr_lst_rsts, and_test_rsts, not_test_rsts, comparison_rsts, comparison_chks, a_expr_rsts, a_expr_chks, m_expr_rsts, m_expr_chks, atom_rsts, atom_rsts_post, argspec_rsts, argspec_item_rsts, argspec_item_rsts_post, ne_eq]

/-- Parser step for input "foo(1, 2)". -/
theorem ps_i_25 : andLoopF 83 (.Literal (.Number ⟨2, 1⟩ [] [])) ⟨⟨['f', 'o', 'o', '(', '1', ',', ' ', '2', ')'], 9, [⟨0, 3, Tok.FNCT, "foo"⟩, ⟨3, 4, Tok.LPAR, "("⟩, ⟨4, 5, Tok.NUM, "1"⟩, ⟨5, 6, Tok.COMMA, ","⟩, ⟨7, 8, Tok.NUM, "2"⟩, ⟨8, 9, Tok.RPAR, ")"⟩]⟩, 5⟩ = .ok ((.Literal (.Number ⟨2, 1⟩ [] [])), ⟨⟨['f', 'o', 'o', '(', '1', ',', ' ', '2', ')'], 9, [⟨0, 3, Tok.FNCT, "foo"⟩, ⟨3, 4, Tok.LPAR, "("⟩, ⟨4, 5, Tok.NUM, "1"⟩, ⟨5, 6, Tok.COMMA, ","⟩, ⟨7, 8, Tok.NUM, "2"⟩, ⟨8, 9, Tok.RPAR, ")"⟩]⟩, 5⟩) := by
  rw [andLoopF]
  simp only [tk_i_29, pPeek, pScan, pRewind, scanRewind, peekIn, tokMem, exceptBind_ok, exceptBind_error, exceptMap_ok, exceptMap_error, exceptPure, Option.some.injEq, reduceIte, reduceDIte, reduceCtorEq, Nat.reduceAdd, Nat.reduceSub, Nat.reduceEqDiff, decide_True, decide_False, decide_eq_true_eq, ne_eq, not_false_eq_true, not_true_eq_false, List.cons_append, List.nil_append, List.append_nil, or_self, or_false, false_or, and_self, and_true, true_and, u_expr_chks, u_expr_rsts, expr_rsts, expr_slst_rsts, expr_lst_rsts, and_test_rsts, not_test_rsts, comparison_rsts, comparison_chks, a_expr_rsts, a_expr_chks, m_expr_rsts, m_expr_chks, atom_rsts, atom_rsts_post, argspec_rsts, argspec_item_rsts, argspec_item_rsts_post, ne_eq]

/-- Parser step for input "foo(1, 2)". -/
theorem ps_i_26 : andTestF 84 ⟨⟨['f', 'o', 'o', '(', '1', ',', ' ', '2', ')'], 8, [⟨0, 3, Tok.FNCT, "foo"⟩, ⟨3, 4, Tok.LPAR, "("⟩, ⟨4, 5, Tok.NUM, "1"⟩, ⟨5, 6, Tok.COMMA, ","⟩, ⟨7, 8, Tok.NUM, "2"⟩]⟩, 4⟩ = .ok ((.Literal (.Number ⟨2, 1⟩ [] [])), ⟨⟨['f', 'o', 'o', '(', '1', ',', ' ', '2', ')'], 9, [⟨0, 3, Tok.FNCT, "foo"⟩, ⟨3, 4, Tok.LPAR, "("⟩, ⟨4, 5, Tok.NUM, "1"⟩, ⟨5, 6, Tok.COMMA, ","⟩, ⟨7, 8, Tok.NUM, "2"⟩, ⟨8, 9, Tok.RPAR, ")"⟩]⟩, 5⟩) := by
  rw [andTestF, ps_i_24]
  rw [exceptBind_ok]
  simp only [ps_i_25, pPeek, pScan, pRewind, scanRewind, peekIn, tokMem, exceptBind_ok, exceptBind_error, exceptMap_ok, exceptMap_error, exceptPure, Option.some.injEq, reduceIte, reduceDIte, reduceCtorEq, Nat.reduceAdd, Nat.reduceSub, Nat.reduceEqDiff, decide_True, decide_False, decide_eq_true_eq, ne_eq, not_false_eq_true, not_true_eq_false, List.cons_append, List.nil_append, List.append_nil, or_self, or_false, false_or, and_self, and_true, true_and, u_expr_chks, u_expr_rsts, expr_rsts, expr_slst_rsts, expr_lst_rsts, and_test_rsts, not_test_rsts, comparison_rsts, comparison_chks, a_expr_rsts, a_expr_chks, m_expr_rsts, m_expr_chks, atom_rsts, atom_rsts_post, argspec_rsts, argspec_item_rsts, argspec_item_rsts_post, ne_eq]

/-- Parser step for input "foo(1, 2)". -/
theorem ps_i_27 : exprLoopF 84 (.Literal (.Number ⟨2, 1⟩ [] [])) ⟨⟨['f', 'o', 'o', '(', '1', ',', ' ', '2', ')'], 9, [⟨0, 3, Tok.FNCT, "foo"⟩, ⟨3, 4, Tok.LPAR, "("⟩, ⟨4, 5, Tok.NUM, "1"⟩, ⟨5, 6, Tok.COMMA, ","⟩, ⟨7, 8, Tok.NUM, "2"⟩, ⟨8, 9, Tok.RPAR, ")"⟩]⟩, 5⟩ = .ok ((.Literal (.Number ⟨2, 1⟩ [] [])), ⟨⟨['f', 'o', 'o', '(', '1', ',', ' ', '2', ')'], 9, [⟨0, 3, Tok.FNCT, "foo"⟩, ⟨3, 4, Tok.LPAR, "("⟩, ⟨4, 5, Tok.NUM, "1"⟩, ⟨5, 6, Tok.COMMA, ","⟩, ⟨7, 8, Tok.NUM, "2"⟩, ⟨8, 9, Tok.RPAR, ")"⟩]⟩, 5⟩) := by
  rw [exprLoopF]
  simp only [tk_i_30, pPeek, pScan, pRewind, scanRewind, peekIn, tokMem, exceptBind_ok, exceptBind_error, exceptMap_ok, exceptMap_error, exceptPure, Option.some.injEq, reduceIte, reduceDIte, reduceCtorEq, Nat.reduceAdd, Nat.reduceSub, Nat.reduceEqDiff, decide_True, decide_False, decide_eq_true_eq, ne_eq, not_false_eq_true, not_true_eq_false, List.cons_append, List.nil_append, List.append_nil, or_self, or_false, false_or, and_self, and_true, true_and, u_expr_chks, u_expr_rsts, expr_rsts, expr_slst_rsts, expr_lst_rsts, and_test_rsts, not_test_rsts, comparison_rsts, comparison_chks, a_expr_rsts, a_expr_chks, m_expr_rsts, m_expr_chks, atom_rsts, atom_rsts_post, argspec_rsts, argspec_item_rsts, argspec_item_rsts_post, ne_eq]

/-- Parser step for input "foo(1, 2)". -/
theorem ps_i_28 : exprF 85 ⟨⟨['f', 'o', 'o', '(', '1', ',', ' ', '2', ')'], 8, [⟨0, 3, Tok.FNCT, "foo"⟩, ⟨3, 4, Tok.LPAR, "("⟩, ⟨4, 5, Tok.NUM, "1"⟩, ⟨5, 6, Tok.COMMA, ","⟩, ⟨7, 8, Tok.NUM, "2"⟩]⟩, 4⟩ = .ok ((.Literal (.Number ⟨2, 1⟩ [] [])), ⟨⟨['f', 'o', 'o', '(', '1', ',', ' ', '2', ')'], 9, [⟨0, 3, Tok.FNCT, "foo"⟩, ⟨3, 4, Tok.LPAR, "("⟩, ⟨4, 5, Tok.NUM, "1"⟩, ⟨5, 6, Tok.COMMA, ","⟩, ⟨7, 8, Tok.NUM, "2"⟩, ⟨8, 9, Tok.RPAR, ")"⟩]⟩, 5⟩) := by
  rw [exprF, ps_i_26]
  rw [exceptBind_ok]
  simp only [ps_i_27, pPeek, pScan, pRewind, scanRewind, peekIn, tokMem, exceptBind_ok, exceptBind_error, exceptMap_ok, exceptMap_error, exceptPure, Option.some.injEq, reduceIte, reduceDIte, reduceCtorEq, Nat.reduceAdd, Nat.reduceSub, Nat.reduceEqDiff, decide_True, decide_False, decide_eq_true_eq, ne_eq, not_false_eq_true, not_true_eq_false, List.cons_append, List.nil_append, List.append_nil, or_self, or_false, false_or, and_self, and_true, true_and, u_expr_chks, u_expr_rsts, expr_rsts, expr_slst_rsts, expr_lst_rsts, and_test_rsts, not_test_rsts, comparison_rsts, comparison_chks, a_expr_rsts, a_expr_chks, m_expr_rsts, m_expr_chks, atom_rsts, atom_rsts_post, argspec_rsts, argspec_item_rsts, argspec_item_rsts_post, ne_eq]

/-- Parser step for input "foo(1, 2)". -/
theorem ps_i_29 : exprSlstLoopF 85 [(.Literal (.Number ⟨2, 1⟩ [] []))] ⟨⟨['f', 'o', 'o', '(', '1', ',', ' ', '2', ')'], 9, [⟨0, 3, Tok.FNCT, "foo"⟩, ⟨3, 4, Tok.LPAR, "("⟩, ⟨4, 5, Tok.NUM, "1"⟩, ⟨5, 6, Tok.COMMA, ","⟩, ⟨7, 8, Tok.NUM, "2"⟩, ⟨8, 9, Tok.RPAR, ")"⟩]⟩, 5⟩ = .ok ((.Literal (.Number ⟨2, 1⟩ [] [])), ⟨⟨['f', 'o', 'o', '(', '1', ',', ' ', '2', ')'], 9, [⟨0, 3, Tok.FNCT, "foo"⟩, ⟨3, 4, Tok.LPAR, "("⟩, ⟨4, 5, Tok.NUM, "1"⟩, ⟨5, 6, Tok.COMMA, ","⟩, ⟨7, 8, Tok.NUM, "2"⟩, ⟨8, 9, Tok.RPAR, ")"⟩]⟩, 5⟩) := by
  rw [exprSlstLoopF]
  simp only [tk_i_31, pPeek, pScan, pRewind, scanRewind, peekIn, tokMem, exceptBind_ok, exceptBind_error, exceptMap_ok, exceptMap_error, exceptPure, Option.some.injEq, reduceIte, reduceDIte, reduceCtorEq, Nat.reduceAdd, Nat.reduceSub, Nat.reduceEqDiff, decide_True, decide_False, decide_eq_true_eq, ne_eq, not_false_eq_true, not_true_eq_false, List.cons_append, List.nil_append, List.append_nil, or_self, or_false, false_or, and_self, and_true, true_and, u_expr_chks, u_expr_rsts, expr_rsts, expr_slst_rsts, expr_lst_rsts, and_test_rsts, not_test_rsts, comparison_rsts, comparison_chks, a_expr_rsts, a_expr_chks, m_expr_rsts, m_expr_chks, atom_rsts, atom_rsts_post, argspec_rsts, argspec_item_rsts, argspec_item_rsts_post, ne_eq]

/-- Parser step for input "foo(1, 2)". -/
theorem ps_i_30 : exprSlstF 86 ⟨⟨['f', 'o', 'o', '(', '1', ',', ' ', '2', ')'], 8, [⟨0, 3, Tok.FNCT, "foo"⟩, ⟨3, 4, Tok.LPAR, "("⟩, ⟨4, 5, Tok.NUM, "1"⟩, ⟨5, 6, Tok.COMMA, ","⟩, ⟨7, 8, Tok.NUM, "2"⟩]⟩, 4⟩ = .ok ((.Literal (.Number ⟨2, 1⟩ [] [])), ⟨⟨['f', 'o', 'o', '(', '1', ',', ' ', '2', ')'], 9, [⟨0, 3, Tok.FNCT, "foo"⟩, ⟨3, 4, Tok.LPAR, "("⟩, ⟨4, 5, Tok.NUM, "1"⟩, ⟨5, 6, Tok.COMMA, ","⟩, ⟨7, 8, Tok.NUM, "2"⟩, ⟨8, 9, Tok.RPAR, ")"⟩]⟩, 5⟩) := by
  rw [exprSlstF, ps_i_28]
  rw [exceptBind_ok]
  simp only [ps_i_29, pPeek, pScan, pRewind, scanRewind, peekIn, tokMem, exceptBind_ok, exceptBind_error, exceptMap_ok, exceptMap_error, exceptPure, Option.some.injEq, reduceIte, reduceDIte, reduceCtorEq, Nat.reduceAdd, Nat.reduceSub, Nat.reduceEqDiff, decide_True, decide_False, decide_eq_true_eq, ne_eq, not_false_eq_true, not_true_eq_false, List.cons_append, List.nil_append, List.append_nil, or_self, or_false, false_or, and_self, and_true, true_and, u_expr_chks, u_expr_rsts, expr_rsts, expr_slst_rsts, expr_lst_rsts, and_test_rsts, not_test_rsts, comparison_rsts, comparison_chks, a_expr_rsts, a_expr_chks, m_expr_rsts, m_expr_chks, atom_rsts, atom_rsts_post, argspec_rsts, argspec_item_rsts, argspec_item_rsts_post, ne_eq]

/-- Parser step for input "foo(1, 2)". -/
theorem ps_i_31 : argspecItemF 87 ⟨⟨['f', 'o', 'o', '(', '1', ',', ' ', '2', ')'], 6, [⟨0, 3, Tok.FNCT, "foo"⟩, ⟨3, 4, Tok.LPAR, "("⟩, ⟨4, 5, Tok.NUM, "1"⟩, ⟨5, 6, Tok.COMMA, ","⟩]⟩, 4⟩ = .ok ((none, (.Literal (.Number ⟨2, 1⟩ [] []))), ⟨⟨['f', 'o', 'o', '(', '1', ',', ' ', '2', ')'], 9, [⟨0, 3, Tok.FNCT, "foo"⟩, ⟨3, 4, Tok.LPAR, "("⟩, ⟨4, 5, Tok.NUM, "1"⟩, ⟨5, 6, Tok.COMMA, ","⟩, ⟨7, 8, Tok.NUM, "2"⟩, ⟨8, 9, Tok.RPAR, ")"⟩]⟩, 5⟩) := by
  rw [argspecItemF]
  simp only [ps_i_30, tk_i_20, pPeek, pScan, pRewind, scanRewind, peekIn, tokMem, exceptBind_ok, exceptBind_error, exceptMap_ok, exceptMap_error, exceptPure, Option.some.injEq, reduceIte, reduceDIte, reduceCtorEq, Nat.reduceAdd, Nat.reduceSub, Nat.reduceEqDiff, decide_True, decide_False, decide_eq_true_eq, ne_eq, not_false_eq_true, not_true_eq_false, List.cons_append, List.nil_append, List.append_nil, or_self, or_false, false_or, and_self, and_true, true_and, u_expr_chks, u_expr_rsts, expr_rsts, expr_slst_rsts, expr_lst_rsts, and_test_rsts, not_test_rsts, comparison_rsts, comparison_chks, a_expr_rsts, a_expr_chks, m_expr_rsts, m_expr_chks, atom_rsts, atom_rsts_post, argspec_rsts, argspec_item_rsts, argspec_item_rsts_post, ne_eq]

/-- Parser step for input "foo(1, 2)". -/
theorem ps_i_32 : argspecLoopF 87 [(none, (.Literal (.Number ⟨1, 1⟩ [] []))), (none, (.Literal (.Number ⟨2, 1⟩ [] [])))] ⟨⟨['f', 'o', 'o', '(', '1', ',', ' ', '2', ')'], 9, [⟨0, 3, Tok.FNCT, "foo"⟩, ⟨3, 4, Tok.LPAR, "("⟩, ⟨4, 5, Tok.NUM, "1"⟩, ⟨5, 6, Tok.COMMA, ","⟩, ⟨7, 8, Tok.NUM, "2"⟩, ⟨8, 9, Tok.RPAR, ")"⟩]⟩, 5⟩ = .ok ([(none, (.Literal (.Number ⟨1, 1⟩ [] []))), (none, (.Literal (.Number ⟨2, 1⟩ [] [])))], ⟨⟨['f', 'o', 'o', '(', '1', ',', ' ', '2', ')'], 9, [⟨0, 3, Tok.FNCT, "foo"⟩, ⟨3, 4, Tok.LPAR, "("⟩, ⟨4, 5, Tok.NUM, "1"⟩, ⟨5, 6, Tok.COMMA, ","⟩, ⟨7, 8, Tok.NUM, "2"⟩, ⟨8, 9, Tok.RPAR, ")"⟩]⟩, 5⟩) := by
  rw [argspecLoopF]
  simp only [tk_i_32, pPeek, pScan, pRewind, scanRewind, peekIn, tokMem, exceptBind_ok, exceptBind_error, exceptMap_ok, exceptMap_error, exceptPure, Option.some.injEq, reduceIte, reduceDIte, reduceCtorEq, Nat.reduceAdd, Nat.reduceSub, Nat.reduceEqDiff, decide_True, decide_False, decide_eq_true_eq, ne_eq, not_false_eq_true, not_true_eq_false, List.cons_append, List.nil_append, List.append_nil, or_self, or_false, false_or, and_self, and_true, true_and, u_expr_chks, u_expr_rsts, expr_rsts, expr_slst_rsts, expr_lst_rsts, and_test_rsts, not_test_rsts, comparison_rsts, comparison_chks, a_expr_rsts, a_expr_chks, m_expr_rsts, m_expr_chks, atom_rsts, atom_rsts_post, argspec_rsts, argspec_item_rsts, argspec_item_rsts_post, ne_eq]

/-- Parser step for input "foo(1, 2)". -/
theorem ps_i_33 : argspecLoopF 88 [(none, (.Literal (.Number ⟨1, 1⟩ [] [])))] ⟨⟨['f', 'o', 'o', '(', '1', ',', ' ', '2', ')'], 6, [⟨0, 3, Tok.FNCT, "foo"⟩, ⟨3, 4, Tok.LPAR, "("⟩, ⟨4, 5, Tok.NUM, "1"⟩, ⟨5, 6, Tok.COMMA, ","⟩]⟩, 3⟩ = .ok ([(none, (.Literal (.Number ⟨1, 1⟩ [] []))), (none, (.Literal (.Number ⟨2, 1⟩ [] [])))], ⟨⟨['f', 'o', 'o', '(', '1', ',', ' ', '2', ')'], 9, [⟨0, 3, Tok.FNCT, "foo"⟩, ⟨3, 4, Tok.LPAR, "("⟩, ⟨4, 5, Tok.NUM, "1"⟩, ⟨5, 6, Tok.COMMA, ","⟩, ⟨7, 8, Tok.NUM, "2"⟩, ⟨8, 9, Tok.RPAR, ")"⟩]⟩, 5⟩) := by
  rw [argspecLoopF]
  simp only [ps_i_31, ps_i_32, tk_i_18, tk_i_19, pPeek, pScan, pRewind, scanRewind, peekIn, tokMem, exceptBind_ok, exceptBind_error, exceptMap_ok, exceptMap_error, exceptPure, Option.some.injEq, reduceIte, reduceDIte, reduceCtorEq, Nat.reduceAdd, Nat.reduceSub, Nat.reduceEqDiff, decide_True, decide_False, decide_eq_true_eq, ne_eq, not_false_eq_true, not_true_eq_false, List.cons_append, List.nil_append, List.append_nil, or_self, or_false, false_or, and_self, and_true, true_and, u_expr_chks, u_expr_rsts, expr_rsts, expr_slst_rsts, expr_lst_rsts, and_test_rsts, not_test_rsts, comparison_rsts, comparison_chks, a_expr_rsts, a_expr_chks, m_expr_rsts, m_expr_chks, atom_rsts, atom_rsts_post, argspec_rsts, argspec_item_rsts, argspec_item_rsts_post, ne_eq]

/-- Parser step for input "foo(1, 2)". -/
theorem ps_i_34 : argspecF 89 ⟨⟨['f', 'o', 'o', '(', '1', ',', ' ', '2', ')'], 5, [⟨0, 3, Tok.FNCT, "foo"⟩, ⟨3, 4, Tok.LPAR, "("⟩, ⟨4, 5, Tok.NUM, "1"⟩]⟩, 2⟩ = .ok ([(none, (.Literal (.Number ⟨1, 1⟩ [] []))), (none, (.Literal (.Number ⟨2, 1⟩ [] [])))], ⟨⟨['f', 'o', 'o', '(', '1', ',', ' ', '2', ')'], 9, [⟨0, 3, Tok.FNCT, "foo"⟩, ⟨3, 4, Tok.LPAR, "("⟩, ⟨4, 5, Tok.NUM, "1"⟩, ⟨5, 6, Tok.COMMA, ","⟩, ⟨7, 8, Tok.NUM, "2"⟩, ⟨8, 9, Tok.RPAR, ")"⟩]⟩, 5⟩) := by
  rw [argspecF, ps_i_15]
  rw [exceptBind_ok]
  simp only [ps_i_33, pPeek, pScan, pRewind, scanRewind, peekIn, tokMem, exceptBind_ok, exceptBind_error, exceptMap_ok, exceptMap_error, exceptPure, Option.some.injEq, reduceIte, reduceDIte, reduceCtorEq, Nat.reduceAdd, Nat.reduceSub, Nat.reduceEqDiff, decide_True, decide_False, decide_eq_true_eq, ne_eq, not_false_eq_true, not_true_eq_false, List.cons_append, List.nil_append, List.append_nil, or_self, or_false, false_or, and_self, and_true, true_and, u_expr_chks, u_expr_rsts, expr_rsts, expr_slst_rsts, expr_lst_rsts, and_test_rsts, not_test_rsts, comparison_rsts, comparison_chks, a_expr_rsts, a_expr_chks, m_expr_rsts, m_expr_chks, atom_rsts, atom_rsts_post, argspec_rsts, argspec_item_rsts, argspec_item_rsts_post, ne_eq]

/-- Parser step for input "foo(1, 2)". -/
theorem ps_i_35 : atomF 90 ⟨⟨['f', 'o', 'o', '(', '1', ',', ' ', '2', ')'], 3, [⟨0, 3, Tok.FNCT, "foo"⟩]⟩, 0⟩ = .ok ((.CallOp "foo" [(none, (.Literal (.Number ⟨1, 1⟩ [] []))), (none, (.Literal (.Number ⟨2, 1⟩ [] [])))]), ⟨⟨['f', 'o', 'o', '(', '1', ',', ' ', '2', ')'], 9, [⟨0, 3, Tok.FNCT, "foo"⟩, ⟨3, 4, Tok.LPAR, "("⟩, ⟨4, 5, Tok.NUM, "1"⟩, ⟨5, 6, Tok.COMMA, ","⟩, ⟨7, 8, Tok.NUM, "2"⟩, ⟨8, 9, Tok.RPAR, ")"⟩]⟩, 6⟩) := by
  rw [atomF]
  simp only [ps_i_34, tk_i_2, tk_i_3, tk_i_33, tk_i_4, tk_i_5, pPeek, pScan, pRewind, scanRewind, peekIn, tokMem, exceptBind_ok, exceptBind_error, exceptMap_ok, exceptMap_error, exceptPure, Option.some.injEq, reduceIte, reduceDIte, reduceCtorEq, Nat.reduceAdd, Nat.reduceSub, Nat.reduceEqDiff, decide_True, decide_False, decide_eq_true_eq, ne_eq, not_false_eq_true, not_true_eq_false, List.cons_append, List.nil_append, List.append_nil, or_self, or_false, false_or, and_self, and_true, true_and, u_expr_chks, u_expr_rsts, expr_rsts, expr_slst_rsts, expr_lst_rsts, and_test_rsts, not_test_rsts, comparison_rsts, comparison_chks, a_expr_rsts, a_expr_chks, m_expr_rsts, m_expr_chks, atom_rsts, atom_rsts_post, argspec_rsts, argspec_item_rsts, argspec_item_rsts_post, sdata0, sdata1, sdata2, sdata3, sdata4, sdata5, sdata6, sdata7, sdata8, sdata9, sdata10, sdata11, sdata12, sdata13, parse_bareword, COLOR_NAMES, parseNum, digitsToNat, lowerStr, parseHexColor, hexToNat, isDigitC, isAlphaC, SassQ.add, SassQ.fromNat, mkQ, gcdQ, gcdFuel, List.find?, List.map, List.take, List.drop, List.takeWhile, List.dropWhile, List.dropLast, List.isEmpty, List.length, Option.map, Char.reduceEq, Char.reduceBEq, Char.reduceLE, Char.reduceLT, Char.reduceToNat, Char.reduceToLower, String.reduceMk, String.reduceEq, String.reduceBEq, Nat.reduceMul, Nat.reduceDiv, Nat.reduceMod, Nat.reducePow, Nat.reduceLeDiff, Nat.reduceLT, Nat.reduceGT, Int.reduceAdd, Int.reduceSub, Int.reduceMul, Int.reduceNeg, Int.reduceDiv, Int.reduceLT, Int.reduceLE, Int.reduceEq, Int.reduceBEq, Int.reduceToNat, Int.reduceAbs, Int.reducePow, Int.reduceMod, Int.reduceOfNat, Nat.cast_ofNat, Nat.cast_one, Nat.cast_zero]

/-- Parser step for input "foo(1, 2)". -/
theorem ps_i_36 : uExprF 91 ⟨⟨['f', 'o', 'o', '(', '1', ',', ' ', '2', ')'], 3, [⟨0, 3, Tok.FNCT, "foo"⟩]⟩, 0⟩ = .ok ((.CallOp "foo" [(none, (.Literal (.Number ⟨1, 1⟩ [] []))), (none, (.Literal (.Number ⟨2, 1⟩ [] [])))]), ⟨⟨['f', 'o', 'o', '(', '1', ',', ' ', '2', ')'], 9, [⟨0, 3, Tok.FNCT, "foo"⟩, ⟨3, 4, Tok.LPAR, "("⟩, ⟨4, 5, Tok.NUM, "1"⟩, ⟨5, 6, Tok.COMMA, ","⟩, ⟨7, 8, Tok.NUM, "2"⟩, ⟨8, 9, Tok.RPAR, ")"⟩]⟩, 6⟩) := by
  rw [uExprF]
  simp only [ps_i_35, tk_i_1, pPeek, pScan, pRewind, scanRewind, peekIn, tokMem, exceptBind_ok, exceptBind_error, exceptMap_ok, exceptMap_error, exceptPure, Option.some.injEq, reduceIte, reduceDIte, reduceCtorEq, Nat.reduceAdd, Nat.reduceSub, Nat.reduceEqDiff, decide_True, decide_False, decide_eq_true_eq, ne_eq, not_false_eq_true, not_true_eq_false, List.cons_append, List.nil_append, List.append_nil, or_self, or_false, false_or, and_self, and_true, true_and, u_expr_chks, u_expr_rsts, expr_rsts, expr_slst_rsts, expr_lst_rsts, and_test_rsts, not_test_rsts, comparison_rsts, comparison_chks, a_expr_rsts, a_expr_chks, m_expr_rsts, m_expr_chks, atom_rsts, atom_rsts_post, argspec_rsts, argspec_item_rsts, argspec_item_rsts_post, ne_eq]

/-- Parser step for input "foo(1, 2)". -/
theorem ps_i_37 : mLoopF 91 (.CallOp "foo" [(none, (.Literal (.Number ⟨1, 1⟩ [] []))), (none, (.Literal (.Number ⟨2, 1⟩ [] [])))]) ⟨⟨['f', 'o', 'o', '(', '1', ',', ' ', '2', ')'], 9, [⟨0, 3, Tok.FNCT, "foo"⟩, ⟨3, 4, Tok.LPAR, "("⟩, ⟨4, 5, Tok.NUM, "1"⟩, ⟨5, 6, Tok.COMMA, ","⟩, ⟨7, 8, Tok.NUM, "2"⟩, ⟨8, 9, Tok.RPAR, ")"⟩]⟩, 6⟩ = .ok ((.CallOp "foo" [(none, (.Literal (.Number ⟨1, 1⟩ [] []))), (none, (.Literal (.Number ⟨2, 1⟩ [] [])))]), ⟨⟨['f', 'o', 'o', '(', '1', ',', ' ', '2', ')'], 9, [⟨0, 3, Tok.FNCT, "foo"⟩, ⟨3, 4, Tok.LPAR, "("⟩, ⟨4, 5, Tok.NUM, "1"⟩, ⟨5, 6, Tok.COMMA, ","⟩, ⟨7, 8, Tok.NUM, "2"⟩, ⟨8, 9, Tok.RPAR, ")"⟩, ⟨9, 9, Tok.END, ""⟩]⟩, 6⟩) := by
  rw [mLoopF]
  simp only [tk_i_34, pPeek, pScan, pRewind, scanRewind, peekIn, tokMem, exceptBind_ok, exceptBind_error, exceptMap_ok, exceptMap_error, exceptPure, Option.some.injEq, reduceIte, reduceDIte, reduceCtorEq, Nat.reduceAdd, Nat.reduceSub, Nat.reduceEqDiff, decide_True, decide_False, decide_eq_true_eq, ne_eq, not_false_eq_true, not_true_eq_false, List.cons_append, List.nil_append, List.append_nil, or_self, or_false, false_or, and_self, and_true, true_and, u_expr_chks, u_expr_rsts, expr_rsts, expr_slst_rsts, expr_lst_rsts, and_test_rsts, not_test_rsts, comparison_rsts, comparison_chks, a_expr_rsts, a_expr_chks, m_expr_rsts, m_expr_chks, atom_rsts, atom_rsts_post, argspec_rsts, argspec_item_rsts, argspec_item_rsts_post, ne_eq]

/-- Parser step for input "foo(1, 2)". -/
theorem ps_i_38 : mExprF 92 ⟨⟨['f', 'o', 'o', '(', '1', ',', ' ', '2', ')'], 3, [⟨0, 3, Tok.FNCT, "foo"⟩]⟩, 0⟩ = .ok ((.CallOp "foo" [(none, (.Literal (.Number ⟨1, 1⟩ [] []))), (none, (.Literal (.Number ⟨2, 1⟩ [] [])))]), ⟨⟨['f', 'o', 'o', '(', '1', ',', ' ', '2', ')'], 9, [⟨0, 3, Tok.FNCT, "foo"⟩, ⟨3, 4, Tok.LPAR, "("⟩, ⟨4, 5, Tok.NUM, "1"⟩, ⟨5, 6, Tok.COMMA, ","⟩, ⟨7, 8, Tok.NUM, "2"⟩, ⟨8, 9, Tok.RPAR, ")"⟩, ⟨9, 9, Tok.END, ""⟩]⟩, 6⟩) := by
  rw [mExprF, ps_i_36]
  rw [exceptBind_ok]
  simp only [ps_i_37, pPeek, pScan, pRewind, scanRewind, peekIn, tokMem, exceptBind_ok, exceptBind_error, exceptMap_ok, exceptMap_error, exceptPure, Option.some.injEq, reduceIte, reduceDIte, reduceCtorEq, Nat.reduceAdd, Nat.reduceSub, Nat.reduceEqDiff, decide_True, decide_False, decide_eq_true_eq, ne_eq, not_false_eq_true, not_true_eq_false, List.cons_append, List.nil_append, List.append_nil, or_self, or_false, false_or, and_self, and_true, true_and, u_expr_chks, u_expr_rsts, expr_rsts, expr_slst_rsts, expr_lst_rsts, and_test_rsts, not_test_rsts, comparison_rsts, comparison_chks, a_expr_rsts, a_expr_chks, m_expr_rsts, m_expr_chks, atom_rsts, atom_rsts_post, argspec_rsts, argspec_item_rsts, argspec_item_rsts_post, ne_eq]

/-- Parser step for input "foo(1, 2)". -/
theorem ps_i_39 : aLoopF 92 (.CallOp "foo" [(none, (.Literal (.Number ⟨1, 1⟩ [] []))), (none, (.Literal (.Number ⟨2, 1⟩ [] [])))]) ⟨⟨['f', 'o', 'o', '(', '1', ',', ' ', '2', ')'], 9, [⟨0, 3, Tok.FNCT, "foo"⟩, ⟨3, 4, Tok.LPAR, "("⟩, ⟨4, 5, Tok.NUM, "1"⟩, ⟨5, 6, Tok.COMMA, ","⟩, ⟨7, 8, Tok.NUM, "2"⟩, ⟨8, 9, Tok.RPAR, ")"⟩, ⟨9, 9, Tok.END, ""⟩]⟩, 6⟩ = .ok ((.CallOp "foo" [(none, (.Literal (.Number ⟨1, 1⟩ [] []))), (none, (.Literal (.Number ⟨2, 1⟩ [] [])))]), ⟨⟨['f', 'o', 'o', '(', '1', ',', ' ', '2', ')'], 9, [⟨0, 3, Tok.FNCT, "foo"⟩, ⟨3, 4, Tok.LPAR, "("⟩, ⟨4, 5, Tok.NUM, "1"⟩, ⟨5, 6, Tok.COMMA, ","⟩, ⟨7, 8, Tok.NUM, "2"⟩, ⟨8, 9, Tok.RPAR, ")"⟩, ⟨9, 9, Tok.END, ""⟩]⟩, 6⟩) := by
  rw [aLoopF]
  simp only [tk_i_35, pPeek, pScan, pRewind, scanRewind, peekIn, tokMem, exceptBind_ok, exceptBind_error, exceptMap_ok, exceptMap_error, exceptPure, Option.some.injEq, reduceIte, reduceDIte, reduceCtorEq, Nat.reduceAdd, Nat.reduceSub, Nat.reduceEqDiff, decide_True, decide_False, decide_eq_true_eq, ne_eq, not_false_eq_true, not_true_eq_false, List.cons_append, List.nil_append, List.append_nil, or_self, or_false, false_or, and_self, and_true, true_and, u_expr_chks, u_expr_rsts, expr_rsts, expr_slst_rsts, expr_lst_rsts, and_test_rsts, not_test_rsts, comparison_rsts, comparison_chks, a_expr_rsts, a_expr_chks, m_expr_rsts, m_expr_chks, atom_rsts, atom_rsts_post, argspec_rsts, argspec_item_rsts, argspec_item_rsts_post, ne_eq]

/-- Parser step for input "foo(1, 2)". -/
theorem ps_i_40 : aExprF 93 ⟨⟨['f', 'o', 'o', '(', '1', ',', ' ', '2', ')'], 3, [⟨0, 3, Tok.FNCT, "foo"⟩]⟩, 0⟩ = .ok ((.CallOp "foo" [(none, (.Literal (.Number ⟨1, 1⟩ [] []))), (none, (.Literal (.Number ⟨2, 1⟩ [] [])))]), ⟨⟨['f', 'o', 'o', '(', '1', ',', ' ', '2', ')'], 9, [⟨0, 3, Tok.FNCT, "foo"⟩, ⟨3, 4, Tok.LPAR, "("⟩, ⟨4, 5, Tok.NUM, "1"⟩, ⟨5, 6, Tok.COMMA, ","⟩, ⟨7, 8, Tok.NUM, "2"⟩, ⟨8, 9, Tok.RPAR, ")"⟩, ⟨9, 9, Tok.END, ""⟩]⟩, 6⟩) := by
  rw [aExprF, ps_i_38]
  rw [exceptBind_ok]
  simp only [ps_i_39, pPeek, pScan, pRewind, scanRewind, peekIn, tokMem, exceptBind_ok, exceptBind_error, exceptMap_ok, exceptMap_error, exceptPure, Option.some.injEq, reduceIte, reduceDIte, reduceCtorEq, Nat.reduceAdd, Nat.reduceSub, Nat.reduceEqDiff, decide_True, decide_False, decide_eq_true_eq, ne_eq, not_false_eq_true, not_true_eq_false, List.cons_append, List.nil_append, List.append_nil, or_self, or_false, false_or, and_self, and_true, true_and, u_expr_chks, u_expr_rsts, expr_rsts, expr_slst_rsts, expr_lst_rsts, and_test_rsts, not_test_rsts, comparison_rsts, comparison_chks, a_expr_rsts, a_expr_chks, m_expr_rsts, m_expr_chks, atom_rsts, atom_rsts_post, argspec_rsts, argspec_item_rsts, argspec_item_rsts_post, ne_eq]

/-- Parser step for input "foo(1, 2)". -/
theorem ps_i_41 : compLoopF 93 (.CallOp "foo" [(none, (.Literal (.Number ⟨1, 1⟩ [] []))), (none, (.Literal (.Number ⟨2, 1⟩ [] [])))]) ⟨⟨['f', 'o', 'o', '(', '1', ',', ' ', '2', ')'], 9, [⟨0, 3, Tok.FNCT, "foo"⟩, ⟨3, 4, Tok.LPAR, "("⟩, ⟨4, 5, Tok.NUM, "1"⟩, ⟨5, 6, Tok.COMMA, ","⟩, ⟨7, 8, Tok.NUM, "2"⟩, ⟨8, 9, Tok.RPAR, ")"⟩, ⟨9, 9, Tok.END, ""⟩]⟩, 6⟩ = .ok ((.CallOp "foo" [(none, (.Literal (.Number ⟨1, 1⟩ [] []))), (none, (.Literal (.Number ⟨2, 1⟩ [] [])))]), ⟨⟨['f', 'o', 'o', '(', '1', ',', ' ', '2', ')'], 9, [⟨0, 3, Tok.FNCT, "foo"⟩, ⟨3, 4, Tok.LPAR, "("⟩, ⟨4, 5, Tok.NUM, "1"⟩, ⟨5, 6, Tok.COMMA, ","⟩, ⟨7, 8, Tok.NUM, "2"⟩, ⟨8, 9, Tok.RPAR, ")"⟩, ⟨9, 9, Tok.END, ""⟩]⟩, 6⟩) := by
  rw [compLoopF]
  simp only [tk_i_36, pPeek, pScan, pRewind, scanRewind, peekIn, tokMem, exceptBind_ok, exceptBind_error, exceptMap_ok, exceptMap_error, exceptPure, Option.some.injEq, reduceIte, reduceDIte, reduceCtorEq, Nat.reduceAdd, Nat.reduceSub, Nat.reduceEqDiff, decide_True, decide_False, decide_eq_true_eq, ne_eq, not_false_eq_true, not_true_eq_false, List.cons_append, List.nil_append, List.append_nil, or_self, or_false, false_or, and_self, and_true, true_and, u_expr_chks, u_expr_rsts, expr_rsts, expr_slst_rsts, expr_lst_rsts, and_test_rsts, not_test_rsts, comparison_rsts, comparison_chks, a_expr_rsts, a_expr_chks, m_expr_rsts, m_expr_chks, atom_rsts, atom_rsts_post, argspec_rsts, argspec_item_rsts, argspec_item_rsts_post, ne_eq]

/-- Parser step for input "foo(1, 2)". -/
theorem ps_i_42 : comparisonF 94 ⟨⟨['f', 'o', 'o', '(', '1', ',', ' ', '2', ')'], 3, [⟨0, 3, Tok.FNCT, "foo"⟩]⟩, 0⟩ = .ok ((.CallOp "foo" [(none, (.Literal (.Number ⟨1, 1⟩ [] []))), (none, (.Literal (.Number ⟨2, 1⟩ [] [])))]), ⟨⟨['f', 'o', 'o', '(', '1', ',', ' ', '2', ')'], 9, [⟨0, 3, Tok.FNCT, "foo"⟩, ⟨3, 4, Tok.LPAR, "("⟩, ⟨4, 5, Tok.NUM, "1"⟩, ⟨5, 6, Tok.COMMA, ","⟩, ⟨7, 8, Tok.NUM, "2"⟩, ⟨8, 9, Tok.RPAR, ")"⟩, ⟨9, 9, Tok.END, ""⟩]⟩, 6⟩) := by
  rw [comparisonF, ps_i_40]
  rw [exceptBind_ok]
  simp only [ps_i_41, pPeek, pScan, pRewind, scanRewind, peekIn, tokMem, exceptBind_ok, exceptBind_error, exceptMap_ok, exceptMap_error, exceptPure, Option.some.injEq, reduceIte, reduceDIte, reduceCtorEq, Nat.reduceAdd, Nat.reduceSub, Nat.reduceEqDiff, decide_True, decide_False, decide_eq_true_eq, ne_eq, not_false_eq_true, not_true_eq_false, List.cons_append, List.nil_append, List.append_nil, or_self, or_false, false_or, and_self, and_true, true_and, u_expr_chks, u_expr_rsts, expr_rsts, expr_slst_rsts, expr_lst_rsts, and_test_rsts, not_test_rsts, comparison_rsts, comparison_chks, a_expr_rsts, a_expr_chks, m_expr_rsts, m_expr_chks, atom_rsts, atom_rsts_post, argspec_rsts, argspec_item_rsts, argspec_item_rsts_post, ne_eq]

/-- Parser step for input "foo(1, 2)". -/
theorem ps_i_43 : notTestF 95 ⟨⟨['f', 'o', 'o', '(', '1', ',', ' ', '2', ')'], 0, []⟩, 0⟩ = .ok ((.CallOp "foo" [(none, (.Literal (.Number ⟨1, 1⟩ [] []))), (none, (.Literal (.Number ⟨2, 1⟩ [] [])))]), ⟨⟨['f', 'o', 'o', '(', '1', ',', ' ', '2', ')'], 9, [⟨0, 3, Tok.FNCT, "foo"⟩, ⟨3, 4, Tok.LPAR, "("⟩, ⟨4, 5, Tok.NUM, "1"⟩, ⟨5, 6, Tok.COMMA, ","⟩, ⟨7, 8, Tok.NUM, "2"⟩, ⟨8, 9, Tok.RPAR, ")"⟩, ⟨9, 9, Tok.END, ""⟩]⟩, 6⟩) := by
  rw [notTestF]
  simp only [ps_i_42, tk_i_0, pPeek, pScan, pRewind, scanRewind, peekIn, tokMem, exceptBind_ok, exceptBind_error, exceptMap_ok, exceptMap_error, exceptPure, Option.some.injEq, reduceIte, reduceDIte, reduceCtorEq, Nat.reduceAdd, Nat.reduceSub, Nat.reduceEqDiff, decide_True, decide_False, decide_eq_true_eq, ne_eq, not_false_eq_true, not_true_eq_false, List.cons_append, List.nil_append, List.append_nil, or_self, or_false, false_or, and_self, and_true, true_and, u_expr_chks, u_expr_rsts, expr_rsts, expr_slst_rsts, expr_lst_rsts, and_test_rsts, not_test_rsts, comparison_rsts, comparison_chks, a_expr_rsts, a_expr_chks, m_expr_rsts, m_expr_chks, atom_rsts, atom_rsts_post, argspec_rsts, argspec_item_rsts, argspec_item_rsts_post, ne_eq]

/-- Parser step for input "foo(1, 2)". -/
theorem ps_i_44 : andLoopF 95 (.CallOp "foo" [(none, (.Literal (.Number ⟨1, 1⟩ [] []))), (none, (.Literal (.Number ⟨2, 1⟩ [] [])))]) ⟨⟨['f', 'o', 'o', '(', '1', ',', ' ', '2', ')'], 9, [⟨0, 3, Tok.FNCT, "foo"⟩, ⟨3, 4, Tok.LPAR, "("⟩, ⟨4, 5, Tok.NUM, "1"⟩, ⟨5, 6, Tok.COMMA, ","⟩, ⟨7, 8, Tok.NUM, "2"⟩, ⟨8, 9, Tok.RPAR, ")"⟩, ⟨9, 9, Tok.END, ""⟩]⟩, 6⟩ = .ok ((.CallOp "foo" [(none, (.Literal (.Number ⟨1, 1⟩ [] []))), (none, (.Literal (.Number ⟨2, 1⟩ [] [])))]), ⟨⟨['f', 'o', 'o', '(', '1', ',', ' ', '2', ')'], 9, [⟨0, 3, Tok.FNCT, "foo"⟩, ⟨3, 4, Tok.LPAR, "("⟩, ⟨4, 5, Tok.NUM, "1"⟩, ⟨5, 6, Tok.COMMA, ","⟩, ⟨7, 8, Tok.NUM, "2"⟩, ⟨8, 9, Tok.RPAR, ")"⟩, ⟨9, 9, Tok.END, ""⟩]⟩, 6⟩) := by
  rw [andLoopF]
  simp only [tk_i_37, pPeek, pScan, pRewind, scanRewind, peekIn, tokMem, exceptBind_ok, exceptBind_error, exceptMap_ok, exceptMap_error, exceptPure, Option.some.injEq, reduceIte, reduceDIte, reduceCtorEq, Nat.reduceAdd, Nat.reduceSub, Nat.reduceEqDiff, decide_True, decide_False, decide_eq_true_eq, ne_eq, not_false_eq_true, not_true_eq_false, List.cons_append, List.nil_append, List.append_nil, or_self, or_false, false_or, and_self, and_true, true_and, u_expr_chks, u_expr_rsts, expr_rsts, expr_slst_rsts, expr_lst_rsts, and_test_rsts, not_test_rsts, comparison_rsts, comparison_chks, a_expr_rsts, a_expr_chks, m_expr_rsts, m_expr_chks, atom_rsts, atom_rsts_post, argspec_rsts, argspec_item_rsts, argspec_item_rsts_post, ne_eq]

/-- Parser step for input "foo(1, 2)". -/
theorem ps_i_45 : andTestF 96 ⟨⟨['f', 'o', 'o', '(', '1', ',', ' ', '2', ')'], 0, []⟩, 0⟩ = .ok ((.CallOp "foo" [(none, (.Literal (.Number ⟨1, 1⟩ [] []))), (none, (.Literal (.Number ⟨2, 1⟩ [] [])))]), ⟨⟨['f', 'o', 'o', '(', '1', ',', ' ', '2', ')'], 9, [⟨0, 3, Tok.FNCT, "foo"⟩, ⟨3, 4, Tok.LPAR, "("⟩, ⟨4, 5, Tok.NUM, "1"⟩, ⟨5, 6, Tok.COMMA, ","⟩, ⟨7, 8, Tok.NUM, "2"⟩, ⟨8, 9, Tok.RPAR, ")"⟩, ⟨9, 9, Tok.END, ""⟩]⟩, 6⟩) := by
  rw [andTestF, ps_i_43]
  rw [exceptBind_ok]
  simp only [ps_i_44, pPeek, pScan, pRewind, scanRewind, peekIn, tokMem, exceptBind_ok, exceptBind_error, exceptMap_ok, exceptMap_error, exceptPure, Option.some.injEq, reduceIte, reduceDIte, reduceCtorEq, Nat.reduceAdd, Nat.reduceSub, Nat.reduceEqDiff, decide_True, decide_False, decide_eq_true_eq, ne_eq, not_false_eq_true, not_true_eq_false, List.cons_append, List.nil_append, List.append_nil, or_self, or_false, false_or, and_self, and_true, true_and, u_expr_chks, u_expr_rsts, expr_rsts, expr_slst_rsts, expr_lst_rsts, and_test_rsts, not_test_rsts, comparison_rsts, comparison_chks, a_expr_rsts, a_expr_chks, m_expr_rsts, m_expr_chks, atom_rsts, atom_rsts_post, argspec_rsts, argspec_item_rsts, argspec_item_rsts_post, ne_eq]

/-- Parser step for input "foo(1, 2)". -/
theorem ps_i_46 : exprLoopF 96 (.CallOp "foo" [(none, (.Literal (.Number ⟨1, 1⟩ [] []))), (none, (.Literal (.Number ⟨2, 1⟩ [] [])))]) ⟨⟨['f', 'o', 'o', '(', '1', ',', ' ', '2', ')'], 9, [⟨0, 3, Tok.FNCT, "foo"⟩, ⟨3, 4, Tok.LPAR, "("⟩, ⟨4, 5, Tok.NUM, "1"⟩, ⟨5, 6, Tok.COMMA, ","⟩, ⟨7, 8, Tok.NUM, "2"⟩, ⟨8, 9, Tok.RPAR, ")"⟩, ⟨9, 9, Tok.END, ""⟩]⟩, 6⟩ = .ok ((.CallOp "foo" [(none, (.Literal (.Number ⟨1, 1⟩ [] []))), (none, (.Literal (.Number ⟨2, 1⟩ [] [])))]), ⟨⟨['f', 'o', 'o', '(', '1', ',', ' ', '2', ')'], 9, [⟨0, 3, Tok.FNCT, "foo"⟩, ⟨3, 4, Tok.LPAR, "("⟩, ⟨4, 5, Tok.NUM, "1"⟩, ⟨5, 6, Tok.COMMA, ","⟩, ⟨7, 8, Tok.NUM, "2"⟩, ⟨8, 9, Tok.RPAR, ")"⟩, ⟨9, 9, Tok.END, ""⟩]⟩, 6⟩) := by
  rw [exprLoopF]
  simp only [tk_i_38, pPeek, pScan, pRewind, scanRewind, peekIn, tokMem, exceptBind_ok, exceptBind_error, exceptMap_ok, exceptMap_error, exceptPure, Option.some.injEq, reduceIte, reduceDIte, reduceCtorEq, Nat.reduceAdd, Nat.reduceSub, Nat.reduceEqDiff, decide_True, decide_False, decide_eq_true_eq, ne_eq, not_false_eq_true, not_true_eq_false, List.cons_append, List.nil_append, List.append_nil, or_self, or_false, false_or, and_self, and_true, true_and, u_expr_chks, u_expr_rsts, expr_rsts, expr_slst_rsts, expr_lst_rsts, and_test_rsts, not_test_rsts, comparison_rsts, comparison_chks, a_expr_rsts, a_expr_chks, m_expr_rsts, m_expr_chks, atom_rsts, atom_rsts_post, argspec_rsts, argspec_item_rsts, argspec_item_rsts_post, ne_eq]

/-- Parser step for input "foo(1, 2)". -/
theorem ps_i_47 : exprF 97 ⟨⟨['f', 'o', 'o', '(', '1', ',', ' ', '2', ')'], 0, []⟩, 0⟩ = .ok ((.CallOp "foo" [(none, (.Literal (.Number ⟨1, 1⟩ [] []))), (none, (.Literal (.Number ⟨2, 1⟩ [] [])))]), ⟨⟨['f', 'o', 'o', '(', '1', ',', ' ', '2', ')'], 9, [⟨0, 3, Tok.FNCT, "foo"⟩, ⟨3, 4, Tok.LPAR, "("⟩, ⟨4, 5, Tok.NUM, "1"⟩, ⟨5, 6, Tok.COMMA, ","⟩, ⟨7, 8, Tok.NUM, "2"⟩, ⟨8, 9, Tok.RPAR, ")"⟩, ⟨9, 9, Tok.END, ""⟩]⟩, 6⟩) := by
  rw [exprF, ps_i_45]
  rw [exceptBind_ok]
  simp only [ps_i_46, pPeek, pScan, pRewind, scanRewind, peekIn, tokMem, exceptBind_ok, exceptBind_error, exceptMap_ok, exceptMap_error, exceptPure, Option.some.injEq, reduceIte, reduceDIte, reduceCtorEq, Nat.reduceAdd, Nat.reduceSub, Nat.reduceEqDiff, decide_True, decide_False, decide_eq_true_eq, ne_eq, not_false_eq_true, not_true_eq_false, List.cons_append, List.nil_append, List.append_nil, or_self, or_false, false_or, and_self, and_true, true_and, u_expr_chks, u_expr_rsts, expr_rsts, expr_slst_rsts, expr_lst_rsts, and_test_rsts, not_test_rsts, comparison_rsts, comparison_chks, a_expr_rsts, a_expr_chks, m_expr_rsts, m_expr_chks, atom_rsts, atom_rsts_post, argspec_rsts, argspec_item_rsts, argspec_item_rsts_post, ne_eq]

/-- Parser step for input "foo(1, 2)". -/
theorem ps_i_48 : exprSlstLoopF 97 [(.CallOp "foo" [(none, (.Literal (.Number ⟨1, 1⟩ [] []))), (none, (.Literal (.Number ⟨2, 1⟩ [] [])))])] ⟨⟨['f', 'o', 'o', '(', '1', ',', ' ', '2', ')'], 9, [⟨0, 3, Tok.FNCT, "foo"⟩, ⟨3, 4, Tok.LPAR, "("⟩, ⟨4, 5, Tok.NUM, "1"⟩, ⟨5, 6, Tok.COMMA, ","⟩, ⟨7, 8, Tok.NUM, "2"⟩, ⟨8, 9, Tok.RPAR, ")"⟩, ⟨9, 9, Tok.END, ""⟩]⟩, 6⟩ = .ok ((.CallOp "foo" [(none, (.Literal (.Number ⟨1, 1⟩ [] []))), (none, (.Literal (.Number ⟨2, 1⟩ [] [])))]), ⟨⟨['f', 'o', 'o', '(', '1', ',', ' ', '2', ')'], 9, [⟨0, 3, Tok.FNCT, "foo"⟩, ⟨3, 4, Tok.LPAR, "("⟩, ⟨4, 5, Tok.NUM, "1"⟩, ⟨5, 6, Tok.COMMA, ","⟩, ⟨7, 8, Tok.NUM, "2"⟩, ⟨8, 9, Tok.RPAR, ")"⟩, ⟨9, 9, Tok.END, ""⟩]⟩, 6⟩) := by
  rw [exprSlstLoopF]
  simp only [tk_i_39, pPeek, pScan, pRewind, scanRewind, peekIn, tokMem, exceptBind_ok, exceptBind_error, exceptMap_ok, exceptMap_error, exceptPure, Option.some.injEq, reduceIte, reduceDIte, reduceCtorEq, Nat.reduceAdd, Nat.reduceSub, Nat.reduceEqDiff, decide_True, decide_False, decide_eq_true_eq, ne_eq, not_false_eq_true, not_true_eq_false, List.cons_append, List.nil_append, List.append_nil, or_self, or_false, false_or, and_self, and_true, true_and, u_expr_chks, u_expr_rsts, expr_rsts, expr_slst_rsts, expr_lst_rsts, and_test_rsts, not_test_rsts, comparison_rsts, comparison_chks, a_expr_rsts, a_expr_chks, m_expr_rsts, m_expr_chks, atom_rsts, atom_rsts_post, argspec_rsts, argspec_item_rsts, argspec_item_rsts_post, ne_eq]

/-- Parser step for input "foo(1, 2)". -/
theorem ps_i_49 : exprSlstF 98 ⟨⟨['f', 'o', 'o', '(', '1', ',', ' ', '2', ')'], 0, []⟩, 0⟩ = .ok ((.CallOp "foo" [(none, (.Literal (.Number ⟨1, 1⟩ [] []))), (none, (.Literal (.Number ⟨2, 1⟩ [] [])))]), ⟨⟨['f', 'o', 'o', '(', '1', ',', ' ', '2', ')'], 9, [⟨0, 3, Tok.FNCT, "foo"⟩, ⟨3, 4, Tok.LPAR, "("⟩, ⟨4, 5, Tok.NUM, "1"⟩, ⟨5, 6, Tok.COMMA, ","⟩, ⟨7, 8, Tok.NUM, "2"⟩, ⟨8, 9, Tok.RPAR, ")"⟩, ⟨9, 9, Tok.END, ""⟩]⟩, 6⟩) := by
  rw [exprSlstF, ps_i_47]
  rw [exceptBind_ok]
  simp only [ps_i_48, pPeek, pScan, pRewind, scanRewind, peekIn, tokMem, exceptBind_ok, exceptBind_error, exceptMap_ok, exceptMap_error, exceptPure, Option.some.injEq, reduceIte, reduceDIte, reduceCtorEq, Nat.reduceAdd, Nat.reduceSub, Nat.reduceEqDiff, decide_True, decide_False, decide_eq_true_eq, ne_eq, not_false_eq_true, not_true_eq_false, List.cons_append, List.nil_append, List.append_nil, or_self, or_false, false_or, and_self, and_true, true_and, u_expr_chks, u_expr_rsts, expr_rsts, expr_slst_rsts, expr_lst_rsts, and_test_rsts, not_test_rsts, comparison_rsts, comparison_chks, a_expr_rsts, a_expr_chks, m_expr_rsts, m_expr_chks, atom_rsts, atom_rsts_post, argspec_rsts, argspec_item_rsts, argspec_item_rsts_post, ne_eq]

/-- Parser step for input "foo(1, 2)". -/
theorem ps_i_50 : exprLstLoopF 98 [(.CallOp "foo" [(none, (.Literal (.Number ⟨1, 1⟩ [] []))), (none, (.Literal (.Number ⟨2, 1⟩ [] [])))])] ⟨⟨['f', 'o', 'o', '(', '1', ',', ' ', '2', ')'], 9, [⟨0, 3, Tok.FNCT, "foo"⟩, ⟨3, 4, Tok.LPAR, "("⟩, ⟨4, 5, Tok.NUM, "1"⟩, ⟨5, 6, Tok.COMMA, ","⟩, ⟨7, 8, Tok.NUM, "2"⟩, ⟨8, 9, Tok.RPAR, ")"⟩, ⟨9, 9, Tok.END, ""⟩]⟩, 6⟩ = .ok ((.CallOp "foo" [(none, (.Literal (.Number ⟨1, 1⟩ [] []))), (none, (.Literal (.Number ⟨2, 1⟩ [] [])))]), ⟨⟨['f', 'o', 'o', '(', '1', ',', ' ', '2', ')'], 9, [⟨0, 3, Tok.FNCT, "foo"⟩, ⟨3, 4, Tok.LPAR, "("⟩, ⟨4, 5, Tok.NUM, "1"⟩, ⟨5, 6, Tok.COMMA, ","⟩, ⟨7, 8, Tok.NUM, "2"⟩, ⟨8, 9, Tok.RPAR, ")"⟩, ⟨9, 9, Tok.END, ""⟩]⟩, 6⟩) := by
  rw [exprLstLoopF]
  simp only [tk_i_40, pPeek, pScan, pRewind, scanRewind, peekIn, tokMem, exceptBind_ok, exceptBind_error, exceptMap_ok, exceptMap_error, exceptPure, Option.some.injEq, reduceIte, reduceDIte, reduceCtorEq, Nat.reduceAdd, Nat.reduceSub, Nat.reduceEqDiff, decide_True, decide_False, decide_eq_true_eq, ne_eq, not_false_eq_true, not_true_eq_false, List.cons_append, List.nil_append, List.append_nil, or_self, or_false, false_or, and_self, and_true, true_and, u_expr_chks, u_expr_rsts, expr_rsts, expr_slst_rsts, expr_lst_rsts, and_test_rsts, not_test_rsts, comparison_rsts, comparison_chks, a_expr_rsts, a_expr_chks, m_expr_rsts, m_expr_chks, atom_rsts, atom_rsts_post, argspec_rsts, argspec_item_rsts, argspec_item_rsts_post, ne_eq]

/-- Parser step for input "foo(1, 2)". -/
theorem ps_i_51 : exprLstF 99 ⟨⟨['f', 'o', 'o', '(', '1', ',', ' ', '2', ')'], 0, []⟩, 0⟩ = .ok ((.CallOp "foo" [(none, (.Literal (.Number ⟨1, 1⟩ [] []))), (none, (.Literal (.Number ⟨2, 1⟩ [] [])))]), ⟨⟨['f', 'o', 'o', '(', '1', ',', ' ', '2', ')'], 9, [⟨0, 3, Tok.FNCT, "foo"⟩, ⟨3, 4, Tok.LPAR, "("⟩, ⟨4, 5, Tok.NUM, "1"⟩, ⟨5, 6, Tok.COMMA, ","⟩, ⟨7, 8, Tok.NUM, "2"⟩, ⟨8, 9, Tok.RPAR, ")"⟩, ⟨9, 9, Tok.END, ""⟩]⟩, 6⟩) := by
  rw [exprLstF, ps_i_49]
  rw [exceptBind_ok]
  simp only [ps_i_50, pPeek, pScan, pRewind, scanRewind, peekIn, tokMem, exceptBind_ok, exceptBind_error, exceptMap_ok, exceptMap_error, exceptPure, Option.some.injEq, reduceIte, reduceDIte, reduceCtorEq, Nat.reduceAdd, Nat.reduceSub, Nat.reduceEqDiff, decide_True, decide_False, decide_eq_true_eq, ne_eq, not_false_eq_true, not_true_eq_false, List.cons_append, List.nil_append, List.append_nil, or_self, or_false, false_or, and_self, and_true, true_and, u_expr_chks, u_expr_rsts, expr_rsts, expr_slst_rsts, expr_lst_rsts, and_test_rsts, not_test_rsts, comparison_rsts, comparison_chks, a_expr_rsts, a_expr_chks, m_expr_rsts, m_expr_chks, atom_rsts, atom_rsts_post, argspec_rsts, argspec_item_rsts, argspec_item_rsts_post, ne_eq]

/-- Parser step for input "foo(1, 2)". -/
theorem ps_i_52 : goalF 100 ⟨⟨['f', 'o', 'o', '(', '1', ',', ' ', '2', ')'], 0, []⟩, 0⟩ = .ok ((.CallOp "foo" [(none, (.Literal (.Number ⟨1, 1⟩ [] []))), (none, (.Literal (.Number ⟨2, 1⟩ [] [])))]), ⟨⟨['f', 'o', 'o', '(', '1', ',', ' ', '2', ')'], 9, [⟨0, 3, Tok.FNCT, "foo"⟩, ⟨3, 4, Tok.LPAR, "("⟩, ⟨4, 5, Tok.NUM, "1"⟩, ⟨5, 6, Tok.COMMA, ","⟩, ⟨7, 8, Tok.NUM, "2"⟩, ⟨8, 9, Tok.RPAR, ")"⟩, ⟨9, 9, Tok.END, ""⟩]⟩, 7⟩) := by
  rw [goalF, ps_i_51]
  rw [exceptBind_ok]
  simp only [tk_i_41, pPeek, pScan, pRewind, scanRewind, peekIn, tokMem, exceptBind_ok, exceptBind_error, exceptMap_ok, exceptMap_error, exceptPure, Option.some.injEq, reduceIte, reduceDIte, reduceCtorEq, Nat.reduceAdd, Nat.reduceSub, Nat.reduceEqDiff, decide_True, decide_False, decide_eq_true_eq, ne_eq, not_false_eq_true, not_true_eq_false, List.cons_append, List.nil_append, List.append_nil, or_self, or_false, false_or, and_self, and_true, true_and, u_expr_chks, u_expr_rsts, expr_rsts, expr_slst_rsts, expr_lst_rsts, and_test_rsts, not_test_rsts, comparison_rsts, comparison_chks, a_expr_rsts, a_expr_chks, m_expr_rsts, m_expr_chks, atom_rsts, atom_rsts_post, argspec_rsts, argspec_item_rsts, argspec_item_rsts_post, ne_eq]

/-- Parse of the source text "foo(1, 2)". -/
theorem parse_i : parseExpr 100 "foo(1, 2)" = .ok (.CallOp "foo" [(none, (.Literal (.Number ⟨1, 1⟩ [] []))), (none, (.Literal (.Number ⟨2, 1⟩ [] [])))]) := by
  simp only [parseExpr, pReset, scanReset, sdata13, ps_i_52, exceptMap_ok]

/-- The empty evaluation context: no variables, no functions, and no name
recognized as a built-in CSS function. -/
def calcEmpty : SassCalc := ⟨[], [], fun _ => false⟩

/-- An evaluation context holding one variable `$x` with a unitless
numeric value. -/
def calcX (q : SassQ) : SassCalc := ⟨[("$x", .Number q [] [])], [], fun _ => false⟩

/-- An evaluation context whose built-in CSS function predicate recognizes
the name `foo`. -/
def calcFooCss : SassCalc := ⟨[], [], fun s => s == "foo"⟩

/-- The AST of `"12px/1.5"` (established by `parse_a`). -/
def astA : Expr :=
  .BinaryOp .div (.Literal (.Number ⟨12, 1⟩ ["px"] [])) (.Literal (.Number ⟨3, 2⟩ [] []))

/-- The AST of `"(12px/1.5)"` (established by `parse_b`). -/
def astB : Expr :=
  .Parentheses (.BinaryOp .div (.Literal (.Number ⟨12, 1⟩ ["px"] [])) (.Literal (.Number ⟨3, 2⟩ [] [])))

/-- The AST of `"1 + 12px/1.5"` (established by `parse_c`). -/
def astC : Expr :=
  .BinaryOp .add (.Literal (.Number ⟨1, 1⟩ [] []))
    (.BinaryOp .div (.Literal (.Number ⟨12, 1⟩ ["px"] [])) (.Literal (.Number ⟨3, 2⟩ [] [])))

/-- The AST of `"$x + 1"` (established by `parse_g`). -/
def astG : Expr :=
  .BinaryOp .add (.Variable "$x") (.Literal (.Number ⟨1, 1⟩ [] []))

/-- The AST of `"foo(1, 2)"` (established by `parse_i`). -/
def astI : Expr :=
  .CallOp "foo" [(none, .Literal (.Number ⟨1, 1⟩ [] [])), (none, .Literal (.Number ⟨2, 1⟩ [] []))]

/-- The behaviour of `index` in the words of the claim: the 1-based
position of the first element of the list equal to the value, or boolean
false when no element is equal. -/
def index_spec (lst : List Value) (val : Value) : Value :=
  match lst.findIdx? (fun x => valueBeq x val) with
  | some j => .Number (SassQ.fromNat (j + 1)) [] []
  | none => .Boolean false

/-- A heap with one function dictionary: `f` registered at arity 2 and at
the wildcard arity. -/
def fnHeap : Heap (String × Option Nat) Nat := [[(("f", some 2), 0), (("f", none), 1)]]

theorem dictContains_dictSet [DecidableEq K] (d : PyDict K V) (k : K) (v : V) :
    dictContains (dictSet k v d) k = true := by
  induction d with
  | nil => simp [dictSet, dictContains]
  | cons p rest ih =>
      obtain ⟨k', v'⟩ := p
      by_cases h : k' = k
      · simp [dictSet, h, dictContains]
      · simp only [dictSet, if_neg h, dictContains, List.any_cons] at ih ⊢
        simp [h, ih]

theorem dictGet_dictSet [DecidableEq K] (d : PyDict K V) (k : K) (v : V) :
    dictGet (dictSet k v d) k = some v := by
  induction d with
  | nil => simp [dictSet, dictGet]
  | cons p rest ih =>
      obtain ⟨k', v'⟩ := p
      by_cases h : k' = k
      · simp [dictSet, h, dictGet]
      · simp only [dictSet, if_neg h, dictGet] at ih ⊢
        rw [List.find?_cons_of_neg]
        · exact ih
        · simp [h]

theorem indexLoop_spec (val : Value) (lst : List Value) :
    ∀ i : Nat, indexLoop val lst i =
      (match lst.findIdx? (fun x => valueBeq x val) i with
       | some j => .Number (SassQ.fromNat (j + 1)) [] []
       | none => .Boolean false) := by
  induction lst with
  | nil => intro i; rfl
  | cons x xs ih =>
      intro i
      by_cases h : valueBeq x val
      · simp [indexLoop, h, List.findIdx?_cons]
      · simp [indexLoop, h, List.findIdx?_cons, ih (i + 1)]

theorem evaluate_expression_parse_ok (fuel : Nat) (debug : Bool) (c : SassCalc)
    (expr : String) (cache : AstCache) (ast : Expr)
    (h1 : nsVariable c expr = none) (h2 : cacheLookup cache expr = none)
    (h3 : parseExpr fuel expr = .ok ast) :
    evaluate_expression fuel debug c expr cache =
      (do let r ← evalE c ast false
          .ok (some r, cacheInsert cache expr ast)) := by
  simp only [evaluate_expression, h1, h2, h3]

theorem evaluate_expression_cache_hit (fuel : Nat) (debug : Bool) (c : SassCalc)
    (expr : String) (cache : AstCache) (ast : Expr)
    (h1 : nsVariable c expr = none) (h2 : cacheLookup cache expr = some ast) :
    evaluate_expression fuel debug c expr cache =
      (do let r ← evalE c ast false
          .ok (some r, cache)) := by
  simp only [evaluate_expression, h1, h2]

theorem evaluate_expression_parse_error (fuel : Nat) (debug : Bool) (c : SassCalc)
    (expr : String) (cache : AstCache) (e : SassErr)
    (h1 : nsVariable c expr = none) (h2 : cacheLookup cache expr = none)
    (h3 : parseExpr fuel expr = .error e) :
    evaluate_expression fuel debug c expr cache =
      if debug then .error e else .ok (none, cache) := by
  simp only [evaluate_expression, h1, h2, h3]

/-- Evaluation of the cached AST of `"12px/1.5"` under the empty context:
an unforced division of two literals renders as a literal string. -/
theorem eval_a : evalE calcEmpty astA false =
    .ok (.String "12px / 1.5" .NoQuotes, []) := rfl

/-- Evaluation of the cached AST of `"(12px/1.5)"` under the empty
context: the parentheses force the division, producing `8px`. -/
theorem eval_b : evalE calcEmpty astB false =
    .ok (.Number ⟨8, 1⟩ ["px"] [], []) := rfl

/-- Evaluation of the cached AST of `"1 + 12px/1.5"` under the empty
context: the addition evaluates its children with divide true, so the
division computes and the sum is `9px`. -/
theorem eval_c : evalE calcEmpty astC false =
    .ok (.Number ⟨9, 1⟩ ["px"] [], []) := rfl

/-- Evaluation of the AST of `"foo(1, 2)"` under a context that recognizes
`foo` as a built-in CSS function name: same passthrough string, but no
diagnostic is emitted. -/
theorem eval_i_css : evalE calcFooCss astI false =
    .ok (.String "foo(1, 2)" .NoQuotes, []) := rfl

/-- Full `evaluate_expression` run on `"12px/1.5"`: the unforced division
yields the literal string and the parsed AST is stored in the cache. -/
theorem ee_a : evaluate_expression 100 false calcEmpty "12px/1.5" [] =
    .ok (some (.String "12px / 1.5" .NoQuotes, []), [("12px/1.5", astA)]) := by
  rw [evaluate_expression_parse_ok 100 false calcEmpty "12px/1.5" [] astA rfl rfl parse_a]
  rfl

/-- Full `evaluate_expression` run on `"(12px/1.5)"`: the parenthesized
division computes the quotient `8px`. -/
theorem ee_b : evaluate_expression 100 false calcEmpty "(12px/1.5)" [] =
    .ok (some (.Number ⟨8, 1⟩ ["px"] [], []), [("(12px/1.5)", astB)]) := by
  rw [evaluate_expression_parse_ok 100 false calcEmpty "(12px/1.5)" [] astB rfl rfl parse_b]
  rfl

/-- Full `evaluate_expression` run on `"1 + 12px/1.5"`: the addition
forces the division and the result is the computed `9px`. -/
theorem ee_c : evaluate_expression 100 false calcEmpty "1 + 12px/1.5" [] =
    .ok (some (.Number ⟨9, 1⟩ ["px"] [], []), [("1 + 12px/1.5", astC)]) := by
  rw [evaluate_expression_parse_ok 100 false calcEmpty "1 + 12px/1.5" [] astC rfl rfl parse_c]
  rfl

/-- Full `evaluate_expression` run on `"foo(1, 2)"` under the empty
context: the unknown call renders as the passthrough string `foo(1, 2)`
with one diagnostic. -/
theorem ee_i : evaluate_expression 100 false calcEmpty "foo(1, 2)" [] =
    .ok (some (.String "foo(1, 2)" .NoQuotes, ["no such function"]),
         [("foo(1, 2)", astI)]) := by
  rw [evaluate_expression_parse_ok 100 false calcEmpty "foo(1, 2)" [] astI rfl rfl parse_i]
  rfl

/-- An error in one operand of an operand list aborts the whole list even
when every earlier operand already evaluated successfully: the list
evaluation of `AnyOp`/`AllOp` runs every operand, it never short-circuits. -/
theorem evalES_append_error (c : SassCalc) (e : Expr) (post : List Expr)
    (err : SassErr) :
    ∀ (pre : List Expr) (vs : List Value) (ws : List String),
      evalES c true pre = .ok (vs, ws) → evalE c e true = .error err →
      evalES c true (pre ++ e :: post) = .error err
  | [], _, _, _, he => by
      rw [List.nil_append, evalES, he]
      rfl
  | x :: pre, vs, ws, hp, he => by
      rw [evalES] at hp
      rw [List.cons_append, evalES]
      cases hx : evalE c x true with
      | error er =>
          rw [hx] at hp
          exact Except.noConfusion
            (show (Except.error er : Except SassErr (List Value × List String)) =
               Except.ok (vs, ws) from hp)
      | ok p =>
          obtain ⟨v, w⟩ := p
          rw [hx] at hp
          cases hrest : evalES c true pre with
          | error er =>
              rw [hrest] at hp
              exact Except.noConfusion
                (show (Except.error er : Except SassErr (List Value × List String)) =
                   Except.ok (vs, ws) from hp)
          | ok q =>
              obtain ⟨vs', ws'⟩ := q
              rw [evalES_append_error c e post err pre vs' ws' hrest he]
              rfl

/-- C1: division ambiguity.  With the divide flag false and two literal
operands, a division node renders as the literal string
`"<left> / <right>"` instead of dividing; parentheses re-evaluate their
contents with divide true; with divide true the numeric quotient is
computed.  Concretely, `"12px/1.5"` evaluates to the string
`"12px / 1.5"`, `"(12px/1.5)"` to the quotient `8px`, and
`"1 + 12px/1.5"` to the computed `9px`. -/
theorem C1_division_ambiguity :
    (∀ (c : SassCalc) (l r : Expr) (vl vr : Value) (wl wr : List String),
       isLiteral l = true → isLiteral r = true →
       evalE c l true = .ok (vl, wl) → evalE c r true = .ok (vr, wr) →
       evalE c (.BinaryOp .div l r) false =
         .ok (.String (renderValue vl ++ " / " ++ renderValue vr) .NoQuotes,
              wl ++ wr))
    ∧ (∀ (c : SassCalc) (e : Expr) (d : Bool),
         evalE c (.Parentheses e) d = evalE c e true)
    ∧ (∀ (c : SassCalc) (l r : Expr) (vl vr : Value) (wl wr : List String),
         evalE c l true = .ok (vl, wl) → evalE c r true = .ok (vr, wr) →
         evalE c (.BinaryOp .div l r) true =
           (do let v ← binaryApply .div vl vr
               .ok (v, wl ++ wr)))
    ∧ evaluate_expression 100 false calcEmpty "12px/1.5" [] =
        .ok (some (.String "12px / 1.5" .NoQuotes, []), [("12px/1.5", astA)])
    ∧ evaluate_expression 100 false calcEmpty "(12px/1.5)" [] =
        .ok (some (.Number ⟨8, 1⟩ ["px"] [], []), [("(12px/1.5)", astB)])
    ∧ renderValue (.Number ⟨8, 1⟩ ["px"] []) = "8px"
    ∧ evaluate_expression 100 false calcEmpty "1 + 12px/1.5" [] =
        .ok (some (.Number ⟨9, 1⟩ ["px"] [], []), [("1 + 12px/1.5", astC)])
    ∧ renderValue (.Number ⟨9, 1⟩ ["px"] []) = "9px" := by
  refine ⟨?_, ?_, ?_, ee_a, ee_b, rfl, ee_c, rfl⟩
  · intro c l r vl vr wl wr hl hr el er
    simp [evalE, el, er, hl, hr, exceptBind_ok]
  · intro c e d
    rfl
  · intro c l r vl vr wl wr el er
    simp [evalE, el, er, exceptBind_ok]

/-- C1 witness: the general unforced-division rule applied at the concrete
literal operands `12px` and `1.5`. -/
theorem C1_witness :
    evalE calcEmpty
        (.BinaryOp .div (.Literal (.Number ⟨12, 1⟩ ["px"] []))
          (.Literal (.Number ⟨3, 2⟩ [] []))) false =
      .ok (.String "12px / 1.5" .NoQuotes, []) := by
  have h := C1_division_ambiguity.1 calcEmpty
    (.Literal (.Number ⟨12, 1⟩ ["px"] [])) (.Literal (.Number ⟨3, 2⟩ [] []))
    (.Number ⟨12, 1⟩ ["px"] []) (.Number ⟨3, 2⟩ [] []) [] [] rfl rfl rfl rfl
  exact h

/-- C2: scope write-in-place.  A child scope created by `new_child` shares
the parent link by reference; setting a key that the parent link already
contains mutates that link in place, so the parent observes the new value,
while setting a key present in no link creates it in the fresh innermost
link, invisible to the parent. -/
theorem C2_scope_write_in_place :
    ∀ (d0 : PyDict String Value) (k : String) (v : Value),
      new_child ⟨[.dict 0]⟩ [d0] = (⟨[.dict 1, .dict 0]⟩, [d0, []])
      ∧ (dictContains d0 k = true →
           scopeSet [d0, []] ⟨[.dict 1, .dict 0]⟩ k v = [dictSet k v d0, []]
           ∧ scopeGet [dictSet k v d0, []] ⟨[.dict 0]⟩ k = some v)
      ∧ (dictContains d0 k = false →
           scopeSet [d0, []] ⟨[.dict 1, .dict 0]⟩ k v = [d0, [(k, v)]]
           ∧ scopeGet [d0, [(k, v)]] ⟨[.dict 0]⟩ k = none) := by
  intro d0 k v
  have hc0 : dictContains ([] : PyDict String Value) k = false := rfl
  refine ⟨rfl, fun h => ⟨?_, ?_⟩, fun h => ⟨?_, ?_⟩⟩
  · simp [scopeSet, scopeSetLoop, heapGet, heapSet, hc0, h]
  · simp [scopeGet, scopeGetLoop, heapGet, dictContains_dictSet, dictGet_dictSet]
  · simp [scopeSet, scopeSetLoop, heapGet, heapSet, hc0, h, dictSet]
  · simp [scopeGet, scopeGetLoop, heapGet, h]

/-- C2 witness: reassigning `$x` (present in the parent link) through the
child updates the parent dictionary in place; a new `$y` lands in the
child-only link and the parent cannot see it. -/
theorem C2_witness :
    scopeSet [[("$x", Value.Null)], []] ⟨[.dict 1, .dict 0]⟩ "$x" (.Boolean true) =
      [[("$x", Value.Boolean true)], []]
    ∧ scopeGet [[("$x", Value.Boolean true)], []] ⟨[.dict 0]⟩ "$x" =
        some (.Boolean true)
    ∧ scopeSet [[("$x", Value.Null)], []] ⟨[.dict 1, .dict 0]⟩ "$y" (.Boolean true) =
        [[("$x", Value.Null)], [("$y", Value.Boolean true)]]
    ∧ scopeGet [[("$x", Value.Null)], [("$y", Value.Boolean true)]] ⟨[.dict 0]⟩ "$y" =
        none := by
  have h1 := (C2_scope_write_in_place [("$x", Value.Null)] "$x" (.Boolean true)).2.1 rfl
  have h2 := (C2_scope_write_in_place [("$x", Value.Null)] "$y" (.Boolean true)).2.2 rfl
  exact ⟨h1.1, h1.2, h2.1, h2.2⟩

/-- C3: unknown function passthrough.  When the `(name, arity)` lookup
fails, a call never raises: it renders the passthrough string
`name(arg, arg, key: value, ...)` from the evaluated arguments, and the
diagnostic is emitted exactly when the name is not a recognized built-in
CSS function name.  Concretely `"foo(1, 2)"` renders `foo(1, 2)`. -/
theorem C3_unknown_function_passthrough :
    (∀ (c : SassCalc) (name : String) (argpairs : List (Option String × Expr))
       (pairs : List (Option String × Value)) (w : List String) (d : Bool),
       function_lookup c name argpairs.length = none →
       evalArgs c argpairs = .ok (pairs, w) →
       evalE c (.CallOp name argpairs) d =
         .ok (.String
                (name ++ "(" ++ String.intercalate ", " (pairs.map renderArg) ++ ")")
                .NoQuotes,
              w ++ (if c.is_builtin_css_function name then []
                    else ["no such function"])))
    ∧ evaluate_expression 100 false calcEmpty "foo(1, 2)" [] =
        .ok (some (.String "foo(1, 2)" .NoQuotes, ["no such function"]),
             [("foo(1, 2)", astI)])
    ∧ evalE calcFooCss astI false = .ok (.String "foo(1, 2)" .NoQuotes, []) := by
  refine ⟨?_, ee_i, eval_i_css⟩
  intro c name argpairs pairs w d h1 h2
  simp [evalE, h2, h1, exceptBind_ok]

/-- C3 witness: the passthrough rule applied at the concrete unknown call
`bar(7)` in the empty context. -/
theorem C3_witness :
    evalE calcEmpty (.CallOp "bar" [(none, .Literal (.Number ⟨7, 1⟩ [] []))]) true =
      .ok (.String "bar(7)" .NoQuotes, ["no such function"]) := by
  have h := C3_unknown_function_passthrough.1 calcEmpty "bar"
    [(none, .Literal (.Number ⟨7, 1⟩ [] []))] [(none, .Number ⟨7, 1⟩ [] [])] [] true
    rfl rfl
  exact h

/-- C4: logical non-short-circuit.  `AnyOp`, `AllOp` and `NotOp` evaluate
every operand with divide true and wrap the or/and/not of the operand
truthinesses; an error in a later operand aborts the whole node even when
an earlier operand already decided the truth value. -/
theorem C4_logical_non_short_circuit :
    (∀ (c : SassCalc) (ops : List Expr) (d : Bool),
       evalE c (.AnyOp ops) d =
         (do let (vs, w) ← evalES c true ops
             .ok (.Boolean (vs.any truthy), w)))
    ∧ (∀ (c : SassCalc) (ops : List Expr) (d : Bool),
       evalE c (.AllOp ops) d =
         (do let (vs, w) ← evalES c true ops
             .ok (.Boolean (vs.all truthy), w)))
    ∧ (∀ (c : SassCalc) (e : Expr) (d : Bool),
       evalE c (.NotOp e) d =
         (do let (v, w) ← evalE c e true
             .ok (.Boolean (!truthy v), w)))
    ∧ (∀ (c : SassCalc) (pre : List Expr) (e : Expr) (post : List Expr)
         (err : SassErr) (vs : List Value) (ws : List String),
       evalES c true pre = .ok (vs, ws) → evalE c e true = .error err →
       evalE c (.AnyOp (pre ++ e :: post)) true = .error err
       ∧ evalE c (.AllOp (pre ++ e :: post)) true = .error err) := by
  refine ⟨fun c ops d => rfl, fun c ops d => rfl, fun c e d => rfl, ?_⟩
  intro c pre e post err vs ws hp he
  have h := evalES_append_error c e post err pre vs ws hp he
  constructor <;> · rw [evalE, h]; rfl

/-- C4 witness: with a truthy first operand already decided, a missing
variable in the second operand still aborts the `AnyOp`. -/
theorem C4_witness :
    evalE calcEmpty (.AnyOp [.Literal (.Boolean true), .Variable "$missing"]) true =
      .error (.KeyErr "$missing")
    ∧ truthy (Value.Boolean true) = true := by
  have h := (C4_logical_non_short_circuit.2.2.2 calcEmpty
    [.Literal (.Boolean true)] (.Variable "$missing") [] (.KeyErr "$missing")
    [.Boolean true] [] rfl rfl).1
  exact ⟨h, rfl⟩

/-- C5: function arity dispatch.  With an explicit arity the exact
`(normalized name, arity)` registration wins; otherwise the wildcard
`(normalized name, None)` registration is used; when neither exists the
lookup yields nothing (the `KeyError` of an undefined function); hyphens
and underscores in the name are interchangeable. -/
theorem C5_function_arity_dispatch {F : Type} :
    (∀ (h : Heap (String × Option Nat) F) (cm : VariableScope) (name : String)
       (a : Nat) (f : F),
       scopeGet h cm (normalize_var name, some a) = some f →
       get_callable h cm name (some a) = some f)
    ∧ (∀ (h : Heap (String × Option Nat) F) (cm : VariableScope) (name : String)
         (a : Nat),
       scopeGet h cm (normalize_var name, some a) = none →
       get_callable h cm name (some a) = scopeGet h cm (normalize_var name, none))
    ∧ (∀ (h : Heap (String × Option Nat) F) (cm : VariableScope) (s t : String)
         (a : Option Nat),
       normalize_var s = normalize_var t →
       get_callable h cm s a = get_callable h cm t a)
    ∧ normalize_var "foo_bar" = normalize_var "foo-bar" := by
  refine ⟨?_, ?_, ?_, rfl⟩
  · intro h cm name a f hs
    simp [get_callable, hs]
  · intro h cm name a hs
    simp [get_callable, hs]
  · intro h cm s t a hst
    simp [get_callable, hst]

/-- C5 witness: over a chain holding `f` at arity 2 and at the wildcard,
arity 2 takes the exact registration, arity 3 falls back to the wildcard,
an unknown name finds nothing, and `f_x`/`f-x` resolve alike. -/
theorem C5_witness :
    get_callable fnHeap ⟨[.dict 0]⟩ "f" (some 2) = some 0
    ∧ get_callable fnHeap ⟨[.dict 0]⟩ "f" (some 3) = some 1
    ∧ get_callable fnHeap ⟨[.dict 0]⟩ "g" (some 1) = none
    ∧ get_callable fnHeap ⟨[.dict 0]⟩ "f_x" (some 9) =
        get_callable fnHeap ⟨[.dict 0]⟩ "f-x" (some 9) := by
  refine ⟨C5_function_arity_dispatch.1 fnHeap ⟨[.dict 0]⟩ "f" 2 0 rfl, ?_, ?_,
    C5_function_arity_dispatch.2.2.1 fnHeap ⟨[.dict 0]⟩ "f_x" "f-x" (some 9) rfl⟩
  · rw [C5_function_arity_dispatch.2.1 fnHeap ⟨[.dict 0]⟩ "f" 3 rfl]
    rfl
  · rw [C5_function_arity_dispatch.2.1 fnHeap ⟨[.dict 0]⟩ "g" 1 rfl]
    rfl

/-- C6: cache idempotence and freshness.  The first successful parse
stores the AST keyed by the exact source text; a later evaluation of the
same text reuses the cached AST without re-parsing (the result does not
depend on the parser fuel at all on a cache hit) and leaves the cache
unchanged; changing the namespace between two evaluations leaves the
cached AST unchanged but changes the result when the expression reads the
changed variable. -/
theorem C6_cache_idempotence_freshness :
    (∀ (fuel : Nat) (debug : Bool) (c : SassCalc) (expr : String)
       (cache : AstCache) (ast : Expr),
       nsVariable c expr = none → cacheLookup cache expr = none →
       parseExpr fuel expr = .ok ast →
       evaluate_expression fuel debug c expr cache =
         (do let r ← evalE c ast false
             .ok (some r, cacheInsert cache expr ast)))
    ∧ (∀ (fuel : Nat) (debug : Bool) (c : SassCalc) (expr : String)
         (cache : AstCache) (ast : Expr),
       nsVariable c expr = none → cacheLookup cache expr = some ast →
       evaluate_expression fuel debug c expr cache =
         (do let r ← evalE c ast false
             .ok (some r, cache)))
    ∧ (∀ (f1 f2 : Nat) (debug : Bool) (c : SassCalc) (expr : String)
         (cache : AstCache) (ast : Expr),
       nsVariable c expr = none → cacheLookup cache expr = some ast →
       evaluate_expression f1 debug c expr cache =
         evaluate_expression f2 debug c expr cache)
    ∧ evaluate_expression 100 false (calcX ⟨1, 1⟩) "$x + 1" [("$x + 1", astG)] =
        .ok (some (.Number ⟨2, 1⟩ [] [], []), [("$x + 1", astG)])
    ∧ evaluate_expression 100 false (calcX ⟨2, 1⟩) "$x + 1" [("$x + 1", astG)] =
        .ok (some (.Number ⟨3, 1⟩ [] [], []), [("$x + 1", astG)]) := by
  refine ⟨evaluate_expression_parse_ok, evaluate_expression_cache_hit, ?_, ?_, ?_⟩
  · intro f1 f2 debug c expr cache ast h1 h2
    rw [evaluate_expression_cache_hit f1 debug c expr cache ast h1 h2,
        evaluate_expression_cache_hit f2 debug c expr cache ast h1 h2]
  · rw [evaluate_expression_cache_hit 100 false (calcX ⟨1, 1⟩) "$x + 1"
      [("$x + 1", astG)] astG rfl rfl]
    rfl
  · rw [evaluate_expression_cache_hit 100 false (calcX ⟨2, 1⟩) "$x + 1"
      [("$x + 1", astG)] astG rfl rfl]
    rfl

/-- C6 witness: with the AST of `five` already cached, evaluation succeeds
even with parser fuel 0 — the cached AST is reused, nothing is re-parsed —
and the cache comes back unchanged. -/
theorem C6_witness :
    evaluate_expression 0 false calcEmpty "five"
        [("five", .Literal (.Number ⟨5, 1⟩ [] []))] =
      evaluate_expression 100 false calcEmpty "five"
        [("five", .Literal (.Number ⟨5, 1⟩ [] []))]
    ∧ evaluate_expression 0 false calcEmpty "five"
        [("five", .Literal (.Number ⟨5, 1⟩ [] []))] =
      .ok (some (.Number ⟨5, 1⟩ [] [], []),
           [("five", .Literal (.Number ⟨5, 1⟩ [] []))]) := by
  refine ⟨C6_cache_idempotence_freshness.2.2.1 0 100 false calcEmpty "five"
    [("five", .Literal (.Number ⟨5, 1⟩ [] []))] (.Literal (.Number ⟨5, 1⟩ [] []))
    rfl rfl, ?_⟩
  rw [C6_cache_idempotence_freshness.2.1 0 false calcEmpty "five"
    [("five", .Literal (.Number ⟨5, 1⟩ [] []))] (.Literal (.Number ⟨5, 1⟩ [] []))
    rfl rfl]
  rfl

/-- C7: error fallback policy.  A parse error is swallowed by
`evaluate_expression` (no result, cache unchanged) unless the debug flag
is set, in which case it propagates; `calculate` then falls back to plain
`$variable` substitution over the raw text, so the malformed `"$x !"`
still emits `1 !` when `$x` is 1. -/
theorem C7_error_fallback :
    (∀ (fuel : Nat) (c : SassCalc) (expr : String) (cache : AstCache)
       (e : SassErr),
       nsVariable c expr = none → cacheLookup cache expr = none →
       parseExpr fuel expr = .error e →
       evaluate_expression fuel false c expr cache = .ok (none, cache))
    ∧ (∀ (fuel : Nat) (c : SassCalc) (expr : String) (cache : AstCache)
         (e : SassErr),
       nsVariable c expr = none → cacheLookup cache expr = none →
       parseExpr fuel expr = .error e →
       evaluate_expression fuel true c expr cache = .error e)
    ∧ calculate 101 false (calcX ⟨1, 1⟩) "$x !" [] = .ok (.text "1 !", []) := by
  refine ⟨?_, ?_, ?_⟩
  · intro fuel c expr cache e h1 h2 h3
    rw [evaluate_expression_parse_error fuel false c expr cache e h1 h2 h3]
    rfl
  · intro fuel c expr cache e h1 h2 h3
    rw [evaluate_expression_parse_error fuel true c expr cache e h1 h2 h3]
    rfl
  · have hee : evaluate_expression 100 false (calcX ⟨1, 1⟩) "$x !" [] =
        .ok (none, []) := by
      rw [evaluate_expression_parse_error 100 false (calcX ⟨1, 1⟩) "$x !" []
        (.SyntaxErr "Bad token found") rfl rfl parse_h]
      rfl
    have hglob : do_glob_math 100 false (calcX ⟨1, 1⟩) "$x !" [] =
        .ok ("$x !", []) := rfl
    have hav : apply_vars 100 false (calcX ⟨1, 1⟩) "$x !" [] =
        .ok ("1 !", []) := rfl
    simp only [calculate, hglob, hee, hav, exceptBind_ok]

/-- C7 witness: the swallow and propagate rules applied at the concrete
unparsable text `"$x !"`. -/
theorem C7_witness :
    evaluate_expression 100 false calcEmpty "$x !" [] = .ok (none, [])
    ∧ evaluate_expression 100 true calcEmpty "$x !" [] =
        .error (.SyntaxErr "Bad token found") := by
  exact ⟨C7_error_fallback.1 100 calcEmpty "$x !" [] (.SyntaxErr "Bad token found")
           rfl rfl parse_h,
         C7_error_fallback.2.1 100 calcEmpty "$x !" [] (.SyntaxErr "Bad token found")
           rfl rfl parse_h⟩

/-- C8: minus disambiguation, amended.  The binary-minus token `SUB`
requires trailing whitespace (`-` followed by a whitespace character), so
`"1 - 2"` parses as a subtraction while `"1-2"` lexes `-2` as a unary
sign and parses as the two-element space list `[1, -2]`, not as a
subtraction; `"-moz"` lexes as one identifier token. -/
theorem C8_minus_disambiguation :
    matchTok .SUB "1 - 2".data 2 = some 2
    ∧ matchTok .SUB "1-2".data 1 = none
    ∧ matchTok .SIGN "1-2".data 1 = some 1
    ∧ matchTok .ID "-moz".data 0 = some 4
    ∧ parseExpr 100 "1 - 2" =
        .ok (.BinaryOp .sub (.Literal (.Number ⟨1, 1⟩ [] []))
              (.Literal (.Number ⟨2, 1⟩ [] [])))
    ∧ parseExpr 100 "-moz" = .ok (.Literal (.String "-moz" .NoQuotes))
    ∧ parseExpr 100 "1-2" =
        .ok (.ListLiteral
              [.Literal (.Number ⟨1, 1⟩ [] []),
               .UnaryOp .neg (.Literal (.Number ⟨2, 1⟩ [] []))] false) :=
  ⟨rfl, rfl, rfl, rfl, parse_e, parse_f, parse_d⟩

/-- C8 counterexample to the claimed reading: `"1-2"` does not parse as a
subtraction; it parses as the space list `[1, -2]`. -/
theorem C8_counterexample :
    parseExpr 100 "1-2" =
      .ok (.ListLiteral
            [.Literal (.Number ⟨1, 1⟩ [] []),
             .UnaryOp .neg (.Literal (.Number ⟨2, 1⟩ [] []))] false)
    ∧ parseExpr 100 "1-2" ≠
        .ok (.BinaryOp .sub (.Literal (.Number ⟨1, 1⟩ [] []))
              (.Literal (.Number ⟨2, 1⟩ [] []))) := by
  refine ⟨parse_d, ?_⟩
  intro hc
  rw [parse_d] at hc
  exact Expr.noConfusion (Except.ok.inj hc)

/-- C9: multi-parent namespace derivation.  `derive_from` with two or more
parents passes the generator itself as the single inherited chain link;
that link never contains any string key, so every lookup in the derived
scope fails (`KeyError`) no matter what the parents hold — the parents are
never consulted at all. -/
theorem C9_derive_from_multi :
    ∀ (h : Heap String Value) (k : String),
      derive_from_multi h = (⟨[.dict h.length, .gen]⟩, h ++ [[]])
      ∧ scopeGet (h ++ [[]]) ⟨[.dict h.length, .gen]⟩ k = none := by
  intro h k
  refine ⟨rfl, ?_⟩
  simp only [scopeGet, scopeGetLoop, heapGet]
  rw [List.get?_concat_length]
  simp [dictContains]

/-- C10: the `index` built-in returns the 1-based position (as a Number)
of the first element equal to the value, and boolean false — not zero and
not an error — when no element is equal; `index_spec` states this in the
words of the claim via `List.findIdx?`. -/
theorem C10_index :
    (∀ (lst : List Value) (val : Value), indexFn lst val = index_spec lst val)
    ∧ (∀ (lst : List Value) (val : Value) (j : Nat),
       lst.findIdx? (fun x => valueBeq x val) = some j →
       indexFn lst val = .Number (SassQ.fromNat (j + 1)) [] [])
    ∧ (∀ (lst : List Value) (val : Value),
       lst.findIdx? (fun x => valueBeq x val) = none →
       indexFn lst val = .Boolean false) := by
  have base : ∀ (lst : List Value) (val : Value),
      indexFn lst val = index_spec lst val := by
    intro lst val
    rw [indexFn, indexLoop_spec val lst 0]
    rfl
  refine ⟨base, ?_, ?_⟩
  · intro lst val j hj
    rw [base, index_spec, hj]
  · intro lst val hn
    rw [base, index_spec, hn]

/-- C10 witness: in the list `(1, 2)` the value 2 sits at position 2 and
the value 5 yields boolean false. -/
theorem C10_witness :
    indexFn [.Number ⟨1, 1⟩ [] [], .Number ⟨2, 1⟩ [] []] (.Number ⟨2, 1⟩ [] []) =
      .Number (SassQ.fromNat 2) [] []
    ∧ indexFn [.Number ⟨1, 1⟩ [] [], .Number ⟨2, 1⟩ [] []] (.Number ⟨5, 1⟩ [] []) =
      .Boolean false := by
  exact ⟨C10_index.2.1 [.Number ⟨1, 1⟩ [] [], .Number ⟨2, 1⟩ [] []]
           (.Number ⟨2, 1⟩ [] []) 1 rfl,
         C10_index.2.2 [.Number ⟨1, 1⟩ [] [], .Number ⟨2, 1⟩ [] []]
           (.Number ⟨5, 1⟩ [] []) rfl⟩
